import Mathlib

/-!
# V3D QPU instruction codec, assembler and validator

A shallow embedding of `v3dAssembler.h` (the single-header port of Mesa's
`broadcom/qpu` code) together with theorems about it.

Conventions of the embedding:

* C enumerations are natural numbers; every enumerator is an `abbrev` that
  keeps its C name and value, so the arithmetic the source performs on them
  (`cond_map`, `(op >> 4) & 0x3`, table indices stored into enum fields) is
  written exactly as in the source.
* `v3d_uint8`, `v3d_uint32` and `v3d_uint64` values are natural numbers;
  wrap-around is written out where the source can reach it.
* `v3d_bool` is `typedef char`.  Record fields of that type are `Bool`; where
  the source assigns an integer expression to such a field the conversion
  through `char` is `v3d_bool_of_int`.
* A function that returns `FALSE` returns `none`; a function that fills an
  out-parameter and returns `TRUE` returns `some` of the filled value.
* `struct v3d_qpu_instr` holds its `alu` and `branch` members in a union; the
  embedding keeps both members side by side and the `type` tag says which one
  the source reads.
-/

namespace V3D

/-! ## Device descriptor and instruction records -/

/-- Chip descriptor: `struct v3d_device_info`. -/
structure v3d_device_info where
  ver : Nat
  rev : Nat := 0
  vpm_size : Int := 0
  qpu_count : Int := 0
  has_accumulators : Bool := true
deriving DecidableEq, Repr

/-- Signal bit-set: `struct v3d_qpu_sig`, one field per one-bit member, in declaration order. -/
structure v3d_qpu_sig where
  thrsw : Bool := false
  ldunif : Bool := false
  ldunifa : Bool := false
  ldunifrf : Bool := false
  ldunifarf : Bool := false
  ldtmu : Bool := false
  ldvary : Bool := false
  ldvpm : Bool := false
  ldtlb : Bool := false
  ldtlbu : Bool := false
  ucb : Bool := false
  rotate : Bool := false
  wrtmuc : Bool := false
  small_imm_a : Bool := false
  small_imm_b : Bool := false
  small_imm_c : Bool := false
  small_imm_d : Bool := false
deriving DecidableEq, Repr

/-- The value read from a one-bit member of `struct v3d_qpu_sig` where the
source uses it as a number.  The members are declared `v3d_bool x:1` with
`typedef char v3d_bool`; plain `char` is taken as signed (as with GCC on x86-64
and m68k), so the one-bit field holds 0 or -1: a set bit reads -1.  In a
condition the member is tested against zero, so there a set bit is true. -/
def sig_bit_value (b : Bool) : Int := if b then -1 else 0

/- enum v3d_qpu_cond -/
abbrev V3D_QPU_COND_NONE : Nat := 0
abbrev V3D_QPU_COND_IFA : Nat := 1
abbrev V3D_QPU_COND_IFB : Nat := 2
abbrev V3D_QPU_COND_IFNA : Nat := 3
abbrev V3D_QPU_COND_IFNB : Nat := 4

/- enum v3d_qpu_pf -/
abbrev V3D_QPU_PF_NONE : Nat := 0
abbrev V3D_QPU_PF_PUSHZ : Nat := 1
abbrev V3D_QPU_PF_PUSHN : Nat := 2
abbrev V3D_QPU_PF_PUSHC : Nat := 3

/- enum v3d_qpu_uf -/
abbrev V3D_QPU_UF_NONE : Nat := 0
abbrev V3D_QPU_UF_ANDZ : Nat := 1
abbrev V3D_QPU_UF_ANDNZ : Nat := 2
abbrev V3D_QPU_UF_NORNZ : Nat := 3
abbrev V3D_QPU_UF_NORZ : Nat := 4
abbrev V3D_QPU_UF_ANDN : Nat := 5
abbrev V3D_QPU_UF_ANDNN : Nat := 6
abbrev V3D_QPU_UF_NORNN : Nat := 7
abbrev V3D_QPU_UF_NORN : Nat := 8
abbrev V3D_QPU_UF_ANDC : Nat := 9
abbrev V3D_QPU_UF_ANDNC : Nat := 10
abbrev V3D_QPU_UF_NORNC : Nat := 11
abbrev V3D_QPU_UF_NORC : Nat := 12

/- enum v3d_qpu_waddr -/
abbrev V3D_QPU_WADDR_R0 : Nat := 0
abbrev V3D_QPU_WADDR_R1 : Nat := 1
abbrev V3D_QPU_WADDR_R2 : Nat := 2
abbrev V3D_QPU_WADDR_R3 : Nat := 3
abbrev V3D_QPU_WADDR_R4 : Nat := 4
abbrev V3D_QPU_WADDR_R5 : Nat := 5
abbrev V3D_QPU_WADDR_QUAD : Nat := 5
abbrev V3D_QPU_WADDR_NOP : Nat := 6
abbrev V3D_QPU_WADDR_TLB : Nat := 7
abbrev V3D_QPU_WADDR_TLBU : Nat := 8
abbrev V3D_QPU_WADDR_TMU : Nat := 9
abbrev V3D_QPU_WADDR_UNIFA : Nat := 9
abbrev V3D_QPU_WADDR_TMUL : Nat := 10
abbrev V3D_QPU_WADDR_TMUD : Nat := 11
abbrev V3D_QPU_WADDR_TMUA : Nat := 12
abbrev V3D_QPU_WADDR_TMUAU : Nat := 13
abbrev V3D_QPU_WADDR_VPM : Nat := 14
abbrev V3D_QPU_WADDR_VPMU : Nat := 15
abbrev V3D_QPU_WADDR_SYNC : Nat := 16
abbrev V3D_QPU_WADDR_SYNCU : Nat := 17
abbrev V3D_QPU_WADDR_SYNCB : Nat := 18
abbrev V3D_QPU_WADDR_RECIP : Nat := 19
abbrev V3D_QPU_WADDR_RSQRT : Nat := 20
abbrev V3D_QPU_WADDR_EXP : Nat := 21
abbrev V3D_QPU_WADDR_LOG : Nat := 22
abbrev V3D_QPU_WADDR_SIN : Nat := 23
abbrev V3D_QPU_WADDR_RSQRT2 : Nat := 24
abbrev V3D_QPU_WADDR_TMUC : Nat := 32
abbrev V3D_QPU_WADDR_TMUS : Nat := 33
abbrev V3D_QPU_WADDR_TMUT : Nat := 34
abbrev V3D_QPU_WADDR_TMUR : Nat := 35
abbrev V3D_QPU_WADDR_TMUI : Nat := 36
abbrev V3D_QPU_WADDR_TMUB : Nat := 37
abbrev V3D_QPU_WADDR_TMUDREF : Nat := 38
abbrev V3D_QPU_WADDR_TMUOFF : Nat := 39
abbrev V3D_QPU_WADDR_TMUSCM : Nat := 40
abbrev V3D_QPU_WADDR_TMUSF : Nat := 41
abbrev V3D_QPU_WADDR_TMUSLOD : Nat := 42
abbrev V3D_QPU_WADDR_TMUHS : Nat := 43
abbrev V3D_QPU_WADDR_TMUHSCM : Nat := 44
abbrev V3D_QPU_WADDR_TMUHSF : Nat := 45
abbrev V3D_QPU_WADDR_TMUHSLOD : Nat := 46
abbrev V3D_QPU_WADDR_R5REP : Nat := 55
abbrev V3D_QPU_WADDR_REP : Nat := 55

/- enum v3d_qpu_add_op -/
abbrev V3D_QPU_A_FADD : Nat := 0
abbrev V3D_QPU_A_FADDNF : Nat := 1
abbrev V3D_QPU_A_VFPACK : Nat := 2
abbrev V3D_QPU_A_ADD : Nat := 3
abbrev V3D_QPU_A_SUB : Nat := 4
abbrev V3D_QPU_A_FSUB : Nat := 5
abbrev V3D_QPU_A_MIN : Nat := 6
abbrev V3D_QPU_A_MAX : Nat := 7
abbrev V3D_QPU_A_UMIN : Nat := 8
abbrev V3D_QPU_A_UMAX : Nat := 9
abbrev V3D_QPU_A_SHL : Nat := 10
abbrev V3D_QPU_A_SHR : Nat := 11
abbrev V3D_QPU_A_ASR : Nat := 12
abbrev V3D_QPU_A_ROR : Nat := 13
abbrev V3D_QPU_A_FMIN : Nat := 14
abbrev V3D_QPU_A_FMAX : Nat := 15
abbrev V3D_QPU_A_VFMIN : Nat := 16
abbrev V3D_QPU_A_AND : Nat := 17
abbrev V3D_QPU_A_OR : Nat := 18
abbrev V3D_QPU_A_XOR : Nat := 19
abbrev V3D_QPU_A_VADD : Nat := 20
abbrev V3D_QPU_A_VSUB : Nat := 21
abbrev V3D_QPU_A_NOT : Nat := 22
abbrev V3D_QPU_A_NEG : Nat := 23
abbrev V3D_QPU_A_FLAPUSH : Nat := 24
abbrev V3D_QPU_A_FLBPUSH : Nat := 25
abbrev V3D_QPU_A_FLPOP : Nat := 26
abbrev V3D_QPU_A_RECIP : Nat := 27
abbrev V3D_QPU_A_SETMSF : Nat := 28
abbrev V3D_QPU_A_SETREVF : Nat := 29
abbrev V3D_QPU_A_NOP : Nat := 30
abbrev V3D_QPU_A_TIDX : Nat := 31
abbrev V3D_QPU_A_EIDX : Nat := 32
abbrev V3D_QPU_A_LR : Nat := 33
abbrev V3D_QPU_A_VFLA : Nat := 34
abbrev V3D_QPU_A_VFLNA : Nat := 35
abbrev V3D_QPU_A_VFLB : Nat := 36
abbrev V3D_QPU_A_VFLNB : Nat := 37
abbrev V3D_QPU_A_FXCD : Nat := 38
abbrev V3D_QPU_A_XCD : Nat := 39
abbrev V3D_QPU_A_FYCD : Nat := 40
abbrev V3D_QPU_A_YCD : Nat := 41
abbrev V3D_QPU_A_MSF : Nat := 42
abbrev V3D_QPU_A_REVF : Nat := 43
abbrev V3D_QPU_A_VDWWT : Nat := 44
abbrev V3D_QPU_A_IID : Nat := 45
abbrev V3D_QPU_A_SAMPID : Nat := 46
abbrev V3D_QPU_A_BARRIERID : Nat := 47
abbrev V3D_QPU_A_TMUWT : Nat := 48
abbrev V3D_QPU_A_VPMSETUP : Nat := 49
abbrev V3D_QPU_A_VPMWT : Nat := 50
abbrev V3D_QPU_A_FLAFIRST : Nat := 51
abbrev V3D_QPU_A_FLNAFIRST : Nat := 52
abbrev V3D_QPU_A_LDVPMV_IN : Nat := 53
abbrev V3D_QPU_A_LDVPMV_OUT : Nat := 54
abbrev V3D_QPU_A_LDVPMD_IN : Nat := 55
abbrev V3D_QPU_A_LDVPMD_OUT : Nat := 56
abbrev V3D_QPU_A_LDVPMP : Nat := 57
abbrev V3D_QPU_A_RSQRT : Nat := 58
abbrev V3D_QPU_A_EXP : Nat := 59
abbrev V3D_QPU_A_LOG : Nat := 60
abbrev V3D_QPU_A_SIN : Nat := 61
abbrev V3D_QPU_A_RSQRT2 : Nat := 62
abbrev V3D_QPU_A_LDVPMG_IN : Nat := 63
abbrev V3D_QPU_A_LDVPMG_OUT : Nat := 64
abbrev V3D_QPU_A_FCMP : Nat := 65
abbrev V3D_QPU_A_VFMAX : Nat := 66
abbrev V3D_QPU_A_FROUND : Nat := 67
abbrev V3D_QPU_A_FTOIN : Nat := 68
abbrev V3D_QPU_A_FTRUNC : Nat := 69
abbrev V3D_QPU_A_FTOIZ : Nat := 70
abbrev V3D_QPU_A_FFLOOR : Nat := 71
abbrev V3D_QPU_A_FTOUZ : Nat := 72
abbrev V3D_QPU_A_FCEIL : Nat := 73
abbrev V3D_QPU_A_FTOC : Nat := 74
abbrev V3D_QPU_A_FDX : Nat := 75
abbrev V3D_QPU_A_FDY : Nat := 76
abbrev V3D_QPU_A_STVPMV : Nat := 77
abbrev V3D_QPU_A_STVPMD : Nat := 78
abbrev V3D_QPU_A_STVPMP : Nat := 79
abbrev V3D_QPU_A_ITOF : Nat := 80
abbrev V3D_QPU_A_CLZ : Nat := 81
abbrev V3D_QPU_A_UTOF : Nat := 82
abbrev V3D_QPU_A_FMOV : Nat := 83
abbrev V3D_QPU_A_MOV : Nat := 84
abbrev V3D_QPU_A_VPACK : Nat := 85
abbrev V3D_QPU_A_V8PACK : Nat := 86
abbrev V3D_QPU_A_V10PACK : Nat := 87
abbrev V3D_QPU_A_V11FPACK : Nat := 88

/- enum v3d_qpu_mul_op -/
abbrev V3D_QPU_M_ADD : Nat := 0
abbrev V3D_QPU_M_SUB : Nat := 1
abbrev V3D_QPU_M_UMUL24 : Nat := 2
abbrev V3D_QPU_M_VFMUL : Nat := 3
abbrev V3D_QPU_M_SMUL24 : Nat := 4
abbrev V3D_QPU_M_MULTOP : Nat := 5
abbrev V3D_QPU_M_FMOV : Nat := 6
abbrev V3D_QPU_M_MOV : Nat := 7
abbrev V3D_QPU_M_NOP : Nat := 8
abbrev V3D_QPU_M_FMUL : Nat := 9
abbrev V3D_QPU_M_FTOUNORM16 : Nat := 10
abbrev V3D_QPU_M_FTOSNORM16 : Nat := 11
abbrev V3D_QPU_M_VFTOUNORM8 : Nat := 12
abbrev V3D_QPU_M_VFTOSNORM8 : Nat := 13
abbrev V3D_QPU_M_VFTOUNORM10LO : Nat := 14
abbrev V3D_QPU_M_VFTOUNORM10HI : Nat := 15

/- enum v3d_qpu_output_pack -/
abbrev V3D_QPU_PACK_NONE : Nat := 0
abbrev V3D_QPU_PACK_L : Nat := 1
abbrev V3D_QPU_PACK_H : Nat := 2

/- enum v3d_qpu_input_unpack -/
abbrev V3D_QPU_UNPACK_NONE : Nat := 0
abbrev V3D_QPU_UNPACK_ABS : Nat := 1
abbrev V3D_QPU_UNPACK_L : Nat := 2
abbrev V3D_QPU_UNPACK_H : Nat := 3
abbrev V3D_QPU_UNPACK_REPLICATE_32F_16 : Nat := 4
abbrev V3D_QPU_UNPACK_REPLICATE_L_16 : Nat := 5
abbrev V3D_QPU_UNPACK_REPLICATE_H_16 : Nat := 6
abbrev V3D_QPU_UNPACK_SWAP_16 : Nat := 7
abbrev V3D_QPU_UNPACK_UL : Nat := 8
abbrev V3D_QPU_UNPACK_UH : Nat := 9
abbrev V3D_QPU_UNPACK_IL : Nat := 10
abbrev V3D_QPU_UNPACK_IH : Nat := 11

/- enum v3d_qpu_mux -/
abbrev V3D_QPU_MUX_R0 : Nat := 0
abbrev V3D_QPU_MUX_R1 : Nat := 1
abbrev V3D_QPU_MUX_R2 : Nat := 2
abbrev V3D_QPU_MUX_R3 : Nat := 3
abbrev V3D_QPU_MUX_R4 : Nat := 4
abbrev V3D_QPU_MUX_R5 : Nat := 5
abbrev V3D_QPU_MUX_A : Nat := 6
abbrev V3D_QPU_MUX_B : Nat := 7

/- enum v3d_qpu_branch_cond -/
abbrev V3D_QPU_BRANCH_COND_ALWAYS : Nat := 0
abbrev V3D_QPU_BRANCH_COND_A0 : Nat := 1
abbrev V3D_QPU_BRANCH_COND_NA0 : Nat := 2
abbrev V3D_QPU_BRANCH_COND_ALLA : Nat := 3
abbrev V3D_QPU_BRANCH_COND_ANYNA : Nat := 4
abbrev V3D_QPU_BRANCH_COND_ANYA : Nat := 5
abbrev V3D_QPU_BRANCH_COND_ALLNA : Nat := 6

/- enum v3d_qpu_msfign -/
abbrev V3D_QPU_MSFIGN_NONE : Nat := 0
abbrev V3D_QPU_MSFIGN_P : Nat := 1
abbrev V3D_QPU_MSFIGN_Q : Nat := 2

/- enum v3d_qpu_branch_dest -/
abbrev V3D_QPU_BRANCH_DEST_ABS : Nat := 0
abbrev V3D_QPU_BRANCH_DEST_REL : Nat := 1
abbrev V3D_QPU_BRANCH_DEST_LINK_REG : Nat := 2
abbrev V3D_QPU_BRANCH_DEST_REGFILE : Nat := 3

/- enum v3d_qpu_instr_type -/
abbrev V3D_QPU_INSTR_TYPE_ALU : Nat := 0
abbrev V3D_QPU_INSTR_TYPE_BRANCH : Nat := 1

/- enum v3d_qpu_validate_error -/
abbrev V3D_QPU_VALIDATE_ERROR_NONE : Nat := 0
abbrev V3D_QPU_VALIDATE_ERROR_IMPLICIT_BRANCH_MSF_READ_AFTER_TLB_Z_WRITE : Nat := 1
abbrev V3D_QPU_VALIDATE_ERROR_SETMSF_AFTER_TLB_Z_WRITE : Nat := 2
abbrev V3D_QPU_VALIDATE_ERROR_MSF_READ_AFTER_TLB_Z_WRITE : Nat := 3
abbrev V3D_QPU_VALIDATE_ERROR_SMALL_IMM_A_C_D_ADDED_AFTER_V3D_7_1 : Nat := 4
abbrev V3D_QPU_VALIDATE_ERROR_SMALL_IMM_A_B_USED_BUT_NO_ADD_INST : Nat := 5
abbrev V3D_QPU_VALIDATE_ERROR_SMALL_IMM_C_D_USED_BUT_NO_MUL_INST : Nat := 6
abbrev V3D_QPU_VALIDATE_ERROR_MAX_ONE_SMALL_IMMEDIATE_PER_INSTRUCTION : Nat := 7
abbrev V3D_QPU_VALIDATE_ERROR_LDUNIF_AFTER_A_LDVARY : Nat := 8
abbrev V3D_QPU_VALIDATE_ERROR_LDUNIF_AND_LDUNIFA_CANT_BE_NEXT_TO_EACH_OTHER : Nat := 9
abbrev V3D_QPU_VALIDATE_ERROR_SFU_WRITE_STARTED_DURING_THRSW_DELAY_SLOTS : Nat := 10
abbrev V3D_QPU_VALIDATE_ERROR_LDVARY_DURING_THRSW_DELAY_SLOTS : Nat := 11
abbrev V3D_QPU_VALIDATE_ERROR_LDVARY_IN_2ND_THRSW_DELAY_SLOT : Nat := 12
abbrev V3D_QPU_VALIDATE_ERROR_R4_READ_TOO_SOON_AFTER_SFU : Nat := 13
abbrev V3D_QPU_VALIDATE_ERROR_R4_WRITE_TOO_SOON_AFTER_SFU : Nat := 14
abbrev V3D_QPU_VALIDATE_ERROR_SFU_WRITE_TOO_SOON_AFTER_SFU : Nat := 15
abbrev V3D_QPU_VALIDATE_ERROR_ONLY_ONE_OF_TMU_SFU_TSY_TLB_READ_VPM_ALLOWED : Nat := 16
abbrev V3D_QPU_VALIDATE_ERROR_THRSW_IN_A_BRANCH_DELAY_SLOT : Nat := 17
abbrev V3D_QPU_VALIDATE_ERROR_TWO_LAST_THRSW_SIGNALS : Nat := 18
abbrev V3D_QPU_VALIDATE_ERROR_THRSW_TOO_CLOSE_TO_ANOTHER_THRSW : Nat := 19
abbrev V3D_QPU_VALIDATE_ERROR_RF_WRITE_AFTER_THREND : Nat := 20
abbrev V3D_QPU_VALIDATE_ERROR_ADD_RF_WRITE_AT_THREND : Nat := 21
abbrev V3D_QPU_VALIDATE_ERROR_RF2_3_WRITE_AFTER_THREND : Nat := 22
abbrev V3D_QPU_VALIDATE_ERROR_MUL_RF_WRITE_AT_THREND : Nat := 23
abbrev V3D_QPU_VALIDATE_ERROR_TMUWT_IN_LAST_INSTRUCTION : Nat := 24
abbrev V3D_QPU_VALIDATE_ERROR_BRANCH_IN_A_BRANCH_DELAY_SLOT : Nat := 25
abbrev V3D_QPU_VALIDATE_ERROR_BRANCH_IN_A_THRSW_DELAY_SLOT : Nat := 26
abbrev V3D_QPU_VALIDATE_ERROR_THREAD_SWITCH_FOUND_WITHOUT_LAST_THRSW_IN_PROGRAM : Nat := 27
abbrev V3D_QPU_VALIDATE_ERROR_NO_PROGRAM_END_THRSW_FOUND : Nat := 28
abbrev V3D_QPU_VALIDATE_ERROR_NO_PROGRAM_END_THRSW_DELAY_SLOTS : Nat := 29

/- enum v3d_qpu_assemble_raddr_result -/
abbrev v3d_qpu_assemble_raddr_result_success : Nat := 0
abbrev v3d_qpu_assemble_raddr_result_invalid_register_file : Nat := 1
abbrev v3d_qpu_assemble_raddr_result_invalid_accumulator_register : Nat := 2
abbrev v3d_qpu_assemble_raddr_result_invalid_small_immediate : Nat := 3
abbrev v3d_qpu_assemble_raddr_result_no_raddr_space_too_many_immediates : Nat := 4
abbrev v3d_qpu_assemble_raddr_result_no_raddr_space : Nat := 5

/-- Condition and flag fields: `struct v3d_qpu_flags`. -/
structure v3d_qpu_flags where
  ac : Nat := 0
  mc : Nat := 0
  apf : Nat := 0
  mpf : Nat := 0
  auf : Nat := 0
  muf : Nat := 0
deriving DecidableEq, Repr

/-- One ALU input: `struct v3d_qpu_input`.  The source keeps `mux` (V3D 4.x) and
`raddr` (V3D 7.x) in a union, so one field holds whichever the version uses. -/
structure v3d_qpu_input where
  mux : Nat := 0
  unpack : Nat := 0
deriving DecidableEq, Repr

/-- The V3D 7.x view of the `mux`/`raddr` union of `struct v3d_qpu_input`. -/
abbrev v3d_qpu_input.raddr (i : v3d_qpu_input) : Nat := i.mux

/-- One half (`add` or `mul`) of `struct v3d_qpu_alu_instr`; the two anonymous
structs of the source have the same members. -/
structure v3d_qpu_alu_half where
  op : Nat := 0
  a : v3d_qpu_input := {}
  b : v3d_qpu_input := {}
  waddr : Nat := 0
  magic_write : Bool := false
  output_pack : Nat := 0
deriving DecidableEq, Repr

/-- The ALU sub-record: `struct v3d_qpu_alu_instr`. -/
structure v3d_qpu_alu_instr where
  add : v3d_qpu_alu_half := {}
  mul : v3d_qpu_alu_half := {}
deriving DecidableEq, Repr

/-- The branch sub-record: `struct v3d_qpu_branch_instr`. -/
structure v3d_qpu_branch_instr where
  cond : Nat := 0
  msfign : Nat := 0
  bdi : Nat := 0
  bdu : Nat := 0
  ub : Bool := false
  raddr_a : Nat := 0
  offset : Nat := 0
deriving DecidableEq, Repr

/-- The structured instruction: `struct v3d_qpu_instr`. -/
structure v3d_qpu_instr where
  type : Nat := 0
  sig : v3d_qpu_sig := {}
  sig_addr : Nat := 0
  sig_magic : Bool := false
  raddr_a : Nat := 0
  raddr_b : Nat := 0
  flags : v3d_qpu_flags := {}
  alu : v3d_qpu_alu_instr := {}
  branch : v3d_qpu_branch_instr := {}
deriving DecidableEq, Repr

/-- Conversion of an integer expression to `v3d_bool` (`typedef char`): the low
eight bits are kept, and the stored value is true when they are not all zero. -/
def v3d_bool_of_int (x : Nat) : Bool := x % 256 != 0

/-! ## Operand-count table (`add_op_args`, `mul_op_args`) -/

/-- Flag `D` of the operand tables: the op has a destination. -/
abbrev ARG_D : Nat := 1
/-- Flag `A` of the operand tables: the op reads argument A. -/
abbrev ARG_A : Nat := 2
/-- Flag `B` of the operand tables: the op reads argument B. -/
abbrev ARG_B : Nat := 4
/-- Operand table `add_op_args`, listed in enumerator order (the source uses designated initialisers). -/
def add_op_args : List Nat := [
  /- V3D_QPU_A_FADD -/ ARG_D ||| ARG_A ||| ARG_B,
  /- V3D_QPU_A_FADDNF -/ ARG_D ||| ARG_A ||| ARG_B,
  /- V3D_QPU_A_VFPACK -/ ARG_D ||| ARG_A ||| ARG_B,
  /- V3D_QPU_A_ADD -/ ARG_D ||| ARG_A ||| ARG_B,
  /- V3D_QPU_A_SUB -/ ARG_D ||| ARG_A ||| ARG_B,
  /- V3D_QPU_A_FSUB -/ ARG_D ||| ARG_A ||| ARG_B,
  /- V3D_QPU_A_MIN -/ ARG_D ||| ARG_A ||| ARG_B,
  /- V3D_QPU_A_MAX -/ ARG_D ||| ARG_A ||| ARG_B,
  /- V3D_QPU_A_UMIN -/ ARG_D ||| ARG_A ||| ARG_B,
  /- V3D_QPU_A_UMAX -/ ARG_D ||| ARG_A ||| ARG_B,
  /- V3D_QPU_A_SHL -/ ARG_D ||| ARG_A ||| ARG_B,
  /- V3D_QPU_A_SHR -/ ARG_D ||| ARG_A ||| ARG_B,
  /- V3D_QPU_A_ASR -/ ARG_D ||| ARG_A ||| ARG_B,
  /- V3D_QPU_A_ROR -/ ARG_D ||| ARG_A ||| ARG_B,
  /- V3D_QPU_A_FMIN -/ ARG_D ||| ARG_A ||| ARG_B,
  /- V3D_QPU_A_FMAX -/ ARG_D ||| ARG_A ||| ARG_B,
  /- V3D_QPU_A_VFMIN -/ ARG_D ||| ARG_A ||| ARG_B,
  /- V3D_QPU_A_AND -/ ARG_D ||| ARG_A ||| ARG_B,
  /- V3D_QPU_A_OR -/ ARG_D ||| ARG_A ||| ARG_B,
  /- V3D_QPU_A_XOR -/ ARG_D ||| ARG_A ||| ARG_B,
  /- V3D_QPU_A_VADD -/ ARG_D ||| ARG_A ||| ARG_B,
  /- V3D_QPU_A_VSUB -/ ARG_D ||| ARG_A ||| ARG_B,
  /- V3D_QPU_A_NOT -/ ARG_D ||| ARG_A,
  /- V3D_QPU_A_NEG -/ ARG_D ||| ARG_A,
  /- V3D_QPU_A_FLAPUSH -/ ARG_D ||| ARG_A,
  /- V3D_QPU_A_FLBPUSH -/ ARG_D ||| ARG_A,
  /- V3D_QPU_A_FLPOP -/ ARG_D ||| ARG_A,
  /- V3D_QPU_A_RECIP -/ ARG_D ||| ARG_A,
  /- V3D_QPU_A_SETMSF -/ ARG_D ||| ARG_A,
  /- V3D_QPU_A_SETREVF -/ ARG_D ||| ARG_A,
  /- V3D_QPU_A_NOP -/ 0,
  /- V3D_QPU_A_TIDX -/ ARG_D,
  /- V3D_QPU_A_EIDX -/ ARG_D,
  /- V3D_QPU_A_LR -/ ARG_D,
  /- V3D_QPU_A_VFLA -/ ARG_D,
  /- V3D_QPU_A_VFLNA -/ ARG_D,
  /- V3D_QPU_A_VFLB -/ ARG_D,
  /- V3D_QPU_A_VFLNB -/ ARG_D,
  /- V3D_QPU_A_FXCD -/ ARG_D,
  /- V3D_QPU_A_XCD -/ ARG_D,
  /- V3D_QPU_A_FYCD -/ ARG_D,
  /- V3D_QPU_A_YCD -/ ARG_D,
  /- V3D_QPU_A_MSF -/ ARG_D,
  /- V3D_QPU_A_REVF -/ ARG_D,
  /- V3D_QPU_A_VDWWT -/ ARG_D,
  /- V3D_QPU_A_IID -/ ARG_D,
  /- V3D_QPU_A_SAMPID -/ ARG_D,
  /- V3D_QPU_A_BARRIERID -/ ARG_D,
  /- V3D_QPU_A_TMUWT -/ ARG_D,
  /- V3D_QPU_A_VPMSETUP -/ ARG_D ||| ARG_A,
  /- V3D_QPU_A_VPMWT -/ ARG_D,
  /- V3D_QPU_A_FLAFIRST -/ ARG_D,
  /- V3D_QPU_A_FLNAFIRST -/ ARG_D,
  /- V3D_QPU_A_LDVPMV_IN -/ ARG_D ||| ARG_A,
  /- V3D_QPU_A_LDVPMV_OUT -/ ARG_D ||| ARG_A,
  /- V3D_QPU_A_LDVPMD_IN -/ ARG_D ||| ARG_A,
  /- V3D_QPU_A_LDVPMD_OUT -/ ARG_D ||| ARG_A,
  /- V3D_QPU_A_LDVPMP -/ ARG_D ||| ARG_A,
  /- V3D_QPU_A_RSQRT -/ ARG_D ||| ARG_A,
  /- V3D_QPU_A_EXP -/ ARG_D ||| ARG_A,
  /- V3D_QPU_A_LOG -/ ARG_D ||| ARG_A,
  /- V3D_QPU_A_SIN -/ ARG_D ||| ARG_A,
  /- V3D_QPU_A_RSQRT2 -/ ARG_D ||| ARG_A,
  /- V3D_QPU_A_LDVPMG_IN -/ ARG_D ||| ARG_A ||| ARG_B,
  /- V3D_QPU_A_LDVPMG_OUT -/ ARG_D ||| ARG_A ||| ARG_B,
  /- V3D_QPU_A_FCMP -/ ARG_D ||| ARG_A ||| ARG_B,
  /- V3D_QPU_A_VFMAX -/ ARG_D ||| ARG_A ||| ARG_B,
  /- V3D_QPU_A_FROUND -/ ARG_D ||| ARG_A,
  /- V3D_QPU_A_FTOIN -/ ARG_D ||| ARG_A,
  /- V3D_QPU_A_FTRUNC -/ ARG_D ||| ARG_A,
  /- V3D_QPU_A_FTOIZ -/ ARG_D ||| ARG_A,
  /- V3D_QPU_A_FFLOOR -/ ARG_D ||| ARG_A,
  /- V3D_QPU_A_FTOUZ -/ ARG_D ||| ARG_A,
  /- V3D_QPU_A_FCEIL -/ ARG_D ||| ARG_A,
  /- V3D_QPU_A_FTOC -/ ARG_D ||| ARG_A,
  /- V3D_QPU_A_FDX -/ ARG_D ||| ARG_A,
  /- V3D_QPU_A_FDY -/ ARG_D ||| ARG_A,
  /- V3D_QPU_A_STVPMV -/ ARG_A ||| ARG_B,
  /- V3D_QPU_A_STVPMD -/ ARG_A ||| ARG_B,
  /- V3D_QPU_A_STVPMP -/ ARG_A ||| ARG_B,
  /- V3D_QPU_A_ITOF -/ ARG_D ||| ARG_A,
  /- V3D_QPU_A_CLZ -/ ARG_D ||| ARG_A,
  /- V3D_QPU_A_UTOF -/ ARG_D ||| ARG_A,
  /- V3D_QPU_A_FMOV -/ ARG_D ||| ARG_A,
  /- V3D_QPU_A_MOV -/ ARG_D ||| ARG_A,
  /- V3D_QPU_A_VPACK -/ ARG_D ||| ARG_A ||| ARG_B,
  /- V3D_QPU_A_V8PACK -/ ARG_D ||| ARG_A ||| ARG_B,
  /- V3D_QPU_A_V10PACK -/ ARG_D ||| ARG_A ||| ARG_B,
  /- V3D_QPU_A_V11FPACK -/ ARG_D ||| ARG_A ||| ARG_B
]

/-- Operand table `mul_op_args`, listed in enumerator order (the source uses designated initialisers). -/
def mul_op_args : List Nat := [
  /- V3D_QPU_M_ADD -/ ARG_D ||| ARG_A ||| ARG_B,
  /- V3D_QPU_M_SUB -/ ARG_D ||| ARG_A ||| ARG_B,
  /- V3D_QPU_M_UMUL24 -/ ARG_D ||| ARG_A ||| ARG_B,
  /- V3D_QPU_M_VFMUL -/ ARG_D ||| ARG_A ||| ARG_B,
  /- V3D_QPU_M_SMUL24 -/ ARG_D ||| ARG_A ||| ARG_B,
  /- V3D_QPU_M_MULTOP -/ ARG_D ||| ARG_A ||| ARG_B,
  /- V3D_QPU_M_FMOV -/ ARG_D ||| ARG_A,
  /- V3D_QPU_M_MOV -/ ARG_D ||| ARG_A,
  /- V3D_QPU_M_NOP -/ 0,
  /- V3D_QPU_M_FMUL -/ ARG_D ||| ARG_A ||| ARG_B,
  /- V3D_QPU_M_FTOUNORM16 -/ ARG_D ||| ARG_A,
  /- V3D_QPU_M_FTOSNORM16 -/ ARG_D ||| ARG_A,
  /- V3D_QPU_M_VFTOUNORM8 -/ ARG_D ||| ARG_A,
  /- V3D_QPU_M_VFTOSNORM8 -/ ARG_D ||| ARG_A,
  /- V3D_QPU_M_VFTOUNORM10LO -/ ARG_D ||| ARG_A,
  /- V3D_QPU_M_VFTOUNORM10HI -/ ARG_D ||| ARG_A
]

/-- Name table `add_op_names` (ADD op names), listed in enumerator order. -/
def add_op_names : List String := [
  /- V3D_QPU_A_FADD -/ "fadd",
  /- V3D_QPU_A_FADDNF -/ "faddnf",
  /- V3D_QPU_A_VFPACK -/ "vfpack",
  /- V3D_QPU_A_ADD -/ "add",
  /- V3D_QPU_A_SUB -/ "sub",
  /- V3D_QPU_A_FSUB -/ "fsub",
  /- V3D_QPU_A_MIN -/ "min",
  /- V3D_QPU_A_MAX -/ "max",
  /- V3D_QPU_A_UMIN -/ "umin",
  /- V3D_QPU_A_UMAX -/ "umax",
  /- V3D_QPU_A_SHL -/ "shl",
  /- V3D_QPU_A_SHR -/ "shr",
  /- V3D_QPU_A_ASR -/ "asr",
  /- V3D_QPU_A_ROR -/ "ror",
  /- V3D_QPU_A_FMIN -/ "fmin",
  /- V3D_QPU_A_FMAX -/ "fmax",
  /- V3D_QPU_A_VFMIN -/ "vfmin",
  /- V3D_QPU_A_AND -/ "and",
  /- V3D_QPU_A_OR -/ "or",
  /- V3D_QPU_A_XOR -/ "xor",
  /- V3D_QPU_A_VADD -/ "vadd",
  /- V3D_QPU_A_VSUB -/ "vsub",
  /- V3D_QPU_A_NOT -/ "not",
  /- V3D_QPU_A_NEG -/ "neg",
  /- V3D_QPU_A_FLAPUSH -/ "flapush",
  /- V3D_QPU_A_FLBPUSH -/ "flbpush",
  /- V3D_QPU_A_FLPOP -/ "flpop",
  /- V3D_QPU_A_RECIP -/ "recip",
  /- V3D_QPU_A_SETMSF -/ "setmsf",
  /- V3D_QPU_A_SETREVF -/ "setrevf",
  /- V3D_QPU_A_NOP -/ "nop",
  /- V3D_QPU_A_TIDX -/ "tidx",
  /- V3D_QPU_A_EIDX -/ "eidx",
  /- V3D_QPU_A_LR -/ "lr",
  /- V3D_QPU_A_VFLA -/ "vfla",
  /- V3D_QPU_A_VFLNA -/ "vflna",
  /- V3D_QPU_A_VFLB -/ "vflb",
  /- V3D_QPU_A_VFLNB -/ "vflnb",
  /- V3D_QPU_A_FXCD -/ "fxcd",
  /- V3D_QPU_A_XCD -/ "xcd",
  /- V3D_QPU_A_FYCD -/ "fycd",
  /- V3D_QPU_A_YCD -/ "ycd",
  /- V3D_QPU_A_MSF -/ "msf",
  /- V3D_QPU_A_REVF -/ "revf",
  /- V3D_QPU_A_VDWWT -/ "vdwwt",
  /- V3D_QPU_A_IID -/ "iid",
  /- V3D_QPU_A_SAMPID -/ "sampid",
  /- V3D_QPU_A_BARRIERID -/ "barrierid",
  /- V3D_QPU_A_TMUWT -/ "tmuwt",
  /- V3D_QPU_A_VPMSETUP -/ "vpmsetup",
  /- V3D_QPU_A_VPMWT -/ "vpmwt",
  /- V3D_QPU_A_FLAFIRST -/ "flafirst",
  /- V3D_QPU_A_FLNAFIRST -/ "flnafirst",
  /- V3D_QPU_A_LDVPMV_IN -/ "ldvpmv_in",
  /- V3D_QPU_A_LDVPMV_OUT -/ "ldvpmv_out",
  /- V3D_QPU_A_LDVPMD_IN -/ "ldvpmd_in",
  /- V3D_QPU_A_LDVPMD_OUT -/ "ldvpmd_out",
  /- V3D_QPU_A_LDVPMP -/ "ldvpmp",
  /- V3D_QPU_A_RSQRT -/ "rsqrt",
  /- V3D_QPU_A_EXP -/ "exp",
  /- V3D_QPU_A_LOG -/ "log",
  /- V3D_QPU_A_SIN -/ "sin",
  /- V3D_QPU_A_RSQRT2 -/ "rsqrt2",
  /- V3D_QPU_A_LDVPMG_IN -/ "ldvpmg_in",
  /- V3D_QPU_A_LDVPMG_OUT -/ "ldvpmg_out",
  /- V3D_QPU_A_FCMP -/ "fcmp",
  /- V3D_QPU_A_VFMAX -/ "vfmax",
  /- V3D_QPU_A_FROUND -/ "fround",
  /- V3D_QPU_A_FTOIN -/ "ftoin",
  /- V3D_QPU_A_FTRUNC -/ "ftrunc",
  /- V3D_QPU_A_FTOIZ -/ "ftoiz",
  /- V3D_QPU_A_FFLOOR -/ "ffloor",
  /- V3D_QPU_A_FTOUZ -/ "ftouz",
  /- V3D_QPU_A_FCEIL -/ "fceil",
  /- V3D_QPU_A_FTOC -/ "ftoc",
  /- V3D_QPU_A_FDX -/ "fdx",
  /- V3D_QPU_A_FDY -/ "fdy",
  /- V3D_QPU_A_STVPMV -/ "stvpmv",
  /- V3D_QPU_A_STVPMD -/ "stvpmd",
  /- V3D_QPU_A_STVPMP -/ "stvpmp",
  /- V3D_QPU_A_ITOF -/ "itof",
  /- V3D_QPU_A_CLZ -/ "clz",
  /- V3D_QPU_A_UTOF -/ "utof",
  /- V3D_QPU_A_FMOV -/ "fmov",
  /- V3D_QPU_A_MOV -/ "mov",
  /- V3D_QPU_A_VPACK -/ "vpack",
  /- V3D_QPU_A_V8PACK -/ "v8pack",
  /- V3D_QPU_A_V10PACK -/ "v10pack",
  /- V3D_QPU_A_V11FPACK -/ "v11fpack"
]

/-- Name table `mul_op_names` (MUL op names), listed in enumerator order. -/
def mul_op_names : List String := [
  /- V3D_QPU_M_ADD -/ "add",
  /- V3D_QPU_M_SUB -/ "sub",
  /- V3D_QPU_M_UMUL24 -/ "umul24",
  /- V3D_QPU_M_VFMUL -/ "vfmul",
  /- V3D_QPU_M_SMUL24 -/ "smul24",
  /- V3D_QPU_M_MULTOP -/ "multop",
  /- V3D_QPU_M_FMOV -/ "fmov",
  /- V3D_QPU_M_MOV -/ "mov",
  /- V3D_QPU_M_NOP -/ "nop",
  /- V3D_QPU_M_FMUL -/ "fmul",
  /- V3D_QPU_M_FTOUNORM16 -/ "ftounorm16",
  /- V3D_QPU_M_FTOSNORM16 -/ "ftosnorm16",
  /- V3D_QPU_M_VFTOUNORM8 -/ "vftounorm8",
  /- V3D_QPU_M_VFTOSNORM8 -/ "vftosnorm8",
  /- V3D_QPU_M_VFTOUNORM10LO -/ "vftounorm10lo",
  /- V3D_QPU_M_VFTOUNORM10HI -/ "vftounorm10hi"
]

/-- Name table `cond_names` (condition names), listed in enumerator order. -/
def cond_names : List String := [
  /- V3D_QPU_COND_NONE -/ "",
  /- V3D_QPU_COND_IFA -/ ".ifa",
  /- V3D_QPU_COND_IFB -/ ".ifb",
  /- V3D_QPU_COND_IFNA -/ ".ifna",
  /- V3D_QPU_COND_IFNB -/ ".ifnb"
]

/-- Name table `pf_names` (push-flag names), listed in enumerator order. -/
def pf_names : List String := [
  /- V3D_QPU_PF_NONE -/ "",
  /- V3D_QPU_PF_PUSHZ -/ ".pushz",
  /- V3D_QPU_PF_PUSHN -/ ".pushn",
  /- V3D_QPU_PF_PUSHC -/ ".pushc"
]

/-- Name table `uf_names` (update-flag names), listed in enumerator order. -/
def uf_names : List String := [
  /- V3D_QPU_UF_NONE -/ "",
  /- V3D_QPU_UF_ANDZ -/ ".andz",
  /- V3D_QPU_UF_ANDNZ -/ ".andnz",
  /- V3D_QPU_UF_NORNZ -/ ".nornz",
  /- V3D_QPU_UF_NORZ -/ ".norz",
  /- V3D_QPU_UF_ANDN -/ ".andn",
  /- V3D_QPU_UF_ANDNN -/ ".andnn",
  /- V3D_QPU_UF_NORNN -/ ".nornn",
  /- V3D_QPU_UF_NORN -/ ".norn",
  /- V3D_QPU_UF_ANDC -/ ".andc",
  /- V3D_QPU_UF_ANDNC -/ ".andnc",
  /- V3D_QPU_UF_NORNC -/ ".nornc",
  /- V3D_QPU_UF_NORC -/ ".norc"
]

/-- Name table `pack_names` (output-pack names), listed in enumerator order. -/
def pack_names : List String := [
  /- V3D_QPU_PACK_NONE -/ "",
  /- V3D_QPU_PACK_L -/ ".l",
  /- V3D_QPU_PACK_H -/ ".h"
]

/-- Name table `unpack_names` (input-unpack names), listed in enumerator order. -/
def unpack_names : List String := [
  /- V3D_QPU_UNPACK_NONE -/ "",
  /- V3D_QPU_UNPACK_ABS -/ ".abs",
  /- V3D_QPU_UNPACK_L -/ ".l",
  /- V3D_QPU_UNPACK_H -/ ".h",
  /- V3D_QPU_UNPACK_REPLICATE_32F_16 -/ ".ff",
  /- V3D_QPU_UNPACK_REPLICATE_L_16 -/ ".ll",
  /- V3D_QPU_UNPACK_REPLICATE_H_16 -/ ".hh",
  /- V3D_QPU_UNPACK_SWAP_16 -/ ".swp"
]


/-- `v3d_qpu_add_op_has_dst`. -/
def v3d_qpu_add_op_has_dst (op : Nat) : Bool := (add_op_args.getD op 0) &&& ARG_D != 0

/-- `v3d_qpu_mul_op_has_dst`. -/
def v3d_qpu_mul_op_has_dst (op : Nat) : Bool := (mul_op_args.getD op 0) &&& ARG_D != 0

/-- `v3d_qpu_add_op_num_src`. -/
def v3d_qpu_add_op_num_src (op : Nat) : Nat :=
  let args := add_op_args.getD op 0
  if args &&& ARG_B != 0 then 2
  else if args &&& ARG_A != 0 then 1
  else 0

/-- `v3d_qpu_mul_op_num_src`. -/
def v3d_qpu_mul_op_num_src (op : Nat) : Nat :=
  let args := mul_op_args.getD op 0
  if args &&& ARG_B != 0 then 2
  else if args &&& ARG_A != 0 then 1
  else 0

/-! ## Magic write addresses and signal predicates -/

/-- `v3d_qpu_magic_waddr_is_sfu`. -/
def v3d_qpu_magic_waddr_is_sfu (waddr : Nat) : Bool :=
  waddr = V3D_QPU_WADDR_RECIP ∨ waddr = V3D_QPU_WADDR_RSQRT ∨ waddr = V3D_QPU_WADDR_EXP ∨
  waddr = V3D_QPU_WADDR_LOG ∨ waddr = V3D_QPU_WADDR_SIN ∨ waddr = V3D_QPU_WADDR_RSQRT2

/-- `v3d_qpu_magic_waddr_is_tmu`. -/
def v3d_qpu_magic_waddr_is_tmu (devinfo : v3d_device_info) (waddr : Nat) : Bool :=
  if devinfo.ver ≥ 40 then
    (waddr ≥ V3D_QPU_WADDR_TMUD ∧ waddr ≤ V3D_QPU_WADDR_TMUAU) ∨
    (waddr ≥ V3D_QPU_WADDR_TMUC ∧ waddr ≤ V3D_QPU_WADDR_TMUHSLOD)
  else
    (waddr ≥ V3D_QPU_WADDR_TMU ∧ waddr ≤ V3D_QPU_WADDR_TMUAU) ∨
    (waddr ≥ V3D_QPU_WADDR_TMUC ∧ waddr ≤ V3D_QPU_WADDR_TMUHSLOD)

/-- `v3d_qpu_magic_waddr_is_tlb`. -/
def v3d_qpu_magic_waddr_is_tlb (waddr : Nat) : Bool :=
  waddr = V3D_QPU_WADDR_TLB ∨ waddr = V3D_QPU_WADDR_TLBU

/-- `v3d_qpu_magic_waddr_is_vpm`. -/
def v3d_qpu_magic_waddr_is_vpm (waddr : Nat) : Bool :=
  waddr = V3D_QPU_WADDR_VPM ∨ waddr = V3D_QPU_WADDR_VPMU

/-- `v3d_qpu_magic_waddr_is_tsy`. -/
def v3d_qpu_magic_waddr_is_tsy (waddr : Nat) : Bool :=
  waddr = V3D_QPU_WADDR_SYNC ∨ waddr = V3D_QPU_WADDR_SYNCB ∨ waddr = V3D_QPU_WADDR_SYNCU

/-- `v3d_qpu_sig_writes_address`. -/
def v3d_qpu_sig_writes_address (devinfo : v3d_device_info) (sig : v3d_qpu_sig) : Bool :=
  if devinfo.ver < 41 then false
  else sig.ldunifrf || sig.ldunifarf || sig.ldvary || sig.ldtmu || sig.ldtlb || sig.ldtlbu

/-- `v3d_qpu_uses_mux`.  The source reads `inst->alu` whatever the instruction type. -/
def v3d_qpu_uses_mux (inst : v3d_qpu_instr) (mux : Nat) : Bool :=
  let add_nsrc := v3d_qpu_add_op_num_src inst.alu.add.op
  let mul_nsrc := v3d_qpu_mul_op_num_src inst.alu.mul.op
  (decide (add_nsrc > 0) && decide (inst.alu.add.a.mux = mux)) ||
  (decide (add_nsrc > 1) && decide (inst.alu.add.b.mux = mux)) ||
  (decide (mul_nsrc > 0) && decide (inst.alu.mul.a.mux = mux)) ||
  (decide (mul_nsrc > 1) && decide (inst.alu.mul.b.mux = mux))

/-- `v3d_qpu_writes_r4`. -/
def v3d_qpu_writes_r4 (devinfo : v3d_device_info) (inst : v3d_qpu_instr) : Bool :=
  if !devinfo.has_accumulators then false
  else if inst.type = V3D_QPU_INSTR_TYPE_ALU ∧
      inst.alu.add.op ≠ V3D_QPU_A_NOP ∧ inst.alu.add.magic_write = true ∧
      (inst.alu.add.waddr = V3D_QPU_WADDR_R4 ∨
        v3d_qpu_magic_waddr_is_sfu inst.alu.add.waddr = true) then true
  else if inst.type = V3D_QPU_INSTR_TYPE_ALU ∧
      inst.alu.mul.op ≠ V3D_QPU_M_NOP ∧ inst.alu.mul.magic_write = true ∧
      (inst.alu.mul.waddr = V3D_QPU_WADDR_R4 ∨
        v3d_qpu_magic_waddr_is_sfu inst.alu.mul.waddr = true) then true
  else if v3d_qpu_sig_writes_address devinfo inst.sig then
    (inst.sig_magic && decide (inst.sig_addr = V3D_QPU_WADDR_R4))
  else if inst.sig.ldtmu then true
  else false

/-! ## Packed-word fields (`QPU_MASK`, `QPU_SET_FIELD`, `QPU_GET_FIELD`) -/

/-- `QPU_MASK(high, low)`: the bits `low..high` of a 64-bit word. -/
def QPU_MASK (high low : Nat) : Nat := ((1 <<< (high - low + 1)) - 1) <<< low

/-- `QPU_SET_FIELD(value, field)` with `field ## _SHIFT` and `field ## _MASK` passed
separately.  The source shifts a 64-bit value and masks it; every mask is below
`2 ^ 64`, so the mask also performs the 64-bit truncation of the shift.  The
overflow assertion of the source is a no-op unless the includer defines
`v3d_assert`. -/
def QPU_SET_FIELD (value shift mask : Nat) : Nat := (value <<< shift) &&& mask

/-- `QPU_GET_FIELD(word, field)` with `field ## _SHIFT` and `field ## _MASK` passed
separately. -/
def QPU_GET_FIELD (word shift mask : Nat) : Nat := (word &&& mask) >>> shift

/-- `QPU_UPDATE_FIELD(inst, value, field)`; `~mask` is taken in 64 bits. -/
def QPU_UPDATE_FIELD (inst value shift mask : Nat) : Nat :=
  (inst &&& (0xFFFFFFFFFFFFFFFF - mask)) ||| QPU_SET_FIELD value shift mask

abbrev V3D_QPU_OP_MUL_SHIFT : Nat := 58
abbrev V3D_QPU_OP_MUL_MASK : Nat := QPU_MASK 63 58
abbrev V3D_QPU_SIG_SHIFT : Nat := 53
abbrev V3D_QPU_SIG_MASK : Nat := QPU_MASK 57 53
abbrev V3D_QPU_COND_SHIFT : Nat := 46
abbrev V3D_QPU_COND_MASK : Nat := QPU_MASK 52 46
abbrev V3D_QPU_COND_SIG_MAGIC_ADDR : Nat := 1 <<< 6
abbrev V3D_QPU_MM : Nat := QPU_MASK 45 45
abbrev V3D_QPU_MA : Nat := QPU_MASK 44 44
abbrev V3D_QPU_WADDR_M_SHIFT : Nat := 38
abbrev V3D_QPU_WADDR_M_MASK : Nat := QPU_MASK 43 38
abbrev V3D_QPU_BRANCH_ADDR_LOW_SHIFT : Nat := 35
abbrev V3D_QPU_BRANCH_ADDR_LOW_MASK : Nat := QPU_MASK 55 35
abbrev V3D_QPU_WADDR_A_SHIFT : Nat := 32
abbrev V3D_QPU_WADDR_A_MASK : Nat := QPU_MASK 37 32
abbrev V3D_QPU_BRANCH_COND_SHIFT : Nat := 32
abbrev V3D_QPU_BRANCH_COND_MASK : Nat := QPU_MASK 34 32
abbrev V3D_QPU_BRANCH_ADDR_HIGH_SHIFT : Nat := 24
abbrev V3D_QPU_BRANCH_ADDR_HIGH_MASK : Nat := QPU_MASK 31 24
abbrev V3D_QPU_OP_ADD_SHIFT : Nat := 24
abbrev V3D_QPU_OP_ADD_MASK : Nat := QPU_MASK 31 24
abbrev V3D_QPU_MUL_B_SHIFT : Nat := 21
abbrev V3D_QPU_MUL_B_MASK : Nat := QPU_MASK 23 21
abbrev V3D_QPU_BRANCH_MSFIGN_SHIFT : Nat := 21
abbrev V3D_QPU_BRANCH_MSFIGN_MASK : Nat := QPU_MASK 22 21
abbrev V3D_QPU_MUL_A_SHIFT : Nat := 18
abbrev V3D_QPU_MUL_A_MASK : Nat := QPU_MASK 20 18
abbrev V3D_QPU_RADDR_C_SHIFT : Nat := 18
abbrev V3D_QPU_RADDR_C_MASK : Nat := QPU_MASK 23 18
abbrev V3D_QPU_ADD_B_SHIFT : Nat := 15
abbrev V3D_QPU_ADD_B_MASK : Nat := QPU_MASK 17 15
abbrev V3D_QPU_BRANCH_BDU_SHIFT : Nat := 15
abbrev V3D_QPU_BRANCH_BDU_MASK : Nat := QPU_MASK 17 15
abbrev V3D_QPU_BRANCH_UB : Nat := QPU_MASK 14 14
abbrev V3D_QPU_ADD_A_SHIFT : Nat := 12
abbrev V3D_QPU_ADD_A_MASK : Nat := QPU_MASK 14 12
abbrev V3D_QPU_BRANCH_BDI_SHIFT : Nat := 12
abbrev V3D_QPU_BRANCH_BDI_MASK : Nat := QPU_MASK 13 12
abbrev V3D_QPU_RADDR_D_SHIFT : Nat := 12
abbrev V3D_QPU_RADDR_D_MASK : Nat := QPU_MASK 17 12
abbrev V3D_QPU_RADDR_A_SHIFT : Nat := 6
abbrev V3D_QPU_RADDR_A_MASK : Nat := QPU_MASK 11 6
abbrev V3D_QPU_RADDR_B_SHIFT : Nat := 0
abbrev V3D_QPU_RADDR_B_MASK : Nat := QPU_MASK 5 0

/-- Subtraction of `v3d_uint32` values (`a - b` modulo `2 ^ 32`). -/
def u32_sub (a b : Nat) : Nat := (a + 4294967296 - b) % 4294967296

/-! ## Signal maps -/

/-- Signal map `v33_sig_map`: entry i is the signal set of packed signal i; an index the source leaves out is all-zero (reserved). -/
def v33_sig_map : List v3d_qpu_sig := [
  /- [0] -/ { },
  /- [1] -/ { thrsw := true },
  /- [2] -/ { ldunif := true },
  /- [3] -/ { thrsw := true, ldunif := true },
  /- [4] -/ { ldtmu := true },
  /- [5] -/ { thrsw := true, ldtmu := true },
  /- [6] -/ { ldtmu := true, ldunif := true },
  /- [7] -/ { thrsw := true, ldtmu := true, ldunif := true },
  /- [8] -/ { ldvary := true },
  /- [9] -/ { thrsw := true, ldvary := true },
  /- [10] -/ { ldvary := true, ldunif := true },
  /- [11] -/ { thrsw := true, ldvary := true, ldunif := true },
  /- [12] -/ { ldvary := true, ldtmu := true },
  /- [13] -/ { thrsw := true, ldvary := true, ldtmu := true },
  /- [14] -/ { small_imm_b := true, ldvary := true },
  /- [15] -/ { small_imm_b := true },
  /- [16] -/ { ldtlb := true },
  /- [17] -/ { ldtlbu := true },
  /- [18] reserved -/ { },
  /- [19] reserved -/ { },
  /- [20] reserved -/ { },
  /- [21] reserved -/ { },
  /- [22] -/ { ucb := true },
  /- [23] -/ { rotate := true },
  /- [24] -/ { ldvpm := true },
  /- [25] -/ { thrsw := true, ldvpm := true },
  /- [26] -/ { ldvpm := true, ldunif := true },
  /- [27] -/ { thrsw := true, ldvpm := true, ldunif := true },
  /- [28] -/ { ldvpm := true, ldtmu := true },
  /- [29] -/ { thrsw := true, ldvpm := true, ldtmu := true },
  /- [30] -/ { small_imm_b := true, ldvpm := true },
  /- [31] -/ { small_imm_b := true }
]

/-- Signal map `v40_sig_map`: entry i is the signal set of packed signal i; an index the source leaves out is all-zero (reserved). -/
def v40_sig_map : List v3d_qpu_sig := [
  /- [0] -/ { },
  /- [1] -/ { thrsw := true },
  /- [2] -/ { ldunif := true },
  /- [3] -/ { thrsw := true, ldunif := true },
  /- [4] -/ { ldtmu := true },
  /- [5] -/ { thrsw := true, ldtmu := true },
  /- [6] -/ { ldtmu := true, ldunif := true },
  /- [7] -/ { thrsw := true, ldtmu := true, ldunif := true },
  /- [8] -/ { ldvary := true },
  /- [9] -/ { thrsw := true, ldvary := true },
  /- [10] -/ { ldvary := true, ldunif := true },
  /- [11] -/ { thrsw := true, ldvary := true, ldunif := true },
  /- [12] reserved -/ { },
  /- [13] reserved -/ { },
  /- [14] -/ { small_imm_b := true, ldvary := true },
  /- [15] -/ { small_imm_b := true },
  /- [16] -/ { ldtlb := true },
  /- [17] -/ { ldtlbu := true },
  /- [18] -/ { wrtmuc := true },
  /- [19] -/ { thrsw := true, wrtmuc := true },
  /- [20] -/ { ldvary := true, wrtmuc := true },
  /- [21] -/ { thrsw := true, ldvary := true, wrtmuc := true },
  /- [22] -/ { ucb := true },
  /- [23] -/ { rotate := true },
  /- [24] reserved -/ { },
  /- [25] reserved -/ { },
  /- [26] reserved -/ { },
  /- [27] reserved -/ { },
  /- [28] reserved -/ { },
  /- [29] reserved -/ { },
  /- [30] reserved -/ { },
  /- [31] -/ { small_imm_b := true, ldtmu := true }
]

/-- Signal map `v41_sig_map`: entry i is the signal set of packed signal i; an index the source leaves out is all-zero (reserved). -/
def v41_sig_map : List v3d_qpu_sig := [
  /- [0] -/ { },
  /- [1] -/ { thrsw := true },
  /- [2] -/ { ldunif := true },
  /- [3] -/ { thrsw := true, ldunif := true },
  /- [4] -/ { ldtmu := true },
  /- [5] -/ { thrsw := true, ldtmu := true },
  /- [6] -/ { ldtmu := true, ldunif := true },
  /- [7] -/ { thrsw := true, ldtmu := true, ldunif := true },
  /- [8] -/ { ldvary := true },
  /- [9] -/ { thrsw := true, ldvary := true },
  /- [10] -/ { ldvary := true, ldunif := true },
  /- [11] -/ { thrsw := true, ldvary := true, ldunif := true },
  /- [12] -/ { ldunifrf := true },
  /- [13] -/ { thrsw := true, ldunifrf := true },
  /- [14] -/ { small_imm_b := true, ldvary := true },
  /- [15] -/ { small_imm_b := true },
  /- [16] -/ { ldtlb := true },
  /- [17] -/ { ldtlbu := true },
  /- [18] -/ { wrtmuc := true },
  /- [19] -/ { thrsw := true, wrtmuc := true },
  /- [20] -/ { ldvary := true, wrtmuc := true },
  /- [21] -/ { thrsw := true, ldvary := true, wrtmuc := true },
  /- [22] -/ { ucb := true },
  /- [23] -/ { rotate := true },
  /- [24] -/ { ldunifa := true },
  /- [25] -/ { ldunifarf := true },
  /- [26] reserved -/ { },
  /- [27] reserved -/ { },
  /- [28] reserved -/ { },
  /- [29] reserved -/ { },
  /- [30] reserved -/ { },
  /- [31] -/ { small_imm_b := true, ldtmu := true }
]

/-- Signal map `v71_sig_map`: entry i is the signal set of packed signal i; an index the source leaves out is all-zero (reserved). -/
def v71_sig_map : List v3d_qpu_sig := [
  /- [0] -/ { },
  /- [1] -/ { thrsw := true },
  /- [2] -/ { ldunif := true },
  /- [3] -/ { thrsw := true, ldunif := true },
  /- [4] -/ { ldtmu := true },
  /- [5] -/ { thrsw := true, ldtmu := true },
  /- [6] -/ { ldtmu := true, ldunif := true },
  /- [7] -/ { thrsw := true, ldtmu := true, ldunif := true },
  /- [8] -/ { ldvary := true },
  /- [9] -/ { thrsw := true, ldvary := true },
  /- [10] -/ { ldvary := true, ldunif := true },
  /- [11] -/ { thrsw := true, ldvary := true, ldunif := true },
  /- [12] -/ { ldunifrf := true },
  /- [13] -/ { thrsw := true, ldunifrf := true },
  /- [14] -/ { small_imm_a := true },
  /- [15] -/ { small_imm_b := true },
  /- [16] -/ { ldtlb := true },
  /- [17] -/ { ldtlbu := true },
  /- [18] -/ { wrtmuc := true },
  /- [19] -/ { thrsw := true, wrtmuc := true },
  /- [20] -/ { ldvary := true, wrtmuc := true },
  /- [21] -/ { thrsw := true, ldvary := true, wrtmuc := true },
  /- [22] -/ { ucb := true },
  /- [23] reserved -/ { },
  /- [24] -/ { ldunifa := true },
  /- [25] -/ { ldunifarf := true },
  /- [26] reserved -/ { },
  /- [27] reserved -/ { },
  /- [28] reserved -/ { },
  /- [29] reserved -/ { },
  /- [30] -/ { small_imm_c := true },
  /- [31] -/ { small_imm_d := true }
]

/-- The signal map `v3d_qpu_sig_unpack` and `v3d_qpu_sig_pack` select for a version. -/
def v3d_qpu_sig_map (devinfo : v3d_device_info) : List v3d_qpu_sig :=
  if devinfo.ver ≥ 71 then v71_sig_map
  else if devinfo.ver ≥ 41 then v41_sig_map
  else if devinfo.ver = 40 then v40_sig_map
  else v33_sig_map

/-- `v3d_qpu_sig_unpack`: `memcmp` against `v33_sig_map[0]` is equality with the
all-zero signal set. -/
def v3d_qpu_sig_unpack (devinfo : v3d_device_info) (packed_sig : Nat) : Option v3d_qpu_sig :=
  if packed_sig ≥ 32 then none
  else
    let sig := (v3d_qpu_sig_map devinfo).getD packed_sig {}
    if packed_sig = 0 ∨ sig ≠ v33_sig_map.getD 0 {} then some sig else none

/-- The search loop of `v3d_qpu_sig_pack`: `todo` iterations remain, `i` is the loop index. -/
def v3d_qpu_sig_pack_loop (map : List v3d_qpu_sig) (sig : v3d_qpu_sig) : Nat → Nat → Option Nat
  | 0, _ => none
  | todo + 1, i => if map.getD i {} = sig then some i else v3d_qpu_sig_pack_loop map sig todo (i + 1)

/-- `v3d_qpu_sig_pack`: the first index of the version's map whose entry equals `sig`. -/
def v3d_qpu_sig_pack (devinfo : v3d_device_info) (sig : v3d_qpu_sig) : Option Nat :=
  v3d_qpu_sig_pack_loop (v3d_qpu_sig_map devinfo) sig 32 0

/-! ## Small immediates -/

/-- Table `small_immediates` (32-bit values; the negative entries are two's complement). -/
def small_immediates : List Nat := [
  0, 1, 2, 3,
  4, 5, 6, 7,
  8, 9, 10, 11,
  12, 13, 14, 15,
  4294967296 - 16, 4294967296 - 15, 4294967296 - 14, 4294967296 - 13,
  4294967296 - 12, 4294967296 - 11, 4294967296 - 10, 4294967296 - 9,
  4294967296 - 8, 4294967296 - 7, 4294967296 - 6, 4294967296 - 5,
  4294967296 - 4, 4294967296 - 3, 4294967296 - 2, 4294967296 - 1,
  0x3b800000, 0x3c000000, 0x3c800000, 0x3d000000,
  0x3d800000, 0x3e000000, 0x3e800000, 0x3f000000,
  0x3f800000, 0x40000000, 0x40800000, 0x41000000,
  0x41800000, 0x42000000, 0x42800000, 0x43000000
]

/-- `v3d_qpu_small_imm_unpack`. -/
def v3d_qpu_small_imm_unpack (packed_small_immediate : Nat) : Option Nat :=
  if packed_small_immediate ≥ small_immediates.length then none
  else some (small_immediates.getD packed_small_immediate 0)

/-- The search loop of `v3d_qpu_small_imm_pack` over the not yet visited table entries. -/
def v3d_qpu_small_imm_pack_loop (value : Nat) : List Nat → Nat → Option Nat
  | [], _ => none
  | x :: rest, i => if x = value then some i else v3d_qpu_small_imm_pack_loop value rest (i + 1)

/-- `v3d_qpu_small_imm_pack`. -/
def v3d_qpu_small_imm_pack (value : Nat) : Option Nat :=
  v3d_qpu_small_imm_pack_loop value small_immediates 0

/-- Table `small_immediates_names`. -/
def small_immediates_names : List String := [
  "0", "1", "2", "3",
  "4", "5", "6", "7",
  "8", "9", "10", "11",
  "12", "13", "14", "15",
  "-16", "-15", "-14", "-13",
  "-12", "-11", "-10", "-9",
  "-8", "-7", "-6", "-5",
  "-4", "-3", "-2", "-1",
  "16", "17", "18", "19",
  "20", "21", "22", "23",
  "24", "25", "26", "27",
  "28", "29", "30", "31",
  "2f^-8", "2f^-7", "2f^-6", "2f^-5",
  "2f^-4", "2f^-3", "2f^-2", "2f^-1",
  "2f^0", "2f^1", "2f^2", "2f^3",
  "2f^4", "2f^5", "2f^6", "2f^7",
  "0x3b800000", "0x3c000000", "0x3c800000", "0x3d000000",
  "0x3d800000", "0x3e000000", "0x3e800000", "0x3f000000",
  "0x3f800000", "0x40000000", "0x40800000", "0x41000000",
  "0x41800000", "0x42000000", "0x42800000", "0x43000000"
]

/-- Table `small_immediates_packed_indices`, aligned with `small_immediates_names`. -/
def small_immediates_packed_indices : List Nat := [
  0, 1, 2, 3,
  4, 5, 6, 7,
  8, 9, 10, 11,
  12, 13, 14, 15,
  16, 17, 18, 19,
  20, 21, 22, 23,
  24, 25, 26, 27,
  28, 29, 30, 31,
  16, 17, 18, 19,
  20, 21, 22, 23,
  24, 25, 26, 27,
  28, 29, 30, 31,
  32, 33, 34, 35,
  36, 37, 38, 39,
  40, 41, 42, 43,
  44, 45, 46, 47,
  32, 33, 34, 35,
  36, 37, 38, 39,
  40, 41, 42, 43,
  44, 45, 46, 47
]

/-! ## Condition flags -/

/-- Table `cond_map` of `v3d_qpu_flags_unpack`. -/
def cond_map : List Nat :=
  [V3D_QPU_COND_IFA, V3D_QPU_COND_IFB, V3D_QPU_COND_IFNA, V3D_QPU_COND_IFNB]

/-- `v3d_qpu_flags_unpack`. -/
def v3d_qpu_flags_unpack (packed_cond : Nat) : Option v3d_qpu_flags :=
  let cond : v3d_qpu_flags :=
    { ac := V3D_QPU_COND_NONE, mc := V3D_QPU_COND_NONE, apf := V3D_QPU_PF_NONE,
      mpf := V3D_QPU_PF_NONE, auf := V3D_QPU_UF_NONE, muf := V3D_QPU_UF_NONE }
  if packed_cond = 0 then some cond
  else if packed_cond >>> 2 = 0 then some { cond with apf := packed_cond &&& 0x3 }
  else if packed_cond >>> 4 = 0 then
    some { cond with auf := (packed_cond &&& 0xf) - 4 + V3D_QPU_UF_ANDZ }
  else if packed_cond = 0x10 then none
  else if packed_cond >>> 2 = 0x4 then some { cond with mpf := packed_cond &&& 0x3 }
  else if packed_cond >>> 4 = 0x1 then
    some { cond with muf := (packed_cond &&& 0xf) - 4 + V3D_QPU_UF_ANDZ }
  else if packed_cond >>> 4 = 0x2 then
    some { cond with ac := ((packed_cond >>> 2) &&& 0x3) + V3D_QPU_COND_IFA,
                     mpf := packed_cond &&& 0x3 }
  else if packed_cond >>> 4 = 0x3 then
    some { cond with mc := ((packed_cond >>> 2) &&& 0x3) + V3D_QPU_COND_IFA,
                     apf := packed_cond &&& 0x3 }
  else if packed_cond >>> 6 ≠ 0 then
    let cond := { cond with mc := cond_map.getD ((packed_cond >>> 4) &&& 0x3) 0 }
    if (packed_cond >>> 2) &&& 0x3 = 0 then
      some { cond with ac := cond_map.getD (packed_cond &&& 0x3) 0 }
    else
      some { cond with auf := (packed_cond &&& 0xf) - 4 + V3D_QPU_UF_ANDZ }
  else some cond

abbrev FLAG_AC : Nat := 1 <<< 0
abbrev FLAG_MC : Nat := 1 <<< 1
abbrev FLAG_APF : Nat := 1 <<< 2
abbrev FLAG_MPF : Nat := 1 <<< 3
abbrev FLAG_AUF : Nat := 1 <<< 4
abbrev FLAG_MUF : Nat := 1 <<< 5

/-- Table `flags_table` of `v3d_qpu_flags_pack`: pairs `(flags_present, bits)`. -/
def flags_table : List (Nat × Nat) := [
  (0, 0),
  (FLAG_APF, 0),
  (FLAG_AUF, 0),
  (FLAG_MPF, 1 <<< 4),
  (FLAG_MUF, 1 <<< 4),
  (FLAG_AC, 1 <<< 5),
  (FLAG_AC ||| FLAG_MPF, 1 <<< 5),
  (FLAG_MC, (1 <<< 5) ||| (1 <<< 4)),
  (FLAG_MC ||| FLAG_APF, (1 <<< 5) ||| (1 <<< 4)),
  (FLAG_MC ||| FLAG_AC, 1 <<< 6),
  (FLAG_MC ||| FLAG_AUF, 1 <<< 6)
]

/-- The `flags_present` bit-set computed at the head of `v3d_qpu_flags_pack`. -/
def v3d_qpu_flags_present (cond : v3d_qpu_flags) : Nat :=
  (if cond.ac ≠ V3D_QPU_COND_NONE then FLAG_AC else 0) |||
  (if cond.mc ≠ V3D_QPU_COND_NONE then FLAG_MC else 0) |||
  (if cond.apf ≠ V3D_QPU_PF_NONE then FLAG_APF else 0) |||
  (if cond.mpf ≠ V3D_QPU_PF_NONE then FLAG_MPF else 0) |||
  (if cond.auf ≠ V3D_QPU_UF_NONE then FLAG_AUF else 0) |||
  (if cond.muf ≠ V3D_QPU_UF_NONE then FLAG_MUF else 0)

/-- `v3d_qpu_flags_pack`: the first row of `flags_table` whose `flags_present`
matches decides the prefix bits; the fields are then or-ed in. -/
def v3d_qpu_flags_pack (cond : v3d_qpu_flags) : Option Nat :=
  let flags_present := v3d_qpu_flags_present cond
  match flags_table.find? (fun row => row.1 == flags_present) with
  | none => none
  | some row =>
    let packed_cond := row.2
    let packed_cond := packed_cond ||| cond.apf
    let packed_cond := packed_cond ||| cond.mpf
    let packed_cond :=
      if flags_present &&& FLAG_AUF ≠ 0 then packed_cond ||| (cond.auf - V3D_QPU_UF_ANDZ + 4)
      else packed_cond
    let packed_cond :=
      if flags_present &&& FLAG_MUF ≠ 0 then packed_cond ||| (cond.muf - V3D_QPU_UF_ANDZ + 4)
      else packed_cond
    let packed_cond :=
      if flags_present &&& FLAG_AC ≠ 0 then
        if packed_cond &&& (1 <<< 6) ≠ 0 then packed_cond ||| (cond.ac - V3D_QPU_COND_IFA)
        else packed_cond ||| ((cond.ac - V3D_QPU_COND_IFA) <<< 2)
      else packed_cond
    let packed_cond :=
      if flags_present &&& FLAG_MC ≠ 0 then
        if packed_cond &&& (1 <<< 6) ≠ 0 then packed_cond ||| ((cond.mc - V3D_QPU_COND_IFA) <<< 4)
        else packed_cond ||| ((cond.mc - V3D_QPU_COND_IFA) <<< 2)
      else packed_cond
    some packed_cond

/-! ## Opcode descriptor tables -/

/-- `BITFIELD64_BIT(b)`. -/
def BITFIELD64_BIT (b : Nat) : Nat := 1 <<< b
/-- `BITFIELD64_MASK(b)`. -/
def BITFIELD64_MASK (b : Nat) : Nat :=
  if b = 64 then 0xFFFFFFFFFFFFFFFF else BITFIELD64_BIT (b &&& 63) - 1
/-- `BITFIELD64_RANGE(b, count)`. -/
def BITFIELD64_RANGE (b count : Nat) : Nat :=
  BITFIELD64_MASK (b + count) &&& (0xFFFFFFFFFFFFFFFF - BITFIELD64_MASK b)
/-- `OP_MASK(val)`. -/
def OP_MASK (val : Nat) : Nat := BITFIELD64_BIT val
/-- `OP_RANGE(bot, top)`. -/
def OP_RANGE (bot top : Nat) : Nat := BITFIELD64_RANGE bot (top - bot + 1)
/-- `ANYMUX`. -/
def ANYMUX : Nat := OP_RANGE 0 7
/-- `ANYOPMASK`. -/
def ANYOPMASK : Nat := OP_RANGE 0 63

/-- Opcode descriptor: `struct opcode_desc`.  The source overlays `mux.b_mask`,
`mux.a_mask` (read when `ver < 71`) and `raddr_mask` (read when `ver >= 71`) in a
union; each table initialises and each reader reads one side only, so the three
are separate fields here and the side a table does not initialise is zero. -/
structure opcode_desc where
  opcode_first : Nat
  opcode_last : Nat
  b_mask : Nat
  a_mask : Nat
  raddr_mask : Nat
  op : Nat
  first_ver : Nat
  last_ver : Nat
deriving DecidableEq, Repr

/-- A row of a V3D 3.3/4.x table: `{ first, last, .mux.b_mask = b, .mux.a_mask = a, op, first_ver, last_ver }`. -/
def mux_desc (opcode_first opcode_last b_mask a_mask op first_ver last_ver : Nat) : opcode_desc :=
  ⟨opcode_first, opcode_last, b_mask, a_mask, 0, op, first_ver, last_ver⟩

/-- A row of a V3D 7.1 table: `{ first, last, .raddr_mask = m, op, first_ver, last_ver }`. -/
def raddr_desc (opcode_first opcode_last raddr_mask op first_ver last_ver : Nat) : opcode_desc :=
  ⟨opcode_first, opcode_last, 0, 0, raddr_mask, op, first_ver, last_ver⟩

def add_ops_v33 : List opcode_desc := [
  mux_desc 0 47 ANYMUX ANYMUX V3D_QPU_A_FADD 0 0,
  mux_desc 0 47 ANYMUX ANYMUX V3D_QPU_A_FADDNF 0 0,
  mux_desc 53 55 ANYMUX ANYMUX V3D_QPU_A_VFPACK 0 0,
  mux_desc 56 56 ANYMUX ANYMUX V3D_QPU_A_ADD 0 0,
  mux_desc 57 59 ANYMUX ANYMUX V3D_QPU_A_VFPACK 0 0,
  mux_desc 60 60 ANYMUX ANYMUX V3D_QPU_A_SUB 0 0,
  mux_desc 61 63 ANYMUX ANYMUX V3D_QPU_A_VFPACK 0 0,
  mux_desc 64 111 ANYMUX ANYMUX V3D_QPU_A_FSUB 0 0,
  mux_desc 120 120 ANYMUX ANYMUX V3D_QPU_A_MIN 0 0,
  mux_desc 121 121 ANYMUX ANYMUX V3D_QPU_A_MAX 0 0,
  mux_desc 122 122 ANYMUX ANYMUX V3D_QPU_A_UMIN 0 0,
  mux_desc 123 123 ANYMUX ANYMUX V3D_QPU_A_UMAX 0 0,
  mux_desc 124 124 ANYMUX ANYMUX V3D_QPU_A_SHL 0 0,
  mux_desc 125 125 ANYMUX ANYMUX V3D_QPU_A_SHR 0 0,
  mux_desc 126 126 ANYMUX ANYMUX V3D_QPU_A_ASR 0 0,
  mux_desc 127 127 ANYMUX ANYMUX V3D_QPU_A_ROR 0 0,
  mux_desc 128 175 ANYMUX ANYMUX V3D_QPU_A_FMIN 0 0,
  mux_desc 128 175 ANYMUX ANYMUX V3D_QPU_A_FMAX 0 0,
  mux_desc 176 180 ANYMUX ANYMUX V3D_QPU_A_VFMIN 0 0,
  mux_desc 181 181 ANYMUX ANYMUX V3D_QPU_A_AND 0 0,
  mux_desc 182 182 ANYMUX ANYMUX V3D_QPU_A_OR 0 0,
  mux_desc 183 183 ANYMUX ANYMUX V3D_QPU_A_XOR 0 0,
  mux_desc 184 184 ANYMUX ANYMUX V3D_QPU_A_VADD 0 0,
  mux_desc 185 185 ANYMUX ANYMUX V3D_QPU_A_VSUB 0 0,
  mux_desc 186 186 (OP_MASK 0) ANYMUX V3D_QPU_A_NOT 0 0,
  mux_desc 186 186 (OP_MASK 1) ANYMUX V3D_QPU_A_NEG 0 0,
  mux_desc 186 186 (OP_MASK 2) ANYMUX V3D_QPU_A_FLAPUSH 0 0,
  mux_desc 186 186 (OP_MASK 3) ANYMUX V3D_QPU_A_FLBPUSH 0 0,
  mux_desc 186 186 (OP_MASK 4) ANYMUX V3D_QPU_A_FLPOP 0 0,
  mux_desc 186 186 (OP_MASK 5) ANYMUX V3D_QPU_A_RECIP 0 0,
  mux_desc 186 186 (OP_MASK 6) ANYMUX V3D_QPU_A_SETMSF 0 0,
  mux_desc 186 186 (OP_MASK 7) ANYMUX V3D_QPU_A_SETREVF 0 0,
  mux_desc 187 187 (OP_MASK 0) (OP_MASK 0) V3D_QPU_A_NOP 0 0,
  mux_desc 187 187 (OP_MASK 0) (OP_MASK 1) V3D_QPU_A_TIDX 0 0,
  mux_desc 187 187 (OP_MASK 0) (OP_MASK 2) V3D_QPU_A_EIDX 0 0,
  mux_desc 187 187 (OP_MASK 0) (OP_MASK 3) V3D_QPU_A_LR 0 0,
  mux_desc 187 187 (OP_MASK 0) (OP_MASK 4) V3D_QPU_A_VFLA 0 0,
  mux_desc 187 187 (OP_MASK 0) (OP_MASK 5) V3D_QPU_A_VFLNA 0 0,
  mux_desc 187 187 (OP_MASK 0) (OP_MASK 6) V3D_QPU_A_VFLB 0 0,
  mux_desc 187 187 (OP_MASK 0) (OP_MASK 7) V3D_QPU_A_VFLNB 0 0,
  mux_desc 187 187 (OP_MASK 1) (OP_RANGE 0 2) V3D_QPU_A_FXCD 0 0,
  mux_desc 187 187 (OP_MASK 1) (OP_MASK 3) V3D_QPU_A_XCD 0 0,
  mux_desc 187 187 (OP_MASK 1) (OP_RANGE 4 6) V3D_QPU_A_FYCD 0 0,
  mux_desc 187 187 (OP_MASK 1) (OP_MASK 7) V3D_QPU_A_YCD 0 0,
  mux_desc 187 187 (OP_MASK 2) (OP_MASK 0) V3D_QPU_A_MSF 0 0,
  mux_desc 187 187 (OP_MASK 2) (OP_MASK 1) V3D_QPU_A_REVF 0 0,
  mux_desc 187 187 (OP_MASK 2) (OP_MASK 2) V3D_QPU_A_VDWWT 33 0,
  mux_desc 187 187 (OP_MASK 2) (OP_MASK 2) V3D_QPU_A_IID 40 0,
  mux_desc 187 187 (OP_MASK 2) (OP_MASK 3) V3D_QPU_A_SAMPID 40 0,
  mux_desc 187 187 (OP_MASK 2) (OP_MASK 4) V3D_QPU_A_BARRIERID 40 0,
  mux_desc 187 187 (OP_MASK 2) (OP_MASK 5) V3D_QPU_A_TMUWT 0 0,
  mux_desc 187 187 (OP_MASK 2) (OP_MASK 6) V3D_QPU_A_VPMWT 0 0,
  mux_desc 187 187 (OP_MASK 2) (OP_MASK 7) V3D_QPU_A_FLAFIRST 41 0,
  mux_desc 187 187 (OP_MASK 3) (OP_MASK 0) V3D_QPU_A_FLNAFIRST 41 0,
  mux_desc 187 187 (OP_MASK 3) ANYMUX V3D_QPU_A_VPMSETUP 33 0,
  mux_desc 188 188 (OP_MASK 0) ANYMUX V3D_QPU_A_LDVPMV_IN 40 0,
  mux_desc 188 188 (OP_MASK 0) ANYMUX V3D_QPU_A_LDVPMV_OUT 40 0,
  mux_desc 188 188 (OP_MASK 1) ANYMUX V3D_QPU_A_LDVPMD_IN 40 0,
  mux_desc 188 188 (OP_MASK 1) ANYMUX V3D_QPU_A_LDVPMD_OUT 40 0,
  mux_desc 188 188 (OP_MASK 2) ANYMUX V3D_QPU_A_LDVPMP 40 0,
  mux_desc 188 188 (OP_MASK 3) ANYMUX V3D_QPU_A_RSQRT 41 0,
  mux_desc 188 188 (OP_MASK 4) ANYMUX V3D_QPU_A_EXP 41 0,
  mux_desc 188 188 (OP_MASK 5) ANYMUX V3D_QPU_A_LOG 41 0,
  mux_desc 188 188 (OP_MASK 6) ANYMUX V3D_QPU_A_SIN 41 0,
  mux_desc 188 188 (OP_MASK 7) ANYMUX V3D_QPU_A_RSQRT2 41 0,
  mux_desc 189 189 ANYMUX ANYMUX V3D_QPU_A_LDVPMG_IN 40 0,
  mux_desc 189 189 ANYMUX ANYMUX V3D_QPU_A_LDVPMG_OUT 40 0,
  mux_desc 192 239 ANYMUX ANYMUX V3D_QPU_A_FCMP 0 0,
  mux_desc 240 244 ANYMUX ANYMUX V3D_QPU_A_VFMAX 0 0,
  mux_desc 245 245 (OP_RANGE 0 2) ANYMUX V3D_QPU_A_FROUND 0 0,
  mux_desc 245 245 (OP_MASK 3) ANYMUX V3D_QPU_A_FTOIN 0 0,
  mux_desc 245 245 (OP_RANGE 4 6) ANYMUX V3D_QPU_A_FTRUNC 0 0,
  mux_desc 245 245 (OP_MASK 7) ANYMUX V3D_QPU_A_FTOIZ 0 0,
  mux_desc 246 246 (OP_RANGE 0 2) ANYMUX V3D_QPU_A_FFLOOR 0 0,
  mux_desc 246 246 (OP_MASK 3) ANYMUX V3D_QPU_A_FTOUZ 0 0,
  mux_desc 246 246 (OP_RANGE 4 6) ANYMUX V3D_QPU_A_FCEIL 0 0,
  mux_desc 246 246 (OP_MASK 7) ANYMUX V3D_QPU_A_FTOC 0 0,
  mux_desc 247 247 (OP_RANGE 0 2) ANYMUX V3D_QPU_A_FDX 0 0,
  mux_desc 247 247 (OP_RANGE 4 6) ANYMUX V3D_QPU_A_FDY 0 0,
  mux_desc 248 248 ANYMUX ANYMUX V3D_QPU_A_STVPMV 0 0,
  mux_desc 248 248 ANYMUX ANYMUX V3D_QPU_A_STVPMD 0 0,
  mux_desc 248 248 ANYMUX ANYMUX V3D_QPU_A_STVPMP 0 0,
  mux_desc 252 252 (OP_RANGE 0 2) ANYMUX V3D_QPU_A_ITOF 0 0,
  mux_desc 252 252 (OP_MASK 3) ANYMUX V3D_QPU_A_CLZ 0 0,
  mux_desc 252 252 (OP_RANGE 4 6) ANYMUX V3D_QPU_A_UTOF 0 0
]

def mul_ops_v33 : List opcode_desc := [
  mux_desc 1 1 ANYMUX ANYMUX V3D_QPU_M_ADD 0 0,
  mux_desc 2 2 ANYMUX ANYMUX V3D_QPU_M_SUB 0 0,
  mux_desc 3 3 ANYMUX ANYMUX V3D_QPU_M_UMUL24 0 0,
  mux_desc 4 8 ANYMUX ANYMUX V3D_QPU_M_VFMUL 0 0,
  mux_desc 9 9 ANYMUX ANYMUX V3D_QPU_M_SMUL24 0 0,
  mux_desc 10 10 ANYMUX ANYMUX V3D_QPU_M_MULTOP 0 0,
  mux_desc 14 14 ANYMUX ANYMUX V3D_QPU_M_FMOV 33 42,
  mux_desc 15 15 (OP_RANGE 0 3) ANYMUX V3D_QPU_M_FMOV 33 42,
  mux_desc 15 15 (OP_MASK 4) (OP_MASK 0) V3D_QPU_M_NOP 33 42,
  mux_desc 15 15 (OP_MASK 7) ANYMUX V3D_QPU_M_MOV 33 42,
  mux_desc 16 63 ANYMUX ANYMUX V3D_QPU_M_FMUL 0 0
]

def add_ops_v71 : List opcode_desc := [
  raddr_desc 0 47 ANYOPMASK V3D_QPU_A_FADD 0 0,
  raddr_desc 0 47 ANYOPMASK V3D_QPU_A_FADDNF 0 0,
  raddr_desc 53 55 ANYOPMASK V3D_QPU_A_VFPACK 0 0,
  raddr_desc 56 56 ANYOPMASK V3D_QPU_A_ADD 0 0,
  raddr_desc 57 59 ANYOPMASK V3D_QPU_A_VFPACK 0 0,
  raddr_desc 60 60 ANYOPMASK V3D_QPU_A_SUB 0 0,
  raddr_desc 61 63 ANYOPMASK V3D_QPU_A_VFPACK 0 0,
  raddr_desc 64 111 ANYOPMASK V3D_QPU_A_FSUB 0 0,
  raddr_desc 120 120 ANYOPMASK V3D_QPU_A_MIN 0 0,
  raddr_desc 121 121 ANYOPMASK V3D_QPU_A_MAX 0 0,
  raddr_desc 122 122 ANYOPMASK V3D_QPU_A_UMIN 0 0,
  raddr_desc 123 123 ANYOPMASK V3D_QPU_A_UMAX 0 0,
  raddr_desc 124 124 ANYOPMASK V3D_QPU_A_SHL 0 0,
  raddr_desc 125 125 ANYOPMASK V3D_QPU_A_SHR 0 0,
  raddr_desc 126 126 ANYOPMASK V3D_QPU_A_ASR 0 0,
  raddr_desc 127 127 ANYOPMASK V3D_QPU_A_ROR 0 0,
  raddr_desc 128 175 ANYOPMASK V3D_QPU_A_FMIN 0 0,
  raddr_desc 128 175 ANYOPMASK V3D_QPU_A_FMAX 0 0,
  raddr_desc 176 180 ANYOPMASK V3D_QPU_A_VFMIN 0 0,
  raddr_desc 181 181 ANYOPMASK V3D_QPU_A_AND 0 0,
  raddr_desc 182 182 ANYOPMASK V3D_QPU_A_OR 0 0,
  raddr_desc 183 183 ANYOPMASK V3D_QPU_A_XOR 0 0,
  raddr_desc 184 184 ANYOPMASK V3D_QPU_A_VADD 0 0,
  raddr_desc 185 185 ANYOPMASK V3D_QPU_A_VSUB 0 0,
  raddr_desc 186 186 (OP_MASK 0) V3D_QPU_A_NOT 0 0,
  raddr_desc 186 186 (OP_MASK 1) V3D_QPU_A_NEG 0 0,
  raddr_desc 186 186 (OP_MASK 2) V3D_QPU_A_FLAPUSH 0 0,
  raddr_desc 186 186 (OP_MASK 3) V3D_QPU_A_FLBPUSH 0 0,
  raddr_desc 186 186 (OP_MASK 4) V3D_QPU_A_FLPOP 0 0,
  raddr_desc 186 186 (OP_MASK 5) V3D_QPU_A_CLZ 0 0,
  raddr_desc 186 186 (OP_MASK 6) V3D_QPU_A_SETMSF 0 0,
  raddr_desc 186 186 (OP_MASK 7) V3D_QPU_A_SETREVF 0 0,
  raddr_desc 187 187 (OP_MASK 0) V3D_QPU_A_NOP 0 0,
  raddr_desc 187 187 (OP_MASK 1) V3D_QPU_A_TIDX 0 0,
  raddr_desc 187 187 (OP_MASK 2) V3D_QPU_A_EIDX 0 0,
  raddr_desc 187 187 (OP_MASK 3) V3D_QPU_A_LR 0 0,
  raddr_desc 187 187 (OP_MASK 4) V3D_QPU_A_VFLA 0 0,
  raddr_desc 187 187 (OP_MASK 5) V3D_QPU_A_VFLNA 0 0,
  raddr_desc 187 187 (OP_MASK 6) V3D_QPU_A_VFLB 0 0,
  raddr_desc 187 187 (OP_MASK 7) V3D_QPU_A_VFLNB 0 0,
  raddr_desc 187 187 (OP_MASK 8) V3D_QPU_A_XCD 0 0,
  raddr_desc 187 187 (OP_MASK 9) V3D_QPU_A_YCD 0 0,
  raddr_desc 187 187 (OP_MASK 10) V3D_QPU_A_MSF 0 0,
  raddr_desc 187 187 (OP_MASK 11) V3D_QPU_A_REVF 0 0,
  raddr_desc 187 187 (OP_MASK 12) V3D_QPU_A_IID 0 0,
  raddr_desc 187 187 (OP_MASK 13) V3D_QPU_A_SAMPID 0 0,
  raddr_desc 187 187 (OP_MASK 14) V3D_QPU_A_BARRIERID 0 0,
  raddr_desc 187 187 (OP_MASK 15) V3D_QPU_A_TMUWT 0 0,
  raddr_desc 187 187 (OP_MASK 16) V3D_QPU_A_VPMWT 0 0,
  raddr_desc 187 187 (OP_MASK 17) V3D_QPU_A_FLAFIRST 0 0,
  raddr_desc 187 187 (OP_MASK 18) V3D_QPU_A_FLNAFIRST 0 0,
  raddr_desc 187 187 (OP_RANGE 32 34) V3D_QPU_A_FXCD 0 0,
  raddr_desc 187 187 (OP_RANGE 36 38) V3D_QPU_A_FYCD 0 0,
  raddr_desc 188 188 (OP_MASK 0) V3D_QPU_A_LDVPMV_IN 71 0,
  raddr_desc 188 188 (OP_MASK 1) V3D_QPU_A_LDVPMD_IN 71 0,
  raddr_desc 188 188 (OP_MASK 2) V3D_QPU_A_LDVPMP 71 0,
  raddr_desc 188 188 (OP_MASK 32) V3D_QPU_A_RECIP 71 0,
  raddr_desc 188 188 (OP_MASK 33) V3D_QPU_A_RSQRT 71 0,
  raddr_desc 188 188 (OP_MASK 34) V3D_QPU_A_EXP 71 0,
  raddr_desc 188 188 (OP_MASK 35) V3D_QPU_A_LOG 71 0,
  raddr_desc 188 188 (OP_MASK 36) V3D_QPU_A_SIN 71 0,
  raddr_desc 188 188 (OP_MASK 37) V3D_QPU_A_RSQRT2 71 0,
  raddr_desc 189 189 ANYOPMASK V3D_QPU_A_LDVPMG_IN 71 0,
  raddr_desc 190 190 ANYOPMASK V3D_QPU_A_STVPMV 71 0,
  raddr_desc 190 190 ANYOPMASK V3D_QPU_A_STVPMD 71 0,
  raddr_desc 190 190 ANYOPMASK V3D_QPU_A_STVPMP 71 0,
  raddr_desc 192 207 ANYOPMASK V3D_QPU_A_FCMP 71 0,
  raddr_desc 245 245 (OP_RANGE 0 2) V3D_QPU_A_FROUND 71 0,
  raddr_desc 245 245 (OP_RANGE 4 6) V3D_QPU_A_FROUND 71 0,
  raddr_desc 245 245 (OP_RANGE 8 10) V3D_QPU_A_FROUND 71 0,
  raddr_desc 245 245 (OP_RANGE 12 14) V3D_QPU_A_FROUND 71 0,
  raddr_desc 245 245 (OP_MASK 3) V3D_QPU_A_FTOIN 71 0,
  raddr_desc 245 245 (OP_MASK 7) V3D_QPU_A_FTOIN 71 0,
  raddr_desc 245 245 (OP_MASK 11) V3D_QPU_A_FTOIN 71 0,
  raddr_desc 245 245 (OP_MASK 15) V3D_QPU_A_FTOIN 71 0,
  raddr_desc 245 245 (OP_RANGE 16 18) V3D_QPU_A_FTRUNC 71 0,
  raddr_desc 245 245 (OP_RANGE 20 22) V3D_QPU_A_FTRUNC 71 0,
  raddr_desc 245 245 (OP_RANGE 24 26) V3D_QPU_A_FTRUNC 71 0,
  raddr_desc 245 245 (OP_RANGE 28 30) V3D_QPU_A_FTRUNC 71 0,
  raddr_desc 245 245 (OP_MASK 19) V3D_QPU_A_FTOIZ 71 0,
  raddr_desc 245 245 (OP_MASK 23) V3D_QPU_A_FTOIZ 71 0,
  raddr_desc 245 245 (OP_MASK 27) V3D_QPU_A_FTOIZ 71 0,
  raddr_desc 245 245 (OP_MASK 31) V3D_QPU_A_FTOIZ 71 0,
  raddr_desc 245 245 (OP_RANGE 32 34) V3D_QPU_A_FFLOOR 71 0,
  raddr_desc 245 245 (OP_RANGE 36 38) V3D_QPU_A_FFLOOR 71 0,
  raddr_desc 245 245 (OP_RANGE 40 42) V3D_QPU_A_FFLOOR 71 0,
  raddr_desc 245 245 (OP_RANGE 44 46) V3D_QPU_A_FFLOOR 71 0,
  raddr_desc 245 245 (OP_MASK 35) V3D_QPU_A_FTOUZ 71 0,
  raddr_desc 245 245 (OP_MASK 39) V3D_QPU_A_FTOUZ 71 0,
  raddr_desc 245 245 (OP_MASK 43) V3D_QPU_A_FTOUZ 71 0,
  raddr_desc 245 245 (OP_MASK 47) V3D_QPU_A_FTOUZ 71 0,
  raddr_desc 245 245 (OP_RANGE 48 50) V3D_QPU_A_FCEIL 71 0,
  raddr_desc 245 245 (OP_RANGE 52 54) V3D_QPU_A_FCEIL 71 0,
  raddr_desc 245 245 (OP_RANGE 56 58) V3D_QPU_A_FCEIL 71 0,
  raddr_desc 245 245 (OP_RANGE 60 62) V3D_QPU_A_FCEIL 71 0,
  raddr_desc 245 245 (OP_MASK 51) V3D_QPU_A_FTOC 0 0,
  raddr_desc 245 245 (OP_MASK 55) V3D_QPU_A_FTOC 0 0,
  raddr_desc 245 245 (OP_MASK 59) V3D_QPU_A_FTOC 0 0,
  raddr_desc 245 245 (OP_MASK 63) V3D_QPU_A_FTOC 0 0,
  raddr_desc 246 246 (OP_RANGE 0 2) V3D_QPU_A_FDX 71 0,
  raddr_desc 246 246 (OP_RANGE 4 6) V3D_QPU_A_FDX 71 0,
  raddr_desc 246 246 (OP_RANGE 8 10) V3D_QPU_A_FDX 71 0,
  raddr_desc 246 246 (OP_RANGE 12 14) V3D_QPU_A_FDX 71 0,
  raddr_desc 246 246 (OP_RANGE 16 18) V3D_QPU_A_FDY 71 0,
  raddr_desc 246 246 (OP_RANGE 20 22) V3D_QPU_A_FDY 71 0,
  raddr_desc 246 246 (OP_RANGE 24 26) V3D_QPU_A_FDY 71 0,
  raddr_desc 246 246 (OP_RANGE 28 30) V3D_QPU_A_FDY 71 0,
  raddr_desc 246 246 (OP_RANGE 32 34) V3D_QPU_A_ITOF 71 0,
  raddr_desc 246 246 (OP_RANGE 36 38) V3D_QPU_A_UTOF 71 0,
  raddr_desc 247 247 ANYOPMASK V3D_QPU_A_VPACK 71 0,
  raddr_desc 248 248 ANYOPMASK V3D_QPU_A_V8PACK 71 0,
  raddr_desc 249 249 (OP_RANGE 0 2) V3D_QPU_A_FMOV 71 0,
  raddr_desc 249 249 (OP_RANGE 4 6) V3D_QPU_A_FMOV 71 0,
  raddr_desc 249 249 (OP_RANGE 8 10) V3D_QPU_A_FMOV 71 0,
  raddr_desc 249 249 (OP_RANGE 12 14) V3D_QPU_A_FMOV 71 0,
  raddr_desc 249 249 (OP_RANGE 16 18) V3D_QPU_A_FMOV 71 0,
  raddr_desc 249 249 (OP_RANGE 20 22) V3D_QPU_A_FMOV 71 0,
  raddr_desc 249 249 (OP_RANGE 24 26) V3D_QPU_A_FMOV 71 0,
  raddr_desc 249 249 (OP_MASK 3) V3D_QPU_A_MOV 71 0,
  raddr_desc 249 249 (OP_MASK 7) V3D_QPU_A_MOV 71 0,
  raddr_desc 249 249 (OP_MASK 11) V3D_QPU_A_MOV 71 0,
  raddr_desc 249 249 (OP_MASK 15) V3D_QPU_A_MOV 71 0,
  raddr_desc 249 249 (OP_MASK 19) V3D_QPU_A_MOV 71 0,
  raddr_desc 250 250 ANYOPMASK V3D_QPU_A_V10PACK 71 0,
  raddr_desc 251 251 ANYOPMASK V3D_QPU_A_V11FPACK 71 0
]

def mul_ops_v71 : List opcode_desc := [
  raddr_desc 1 1 ANYOPMASK V3D_QPU_M_ADD 71 0,
  raddr_desc 2 2 ANYOPMASK V3D_QPU_M_SUB 71 0,
  raddr_desc 3 3 ANYOPMASK V3D_QPU_M_UMUL24 71 0,
  raddr_desc 3 3 ANYOPMASK V3D_QPU_M_UMUL24 71 0,
  raddr_desc 4 8 ANYOPMASK V3D_QPU_M_VFMUL 71 0,
  raddr_desc 9 9 ANYOPMASK V3D_QPU_M_SMUL24 71 0,
  raddr_desc 10 10 ANYOPMASK V3D_QPU_M_MULTOP 71 0,
  raddr_desc 14 14 (OP_RANGE 0 2) V3D_QPU_M_FMOV 71 0,
  raddr_desc 14 14 (OP_RANGE 4 6) V3D_QPU_M_FMOV 71 0,
  raddr_desc 14 14 (OP_RANGE 8 10) V3D_QPU_M_FMOV 71 0,
  raddr_desc 14 14 (OP_RANGE 12 14) V3D_QPU_M_FMOV 71 0,
  raddr_desc 14 14 (OP_RANGE 16 18) V3D_QPU_M_FMOV 71 0,
  raddr_desc 14 14 (OP_RANGE 20 22) V3D_QPU_M_FMOV 71 0,
  raddr_desc 14 14 (OP_MASK 3) V3D_QPU_M_MOV 71 0,
  raddr_desc 14 14 (OP_MASK 7) V3D_QPU_M_MOV 71 0,
  raddr_desc 14 14 (OP_MASK 11) V3D_QPU_M_MOV 71 0,
  raddr_desc 14 14 (OP_MASK 15) V3D_QPU_M_MOV 71 0,
  raddr_desc 14 14 (OP_MASK 19) V3D_QPU_M_MOV 71 0,
  raddr_desc 14 14 (OP_MASK 32) V3D_QPU_M_FTOUNORM16 71 0,
  raddr_desc 14 14 (OP_MASK 33) V3D_QPU_M_FTOSNORM16 71 0,
  raddr_desc 14 14 (OP_MASK 34) V3D_QPU_M_VFTOUNORM8 71 0,
  raddr_desc 14 14 (OP_MASK 35) V3D_QPU_M_VFTOSNORM8 71 0,
  raddr_desc 14 14 (OP_MASK 48) V3D_QPU_M_VFTOUNORM10LO 71 0,
  raddr_desc 14 14 (OP_MASK 49) V3D_QPU_M_VFTOUNORM10HI 71 0,
  raddr_desc 14 14 (OP_MASK 63) V3D_QPU_M_NOP 71 0,
  raddr_desc 16 63 ANYOPMASK V3D_QPU_M_FMUL 0 0
]

/-- `opcode_invalid_in_version`. -/
def opcode_invalid_in_version (devinfo : v3d_device_info) (first_ver last_ver : Nat) : Bool :=
  (first_ver != 0 && decide (devinfo.ver < first_ver)) ||
  (last_ver != 0 && decide (devinfo.ver > last_ver))

/-- The test one loop iteration of `lookup_opcode_from_packed` applies to a descriptor. -/
def opcode_desc_matches_packed (devinfo : v3d_device_info) (opcode mux_a mux_b raddr : Nat)
    (op_desc : opcode_desc) : Bool :=
  if opcode < op_desc.opcode_first ∨ opcode > op_desc.opcode_last then false
  else if opcode_invalid_in_version devinfo op_desc.first_ver op_desc.last_ver then false
  else if devinfo.ver < 71 then
    if op_desc.b_mask &&& (1 <<< mux_b) = 0 then false
    else if op_desc.a_mask &&& (1 <<< mux_a) = 0 then false
    else true
  else
    if op_desc.raddr_mask &&& (1 <<< raddr) = 0 then false
    else true

/-- `lookup_opcode_from_packed`: the first descriptor of the table that passes the test. -/
def lookup_opcode_from_packed (devinfo : v3d_device_info) (opcodes : List opcode_desc)
    (opcode mux_a mux_b raddr : Nat) : Option opcode_desc :=
  opcodes.find? (opcode_desc_matches_packed devinfo opcode mux_a mux_b raddr)

/-- `lookup_opcode_from_instr`: the first descriptor of the table for `op` that is valid in the version. -/
def lookup_opcode_from_instr (devinfo : v3d_device_info) (opcodes : List opcode_desc)
    (op : Nat) : Option opcode_desc :=
  opcodes.find? (fun op_desc =>
    op_desc.op == op && !opcode_invalid_in_version devinfo op_desc.first_ver op_desc.last_ver)

/-- `ffs` as written in the source (from Mesa `bitscan.c`), on a 32-bit argument. -/
def ffs (i : Nat) : Nat :=
  if i = 0 then 0
  else
    let bit := 0
    let (bit, i) := if i &&& 0xffff = 0 then (bit + 16, i >>> 16) else (bit, i)
    let (bit, i) := if i &&& 0xff = 0 then (bit + 8, i >>> 8) else (bit, i)
    let (bit, i) := if i &&& 0xf = 0 then (bit + 4, i >>> 4) else (bit, i)
    let (bit, i) := if i &&& 0x3 = 0 then (bit + 2, i >>> 2) else (bit, i)
    let bit := if i &&& 0x1 = 0 then bit + 1 else bit
    bit + 1

/-- `ffsll` as written in the source. -/
def ffsll (val : Nat) : Nat :=
  let bit := ffs (val &&& 0xffffffff)
  if bit ≠ 0 then bit
  else
    let bit := ffs ((val >>> 32) &&& 0xffffffff)
    if bit ≠ 0 then 32 + bit else 0

/-! ## Input-unpack and output-pack sub-codecs -/

/-- `v3d_qpu_float32_unpack_unpack`. -/
def v3d_qpu_float32_unpack_unpack (packed : Nat) : Option Nat :=
  if packed = 0 then some V3D_QPU_UNPACK_ABS
  else if packed = 1 then some V3D_QPU_UNPACK_NONE
  else if packed = 2 then some V3D_QPU_UNPACK_L
  else if packed = 3 then some V3D_QPU_UNPACK_H
  else none

/-- `v3d_qpu_float32_unpack_pack`. -/
def v3d_qpu_float32_unpack_pack (unpacked : Nat) : Option Nat :=
  if unpacked = V3D_QPU_UNPACK_ABS then some 0
  else if unpacked = V3D_QPU_UNPACK_NONE then some 1
  else if unpacked = V3D_QPU_UNPACK_L then some 2
  else if unpacked = V3D_QPU_UNPACK_H then some 3
  else none

/-- `v3d_qpu_int32_unpack_unpack`. -/
def v3d_qpu_int32_unpack_unpack (packed : Nat) : Option Nat :=
  if packed = 0 then some V3D_QPU_UNPACK_NONE
  else if packed = 1 then some V3D_QPU_UNPACK_UL
  else if packed = 2 then some V3D_QPU_UNPACK_UH
  else if packed = 3 then some V3D_QPU_UNPACK_IL
  else if packed = 4 then some V3D_QPU_UNPACK_IH
  else none

/-- `v3d_qpu_int32_unpack_pack`. -/
def v3d_qpu_int32_unpack_pack (unpacked : Nat) : Option Nat :=
  if unpacked = V3D_QPU_UNPACK_NONE then some 0
  else if unpacked = V3D_QPU_UNPACK_UL then some 1
  else if unpacked = V3D_QPU_UNPACK_UH then some 2
  else if unpacked = V3D_QPU_UNPACK_IL then some 3
  else if unpacked = V3D_QPU_UNPACK_IH then some 4
  else none

/-- `v3d_qpu_float16_unpack_unpack`. -/
def v3d_qpu_float16_unpack_unpack (packed : Nat) : Option Nat :=
  if packed = 0 then some V3D_QPU_UNPACK_NONE
  else if packed = 1 then some V3D_QPU_UNPACK_REPLICATE_32F_16
  else if packed = 2 then some V3D_QPU_UNPACK_REPLICATE_L_16
  else if packed = 3 then some V3D_QPU_UNPACK_REPLICATE_H_16
  else if packed = 4 then some V3D_QPU_UNPACK_SWAP_16
  else none

/-- `v3d_qpu_float16_unpack_pack`. -/
def v3d_qpu_float16_unpack_pack (unpacked : Nat) : Option Nat :=
  if unpacked = V3D_QPU_UNPACK_NONE then some 0
  else if unpacked = V3D_QPU_UNPACK_REPLICATE_32F_16 then some 1
  else if unpacked = V3D_QPU_UNPACK_REPLICATE_L_16 then some 2
  else if unpacked = V3D_QPU_UNPACK_REPLICATE_H_16 then some 3
  else if unpacked = V3D_QPU_UNPACK_SWAP_16 then some 4
  else none

/-- `v3d_qpu_float32_pack_pack`. -/
def v3d_qpu_float32_pack_pack (pack : Nat) : Option Nat :=
  if pack = V3D_QPU_PACK_NONE then some 0
  else if pack = V3D_QPU_PACK_L then some 1
  else if pack = V3D_QPU_PACK_H then some 2
  else none

/-! ## ADD and MUL half decoders

Each `*_unpack` function of the source reads a few fields of the packed word
into locals, computes the values it stores into one half of `instr->alu`, and
stores them.  The middle part is a function of the locals (`*_unpack_core`);
it returns the stored values, with `none` for the whole result where the source
returns `FALSE`. -/

/-- The values an ALU half decoder stores besides the operand selectors and the
write address.  `b_unpack` is `none` on the paths of the source that leave
`b.unpack` of the record untouched. -/
structure alu_unpack_fields where
  op : Nat
  output_pack : Nat
  a_unpack : Nat
  b_unpack : Option Nat
  magic_write : Bool
deriving DecidableEq, Repr

/-- Stores the decoded values into an ALU half, as the tail of each `*_unpack` function does. -/
def alu_unpack_fields.store (r : alu_unpack_fields) (mux_a mux_b waddr : Nat)
    (half : v3d_qpu_alu_half) : v3d_qpu_alu_half :=
  { op := r.op,
    a := { mux := mux_a, unpack := r.a_unpack },
    b := { mux := mux_b, unpack := r.b_unpack.getD half.b.unpack },
    waddr := waddr,
    magic_write := r.magic_write,
    output_pack := r.output_pack }

/-- The opcode folding at the head of `v3d33_qpu_add_unpack` (`map_op`). -/
def v3d33_qpu_add_unpack_map_op (op : Nat) : Nat :=
  let map_op := op
  let map_op := if map_op ≥ 249 ∧ map_op ≤ 251 then map_op - 249 + 245 else map_op
  let map_op := if map_op ≥ 253 ∧ map_op ≤ 255 then map_op - 253 + 245 else map_op
  map_op

/-- The FADD/FADDNF and FMIN/FMAX selection of the ADD decoders: when the operand
ordering test holds, FMIN becomes FMAX and FADD becomes FADDNF. -/
def v3d_qpu_add_unpack_order (ordering : Bool) (add_op : Nat) : Nat :=
  if ordering then
    let add_op := if add_op = V3D_QPU_A_FMIN then V3D_QPU_A_FMAX else add_op
    if add_op = V3D_QPU_A_FADD then V3D_QPU_A_FADDNF else add_op
  else add_op

/-- The first `switch` of the ADD decoders: the VPM stores are told apart by `waddr`. -/
def v3d_qpu_add_unpack_stvpm (add_op waddr : Nat) : Option Nat :=
  if add_op = V3D_QPU_A_STVPMV ∨ add_op = V3D_QPU_A_STVPMD ∨ add_op = V3D_QPU_A_STVPMP then
    if waddr = 0 then some V3D_QPU_A_STVPMV
    else if waddr = 1 then some V3D_QPU_A_STVPMD
    else if waddr = 2 then some V3D_QPU_A_STVPMP
    else none
  else some add_op

/-- The second `switch` of `v3d33_qpu_add_unpack`: `(output_pack, a.unpack, b.unpack)`. -/
def v3d33_qpu_add_unpack_modifiers (add_op op mux_b : Nat) : Option (Nat × Nat × Option Nat) :=
  if add_op = V3D_QPU_A_FADD ∨ add_op = V3D_QPU_A_FADDNF ∨ add_op = V3D_QPU_A_FSUB ∨
     add_op = V3D_QPU_A_FMIN ∨ add_op = V3D_QPU_A_FMAX ∨ add_op = V3D_QPU_A_FCMP ∨
     add_op = V3D_QPU_A_VFPACK then
    let output_pack := if add_op ≠ V3D_QPU_A_VFPACK then (op >>> 4) &&& 0x3 else V3D_QPU_PACK_NONE
    match v3d_qpu_float32_unpack_unpack ((op >>> 2) &&& 0x3) with
    | none => none
    | some a_unpack =>
      match v3d_qpu_float32_unpack_unpack ((op >>> 0) &&& 0x3) with
      | none => none
      | some b_unpack => some (output_pack, a_unpack, some b_unpack)
  else if add_op = V3D_QPU_A_FFLOOR ∨ add_op = V3D_QPU_A_FROUND ∨ add_op = V3D_QPU_A_FTRUNC ∨
     add_op = V3D_QPU_A_FCEIL ∨ add_op = V3D_QPU_A_FDX ∨ add_op = V3D_QPU_A_FDY then
    match v3d_qpu_float32_unpack_unpack ((op >>> 2) &&& 0x3) with
    | none => none
    | some a_unpack => some (mux_b &&& 0x3, a_unpack, none)
  else if add_op = V3D_QPU_A_FTOIN ∨ add_op = V3D_QPU_A_FTOIZ ∨ add_op = V3D_QPU_A_FTOUZ ∨
     add_op = V3D_QPU_A_FTOC then
    match v3d_qpu_float32_unpack_unpack ((op >>> 2) &&& 0x3) with
    | none => none
    | some a_unpack => some (V3D_QPU_PACK_NONE, a_unpack, none)
  else if add_op = V3D_QPU_A_VFMIN ∨ add_op = V3D_QPU_A_VFMAX then
    match v3d_qpu_float16_unpack_unpack (op &&& 0x7) with
    | none => none
    | some a_unpack => some (V3D_QPU_PACK_NONE, a_unpack, some V3D_QPU_UNPACK_NONE)
  else some (V3D_QPU_PACK_NONE, V3D_QPU_UNPACK_NONE, some V3D_QPU_UNPACK_NONE)

/-- The tail of the ADD decoders: with the `MA` bit set an LDVPM `_IN` op becomes
its `_OUT` variant, and any other op gets `magic_write`. -/
def v3d_qpu_add_unpack_magic (add_op : Nat) (ma : Bool) : Nat × Bool :=
  if ma then
    if add_op = V3D_QPU_A_LDVPMV_IN then (V3D_QPU_A_LDVPMV_OUT, false)
    else if add_op = V3D_QPU_A_LDVPMD_IN then (V3D_QPU_A_LDVPMD_OUT, false)
    else if add_op = V3D_QPU_A_LDVPMG_IN then (V3D_QPU_A_LDVPMG_OUT, false)
    else (add_op, true)
  else (add_op, false)

/-- The body of `v3d33_qpu_add_unpack` on the locals `op`, `mux_a`, `mux_b`, `waddr`
and the `MA` bit of the packed word. -/
def v3d33_qpu_add_unpack_core (devinfo : v3d_device_info) (op mux_a mux_b waddr : Nat)
    (ma : Bool) : Option alu_unpack_fields :=
  match lookup_opcode_from_packed devinfo add_ops_v33 (v3d33_qpu_add_unpack_map_op op)
      mux_a mux_b 0 with
  | none => none
  | some desc =>
    let add_op := v3d_qpu_add_unpack_order
      (decide (((op >>> 2) &&& 3) * 8 + mux_a > (op &&& 3) * 8 + mux_b)) desc.op
    match v3d_qpu_add_unpack_stvpm add_op waddr with
    | none => none
    | some add_op =>
      match v3d33_qpu_add_unpack_modifiers add_op op mux_b with
      | none => none
      | some (output_pack, a_unpack, b_unpack) =>
        let r := v3d_qpu_add_unpack_magic add_op ma
        some ⟨r.1, output_pack, a_unpack, b_unpack, r.2⟩

/-- `v3d33_qpu_add_unpack`. -/
def v3d33_qpu_add_unpack (devinfo : v3d_device_info) (packed_inst : Nat)
    (instr : v3d_qpu_instr) : Option v3d_qpu_instr :=
  let op := QPU_GET_FIELD packed_inst V3D_QPU_OP_ADD_SHIFT V3D_QPU_OP_ADD_MASK
  let mux_a := QPU_GET_FIELD packed_inst V3D_QPU_ADD_A_SHIFT V3D_QPU_ADD_A_MASK
  let mux_b := QPU_GET_FIELD packed_inst V3D_QPU_ADD_B_SHIFT V3D_QPU_ADD_B_MASK
  let waddr := QPU_GET_FIELD packed_inst V3D_QPU_WADDR_A_SHIFT V3D_QPU_WADDR_A_MASK
  match v3d33_qpu_add_unpack_core devinfo op mux_a mux_b waddr
      (packed_inst &&& V3D_QPU_MA != 0) with
  | none => none
  | some r =>
    some { instr with alu := { instr.alu with add := r.store mux_a mux_b waddr instr.alu.add } }

/-- The second `switch` of `v3d71_qpu_add_unpack`: `(output_pack, a.unpack, b.unpack)`.
The `v3d_unreachable` of the VFMIN/VFMAX case is a no-op unless the includer
defines `v3d_assert`, so that case continues as written. -/
def v3d71_qpu_add_unpack_modifiers (add_op op raddr_b : Nat) : Option (Nat × Nat × Option Nat) :=
  if add_op = V3D_QPU_A_FADD ∨ add_op = V3D_QPU_A_FADDNF ∨ add_op = V3D_QPU_A_FSUB ∨
     add_op = V3D_QPU_A_FMIN ∨ add_op = V3D_QPU_A_FMAX ∨ add_op = V3D_QPU_A_FCMP ∨
     add_op = V3D_QPU_A_VFPACK then
    let output_pack :=
      if add_op ≠ V3D_QPU_A_VFPACK ∧ add_op ≠ V3D_QPU_A_FCMP then (op >>> 4) &&& 0x3
      else V3D_QPU_PACK_NONE
    match v3d_qpu_float32_unpack_unpack ((op >>> 2) &&& 0x3) with
    | none => none
    | some a_unpack =>
      match v3d_qpu_float32_unpack_unpack ((op >>> 0) &&& 0x3) with
      | none => none
      | some b_unpack => some (output_pack, a_unpack, some b_unpack)
  else if add_op = V3D_QPU_A_FFLOOR ∨ add_op = V3D_QPU_A_FROUND ∨ add_op = V3D_QPU_A_FTRUNC ∨
     add_op = V3D_QPU_A_FCEIL ∨ add_op = V3D_QPU_A_FDX ∨ add_op = V3D_QPU_A_FDY then
    match v3d_qpu_float32_unpack_unpack ((op >>> 2) &&& 0x3) with
    | none => none
    | some a_unpack => some (raddr_b &&& 0x3, a_unpack, none)
  else if add_op = V3D_QPU_A_FTOIN ∨ add_op = V3D_QPU_A_FTOIZ ∨ add_op = V3D_QPU_A_FTOUZ ∨
     add_op = V3D_QPU_A_FTOC then
    match v3d_qpu_float32_unpack_unpack ((raddr_b >>> 2) &&& 0x3) with
    | none => none
    | some a_unpack => some (V3D_QPU_PACK_NONE, a_unpack, none)
  else if add_op = V3D_QPU_A_VFMIN ∨ add_op = V3D_QPU_A_VFMAX then
    match v3d_qpu_float16_unpack_unpack (op &&& 0x7) with
    | none => none
    | some a_unpack => some (V3D_QPU_PACK_NONE, a_unpack, some V3D_QPU_UNPACK_NONE)
  else if add_op = V3D_QPU_A_MOV then
    match v3d_qpu_int32_unpack_unpack ((raddr_b >>> 2) &&& 0x7) with
    | none => none
    | some a_unpack => some (V3D_QPU_PACK_NONE, a_unpack, none)
  else if add_op = V3D_QPU_A_FMOV then
    let unpack := (raddr_b >>> 2) &&& 0x7
    if unpack = 7 then none
    else
      match v3d_qpu_float32_unpack_unpack unpack with
      | none => none
      | some a_unpack => some (raddr_b &&& 0x3, a_unpack, none)
  else some (V3D_QPU_PACK_NONE, V3D_QPU_UNPACK_NONE, some V3D_QPU_UNPACK_NONE)

/-- One side of the operand ordering test of `v3d71_qpu_add_unpack` and
`v3d71_qpu_add_pack`, `instr->sig.small_imm_a * 256 + a_unpack * 64 + raddr_a`:
the bit-field is promoted to `int` and multiplied, the other two terms are
`v3d_uint32`, so the sum is converted to and taken in `v3d_uint32`. -/
def v3d71_qpu_add_order_key (small_imm : Bool) (unpack raddr : Nat) : Int :=
  (sig_bit_value small_imm * 256 + (unpack : Int) * 64 + (raddr : Int)) % 4294967296

/-- The body of `v3d71_qpu_add_unpack` on the locals `op`, `raddr_a`, `raddr_b`,
`waddr`, the `MA` bit, and the `small_imm_a`, `small_imm_b` bits already decoded
into `instr->sig`. -/
def v3d71_qpu_add_unpack_core (devinfo : v3d_device_info) (op raddr_a raddr_b waddr : Nat)
    (ma small_imm_a small_imm_b : Bool) : Option alu_unpack_fields :=
  match lookup_opcode_from_packed devinfo add_ops_v71 op 0 0 raddr_b with
  | none => none
  | some desc =>
    let add_op := v3d_qpu_add_unpack_order
      (decide (v3d71_qpu_add_order_key small_imm_a ((op >>> 2) &&& 3) raddr_a >
               v3d71_qpu_add_order_key small_imm_b (op &&& 3) raddr_b)) desc.op
    match v3d_qpu_add_unpack_stvpm add_op waddr with
    | none => none
    | some add_op =>
      match v3d71_qpu_add_unpack_modifiers add_op op raddr_b with
      | none => none
      | some (output_pack, a_unpack, b_unpack) =>
        let r := v3d_qpu_add_unpack_magic add_op ma
        some ⟨r.1, output_pack, a_unpack, b_unpack, r.2⟩

/-- `v3d71_qpu_add_unpack`. -/
def v3d71_qpu_add_unpack (devinfo : v3d_device_info) (packed_inst : Nat)
    (instr : v3d_qpu_instr) : Option v3d_qpu_instr :=
  let op := QPU_GET_FIELD packed_inst V3D_QPU_OP_ADD_SHIFT V3D_QPU_OP_ADD_MASK
  let raddr_a := QPU_GET_FIELD packed_inst V3D_QPU_RADDR_A_SHIFT V3D_QPU_RADDR_A_MASK
  let raddr_b := QPU_GET_FIELD packed_inst V3D_QPU_RADDR_B_SHIFT V3D_QPU_RADDR_B_MASK
  let waddr := QPU_GET_FIELD packed_inst V3D_QPU_WADDR_A_SHIFT V3D_QPU_WADDR_A_MASK
  match v3d71_qpu_add_unpack_core devinfo op raddr_a raddr_b waddr
      (packed_inst &&& V3D_QPU_MA != 0) instr.sig.small_imm_a instr.sig.small_imm_b with
  | none => none
  | some r =>
    some { instr with alu := { instr.alu with add := r.store raddr_a raddr_b waddr instr.alu.add } }

/-- `v3d_qpu_add_unpack`. -/
def v3d_qpu_add_unpack (devinfo : v3d_device_info) (packed_inst : Nat)
    (instr : v3d_qpu_instr) : Option v3d_qpu_instr :=
  if devinfo.ver < 71 then v3d33_qpu_add_unpack devinfo packed_inst instr
  else v3d71_qpu_add_unpack devinfo packed_inst instr

/-- The `switch` of `v3d33_qpu_mul_unpack`: `(output_pack, a.unpack, b.unpack)`. -/
def v3d33_qpu_mul_unpack_modifiers (mul_op op mux_b : Nat) : Option (Nat × Nat × Option Nat) :=
  if mul_op = V3D_QPU_M_FMUL then
    match v3d_qpu_float32_unpack_unpack ((op >>> 2) &&& 0x3) with
    | none => none
    | some a_unpack =>
      match v3d_qpu_float32_unpack_unpack ((op >>> 0) &&& 0x3) with
      | none => none
      | some b_unpack => some (u32_sub ((op >>> 4) &&& 0x3) 1, a_unpack, some b_unpack)
  else if mul_op = V3D_QPU_M_FMOV then
    match v3d_qpu_float32_unpack_unpack (mux_b &&& 0x3) with
    | none => none
    | some a_unpack => some (((op &&& 1) <<< 1) + ((mux_b >>> 2) &&& 1), a_unpack, none)
  else if mul_op = V3D_QPU_M_VFMUL then
    match v3d_qpu_float16_unpack_unpack ((u32_sub (op &&& 0x7) 4) &&& 7) with
    | none => none
    | some a_unpack => some (V3D_QPU_PACK_NONE, a_unpack, some V3D_QPU_UNPACK_NONE)
  else some (V3D_QPU_PACK_NONE, V3D_QPU_UNPACK_NONE, some V3D_QPU_UNPACK_NONE)

/-- The body of `v3d33_qpu_mul_unpack` on the locals `op`, `mux_a`, `mux_b` and the `MM` bit. -/
def v3d33_qpu_mul_unpack_core (devinfo : v3d_device_info) (op mux_a mux_b : Nat)
    (mm : Bool) : Option alu_unpack_fields :=
  match lookup_opcode_from_packed devinfo mul_ops_v33 op mux_a mux_b 0 with
  | none => none
  | some desc =>
    match v3d33_qpu_mul_unpack_modifiers desc.op op mux_b with
    | none => none
    | some (output_pack, a_unpack, b_unpack) =>
      some ⟨desc.op, output_pack, a_unpack, b_unpack, mm⟩

/-- `v3d33_qpu_mul_unpack`. -/
def v3d33_qpu_mul_unpack (devinfo : v3d_device_info) (packed_inst : Nat)
    (instr : v3d_qpu_instr) : Option v3d_qpu_instr :=
  let op := QPU_GET_FIELD packed_inst V3D_QPU_OP_MUL_SHIFT V3D_QPU_OP_MUL_MASK
  let mux_a := QPU_GET_FIELD packed_inst V3D_QPU_MUL_A_SHIFT V3D_QPU_MUL_A_MASK
  let mux_b := QPU_GET_FIELD packed_inst V3D_QPU_MUL_B_SHIFT V3D_QPU_MUL_B_MASK
  match v3d33_qpu_mul_unpack_core devinfo op mux_a mux_b (packed_inst &&& V3D_QPU_MM != 0) with
  | none => none
  | some r =>
    let waddr := QPU_GET_FIELD packed_inst V3D_QPU_WADDR_M_SHIFT V3D_QPU_WADDR_M_MASK
    some { instr with alu := { instr.alu with mul := r.store mux_a mux_b waddr instr.alu.mul } }

/-- The `switch` of `v3d71_qpu_mul_unpack`: `(output_pack, a.unpack, b.unpack)`.
The `v3d_unreachable` of the VFMUL case is a no-op unless the includer defines
`v3d_assert`, so that case continues as written. -/
def v3d71_qpu_mul_unpack_modifiers (mul_op op raddr_d : Nat) : Option (Nat × Nat × Option Nat) :=
  if mul_op = V3D_QPU_M_FMUL then
    match v3d_qpu_float32_unpack_unpack ((op >>> 2) &&& 0x3) with
    | none => none
    | some a_unpack =>
      match v3d_qpu_float32_unpack_unpack ((op >>> 0) &&& 0x3) with
      | none => none
      | some b_unpack => some (u32_sub ((op >>> 4) &&& 0x3) 1, a_unpack, some b_unpack)
  else if mul_op = V3D_QPU_M_FMOV then
    match v3d_qpu_float32_unpack_unpack ((raddr_d >>> 2) &&& 0x7) with
    | none => none
    | some a_unpack => some (raddr_d &&& 0x3, a_unpack, none)
  else if mul_op = V3D_QPU_M_VFMUL then
    match v3d_qpu_float16_unpack_unpack ((u32_sub (op &&& 0x7) 4) &&& 7) with
    | none => none
    | some a_unpack => some (V3D_QPU_PACK_NONE, a_unpack, some V3D_QPU_UNPACK_NONE)
  else if mul_op = V3D_QPU_M_MOV then
    match v3d_qpu_int32_unpack_unpack ((raddr_d >>> 2) &&& 0x7) with
    | none => none
    | some a_unpack => some (V3D_QPU_PACK_NONE, a_unpack, none)
  else some (V3D_QPU_PACK_NONE, V3D_QPU_UNPACK_NONE, some V3D_QPU_UNPACK_NONE)

/-- The body of `v3d71_qpu_mul_unpack` on the locals `op`, `raddr_d` and the `MM` bit. -/
def v3d71_qpu_mul_unpack_core (devinfo : v3d_device_info) (op raddr_d : Nat)
    (mm : Bool) : Option alu_unpack_fields :=
  match lookup_opcode_from_packed devinfo mul_ops_v71 op 0 0 raddr_d with
  | none => none
  | some desc =>
    match v3d71_qpu_mul_unpack_modifiers desc.op op raddr_d with
    | none => none
    | some (output_pack, a_unpack, b_unpack) =>
      some ⟨desc.op, output_pack, a_unpack, b_unpack, mm⟩

/-- `v3d71_qpu_mul_unpack`. -/
def v3d71_qpu_mul_unpack (devinfo : v3d_device_info) (packed_inst : Nat)
    (instr : v3d_qpu_instr) : Option v3d_qpu_instr :=
  let op := QPU_GET_FIELD packed_inst V3D_QPU_OP_MUL_SHIFT V3D_QPU_OP_MUL_MASK
  let raddr_c := QPU_GET_FIELD packed_inst V3D_QPU_RADDR_C_SHIFT V3D_QPU_RADDR_C_MASK
  let raddr_d := QPU_GET_FIELD packed_inst V3D_QPU_RADDR_D_SHIFT V3D_QPU_RADDR_D_MASK
  match v3d71_qpu_mul_unpack_core devinfo op raddr_d (packed_inst &&& V3D_QPU_MM != 0) with
  | none => none
  | some r =>
    let waddr := QPU_GET_FIELD packed_inst V3D_QPU_WADDR_M_SHIFT V3D_QPU_WADDR_M_MASK
    some { instr with alu := { instr.alu with mul := r.store raddr_c raddr_d waddr instr.alu.mul } }

/-- `v3d_qpu_mul_unpack`. -/
def v3d_qpu_mul_unpack (devinfo : v3d_device_info) (packed_inst : Nat)
    (instr : v3d_qpu_instr) : Option v3d_qpu_instr :=
  if devinfo.ver < 71 then v3d33_qpu_mul_unpack devinfo packed_inst instr
  else v3d71_qpu_mul_unpack devinfo packed_inst instr

/-! ## ADD and MUL half encoders

Each `*_pack` function of the source computes the operand selectors and the
opcode of one half from the record (`*_pack_opcode`, `none` where the source
returns `FALSE`) and ors the fields into the packed word. -/

/-- `~x` on a `v3d_uint32`. -/
def u32_not (x : Nat) : Nat := 0xFFFFFFFF - x

/-- The operand selectors (`mux_a`, `mux_b`, or `raddr_a`/`raddr_c`, `raddr_b`/`raddr_d`
on V3D 7.x) and the opcode an ALU half encoder writes. -/
structure alu_pack_fields where
  mux_a : Nat
  mux_b : Nat
  opcode : Nat
deriving DecidableEq, Repr

/-- The commutative-operand test of the ADD encoders: the operands are swapped when
FMIN or FADD meets a true `ordering`, or FMAX or FADDNF a false one. -/
def v3d_qpu_add_pack_swaps (add_op : Nat) (ordering : Bool) : Bool :=
  ((add_op = V3D_QPU_A_FMIN ∨ add_op = V3D_QPU_A_FADD) ∧ ordering = true) ∨
  ((add_op = V3D_QPU_A_FMAX ∨ add_op = V3D_QPU_A_FADDNF) ∧ ordering = false)

/-- The first `switch` of the ADD encoders and their final test of `magic_write`:
the write address and whether the `MA` bit is set. -/
def v3d_qpu_add_pack_waddr (add : v3d_qpu_alu_half) : Nat × Bool :=
  if add.op = V3D_QPU_A_STVPMV then (0, false)
  else if add.op = V3D_QPU_A_STVPMD then (1, false)
  else if add.op = V3D_QPU_A_STVPMP then (2, false)
  else if add.op = V3D_QPU_A_LDVPMV_OUT ∨ add.op = V3D_QPU_A_LDVPMD_OUT ∨
      add.op = V3D_QPU_A_LDVPMG_OUT then (add.waddr, true)
  else (add.waddr, add.magic_write)

/-- The descriptor lookup, operand fill and second `switch` of `v3d33_qpu_add_pack`. -/
def v3d33_qpu_add_pack_opcode (devinfo : v3d_device_info) (add : v3d_qpu_alu_half) :
    Option alu_pack_fields :=
  let mux_a := add.a.mux
  let mux_b := add.b.mux
  let nsrc := v3d_qpu_add_op_num_src add.op
  match lookup_opcode_from_instr devinfo add_ops_v33 add.op with
  | none => none
  | some desc =>
    let opcode := desc.opcode_first
    let mux_b := if nsrc < 2 then u32_sub (ffs desc.b_mask) 1 else mux_b
    let mux_a := if nsrc < 1 then u32_sub (ffs desc.a_mask) 1 else mux_a
    if add.op = V3D_QPU_A_FADD ∨ add.op = V3D_QPU_A_FADDNF ∨ add.op = V3D_QPU_A_FSUB ∨
       add.op = V3D_QPU_A_FMIN ∨ add.op = V3D_QPU_A_FMAX ∨ add.op = V3D_QPU_A_FCMP then
      match v3d_qpu_float32_pack_pack add.output_pack with
      | none => none
      | some output_pack =>
        let opcode := opcode ||| (output_pack <<< 4)
        match v3d_qpu_float32_unpack_pack add.a.unpack with
        | none => none
        | some a_unpack =>
          match v3d_qpu_float32_unpack_pack add.b.unpack with
          | none => none
          | some b_unpack =>
            let ordering := decide (a_unpack * 8 + mux_a > b_unpack * 8 + mux_b)
            if v3d_qpu_add_pack_swaps add.op ordering then
              some ⟨mux_b, mux_a, (opcode ||| (b_unpack <<< 2)) ||| (a_unpack <<< 0)⟩
            else
              some ⟨mux_a, mux_b, (opcode ||| (a_unpack <<< 2)) ||| (b_unpack <<< 0)⟩
    else if add.op = V3D_QPU_A_VFPACK then
      if add.a.unpack = V3D_QPU_UNPACK_ABS ∨ add.b.unpack = V3D_QPU_UNPACK_ABS then none
      else
        match v3d_qpu_float32_unpack_pack add.a.unpack with
        | none => none
        | some a_unpack =>
          match v3d_qpu_float32_unpack_pack add.b.unpack with
          | none => none
          | some b_unpack =>
            let opcode := (opcode &&& u32_not (0x3 <<< 2)) ||| (a_unpack <<< 2)
            let opcode := (opcode &&& u32_not (0x3 <<< 0)) ||| (b_unpack <<< 0)
            some ⟨mux_a, mux_b, opcode⟩
    else if add.op = V3D_QPU_A_FFLOOR ∨ add.op = V3D_QPU_A_FROUND ∨ add.op = V3D_QPU_A_FTRUNC ∨
       add.op = V3D_QPU_A_FCEIL ∨ add.op = V3D_QPU_A_FDX ∨ add.op = V3D_QPU_A_FDY then
      match v3d_qpu_float32_pack_pack add.output_pack with
      | none => none
      | some packed =>
        let mux_b := mux_b ||| packed
        match v3d_qpu_float32_unpack_pack add.a.unpack with
        | none => none
        | some packed =>
          if packed = 0 then none
          else some ⟨mux_a, mux_b, (opcode &&& u32_not (0x3 <<< 2)) ||| (packed <<< 2)⟩
    else if add.op = V3D_QPU_A_FTOIN ∨ add.op = V3D_QPU_A_FTOIZ ∨ add.op = V3D_QPU_A_FTOUZ ∨
       add.op = V3D_QPU_A_FTOC then
      if add.output_pack ≠ V3D_QPU_PACK_NONE then none
      else
        match v3d_qpu_float32_unpack_pack add.a.unpack with
        | none => none
        | some packed =>
          if packed = 0 then none
          else some ⟨mux_a, mux_b, opcode ||| (packed <<< 2)⟩
    else if add.op = V3D_QPU_A_VFMIN ∨ add.op = V3D_QPU_A_VFMAX then
      if add.output_pack ≠ V3D_QPU_PACK_NONE ∨ add.b.unpack ≠ V3D_QPU_UNPACK_NONE then none
      else
        match v3d_qpu_float16_unpack_pack add.a.unpack with
        | none => none
        | some packed => some ⟨mux_a, mux_b, opcode ||| packed⟩
    else
      if add.op ≠ V3D_QPU_A_NOP ∧
         (add.output_pack ≠ V3D_QPU_PACK_NONE ∨ add.a.unpack ≠ V3D_QPU_UNPACK_NONE ∨
          add.b.unpack ≠ V3D_QPU_UNPACK_NONE) then none
      else some ⟨mux_a, mux_b, opcode⟩

/-- `v3d33_qpu_add_pack`: the fields are or-ed into `*packed_instr`. -/
def v3d33_qpu_add_pack (devinfo : v3d_device_info) (instr : v3d_qpu_instr)
    (packed_instr : Nat) : Option Nat :=
  match v3d33_qpu_add_pack_opcode devinfo instr.alu.add with
  | none => none
  | some f =>
    let w := v3d_qpu_add_pack_waddr instr.alu.add
    let packed_instr := packed_instr ||| QPU_SET_FIELD f.mux_a V3D_QPU_ADD_A_SHIFT V3D_QPU_ADD_A_MASK
    let packed_instr := packed_instr ||| QPU_SET_FIELD f.mux_b V3D_QPU_ADD_B_SHIFT V3D_QPU_ADD_B_MASK
    let packed_instr := packed_instr ||| QPU_SET_FIELD f.opcode V3D_QPU_OP_ADD_SHIFT V3D_QPU_OP_ADD_MASK
    let packed_instr := packed_instr ||| QPU_SET_FIELD w.1 V3D_QPU_WADDR_A_SHIFT V3D_QPU_WADDR_A_MASK
    some (if w.2 then packed_instr ||| V3D_QPU_MA else packed_instr)

/-- What `v3d71_qpu_add_pack` computes: the fields of the half and, when the
operand swap has to move a small-immediate flag, the packed signal that
replaces the one already in the word. -/
structure add71_pack_fields where
  fields : alu_pack_fields
  sig : Option Nat
deriving DecidableEq, Repr

/-- The descriptor lookup, operand fill and second `switch` of `v3d71_qpu_add_pack`. -/
def v3d71_qpu_add_pack_opcode (devinfo : v3d_device_info) (add : v3d_qpu_alu_half)
    (sig : v3d_qpu_sig) : Option add71_pack_fields :=
  let raddr_a := add.a.raddr
  let raddr_b := add.b.raddr
  let nsrc := v3d_qpu_add_op_num_src add.op
  match lookup_opcode_from_instr devinfo add_ops_v71 add.op with
  | none => none
  | some desc =>
    let opcode := desc.opcode_first
    let raddr_b := if nsrc < 2 then u32_sub (ffsll desc.raddr_mask) 1 else raddr_b
    if add.op = V3D_QPU_A_FADD ∨ add.op = V3D_QPU_A_FADDNF ∨ add.op = V3D_QPU_A_FSUB ∨
       add.op = V3D_QPU_A_FMIN ∨ add.op = V3D_QPU_A_FMAX ∨ add.op = V3D_QPU_A_FCMP then
      match (if add.op ≠ V3D_QPU_A_FCMP then
               (v3d_qpu_float32_pack_pack add.output_pack).map (fun output_pack =>
                 opcode ||| (output_pack <<< 4))
             else some opcode) with
      | none => none
      | some opcode =>
        match v3d_qpu_float32_unpack_pack add.a.unpack with
        | none => none
        | some a_unpack =>
          match v3d_qpu_float32_unpack_pack add.b.unpack with
          | none => none
          | some b_unpack =>
            let ordering := decide (v3d71_qpu_add_order_key sig.small_imm_a a_unpack raddr_a >
                                    v3d71_qpu_add_order_key sig.small_imm_b b_unpack raddr_b)
            if v3d_qpu_add_pack_swaps add.op ordering then
              let fields : alu_pack_fields :=
                ⟨raddr_b, raddr_a, (opcode ||| (b_unpack <<< 2)) ||| (a_unpack <<< 0)⟩
              if sig.small_imm_a ∨ sig.small_imm_b then
                let new_sig := { sig with small_imm_a := !sig.small_imm_a,
                                          small_imm_b := !sig.small_imm_b }
                match v3d_qpu_sig_pack devinfo new_sig with
                | none => none
                | some packed_sig => some ⟨fields, some packed_sig⟩
              else some ⟨fields, none⟩
            else
              some ⟨⟨raddr_a, raddr_b, (opcode ||| (a_unpack <<< 2)) ||| (b_unpack <<< 0)⟩, none⟩
    else if add.op = V3D_QPU_A_VFPACK then
      if add.a.unpack = V3D_QPU_UNPACK_ABS ∨ add.b.unpack = V3D_QPU_UNPACK_ABS then none
      else
        match v3d_qpu_float32_unpack_pack add.a.unpack with
        | none => none
        | some a_unpack =>
          match v3d_qpu_float32_unpack_pack add.b.unpack with
          | none => none
          | some b_unpack =>
            let opcode := (opcode &&& u32_not (0x3 <<< 2)) ||| (a_unpack <<< 2)
            let opcode := (opcode &&& u32_not (0x3 <<< 0)) ||| (b_unpack <<< 0)
            some ⟨⟨raddr_a, raddr_b, opcode⟩, none⟩
    else if add.op = V3D_QPU_A_FFLOOR ∨ add.op = V3D_QPU_A_FROUND ∨ add.op = V3D_QPU_A_FTRUNC ∨
       add.op = V3D_QPU_A_FCEIL ∨ add.op = V3D_QPU_A_FDX ∨ add.op = V3D_QPU_A_FDY then
      match v3d_qpu_float32_pack_pack add.output_pack with
      | none => none
      | some packed =>
        let raddr_b := raddr_b ||| packed
        match v3d_qpu_float32_unpack_pack add.a.unpack with
        | none => none
        | some packed =>
          if packed = 0 then none
          else some ⟨⟨raddr_a, (raddr_b &&& u32_not (0x3 <<< 2)) ||| (packed <<< 2), opcode⟩, none⟩
    else if add.op = V3D_QPU_A_FTOIN ∨ add.op = V3D_QPU_A_FTOIZ ∨ add.op = V3D_QPU_A_FTOUZ ∨
       add.op = V3D_QPU_A_FTOC then
      if add.output_pack ≠ V3D_QPU_PACK_NONE then none
      else
        match v3d_qpu_float32_unpack_pack add.a.unpack with
        | none => none
        | some packed =>
          if packed = 0 then none
          else
            some ⟨⟨raddr_a,
                   raddr_b ||| ((raddr_b &&& u32_not (0x3 <<< 2)) ||| (packed <<< 2)),
                   opcode⟩, none⟩
    else if add.op = V3D_QPU_A_VFMIN ∨ add.op = V3D_QPU_A_VFMAX then
      if add.output_pack ≠ V3D_QPU_PACK_NONE ∨ add.b.unpack ≠ V3D_QPU_UNPACK_NONE then none
      else
        match v3d_qpu_float16_unpack_pack add.a.unpack with
        | none => none
        | some packed => some ⟨⟨raddr_a, raddr_b, opcode ||| packed⟩, none⟩
    else if add.op = V3D_QPU_A_MOV then
      if add.output_pack ≠ V3D_QPU_PACK_NONE then none
      else
        match v3d_qpu_int32_unpack_pack add.a.unpack with
        | none => none
        | some packed => some ⟨⟨raddr_a, raddr_b ||| (packed <<< 2), opcode⟩, none⟩
    else if add.op = V3D_QPU_A_FMOV then
      match v3d_qpu_float32_pack_pack add.output_pack with
      | none => none
      | some packed =>
        let raddr_b := packed
        match v3d_qpu_float32_unpack_pack add.a.unpack with
        | none => none
        | some packed => some ⟨⟨raddr_a, raddr_b ||| (packed <<< 2), opcode⟩, none⟩
    else
      if add.op ≠ V3D_QPU_A_NOP ∧
         (add.output_pack ≠ V3D_QPU_PACK_NONE ∨ add.a.unpack ≠ V3D_QPU_UNPACK_NONE ∨
          add.b.unpack ≠ V3D_QPU_UNPACK_NONE) then none
      else some ⟨⟨raddr_a, raddr_b, opcode⟩, none⟩

/-- `v3d71_qpu_add_pack`: a swapped small-immediate signal replaces the `sig`
field already in the word, then the fields are or-ed in. -/
def v3d71_qpu_add_pack (devinfo : v3d_device_info) (instr : v3d_qpu_instr)
    (packed_instr : Nat) : Option Nat :=
  match v3d71_qpu_add_pack_opcode devinfo instr.alu.add instr.sig with
  | none => none
  | some r =>
    let f := r.fields
    let w := v3d_qpu_add_pack_waddr instr.alu.add
    let packed_instr :=
      match r.sig with
      | none => packed_instr
      | some sig => QPU_UPDATE_FIELD packed_instr sig V3D_QPU_SIG_SHIFT V3D_QPU_SIG_MASK
    let packed_instr := packed_instr ||| QPU_SET_FIELD f.mux_a V3D_QPU_RADDR_A_SHIFT V3D_QPU_RADDR_A_MASK
    let packed_instr := packed_instr ||| QPU_SET_FIELD f.mux_b V3D_QPU_RADDR_B_SHIFT V3D_QPU_RADDR_B_MASK
    let packed_instr := packed_instr ||| QPU_SET_FIELD f.opcode V3D_QPU_OP_ADD_SHIFT V3D_QPU_OP_ADD_MASK
    let packed_instr := packed_instr ||| QPU_SET_FIELD w.1 V3D_QPU_WADDR_A_SHIFT V3D_QPU_WADDR_A_MASK
    some (if w.2 then packed_instr ||| V3D_QPU_MA else packed_instr)

/-- The descriptor lookup, operand fill and `switch` of `v3d33_qpu_mul_pack`. -/
def v3d33_qpu_mul_pack_opcode (devinfo : v3d_device_info) (mul : v3d_qpu_alu_half) :
    Option alu_pack_fields :=
  let mux_a := mul.a.mux
  let mux_b := mul.b.mux
  let nsrc := v3d_qpu_mul_op_num_src mul.op
  match lookup_opcode_from_instr devinfo mul_ops_v33 mul.op with
  | none => none
  | some desc =>
    let opcode := desc.opcode_first
    let mux_b := if nsrc < 2 then u32_sub (ffs desc.b_mask) 1 else mux_b
    let mux_a := if nsrc < 1 then u32_sub (ffs desc.a_mask) 1 else mux_a
    if mul.op = V3D_QPU_M_FMUL then
      match v3d_qpu_float32_pack_pack mul.output_pack with
      | none => none
      | some packed =>
        let opcode := opcode + (packed <<< 4)
        match v3d_qpu_float32_unpack_pack mul.a.unpack with
        | none => none
        | some packed =>
          let opcode := opcode ||| (packed <<< 2)
          match v3d_qpu_float32_unpack_pack mul.b.unpack with
          | none => none
          | some packed => some ⟨mux_a, mux_b, opcode ||| (packed <<< 0)⟩
    else if mul.op = V3D_QPU_M_FMOV then
      match v3d_qpu_float32_pack_pack mul.output_pack with
      | none => none
      | some packed =>
        let opcode := opcode ||| ((packed >>> 1) &&& 1)
        let mux_b := (packed &&& 1) <<< 2
        match v3d_qpu_float32_unpack_pack mul.a.unpack with
        | none => none
        | some packed => some ⟨mux_a, mux_b ||| packed, opcode⟩
    else if mul.op = V3D_QPU_M_VFMUL then
      if mul.output_pack ≠ V3D_QPU_PACK_NONE then none
      else
        match v3d_qpu_float16_unpack_pack mul.a.unpack with
        | none => none
        | some packed =>
          let opcode :=
            if mul.a.unpack = V3D_QPU_UNPACK_SWAP_16 then 8 else opcode ||| ((packed + 4) &&& 7)
          if mul.b.unpack ≠ V3D_QPU_UNPACK_NONE then none
          else some ⟨mux_a, mux_b, opcode⟩
    else
      if mul.op ≠ V3D_QPU_M_NOP ∧
         (mul.output_pack ≠ V3D_QPU_PACK_NONE ∨ mul.a.unpack ≠ V3D_QPU_UNPACK_NONE ∨
          mul.b.unpack ≠ V3D_QPU_UNPACK_NONE) then none
      else some ⟨mux_a, mux_b, opcode⟩

/-- `v3d33_qpu_mul_pack`. -/
def v3d33_qpu_mul_pack (devinfo : v3d_device_info) (instr : v3d_qpu_instr)
    (packed_instr : Nat) : Option Nat :=
  match v3d33_qpu_mul_pack_opcode devinfo instr.alu.mul with
  | none => none
  | some f =>
    let packed_instr := packed_instr ||| QPU_SET_FIELD f.mux_a V3D_QPU_MUL_A_SHIFT V3D_QPU_MUL_A_MASK
    let packed_instr := packed_instr ||| QPU_SET_FIELD f.mux_b V3D_QPU_MUL_B_SHIFT V3D_QPU_MUL_B_MASK
    let packed_instr := packed_instr ||| QPU_SET_FIELD f.opcode V3D_QPU_OP_MUL_SHIFT V3D_QPU_OP_MUL_MASK
    let packed_instr := packed_instr |||
      QPU_SET_FIELD instr.alu.mul.waddr V3D_QPU_WADDR_M_SHIFT V3D_QPU_WADDR_M_MASK
    some (if instr.alu.mul.magic_write then packed_instr ||| V3D_QPU_MM else packed_instr)

/-- The descriptor lookup, operand fill and `switch` of `v3d71_qpu_mul_pack`
(`mux_a` holds `raddr_c`, `mux_b` holds `raddr_d`). -/
def v3d71_qpu_mul_pack_opcode (devinfo : v3d_device_info) (mul : v3d_qpu_alu_half) :
    Option alu_pack_fields :=
  let raddr_c := mul.a.raddr
  let raddr_d := mul.b.raddr
  let nsrc := v3d_qpu_mul_op_num_src mul.op
  match lookup_opcode_from_instr devinfo mul_ops_v71 mul.op with
  | none => none
  | some desc =>
    let opcode := desc.opcode_first
    let raddr_d := if nsrc < 2 then u32_sub (ffsll desc.raddr_mask) 1 else raddr_d
    if mul.op = V3D_QPU_M_FMUL then
      match v3d_qpu_float32_pack_pack mul.output_pack with
      | none => none
      | some packed =>
        let opcode := opcode + (packed <<< 4)
        match v3d_qpu_float32_unpack_pack mul.a.unpack with
        | none => none
        | some packed =>
          let opcode := opcode ||| (packed <<< 2)
          match v3d_qpu_float32_unpack_pack mul.b.unpack with
          | none => none
          | some packed => some ⟨raddr_c, raddr_d, opcode ||| (packed <<< 0)⟩
    else if mul.op = V3D_QPU_M_FMOV then
      match v3d_qpu_float32_pack_pack mul.output_pack with
      | none => none
      | some packed =>
        let raddr_d := raddr_d ||| packed
        match v3d_qpu_float32_unpack_pack mul.a.unpack with
        | none => none
        | some packed => some ⟨raddr_c, raddr_d ||| (packed <<< 2), opcode⟩
    else if mul.op = V3D_QPU_M_VFMUL then
      if mul.output_pack ≠ V3D_QPU_PACK_NONE then none
      else
        match v3d_qpu_float16_unpack_pack mul.a.unpack with
        | none => none
        | some packed =>
          let opcode :=
            if mul.a.unpack = V3D_QPU_UNPACK_SWAP_16 then 8 else opcode ||| ((packed + 4) &&& 7)
          if mul.b.unpack ≠ V3D_QPU_UNPACK_NONE then none
          else some ⟨raddr_c, raddr_d, opcode⟩
    else if mul.op = V3D_QPU_M_MOV then
      if mul.output_pack ≠ V3D_QPU_PACK_NONE then none
      else
        match v3d_qpu_int32_unpack_pack mul.a.unpack with
        | none => none
        | some packed => some ⟨raddr_c, raddr_d ||| (packed <<< 2), opcode⟩
    else
      if mul.op ≠ V3D_QPU_M_NOP ∧
         (mul.output_pack ≠ V3D_QPU_PACK_NONE ∨ mul.a.unpack ≠ V3D_QPU_UNPACK_NONE ∨
          mul.b.unpack ≠ V3D_QPU_UNPACK_NONE) then none
      else some ⟨raddr_c, raddr_d, opcode⟩

/-- `v3d71_qpu_mul_pack`. -/
def v3d71_qpu_mul_pack (devinfo : v3d_device_info) (instr : v3d_qpu_instr)
    (packed_instr : Nat) : Option Nat :=
  match v3d71_qpu_mul_pack_opcode devinfo instr.alu.mul with
  | none => none
  | some f =>
    let packed_instr := packed_instr ||| QPU_SET_FIELD f.mux_a V3D_QPU_RADDR_C_SHIFT V3D_QPU_RADDR_C_MASK
    let packed_instr := packed_instr ||| QPU_SET_FIELD f.mux_b V3D_QPU_RADDR_D_SHIFT V3D_QPU_RADDR_D_MASK
    let packed_instr := packed_instr ||| QPU_SET_FIELD f.opcode V3D_QPU_OP_MUL_SHIFT V3D_QPU_OP_MUL_MASK
    let packed_instr := packed_instr |||
      QPU_SET_FIELD instr.alu.mul.waddr V3D_QPU_WADDR_M_SHIFT V3D_QPU_WADDR_M_MASK
    some (if instr.alu.mul.magic_write then packed_instr ||| V3D_QPU_MM else packed_instr)

/-- `v3d_qpu_add_pack`. -/
def v3d_qpu_add_pack (devinfo : v3d_device_info) (instr : v3d_qpu_instr)
    (packed_instr : Nat) : Option Nat :=
  if devinfo.ver < 71 then v3d33_qpu_add_pack devinfo instr packed_instr
  else v3d71_qpu_add_pack devinfo instr packed_instr

/-- `v3d_qpu_mul_pack`. -/
def v3d_qpu_mul_pack (devinfo : v3d_device_info) (instr : v3d_qpu_instr)
    (packed_instr : Nat) : Option Nat :=
  if devinfo.ver < 71 then v3d33_qpu_mul_pack devinfo instr packed_instr
  else v3d71_qpu_mul_pack devinfo instr packed_instr

/-! ## Instruction decoder and encoder -/

/-- `v3d_qpu_instr_unpack_alu`. -/
def v3d_qpu_instr_unpack_alu (devinfo : v3d_device_info) (packed_instr : Nat)
    (instr : v3d_qpu_instr) : Option v3d_qpu_instr :=
  let instr := { instr with type := V3D_QPU_INSTR_TYPE_ALU }
  match v3d_qpu_sig_unpack devinfo (QPU_GET_FIELD packed_instr V3D_QPU_SIG_SHIFT V3D_QPU_SIG_MASK) with
  | none => none
  | some sig =>
    let instr := { instr with sig := sig }
    let packed_cond := QPU_GET_FIELD packed_instr V3D_QPU_COND_SHIFT V3D_QPU_COND_MASK
    let flagged : Option v3d_qpu_instr :=
      if v3d_qpu_sig_writes_address devinfo instr.sig then
        some { instr with
          sig_addr := (packed_cond &&& u32_not V3D_QPU_COND_SIG_MAGIC_ADDR) % 256,
          sig_magic := v3d_bool_of_int (packed_cond &&& V3D_QPU_COND_SIG_MAGIC_ADDR),
          flags := { ac := V3D_QPU_COND_NONE, mc := V3D_QPU_COND_NONE,
                     apf := V3D_QPU_PF_NONE, mpf := V3D_QPU_PF_NONE,
                     auf := V3D_QPU_UF_NONE, muf := V3D_QPU_UF_NONE } }
      else
        match v3d_qpu_flags_unpack packed_cond with
        | none => none
        | some flags => some { instr with flags := flags }
    match flagged with
    | none => none
    | some instr =>
      let instr :=
        if devinfo.ver ≤ 71 then
          { instr with
            raddr_a := QPU_GET_FIELD packed_instr V3D_QPU_RADDR_A_SHIFT V3D_QPU_RADDR_A_MASK,
            raddr_b := QPU_GET_FIELD packed_instr V3D_QPU_RADDR_B_SHIFT V3D_QPU_RADDR_B_MASK }
        else instr
      match v3d_qpu_add_unpack devinfo packed_instr instr with
      | none => none
      | some instr => v3d_qpu_mul_unpack devinfo packed_instr instr

/-- `v3d_qpu_instr_unpack_branch`.  `cond` is a `v3d_uint32`, so
`V3D_QPU_BRANCH_COND_A0 + (cond - 2)` is computed modulo `2 ^ 32`; `ub` receives
the masked 64-bit word through `v3d_bool`. -/
def v3d_qpu_instr_unpack_branch (packed_instr : Nat) (instr : v3d_qpu_instr) :
    Option v3d_qpu_instr :=
  let instr := { instr with type := V3D_QPU_INSTR_TYPE_BRANCH }
  let cond := QPU_GET_FIELD packed_instr V3D_QPU_BRANCH_COND_SHIFT V3D_QPU_BRANCH_COND_MASK
  let branch := instr.branch
  let decoded_cond : Option Nat :=
    if cond = 0 then some V3D_QPU_BRANCH_COND_ALWAYS
    else if (V3D_QPU_BRANCH_COND_A0 + u32_sub cond 2) % 4294967296 ≤ V3D_QPU_BRANCH_COND_ALLNA then
      some ((V3D_QPU_BRANCH_COND_A0 + u32_sub cond 2) % 4294967296)
    else none
  match decoded_cond with
  | none => none
  | some c =>
    let branch := { branch with cond := c }
    let msfign := QPU_GET_FIELD packed_instr V3D_QPU_BRANCH_MSFIGN_SHIFT V3D_QPU_BRANCH_MSFIGN_MASK
    if msfign = 3 then none
    else
      let branch := { branch with msfign := msfign }
      let branch := { branch with
        bdi := QPU_GET_FIELD packed_instr V3D_QPU_BRANCH_BDI_SHIFT V3D_QPU_BRANCH_BDI_MASK }
      let branch := { branch with ub := v3d_bool_of_int (packed_instr &&& V3D_QPU_BRANCH_UB) }
      let branch :=
        if branch.ub then
          { branch with
            bdu := QPU_GET_FIELD packed_instr V3D_QPU_BRANCH_BDU_SHIFT V3D_QPU_BRANCH_BDU_MASK }
        else branch
      let branch := { branch with
        raddr_a := QPU_GET_FIELD packed_instr V3D_QPU_RADDR_A_SHIFT V3D_QPU_RADDR_A_MASK }
      let offset := 0
      let offset := (offset +
        (QPU_GET_FIELD packed_instr V3D_QPU_BRANCH_ADDR_LOW_SHIFT V3D_QPU_BRANCH_ADDR_LOW_MASK <<< 3)
          % 4294967296) % 4294967296
      let offset := (offset +
        (QPU_GET_FIELD packed_instr V3D_QPU_BRANCH_ADDR_HIGH_SHIFT V3D_QPU_BRANCH_ADDR_HIGH_MASK <<< 24)
          % 4294967296) % 4294967296
      some { instr with branch := { branch with offset := offset } }

/-- `v3d_qpu_instr_unpack`. -/
def v3d_qpu_instr_unpack (devinfo : v3d_device_info) (packed_instr : Nat)
    (instr : v3d_qpu_instr) : Option v3d_qpu_instr :=
  if QPU_GET_FIELD packed_instr V3D_QPU_OP_MUL_SHIFT V3D_QPU_OP_MUL_MASK ≠ 0 then
    v3d_qpu_instr_unpack_alu devinfo packed_instr instr
  else
    let sig := QPU_GET_FIELD packed_instr V3D_QPU_SIG_SHIFT V3D_QPU_SIG_MASK
    if sig &&& 24 = 16 then v3d_qpu_instr_unpack_branch packed_instr instr
    else none

/-- `v3d_qpu_instr_pack_alu`. -/
def v3d_qpu_instr_pack_alu (devinfo : v3d_device_info) (instr : v3d_qpu_instr)
    (packed_instr : Nat) : Option Nat :=
  match v3d_qpu_sig_pack devinfo instr.sig with
  | none => none
  | some sig =>
    let packed_instr := packed_instr ||| QPU_SET_FIELD sig V3D_QPU_SIG_SHIFT V3D_QPU_SIG_MASK
    if instr.type = V3D_QPU_INSTR_TYPE_ALU then
      let packed_instr :=
        if devinfo.ver < 71 then
          (packed_instr ||| QPU_SET_FIELD instr.raddr_a V3D_QPU_RADDR_A_SHIFT V3D_QPU_RADDR_A_MASK)
            ||| QPU_SET_FIELD instr.raddr_b V3D_QPU_RADDR_B_SHIFT V3D_QPU_RADDR_B_MASK
        else packed_instr
      match v3d_qpu_add_pack devinfo instr packed_instr with
      | none => none
      | some packed_instr =>
        match v3d_qpu_mul_pack devinfo instr packed_instr with
        | none => none
        | some packed_instr =>
          let flags : Option Nat :=
            if v3d_qpu_sig_writes_address devinfo instr.sig then
              if instr.flags.ac ≠ V3D_QPU_COND_NONE ∨ instr.flags.mc ≠ V3D_QPU_COND_NONE ∨
                 instr.flags.apf ≠ V3D_QPU_PF_NONE ∨ instr.flags.mpf ≠ V3D_QPU_PF_NONE ∨
                 instr.flags.auf ≠ V3D_QPU_UF_NONE ∨ instr.flags.muf ≠ V3D_QPU_UF_NONE then none
              else
                let flags := instr.sig_addr
                some (if instr.sig_magic then flags ||| V3D_QPU_COND_SIG_MAGIC_ADDR else flags)
            else v3d_qpu_flags_pack instr.flags
          match flags with
          | none => none
          | some flags =>
            some (packed_instr ||| QPU_SET_FIELD flags V3D_QPU_COND_SHIFT V3D_QPU_COND_MASK)
    else
      if v3d_qpu_sig_writes_address devinfo instr.sig then none else some packed_instr

/-- `v3d_qpu_instr_pack_branch`. -/
def v3d_qpu_instr_pack_branch (instr : v3d_qpu_instr) (packed_instr : Nat) : Option Nat :=
  let packed_instr := packed_instr ||| QPU_SET_FIELD 16 V3D_QPU_SIG_SHIFT V3D_QPU_SIG_MASK
  let packed_instr :=
    if instr.branch.cond ≠ V3D_QPU_BRANCH_COND_ALWAYS then
      packed_instr ||| QPU_SET_FIELD (2 + (instr.branch.cond - V3D_QPU_BRANCH_COND_A0))
        V3D_QPU_BRANCH_COND_SHIFT V3D_QPU_BRANCH_COND_MASK
    else packed_instr
  let packed_instr := packed_instr |||
    QPU_SET_FIELD instr.branch.msfign V3D_QPU_BRANCH_MSFIGN_SHIFT V3D_QPU_BRANCH_MSFIGN_MASK
  let packed_instr := packed_instr |||
    QPU_SET_FIELD instr.branch.bdi V3D_QPU_BRANCH_BDI_SHIFT V3D_QPU_BRANCH_BDI_MASK
  let packed_instr :=
    if instr.branch.ub then
      (packed_instr ||| V3D_QPU_BRANCH_UB) |||
        QPU_SET_FIELD instr.branch.bdu V3D_QPU_BRANCH_BDU_SHIFT V3D_QPU_BRANCH_BDU_MASK
    else packed_instr
  let packed_instr :=
    if instr.branch.bdi = V3D_QPU_BRANCH_DEST_ABS ∨ instr.branch.bdi = V3D_QPU_BRANCH_DEST_REL then
      let packed_instr := packed_instr |||
        QPU_SET_FIELD instr.branch.msfign V3D_QPU_BRANCH_MSFIGN_SHIFT V3D_QPU_BRANCH_MSFIGN_MASK
      let packed_instr := packed_instr |||
        QPU_SET_FIELD ((instr.branch.offset &&& u32_not 0xff000000) >>> 3)
          V3D_QPU_BRANCH_ADDR_LOW_SHIFT V3D_QPU_BRANCH_ADDR_LOW_MASK
      packed_instr |||
        QPU_SET_FIELD (instr.branch.offset >>> 24)
          V3D_QPU_BRANCH_ADDR_HIGH_SHIFT V3D_QPU_BRANCH_ADDR_HIGH_MASK
    else packed_instr
  let packed_instr :=
    if instr.branch.bdi = V3D_QPU_BRANCH_DEST_REGFILE ∨
       instr.branch.bdu = V3D_QPU_BRANCH_DEST_REGFILE then
      packed_instr |||
        QPU_SET_FIELD instr.branch.raddr_a V3D_QPU_RADDR_A_SHIFT V3D_QPU_RADDR_A_MASK
    else packed_instr
  some packed_instr

/-- `v3d_qpu_instr_pack`: the word starts at zero. -/
def v3d_qpu_instr_pack (devinfo : v3d_device_info) (instr : v3d_qpu_instr) : Option Nat :=
  let packed_instr := 0
  if instr.type = V3D_QPU_INSTR_TYPE_ALU then v3d_qpu_instr_pack_alu devinfo instr packed_instr
  else if instr.type = V3D_QPU_INSTR_TYPE_BRANCH then v3d_qpu_instr_pack_branch instr packed_instr
  else none

/-- Table `waddr_names` (aligned with `waddr_values`). -/
def waddr_names : List String := [
  "r0",
  "r1",
  "r2",
  "r3",
  "r4",
  "r5",
  "-",
  "tlb",
  "tlbu",
  "unifa",
  "tmul",
  "tmud",
  "tmua",
  "tmuau",
  "vpm",
  "vpmu",
  "sync",
  "syncu",
  "syncb",
  "recip",
  "rsqrt",
  "exp",
  "log",
  "sin",
  "rsqrt2",
  "tmuc",
  "tmus",
  "tmut",
  "tmur",
  "tmui",
  "tmub",
  "tmudref",
  "tmuoff",
  "tmuscm",
  "tmusf",
  "tmuslod",
  "tmuhs",
  "tmuscm",
  "tmuhsf",
  "tmuhslod",
  "r5rep",
  "tmu",
  "quad",
  "rep"
]

/-- Table `waddr_values` (aligned with `waddr_names`). -/
def waddr_values : List Nat := [
  V3D_QPU_WADDR_R0,
  V3D_QPU_WADDR_R1,
  V3D_QPU_WADDR_R2,
  V3D_QPU_WADDR_R3,
  V3D_QPU_WADDR_R4,
  V3D_QPU_WADDR_R5,
  V3D_QPU_WADDR_NOP,
  V3D_QPU_WADDR_TLB,
  V3D_QPU_WADDR_TLBU,
  V3D_QPU_WADDR_UNIFA,
  V3D_QPU_WADDR_TMUL,
  V3D_QPU_WADDR_TMUD,
  V3D_QPU_WADDR_TMUA,
  V3D_QPU_WADDR_TMUAU,
  V3D_QPU_WADDR_VPM,
  V3D_QPU_WADDR_VPMU,
  V3D_QPU_WADDR_SYNC,
  V3D_QPU_WADDR_SYNCU,
  V3D_QPU_WADDR_SYNCB,
  V3D_QPU_WADDR_RECIP,
  V3D_QPU_WADDR_RSQRT,
  V3D_QPU_WADDR_EXP,
  V3D_QPU_WADDR_LOG,
  V3D_QPU_WADDR_SIN,
  V3D_QPU_WADDR_RSQRT2,
  V3D_QPU_WADDR_TMUC,
  V3D_QPU_WADDR_TMUS,
  V3D_QPU_WADDR_TMUT,
  V3D_QPU_WADDR_TMUR,
  V3D_QPU_WADDR_TMUI,
  V3D_QPU_WADDR_TMUB,
  V3D_QPU_WADDR_TMUDREF,
  V3D_QPU_WADDR_TMUOFF,
  V3D_QPU_WADDR_TMUSCM,
  V3D_QPU_WADDR_TMUSF,
  V3D_QPU_WADDR_TMUSLOD,
  V3D_QPU_WADDR_TMUHS,
  V3D_QPU_WADDR_TMUHSCM,
  V3D_QPU_WADDR_TMUHSF,
  V3D_QPU_WADDR_TMUHSLOD,
  V3D_QPU_WADDR_R5REP,
  V3D_QPU_WADDR_TMU,
  V3D_QPU_WADDR_QUAD,
  V3D_QPU_WADDR_REP
]

/-- Table `cond_pf_uf_names`, used only as an error hint list. -/
def cond_pf_uf_names : List String := [
  ".ifa",
  ".ifb",
  ".ifna",
  ".ifnb",
  ".pushz",
  ".pushn",
  ".pushc",
  ".andz",
  ".andnz",
  ".norz",
  ".nornz",
  ".andn",
  ".andnn",
  ".norn",
  ".nornn",
  ".andc",
  ".andnc",
  ".norc",
  ".nornc"
]
/-! ## Text handling

A C string is the list of its characters before the terminating NUL; a read
pointer into it is the suffix that starts at the pointer, and reading at or past
the terminator yields NUL. -/

/-- The terminating NUL of a C string. -/
abbrev NUL : Char := Char.ofNat 0
/-- The newline character. -/
abbrev CH_NEWLINE : Char := Char.ofNat 10
/-- The carriage-return character. -/
abbrev CH_RETURN : Char := Char.ofNat 13
/-- The tab character. -/
abbrev CH_TAB : Char := Char.ofNat 9
/-- The slash character. -/
abbrev CH_SLASH : Char := Char.ofNat 47
/-- The star character. -/
abbrev CH_STAR : Char := Char.ofNat 42

/-- The character `p[k]` of a C string read through the pointer `p`. -/
def cstr_at (p : List Char) (k : Nat) : Char := p.getD k NUL

/-- The delimiter test of `v3d_symbol_equals`. -/
def v3d_symbol_delimiter (c : Char) : Bool :=
  c = NUL ∨ c = CH_NEWLINE ∨ c = CH_RETURN ∨ c = CH_TAB ∨ c = '.' ∨ c = ' ' ∨ c = ',' ∨ c = ';'

/-- `v3d_symbol_equals`: the loop walks `symbol` (first argument, the part not yet
compared) and `compare` together; on a match the result is the pointer right
after the matched text (`*endOfCompareOut`). -/
def v3d_symbol_equals : List Char → List Char → Option (List Char)
  | [], _ => none
  | a :: symbol_rest, candidate =>
    if a ≠ NUL ∧ cstr_at candidate 0 ≠ NUL ∧ a = cstr_at candidate 0 then
      let candidate := candidate.drop 1
      if cstr_at symbol_rest 0 = NUL ∧ v3d_symbol_delimiter (cstr_at candidate 0) then
        some candidate
      else v3d_symbol_equals symbol_rest candidate
    else none

/-- The search loop of the name-list lookups: `index` is the loop index, the list
holds the names not yet tried. -/
def v3d_name_list_search (name : List Char) : List String → Nat → Option (Nat × List Char)
  | [], _ => none
  | s :: rest, index =>
    match v3d_symbol_equals s.toList name with
    | some e => some (index, e)
    | none => v3d_name_list_search name rest (index + 1)

/-- `v3d_qpu_value_from_name_list`: the matching index and the pointer after the name. -/
def v3d_qpu_value_from_name_list (name : List Char) (nameList : List String)
    (dotOptional : Bool) : Option (Nat × List Char) :=
  if dotOptional ∧ cstr_at name 0 ≠ '.' then some (0, name)
  else
    let start := if dotOptional then 1 else 0
    v3d_name_list_search name (nameList.drop start) start

/-- `v32_qpu_magic_waddr_from_name`. -/
def v32_qpu_magic_waddr_from_name (name : List Char) : Option (Nat × List Char) :=
  match v3d_name_list_search name waddr_names 0 with
  | none => none
  | some (index, e) => some (waddr_values.getD index 0, e)

/-- `v3d_qpu_small_imm_from_name`. -/
def v3d_qpu_small_imm_from_name (name : List Char) : Option (Nat × List Char) :=
  match v3d_name_list_search name small_immediates_names 0 with
  | none => none
  | some (index, e) => some (small_immediates_packed_indices.getD index 0, e)

/-- The value of a decimal digit character (`c - '0'`). -/
def digit_value (c : Char) : Nat := c.toNat - ('0' : Char).toNat

/-- `v3d_assemble_parse_register_file`: the register number and the pointer after it. -/
def v3d_assemble_parse_register_file (name : List Char) : Option (Nat × List Char) :=
  if cstr_at name 0 = 'r' ∧ cstr_at name 1 = 'f' then
    if cstr_at name 2 > '9' ∨ cstr_at name 2 < '0' then none
    else
      let registerFileNumber := digit_value (cstr_at name 2)
      let hasSecondDigit : Bool := cstr_at name 3 ≤ '9' ∧ cstr_at name 3 ≥ '0'
      if (cstr_at name 3 ≠ NUL ∧ cstr_at name 3 ≠ '.' ∧ cstr_at name 3 ≠ ' ' ∧
          cstr_at name 3 ≠ CH_TAB ∧ cstr_at name 3 ≠ ',') ∧ hasSecondDigit = false then none
      else
        let registerFileNumber :=
          if hasSecondDigit then (registerFileNumber * 10 + digit_value (cstr_at name 3)) % 256
          else registerFileNumber
        if registerFileNumber > 31 then none
        else some (registerFileNumber, name.drop (if hasSecondDigit then 4 else 3))
  else none

/-- `v3d33_qpu_assemble_raddr`: the result code, the record with `raddr_a`,
`raddr_b` and `sig.small_imm_b` updated, the value written through `mux` (if
any) and the pointer after the operand (unchanged where the source does not
write `*endOfNameOut`). -/
def v3d33_qpu_assemble_raddr (instr : v3d_qpu_instr) (name : List Char) :
    Nat × v3d_qpu_instr × Option Nat × List Char :=
  let uses (m : Nat) : Bool :=
    instr.alu.add.a.mux = m ∨ instr.alu.add.b.mux = m ∨
    instr.alu.mul.a.mux = m ∨ instr.alu.mul.b.mux = m
  if cstr_at name 0 = 'r' ∧ cstr_at name 1 = 'f' then
    match v3d_assemble_parse_register_file name with
    | none => (v3d_qpu_assemble_raddr_result_invalid_register_file, instr, none, name)
    | some (desiredOperand, e) =>
      if uses V3D_QPU_MUX_A then
        if instr.raddr_a = desiredOperand then
          (v3d_qpu_assemble_raddr_result_success, instr, some V3D_QPU_MUX_A, e)
        else
          if uses V3D_QPU_MUX_B ∧ instr.raddr_b ≠ desiredOperand then
            (v3d_qpu_assemble_raddr_result_no_raddr_space, instr, none, e)
          else
            (v3d_qpu_assemble_raddr_result_success, { instr with raddr_b := desiredOperand },
              some V3D_QPU_MUX_B, e)
      else
        (v3d_qpu_assemble_raddr_result_success, { instr with raddr_a := desiredOperand },
          some V3D_QPU_MUX_A, e)
  else if cstr_at name 0 = 'r' then
    if cstr_at name 1 < '0' ∨ cstr_at name 1 > '5' ∨
       ¬ (cstr_at name 2 = CH_NEWLINE ∨ cstr_at name 2 = '.' ∨ cstr_at name 2 = ' ' ∨
          cstr_at name 2 = CH_TAB ∨ cstr_at name 2 = ',' ∨ cstr_at name 2 = NUL) then
      (v3d_qpu_assemble_raddr_result_invalid_accumulator_register, instr, none, name)
    else
      let desiredOperand := digit_value (cstr_at name 1)
      (v3d_qpu_assemble_raddr_result_success, instr, some (desiredOperand + V3D_QPU_MUX_R0),
        name.drop 2)
  else
    match v3d_qpu_small_imm_from_name name with
    | none => (v3d_qpu_assemble_raddr_result_invalid_small_immediate, instr, none, name)
    | some (packed_small_immediate, e) =>
      let desiredOperand := packed_small_immediate % 256
      if uses V3D_QPU_MUX_B then
        (v3d_qpu_assemble_raddr_result_no_raddr_space_too_many_immediates, instr, none, e)
      else
        (v3d_qpu_assemble_raddr_result_success,
          { instr with raddr_b := desiredOperand, sig := { instr.sig with small_imm_b := true } },
          some V3D_QPU_MUX_B, e)

/-- Table `sig_names`. -/
def sig_names : List String := [
  "thrsw", "ldvary", "ldvpm", "ldtmu", "ldtlb", "ldtlbu",
  "ldunif", "ldunifrf", "ldunifa", "ldunifarf", "wrtmuc"
]

/-- Table `sig_has_address` (aligned with `sig_names`). -/
def sig_has_address : List Bool := [
  false, true, false, true, true, true,
  false, true, false, true, false
]

/-- Table `sig_bits` (aligned with `sig_names`): the bit of `struct v3d_qpu_sig` each name sets. -/
def sig_bits : List Nat := [
  0, 6, 7, 5, 8, 9,
  1, 3, 2, 4, 12
]

/-- Sets bit `bit` of the signal set viewed as an integer, as `*((v3d_uint32*)sig) |= 1 << bit`
does: bit k is the k-th one-bit member in declaration order (the numbering the
comment above `sig_bits` gives). -/
def v3d_qpu_sig_set_bit (sig : v3d_qpu_sig) (bit : Nat) : v3d_qpu_sig :=
  if bit = 0 then { sig with thrsw := true }
  else if bit = 1 then { sig with ldunif := true }
  else if bit = 2 then { sig with ldunifa := true }
  else if bit = 3 then { sig with ldunifrf := true }
  else if bit = 4 then { sig with ldunifarf := true }
  else if bit = 5 then { sig with ldtmu := true }
  else if bit = 6 then { sig with ldvary := true }
  else if bit = 7 then { sig with ldvpm := true }
  else if bit = 8 then { sig with ldtlb := true }
  else if bit = 9 then { sig with ldtlbu := true }
  else if bit = 10 then { sig with ucb := true }
  else if bit = 11 then { sig with rotate := true }
  else if bit = 12 then { sig with wrtmuc := true }
  else if bit = 13 then { sig with small_imm_a := true }
  else if bit = 14 then { sig with small_imm_b := true }
  else if bit = 15 then { sig with small_imm_c := true }
  else if bit = 16 then { sig with small_imm_d := true }
  else sig

/-- `v3d_qpu_assemble_signal`: the updated signal set, whether the signal takes an
address, and the pointer after the name. -/
def v3d_qpu_assemble_signal (sig : v3d_qpu_sig) (name : List Char) :
    Option (v3d_qpu_sig × Bool × List Char) :=
  match v3d_name_list_search name sig_names 0 with
  | none => none
  | some (index, e) =>
    some (v3d_qpu_sig_set_bit sig (sig_bits.getD index 0), sig_has_address.getD index false, e)

/-- The loop of `v3d_qpu_skip_whitespace_comments`; `todo` bounds the iterations by the
length of the text.  The result is the return value and the new read head. -/
def v3d_qpu_skip_whitespace_comments_loop : Nat → List Char → Int → Bool × List Char
  | 0, currentChar, _ => (false, currentChar)
  | todo + 1, currentChar, commentDepth =>
    if cstr_at currentChar 0 ≠ NUL ∧ (commentDepth ≠ 0 ∨ cstr_at currentChar 0 ≠ CH_NEWLINE) then
      if cstr_at currentChar 0 = CH_TAB ∨ cstr_at currentChar 0 = CH_RETURN ∨
         cstr_at currentChar 0 = ' ' then
        v3d_qpu_skip_whitespace_comments_loop todo (currentChar.drop 1) commentDepth
      else if commentDepth = 0 ∧ cstr_at currentChar 0 = CH_SLASH ∧
          cstr_at currentChar 1 = CH_SLASH then
        (false, currentChar.dropWhile (fun c => c ≠ NUL ∧ c ≠ CH_NEWLINE))
      else if cstr_at currentChar 0 = CH_STAR ∧ cstr_at currentChar 1 = CH_SLASH then
        v3d_qpu_skip_whitespace_comments_loop todo (currentChar.drop 2) (commentDepth - 1)
      else
        let opens : Bool := cstr_at currentChar 0 = CH_SLASH ∧ cstr_at currentChar 1 = CH_STAR
        let commentDepth := if opens then commentDepth + 1 else commentDepth
        let currentChar := if opens then currentChar.drop 1 else currentChar
        if commentDepth ≠ 0 then
          v3d_qpu_skip_whitespace_comments_loop todo (currentChar.drop 1) commentDepth
        else (true, currentChar)
    else (false, currentChar)

/-- `v3d_qpu_skip_whitespace_comments`. -/
def v3d_qpu_skip_whitespace_comments (readHead : List Char) : Bool × List Char :=
  v3d_qpu_skip_whitespace_comments_loop (readHead.length + 1) readHead 0

/-! ## The single-line assembler (`v3d_qpu_assemble`) -/

/-- Arguments and results of the assembler: `struct v3d_qpu_assemble_arguments`.
`errorMessage` and `hintAvailable` are `none` for a null pointer. -/
structure v3d_qpu_assemble_arguments where
  devinfo : v3d_device_info
  assembly : List Char
  instruction : v3d_qpu_instr := {}
  isEmptyLine : Bool := false
  instructionStartsAtOffset : Int := 0
  errorAtOffset : Int := 0
  errorMessage : Option String := none
  hintAvailable : Option (List String) := none
  numHints : Int := 0
deriving DecidableEq, Repr

/-- The local variables of `v3d_qpu_assemble` that live across parsing steps,
together with the arguments record they update. -/
structure v3d_qpu_assemble_locals where
  args : v3d_qpu_assemble_arguments
  currentChar : List Char
  parsedSuccessfully : Bool := true
  errorHintList : Option (List String) := none
  numErrorHints : Nat := 0
deriving DecidableEq, Repr

/-- The pointer difference `currentChar - args->assembly`. -/
def v3d_qpu_assemble_locals.offset (st : v3d_qpu_assemble_locals) : Int :=
  (st.args.assembly.length : Int) - (st.currentChar.length : Int)

/-- The body of `BREAK_ERROR_HINT_SIZE` once `parsedSuccessfully` is false: the
error is recorded; the caller then leaves the enclosing loop. -/
def v3d_qpu_assemble_locals.break_error (st : v3d_qpu_assemble_locals) (message : String)
    (hintList : Option (List String)) (hintListSize : Nat) : v3d_qpu_assemble_locals :=
  { st with
    args := { st.args with errorAtOffset := st.offset, errorMessage := some message },
    parsedSuccessfully := false,
    errorHintList := hintList,
    numErrorHints := hintListSize }

/-- Table `rf_names` of `v3d_qpu_assemble`. -/
def rf_names : List String := [
  "rf0", "rf1", "rf2", "rf3", "rf4", "rf5", "rf6", "rf7", "rf8", "rf9", "rf10",
  "rf11", "rf12", "rf13", "rf14", "rf15", "rf16", "rf17", "rf18", "rf19", "rf20", "rf21",
  "rf22", "rf23", "rf24", "rf25", "rf26", "rf27", "rf28", "rf29", "rf30", "rf31"
]

/-- Table `accumulator_register_names` of `v3d_qpu_assemble`. -/
def accumulator_register_names : List String := ["r0", "r1", "r2", "r3", "r4", "r5"]

/-- Applies an update to the half of `instruction.alu` that `outputs[outputIndex]` points into. -/
def v3d_qpu_assemble_locals.update_half (st : v3d_qpu_assemble_locals) (outputIndex : Nat)
    (f : v3d_qpu_alu_half → v3d_qpu_alu_half) : v3d_qpu_assemble_locals :=
  let instr := st.args.instruction
  let alu := if outputIndex = 0 then { instr.alu with add := f instr.alu.add }
             else { instr.alu with mul := f instr.alu.mul }
  { st with args := { st.args with instruction := { instr with alu := alu } } }

/-- The half of `instruction.alu` that `outputs[outputIndex]` points into. -/
def v3d_qpu_assemble_locals.half (st : v3d_qpu_assemble_locals) (outputIndex : Nat) :
    v3d_qpu_alu_half :=
  if outputIndex = 0 then st.args.instruction.alu.add else st.args.instruction.alu.mul

/-- The `while (*currentChar == '.')` loop of `v3d_qpu_assemble`: every suffix is
stored into `flags.ac`, `flags.mpf` or `flags.muf`, as the source does for both
halves; an unknown suffix clears `parsedSuccessfully`.  `todo` bounds the
iterations by the length of the text. -/
def v3d_qpu_assemble_flags : Nat → v3d_qpu_assemble_locals → v3d_qpu_assemble_locals
  | 0, st => st
  | todo + 1, st =>
    if cstr_at st.currentChar 0 = '.' then
      let instr := st.args.instruction
      match v3d_qpu_value_from_name_list st.currentChar cond_names true with
      | some (index, e) =>
        v3d_qpu_assemble_flags todo
          { st with currentChar := e,
                    args := { st.args with instruction :=
                      { instr with flags := { instr.flags with ac := index } } } }
      | none =>
        match v3d_qpu_value_from_name_list st.currentChar pf_names true with
        | some (index, e) =>
          v3d_qpu_assemble_flags todo
            { st with currentChar := e,
                      args := { st.args with instruction :=
                        { instr with flags := { instr.flags with mpf := index } } } }
        | none =>
          match v3d_qpu_value_from_name_list st.currentChar uf_names true with
          | some (index, e) =>
            v3d_qpu_assemble_flags todo
              { st with currentChar := e,
                        args := { st.args with instruction :=
                          { instr with flags := { instr.flags with muf := index } } } }
          | none => { st with parsedSuccessfully := false }
    else st

/-- The error text and hint list `v3d_qpu_assemble` selects for a result of
`v3d33_qpu_assemble_raddr`. -/
def v3d_qpu_assemble_raddr_error (raddrResult : Nat) : String × Option (List String) × Nat :=
  if raddrResult = v3d_qpu_assemble_raddr_result_invalid_register_file then
    ("Unrecognized register file", some rf_names, rf_names.length)
  else if raddrResult = v3d_qpu_assemble_raddr_result_invalid_accumulator_register then
    ("Unrecognized accumulator register", some accumulator_register_names,
      accumulator_register_names.length)
  else if raddrResult = v3d_qpu_assemble_raddr_result_invalid_small_immediate then
    ("Unrecognized small immediate", some small_immediates_names, small_immediates_names.length)
  else if raddrResult = v3d_qpu_assemble_raddr_result_no_raddr_space_too_many_immediates then
    ("Too many small immediates. Only one small immediate may be specified per instruction",
      none, 0)
  else if raddrResult = v3d_qpu_assemble_raddr_result_no_raddr_space then
    ("Too many unique register files (plus small immediate) specified. " ++
     "Only two unique raddrs (two register files or one register file " ++
     "and one small immediate) may be specified per instruction", none, 0)
  else ("Unspecified error with raddr parsing", none, 0)

/-- The text of the error for a missing source operand. -/
def v3d_qpu_assemble_expected_source : String :=
  "Expected source operand rf0 through rf31, accumulator register r0-r5, " ++
  "or small immediate"

/-- The `for (src ...)` loop of `v3d_qpu_assemble`, from operand `src` with `todo`
operands left.  A `BREAK_ERROR` inside this loop leaves this loop only: the
result then has `parsedSuccessfully` false and the enclosing loop over the two
halves goes on. -/
def v3d_qpu_assemble_sources (outputIndex : Nat) (has_dst : Bool) :
    Nat → Nat → v3d_qpu_assemble_locals → v3d_qpu_assemble_locals
  | 0, _, st => st
  | todo + 1, src, st =>
    let skipped := v3d_qpu_skip_whitespace_comments st.currentChar
    let st := { st with currentChar := skipped.2 }
    if skipped.1 = false then st.break_error v3d_qpu_assemble_expected_source none 0
    else
      let comma : Option v3d_qpu_assemble_locals :=
        if (has_dst ∧ src = 0) ∨ src > 0 then
          if cstr_at st.currentChar 0 ≠ ',' then none
          else some { st with currentChar := st.currentChar.drop 1 }
        else some st
      match comma with
      | none => st.break_error "Expected , before source operand" none 0
      | some st =>
        let skipped : Bool × List Char :=
          if (has_dst ∧ src = 0) ∨ src > 0 then v3d_qpu_skip_whitespace_comments st.currentChar
          else (true, st.currentChar)
        let st := { st with currentChar := skipped.2 }
        if skipped.1 = false then st.break_error v3d_qpu_assemble_expected_source none 0
        else
          let r := v3d33_qpu_assemble_raddr st.args.instruction st.currentChar
          let st := { st with args := { st.args with instruction := r.2.1 }, currentChar := r.2.2.2 }
          let st :=
            match r.2.2.1 with
            | none => st
            | some mux =>
              st.update_half outputIndex (fun h =>
                if src = 0 then { h with a := { h.a with mux := mux } }
                else { h with b := { h.b with mux := mux } })
          let st := { st with parsedSuccessfully := r.1 = v3d_qpu_assemble_raddr_result_success }
          if st.parsedSuccessfully = false then
            let e := v3d_qpu_assemble_raddr_error r.1
            st.break_error e.1 e.2.1 e.2.2
          else
            match v3d_qpu_value_from_name_list st.currentChar unpack_names true with
            | none =>
              st.break_error "Invalid unpack operation" (some unpack_names) unpack_names.length
            | some (index, e) =>
              let st := { st with currentChar := e, parsedSuccessfully := true }
              let st := st.update_half outputIndex (fun h =>
                if src = 0 then { h with a := { h.a with unpack := index } }
                else { h with b := { h.b with unpack := index } })
              v3d_qpu_assemble_sources outputIndex has_dst todo (src + 1) st

/-- One iteration of the loop over `outputs` in `v3d_qpu_assemble` (`outputIndex` 0 is
the ADD half, 1 the MUL half).  `Except.error` is a `break` out of that loop,
`Except.ok` the end of the iteration. -/
def v3d_qpu_assemble_half (outputIndex : Nat) (st : v3d_qpu_assemble_locals) :
    Except v3d_qpu_assemble_locals v3d_qpu_assemble_locals :=
  let availableOperations := if outputIndex = 0 then add_op_names else mul_op_names
  let operationNotFoundError :=
    if outputIndex = 0 then "Expected ALU add instruction or nop"
    else "Expected ALU mul instruction or nop"
  let separator : Except v3d_qpu_assemble_locals v3d_qpu_assemble_locals :=
    if outputIndex > 0 then
      let skipped := v3d_qpu_skip_whitespace_comments st.currentChar
      let st := { st with currentChar := skipped.2 }
      if skipped.1 = false ∨ cstr_at st.currentChar 0 ≠ ';' then
        Except.error (st.break_error "Expected ';' between add and mul instructions" none 0)
      else
        let st := { st with currentChar := st.currentChar.drop 1 }
        let skipped := v3d_qpu_skip_whitespace_comments st.currentChar
        let st := { st with currentChar := skipped.2 }
        if skipped.1 = false then
          Except.error (st.break_error operationNotFoundError (some availableOperations)
            availableOperations.length)
        else Except.ok st
    else Except.ok st
  match separator with
  | Except.error st => Except.error st
  | Except.ok st =>
    match v3d_qpu_value_from_name_list st.currentChar availableOperations false with
    | none =>
      Except.error (st.break_error operationNotFoundError (some availableOperations)
        availableOperations.length)
    | some (op, e) =>
      let st := { st with currentChar := e, parsedSuccessfully := true }
      let st := st.update_half outputIndex (fun h => { h with op := op })
      let st :=
        if op = V3D_QPU_M_NOP ∨ op = V3D_QPU_A_NOP then
          st.update_half outputIndex (fun h =>
            { h with waddr := V3D_QPU_WADDR_NOP, magic_write := true })
        else st
      let st := v3d_qpu_assemble_flags (st.currentChar.length + 1) st
      if st.parsedSuccessfully = false then
        Except.error (st.break_error "Condition, pack flags, or uf unrecognized"
          (some cond_pf_uf_names) cond_pf_uf_names.length)
      else
        let has_dst :=
          if outputIndex = 1 then v3d_qpu_mul_op_has_dst op else v3d_qpu_add_op_has_dst op
        let num_src :=
          if outputIndex = 1 then v3d_qpu_mul_op_num_src op else v3d_qpu_add_op_num_src op
        let destination : Except v3d_qpu_assemble_locals v3d_qpu_assemble_locals :=
          if has_dst then
            let skipped := v3d_qpu_skip_whitespace_comments st.currentChar
            let st := { st with currentChar := skipped.2 }
            if skipped.1 = false then
              Except.error (st.break_error
                "Expected destination operand rf0 through rf31 or waddr"
                (some waddr_names) waddr_names.length)
            else
              let written : Except v3d_qpu_assemble_locals v3d_qpu_assemble_locals :=
                if cstr_at st.currentChar 0 = 'r' ∧ cstr_at st.currentChar 1 = 'f' then
                  match v3d_assemble_parse_register_file st.currentChar with
                  | none =>
                    Except.error (st.break_error "Expected rf0 through rf31"
                      (some rf_names) rf_names.length)
                  | some (reg, e) =>
                    Except.ok ({ st with currentChar := e, parsedSuccessfully := true }.update_half
                      outputIndex (fun h => { h with waddr := reg }))
                else
                  match v32_qpu_magic_waddr_from_name st.currentChar with
                  | some (waddr, e) =>
                    Except.ok ({ st with currentChar := e }.update_half outputIndex
                      (fun h => { h with waddr := waddr % 256, magic_write := true }))
                  | none =>
                    Except.error (st.break_error "Expected rf0 through rf31 or waddr"
                      (some waddr_names) waddr_names.length)
              match written with
              | Except.error st => Except.error st
              | Except.ok st =>
                match v3d_qpu_value_from_name_list st.currentChar pack_names true with
                | none =>
                  Except.error (st.break_error "Invalid pack operation"
                    (some pack_names) pack_names.length)
                | some (index, e) =>
                  Except.ok ({ st with currentChar := e, parsedSuccessfully := true }.update_half
                    outputIndex (fun h => { h with output_pack := index }))
          else Except.ok st
        match destination with
        | Except.error st => Except.error st
        | Except.ok st => Except.ok (v3d_qpu_assemble_sources outputIndex has_dst num_src 0 st)

/-- The signal loop of `v3d_qpu_assemble` (`while (v3d_qpu_skip_whitespace_comments(...))`);
`todo` bounds the iterations by the length of the text, the flag is
`sigWithAddressSpecified`. -/
def v3d_qpu_assemble_signals : Nat → Bool → v3d_qpu_assemble_locals → v3d_qpu_assemble_locals
  | 0, _, st => st
  | todo + 1, sigWithAddressSpecified, st =>
    let skipped := v3d_qpu_skip_whitespace_comments st.currentChar
    let st := { st with currentChar := skipped.2 }
    if skipped.1 = false then st
    else if cstr_at st.currentChar 0 ≠ ';' then
      st.break_error "Expected ';' before start of signal" none 0
    else
      let st := { st with currentChar := st.currentChar.drop 1 }
      let skipped := v3d_qpu_skip_whitespace_comments st.currentChar
      let st := { st with currentChar := skipped.2 }
      if skipped.1 = false then st
      else
        match v3d_qpu_assemble_signal st.args.instruction.sig st.currentChar with
        | none => st.break_error "Unrecognized signal name" (some sig_names) sig_names.length
        | some (sig, sigTakesAddress, e) =>
          let st := { st with
            currentChar := e, parsedSuccessfully := true,
            args := { st.args with instruction := { st.args.instruction with sig := sig } } }
          if sigTakesAddress ∧ sigWithAddressSpecified then
            st.break_error
              ("Too many signals with addresses specified. Only one signal with " ++
               "address may be specified per instruction") none 0
          else
            let sigWithAddressSpecified := sigWithAddressSpecified || sigTakesAddress
            if cstr_at st.currentChar 0 = '.' then
              if sigTakesAddress = false then
                st.break_error
                  ("Signal does not support an address. Check for a signal variant which does " ++
                   "take an address") (some sig_names) sig_names.length
              else
                let st := { st with currentChar := st.currentChar.drop 1 }
                if cstr_at st.currentChar 0 = 'r' ∧ cstr_at st.currentChar 1 = 'f' then
                  match v3d_assemble_parse_register_file st.currentChar with
                  | none =>
                    st.break_error "Expected rf0 through rf31" (some rf_names) rf_names.length
                  | some (reg, e) =>
                    v3d_qpu_assemble_signals todo sigWithAddressSpecified
                      { st with currentChar := e, parsedSuccessfully := true,
                                args := { st.args with instruction :=
                                  { st.args.instruction with sig_addr := reg } } }
                else
                  match v32_qpu_magic_waddr_from_name st.currentChar with
                  | none =>
                    { st with args := { st.args with instruction :=
                        { st.args.instruction with sig_addr := 0, sig_magic := true } } }.break_error
                      "Expected rf0 through rf31 or waddr" (some waddr_names) waddr_names.length
                  | some (waddr, e) =>
                    v3d_qpu_assemble_signals todo sigWithAddressSpecified
                      { st with currentChar := e, parsedSuccessfully := true,
                                args := { st.args with instruction :=
                                  { st.args.instruction with
                                    sig_addr := waddr % 256, sig_magic := true } } }
            else v3d_qpu_assemble_signals todo sigWithAddressSpecified st

/-- The common exit of `v3d_qpu_assemble`: the hint list is published and the
return value is 0 on failure, else the number of characters consumed. -/
def v3d_qpu_assemble_exit (st : v3d_qpu_assemble_locals) : Nat × v3d_qpu_assemble_arguments :=
  let args :=
    if st.errorHintList.isSome ∧ st.numErrorHints ≠ 0 then
      { st.args with hintAvailable := st.errorHintList, numHints := st.numErrorHints }
    else st.args
  if st.parsedSuccessfully = false then (0, args) else (st.offset.toNat, args)

/-- `v3d_qpu_assemble`: the return value and the updated arguments record. -/
def v3d_qpu_assemble (args : v3d_qpu_assemble_arguments) : Nat × v3d_qpu_assemble_arguments :=
  if args.devinfo.ver ≥ 70 then
    (0, { args with errorMessage := some "V3D 7.x assembler not implemented" })
  else
    let st : v3d_qpu_assemble_locals := { args := args, currentChar := args.assembly }
    let skipped := v3d_qpu_skip_whitespace_comments st.currentChar
    let st := { st with currentChar := skipped.2 }
    if skipped.1 = false then
      (st.offset.toNat, { st.args with isEmptyLine := true })
    else
      let st := { st with args := { st.args with instructionStartsAtOffset := st.offset } }
      if cstr_at st.currentChar 0 = 'b' ∧ cstr_at st.currentChar 1 ≠ 'a' then
        v3d_qpu_assemble_exit
          { st with parsedSuccessfully := false,
                    args := { st.args with errorAtOffset := st.offset,
                                           errorMessage := some "Branch instructions unimplemented" } }
      else
        match v3d_qpu_assemble_half 0 st with
        | Except.error st => v3d_qpu_assemble_exit st
        | Except.ok st =>
          match v3d_qpu_assemble_half 1 st with
          | Except.error st => v3d_qpu_assemble_exit st
          | Except.ok st =>
            if st.parsedSuccessfully = false then v3d_qpu_assemble_exit st
            else
              v3d_qpu_assemble_exit
                (v3d_qpu_assemble_signals (st.currentChar.length + 1) false st)

/-! ## The sequence validator (`qpu_validate.c` part of the source) -/

/-- The record `struct v3d_qpu_validate_result`; `errorMessage` is `none` for a
pointer that was never written. -/
structure v3d_qpu_validate_result where
  errorInstructionIndex : Int := 0
  errorMessage : Option String := none
  error : Nat := 0
deriving DecidableEq, Repr

/-- The record `struct v3d_qpu_validate_state`.  `last` is `none` for the null
pointer; the `int` members are integers (the programs considered are far
shorter than 2^31 instructions). -/
structure v3d_qpu_validate_state where
  devinfo : v3d_device_info
  last : Option v3d_qpu_instr := none
  ip : Int := 0
  last_sfu_write : Int := 0
  last_branch_ip : Int := 0
  last_thrsw_ip : Int := 0
  first_tlb_z_write : Int := 0
  last_thrsw_found : Bool := false
  thrend_found : Bool := false
  thrsw_count : Int := 0
  errorMessage : Option String := none
  error : Nat := 0
deriving DecidableEq, Repr

/-- `fail_instr`. -/
def fail_instr (state : v3d_qpu_validate_state) (error : Nat) (msg : String) :
    v3d_qpu_validate_state :=
  { state with errorMessage := some msg, error := error }

/-- `in_branch_delay_slots`. -/
def in_branch_delay_slots (state : v3d_qpu_validate_state) : Bool :=
  decide (state.ip - state.last_branch_ip < 3)

/-- `in_thrsw_delay_slots`. -/
def in_thrsw_delay_slots (state : v3d_qpu_validate_state) : Bool :=
  decide (state.ip - state.last_thrsw_ip < 3)

/-- The number of magic writes of one ALU half that `predicate` accepts, as
counted by the `if (...) xxx_writes++` lines of `qpu_validate_inst`;
`is_nop` says whether the half's operation is its NOP. -/
def qpu_validate_count_writes (is_nop : Bool) (half : v3d_qpu_alu_half)
    (predicate : Nat → Bool) : Int :=
  if !is_nop then
    if half.magic_write then
      if predicate half.waddr then 1 else 0
    else 0
  else 0

/-- The `thrend_found` block of `qpu_validate_inst` (RF writes and TMUWT after the
program-end thread switch): an error code with its message if one of the rules
fires. -/
def qpu_validate_inst_thrend (state : v3d_qpu_validate_state) (inst : v3d_qpu_instr) :
    Option (Nat × String) :=
  let devinfo := state.devinfo
  let add_rule : Option (Nat × String) :=
    if inst.alu.add.op ≠ V3D_QPU_A_NOP ∧ inst.alu.add.magic_write = false then
      if devinfo.ver = 42 then
        some (V3D_QPU_VALIDATE_ERROR_RF_WRITE_AFTER_THREND, "RF write after THREND")
      else if devinfo.ver ≥ 71 then
        if state.last_thrsw_ip - state.ip = 0 then
          some (V3D_QPU_VALIDATE_ERROR_ADD_RF_WRITE_AT_THREND, "ADD RF write at THREND")
        else if inst.alu.add.waddr = 2 ∨ inst.alu.add.waddr = 3 then
          some (V3D_QPU_VALIDATE_ERROR_RF2_3_WRITE_AFTER_THREND, "RF2-3 write after THREND")
        else none
      else none
    else none
  match add_rule with
  | some e => some e
  | none =>
    let mul_rule : Option (Nat × String) :=
      if inst.alu.mul.op ≠ V3D_QPU_M_NOP ∧ inst.alu.mul.magic_write = false then
        if devinfo.ver = 42 then
          some (V3D_QPU_VALIDATE_ERROR_RF_WRITE_AFTER_THREND, "RF write after THREND")
        else if devinfo.ver ≥ 71 then
          if state.last_thrsw_ip - state.ip = 0 then
            some (V3D_QPU_VALIDATE_ERROR_MUL_RF_WRITE_AT_THREND, "MUL RF write at THREND")
          else if inst.alu.mul.waddr = 2 ∨ inst.alu.mul.waddr = 3 then
            some (V3D_QPU_VALIDATE_ERROR_RF2_3_WRITE_AFTER_THREND, "RF2-3 write after THREND")
          else none
        else none
      else none
    match mul_rule with
    | some e => some e
    | none =>
      let sig_rule : Option (Nat × String) :=
        if v3d_qpu_sig_writes_address devinfo inst.sig = true ∧ inst.sig_magic = false then
          if devinfo.ver = 42 then
            some (V3D_QPU_VALIDATE_ERROR_RF_WRITE_AFTER_THREND, "RF write after THREND")
          else if devinfo.ver ≥ 71 ∧ (inst.sig_addr = 2 ∨ inst.sig_addr = 3) then
            some (V3D_QPU_VALIDATE_ERROR_RF2_3_WRITE_AFTER_THREND, "RF2-3 write after THREND")
          else none
        else none
      match sig_rule with
      | some e => some e
      | none =>
        if state.last_thrsw_ip - state.ip = 2 ∧ inst.alu.add.op = V3D_QPU_A_TMUWT then
          some (V3D_QPU_VALIDATE_ERROR_TMUWT_IN_LAST_INSTRUCTION, "TMUWT in last instruction")
        else none

/-- The `if (inst->sig.thrsw)` block of `qpu_validate_inst`: the return flag is
false when a rule fired, and the state carries the updates made up to there. -/
def qpu_validate_inst_thrsw (state : v3d_qpu_validate_state) :
    Bool × v3d_qpu_validate_state :=
  if in_branch_delay_slots state then
    (false, fail_instr state V3D_QPU_VALIDATE_ERROR_THRSW_IN_A_BRANCH_DELAY_SLOT
      "THRSW in a branch delay slot.")
  else
    let state := if state.last_thrsw_found then { state with thrend_found := true } else state
    if state.last_thrsw_ip = state.ip - 1 then
      if state.last_thrsw_found then
        (false, fail_instr state V3D_QPU_VALIDATE_ERROR_TWO_LAST_THRSW_SIGNALS
          "Two last-THRSW signals")
      else (true, { state with last_thrsw_found := true })
    else
      if in_thrsw_delay_slots state then
        (false, fail_instr state V3D_QPU_VALIDATE_ERROR_THRSW_TOO_CLOSE_TO_ANOTHER_THRSW
          "THRSW too close to another THRSW.")
      else
        (true, { state with thrsw_count := state.thrsw_count + 1, last_thrsw_ip := state.ip })

/-- The part of `qpu_validate_inst` from the SFU window check to the end, for an
ALU instruction, given the write counts computed before. -/
def qpu_validate_inst_tail (state : v3d_qpu_validate_state) (inst : v3d_qpu_instr)
    (tmu_writes sfu_writes vpm_writes tlb_writes tsy_writes : Int) :
    Bool × v3d_qpu_validate_state :=
  let devinfo := state.devinfo
  if state.ip - state.last_sfu_write < 2 ∧ v3d_qpu_uses_mux inst V3D_QPU_MUX_R4 = true then
    (false, fail_instr state V3D_QPU_VALIDATE_ERROR_R4_READ_TOO_SOON_AFTER_SFU
      "R4 read too soon after SFU")
  else if state.ip - state.last_sfu_write < 2 ∧ v3d_qpu_writes_r4 devinfo inst = true then
    (false, fail_instr state V3D_QPU_VALIDATE_ERROR_R4_WRITE_TOO_SOON_AFTER_SFU
      "R4 write too soon after SFU")
  else if state.ip - state.last_sfu_write < 2 ∧ sfu_writes ≠ 0 then
    (false, fail_instr state V3D_QPU_VALIDATE_ERROR_SFU_WRITE_TOO_SOON_AFTER_SFU
      "SFU write too soon after SFU")
  else if tmu_writes + sfu_writes + vpm_writes + tlb_writes + tsy_writes +
      (if devinfo.ver = 42 then sig_bit_value inst.sig.ldtmu else 0) +
      sig_bit_value inst.sig.ldtlb + sig_bit_value inst.sig.ldvpm +
      sig_bit_value inst.sig.ldtlbu > 1 then
    (false, fail_instr state V3D_QPU_VALIDATE_ERROR_ONLY_ONE_OF_TMU_SFU_TSY_TLB_READ_VPM_ALLOWED
      "Only one of [TMU, SFU, TSY, TLB read, VPM] allowed")
  else
    let state := if sfu_writes ≠ 0 then { state with last_sfu_write := state.ip } else state
    let thrsw : Bool × v3d_qpu_validate_state :=
      if inst.sig.thrsw then qpu_validate_inst_thrsw state else (true, state)
    if thrsw.1 = false then thrsw
    else
      let state := thrsw.2
      let thrend : Option (Nat × String) :=
        if state.thrend_found = true ∧ state.last_thrsw_ip - state.ip ≤ 2 ∧
            inst.type = V3D_QPU_INSTR_TYPE_ALU then
          qpu_validate_inst_thrend state inst
        else none
      match thrend with
      | some e => (false, fail_instr state e.1 e.2)
      | none =>
        if inst.type = V3D_QPU_INSTR_TYPE_BRANCH then
          if in_branch_delay_slots state then
            (false, fail_instr state V3D_QPU_VALIDATE_ERROR_BRANCH_IN_A_BRANCH_DELAY_SLOT
              "branch in a branch delay slot.")
          else if in_thrsw_delay_slots state then
            (false, fail_instr state V3D_QPU_VALIDATE_ERROR_BRANCH_IN_A_THRSW_DELAY_SLOT
              "branch in a THRSW delay slot.")
          else (true, { state with last_branch_ip := state.ip })
        else (true, state)

/-- `qpu_validate_inst`: whether the instruction is valid relative to the state,
and the updated state. -/
def qpu_validate_inst (state : v3d_qpu_validate_state) (inst : v3d_qpu_instr) :
    Bool × v3d_qpu_validate_state :=
  let devinfo := state.devinfo
  if inst.type = V3D_QPU_INSTR_TYPE_BRANCH ∧ state.first_tlb_z_write ≥ 0 ∧
      state.ip > state.first_tlb_z_write ∧ inst.branch.msfign ≠ V3D_QPU_MSFIGN_NONE ∧
      inst.branch.cond ≠ V3D_QPU_BRANCH_COND_ALWAYS ∧
      inst.branch.cond ≠ V3D_QPU_BRANCH_COND_A0 ∧ inst.branch.cond ≠ V3D_QPU_BRANCH_COND_NA0 then
    (false, fail_instr state V3D_QPU_VALIDATE_ERROR_IMPLICIT_BRANCH_MSF_READ_AFTER_TLB_Z_WRITE
      "Implicit branch MSF read after TLB Z write")
  else if inst.type ≠ V3D_QPU_INSTR_TYPE_ALU then (true, state)
  else if inst.alu.add.op = V3D_QPU_A_SETMSF ∧ state.first_tlb_z_write ≥ 0 ∧
      state.ip > state.first_tlb_z_write then
    (false, fail_instr state V3D_QPU_VALIDATE_ERROR_SETMSF_AFTER_TLB_Z_WRITE
      "SETMSF after TLB Z write")
  else if state.first_tlb_z_write ≥ 0 ∧ state.ip > state.first_tlb_z_write ∧
      inst.alu.add.op = V3D_QPU_A_MSF then
    (false, fail_instr state V3D_QPU_VALIDATE_ERROR_MSF_READ_AFTER_TLB_Z_WRITE
      "MSF read after TLB Z write")
  else if devinfo.ver < 71 ∧
      (inst.sig.small_imm_a || inst.sig.small_imm_c || inst.sig.small_imm_d) = true then
    (false, fail_instr state V3D_QPU_VALIDATE_ERROR_SMALL_IMM_A_C_D_ADDED_AFTER_V3D_7_1
      "small imm a/c/d added after V3D 7.1")
  else if ¬ devinfo.ver < 71 ∧ (inst.sig.small_imm_a || inst.sig.small_imm_b) = true ∧
      ¬ (inst.type = V3D_QPU_INSTR_TYPE_ALU ∧ inst.alu.add.op ≠ V3D_QPU_A_NOP) then
    (false, fail_instr state V3D_QPU_VALIDATE_ERROR_SMALL_IMM_A_B_USED_BUT_NO_ADD_INST
      "small imm a/b used but no ADD inst")
  else if ¬ devinfo.ver < 71 ∧ (inst.sig.small_imm_c || inst.sig.small_imm_d) = true ∧
      ¬ (inst.type = V3D_QPU_INSTR_TYPE_ALU ∧ inst.alu.mul.op ≠ V3D_QPU_M_NOP) then
    (false, fail_instr state V3D_QPU_VALIDATE_ERROR_SMALL_IMM_C_D_USED_BUT_NO_MUL_INST
      "small imm c/d used but no MUL inst")
  else if ¬ devinfo.ver < 71 ∧
      sig_bit_value inst.sig.small_imm_a + sig_bit_value inst.sig.small_imm_b +
      sig_bit_value inst.sig.small_imm_c + sig_bit_value inst.sig.small_imm_d > 1 then
    (false, fail_instr state V3D_QPU_VALIDATE_ERROR_MAX_ONE_SMALL_IMMEDIATE_PER_INSTRUCTION
      "only one small immediate can be enabled per instruction")
  else if (match state.last with
      | some last => last.sig.ldvary && (inst.sig.ldunif || inst.sig.ldunifa)
      | none => false) = true then
    (false, fail_instr state V3D_QPU_VALIDATE_ERROR_LDUNIF_AFTER_A_LDVARY "LDUNIF after a LDVARY")
  else
    let last_reads_ldunif : Bool :=
      match state.last with
      | some last => last.sig.ldunif || last.sig.ldunifrf
      | none => false
    let last_reads_ldunifa : Bool :=
      match state.last with
      | some last => last.sig.ldunifa || last.sig.ldunifarf
      | none => false
    let reads_ldunif : Bool := inst.sig.ldunif || inst.sig.ldunifrf
    let reads_ldunifa : Bool := inst.sig.ldunifa || inst.sig.ldunifarf
    if devinfo.ver < 42 ∧
        ((last_reads_ldunif && reads_ldunifa) || (last_reads_ldunifa && reads_ldunif)) = true then
      (false, fail_instr state
        V3D_QPU_VALIDATE_ERROR_LDUNIF_AND_LDUNIFA_CANT_BE_NEXT_TO_EACH_OTHER
        "LDUNIF and LDUNIFA can't be next to each other")
    else
      let add_nop : Bool := decide (inst.alu.add.op = V3D_QPU_A_NOP)
      let mul_nop : Bool := decide (inst.alu.mul.op = V3D_QPU_M_NOP)
      let count (predicate : Nat → Bool) : Int :=
        qpu_validate_count_writes add_nop inst.alu.add predicate +
        qpu_validate_count_writes mul_nop inst.alu.mul predicate
      let tmu_writes := count (v3d_qpu_magic_waddr_is_tmu devinfo)
      let sfu_writes := count v3d_qpu_magic_waddr_is_sfu
      let vpm_writes := count v3d_qpu_magic_waddr_is_vpm
      let tlb_writes := count v3d_qpu_magic_waddr_is_tlb
      let tsy_writes := count v3d_qpu_magic_waddr_is_tsy
      if in_thrsw_delay_slots state = true ∧ sfu_writes ≠ 0 then
        (false, fail_instr state
          V3D_QPU_VALIDATE_ERROR_SFU_WRITE_STARTED_DURING_THRSW_DELAY_SLOTS
          "SFU write started during THRSW delay slots ")
      else if in_thrsw_delay_slots state = true ∧ inst.sig.ldvary = true ∧ devinfo.ver = 42 then
        (false, fail_instr state V3D_QPU_VALIDATE_ERROR_LDVARY_DURING_THRSW_DELAY_SLOTS
          "LDVARY during THRSW delay slots")
      else if in_thrsw_delay_slots state = true ∧ inst.sig.ldvary = true ∧
          devinfo.ver ≥ 71 ∧ state.ip - state.last_thrsw_ip = 2 then
        (false, fail_instr state V3D_QPU_VALIDATE_ERROR_LDVARY_IN_2ND_THRSW_DELAY_SLOT
          "LDVARY in 2nd THRSW delay slot")
      else
        qpu_validate_inst_tail state inst tmu_writes sfu_writes vpm_writes tlb_writes tsy_writes

/-- The `for` loop of `v3d_qpu_validate` from index `instructionIndex` on: the index
of the first rejected instruction, if any, and the state at the end. -/
def v3d_qpu_validate_loop :
    List v3d_qpu_instr → Int → v3d_qpu_validate_state → Option Int × v3d_qpu_validate_state
  | [], _, state => (none, state)
  | inst :: rest, instructionIndex, state =>
    let r := qpu_validate_inst state inst
    if r.1 = false then (some instructionIndex, r.2)
    else v3d_qpu_validate_loop rest (instructionIndex + 1)
      { r.2 with last := some inst, ip := r.2.ip + 1 }

/-- `v3d_qpu_validate` on the instruction array `instructions`, whose length is the
argument `numInstructions`: the return value and the contents of `*results`. -/
def v3d_qpu_validate (devinfo : v3d_device_info) (instructions : List v3d_qpu_instr)
    (results : v3d_qpu_validate_result) : Bool × v3d_qpu_validate_result :=
  let numInstructions : Int := instructions.length
  let state : v3d_qpu_validate_state :=
    { devinfo := devinfo,
      last_sfu_write := -10,
      last_thrsw_ip := -10,
      last_branch_ip := -10,
      first_tlb_z_write := numInstructions + 1,
      ip := 0,
      last_thrsw_found := false }
  let looped := v3d_qpu_validate_loop instructions 0 state
  let state := looped.2
  let hasError : Bool := looped.1.isSome
  let results :=
    match looped.1 with
    | some index => { results with errorInstructionIndex := index }
    | none => results
  let step1 : Bool × v3d_qpu_validate_state × v3d_qpu_validate_result :=
    if hasError = false ∧ (state.thrsw_count > 1 ∧ state.last_thrsw_found = false) then
      (true,
        fail_instr state
          V3D_QPU_VALIDATE_ERROR_THREAD_SWITCH_FOUND_WITHOUT_LAST_THRSW_IN_PROGRAM
          "thread switch found without last-THRSW in program",
        { results with errorInstructionIndex := numInstructions - 1 })
    else (hasError, state, results)
  let thrsw_at (k : Nat) : Bool :=
    match instructions.get? (instructions.length - k) with
    | some inst => inst.sig.thrsw
    | none => false
  let step2 : Bool × v3d_qpu_validate_state × v3d_qpu_validate_result :=
    if step1.1 = false ∧ (numInstructions < 3 ∨ (thrsw_at 1 = true ∨ thrsw_at 2 = true)) then
      (true,
        fail_instr step1.2.1 V3D_QPU_VALIDATE_ERROR_NO_PROGRAM_END_THRSW_DELAY_SLOTS
          "THRSW needs two delay slot instructions",
        { step1.2.2 with errorInstructionIndex := numInstructions - 1 })
    else step1
  if step2.1 then
    (false, { step2.2.2 with errorMessage := step2.2.1.errorMessage, error := step2.2.1.error })
  else (true, step2.2.2)


/-! ## Derived notions used by the statements and proofs below -/

/-- The part of the test of `lookup_opcode_from_packed` that does not depend on the
version, in the branch taken below V3D 7.1: opcode range and the two mux masks. -/
def opcode_desc.mux_match (d : opcode_desc) (opcode mux_a mux_b : Nat) : Bool :=
  Nat.ble d.opcode_first opcode && Nat.ble opcode d.opcode_last &&
  (d.b_mask &&& (1 <<< mux_b) != 0) && (d.a_mask &&& (1 <<< mux_a) != 0)

/-- The part of the test of `lookup_opcode_from_packed` that does not depend on the
version, in the branch taken from V3D 7.1 on: opcode range and the raddr mask. -/
def opcode_desc.raddr_match (d : opcode_desc) (opcode raddr : Nat) : Bool :=
  Nat.ble d.opcode_first opcode && Nat.ble opcode d.opcode_last &&
  (d.raddr_mask &&& (1 <<< raddr) != 0)

/-- Bounded universal quantifier, computable: `p` holds for every number below a bound. -/
def allBelow : Nat → (Nat → Bool) → Bool
  | 0, _ => true
  | n + 1, p => p n && allBelow n p

/-- All rows of a table that carry the same operation carry the same version bounds. -/
def opcode_table_uniform_versions (T : List opcode_desc) : Bool :=
  T.all (fun d1 => T.all (fun d2 =>
    d1.op != d2.op || (d1.first_ver == d2.first_ver && d1.last_ver == d2.last_ver)))

/-- The row is the first row of the table for its operation. -/
def opcode_desc.first_for (d : opcode_desc) (T : List opcode_desc) : Bool :=
  T.find? (fun x => x.op == d.op) == some d

/-- What the proofs use about a row of `mul_ops_v33` that is the first row for its
operation: its opcode range, and that the operand selectors `v3d33_qpu_mul_pack`
writes for it pass its own mux masks. -/
def mul33_row_check (d : opcode_desc) : Bool :=
  decide (1 ≤ d.opcode_first) && decide (d.opcode_first ≤ d.opcode_last) &&
  decide (d.opcode_last ≤ 63) &&
  (if d.op = V3D_QPU_M_FMUL then
    d.opcode_first == 16 && d.opcode_last == 63 && d.b_mask == ANYMUX && d.a_mask == ANYMUX
   else if d.op = V3D_QPU_M_FMOV then
    d.opcode_first == 14 && d.opcode_last == 14 && d.b_mask == ANYMUX && d.a_mask == ANYMUX &&
    d.first_ver == 33 && d.last_ver == 42
   else if d.op = V3D_QPU_M_VFMUL then
    d.opcode_first == 4 && d.opcode_last == 8 && d.b_mask == ANYMUX && d.a_mask == ANYMUX
   else
    allBelow 8 (fun a => allBelow 8 (fun b =>
      d.mux_match d.opcode_first
        (if v3d_qpu_mul_op_num_src d.op < 1 then u32_sub (ffs d.a_mask) 1 % 8 else a)
        (if v3d_qpu_mul_op_num_src d.op < 2 then u32_sub (ffs d.b_mask) 1 % 8 else b))))

/-- What the proofs use about a row of `add_ops_v33` that is the first row for its
operation: its opcode range, and that the operand selectors `v3d33_qpu_add_pack`
writes for it pass its own mux masks. -/
def add33_row_check (d : opcode_desc) : Bool :=
  let nsrc := v3d_qpu_add_op_num_src d.op
  let mux_a := fun (a : Nat) => if nsrc < 1 then u32_sub (ffs d.a_mask) 1 else a
  let mux_b := fun (b : Nat) => if nsrc < 2 then u32_sub (ffs d.b_mask) 1 else b
  decide (d.opcode_first ≤ d.opcode_last) && decide (d.opcode_last ≤ 255) &&
  (if d.op = V3D_QPU_A_FADD ∨ d.op = V3D_QPU_A_FADDNF ∨ d.op = V3D_QPU_A_FSUB ∨
      d.op = V3D_QPU_A_FMIN ∨ d.op = V3D_QPU_A_FMAX ∨ d.op = V3D_QPU_A_FCMP then
    (d.opcode_first == 0 || d.opcode_first == 64 || d.opcode_first == 128 ||
      d.opcode_first == 192) &&
    d.opcode_last == d.opcode_first + 47 && d.b_mask == ANYMUX && d.a_mask == ANYMUX
   else if d.op = V3D_QPU_A_VFPACK then
    d.opcode_first == 53 && d.first_ver == 0 && d.last_ver == 0
   else if d.op = V3D_QPU_A_FFLOOR ∨ d.op = V3D_QPU_A_FROUND ∨ d.op = V3D_QPU_A_FTRUNC ∨
      d.op = V3D_QPU_A_FCEIL ∨ d.op = V3D_QPU_A_FDX ∨ d.op = V3D_QPU_A_FDY then
    (d.opcode_first == 245 || d.opcode_first == 246 || d.opcode_first == 247) &&
    allBelow 3 (fun p => allBelow 8 (fun a =>
      d.mux_match d.opcode_first (mux_a a % 8) ((mux_b 0 ||| p) % 8)))
   else if d.op = V3D_QPU_A_FTOIN ∨ d.op = V3D_QPU_A_FTOIZ ∨ d.op = V3D_QPU_A_FTOUZ ∨
      d.op = V3D_QPU_A_FTOC then
    (d.opcode_first == 245 || d.opcode_first == 246) &&
    allBelow 8 (fun a => d.mux_match d.opcode_first (mux_a a % 8) (mux_b 0 % 8))
   else if d.op = V3D_QPU_A_VFMIN ∨ d.op = V3D_QPU_A_VFMAX then
    (d.opcode_first == 176 || d.opcode_first == 240) &&
    d.opcode_last == d.opcode_first + 4 && d.b_mask == ANYMUX && d.a_mask == ANYMUX
   else
    (d.opcode_first != 248 || d.op == V3D_QPU_A_STVPMV || d.op == V3D_QPU_A_STVPMD ||
      d.op == V3D_QPU_A_STVPMP) &&
    allBelow 8 (fun a => allBelow 8 (fun b =>
      d.mux_match d.opcode_first (mux_a a % 8) (mux_b b % 8))))

/-- What the proofs use about any row of `add_ops_v33`: the VFMIN and VFMAX rows
cover opcodes whose low three bits are a 16-bit unpack mode, the VPM stores sit
at opcode 248 alone, and opcodes 249 to 255 belong to no row. -/
def add33_any_check (d : opcode_desc) : Bool :=
  decide (d.opcode_last ≤ 248 ∨ d.opcode_first = 252 ∧ d.opcode_last = 252) &&
  (if d.op = V3D_QPU_A_VFMIN ∨ d.op = V3D_QPU_A_VFMAX then
    (d.opcode_first == 176 && d.opcode_last == 180) ||
    (d.opcode_first == 240 && d.opcode_last == 244)
   else true) &&
  (if d.op = V3D_QPU_A_STVPMV ∨ d.op = V3D_QPU_A_STVPMD ∨ d.op = V3D_QPU_A_STVPMP then
    d.opcode_first == 248 && d.opcode_last == 248
   else true)

/-- What the proofs use about any row of `add_ops_v71`: the VFMIN rows cover
opcodes whose low three bits are a 16-bit unpack mode, the VPM stores sit at
opcode 190 alone, the FMOV rows at opcode 249 alone with raddr values below 32
whose low two bits are not both set, and the MOV rows select a 32-bit integer
unpack mode. -/
def add71_any_check (d : opcode_desc) : Bool :=
  (if d.op = V3D_QPU_A_VFMIN ∨ d.op = V3D_QPU_A_VFMAX then
    d.opcode_first == 176 && d.opcode_last == 180 else true) &&
  (if d.op = V3D_QPU_A_STVPMV ∨ d.op = V3D_QPU_A_STVPMD ∨ d.op = V3D_QPU_A_STVPMP then
    d.opcode_first == 190 && d.opcode_last == 190 else true) &&
  (if d.op = V3D_QPU_A_FMOV then
    d.opcode_first == 249 && d.opcode_last == 249 &&
    allBelow 64 (fun rb => d.raddr_mask &&& (1 <<< rb) == 0 ||
      (rb &&& 3 != 3 && decide (rb < 32))) else true) &&
  (if d.op = V3D_QPU_A_MOV then
    allBelow 64 (fun rb => d.raddr_mask &&& (1 <<< rb) == 0 ||
      decide ((rb >>> 2) &&& 7 < 5)) else true)

/-- Some row of `add_ops_v71` for the operation `op` passes opcode `opcode` and
`raddr`. -/
def add71_some_row (op opcode raddr : Nat) : Bool :=
  add_ops_v71.any (fun d => d.op == op && d.raddr_match opcode raddr)

/-- What the proofs use about a row of `add_ops_v71` that is the first row for its
operation: its opcode range, and that the `raddr_b` values `v3d71_qpu_add_pack`
writes for it pass the mask of a row of the same operation. -/
def add71_row_check (d : opcode_desc) : Bool :=
  let nsrc := v3d_qpu_add_op_num_src d.op
  let rb0 := u32_sub (ffsll d.raddr_mask) 1
  decide (d.opcode_first ≤ d.opcode_last) && decide (d.opcode_last ≤ 255) &&
  (if d.op = V3D_QPU_A_FADD ∨ d.op = V3D_QPU_A_FADDNF ∨ d.op = V3D_QPU_A_FSUB ∨
      d.op = V3D_QPU_A_FMIN ∨ d.op = V3D_QPU_A_FMAX ∨ d.op = V3D_QPU_A_FCMP then
    (if d.op = V3D_QPU_A_FCMP then d.opcode_first == 192 && d.opcode_last == 207
     else (d.opcode_first == 0 || d.opcode_first == 64 || d.opcode_first == 128) &&
       d.opcode_last == d.opcode_first + 47) &&
    d.raddr_mask == ANYOPMASK
   else if d.op = V3D_QPU_A_VFPACK then
    d.opcode_first == 53 && d.first_ver == 0 && d.last_ver == 0
   else if d.op = V3D_QPU_A_FFLOOR ∨ d.op = V3D_QPU_A_FROUND ∨ d.op = V3D_QPU_A_FTRUNC ∨
      d.op = V3D_QPU_A_FCEIL ∨ d.op = V3D_QPU_A_FDX ∨ d.op = V3D_QPU_A_FDY then
    (d.opcode_first == 245 || d.opcode_first == 246) &&
    allBelow 3 (fun p => allBelow 4 (fun x => x == 0 ||
      add71_some_row d.op d.opcode_first
        ((((rb0 ||| p) &&& u32_not (0x3 <<< 2)) ||| (x <<< 2)) % 64)))
   else if d.op = V3D_QPU_A_FTOIN ∨ d.op = V3D_QPU_A_FTOIZ ∨ d.op = V3D_QPU_A_FTOUZ ∨
      d.op = V3D_QPU_A_FTOC then
    (d.opcode_first == 245 || d.opcode_first == 246) &&
    allBelow 4 (fun x => x == 0 ||
      add71_some_row d.op d.opcode_first
        ((rb0 ||| ((rb0 &&& u32_not (0x3 <<< 2)) ||| (x <<< 2))) % 64))
   else if d.op = V3D_QPU_A_VFMIN ∨ d.op = V3D_QPU_A_VFMAX then
    d.opcode_first == 176 && d.opcode_last == 180 && d.raddr_mask == ANYOPMASK
   else if d.op = V3D_QPU_A_MOV then
    d.opcode_first == 249 &&
    allBelow 5 (fun x =>
      ((rb0 ||| (x <<< 2)) % 64) &&& 3 == 3 &&
      add71_some_row d.op d.opcode_first ((rb0 ||| (x <<< 2)) % 64))
   else if d.op = V3D_QPU_A_FMOV then
    d.opcode_first == 249 &&
    allBelow 3 (fun p => allBelow 4 (fun x =>
      decide ((p ||| (x <<< 2)) % 64 < 16) &&
      add71_some_row d.op d.opcode_first ((p ||| (x <<< 2)) % 64)))
   else
    (d.opcode_first != 190 || d.op == V3D_QPU_A_STVPMV || d.op == V3D_QPU_A_STVPMD ||
      d.op == V3D_QPU_A_STVPMP) &&
    d.opcode_first != 249 &&
    allBelow 64 (fun b =>
      d.raddr_match d.opcode_first ((if nsrc < 2 then rb0 else b) % 64)))

/-- What the proofs use about any row of `mul_ops_v71`: the VFMUL row covers
opcodes 4 to 8, the FMOV rows sit at opcode 14 alone with raddr values below 32
whose low two bits are not both set, and the MOV rows select a 32-bit integer
unpack mode. -/
def mul71_any_check (d : opcode_desc) : Bool :=
  (if d.op = V3D_QPU_M_VFMUL then d.opcode_first == 4 && d.opcode_last == 8 else true) &&
  (if d.op = V3D_QPU_M_FMOV then
    d.opcode_first == 14 && d.opcode_last == 14 &&
    allBelow 64 (fun rd => d.raddr_mask &&& (1 <<< rd) == 0 ||
      (rd &&& 3 != 3 && decide (rd < 32))) else true) &&
  (if d.op = V3D_QPU_M_MOV then
    allBelow 64 (fun rd => d.raddr_mask &&& (1 <<< rd) == 0 ||
      decide ((rd >>> 2) &&& 7 < 5)) else true)

/-- Some row of `mul_ops_v71` for the operation `op` passes opcode `opcode` and
`raddr`. -/
def mul71_some_row (op opcode raddr : Nat) : Bool :=
  mul_ops_v71.any (fun d => d.op == op && d.raddr_match opcode raddr)

/-- What the proofs use about a row of `mul_ops_v71` that is the first row for its
operation: its opcode range, and that the `raddr_d` values `v3d71_qpu_mul_pack`
writes for it pass the mask of a row of the same operation. -/
def mul71_row_check (d : opcode_desc) : Bool :=
  let nsrc := v3d_qpu_mul_op_num_src d.op
  let rd0 := u32_sub (ffsll d.raddr_mask) 1
  decide (1 ≤ d.opcode_first) && decide (d.opcode_first ≤ d.opcode_last) &&
  decide (d.opcode_last ≤ 63) &&
  (if d.op = V3D_QPU_M_FMUL then
    d.opcode_first == 16 && d.opcode_last == 63 && d.raddr_mask == ANYOPMASK
   else if d.op = V3D_QPU_M_FMOV then
    d.opcode_first == 14 &&
    allBelow 3 (fun p => allBelow 4 (fun x =>
      decide (((rd0 ||| p) ||| (x <<< 2)) % 64 < 16) &&
      mul71_some_row d.op d.opcode_first (((rd0 ||| p) ||| (x <<< 2)) % 64)))
   else if d.op = V3D_QPU_M_VFMUL then
    d.opcode_first == 4 && d.opcode_last == 8 && d.raddr_mask == ANYOPMASK
   else if d.op = V3D_QPU_M_MOV then
    d.opcode_first == 14 &&
    allBelow 5 (fun x =>
      ((rd0 ||| (x <<< 2)) % 64) &&& 3 == 3 &&
      mul71_some_row d.op d.opcode_first ((rd0 ||| (x <<< 2)) % 64))
   else
    allBelow 64 (fun b =>
      (d.opcode_first != 14 || decide (32 ≤ (if nsrc < 2 then rd0 else b) % 64)) &&
      d.raddr_match d.opcode_first ((if nsrc < 2 then rd0 else b) % 64)))

/-- The word `v3d_qpu_instr_pack_alu` assembles from V3D 7.1 on, as a function of
the packed signal, the fields of the two halves and the packed condition. -/
def v3d71_alu_word (sig : Nat) (fa : alu_pack_fields) (wa : Nat × Bool) (fm : alu_pack_fields)
    (waddr_m : Nat) (mm : Bool) (cond : Nat) : Nat :=
  let p := QPU_SET_FIELD sig V3D_QPU_SIG_SHIFT V3D_QPU_SIG_MASK
  let p := p ||| QPU_SET_FIELD fa.mux_a V3D_QPU_RADDR_A_SHIFT V3D_QPU_RADDR_A_MASK
  let p := p ||| QPU_SET_FIELD fa.mux_b V3D_QPU_RADDR_B_SHIFT V3D_QPU_RADDR_B_MASK
  let p := p ||| QPU_SET_FIELD fa.opcode V3D_QPU_OP_ADD_SHIFT V3D_QPU_OP_ADD_MASK
  let p := p ||| QPU_SET_FIELD wa.1 V3D_QPU_WADDR_A_SHIFT V3D_QPU_WADDR_A_MASK
  let p := if wa.2 then p ||| V3D_QPU_MA else p
  let p := p ||| QPU_SET_FIELD fm.mux_a V3D_QPU_RADDR_C_SHIFT V3D_QPU_RADDR_C_MASK
  let p := p ||| QPU_SET_FIELD fm.mux_b V3D_QPU_RADDR_D_SHIFT V3D_QPU_RADDR_D_MASK
  let p := p ||| QPU_SET_FIELD fm.opcode V3D_QPU_OP_MUL_SHIFT V3D_QPU_OP_MUL_MASK
  let p := p ||| QPU_SET_FIELD waddr_m V3D_QPU_WADDR_M_SHIFT V3D_QPU_WADDR_M_MASK
  let p := if mm then p ||| V3D_QPU_MM else p
  p ||| QPU_SET_FIELD cond V3D_QPU_COND_SHIFT V3D_QPU_COND_MASK


/-- The local `count` of `qpu_validate_inst`: the magic writes of the two ALU
halves that `predicate` accepts. -/
def qpu_validate_inst_count (inst : v3d_qpu_instr) (predicate : Nat → Bool) : Int :=
  qpu_validate_count_writes (decide (inst.alu.add.op = V3D_QPU_A_NOP)) inst.alu.add predicate +
  qpu_validate_count_writes (decide (inst.alu.mul.op = V3D_QPU_M_NOP)) inst.alu.mul predicate

/-- The state `v3d_qpu_validate` starts its loop from. -/
def v3d_qpu_validate_init (devinfo : v3d_device_info) (numInstructions : Int) :
    v3d_qpu_validate_state :=
  { devinfo := devinfo,
    last_sfu_write := -10,
    last_thrsw_ip := -10,
    last_branch_ip := -10,
    first_tlb_z_write := numInstructions + 1,
    ip := 0,
    last_thrsw_found := false }

/-! ## Definitions used by the round-trip statements and proofs -/

/-- The part of `v3d33_qpu_add_pack_opcode` after the descriptor lookup. -/
def v3d33_qpu_add_pack_fields (desc : opcode_desc) (add : v3d_qpu_alu_half) :
    Option alu_pack_fields :=
  let mux_a := add.a.mux
  let mux_b := add.b.mux
  let nsrc := v3d_qpu_add_op_num_src add.op
  let opcode := desc.opcode_first
  let mux_b := if nsrc < 2 then u32_sub (ffs desc.b_mask) 1 else mux_b
  let mux_a := if nsrc < 1 then u32_sub (ffs desc.a_mask) 1 else mux_a
  if add.op = V3D_QPU_A_FADD ∨ add.op = V3D_QPU_A_FADDNF ∨ add.op = V3D_QPU_A_FSUB ∨
     add.op = V3D_QPU_A_FMIN ∨ add.op = V3D_QPU_A_FMAX ∨ add.op = V3D_QPU_A_FCMP then
    match v3d_qpu_float32_pack_pack add.output_pack with
    | none => none
    | some output_pack =>
      let opcode := opcode ||| (output_pack <<< 4)
      match v3d_qpu_float32_unpack_pack add.a.unpack with
      | none => none
      | some a_unpack =>
        match v3d_qpu_float32_unpack_pack add.b.unpack with
        | none => none
        | some b_unpack =>
          let ordering := decide (a_unpack * 8 + mux_a > b_unpack * 8 + mux_b)
          if v3d_qpu_add_pack_swaps add.op ordering then
            some ⟨mux_b, mux_a, (opcode ||| (b_unpack <<< 2)) ||| (a_unpack <<< 0)⟩
          else
            some ⟨mux_a, mux_b, (opcode ||| (a_unpack <<< 2)) ||| (b_unpack <<< 0)⟩
  else if add.op = V3D_QPU_A_VFPACK then
    if add.a.unpack = V3D_QPU_UNPACK_ABS ∨ add.b.unpack = V3D_QPU_UNPACK_ABS then none
    else
      match v3d_qpu_float32_unpack_pack add.a.unpack with
      | none => none
      | some a_unpack =>
        match v3d_qpu_float32_unpack_pack add.b.unpack with
        | none => none
        | some b_unpack =>
          let opcode := (opcode &&& u32_not (0x3 <<< 2)) ||| (a_unpack <<< 2)
          let opcode := (opcode &&& u32_not (0x3 <<< 0)) ||| (b_unpack <<< 0)
          some ⟨mux_a, mux_b, opcode⟩
  else if add.op = V3D_QPU_A_FFLOOR ∨ add.op = V3D_QPU_A_FROUND ∨ add.op = V3D_QPU_A_FTRUNC ∨
     add.op = V3D_QPU_A_FCEIL ∨ add.op = V3D_QPU_A_FDX ∨ add.op = V3D_QPU_A_FDY then
    match v3d_qpu_float32_pack_pack add.output_pack with
    | none => none
    | some packed =>
      let mux_b := mux_b ||| packed
      match v3d_qpu_float32_unpack_pack add.a.unpack with
      | none => none
      | some packed =>
        if packed = 0 then none
        else some ⟨mux_a, mux_b, (opcode &&& u32_not (0x3 <<< 2)) ||| (packed <<< 2)⟩
  else if add.op = V3D_QPU_A_FTOIN ∨ add.op = V3D_QPU_A_FTOIZ ∨ add.op = V3D_QPU_A_FTOUZ ∨
     add.op = V3D_QPU_A_FTOC then
    if add.output_pack ≠ V3D_QPU_PACK_NONE then none
    else
      match v3d_qpu_float32_unpack_pack add.a.unpack with
      | none => none
      | some packed =>
        if packed = 0 then none
        else some ⟨mux_a, mux_b, opcode ||| (packed <<< 2)⟩
  else if add.op = V3D_QPU_A_VFMIN ∨ add.op = V3D_QPU_A_VFMAX then
    if add.output_pack ≠ V3D_QPU_PACK_NONE ∨ add.b.unpack ≠ V3D_QPU_UNPACK_NONE then none
    else
      match v3d_qpu_float16_unpack_pack add.a.unpack with
      | none => none
      | some packed => some ⟨mux_a, mux_b, opcode ||| packed⟩
  else
    if add.op ≠ V3D_QPU_A_NOP ∧
       (add.output_pack ≠ V3D_QPU_PACK_NONE ∨ add.a.unpack ≠ V3D_QPU_UNPACK_NONE ∨
        add.b.unpack ≠ V3D_QPU_UNPACK_NONE) then none
    else some ⟨mux_a, mux_b, opcode⟩

/-- The operations the first `switch` of the ADD decoders can turn `op` into. -/
def stvpm_ops (op : Nat) : List Nat :=
  if op = V3D_QPU_A_STVPMV ∨ op = V3D_QPU_A_STVPMD ∨ op = V3D_QPU_A_STVPMP then
    [V3D_QPU_A_STVPMV, V3D_QPU_A_STVPMD, V3D_QPU_A_STVPMP]
  else [op]

/-- The operations the tail of the ADD decoders can turn `op` into. -/
def magic_ops (op : Nat) : List Nat :=
  if op = V3D_QPU_A_LDVPMV_IN then [op, V3D_QPU_A_LDVPMV_OUT]
  else if op = V3D_QPU_A_LDVPMD_IN then [op, V3D_QPU_A_LDVPMD_OUT]
  else if op = V3D_QPU_A_LDVPMG_IN then [op, V3D_QPU_A_LDVPMG_OUT]
  else [op]

/-- The ADD operations whose opcode carries an output pack mode and two float
unpack modes, and whose operands the decoders order. -/
def is_float_add (op : Nat) : Bool :=
  op == V3D_QPU_A_FADD || op == V3D_QPU_A_FADDNF || op == V3D_QPU_A_FSUB ||
  op == V3D_QPU_A_FMIN || op == V3D_QPU_A_FMAX || op == V3D_QPU_A_FCMP

/-- The row is the first row of the table with its opcode range, masks and
version bounds. -/
def opcode_desc.first_twin (d : opcode_desc) (T : List opcode_desc) : Bool :=
  T.find? (fun e => e.opcode_first == d.opcode_first && e.opcode_last == d.opcode_last &&
    e.b_mask == d.b_mask && e.a_mask == d.a_mask && e.raddr_mask == d.raddr_mask &&
    e.first_ver == d.first_ver && e.last_ver == d.last_ver) == some d

/-- The ADD opcode and operand selectors below V3D 7.1 that `v3d33_qpu_add_pack`
writes back as they were read: all but the selectors the decoder ignores
(FXCD, FYCD, ITOF, UTOF) and the `.l` forms of FTOIN, FTOIZ, FTOUZ, FTOC. -/
def add33_canonical (op mux_a mux_b : Nat) : Bool :=
  !((op == 187 && mux_b == 1 && (mux_a == 1 || mux_a == 2 || mux_a == 5 || mux_a == 6)) ||
    ((op == 249 || op == 250) && (mux_b == 3 || mux_b == 7)) ||
    (op == 252 && (mux_b == 1 || mux_b == 2 || mux_b == 5 || mux_b == 6)))

/-- The encoder applied to what the decoder produces for one packed
`(op, mux_a, mux_b)`, given the decoded operation before (`op2`) and after
(`op3`) the `MA` adjustment and the row `d3` the encoder finds for it. -/
def add33_row_rt_at (d3 : opcode_desc) (op2 op3 op a b : Nat) : Bool :=
  match v3d33_qpu_add_unpack_modifiers op2 op b with
  | none => true
  | some (outp, au, bu) =>
    v3d33_qpu_add_pack_fields d3
      { op := op3, a := ⟨a, au⟩, b := ⟨b, bu.getD 0⟩, output_pack := outp } == some ⟨a, b, op⟩

/-- Round trip check of a row of `add_ops_v33` outside the float add class: for
every operation the decoder can produce from the row, the encoder finds a row
with the same version bounds, and writes back every canonical
`(op, mux_a, mux_b)` the row accepts. -/
def add33_row_rt (T : List opcode_desc) (d : opcode_desc) : Bool :=
  (stvpm_ops d.op).all fun op2 => (magic_ops op2).all fun op3 =>
    match T.find? (fun x => x.op == op3) with
    | none => false
    | some d3 =>
      d3.first_ver == d.first_ver && d3.last_ver == d.last_ver &&
      allBelow 256 fun op =>
        !(Nat.ble d.opcode_first (v3d33_qpu_add_unpack_map_op op) &&
          Nat.ble (v3d33_qpu_add_unpack_map_op op) d.opcode_last) ||
        allBelow 8 fun b => d.b_mask &&& (1 <<< b) == 0 ||
        allBelow 8 fun a => d.a_mask &&& (1 <<< a) == 0 ||
          !add33_canonical op a b || add33_row_rt_at d3 op2 op3 op a b

/-- What the round trip uses about a row of the float add class that is the
first of its twins: its operation is not an ordered variant, its opcode range is
48 wide and starts at a multiple of 64 below 249, its masks accept every mux,
and the encoder finds rows with the same first opcode and version bounds for
the operation and its ordered variant. -/
def add33_float_check (T : List opcode_desc) (d : opcode_desc) : Bool :=
  d.op != V3D_QPU_A_FADDNF && d.op != V3D_QPU_A_FMAX &&
  (d.opcode_first == 0 || d.opcode_first == 64 || d.opcode_first == 128 ||
    d.opcode_first == 192) &&
  d.opcode_last == d.opcode_first + 47 && d.b_mask == ANYMUX && d.a_mask == ANYMUX &&
  [d.op, v3d_qpu_add_unpack_order true d.op].all fun op3 =>
    match T.find? (fun x => x.op == op3) with
    | none => false
    | some d3 => d3.opcode_first == d.opcode_first &&
        d3.first_ver == d.first_ver && d3.last_ver == d.last_ver

/-- What the round trip uses about any row of `add_ops_v33` that is the first of
its twins: it is not an LDVPM `_OUT` row, the VPM stores sit at opcode 248, and
the check of its class holds. -/
def add33_rt_check (T : List opcode_desc) (d : opcode_desc) : Bool :=
  d.op != V3D_QPU_A_LDVPMV_OUT && d.op != V3D_QPU_A_LDVPMD_OUT &&
  d.op != V3D_QPU_A_LDVPMG_OUT &&
  ((d.op != V3D_QPU_A_STVPMV && d.op != V3D_QPU_A_STVPMD && d.op != V3D_QPU_A_STVPMP) ||
    (d.opcode_first == 248 && d.opcode_last == 248)) &&
  (if is_float_add d.op then add33_float_check T d else add33_row_rt T d)

/-- The part of `v3d33_qpu_mul_pack_opcode` after the descriptor lookup. -/
def v3d33_qpu_mul_pack_fields (desc : opcode_desc) (mul : v3d_qpu_alu_half) :
    Option alu_pack_fields :=
  let mux_a := mul.a.mux
  let mux_b := mul.b.mux
  let nsrc := v3d_qpu_mul_op_num_src mul.op
  let opcode := desc.opcode_first
  let mux_b := if nsrc < 2 then u32_sub (ffs desc.b_mask) 1 else mux_b
  let mux_a := if nsrc < 1 then u32_sub (ffs desc.a_mask) 1 else mux_a
  if mul.op = V3D_QPU_M_FMUL then
    match v3d_qpu_float32_pack_pack mul.output_pack with
    | none => none
    | some packed =>
      let opcode := opcode + (packed <<< 4)
      match v3d_qpu_float32_unpack_pack mul.a.unpack with
      | none => none
      | some packed =>
        let opcode := opcode ||| (packed <<< 2)
        match v3d_qpu_float32_unpack_pack mul.b.unpack with
        | none => none
        | some packed => some ⟨mux_a, mux_b, opcode ||| (packed <<< 0)⟩
  else if mul.op = V3D_QPU_M_FMOV then
    match v3d_qpu_float32_pack_pack mul.output_pack with
    | none => none
    | some packed =>
      let opcode := opcode ||| ((packed >>> 1) &&& 1)
      let mux_b := (packed &&& 1) <<< 2
      match v3d_qpu_float32_unpack_pack mul.a.unpack with
      | none => none
      | some packed => some ⟨mux_a, mux_b ||| packed, opcode⟩
  else if mul.op = V3D_QPU_M_VFMUL then
    if mul.output_pack ≠ V3D_QPU_PACK_NONE then none
    else
      match v3d_qpu_float16_unpack_pack mul.a.unpack with
      | none => none
      | some packed =>
        let opcode :=
          if mul.a.unpack = V3D_QPU_UNPACK_SWAP_16 then 8 else opcode ||| ((packed + 4) &&& 7)
        if mul.b.unpack ≠ V3D_QPU_UNPACK_NONE then none
        else some ⟨mux_a, mux_b, opcode⟩
  else
    if mul.op ≠ V3D_QPU_M_NOP ∧
       (mul.output_pack ≠ V3D_QPU_PACK_NONE ∨ mul.a.unpack ≠ V3D_QPU_UNPACK_NONE ∨
        mul.b.unpack ≠ V3D_QPU_UNPACK_NONE) then none
    else some ⟨mux_a, mux_b, opcode⟩

/-- The encoder applied to what the MUL decoder below V3D 7.1 produces for one
packed `(op, mux_a, mux_b)` of a row with operation `mul_op`, given the row `d3`
the encoder finds for the operation. -/
def mul33_row_rt_at (d3 : opcode_desc) (mul_op op a b : Nat) : Bool :=
  match v3d33_qpu_mul_unpack_modifiers mul_op op b with
  | none => true
  | some (outp, au, bu) =>
    v3d33_qpu_mul_pack_fields d3
      { op := mul_op, a := ⟨a, au⟩, b := ⟨b, bu.getD 0⟩, output_pack := outp } == some ⟨a, b, op⟩

/-- Round trip check of a row of `mul_ops_v33`: the encoder finds a row with the
same version bounds for the row's operation, and writes back every
`(op, mux_a, mux_b)` the row accepts. -/
def mul33_row_rt (T : List opcode_desc) (d : opcode_desc) : Bool :=
  match T.find? (fun x => x.op == d.op) with
  | none => false
  | some d3 =>
    d3.first_ver == d.first_ver && d3.last_ver == d.last_ver &&
    allBelow 64 fun op =>
      !(Nat.ble d.opcode_first op && Nat.ble op d.opcode_last) ||
      allBelow 8 fun b => d.b_mask &&& (1 <<< b) == 0 ||
      allBelow 8 fun a => d.a_mask &&& (1 <<< a) == 0 || mul33_row_rt_at d3 d.op op a b

/-- The word `v3d_qpu_instr_pack_alu` builds below V3D 7.1, from the values it
writes into the fields. -/
def alu33_word (sig raddr_a raddr_b add_a add_b op_add waddr_a : Nat) (ma : Bool)
    (mul_a mul_b op_mul waddr_m : Nat) (mm : Bool) (cond : Nat) : Nat :=
  let w := 0 ||| QPU_SET_FIELD sig V3D_QPU_SIG_SHIFT V3D_QPU_SIG_MASK
  let w := (w ||| QPU_SET_FIELD raddr_a V3D_QPU_RADDR_A_SHIFT V3D_QPU_RADDR_A_MASK)
    ||| QPU_SET_FIELD raddr_b V3D_QPU_RADDR_B_SHIFT V3D_QPU_RADDR_B_MASK
  let w := w ||| QPU_SET_FIELD add_a V3D_QPU_ADD_A_SHIFT V3D_QPU_ADD_A_MASK
  let w := w ||| QPU_SET_FIELD add_b V3D_QPU_ADD_B_SHIFT V3D_QPU_ADD_B_MASK
  let w := w ||| QPU_SET_FIELD op_add V3D_QPU_OP_ADD_SHIFT V3D_QPU_OP_ADD_MASK
  let w := w ||| QPU_SET_FIELD waddr_a V3D_QPU_WADDR_A_SHIFT V3D_QPU_WADDR_A_MASK
  let w := if ma then w ||| V3D_QPU_MA else w
  let w := w ||| QPU_SET_FIELD mul_a V3D_QPU_MUL_A_SHIFT V3D_QPU_MUL_A_MASK
  let w := w ||| QPU_SET_FIELD mul_b V3D_QPU_MUL_B_SHIFT V3D_QPU_MUL_B_MASK
  let w := w ||| QPU_SET_FIELD op_mul V3D_QPU_OP_MUL_SHIFT V3D_QPU_OP_MUL_MASK
  let w := w ||| QPU_SET_FIELD waddr_m V3D_QPU_WADDR_M_SHIFT V3D_QPU_WADDR_M_MASK
  let w := if mm then w ||| V3D_QPU_MM else w
  w ||| QPU_SET_FIELD cond V3D_QPU_COND_SHIFT V3D_QPU_COND_MASK

/-- The branch words `v3d_qpu_instr_pack_branch` writes back as they were read:
the condition field is not the unassigned value 1, the bits the encoder never
sets (0 to 5, 14 to 20, 23) are clear, the address fields are clear unless the
destination is absolute or relative, and `raddr_a` is clear unless the
destination is the register file. -/
def branch_canonical (W : Nat) : Bool :=
  QPU_GET_FIELD W V3D_QPU_BRANCH_COND_SHIFT V3D_QPU_BRANCH_COND_MASK != 1 &&
  QPU_GET_FIELD W 23 (QPU_MASK 23 23) == 0 &&
  QPU_GET_FIELD W 14 (QPU_MASK 20 14) == 0 &&
  QPU_GET_FIELD W 0 (QPU_MASK 5 0) == 0 &&
  (QPU_GET_FIELD W V3D_QPU_BRANCH_BDI_SHIFT V3D_QPU_BRANCH_BDI_MASK == V3D_QPU_BRANCH_DEST_ABS ||
   QPU_GET_FIELD W V3D_QPU_BRANCH_BDI_SHIFT V3D_QPU_BRANCH_BDI_MASK == V3D_QPU_BRANCH_DEST_REL ||
   (QPU_GET_FIELD W V3D_QPU_BRANCH_ADDR_LOW_SHIFT V3D_QPU_BRANCH_ADDR_LOW_MASK == 0 &&
    QPU_GET_FIELD W V3D_QPU_BRANCH_ADDR_HIGH_SHIFT V3D_QPU_BRANCH_ADDR_HIGH_MASK == 0)) &&
  (QPU_GET_FIELD W V3D_QPU_BRANCH_BDI_SHIFT V3D_QPU_BRANCH_BDI_MASK ==
     V3D_QPU_BRANCH_DEST_REGFILE ||
   QPU_GET_FIELD W V3D_QPU_RADDR_A_SHIFT V3D_QPU_RADDR_A_MASK == 0)

/-- The part of `v3d71_qpu_add_pack_opcode` after the descriptor lookup. -/
def v3d71_qpu_add_pack_fields (devinfo : v3d_device_info) (desc : opcode_desc)
    (add : v3d_qpu_alu_half) (sig : v3d_qpu_sig) :
    Option add71_pack_fields :=
  let raddr_a := add.a.raddr
  let raddr_b := add.b.raddr
  let nsrc := v3d_qpu_add_op_num_src add.op
  let opcode := desc.opcode_first
  let raddr_b := if nsrc < 2 then u32_sub (ffsll desc.raddr_mask) 1 else raddr_b
  if add.op = V3D_QPU_A_FADD ∨ add.op = V3D_QPU_A_FADDNF ∨ add.op = V3D_QPU_A_FSUB ∨
     add.op = V3D_QPU_A_FMIN ∨ add.op = V3D_QPU_A_FMAX ∨ add.op = V3D_QPU_A_FCMP then
    match (if add.op ≠ V3D_QPU_A_FCMP then
             (v3d_qpu_float32_pack_pack add.output_pack).map (fun output_pack =>
               opcode ||| (output_pack <<< 4))
           else some opcode) with
    | none => none
    | some opcode =>
      match v3d_qpu_float32_unpack_pack add.a.unpack with
      | none => none
      | some a_unpack =>
        match v3d_qpu_float32_unpack_pack add.b.unpack with
        | none => none
        | some b_unpack =>
          let ordering := decide (v3d71_qpu_add_order_key sig.small_imm_a a_unpack raddr_a >
                                  v3d71_qpu_add_order_key sig.small_imm_b b_unpack raddr_b)
          if v3d_qpu_add_pack_swaps add.op ordering then
            let fields : alu_pack_fields :=
              ⟨raddr_b, raddr_a, (opcode ||| (b_unpack <<< 2)) ||| (a_unpack <<< 0)⟩
            if sig.small_imm_a ∨ sig.small_imm_b then
              let new_sig := { sig with small_imm_a := !sig.small_imm_a,
                                        small_imm_b := !sig.small_imm_b }
              match v3d_qpu_sig_pack devinfo new_sig with
              | none => none
              | some packed_sig => some ⟨fields, some packed_sig⟩
            else some ⟨fields, none⟩
          else
            some ⟨⟨raddr_a, raddr_b, (opcode ||| (a_unpack <<< 2)) ||| (b_unpack <<< 0)⟩, none⟩
  else if add.op = V3D_QPU_A_VFPACK then
    if add.a.unpack = V3D_QPU_UNPACK_ABS ∨ add.b.unpack = V3D_QPU_UNPACK_ABS then none
    else
      match v3d_qpu_float32_unpack_pack add.a.unpack with
      | none => none
      | some a_unpack =>
        match v3d_qpu_float32_unpack_pack add.b.unpack with
        | none => none
        | some b_unpack =>
          let opcode := (opcode &&& u32_not (0x3 <<< 2)) ||| (a_unpack <<< 2)
          let opcode := (opcode &&& u32_not (0x3 <<< 0)) ||| (b_unpack <<< 0)
          some ⟨⟨raddr_a, raddr_b, opcode⟩, none⟩
  else if add.op = V3D_QPU_A_FFLOOR ∨ add.op = V3D_QPU_A_FROUND ∨ add.op = V3D_QPU_A_FTRUNC ∨
     add.op = V3D_QPU_A_FCEIL ∨ add.op = V3D_QPU_A_FDX ∨ add.op = V3D_QPU_A_FDY then
    match v3d_qpu_float32_pack_pack add.output_pack with
    | none => none
    | some packed =>
      let raddr_b := raddr_b ||| packed
      match v3d_qpu_float32_unpack_pack add.a.unpack with
      | none => none
      | some packed =>
        if packed = 0 then none
        else some ⟨⟨raddr_a, (raddr_b &&& u32_not (0x3 <<< 2)) ||| (packed <<< 2), opcode⟩, none⟩
  else if add.op = V3D_QPU_A_FTOIN ∨ add.op = V3D_QPU_A_FTOIZ ∨ add.op = V3D_QPU_A_FTOUZ ∨
     add.op = V3D_QPU_A_FTOC then
    if add.output_pack ≠ V3D_QPU_PACK_NONE then none
    else
      match v3d_qpu_float32_unpack_pack add.a.unpack with
      | none => none
      | some packed =>
        if packed = 0 then none
        else
          some ⟨⟨raddr_a,
                 raddr_b ||| ((raddr_b &&& u32_not (0x3 <<< 2)) ||| (packed <<< 2)),
                 opcode⟩, none⟩
  else if add.op = V3D_QPU_A_VFMIN ∨ add.op = V3D_QPU_A_VFMAX then
    if add.output_pack ≠ V3D_QPU_PACK_NONE ∨ add.b.unpack ≠ V3D_QPU_UNPACK_NONE then none
    else
      match v3d_qpu_float16_unpack_pack add.a.unpack with
      | none => none
      | some packed => some ⟨⟨raddr_a, raddr_b, opcode ||| packed⟩, none⟩
  else if add.op = V3D_QPU_A_MOV then
    if add.output_pack ≠ V3D_QPU_PACK_NONE then none
    else
      match v3d_qpu_int32_unpack_pack add.a.unpack with
      | none => none
      | some packed => some ⟨⟨raddr_a, raddr_b ||| (packed <<< 2), opcode⟩, none⟩
  else if add.op = V3D_QPU_A_FMOV then
    match v3d_qpu_float32_pack_pack add.output_pack with
    | none => none
    | some packed =>
      let raddr_b := packed
      match v3d_qpu_float32_unpack_pack add.a.unpack with
      | none => none
      | some packed => some ⟨⟨raddr_a, raddr_b ||| (packed <<< 2), opcode⟩, none⟩
  else
    if add.op ≠ V3D_QPU_A_NOP ∧
       (add.output_pack ≠ V3D_QPU_PACK_NONE ∨ add.a.unpack ≠ V3D_QPU_UNPACK_NONE ∨
        add.b.unpack ≠ V3D_QPU_UNPACK_NONE) then none
    else some ⟨⟨raddr_a, raddr_b, opcode⟩, none⟩

/-- The ADD opcode and `raddr_b` values of V3D 7.1 that `v3d71_qpu_add_pack`
writes back as they were read: all but the `raddr_b` values the decoder ignores
for FXCD and FYCD (opcode 187) and for ITOF and UTOF (opcode 246), and the
`raddr_b` values of the rounding and conversion operations (opcodes 245, 246)
whose unpack bits the decoder does not read. -/
def add71_canonical (op raddr_b : Nat) : Bool :=
  !(op == 187 && (raddr_b == 33 || raddr_b == 34 || raddr_b == 37 || raddr_b == 38)) &&
  (op != 245 ||
    (if raddr_b &&& 3 == 3 then (raddr_b >>> 2) &&& 3 != 0 else (raddr_b >>> 2) &&& 3 == 1)) &&
  (op != 246 || (if raddr_b < 32 then (raddr_b >>> 2) &&& 3 == 1 else raddr_b &&& 3 == 0))

/-- The ADD opcode and `raddr_b` values of V3D 7.1 that the encoder does not
write back when the `MA` bit is set: the VPM loads LDVPMV_IN, LDVPMD_IN and
LDVPMG_IN (whose `_OUT` variants have no row in `add_ops_v71`) and the VPM
stores. -/
def add71_ma_forbidden (op raddr_b : Nat) : Bool :=
  (op == 188 && raddr_b < 2) || op == 189 || op == 190

/-- The encoder applied to what the V3D 7.1 ADD decoder produces for one packed
`(op, raddr_b)` with `raddr_a` zero, given the decoded operation and the row
`d3` the encoder finds for it. -/
def add71_row_rt_at (d3 : opcode_desc) (op2 op rb : Nat) : Bool :=
  match v3d71_qpu_add_unpack_modifiers op2 op rb with
  | none => true
  | some (outp, au, bu) =>
    v3d71_qpu_add_pack_fields { ver := 71 } d3
      { op := op2, a := ⟨0, au⟩, b := ⟨rb, bu.getD 0⟩, output_pack := outp } {} ==
        some ⟨⟨0, rb, op⟩, none⟩

/-- Round trip check of a row of `add_ops_v71` outside the float add class: for
every operation the decoder can produce from the row, the encoder finds a row
with the same version bounds, and writes back every canonical `(op, raddr_b)`
the row accepts. -/
def add71_row_rt (T : List opcode_desc) (d : opcode_desc) : Bool :=
  (stvpm_ops d.op).all fun op2 =>
    match T.find? (fun x => x.op == op2) with
    | none => false
    | some d3 =>
      d3.first_ver == d.first_ver && d3.last_ver == d.last_ver &&
      allBelow 256 fun op =>
        !(Nat.ble d.opcode_first op && Nat.ble op d.opcode_last) ||
        allBelow 64 fun rb => d.raddr_mask &&& (1 <<< rb) == 0 ||
          !add71_canonical op rb || add71_row_rt_at d3 op2 op rb

/-- What the round trip uses about a row of the float add class of
`add_ops_v71` that is the first of its twins: its operation is not an ordered
variant, its opcode range is that of FCMP (192 to 207) or is 48 wide and starts
at 0, 64 or 128, and the encoder finds rows with the same first opcode and
version bounds for the operation and its ordered variant. -/
def add71_float_check (T : List opcode_desc) (d : opcode_desc) : Bool :=
  d.op != V3D_QPU_A_FADDNF && d.op != V3D_QPU_A_FMAX &&
  (if d.op == V3D_QPU_A_FCMP then d.opcode_first == 192 && d.opcode_last == 207
   else (d.opcode_first == 0 || d.opcode_first == 64 || d.opcode_first == 128) &&
      d.opcode_last == d.opcode_first + 47) &&
  [d.op, v3d_qpu_add_unpack_order true d.op].all fun op3 =>
    match T.find? (fun x => x.op == op3) with
    | none => false
    | some d3 => d3.opcode_first == d.opcode_first &&
        d3.first_ver == d.first_ver && d3.last_ver == d.last_ver

/-- What the round trip uses about any row of `add_ops_v71` that is the first of
its twins: it is not an LDVPM `_OUT` row, a VPM load `_IN` row or a VPM store row
accepts only opcodes and `raddr_b` values for which `MA` is excluded, and the
check of its class holds. -/
def add71_rt_check (T : List opcode_desc) (d : opcode_desc) : Bool :=
  d.op != V3D_QPU_A_LDVPMV_OUT && d.op != V3D_QPU_A_LDVPMD_OUT &&
  d.op != V3D_QPU_A_LDVPMG_OUT &&
  ((d.op != V3D_QPU_A_STVPMV && d.op != V3D_QPU_A_STVPMD && d.op != V3D_QPU_A_STVPMP &&
    d.op != V3D_QPU_A_LDVPMV_IN && d.op != V3D_QPU_A_LDVPMD_IN && d.op != V3D_QPU_A_LDVPMG_IN) ||
    (allBelow 256 fun op =>
      !(Nat.ble d.opcode_first op && Nat.ble op d.opcode_last) ||
      allBelow 64 fun rb => d.raddr_mask &&& (1 <<< rb) == 0 || add71_ma_forbidden op rb)) &&
  (if is_float_add d.op then add71_float_check T d else add71_row_rt T d)

/-- The part of `v3d71_qpu_mul_pack_opcode` after the descriptor lookup. -/
def v3d71_qpu_mul_pack_fields (desc : opcode_desc) (mul : v3d_qpu_alu_half) :
    Option alu_pack_fields :=
  let raddr_c := mul.a.raddr
  let raddr_d := mul.b.raddr
  let nsrc := v3d_qpu_mul_op_num_src mul.op
  let opcode := desc.opcode_first
  let raddr_d := if nsrc < 2 then u32_sub (ffsll desc.raddr_mask) 1 else raddr_d
  if mul.op = V3D_QPU_M_FMUL then
    match v3d_qpu_float32_pack_pack mul.output_pack with
    | none => none
    | some packed =>
      let opcode := opcode + (packed <<< 4)
      match v3d_qpu_float32_unpack_pack mul.a.unpack with
      | none => none
      | some packed =>
        let opcode := opcode ||| (packed <<< 2)
        match v3d_qpu_float32_unpack_pack mul.b.unpack with
        | none => none
        | some packed => some ⟨raddr_c, raddr_d, opcode ||| (packed <<< 0)⟩
  else if mul.op = V3D_QPU_M_FMOV then
    match v3d_qpu_float32_pack_pack mul.output_pack with
    | none => none
    | some packed =>
      let raddr_d := raddr_d ||| packed
      match v3d_qpu_float32_unpack_pack mul.a.unpack with
      | none => none
      | some packed => some ⟨raddr_c, raddr_d ||| (packed <<< 2), opcode⟩
  else if mul.op = V3D_QPU_M_VFMUL then
    if mul.output_pack ≠ V3D_QPU_PACK_NONE then none
    else
      match v3d_qpu_float16_unpack_pack mul.a.unpack with
      | none => none
      | some packed =>
        let opcode :=
          if mul.a.unpack = V3D_QPU_UNPACK_SWAP_16 then 8 else opcode ||| ((packed + 4) &&& 7)
        if mul.b.unpack ≠ V3D_QPU_UNPACK_NONE then none
        else some ⟨raddr_c, raddr_d, opcode⟩
  else if mul.op = V3D_QPU_M_MOV then
    if mul.output_pack ≠ V3D_QPU_PACK_NONE then none
    else
      match v3d_qpu_int32_unpack_pack mul.a.unpack with
      | none => none
      | some packed => some ⟨raddr_c, raddr_d ||| (packed <<< 2), opcode⟩
  else
    if mul.op ≠ V3D_QPU_M_NOP ∧
       (mul.output_pack ≠ V3D_QPU_PACK_NONE ∨ mul.a.unpack ≠ V3D_QPU_UNPACK_NONE ∨
        mul.b.unpack ≠ V3D_QPU_UNPACK_NONE) then none
    else some ⟨raddr_c, raddr_d, opcode⟩

/-- The encoder applied to what the V3D 7.1 MUL decoder produces for one packed
`(op, raddr_d)` of a row with operation `mul_op`, with `raddr_c` zero, given the
row `d3` the encoder finds for the operation. -/
def mul71_row_rt_at (d3 : opcode_desc) (mul_op op rd : Nat) : Bool :=
  match v3d71_qpu_mul_unpack_modifiers mul_op op rd with
  | none => true
  | some (outp, au, bu) =>
    v3d71_qpu_mul_pack_fields d3
      { op := mul_op, a := ⟨0, au⟩, b := ⟨rd, bu.getD 0⟩, output_pack := outp } ==
        some ⟨0, rd, op⟩

/-- Round trip check of a row of `mul_ops_v71`: the encoder finds a row with the
same version bounds for the row's operation, and writes back every
`(op, raddr_d)` the row accepts. -/
def mul71_row_rt (T : List opcode_desc) (d : opcode_desc) : Bool :=
  match T.find? (fun x => x.op == d.op) with
  | none => false
  | some d3 =>
    d3.first_ver == d.first_ver && d3.last_ver == d.last_ver &&
    allBelow 64 fun op =>
      !(Nat.ble d.opcode_first op && Nat.ble op d.opcode_last) ||
      allBelow 64 fun rd => d.raddr_mask &&& (1 <<< rd) == 0 || mul71_row_rt_at d3 d.op op rd

/-- The word `v3d_qpu_instr_pack_alu` builds on V3D 7.1 when the ADD encoder
leaves the signals as they are, from the values it writes into the fields. -/
def alu71_word (sig raddr_a raddr_b op_add waddr_a : Nat) (ma : Bool)
    (raddr_c raddr_d op_mul waddr_m : Nat) (mm : Bool) (cond : Nat) : Nat :=
  let w := 0 ||| QPU_SET_FIELD sig V3D_QPU_SIG_SHIFT V3D_QPU_SIG_MASK
  let w := w ||| QPU_SET_FIELD raddr_a V3D_QPU_RADDR_A_SHIFT V3D_QPU_RADDR_A_MASK
  let w := w ||| QPU_SET_FIELD raddr_b V3D_QPU_RADDR_B_SHIFT V3D_QPU_RADDR_B_MASK
  let w := w ||| QPU_SET_FIELD op_add V3D_QPU_OP_ADD_SHIFT V3D_QPU_OP_ADD_MASK
  let w := w ||| QPU_SET_FIELD waddr_a V3D_QPU_WADDR_A_SHIFT V3D_QPU_WADDR_A_MASK
  let w := if ma then w ||| V3D_QPU_MA else w
  let w := w ||| QPU_SET_FIELD raddr_c V3D_QPU_RADDR_C_SHIFT V3D_QPU_RADDR_C_MASK
  let w := w ||| QPU_SET_FIELD raddr_d V3D_QPU_RADDR_D_SHIFT V3D_QPU_RADDR_D_MASK
  let w := w ||| QPU_SET_FIELD op_mul V3D_QPU_OP_MUL_SHIFT V3D_QPU_OP_MUL_MASK
  let w := w ||| QPU_SET_FIELD waddr_m V3D_QPU_WADDR_M_SHIFT V3D_QPU_WADDR_M_MASK
  let w := if mm then w ||| V3D_QPU_MM else w
  w ||| QPU_SET_FIELD cond V3D_QPU_COND_SHIFT V3D_QPU_COND_MASK

/-- The 64-bit words that `v3d_qpu_instr_pack` writes back as they were read.
An ALU word (nonzero `op_mul` field) below V3D 7.1 is canonical when its signal
index is not the duplicate entry 31 of the V3D 3.3 map, its ADD opcode and
selectors are canonical (`add33_canonical`) and it does not set `MA` on a VPM
store (ADD opcode 248); an ALU word of V3D 7.1 is canonical when its ADD opcode
and `raddr_b` are canonical (`add71_canonical`) and it does not set `MA` on a
VPM load or store (`add71_ma_forbidden`); a branch word is canonical under
`branch_canonical`. -/
def v3d_qpu_word_canonical (devinfo : v3d_device_info) (W : Nat) : Bool :=
  if QPU_GET_FIELD W V3D_QPU_OP_MUL_SHIFT V3D_QPU_OP_MUL_MASK ≠ 0 then
    if devinfo.ver < 71 then
      !(devinfo.ver == 33 && QPU_GET_FIELD W V3D_QPU_SIG_SHIFT V3D_QPU_SIG_MASK == 31) &&
      add33_canonical (QPU_GET_FIELD W V3D_QPU_OP_ADD_SHIFT V3D_QPU_OP_ADD_MASK)
        (QPU_GET_FIELD W V3D_QPU_ADD_A_SHIFT V3D_QPU_ADD_A_MASK)
        (QPU_GET_FIELD W V3D_QPU_ADD_B_SHIFT V3D_QPU_ADD_B_MASK) &&
      !(QPU_GET_FIELD W V3D_QPU_OP_ADD_SHIFT V3D_QPU_OP_ADD_MASK == 248 &&
        (W &&& V3D_QPU_MA != 0))
    else
      add71_canonical (QPU_GET_FIELD W V3D_QPU_OP_ADD_SHIFT V3D_QPU_OP_ADD_MASK)
        (QPU_GET_FIELD W V3D_QPU_RADDR_B_SHIFT V3D_QPU_RADDR_B_MASK) &&
      !((W &&& V3D_QPU_MA != 0) &&
        add71_ma_forbidden (QPU_GET_FIELD W V3D_QPU_OP_ADD_SHIFT V3D_QPU_OP_ADD_MASK)
          (QPU_GET_FIELD W V3D_QPU_RADDR_B_SHIFT V3D_QPU_RADDR_B_MASK))
  else branch_canonical W

/-- The 64-bit words whose decoded record survives `v3d_qpu_instr_pack` followed
by `v3d_qpu_instr_unpack`.  An ALU word (nonzero `op_mul` field) below V3D 7.1
qualifies when its ADD opcode and selectors are canonical (`add33_canonical`) and
it does not set `MA` on a VPM store (ADD opcode 248); an ALU word of V3D 7.1
qualifies when its ADD opcode and `raddr_b` are canonical (`add71_canonical`) and
it does not set `MA` on a VPM load or store (`add71_ma_forbidden`); a branch
word qualifies when its address fields are clear unless the destination is
absolute or relative, and its `raddr_a` is clear unless the destination is the
register file. -/
def v3d_qpu_word_record_canonical (devinfo : v3d_device_info) (W : Nat) : Bool :=
  if QPU_GET_FIELD W V3D_QPU_OP_MUL_SHIFT V3D_QPU_OP_MUL_MASK ≠ 0 then
    if devinfo.ver < 71 then
      add33_canonical (QPU_GET_FIELD W V3D_QPU_OP_ADD_SHIFT V3D_QPU_OP_ADD_MASK)
        (QPU_GET_FIELD W V3D_QPU_ADD_A_SHIFT V3D_QPU_ADD_A_MASK)
        (QPU_GET_FIELD W V3D_QPU_ADD_B_SHIFT V3D_QPU_ADD_B_MASK) &&
      !(QPU_GET_FIELD W V3D_QPU_OP_ADD_SHIFT V3D_QPU_OP_ADD_MASK == 248 &&
        (W &&& V3D_QPU_MA != 0))
    else
      add71_canonical (QPU_GET_FIELD W V3D_QPU_OP_ADD_SHIFT V3D_QPU_OP_ADD_MASK)
        (QPU_GET_FIELD W V3D_QPU_RADDR_B_SHIFT V3D_QPU_RADDR_B_MASK) &&
      !((W &&& V3D_QPU_MA != 0) &&
        add71_ma_forbidden (QPU_GET_FIELD W V3D_QPU_OP_ADD_SHIFT V3D_QPU_OP_ADD_MASK)
          (QPU_GET_FIELD W V3D_QPU_RADDR_B_SHIFT V3D_QPU_RADDR_B_MASK))
  else
    (QPU_GET_FIELD W V3D_QPU_BRANCH_BDI_SHIFT V3D_QPU_BRANCH_BDI_MASK == V3D_QPU_BRANCH_DEST_ABS ||
     QPU_GET_FIELD W V3D_QPU_BRANCH_BDI_SHIFT V3D_QPU_BRANCH_BDI_MASK == V3D_QPU_BRANCH_DEST_REL ||
     (QPU_GET_FIELD W V3D_QPU_BRANCH_ADDR_LOW_SHIFT V3D_QPU_BRANCH_ADDR_LOW_MASK == 0 &&
      QPU_GET_FIELD W V3D_QPU_BRANCH_ADDR_HIGH_SHIFT V3D_QPU_BRANCH_ADDR_HIGH_MASK == 0)) &&
    (QPU_GET_FIELD W V3D_QPU_BRANCH_BDI_SHIFT V3D_QPU_BRANCH_BDI_MASK ==
       V3D_QPU_BRANCH_DEST_REGFILE ||
     QPU_GET_FIELD W V3D_QPU_RADDR_A_SHIFT V3D_QPU_RADDR_A_MASK == 0)

/-! ## The disassembler (`qpu_disasm.c` part of the source)

The output buffer is the record `disasm_state`: `string` is the text the buffer
holds before its terminating NUL, `size` and `offset` are the members of the
source.  A function of the disassembler returns `none` where the source passes
a null pointer to a `%s` conversion, uses one as a format, or reads a table
past its end. -/

/-- Table `waddr_magic` of `v3d_qpu_magic_waddr_name`: 56 entries (the largest
designated index is `V3D_QPU_WADDR_R5REP` = 55), `none` for an entry without
initialiser (a null pointer). -/
def waddr_magic : List (Option String) := [
  /- 0 V3D_QPU_WADDR_R0 -/ some "r0",
  /- 1 V3D_QPU_WADDR_R1 -/ some "r1",
  /- 2 V3D_QPU_WADDR_R2 -/ some "r2",
  /- 3 V3D_QPU_WADDR_R3 -/ some "r3",
  /- 4 V3D_QPU_WADDR_R4 -/ some "r4",
  /- 5 V3D_QPU_WADDR_R5 -/ some "r5",
  /- 6 V3D_QPU_WADDR_NOP -/ some "-",
  /- 7 V3D_QPU_WADDR_TLB -/ some "tlb",
  /- 8 V3D_QPU_WADDR_TLBU -/ some "tlbu",
  /- 9 V3D_QPU_WADDR_UNIFA -/ some "unifa",
  /- 10 V3D_QPU_WADDR_TMUL -/ some "tmul",
  /- 11 V3D_QPU_WADDR_TMUD -/ some "tmud",
  /- 12 V3D_QPU_WADDR_TMUA -/ some "tmua",
  /- 13 V3D_QPU_WADDR_TMUAU -/ some "tmuau",
  /- 14 V3D_QPU_WADDR_VPM -/ some "vpm",
  /- 15 V3D_QPU_WADDR_VPMU -/ some "vpmu",
  /- 16 V3D_QPU_WADDR_SYNC -/ some "sync",
  /- 17 V3D_QPU_WADDR_SYNCU -/ some "syncu",
  /- 18 V3D_QPU_WADDR_SYNCB -/ some "syncb",
  /- 19 V3D_QPU_WADDR_RECIP -/ some "recip",
  /- 20 V3D_QPU_WADDR_RSQRT -/ some "rsqrt",
  /- 21 V3D_QPU_WADDR_EXP -/ some "exp",
  /- 22 V3D_QPU_WADDR_LOG -/ some "log",
  /- 23 V3D_QPU_WADDR_SIN -/ some "sin",
  /- 24 V3D_QPU_WADDR_RSQRT2 -/ some "rsqrt2",
  /- 25 -/ none, /- 26 -/ none, /- 27 -/ none, /- 28 -/ none,
  /- 29 -/ none, /- 30 -/ none, /- 31 -/ none,
  /- 32 V3D_QPU_WADDR_TMUC -/ some "tmuc",
  /- 33 V3D_QPU_WADDR_TMUS -/ some "tmus",
  /- 34 V3D_QPU_WADDR_TMUT -/ some "tmut",
  /- 35 V3D_QPU_WADDR_TMUR -/ some "tmur",
  /- 36 V3D_QPU_WADDR_TMUI -/ some "tmui",
  /- 37 V3D_QPU_WADDR_TMUB -/ some "tmub",
  /- 38 V3D_QPU_WADDR_TMUDREF -/ some "tmudref",
  /- 39 V3D_QPU_WADDR_TMUOFF -/ some "tmuoff",
  /- 40 V3D_QPU_WADDR_TMUSCM -/ some "tmuscm",
  /- 41 V3D_QPU_WADDR_TMUSF -/ some "tmusf",
  /- 42 V3D_QPU_WADDR_TMUSLOD -/ some "tmuslod",
  /- 43 V3D_QPU_WADDR_TMUHS -/ some "tmuhs",
  /- 44 V3D_QPU_WADDR_TMUHSCM -/ some "tmuscm",
  /- 45 V3D_QPU_WADDR_TMUHSF -/ some "tmuhsf",
  /- 46 V3D_QPU_WADDR_TMUHSLOD -/ some "tmuhslod",
  /- 47 -/ none, /- 48 -/ none, /- 49 -/ none, /- 50 -/ none,
  /- 51 -/ none, /- 52 -/ none, /- 53 -/ none, /- 54 -/ none,
  /- 55 V3D_QPU_WADDR_R5REP -/ some "r5rep"
]

/-- `v3d_qpu_magic_waddr_name`: `none` when `waddr_magic[waddr]` lies past the
end of the table, `some none` when the entry read is a null pointer. -/
def v3d_qpu_magic_waddr_name (devinfo : v3d_device_info) (waddr : Nat) :
    Option (Option String) :=
  if devinfo.ver < 40 ∧ waddr = V3D_QPU_WADDR_TMU then some (some "tmu")
  else if devinfo.ver ≥ 71 ∧ waddr = V3D_QPU_WADDR_QUAD then some (some "quad")
  else if devinfo.ver ≥ 71 ∧ waddr = V3D_QPU_WADDR_REP then some (some "rep")
  else waddr_magic.get? waddr

/-- `v3d_qpu_add_op_name` (`none` is the null pointer). -/
def v3d_qpu_add_op_name (op : Nat) : Option String :=
  if op ≥ add_op_names.length then none else add_op_names.get? op

/-- `v3d_qpu_mul_op_name` (`none` is the null pointer). -/
def v3d_qpu_mul_op_name (op : Nat) : Option String :=
  if op ≥ mul_op_names.length then none else mul_op_names.get? op

/-- `v3d_qpu_cond_name` (`none` is the null pointer). -/
def v3d_qpu_cond_name (cond : Nat) : Option String :=
  if cond ≥ cond_names.length then none else cond_names.get? cond

/-- `v3d_qpu_pf_name` (`none` is the null pointer). -/
def v3d_qpu_pf_name (pf : Nat) : Option String :=
  if pf ≥ pf_names.length then none else pf_names.get? pf

/-- `v3d_qpu_uf_name` (`none` is the null pointer). -/
def v3d_qpu_uf_name (uf : Nat) : Option String :=
  if uf ≥ uf_names.length then none else uf_names.get? uf

/-- `v3d_qpu_pack_name` (`none` is the null pointer). -/
def v3d_qpu_pack_name (pack : Nat) : Option String :=
  if pack ≥ pack_names.length then none else pack_names.get? pack

/-- `v3d_qpu_unpack_name` (`none` is the null pointer). -/
def v3d_qpu_unpack_name (unpack : Nat) : Option String :=
  if unpack ≥ unpack_names.length then none else unpack_names.get? unpack

/-- `v3d_qpu_branch_cond_name`; the `default` case falls through the disabled
`v3d_unreachable` to the final `return ""`. -/
def v3d_qpu_branch_cond_name (cond : Nat) : String :=
  if cond = V3D_QPU_BRANCH_COND_ALWAYS then ""
  else if cond = V3D_QPU_BRANCH_COND_A0 then ".a0"
  else if cond = V3D_QPU_BRANCH_COND_NA0 then ".na0"
  else if cond = V3D_QPU_BRANCH_COND_ALLA then ".alla"
  else if cond = V3D_QPU_BRANCH_COND_ANYNA then ".anyna"
  else if cond = V3D_QPU_BRANCH_COND_ANYA then ".anya"
  else if cond = V3D_QPU_BRANCH_COND_ALLNA then ".allna"
  else ""

/-- `v3d_qpu_msfign_name`; the `default` case falls through to `return ""`. -/
def v3d_qpu_msfign_name (msfign : Nat) : String :=
  if msfign = V3D_QPU_MSFIGN_NONE then ""
  else if msfign = V3D_QPU_MSFIGN_P then "p"
  else if msfign = V3D_QPU_MSFIGN_Q then "q"
  else ""

/-- The record `struct disasm_state`. -/
structure disasm_state where
  devinfo : v3d_device_info
  string : List Char := []
  size : Nat
  offset : Nat := 0
deriving DecidableEq, Repr

/-- The value of a `v3d_uint32` read as `int` (what `%d` prints for it). -/
def int_of_uint32 (v : Nat) : Int :=
  if v % 4294967296 < 2147483648 then (v % 4294967296 : Nat)
  else ((v % 4294967296 : Nat) : Int) - 4294967296

/-- The text of the conversion `%d`. -/
def format_d (x : Int) : List Char :=
  if x < 0 then '-' :: (Nat.repr x.natAbs).toList else (Nat.repr x.toNat).toList

/-- The text of the conversion `%08x` of a `v3d_uint32`. -/
def format_08x (v : Nat) : List Char :=
  let digits := Nat.toDigits 16 (v % 4294967296)
  List.replicate (8 - digits.length) '0' ++ digits

/-- `append` with the formatted text `text` (the expansion of the format): as
`vsnprintf` does, at most `size - offset - 1` characters are stored at `offset`,
and the offset moves by the length of the whole text or to `size`. -/
def append (disasm : disasm_state) (text : List Char) : disasm_state :=
  let room := disasm.size - disasm.offset
  { disasm with
    string := if room = 0 then disasm.string
              else disasm.string.take disasm.offset ++ text.take (room - 1),
    offset := if text.length ≥ room then disasm.size else disasm.offset + text.length }

/-- `append(disasm, "%s", name)` and `append(disasm, name)` for a name that may be
the null pointer. -/
def append_name (disasm : disasm_state) (name : Option String) : Option disasm_state :=
  match name with
  | none => none
  | some s => some (append disasm s.toList)

/-- The loop of `pad_to`; `todo` bounds the iterations (each one moves `offset`). -/
def pad_to_loop : Nat → disasm_state → Nat → disasm_state
  | 0, disasm, _ => disasm
  | todo + 1, disasm, n =>
    if disasm.offset < n ∧ disasm.offset < disasm.size then
      pad_to_loop todo (append disasm [' ']) n
    else disasm

/-- `pad_to`. -/
def pad_to (disasm : disasm_state) (n : Nat) : disasm_state :=
  pad_to_loop n disasm n

/-- `v3d33_qpu_disasm_raddr`.  `val` keeps its initial 0 when
`v3d_qpu_small_imm_unpack` fails (the `v3d_assert(ok)` is disabled). -/
def v3d33_qpu_disasm_raddr (disasm : disasm_state) (instr : v3d_qpu_instr) (mux : Nat) :
    disasm_state :=
  if mux = V3D_QPU_MUX_A then append disasm ("rf".toList ++ format_d instr.raddr_a)
  else if mux = V3D_QPU_MUX_B then
    if instr.sig.small_imm_b then
      let val := (v3d_qpu_small_imm_unpack instr.raddr_b).getD 0
      if int_of_uint32 val ≥ -16 ∧ int_of_uint32 val ≤ 15 then
        append disasm (format_d (int_of_uint32 val))
      else append disasm ("0x".toList ++ format_08x val)
    else append disasm ("rf".toList ++ format_d instr.raddr_b)
  else append disasm ("r".toList ++ format_d mux)

/-- The values of `enum v3d_qpu_input_class`. -/
abbrev V3D_QPU_ADD_A : Nat := 0
/-- The second input of the ADD half. -/
abbrev V3D_QPU_ADD_B : Nat := 1
/-- The first input of the MUL half. -/
abbrev V3D_QPU_MUL_A : Nat := 2
/-- The second input of the MUL half. -/
abbrev V3D_QPU_MUL_B : Nat := 3

/-- `v3d71_qpu_disasm_raddr`. -/
def v3d71_qpu_disasm_raddr (disasm : disasm_state) (instr : v3d_qpu_instr) (raddr : Nat)
    (input_class : Nat) : disasm_state :=
  let is_small_imm : Bool :=
    if input_class = V3D_QPU_ADD_A then instr.sig.small_imm_a
    else if input_class = V3D_QPU_ADD_B then instr.sig.small_imm_b
    else if input_class = V3D_QPU_MUL_A then instr.sig.small_imm_c
    else if input_class = V3D_QPU_MUL_B then instr.sig.small_imm_d
    else false
  if is_small_imm then
    let val := (v3d_qpu_small_imm_unpack raddr).getD 0
    if int_of_uint32 val ≥ -16 ∧ int_of_uint32 val ≤ 15 then
      append disasm (format_d (int_of_uint32 val))
    else append disasm ("0x".toList ++ format_08x val)
  else append disasm ("rf".toList ++ format_d raddr)

/-- `v3d_qpu_disasm_raddr`. -/
def v3d_qpu_disasm_raddr (disasm : disasm_state) (instr : v3d_qpu_instr)
    (input : v3d_qpu_input) (input_class : Nat) : disasm_state :=
  if disasm.devinfo.ver < 71 then v3d33_qpu_disasm_raddr disasm instr input.mux
  else v3d71_qpu_disasm_raddr disasm instr input.raddr input_class

/-- `v3d_qpu_disasm_waddr`. -/
def v3d_qpu_disasm_waddr (disasm : disasm_state) (waddr : Nat) (magic : Bool) :
    Option disasm_state :=
  if magic = false then some (append disasm ("rf".toList ++ format_d (int_of_uint32 waddr)))
  else
    match v3d_qpu_magic_waddr_name disasm.devinfo waddr with
    | none => none
    | some (some name) => some (append disasm name.toList)
    | some none =>
      some (append disasm ("waddr UNKNOWN ".toList ++ format_d (int_of_uint32 waddr)))

/-- The part of `v3d_qpu_disasm_add` and `v3d_qpu_disasm_mul` after the flags:
destination and sources of one half. -/
def v3d_qpu_disasm_operands (disasm : disasm_state) (instr : v3d_qpu_instr)
    (half : v3d_qpu_alu_half) (has_dst : Bool) (num_src : Nat) (class_a class_b : Nat) :
    Option disasm_state :=
  let dst : Option disasm_state :=
    if has_dst then
      match v3d_qpu_disasm_waddr disasm half.waddr half.magic_write with
      | none => none
      | some disasm => append_name disasm (v3d_qpu_pack_name half.output_pack)
    else some disasm
  match dst with
  | none => none
  | some disasm =>
    let src1 : Option disasm_state :=
      if num_src ≥ 1 then
        let disasm := if has_dst then append disasm ", ".toList else disasm
        let disasm := v3d_qpu_disasm_raddr disasm instr half.a class_a
        append_name disasm (v3d_qpu_unpack_name half.a.unpack)
      else some disasm
    match src1 with
    | none => none
    | some disasm =>
      if num_src ≥ 2 then
        let disasm := append disasm ", ".toList
        let disasm := v3d_qpu_disasm_raddr disasm instr half.b class_b
        append_name disasm (v3d_qpu_unpack_name half.b.unpack)
      else some disasm

/-- The head of `v3d_qpu_disasm_add` and `v3d_qpu_disasm_mul`: the op name and the
three flag names of the half. -/
def v3d_qpu_disasm_flags (disasm : disasm_state) (instr : v3d_qpu_instr)
    (op_name : Option String) (cond pf uf : Nat) : Option disasm_state :=
  match append_name disasm op_name with
  | none => none
  | some disasm =>
    let conded : Option disasm_state :=
      if v3d_qpu_sig_writes_address disasm.devinfo instr.sig = false then
        append_name disasm (v3d_qpu_cond_name cond)
      else some disasm
    match conded with
    | none => none
    | some disasm =>
      match append_name disasm (v3d_qpu_pf_name pf) with
      | none => none
      | some disasm => append_name disasm (v3d_qpu_uf_name uf)

/-- `v3d_qpu_disasm_add`. -/
def v3d_qpu_disasm_add (disasm : disasm_state) (instr : v3d_qpu_instr) : Option disasm_state :=
  let has_dst := v3d_qpu_add_op_has_dst instr.alu.add.op
  let num_src := v3d_qpu_add_op_num_src instr.alu.add.op
  match v3d_qpu_disasm_flags disasm instr (v3d_qpu_add_op_name instr.alu.add.op)
      instr.flags.ac instr.flags.apf instr.flags.auf with
  | none => none
  | some disasm =>
    let disasm := append disasm " ".toList
    v3d_qpu_disasm_operands disasm instr instr.alu.add has_dst num_src
      V3D_QPU_ADD_A V3D_QPU_ADD_B

/-- `v3d_qpu_disasm_mul`. -/
def v3d_qpu_disasm_mul (disasm : disasm_state) (instr : v3d_qpu_instr) : Option disasm_state :=
  let has_dst := v3d_qpu_mul_op_has_dst instr.alu.mul.op
  let num_src := v3d_qpu_mul_op_num_src instr.alu.mul.op
  let disasm := pad_to disasm 30
  let disasm := append disasm "; ".toList
  match v3d_qpu_disasm_flags disasm instr (v3d_qpu_mul_op_name instr.alu.mul.op)
      instr.flags.mc instr.flags.mpf instr.flags.muf with
  | none => none
  | some disasm =>
    if instr.alu.mul.op = V3D_QPU_M_NOP then some disasm
    else
      let disasm := append disasm " ".toList
      v3d_qpu_disasm_operands disasm instr instr.alu.mul has_dst num_src
        V3D_QPU_MUL_A V3D_QPU_MUL_B

/-- `v3d_qpu_disasm_sig_addr`. -/
def v3d_qpu_disasm_sig_addr (disasm : disasm_state) (instr : v3d_qpu_instr) :
    Option disasm_state :=
  if disasm.devinfo.ver < 41 then some disasm
  else if instr.sig_magic = false then
    some (append disasm (".rf".toList ++ format_d instr.sig_addr))
  else
    match v3d_qpu_magic_waddr_name disasm.devinfo instr.sig_addr with
    | none => none
    | some (some name) => some (append disasm (".".toList ++ name.toList))
    | some none => some (append disasm (".UNKNOWN".toList ++ format_d instr.sig_addr))

/-- One `if (sig->x) { append(...); [v3d_qpu_disasm_sig_addr(...);] }` step of
`v3d_qpu_disasm_sig`. -/
def v3d_qpu_disasm_sig_step (instr : v3d_qpu_instr) (set : Bool) (text : String)
    (with_addr : Bool) (disasm : Option disasm_state) : Option disasm_state :=
  match disasm with
  | none => none
  | some disasm =>
    if set then
      let disasm := append disasm text.toList
      if with_addr then v3d_qpu_disasm_sig_addr disasm instr else some disasm
    else some disasm

/-- `v3d_qpu_disasm_sig`. -/
def v3d_qpu_disasm_sig (disasm : disasm_state) (instr : v3d_qpu_instr) : Option disasm_state :=
  let sig := instr.sig
  if !sig.thrsw && !sig.ldvary && !sig.ldvpm && !sig.ldtmu && !sig.ldtlb && !sig.ldtlbu &&
     !sig.ldunif && !sig.ldunifrf && !sig.ldunifa && !sig.ldunifarf && !sig.wrtmuc then
    some disasm
  else
    let disasm := pad_to disasm 60
    let d := v3d_qpu_disasm_sig_step instr sig.thrsw "; thrsw" false (some disasm)
    let d := v3d_qpu_disasm_sig_step instr sig.ldvary "; ldvary" true d
    let d := v3d_qpu_disasm_sig_step instr sig.ldvpm "; ldvpm" false d
    let d := v3d_qpu_disasm_sig_step instr sig.ldtmu "; ldtmu" true d
    let d := v3d_qpu_disasm_sig_step instr sig.ldtlb "; ldtlb" true d
    let d := v3d_qpu_disasm_sig_step instr sig.ldtlbu "; ldtlbu" true d
    let d := v3d_qpu_disasm_sig_step instr sig.ldunif "; ldunif" false d
    let d := v3d_qpu_disasm_sig_step instr sig.ldunifrf "; ldunifrf" true d
    let d := v3d_qpu_disasm_sig_step instr sig.ldunifa "; ldunifa" false d
    let d := v3d_qpu_disasm_sig_step instr sig.ldunifarf "; ldunifarf" true d
    v3d_qpu_disasm_sig_step instr sig.wrtmuc "; wrtmuc" false d

/-- `v3d_qpu_disasm_alu`. -/
def v3d_qpu_disasm_alu (disasm : disasm_state) (instr : v3d_qpu_instr) : Option disasm_state :=
  match v3d_qpu_disasm_add disasm instr with
  | none => none
  | some disasm =>
    match v3d_qpu_disasm_mul disasm instr with
    | none => none
    | some disasm => v3d_qpu_disasm_sig disasm instr

/-- `v3d_qpu_disasm_branch`. -/
def v3d_qpu_disasm_branch (disasm : disasm_state) (instr : v3d_qpu_instr) : disasm_state :=
  let disasm := append disasm "b".toList
  let disasm := if instr.branch.ub then append disasm "u".toList else disasm
  let disasm := append disasm (v3d_qpu_branch_cond_name instr.branch.cond).toList
  let disasm := append disasm (v3d_qpu_msfign_name instr.branch.msfign).toList
  let disasm :=
    if instr.branch.bdi = V3D_QPU_BRANCH_DEST_ABS then
      append disasm ("  zero_addr+0x".toList ++ format_08x instr.branch.offset)
    else if instr.branch.bdi = V3D_QPU_BRANCH_DEST_REL then
      append disasm ("  ".toList ++ format_d (int_of_uint32 instr.branch.offset))
    else if instr.branch.bdi = V3D_QPU_BRANCH_DEST_LINK_REG then append disasm "  lri".toList
    else if instr.branch.bdi = V3D_QPU_BRANCH_DEST_REGFILE then
      append disasm ("  rf".toList ++ format_d instr.branch.raddr_a)
    else disasm
  if instr.branch.ub then
    if instr.branch.bdu = V3D_QPU_BRANCH_DEST_ABS then append disasm ", a:unif".toList
    else if instr.branch.bdu = V3D_QPU_BRANCH_DEST_REL then append disasm ", r:unif".toList
    else if instr.branch.bdu = V3D_QPU_BRANCH_DEST_LINK_REG then append disasm ", lri".toList
    else if instr.branch.bdu = V3D_QPU_BRANCH_DEST_REGFILE then
      append disasm (", rf".toList ++ format_d instr.branch.raddr_a)
    else disasm
  else disasm

/-- `v3d_qpu_decode` with a buffer of `outBufferSize` bytes: the return value
(`disasm.offset`) and the text left in the buffer. -/
def v3d_qpu_decode (devinfo : v3d_device_info) (instr : v3d_qpu_instr) (outBufferSize : Nat) :
    Option (Nat × List Char) :=
  let disasm : disasm_state := { devinfo := devinfo, size := outBufferSize, offset := 0 }
  if instr.type = V3D_QPU_INSTR_TYPE_ALU then
    (v3d_qpu_disasm_alu disasm instr).map (fun d => (d.offset, d.string))
  else if instr.type = V3D_QPU_INSTR_TYPE_BRANCH then
    some ((v3d_qpu_disasm_branch disasm instr).offset,
      (v3d_qpu_disasm_branch disasm instr).string)
  else some (disasm.offset, disasm.string)

/-! ## Name lookup -/

/-- The name `x` followed by a delimiter is a proper initial part of `s`. -/
def name_ends_inside (x s : List Char) : Bool :=
  x.isPrefixOf s && decide (x.length < s.length) && v3d_symbol_delimiter (cstr_at s x.length)

/-- No name of the list holds a NUL, and no non-empty name followed by a
delimiter is an initial part of another name: a text that starts with a name of
the list and a delimiter matches no other name of the list. -/
def name_list_unambiguous (l : List String) : Bool :=
  l.all (fun x => x.toList.all (fun c => c != NUL)) &&
  l.all (fun x => l.all (fun s => x.toList == [] || !name_ends_inside x.toList s.toList))

/-! ## C24: flag suffixes in the assembler -/

/-- The three flag members `v3d_qpu_assemble` has no assignment to: `flags.mc`,
`flags.apf`, `flags.auf`. -/
def v3d_qpu_flags_unwritten (instr : v3d_qpu_instr) : Nat × Nat × Nat :=
  (instr.flags.mc, instr.flags.apf, instr.flags.auf)

/-- The add ops of C30 whose packed form decodes as another op: IID shares its
opcode and masks with the earlier row of VDWWT, VPMSETUP with operand A from
mux 0 falls into the row of FLNAFIRST from V3D 4.1 on, and an LDVPM `_IN` op
written with `magic_write` sets the `MA` bit that selects its `_OUT` variant. -/
def add33_decodes_as_other (ver op mux_a : Nat) (magic_write : Bool) : Bool :=
  op == V3D_QPU_A_IID ||
  (op == V3D_QPU_A_VPMSETUP && decide (41 ≤ ver) && mux_a % 8 == 0) ||
  ((op == V3D_QPU_A_LDVPMV_IN || op == V3D_QPU_A_LDVPMD_IN) && magic_write)

/-- The opcode `v3d33_qpu_add_pack` writes for the first row `d` of an op with
fewer than two sources whose operand A has unpack mode NONE: the unpack bits
of the rounding and conversion ops hold the packed mode 1, other ops have none. -/
def add33_few_src_opcode (d : opcode_desc) : Nat :=
  if d.op = V3D_QPU_A_FFLOOR ∨ d.op = V3D_QPU_A_FROUND ∨ d.op = V3D_QPU_A_FTRUNC ∨
      d.op = V3D_QPU_A_FCEIL ∨ d.op = V3D_QPU_A_FDX ∨ d.op = V3D_QPU_A_FDY then
    (d.opcode_first &&& u32_not (0x3 <<< 2)) ||| (1 <<< 2)
  else if d.op = V3D_QPU_A_FTOIN ∨ d.op = V3D_QPU_A_FTOIZ ∨ d.op = V3D_QPU_A_FTOUZ ∨
      d.op = V3D_QPU_A_FTOC then
    d.opcode_first ||| (1 <<< 2)
  else d.opcode_first

/-- One case of the check behind C30: row `d`, mux A of the record and
`magic_write`. Outside the cases of `add33_decodes_as_other` the fields the
encoder writes (mux A from the record or the mask, mux B from the mask, the
`MA` bit of `v3d_qpu_add_pack_waddr`) decode to the op of the row. -/
def add33_few_src_case (ver : Nat) (d : opcode_desc) (a : Nat) (m : Bool) : Bool :=
  let mux_a := if v3d_qpu_add_op_num_src d.op < 1 then u32_sub (ffs d.a_mask) 1 else a
  let mux_b := u32_sub (ffs d.b_mask) 1
  let w := v3d_qpu_add_pack_waddr { op := d.op, waddr := 3, magic_write := m }
  add33_decodes_as_other ver d.op mux_a m ||
  (w.1 == 3 &&
   (v3d33_qpu_add_unpack_core { ver := ver } (add33_few_src_opcode d % 256) (mux_a % 8)
      (mux_b % 8) 3 w.2).map (fun r => r.op) == some d.op)

/-- The check behind C30 for one row of `add_ops_v33` and one version: when the
row is the first one for an op with fewer than two sources and is valid in the
version, every case of `add33_few_src_case` holds. -/
def add33_few_src_check (ver : Nat) (d : opcode_desc) : Bool :=
  !(decide (v3d_qpu_add_op_num_src d.op < 2) && d.first_for add_ops_v33 &&
    !opcode_invalid_in_version { ver := ver } d.first_ver d.last_ver) ||
  allBelow 8 (fun a => add33_few_src_case ver d a false && add33_few_src_case ver d a true)

/-! ## The assembler loop bodies in steps -/

/-- The tail of one iteration of the `for (src ...)` loop of `v3d_qpu_assemble`:
the unpack suffix of the operand; `next` is the rest of the loop. -/
def v3d_qpu_assemble_source_unpack (outputIndex src : Nat)
    (next : v3d_qpu_assemble_locals → v3d_qpu_assemble_locals)
    (st : v3d_qpu_assemble_locals) : v3d_qpu_assemble_locals :=
  match v3d_qpu_value_from_name_list st.currentChar unpack_names true with
  | none =>
    st.break_error "Invalid unpack operation" (some unpack_names) unpack_names.length
  | some (index, e) =>
    let st := { st with currentChar := e, parsedSuccessfully := true }
    let st := st.update_half outputIndex (fun h =>
      if src = 0 then { h with a := { h.a with unpack := index } }
      else { h with b := { h.b with unpack := index } })
    next st

/-- The middle of one iteration of the `for (src ...)` loop of `v3d_qpu_assemble`:
the call of `v3d33_qpu_assemble_raddr` on the operand and the store of the mux. -/
def v3d_qpu_assemble_source_raddr (outputIndex src : Nat)
    (next : v3d_qpu_assemble_locals → v3d_qpu_assemble_locals)
    (st : v3d_qpu_assemble_locals) : v3d_qpu_assemble_locals :=
  let r := v3d33_qpu_assemble_raddr st.args.instruction st.currentChar
  let st := { st with args := { st.args with instruction := r.2.1 }, currentChar := r.2.2.2 }
  let st :=
    match r.2.2.1 with
    | none => st
    | some mux =>
      st.update_half outputIndex (fun h =>
        if src = 0 then { h with a := { h.a with mux := mux } }
        else { h with b := { h.b with mux := mux } })
  let st := { st with parsedSuccessfully := r.1 = v3d_qpu_assemble_raddr_result_success }
  if st.parsedSuccessfully = false then
    let e := v3d_qpu_assemble_raddr_error r.1
    st.break_error e.1 e.2.1 e.2.2
  else v3d_qpu_assemble_source_unpack outputIndex src next st

/-- The head of one iteration of the `for (src ...)` loop of `v3d_qpu_assemble`
after the first skip of white space: the comma before the operand. -/
def v3d_qpu_assemble_source_comma (outputIndex : Nat) (has_dst : Bool) (src : Nat)
    (next : v3d_qpu_assemble_locals → v3d_qpu_assemble_locals)
    (st : v3d_qpu_assemble_locals) : v3d_qpu_assemble_locals :=
  let comma : Option v3d_qpu_assemble_locals :=
    if (has_dst ∧ src = 0) ∨ src > 0 then
      if cstr_at st.currentChar 0 ≠ ',' then none
      else some { st with currentChar := st.currentChar.drop 1 }
    else some st
  match comma with
  | none => st.break_error "Expected , before source operand" none 0
  | some st =>
    let skipped : Bool × List Char :=
      if (has_dst ∧ src = 0) ∨ src > 0 then v3d_qpu_skip_whitespace_comments st.currentChar
      else (true, st.currentChar)
    let st := { st with currentChar := skipped.2 }
    if skipped.1 = false then st.break_error v3d_qpu_assemble_expected_source none 0
    else v3d_qpu_assemble_source_raddr outputIndex src next st

/-- The state an `Except` of the assembler steps carries, whether the step left
the loop over `outputs` or not. -/
def v3d_qpu_assemble_state (r : Except v3d_qpu_assemble_locals v3d_qpu_assemble_locals) :
    v3d_qpu_assemble_locals :=
  match r with
  | Except.error st => st
  | Except.ok st => st

/-- A call of `v3d_qpu_assemble` on an arguments record that is zero-initialised
but for the version and the text: the return value and the record after the call. -/
def v3d_qpu_assemble_text (ver : Nat) (text : String) : Nat × v3d_qpu_assemble_arguments :=
  v3d_qpu_assemble { devinfo := { ver := ver }, assembly := text.toList }

/-- One iteration of the signal loop of `v3d_qpu_assemble`; `next` is the rest of
the loop. -/
def v3d_qpu_assemble_signals_step (next : Bool → v3d_qpu_assemble_locals → v3d_qpu_assemble_locals)
    (sigWithAddressSpecified : Bool) (st : v3d_qpu_assemble_locals) : v3d_qpu_assemble_locals :=
  let skipped := v3d_qpu_skip_whitespace_comments st.currentChar
  let st := { st with currentChar := skipped.2 }
  if skipped.1 = false then st
  else if cstr_at st.currentChar 0 ≠ ';' then
    st.break_error "Expected ';' before start of signal" none 0
  else
    let st := { st with currentChar := st.currentChar.drop 1 }
    let skipped := v3d_qpu_skip_whitespace_comments st.currentChar
    let st := { st with currentChar := skipped.2 }
    if skipped.1 = false then st
    else
      match v3d_qpu_assemble_signal st.args.instruction.sig st.currentChar with
      | none => st.break_error "Unrecognized signal name" (some sig_names) sig_names.length
      | some (sig, sigTakesAddress, e) =>
        let st := { st with
          currentChar := e, parsedSuccessfully := true,
          args := { st.args with instruction := { st.args.instruction with sig := sig } } }
        if sigTakesAddress ∧ sigWithAddressSpecified then
          st.break_error
            ("Too many signals with addresses specified. Only one signal with " ++
             "address may be specified per instruction") none 0
        else
          let sigWithAddressSpecified := sigWithAddressSpecified || sigTakesAddress
          if cstr_at st.currentChar 0 = '.' then
            if sigTakesAddress = false then
              st.break_error
                ("Signal does not support an address. Check for a signal variant which does " ++
                 "take an address") (some sig_names) sig_names.length
            else
              let st := { st with currentChar := st.currentChar.drop 1 }
              if cstr_at st.currentChar 0 = 'r' ∧ cstr_at st.currentChar 1 = 'f' then
                match v3d_assemble_parse_register_file st.currentChar with
                | none =>
                  st.break_error "Expected rf0 through rf31" (some rf_names) rf_names.length
                | some (reg, e) =>
                  next sigWithAddressSpecified
                    { st with currentChar := e, parsedSuccessfully := true,
                              args := { st.args with instruction :=
                                { st.args.instruction with sig_addr := reg } } }
              else
                match v32_qpu_magic_waddr_from_name st.currentChar with
                | none =>
                  { st with args := { st.args with instruction :=
                      { st.args.instruction with sig_addr := 0, sig_magic := true } } }.break_error
                    "Expected rf0 through rf31 or waddr" (some waddr_names) waddr_names.length
                | some (waddr, e) =>
                  next sigWithAddressSpecified
                    { st with currentChar := e, parsedSuccessfully := true,
                              args := { st.args with instruction :=
                                { st.args.instruction with
                                  sig_addr := waddr % 256, sig_magic := true } } }
          else next sigWithAddressSpecified st

/-- The second half of the round trip of C27: the text `v3d_qpu_decode` writes for
the record into a buffer of `outBufferSize` bytes is assembled, at the same
version, into a zero-initialised record. -/
def v3d_qpu_reassemble (ver : Nat) (instr : v3d_qpu_instr) (outBufferSize : Nat) :
    Option (Nat × v3d_qpu_assemble_arguments) :=
  (v3d_qpu_decode { ver := ver } instr outBufferSize).map
    (fun t => v3d_qpu_assemble { devinfo := { ver := ver }, assembly := t.2 })

/-- The indexes at which the final test of `v3d_qpu_validate`
(`numInstructions < 3 || (instructions[numInstructions - 1].sig.thrsw ||
instructions[numInstructions - 2].sig.thrsw)`) reads the instruction array, in
the order of evaluation: `||` evaluates its right operand only when the left
one is false. -/
def v3d_qpu_validate_end_reads (instructions : List v3d_qpu_instr) : List Int :=
  let numInstructions : Int := instructions.length
  if numInstructions < 3 then []
  else
    match instructions.get? (instructions.length - 1) with
    | some inst => if inst.sig.thrsw then [numInstructions - 1]
                   else [numInstructions - 1, numInstructions - 2]
    | none => [numInstructions - 1]

/-- The named fields of the 64-bit instruction layout: each `V3D_QPU_x_SHIFT`
with its `V3D_QPU_x_MASK`, in the order of the source. -/
def v3d_qpu_named_fields : List (Nat × Nat) :=
  [ (V3D_QPU_OP_MUL_SHIFT, V3D_QPU_OP_MUL_MASK),
    (V3D_QPU_SIG_SHIFT, V3D_QPU_SIG_MASK),
    (V3D_QPU_COND_SHIFT, V3D_QPU_COND_MASK),
    (V3D_QPU_WADDR_M_SHIFT, V3D_QPU_WADDR_M_MASK),
    (V3D_QPU_BRANCH_ADDR_LOW_SHIFT, V3D_QPU_BRANCH_ADDR_LOW_MASK),
    (V3D_QPU_WADDR_A_SHIFT, V3D_QPU_WADDR_A_MASK),
    (V3D_QPU_BRANCH_COND_SHIFT, V3D_QPU_BRANCH_COND_MASK),
    (V3D_QPU_BRANCH_ADDR_HIGH_SHIFT, V3D_QPU_BRANCH_ADDR_HIGH_MASK),
    (V3D_QPU_OP_ADD_SHIFT, V3D_QPU_OP_ADD_MASK),
    (V3D_QPU_MUL_B_SHIFT, V3D_QPU_MUL_B_MASK),
    (V3D_QPU_BRANCH_MSFIGN_SHIFT, V3D_QPU_BRANCH_MSFIGN_MASK),
    (V3D_QPU_MUL_A_SHIFT, V3D_QPU_MUL_A_MASK),
    (V3D_QPU_RADDR_C_SHIFT, V3D_QPU_RADDR_C_MASK),
    (V3D_QPU_ADD_B_SHIFT, V3D_QPU_ADD_B_MASK),
    (V3D_QPU_BRANCH_BDU_SHIFT, V3D_QPU_BRANCH_BDU_MASK),
    (V3D_QPU_ADD_A_SHIFT, V3D_QPU_ADD_A_MASK),
    (V3D_QPU_BRANCH_BDI_SHIFT, V3D_QPU_BRANCH_BDI_MASK),
    (V3D_QPU_RADDR_D_SHIFT, V3D_QPU_RADDR_D_MASK),
    (V3D_QPU_RADDR_A_SHIFT, V3D_QPU_RADDR_A_MASK),
    (V3D_QPU_RADDR_B_SHIFT, V3D_QPU_RADDR_B_MASK) ]

/-- The test of `lookup_opcode_from_packed` on the opcode range alone. -/
def opcode_desc.in_range (opcode : Nat) (d : opcode_desc) : Bool :=
  Nat.ble d.opcode_first opcode && Nat.ble opcode d.opcode_last
/-! ## Theorems -/

/-- C3: at version 42 the line "nop ; nop" assembles into a zero-initialised record
(all nine characters are consumed, no error is recorded) as ADD NOP and MUL NOP,
both with magic write address NOP, no signal and no flags, and packing that
record succeeds with the word 0x3c003186bb800000. -/
theorem assemble_nop_nop_v42 :
    (v3d_qpu_assemble { devinfo := { ver := 42 }, assembly := "nop ; nop".toList }).1 = 9 ∧
    (v3d_qpu_assemble { devinfo := { ver := 42 }, assembly := "nop ; nop".toList }).2.errorMessage
      = none ∧
    (v3d_qpu_assemble { devinfo := { ver := 42 }, assembly := "nop ; nop".toList }).2.instruction =
      { type := V3D_QPU_INSTR_TYPE_ALU,
        alu := { add := { op := V3D_QPU_A_NOP, waddr := V3D_QPU_WADDR_NOP, magic_write := true },
                 mul := { op := V3D_QPU_M_NOP, waddr := V3D_QPU_WADDR_NOP,
                          magic_write := true } } } ∧
    v3d_qpu_instr_pack { ver := 42 }
      (v3d_qpu_assemble { devinfo := { ver := 42 }, assembly := "nop ; nop".toList }).2.instruction
      = some 0x3c003186bb800000 := by
  decide


/-- Packing an ALU record whose signal writes an address succeeds only when all
six flags are none. -/
theorem v3d_qpu_instr_pack_alu_flags_none (devinfo : v3d_device_info) (instr : v3d_qpu_instr)
    (w packed_instr : Nat) (halu : instr.type = V3D_QPU_INSTR_TYPE_ALU)
    (hsig : v3d_qpu_sig_writes_address devinfo instr.sig = true)
    (hp : v3d_qpu_instr_pack_alu devinfo instr packed_instr = some w) :
    ¬ (instr.flags.ac ≠ V3D_QPU_COND_NONE ∨ instr.flags.mc ≠ V3D_QPU_COND_NONE ∨
      instr.flags.apf ≠ V3D_QPU_PF_NONE ∨ instr.flags.mpf ≠ V3D_QPU_PF_NONE ∨
      instr.flags.auf ≠ V3D_QPU_UF_NONE ∨ instr.flags.muf ≠ V3D_QPU_UF_NONE) := by
  intro hne
  unfold v3d_qpu_instr_pack_alu at hp
  simp only [halu, hsig, if_true] at hp
  rw [if_pos hne] at hp
  split at hp
  · exact Option.noConfusion hp
  · split at hp
    · exact Option.noConfusion hp
    · split at hp
      · exact Option.noConfusion hp
      · exact Option.noConfusion hp

/-- C10: at every version from 41 on, packing an ALU record whose signal writes an
address returns FALSE whenever one of the six flag fields is not none. -/
theorem pack_rejects_flags_with_sig_address (devinfo : v3d_device_info) (instr : v3d_qpu_instr)
    (hver : devinfo.ver ≥ 41) (halu : instr.type = V3D_QPU_INSTR_TYPE_ALU)
    (hsig : v3d_qpu_sig_writes_address devinfo instr.sig = true)
    (hflags : instr.flags.ac ≠ V3D_QPU_COND_NONE ∨ instr.flags.mc ≠ V3D_QPU_COND_NONE ∨
      instr.flags.apf ≠ V3D_QPU_PF_NONE ∨ instr.flags.mpf ≠ V3D_QPU_PF_NONE ∨
      instr.flags.auf ≠ V3D_QPU_UF_NONE ∨ instr.flags.muf ≠ V3D_QPU_UF_NONE) :
    v3d_qpu_instr_pack devinfo instr = none := by
  have _ := hver
  cases h : v3d_qpu_instr_pack devinfo instr with
  | none => rfl
  | some w =>
    unfold v3d_qpu_instr_pack at h
    simp only [halu, if_true] at h
    exact absurd hflags (v3d_qpu_instr_pack_alu_flags_none devinfo instr w 0 halu hsig h)

theorem pack_rejects_flags_with_sig_address_witness :
    v3d_qpu_instr_pack { ver := 42 }
      { type := V3D_QPU_INSTR_TYPE_ALU, sig := { ldvary := true },
        flags := { ac := V3D_QPU_COND_IFA },
        alu := { add := { op := V3D_QPU_A_NOP, waddr := V3D_QPU_WADDR_NOP, magic_write := true },
                 mul := { op := V3D_QPU_M_NOP, waddr := V3D_QPU_WADDR_NOP, magic_write := true } } }
      = none :=
  pack_rejects_flags_with_sig_address { ver := 42 } _ (by decide) rfl (by decide)
    (Or.inl (by decide))

/-- The ADD decoder leaves every member outside `alu.add` as it was. -/
theorem v3d_qpu_add_unpack_frame (devinfo : v3d_device_info) (w : Nat) (i r : v3d_qpu_instr)
    (h : v3d_qpu_add_unpack devinfo w i = some r) :
    r.type = i.type ∧ r.sig = i.sig ∧ r.sig_addr = i.sig_addr ∧ r.sig_magic = i.sig_magic ∧
    r.raddr_a = i.raddr_a ∧ r.raddr_b = i.raddr_b ∧ r.flags = i.flags ∧
    r.alu.mul = i.alu.mul ∧ r.branch = i.branch := by
  unfold v3d_qpu_add_unpack v3d33_qpu_add_unpack v3d71_qpu_add_unpack at h
  split at h
  · dsimp only at h
    split at h
    · exact Option.noConfusion h
    · cases h; exact ⟨rfl, rfl, rfl, rfl, rfl, rfl, rfl, rfl, rfl⟩
  · dsimp only at h
    split at h
    · exact Option.noConfusion h
    · cases h; exact ⟨rfl, rfl, rfl, rfl, rfl, rfl, rfl, rfl, rfl⟩

/-- The MUL decoder leaves every member outside `alu.mul` as it was. -/
theorem v3d_qpu_mul_unpack_frame (devinfo : v3d_device_info) (w : Nat) (i r : v3d_qpu_instr)
    (h : v3d_qpu_mul_unpack devinfo w i = some r) :
    r.type = i.type ∧ r.sig = i.sig ∧ r.sig_addr = i.sig_addr ∧ r.sig_magic = i.sig_magic ∧
    r.raddr_a = i.raddr_a ∧ r.raddr_b = i.raddr_b ∧ r.flags = i.flags ∧
    r.alu.add = i.alu.add ∧ r.branch = i.branch := by
  unfold v3d_qpu_mul_unpack v3d33_qpu_mul_unpack v3d71_qpu_mul_unpack at h
  split at h
  · dsimp only at h
    split at h
    · exact Option.noConfusion h
    · cases h; exact ⟨rfl, rfl, rfl, rfl, rfl, rfl, rfl, rfl, rfl⟩
  · dsimp only at h
    split at h
    · exact Option.noConfusion h
    · cases h; exact ⟨rfl, rfl, rfl, rfl, rfl, rfl, rfl, rfl, rfl⟩

/-- The record `v3d_qpu_instr_unpack_alu` hands to the ADD decoder: type, signal,
signal address or flags, and (up to V3D 7.1) the two read addresses are set. -/
theorem v3d_qpu_instr_unpack_alu_some (devinfo : v3d_device_info) (w : Nat)
    (i r : v3d_qpu_instr) (h : v3d_qpu_instr_unpack_alu devinfo w i = some r) :
    ∃ sig i0 i2,
      v3d_qpu_sig_unpack devinfo (QPU_GET_FIELD w V3D_QPU_SIG_SHIFT V3D_QPU_SIG_MASK) = some sig ∧
      (if v3d_qpu_sig_writes_address devinfo sig then
        i0 = { i with
          type := V3D_QPU_INSTR_TYPE_ALU, sig := sig,
          sig_addr := (QPU_GET_FIELD w V3D_QPU_COND_SHIFT V3D_QPU_COND_MASK &&&
            u32_not V3D_QPU_COND_SIG_MAGIC_ADDR) % 256,
          sig_magic := v3d_bool_of_int (QPU_GET_FIELD w V3D_QPU_COND_SHIFT V3D_QPU_COND_MASK &&&
            V3D_QPU_COND_SIG_MAGIC_ADDR),
          flags := { ac := V3D_QPU_COND_NONE, mc := V3D_QPU_COND_NONE,
                     apf := V3D_QPU_PF_NONE, mpf := V3D_QPU_PF_NONE,
                     auf := V3D_QPU_UF_NONE, muf := V3D_QPU_UF_NONE } }
       else
        ∃ flags, v3d_qpu_flags_unpack (QPU_GET_FIELD w V3D_QPU_COND_SHIFT V3D_QPU_COND_MASK)
            = some flags ∧
          i0 = { i with type := V3D_QPU_INSTR_TYPE_ALU, sig := sig, flags := flags }) ∧
      v3d_qpu_add_unpack devinfo w
        (if devinfo.ver ≤ 71 then
          { i0 with
            raddr_a := QPU_GET_FIELD w V3D_QPU_RADDR_A_SHIFT V3D_QPU_RADDR_A_MASK,
            raddr_b := QPU_GET_FIELD w V3D_QPU_RADDR_B_SHIFT V3D_QPU_RADDR_B_MASK }
         else i0) = some i2 ∧
      v3d_qpu_mul_unpack devinfo w i2 = some r := by
  unfold v3d_qpu_instr_unpack_alu at h
  cases hs : v3d_qpu_sig_unpack devinfo (QPU_GET_FIELD w V3D_QPU_SIG_SHIFT V3D_QPU_SIG_MASK) with
  | none => rw [hs] at h; exact Option.noConfusion h
  | some sig =>
    rw [hs] at h
    dsimp only at h
    by_cases hw : v3d_qpu_sig_writes_address devinfo sig = true
    · rw [if_pos hw] at h
      dsimp only at h
      split at h
      · exact Option.noConfusion h
      · rename_i i2 hadd
        exact ⟨sig, _, i2, rfl, by rw [if_pos hw], hadd, h⟩
    · rw [if_neg hw] at h
      cases hf : v3d_qpu_flags_unpack (QPU_GET_FIELD w V3D_QPU_COND_SHIFT V3D_QPU_COND_MASK) with
      | none => rw [hf] at h; exact Option.noConfusion h
      | some flags =>
        rw [hf] at h
        dsimp only at h
        split at h
        · exact Option.noConfusion h
        · rename_i i2 hadd
          exact ⟨sig, _, i2, rfl, by rw [if_neg hw]; exact ⟨flags, rfl, rfl⟩, hadd, h⟩

/-- A successful `v3d_qpu_instr_unpack_alu` yields an ALU record. -/
theorem v3d_qpu_instr_unpack_alu_type (devinfo : v3d_device_info) (w : Nat)
    (i r : v3d_qpu_instr) (h : v3d_qpu_instr_unpack_alu devinfo w i = some r) :
    r.type = V3D_QPU_INSTR_TYPE_ALU := by
  obtain ⟨sig, i0, i2, _, h0, hadd, hmul⟩ := v3d_qpu_instr_unpack_alu_some devinfo w i r h
  have h1 := (v3d_qpu_mul_unpack_frame devinfo w i2 r hmul).1
  have h2 := (v3d_qpu_add_unpack_frame devinfo w _ i2 hadd).1
  rw [h1, h2]
  have h3 : i0.type = V3D_QPU_INSTR_TYPE_ALU := by
    split at h0
    · rw [h0]
    · obtain ⟨_, _, h0⟩ := h0; rw [h0]
  split
  · exact h3
  · exact h3

/-- A successful `v3d_qpu_instr_unpack_branch` yields a branch record. -/
theorem v3d_qpu_instr_unpack_branch_type (w : Nat)
    (i r : v3d_qpu_instr) (h : v3d_qpu_instr_unpack_branch w i = some r) :
    r.type = V3D_QPU_INSTR_TYPE_BRANCH := by
  unfold v3d_qpu_instr_unpack_branch at h
  dsimp only at h
  split at h
  · exact Option.noConfusion h
  · split at h
    · exact Option.noConfusion h
    · cases h; rfl

/-- C6: for every word and every version, `v3d_qpu_instr_unpack` is the ALU decoder
(whose successful result has type ALU) when the `op_mul` field, bits 58 to 63,
is nonzero; when that field is zero it is the branch decoder (whose successful
result has type BRANCH) if `(sig & 24) == 16`, and FALSE otherwise.  Unpacking
the word 0 at version 42 fails. -/
theorem v3d_qpu_instr_unpack_dispatch (devinfo : v3d_device_info) (w : Nat)
    (i : v3d_qpu_instr) :
    (QPU_GET_FIELD w V3D_QPU_OP_MUL_SHIFT V3D_QPU_OP_MUL_MASK ≠ 0 →
      v3d_qpu_instr_unpack devinfo w i = v3d_qpu_instr_unpack_alu devinfo w i ∧
      ∀ r, v3d_qpu_instr_unpack devinfo w i = some r → r.type = V3D_QPU_INSTR_TYPE_ALU) ∧
    (QPU_GET_FIELD w V3D_QPU_OP_MUL_SHIFT V3D_QPU_OP_MUL_MASK = 0 →
      (QPU_GET_FIELD w V3D_QPU_SIG_SHIFT V3D_QPU_SIG_MASK &&& 24 = 16 →
        v3d_qpu_instr_unpack devinfo w i = v3d_qpu_instr_unpack_branch w i ∧
        ∀ r, v3d_qpu_instr_unpack devinfo w i = some r →
          r.type = V3D_QPU_INSTR_TYPE_BRANCH) ∧
      (QPU_GET_FIELD w V3D_QPU_SIG_SHIFT V3D_QPU_SIG_MASK &&& 24 ≠ 16 →
        v3d_qpu_instr_unpack devinfo w i = none)) ∧
    v3d_qpu_instr_unpack { ver := 42 } 0 i = none := by
  refine ⟨fun hm => ?_, fun hm => ⟨fun hs => ?_, fun hs => ?_⟩, ?_⟩
  · have e : v3d_qpu_instr_unpack devinfo w i = v3d_qpu_instr_unpack_alu devinfo w i := by
      unfold v3d_qpu_instr_unpack; rw [if_pos hm]
    exact ⟨e, fun r hr => v3d_qpu_instr_unpack_alu_type devinfo w i r (e ▸ hr)⟩
  · have e : v3d_qpu_instr_unpack devinfo w i = v3d_qpu_instr_unpack_branch w i := by
      unfold v3d_qpu_instr_unpack; rw [if_neg (not_not.mpr hm)]; dsimp only; rw [if_pos hs]
    exact ⟨e, fun r hr => v3d_qpu_instr_unpack_branch_type w i r (e ▸ hr)⟩
  · unfold v3d_qpu_instr_unpack; rw [if_neg (not_not.mpr hm)]; dsimp only; rw [if_neg hs]
  · unfold v3d_qpu_instr_unpack
    rw [if_neg (by decide)]
    dsimp only
    rw [if_neg (by decide)]

/-- An ALU instruction carrying ldunif or ldunifa is rejected when the state's
last instruction carries ldvary. -/
theorem qpu_validate_inst_ldunif_after_ldvary (state : v3d_qpu_validate_state)
    (last inst : v3d_qpu_instr) (hlast : state.last = some last)
    (h1 : last.sig.ldvary = true) (h2 : inst.type = V3D_QPU_INSTR_TYPE_ALU)
    (h3 : inst.sig.ldunif = true ∨ inst.sig.ldunifa = true) :
    (qpu_validate_inst state inst).1 = false := by
  have h4 : (inst.sig.ldunif || inst.sig.ldunifa) = true := by
    rcases h3 with h | h <;> simp [h]
  unfold qpu_validate_inst
  dsimp only
  rw [hlast]
  dsimp only
  rw [h1, h4, h2]
  simp only [Bool.and_self, if_true, ne_eq, not_true_eq_false, if_false]
  split_ifs <;> rfl

/-- The loop reports an index as soon as the list holds an ldvary instruction
directly followed by an ALU instruction with ldunif or ldunifa. -/
theorem v3d_qpu_validate_loop_ldunif_after_ldvary (pre : List v3d_qpu_instr)
    (i1 i2 : v3d_qpu_instr) (post : List v3d_qpu_instr)
    (h1 : i1.sig.ldvary = true) (h2 : i2.type = V3D_QPU_INSTR_TYPE_ALU)
    (h3 : i2.sig.ldunif = true ∨ i2.sig.ldunifa = true) :
    ∀ (index : Int) (state : v3d_qpu_validate_state),
      (v3d_qpu_validate_loop (pre ++ i1 :: i2 :: post) index state).1.isSome = true := by
  induction pre with
  | nil =>
    intro index state
    simp only [List.nil_append, v3d_qpu_validate_loop]
    split
    · rfl
    · split
      · rfl
      · rename_i hne
        exact absurd (qpu_validate_inst_ldunif_after_ldvary _ i1 i2 rfl h1 h2 h3) hne
  | cons x xs ih =>
    intro index state
    simp only [List.cons_append, v3d_qpu_validate_loop]
    split
    · rfl
    · exact ih _ _

/-- `v3d_qpu_validate` returns FALSE when its loop reports an index. -/
theorem v3d_qpu_validate_of_loop (devinfo : v3d_device_info)
    (instructions : List v3d_qpu_instr) (results : v3d_qpu_validate_result)
    (h : ∀ (index : Int) (state : v3d_qpu_validate_state),
      (v3d_qpu_validate_loop instructions index state).1.isSome = true) :
    (v3d_qpu_validate devinfo instructions results).1 = false := by
  unfold v3d_qpu_validate
  simp only [h, Bool.true_eq_false, false_and, if_false, if_true]

/-- C7: `v3d_qpu_validate` returns FALSE on every sequence in which an ALU
instruction carrying ldunif or ldunifa directly follows an instruction carrying
ldvary, at every version; and on the two instructions NOP/NOP with ldvary
(signal address rf3), NOP/NOP with ldunif, at version 42, it returns FALSE with
error LDUNIF_AFTER_A_LDVARY and errorInstructionIndex 1. -/
theorem validate_rejects_ldunif_after_ldvary (devinfo : v3d_device_info)
    (pre : List v3d_qpu_instr) (i1 i2 : v3d_qpu_instr) (post : List v3d_qpu_instr)
    (results : v3d_qpu_validate_result)
    (h1 : i1.sig.ldvary = true) (h2 : i2.type = V3D_QPU_INSTR_TYPE_ALU)
    (h3 : i2.sig.ldunif = true ∨ i2.sig.ldunifa = true) :
    (v3d_qpu_validate devinfo (pre ++ i1 :: i2 :: post) results).1 = false ∧
    v3d_qpu_validate { ver := 42 }
      [ { type := V3D_QPU_INSTR_TYPE_ALU, sig := { ldvary := true }, sig_addr := 3,
          alu := { add := { op := V3D_QPU_A_NOP, waddr := V3D_QPU_WADDR_NOP, magic_write := true },
                   mul := { op := V3D_QPU_M_NOP, waddr := V3D_QPU_WADDR_NOP, magic_write := true } } },
        { type := V3D_QPU_INSTR_TYPE_ALU, sig := { ldunif := true },
          alu := { add := { op := V3D_QPU_A_NOP, waddr := V3D_QPU_WADDR_NOP, magic_write := true },
                   mul := { op := V3D_QPU_M_NOP, waddr := V3D_QPU_WADDR_NOP, magic_write := true } } } ]
      {} =
      (false, { errorInstructionIndex := 1, errorMessage := some "LDUNIF after a LDVARY",
                error := V3D_QPU_VALIDATE_ERROR_LDUNIF_AFTER_A_LDVARY }) :=
  ⟨v3d_qpu_validate_of_loop devinfo _ results
      (v3d_qpu_validate_loop_ldunif_after_ldvary pre i1 i2 post h1 h2 h3),
   by decide⟩

theorem validate_rejects_ldunif_after_ldvary_witness :
    (v3d_qpu_validate { ver := 71 }
      [ { type := V3D_QPU_INSTR_TYPE_ALU },
        { type := V3D_QPU_INSTR_TYPE_BRANCH, sig := { ldvary := true } },
        { type := V3D_QPU_INSTR_TYPE_ALU, sig := { ldunifa := true } },
        { type := V3D_QPU_INSTR_TYPE_ALU },
        { type := V3D_QPU_INSTR_TYPE_ALU } ] {}).1 = false :=
  (validate_rejects_ldunif_after_ldvary { ver := 71 } [ { type := V3D_QPU_INSTR_TYPE_ALU } ]
    { type := V3D_QPU_INSTR_TYPE_BRANCH, sig := { ldvary := true } }
    { type := V3D_QPU_INSTR_TYPE_ALU, sig := { ldunifa := true } }
    [ { type := V3D_QPU_INSTR_TYPE_ALU }, { type := V3D_QPU_INSTR_TYPE_ALU } ] {}
    rfl rfl (Or.inr rfl)).1

/-- What `qpu_validate_inst` does with an ALU NOP/NOP instruction whose only signal
is thrsw, when no SFU write is recent: only the thread-switch block acts. -/
theorem qpu_validate_inst_nop_thrsw (state : v3d_qpu_validate_state) (inst : v3d_qpu_instr)
    (htype : inst.type = V3D_QPU_INSTR_TYPE_ALU)
    (hadd : inst.alu.add.op = V3D_QPU_A_NOP) (hmul : inst.alu.mul.op = V3D_QPU_M_NOP)
    (hsig : inst.sig = { thrsw := true })
    (hsfu : ¬ state.ip - state.last_sfu_write < 2) :
    qpu_validate_inst state inst = qpu_validate_inst_thrsw state := by
  have hthrend : ∀ s : v3d_qpu_validate_state, qpu_validate_inst_thrend s inst = none := by
    intro s
    unfold qpu_validate_inst_thrend
    simp [hadd, hmul, hsig, v3d_qpu_sig_writes_address]
  unfold qpu_validate_inst qpu_validate_inst_tail
  rcases hl : state.last with _ | l
  all_goals
    simp only [htype, hadd, hmul, hsig, hsfu, hthrend, qpu_validate_count_writes,
      sig_bit_value]
    simp
    intro h
    exact Prod.ext h.symm rfl

/-- C8 (amended): on a program of three ALU NOP/NOP instructions each carrying only
the thrsw signal, `v3d_qpu_validate` returns FALSE at every version, and the
error it reports is THRSW_TOO_CLOSE_TO_ANOTHER_THRSW at instruction index 2
(the third thrsw is rejected inside the loop, before the end-of-program check
for delay slots is reached). -/
theorem validate_three_thrsw (devinfo : v3d_device_info) (i0 i1 i2 : v3d_qpu_instr)
    (results : v3d_qpu_validate_result)
    (h0 : i0.type = V3D_QPU_INSTR_TYPE_ALU ∧ i0.alu.add.op = V3D_QPU_A_NOP ∧
      i0.alu.mul.op = V3D_QPU_M_NOP ∧ i0.sig = { thrsw := true })
    (h1 : i1.type = V3D_QPU_INSTR_TYPE_ALU ∧ i1.alu.add.op = V3D_QPU_A_NOP ∧
      i1.alu.mul.op = V3D_QPU_M_NOP ∧ i1.sig = { thrsw := true })
    (h2 : i2.type = V3D_QPU_INSTR_TYPE_ALU ∧ i2.alu.add.op = V3D_QPU_A_NOP ∧
      i2.alu.mul.op = V3D_QPU_M_NOP ∧ i2.sig = { thrsw := true }) :
    v3d_qpu_validate devinfo [i0, i1, i2] results =
      (false, { errorInstructionIndex := 2,
                errorMessage := some "THRSW too close to another THRSW.",
                error := V3D_QPU_VALIDATE_ERROR_THRSW_TOO_CLOSE_TO_ANOTHER_THRSW }) := by
  have e0 : ∀ s : v3d_qpu_validate_state, ¬ s.ip - s.last_sfu_write < 2 →
      qpu_validate_inst s i0 = qpu_validate_inst_thrsw s :=
    fun s hs => qpu_validate_inst_nop_thrsw s i0 h0.1 h0.2.1 h0.2.2.1 h0.2.2.2 hs
  have e1 : ∀ s : v3d_qpu_validate_state, ¬ s.ip - s.last_sfu_write < 2 →
      qpu_validate_inst s i1 = qpu_validate_inst_thrsw s :=
    fun s hs => qpu_validate_inst_nop_thrsw s i1 h1.1 h1.2.1 h1.2.2.1 h1.2.2.2 hs
  have e2 : ∀ s : v3d_qpu_validate_state, ¬ s.ip - s.last_sfu_write < 2 →
      qpu_validate_inst s i2 = qpu_validate_inst_thrsw s :=
    fun s hs => qpu_validate_inst_nop_thrsw s i2 h2.1 h2.2.1 h2.2.2.1 h2.2.2.2 hs
  have hloop : ∀ n : Int, v3d_qpu_validate_loop [i0, i1, i2] 0
      { devinfo := devinfo, last_sfu_write := -10, last_thrsw_ip := -10, last_branch_ip := -10,
        first_tlb_z_write := n, ip := 0, last_thrsw_found := false } =
      (some 2,
       { devinfo := devinfo, last := some i1, last_sfu_write := -10, last_thrsw_ip := 0,
         last_branch_ip := -10, first_tlb_z_write := n, ip := 2, last_thrsw_found := true,
         thrend_found := true, thrsw_count := 1,
         errorMessage := some "THRSW too close to another THRSW.",
         error := V3D_QPU_VALIDATE_ERROR_THRSW_TOO_CLOSE_TO_ANOTHER_THRSW }) := by
    intro n
    rw [v3d_qpu_validate_loop, e0 _ (by dsimp only; decide)]
    have t0 : qpu_validate_inst_thrsw
        { devinfo := devinfo, last_sfu_write := -10, last_thrsw_ip := -10, last_branch_ip := -10,
          first_tlb_z_write := n, ip := 0, last_thrsw_found := false } =
        (true, { devinfo := devinfo, last_sfu_write := -10, last_thrsw_ip := 0,
                 last_branch_ip := -10, first_tlb_z_write := n, ip := 0,
                 last_thrsw_found := false, thrsw_count := 1 }) := by
      simp [qpu_validate_inst_thrsw, in_branch_delay_slots, in_thrsw_delay_slots]
    rw [t0]
    dsimp only
    rw [if_neg (by decide), v3d_qpu_validate_loop, e1 _ (by dsimp only; decide)]
    have t1 : qpu_validate_inst_thrsw
        { devinfo := devinfo, last := some i0, last_sfu_write := -10, last_thrsw_ip := 0,
          last_branch_ip := -10, first_tlb_z_write := n, ip := 0 + 1,
          last_thrsw_found := false, thrsw_count := 1 } =
        (true, { devinfo := devinfo, last := some i0, last_sfu_write := -10, last_thrsw_ip := 0,
                 last_branch_ip := -10, first_tlb_z_write := n, ip := 0 + 1,
                 last_thrsw_found := true, thrsw_count := 1 }) := by
      simp [qpu_validate_inst_thrsw, in_branch_delay_slots, in_thrsw_delay_slots]
    rw [t1]
    dsimp only
    rw [if_neg (by decide), v3d_qpu_validate_loop, e2 _ (by dsimp only; decide)]
    simp [qpu_validate_inst_thrsw, in_branch_delay_slots, in_thrsw_delay_slots, fail_instr]
  unfold v3d_qpu_validate
  dsimp only
  rw [hloop]
  simp

theorem validate_three_thrsw_witness :
    v3d_qpu_validate { ver := 33 }
      [ { type := V3D_QPU_INSTR_TYPE_ALU, sig := { thrsw := true },
          alu := { add := { op := V3D_QPU_A_NOP }, mul := { op := V3D_QPU_M_NOP } } },
        { type := V3D_QPU_INSTR_TYPE_ALU, sig := { thrsw := true }, raddr_a := 7,
          alu := { add := { op := V3D_QPU_A_NOP }, mul := { op := V3D_QPU_M_NOP } } },
        { type := V3D_QPU_INSTR_TYPE_ALU, sig := { thrsw := true },
          alu := { add := { op := V3D_QPU_A_NOP, waddr := V3D_QPU_WADDR_NOP, magic_write := true },
                   mul := { op := V3D_QPU_M_NOP } } } ]
      {} =
      (false, { errorInstructionIndex := 2,
                errorMessage := some "THRSW too close to another THRSW.",
                error := V3D_QPU_VALIDATE_ERROR_THRSW_TOO_CLOSE_TO_ANOTHER_THRSW }) :=
  validate_three_thrsw { ver := 33 } _ _ _ {} ⟨rfl, rfl, rfl, rfl⟩ ⟨rfl, rfl, rfl, rfl⟩
    ⟨rfl, rfl, rfl, rfl⟩

/-- C8 (counterexample): at version 42, three NOP/NOP instructions with magic write
address NOP, each carrying only thrsw, are rejected with an error kind other
than NO_PROGRAM_END_THRSW_DELAY_SLOTS. -/
theorem validate_three_thrsw_counterexample :
    (v3d_qpu_validate { ver := 42 }
      [ { type := V3D_QPU_INSTR_TYPE_ALU, sig := { thrsw := true },
          alu := { add := { op := V3D_QPU_A_NOP, waddr := V3D_QPU_WADDR_NOP, magic_write := true },
                   mul := { op := V3D_QPU_M_NOP, waddr := V3D_QPU_WADDR_NOP, magic_write := true } } },
        { type := V3D_QPU_INSTR_TYPE_ALU, sig := { thrsw := true },
          alu := { add := { op := V3D_QPU_A_NOP, waddr := V3D_QPU_WADDR_NOP, magic_write := true },
                   mul := { op := V3D_QPU_M_NOP, waddr := V3D_QPU_WADDR_NOP, magic_write := true } } },
        { type := V3D_QPU_INSTR_TYPE_ALU, sig := { thrsw := true },
          alu := { add := { op := V3D_QPU_A_NOP, waddr := V3D_QPU_WADDR_NOP, magic_write := true },
                   mul := { op := V3D_QPU_M_NOP, waddr := V3D_QPU_WADDR_NOP, magic_write := true } } } ]
      {}).2.error ≠ V3D_QPU_VALIDATE_ERROR_NO_PROGRAM_END_THRSW_DELAY_SLOTS := by
  decide

/-- C4 (counterexample): at version 42 the word packed for "fadd rf0, rf1, rf2 ; nop"
has `op_add` field 5 and `op_mul` field 15, not 0 and 1. -/
theorem fadd_word_counterexample :
    v3d_qpu_instr_pack { ver := 42 }
      (v3d_qpu_assemble { devinfo := { ver := 42 },
                          assembly := "fadd rf0, rf1, rf2 ; nop".toList }).2.instruction
      = some 0x3c0021800583e042 ∧
    QPU_GET_FIELD 0x3c0021800583e042 V3D_QPU_OP_ADD_SHIFT V3D_QPU_OP_ADD_MASK ≠ 0 ∧
    QPU_GET_FIELD 0x3c0021800583e042 V3D_QPU_OP_MUL_SHIFT V3D_QPU_OP_MUL_MASK ≠ 1 := by
  decide

/-- C4 (amended): at version 42, "fadd rf0, rf1, rf2 ; nop" assembles (all 24
characters are consumed, no error is recorded) and packing the result gives a
word whose fields are: op_add = 5 (the FADD base opcode 0 with both operand
unpack modes none), waddr_a = 0, MA bit = 0, raddr_a = 1, raddr_b = 2, add_a
mux = 6, add_b mux = 7, op_mul = 15 (the MUL NOP opcode), waddr_m = the NOP
magic address with MM set, sig = 0. -/
theorem fadd_word_fields :
    (v3d_qpu_assemble { devinfo := { ver := 42 },
                        assembly := "fadd rf0, rf1, rf2 ; nop".toList }).1 = 24 ∧
    (v3d_qpu_assemble { devinfo := { ver := 42 },
                        assembly := "fadd rf0, rf1, rf2 ; nop".toList }).2.errorMessage = none ∧
    ∃ w, v3d_qpu_instr_pack { ver := 42 }
      (v3d_qpu_assemble { devinfo := { ver := 42 },
                          assembly := "fadd rf0, rf1, rf2 ; nop".toList }).2.instruction = some w ∧
      QPU_GET_FIELD w V3D_QPU_OP_ADD_SHIFT V3D_QPU_OP_ADD_MASK = 5 ∧
      QPU_GET_FIELD w V3D_QPU_WADDR_A_SHIFT V3D_QPU_WADDR_A_MASK = 0 ∧
      w &&& V3D_QPU_MA = 0 ∧
      QPU_GET_FIELD w V3D_QPU_RADDR_A_SHIFT V3D_QPU_RADDR_A_MASK = 1 ∧
      QPU_GET_FIELD w V3D_QPU_RADDR_B_SHIFT V3D_QPU_RADDR_B_MASK = 2 ∧
      QPU_GET_FIELD w V3D_QPU_ADD_A_SHIFT V3D_QPU_ADD_A_MASK = V3D_QPU_MUX_A ∧
      QPU_GET_FIELD w V3D_QPU_ADD_B_SHIFT V3D_QPU_ADD_B_MASK = V3D_QPU_MUX_B ∧
      QPU_GET_FIELD w V3D_QPU_OP_MUL_SHIFT V3D_QPU_OP_MUL_MASK = 15 ∧
      QPU_GET_FIELD w V3D_QPU_WADDR_M_SHIFT V3D_QPU_WADDR_M_MASK = V3D_QPU_WADDR_NOP ∧
      w &&& V3D_QPU_MM ≠ 0 ∧
      QPU_GET_FIELD w V3D_QPU_SIG_SHIFT V3D_QPU_SIG_MASK = 0 :=
  ⟨by decide, by decide, 0x3c0021800583e042, by decide⟩

/-- C5 (counterexample): at version 42, `v3d_qpu_instr_pack` returns FALSE on the
record assembled from "mov r0, rf5 ; nop ; thrsw". -/
theorem mov_pack_counterexample :
    v3d_qpu_instr_pack { ver := 42 }
      (v3d_qpu_assemble { devinfo := { ver := 42 },
                          assembly := "mov r0, rf5 ; nop ; thrsw".toList }).2.instruction
      = none := by
  decide

/-- C5 (amended): at version 42, the line "mov r0, rf5 ; nop ; thrsw" assembles (all
25 characters are consumed, no error is recorded) to a record whose ADD half is
the MOV operation itself, not OR, reading rf5 on its one input (mux A with
raddr_a = 5), with destination the r0 accumulator (magic write) and thrsw as
the only signal (whose packed sig value is 1); `v3d_qpu_instr_pack` returns
FALSE on that record, because MOV has no ADD encoding before V3D 7.1. -/
theorem mov_assembles_but_does_not_pack :
    (v3d_qpu_assemble { devinfo := { ver := 42 },
                        assembly := "mov r0, rf5 ; nop ; thrsw".toList }).1 = 25 ∧
    (v3d_qpu_assemble { devinfo := { ver := 42 },
                        assembly := "mov r0, rf5 ; nop ; thrsw".toList }).2.errorMessage = none ∧
    (v3d_qpu_assemble { devinfo := { ver := 42 },
                        assembly := "mov r0, rf5 ; nop ; thrsw".toList }).2.instruction =
      { type := V3D_QPU_INSTR_TYPE_ALU, sig := { thrsw := true }, raddr_a := 5,
        alu := { add := { op := V3D_QPU_A_MOV, a := { mux := V3D_QPU_MUX_A },
                          waddr := V3D_QPU_WADDR_R0, magic_write := true },
                 mul := { op := V3D_QPU_M_NOP, waddr := V3D_QPU_WADDR_NOP,
                          magic_write := true } } } ∧
    v3d_qpu_sig_pack { ver := 42 } { thrsw := true } = some 1 ∧
    lookup_opcode_from_instr { ver := 42 } add_ops_v33 V3D_QPU_A_MOV = none ∧
    v3d_qpu_instr_pack { ver := 42 }
      { type := V3D_QPU_INSTR_TYPE_ALU, sig := { thrsw := true }, raddr_a := 5,
        alu := { add := { op := V3D_QPU_A_MOV, a := { mux := V3D_QPU_MUX_A },
                          waddr := V3D_QPU_WADDR_R0, magic_write := true },
                 mul := { op := V3D_QPU_M_NOP, waddr := V3D_QPU_WADDR_NOP,
                          magic_write := true } } } = none := by
  decide

/-! ## Descriptor lookup and the halves below V3D 7.1 -/

theorem allBelow_spec : ∀ (n : Nat) (p : Nat → Bool), allBelow n p = true →
    ∀ i, i < n → p i = true := by
  intro n
  induction n with
  | zero => intro p _ i hi; omega
  | succ n ih =>
    intro p h i hi
    simp only [allBelow, Bool.and_eq_true] at h
    by_cases e : i = n
    · subst e; exact h.1
    · exact ih p h.2 i (by omega)

/-- What a successful `lookup_opcode_from_instr` says about the row it returns. -/
theorem lookup_opcode_from_instr_some (devinfo : v3d_device_info) (T : List opcode_desc)
    (op : Nat) (d : opcode_desc) (h : lookup_opcode_from_instr devinfo T op = some d) :
    d ∈ T ∧ d.op = op ∧ opcode_invalid_in_version devinfo d.first_ver d.last_ver = false := by
  unfold lookup_opcode_from_instr at h
  have h1 := List.mem_of_find?_eq_some h
  have h2 := List.find?_some h
  simp only [Bool.and_eq_true, beq_iff_eq, Bool.not_eq_true'] at h2
  exact ⟨h1, h2.1, h2.2⟩

/-- Below V3D 7.1 the descriptor test is range, version and the two mux masks. -/
theorem opcode_desc_matches_packed_mux (devinfo : v3d_device_info) (hv : devinfo.ver < 71)
    (opcode mux_a mux_b raddr : Nat) (d : opcode_desc) :
    opcode_desc_matches_packed devinfo opcode mux_a mux_b raddr d =
      (d.mux_match opcode mux_a mux_b &&
        !opcode_invalid_in_version devinfo d.first_ver d.last_ver) := by
  unfold opcode_desc_matches_packed opcode_desc.mux_match
  simp only [hv, if_true]
  by_cases h1 : opcode < d.opcode_first
  · have : Nat.ble d.opcode_first opcode = false := by
      rw [← Bool.not_eq_true, Nat.ble_eq]; omega
    simp [h1, this]
  · by_cases h2 : opcode > d.opcode_last
    · have : Nat.ble opcode d.opcode_last = false := by
        rw [← Bool.not_eq_true, Nat.ble_eq]; omega
      simp [h2, this]
    · have e1 : Nat.ble d.opcode_first opcode = true := by rw [Nat.ble_eq]; omega
      have e2 : Nat.ble opcode d.opcode_last = true := by rw [Nat.ble_eq]; omega
      simp only [h1, h2, or_self, if_false, e1, e2, Bool.true_and]
      cases opcode_invalid_in_version devinfo d.first_ver d.last_ver <;>
        by_cases h3 : d.b_mask &&& 1 <<< mux_b = 0 <;>
        by_cases h4 : d.a_mask &&& 1 <<< mux_a = 0 <;> simp [h3, h4]

/-- From V3D 7.1 on the descriptor test is range, version and the raddr mask. -/
theorem opcode_desc_matches_packed_raddr (devinfo : v3d_device_info) (hv : ¬ devinfo.ver < 71)
    (opcode mux_a mux_b raddr : Nat) (d : opcode_desc) :
    opcode_desc_matches_packed devinfo opcode mux_a mux_b raddr d =
      (d.raddr_match opcode raddr &&
        !opcode_invalid_in_version devinfo d.first_ver d.last_ver) := by
  unfold opcode_desc_matches_packed opcode_desc.raddr_match
  simp only [hv, if_false]
  by_cases h1 : opcode < d.opcode_first
  · have : Nat.ble d.opcode_first opcode = false := by
      rw [← Bool.not_eq_true, Nat.ble_eq]; omega
    simp [h1, this]
  · by_cases h2 : opcode > d.opcode_last
    · have : Nat.ble opcode d.opcode_last = false := by
        rw [← Bool.not_eq_true, Nat.ble_eq]; omega
      simp [h2, this]
    · have e1 : Nat.ble d.opcode_first opcode = true := by rw [Nat.ble_eq]; omega
      have e2 : Nat.ble opcode d.opcode_last = true := by rw [Nat.ble_eq]; omega
      simp only [h1, h2, or_self, if_false, e1, e2, Bool.true_and]
      cases opcode_invalid_in_version devinfo d.first_ver d.last_ver <;>
        by_cases h3 : d.raddr_mask &&& 1 <<< raddr = 0 <;> simp [h3]

/-- `lookup_opcode_from_packed` succeeds as soon as some row of the table passes the test,
and the row it returns passes the test. -/
theorem lookup_opcode_from_packed_of_mem (devinfo : v3d_device_info) (T : List opcode_desc)
    (opcode mux_a mux_b raddr : Nat) (d : opcode_desc) (hd : d ∈ T)
    (hm : opcode_desc_matches_packed devinfo opcode mux_a mux_b raddr d = true) :
    ∃ d', lookup_opcode_from_packed devinfo T opcode mux_a mux_b raddr = some d' ∧ d' ∈ T ∧
      opcode_desc_matches_packed devinfo opcode mux_a mux_b raddr d' = true := by
  unfold lookup_opcode_from_packed
  cases h : List.find? (opcode_desc_matches_packed devinfo opcode mux_a mux_b raddr) T with
  | none =>
    rw [List.find?_eq_none] at h
    exact absurd hm (h d hd)
  | some d' => exact ⟨d', rfl, List.mem_of_find?_eq_some h, List.find?_some h⟩


/-- With uniform version bounds, `lookup_opcode_from_instr` returns the first row of the
table for the operation. -/
theorem lookup_opcode_from_instr_first (devinfo : v3d_device_info) (op : Nat)
    (d' : opcode_desc) : ∀ (T : List opcode_desc),
    (∀ d1 ∈ T, ∀ d2 ∈ T, d1.op = d2.op →
      d1.first_ver = d2.first_ver ∧ d1.last_ver = d2.last_ver) →
    lookup_opcode_from_instr devinfo T op = some d' →
    T.find? (fun d => d.op == op) = some d' := by
  intro T
  induction T with
  | nil => intro _ h; exact absurd h (by simp [lookup_opcode_from_instr])
  | cons x xs ih =>
    intro hs h
    have hs' : ∀ d1 ∈ xs, ∀ d2 ∈ xs, d1.op = d2.op →
        d1.first_ver = d2.first_ver ∧ d1.last_ver = d2.last_ver :=
      fun d1 h1 d2 h2 => hs d1 (List.mem_cons_of_mem _ h1) d2 (List.mem_cons_of_mem _ h2)
    unfold lookup_opcode_from_instr at h
    rw [List.find?_cons] at h ⊢
    by_cases hx : x.op = op
    · have e : (x.op == op) = true := by simpa using hx
      rw [e] at h ⊢
      by_cases hval : opcode_invalid_in_version devinfo x.first_ver x.last_ver = false
      · simp only [hval, Bool.not_false, Bool.and_self] at h
        dsimp only at h ⊢
        exact h
      · simp only [Bool.not_eq_false] at hval
        simp only [hval, Bool.not_true, Bool.and_false] at h
        have h3 := lookup_opcode_from_instr_some devinfo xs op d' h
        have h4 := hs x (List.mem_cons_self _ _) d' (List.mem_cons_of_mem _ h3.1)
          (hx.trans h3.2.1.symm)
        rw [← h4.1, ← h4.2, hval] at h3
        exact absurd h3.2.2 (by decide)
    · have e : (x.op == op) = false := by simpa using hx
      rw [e] at h ⊢
      simp only [Bool.false_and] at h
      exact ih hs' h

/-- The rows of a uniform table, as a statement about members. -/
theorem opcode_table_uniform_versions_spec (T : List opcode_desc)
    (h : opcode_table_uniform_versions T = true) :
    ∀ d1 ∈ T, ∀ d2 ∈ T, d1.op = d2.op →
      d1.first_ver = d2.first_ver ∧ d1.last_ver = d2.last_ver := by
  intro d1 h1 d2 h2 e
  unfold opcode_table_uniform_versions at h
  rw [List.all_eq_true] at h
  have h3 := h d1 h1
  rw [List.all_eq_true] at h3
  have h4 := h3 d2 h2
  simp only [Bool.or_eq_true, bne_iff_ne, ne_eq, Bool.and_eq_true, beq_iff_eq] at h4
  rcases h4 with h4 | h4
  · exact absurd e h4
  · exact h4


theorem mul_ops_v33_uniform : opcode_table_uniform_versions mul_ops_v33 = true := by decide!

theorem mul_ops_v33_rows : mul_ops_v33.all (fun d => !d.first_for mul_ops_v33 || mul33_row_check d)
    = true := by decide!

theorem add_ops_v33_uniform : opcode_table_uniform_versions add_ops_v33 = true := by decide!
theorem add_ops_v71_uniform : opcode_table_uniform_versions add_ops_v71 = true := by decide!
theorem mul_ops_v71_uniform : opcode_table_uniform_versions mul_ops_v71 = true := by decide!


/-- What the descriptor lookup of `v3d33_qpu_mul_pack` says about the row it uses. -/
theorem mul33_pack_row (devinfo : v3d_device_info) (op : Nat) (d : opcode_desc)
    (h : lookup_opcode_from_instr devinfo mul_ops_v33 op = some d) :
    d ∈ mul_ops_v33 ∧ d.op = op ∧
    opcode_invalid_in_version devinfo d.first_ver d.last_ver = false ∧
    mul33_row_check d = true := by
  obtain ⟨h1, h2, h3⟩ := lookup_opcode_from_instr_some devinfo _ op d h
  refine ⟨h1, h2, h3, ?_⟩
  have h4 := lookup_opcode_from_instr_first devinfo op d mul_ops_v33
    (opcode_table_uniform_versions_spec _ mul_ops_v33_uniform) h
  have h5 := mul_ops_v33_rows
  rw [List.all_eq_true] at h5
  have h6 := h5 d h1
  have h7 : d.first_for mul_ops_v33 = true := by
    unfold opcode_desc.first_for
    rw [h2, h4]
    exact beq_self_eq_true _
  rw [h7] at h6
  simpa using h6

theorem f32_unpack_pack_lt (u x : Nat) (h : v3d_qpu_float32_unpack_pack u = some x) : x < 4 := by
  unfold v3d_qpu_float32_unpack_pack at h
  split_ifs at h <;> cases h <;> decide

theorem f32_pack_pack_lt (u x : Nat) (h : v3d_qpu_float32_pack_pack u = some x) : x < 3 := by
  unfold v3d_qpu_float32_pack_pack at h
  split_ifs at h <;> cases h <;> decide

theorem f16_unpack_pack_lt (u x : Nat) (h : v3d_qpu_float16_unpack_pack u = some x) : x < 5 := by
  unfold v3d_qpu_float16_unpack_pack at h
  split_ifs at h <;> cases h <;> decide

theorem f32_unpack_unpack_some (x : Nat) (h : x < 4) :
    ∃ u, v3d_qpu_float32_unpack_unpack x = some u := by
  interval_cases x <;> exact ⟨_, rfl⟩

theorem f16_unpack_unpack_some (x : Nat) (h : x < 5) :
    ∃ u, v3d_qpu_float16_unpack_unpack x = some u := by
  interval_cases x <;> exact ⟨_, rfl⟩

theorem and3_lt (x : Nat) : x &&& 3 < 4 := by
  have := @Nat.and_le_right x 3; omega

/-- The operand modifiers of the MUL decoder below V3D 7.1 decode for every opcode
in the range of the rows that carry VFMUL. -/
theorem v3d33_qpu_mul_unpack_modifiers_some (mul_op op mux_b : Nat)
    (h : mul_op = V3D_QPU_M_VFMUL → 4 ≤ op ∧ op ≤ 8) :
    (v3d33_qpu_mul_unpack_modifiers mul_op op mux_b).isSome = true := by
  unfold v3d33_qpu_mul_unpack_modifiers
  split_ifs with h1 h2 h3
  · obtain ⟨ua, hua⟩ := f32_unpack_unpack_some ((op >>> 2) &&& 3) (and3_lt _)
    obtain ⟨ub, hub⟩ := f32_unpack_unpack_some ((op >>> 0) &&& 3) (and3_lt _)
    simp only [hua, hub, Option.isSome_some]
  · obtain ⟨ua, hua⟩ := f32_unpack_unpack_some (mux_b &&& 3) (and3_lt _)
    simp only [hua, Option.isSome_some]
  · obtain ⟨h4, h5⟩ := h h3
    obtain ⟨ua, hua⟩ := f16_unpack_unpack_some ((u32_sub (op &&& 7) 4) &&& 7) (by
      interval_cases op <;> decide)
    simp only [hua, Option.isSome_some]
  · rfl


theorem anymux_test (m : Nat) (h : m < 8) : ANYMUX &&& (1 <<< m) ≠ 0 := by
  interval_cases m <;> decide

theorem mux_match_any (d : opcode_desc) (opc a b : Nat) (h1 : d.opcode_first ≤ opc)
    (h2 : opc ≤ d.opcode_last) (hb : d.b_mask = ANYMUX) (ha : d.a_mask = ANYMUX)
    (ha8 : a < 8) (hb8 : b < 8) : d.mux_match opc a b = true := by
  unfold opcode_desc.mux_match
  rw [hb, ha]
  simp only [Bool.and_eq_true, Nat.ble_eq, bne_iff_ne, ne_eq]
  exact ⟨⟨⟨h1, h2⟩, anymux_test b hb8⟩, anymux_test a ha8⟩

theorem mul_ops_v33_vfmul : mul_ops_v33.all (fun d =>
    d.op != V3D_QPU_M_VFMUL || (decide (4 ≤ d.opcode_first) && decide (d.opcode_last ≤ 8)))
    = true := by decide!

/-- Below V3D 7.1 the MUL decoder succeeds on every opcode and mux pair that passes
the masks of some row of `mul_ops_v33` valid in the version. -/
theorem v3d33_qpu_mul_unpack_core_of_row (devinfo : v3d_device_info) (hv : devinfo.ver < 71)
    (opc a b : Nat) (mm : Bool) (d : opcode_desc) (hd : d ∈ mul_ops_v33)
    (hm : d.mux_match opc a b = true)
    (hval : opcode_invalid_in_version devinfo d.first_ver d.last_ver = false) :
    (v3d33_qpu_mul_unpack_core devinfo opc a b mm).isSome = true := by
  have hm' : opcode_desc_matches_packed devinfo opc a b 0 d = true := by
    rw [opcode_desc_matches_packed_mux devinfo hv, hm, hval]; rfl
  obtain ⟨d', h1, h2, h3⟩ := lookup_opcode_from_packed_of_mem devinfo _ opc a b 0 d hd hm'
  rw [opcode_desc_matches_packed_mux devinfo hv] at h3
  simp only [Bool.and_eq_true, opcode_desc.mux_match, Nat.ble_eq] at h3
  have h4 := mul_ops_v33_vfmul
  rw [List.all_eq_true] at h4
  have h5 := h4 d' h2
  simp only [Bool.or_eq_true, bne_iff_ne, ne_eq, Bool.and_eq_true, decide_eq_true_eq] at h5
  have h6 := v3d33_qpu_mul_unpack_modifiers_some d'.op opc b (by
    intro e
    rcases h5 with h5 | h5
    · exact absurd e h5
    · omega)
  unfold v3d33_qpu_mul_unpack_core
  rw [h1]
  dsimp only
  cases h7 : v3d33_qpu_mul_unpack_modifiers d'.op opc b with
  | none => rw [h7] at h6; exact absurd h6 (by decide)
  | some m => rfl


theorem mul_ops_v33_fmov15 :
    mux_desc 15 15 (OP_RANGE 0 3) ANYMUX V3D_QPU_M_FMOV 33 42 ∈ mul_ops_v33 := by decide!

theorem fmul_opcode_range (p x y : Nat) (hp : p < 3) (hx : x < 4) (hy : y < 4) :
    16 ≤ (((16 + (p <<< 4)) ||| (x <<< 2)) ||| (y <<< 0)) % 64 ∧
    (((16 + (p <<< 4)) ||| (x <<< 2)) ||| (y <<< 0)) % 64 ≤ 63 := by
  interval_cases p <;> interval_cases x <;> interval_cases y <;> decide

/-- Below V3D 7.1, the opcode and operand selectors `v3d33_qpu_mul_pack` writes into
the word decode: the opcode field is not zero and `v3d33_qpu_mul_unpack` finds a
descriptor and operand modifiers for them. -/
theorem v3d33_qpu_mul_pack_unpack_some (devinfo : v3d_device_info) (hv : devinfo.ver < 71)
    (mul : v3d_qpu_alu_half) (f : alu_pack_fields)
    (hp : v3d33_qpu_mul_pack_opcode devinfo mul = some f) (mm : Bool) :
    f.opcode % 64 ≠ 0 ∧
    (v3d33_qpu_mul_unpack_core devinfo (f.opcode % 64) (f.mux_a % 8) (f.mux_b % 8) mm).isSome
      = true := by
  unfold v3d33_qpu_mul_pack_opcode at hp
  dsimp only at hp
  cases hl : lookup_opcode_from_instr devinfo mul_ops_v33 mul.op with
  | none => rw [hl] at hp; exact absurd hp (by simp)
  | some d =>
    rw [hl] at hp
    dsimp only at hp
    obtain ⟨hd, hdop, hval, hchk⟩ := mul33_pack_row devinfo mul.op d hl
    unfold mul33_row_check at hchk
    rw [hdop] at hchk
    simp only [Bool.and_eq_true, decide_eq_true_eq] at hchk
    obtain ⟨⟨⟨hf1, hfl⟩, hl63⟩, hcls⟩ := hchk
    have ha8 : f.mux_a % 8 < 8 := Nat.mod_lt _ (by decide)
    have hb8 : f.mux_b % 8 < 8 := Nat.mod_lt _ (by decide)
    by_cases c1 : mul.op = V3D_QPU_M_FMUL
    · rw [if_pos c1] at hp hcls
      simp only [Bool.and_eq_true, beq_iff_eq] at hcls
      obtain ⟨⟨⟨e1, e2⟩, e3⟩, e4⟩ := hcls
      rw [e1] at hp
      cases hp1 : v3d_qpu_float32_pack_pack mul.output_pack with
      | none => rw [hp1] at hp; exact absurd hp (by simp)
      | some p =>
        cases hp2 : v3d_qpu_float32_unpack_pack mul.a.unpack with
        | none => rw [hp1, hp2] at hp; exact absurd hp (by simp)
        | some x =>
          cases hp3 : v3d_qpu_float32_unpack_pack mul.b.unpack with
          | none => rw [hp1, hp2, hp3] at hp; exact absurd hp (by simp)
          | some y =>
            rw [hp1, hp2, hp3] at hp
            dsimp only at hp
            cases hp
            dsimp only
            have hr := fmul_opcode_range p x y (f32_pack_pack_lt _ _ hp1)
              (f32_unpack_pack_lt _ _ hp2) (f32_unpack_pack_lt _ _ hp3)
            refine ⟨by omega, ?_⟩
            exact v3d33_qpu_mul_unpack_core_of_row devinfo hv _ _ _ mm d hd
              (mux_match_any d _ _ _ (by omega) (by omega) e3 e4 (Nat.mod_lt _ (by decide))
                (Nat.mod_lt _ (by decide))) hval
    · rw [if_neg c1] at hp hcls
      by_cases c2 : mul.op = V3D_QPU_M_FMOV
      · rw [if_pos c2] at hp hcls
        simp only [Bool.and_eq_true, beq_iff_eq] at hcls
        obtain ⟨⟨⟨⟨⟨e1, e2⟩, e3⟩, e4⟩, e5⟩, e6⟩ := hcls
        rw [e1] at hp
        rw [e5, e6] at hval
        cases hp1 : v3d_qpu_float32_pack_pack mul.output_pack with
        | none => rw [hp1] at hp; exact absurd hp (by simp)
        | some p =>
          cases hp2 : v3d_qpu_float32_unpack_pack mul.a.unpack with
          | none => rw [hp1, hp2] at hp; exact absurd hp (by simp)
          | some x =>
            rw [hp1, hp2] at hp
            dsimp only at hp
            cases hp
            dsimp only
            have hp' := f32_pack_pack_lt _ _ hp1
            have hx' := f32_unpack_pack_lt _ _ hp2
            by_cases c3 : p = 2
            · subst c3
              have eo : (14 ||| ((2 >>> 1) &&& 1)) % 64 = 15 := by decide
              have eb : ((((2 &&& 1) <<< 2) ||| x) % 8) = x := by
                interval_cases x <;> decide
              rw [eo, eb]
              refine ⟨by decide, ?_⟩
              refine v3d33_qpu_mul_unpack_core_of_row devinfo hv _ _ _ mm _ mul_ops_v33_fmov15
                ?_ hval
              have hq : ∀ a, a < 8 → ∀ x, x < 4 →
                  (mux_desc 15 15 (OP_RANGE 0 3) ANYMUX V3D_QPU_M_FMOV 33 42).mux_match 15 a x
                    = true := by decide
              exact hq _ (Nat.mod_lt _ (by decide)) _ hx'
            · have eo : (14 ||| ((p >>> 1) &&& 1)) % 64 = 14 := by
                interval_cases p
                · decide
                · decide
                · exact absurd rfl c3
              rw [eo]
              refine ⟨by decide, ?_⟩
              exact v3d33_qpu_mul_unpack_core_of_row devinfo hv _ _ _ mm d hd
                (mux_match_any d _ _ _ (by omega) (by omega) e3 e4 (Nat.mod_lt _ (by decide))
                  (Nat.mod_lt _ (by decide))) (by rw [e5, e6]; exact hval)
      · rw [if_neg c2] at hp hcls
        by_cases c3 : mul.op = V3D_QPU_M_VFMUL
        · rw [if_pos c3] at hp hcls
          simp only [Bool.and_eq_true, beq_iff_eq] at hcls
          obtain ⟨⟨⟨e1, e2⟩, e3⟩, e4⟩ := hcls
          rw [e1] at hp
          by_cases c4 : mul.output_pack ≠ V3D_QPU_PACK_NONE
          · rw [if_pos c4] at hp; exact absurd hp (by simp)
          · rw [if_neg c4] at hp
            cases hp1 : v3d_qpu_float16_unpack_pack mul.a.unpack with
            | none => rw [hp1] at hp; exact absurd hp (by simp)
            | some p =>
              rw [hp1] at hp
              dsimp only at hp
              have hp' := f16_unpack_pack_lt _ _ hp1
              have hr : 4 ≤ (if mul.a.unpack = V3D_QPU_UNPACK_SWAP_16 then 8
                  else 4 ||| ((p + 4) &&& 7)) % 64 ∧
                  (if mul.a.unpack = V3D_QPU_UNPACK_SWAP_16 then 8
                  else 4 ||| ((p + 4) &&& 7)) % 64 ≤ 8 := by
                split_ifs
                · decide
                · interval_cases p <;> decide
              by_cases c5 : mul.b.unpack ≠ V3D_QPU_UNPACK_NONE
              · rw [if_pos c5] at hp; exact absurd hp (by simp)
              · rw [if_neg c5] at hp
                cases hp
                dsimp only
                refine ⟨by omega, ?_⟩
                exact v3d33_qpu_mul_unpack_core_of_row devinfo hv _ _ _ mm d hd
                  (mux_match_any d _ _ _ (by omega) (by omega) e3 e4 (Nat.mod_lt _ (by decide))
                    (Nat.mod_lt _ (by decide))) hval
        · rw [if_neg c3] at hp hcls
          by_cases c4 : mul.op ≠ V3D_QPU_M_NOP ∧
              (mul.output_pack ≠ V3D_QPU_PACK_NONE ∨ mul.a.unpack ≠ V3D_QPU_UNPACK_NONE ∨
                mul.b.unpack ≠ V3D_QPU_UNPACK_NONE)
          · rw [if_pos c4] at hp; exact absurd hp (by simp)
          · rw [if_neg c4] at hp
            cases hp
            dsimp only
            have hm1 := allBelow_spec _ _ hcls (mul.a.mux % 8) (Nat.mod_lt _ (by decide))
            have hm2 := allBelow_spec _ _ hm1 (mul.b.mux % 8) (Nat.mod_lt _ (by decide))
            have eo : d.opcode_first % 64 = d.opcode_first := Nat.mod_eq_of_lt (by omega)
            rw [eo]
            refine ⟨by omega, ?_⟩
            refine v3d33_qpu_mul_unpack_core_of_row devinfo hv _ _ _ mm d hd ?_ hval
            by_cases n1 : v3d_qpu_mul_op_num_src mul.op < 1 <;>
              by_cases n2 : v3d_qpu_mul_op_num_src mul.op < 2 <;>
              simp only [n1, n2, if_true, if_false] at hm2 ⊢ <;> exact hm2

theorem add_ops_v33_rows : add_ops_v33.all (fun d => !d.first_for add_ops_v33 || add33_row_check d)
    = true := by decide!
theorem add_ops_v33_any : add_ops_v33.all add33_any_check = true := by decide!
theorem add_ops_v33_vfpack :
    mux_desc 53 55 ANYMUX ANYMUX V3D_QPU_A_VFPACK 0 0 ∈ add_ops_v33 ∧
    mux_desc 57 59 ANYMUX ANYMUX V3D_QPU_A_VFPACK 0 0 ∈ add_ops_v33 ∧
    mux_desc 61 63 ANYMUX ANYMUX V3D_QPU_A_VFPACK 0 0 ∈ add_ops_v33 := by decide!

theorem v3d_qpu_add_unpack_order_cases (o : Bool) (x : Nat) :
    v3d_qpu_add_unpack_order o x = x ∨
    (x = V3D_QPU_A_FMIN ∧ v3d_qpu_add_unpack_order o x = V3D_QPU_A_FMAX) ∨
    (x = V3D_QPU_A_FADD ∧ v3d_qpu_add_unpack_order o x = V3D_QPU_A_FADDNF) := by
  unfold v3d_qpu_add_unpack_order
  cases o
  · left; rfl
  · by_cases h1 : x = V3D_QPU_A_FMIN
    · right; left; subst h1; exact ⟨rfl, rfl⟩
    · by_cases h2 : x = V3D_QPU_A_FADD
      · right; right; subst h2; exact ⟨rfl, rfl⟩
      · left; simp only [if_true, if_neg h1, if_neg h2]

theorem v3d33_qpu_add_unpack_map_op_cases (opc : Nat) :
    (opc ≤ 248 ∨ opc = 252 ∨ 256 ≤ opc) ∧ v3d33_qpu_add_unpack_map_op opc = opc ∨
    (249 ≤ opc ∧ opc ≤ 251) ∧ v3d33_qpu_add_unpack_map_op opc = opc - 4 ∨
    (253 ≤ opc ∧ opc ≤ 255) ∧ v3d33_qpu_add_unpack_map_op opc = opc - 8 := by
  unfold v3d33_qpu_add_unpack_map_op
  dsimp only
  split_ifs <;> omega

theorem v3d_qpu_add_unpack_stvpm_some (add_op waddr : Nat)
    (h : add_op = V3D_QPU_A_STVPMV ∨ add_op = V3D_QPU_A_STVPMD ∨ add_op = V3D_QPU_A_STVPMP →
      waddr ≤ 2) :
    ∃ y, v3d_qpu_add_unpack_stvpm add_op waddr = some y ∧
      (y = add_op ∨ ((add_op = V3D_QPU_A_STVPMV ∨ add_op = V3D_QPU_A_STVPMD ∨
        add_op = V3D_QPU_A_STVPMP) ∧
        (y = V3D_QPU_A_STVPMV ∨ y = V3D_QPU_A_STVPMD ∨ y = V3D_QPU_A_STVPMP))) := by
  unfold v3d_qpu_add_unpack_stvpm
  by_cases c : add_op = V3D_QPU_A_STVPMV ∨ add_op = V3D_QPU_A_STVPMD ∨ add_op = V3D_QPU_A_STVPMP
  · rw [if_pos c]
    have hw := h c
    interval_cases waddr
    · exact ⟨_, rfl, Or.inr ⟨c, Or.inl rfl⟩⟩
    · exact ⟨_, rfl, Or.inr ⟨c, Or.inr (Or.inl rfl)⟩⟩
    · exact ⟨_, rfl, Or.inr ⟨c, Or.inr (Or.inr rfl)⟩⟩
  · rw [if_neg c]
    exact ⟨_, rfl, Or.inl rfl⟩

theorem and7_lt (x : Nat) : x &&& 7 < 8 := by
  have := @Nat.and_le_right x 7; omega

/-- The operand modifiers of the ADD decoder below V3D 7.1 decode whenever the low
three opcode bits of a VFMIN or VFMAX are a 16-bit unpack mode. -/
theorem v3d33_qpu_add_unpack_modifiers_some (add_op op mux_b : Nat)
    (h : add_op = V3D_QPU_A_VFMIN ∨ add_op = V3D_QPU_A_VFMAX → op &&& 7 < 5) :
    (v3d33_qpu_add_unpack_modifiers add_op op mux_b).isSome = true := by
  unfold v3d33_qpu_add_unpack_modifiers
  obtain ⟨ua, hua⟩ := f32_unpack_unpack_some ((op >>> 2) &&& 3) (and3_lt _)
  obtain ⟨ub, hub⟩ := f32_unpack_unpack_some ((op >>> 0) &&& 3) (and3_lt _)
  by_cases c1 : add_op = V3D_QPU_A_FADD ∨ add_op = V3D_QPU_A_FADDNF ∨ add_op = V3D_QPU_A_FSUB ∨
     add_op = V3D_QPU_A_FMIN ∨ add_op = V3D_QPU_A_FMAX ∨ add_op = V3D_QPU_A_FCMP ∨
     add_op = V3D_QPU_A_VFPACK
  · rw [if_pos c1, hua, hub]; rfl
  · rw [if_neg c1]
    by_cases c2 : add_op = V3D_QPU_A_FFLOOR ∨ add_op = V3D_QPU_A_FROUND ∨
        add_op = V3D_QPU_A_FTRUNC ∨ add_op = V3D_QPU_A_FCEIL ∨ add_op = V3D_QPU_A_FDX ∨
        add_op = V3D_QPU_A_FDY
    · rw [if_pos c2, hua]; rfl
    · rw [if_neg c2]
      by_cases c3 : add_op = V3D_QPU_A_FTOIN ∨ add_op = V3D_QPU_A_FTOIZ ∨
          add_op = V3D_QPU_A_FTOUZ ∨ add_op = V3D_QPU_A_FTOC
      · rw [if_pos c3, hua]; rfl
      · rw [if_neg c3]
        by_cases c4 : add_op = V3D_QPU_A_VFMIN ∨ add_op = V3D_QPU_A_VFMAX
        · obtain ⟨u, hu⟩ := f16_unpack_unpack_some (op &&& 7) (h c4)
          rw [if_pos c4, hu]; rfl
        · rw [if_neg c4]; rfl

/-- Below V3D 7.1 the ADD decoder succeeds on every opcode and mux pair that passes
the masks of some row of `add_ops_v33` valid in the version, provided the write
address of opcode 248 (the VPM stores) is 0, 1 or 2. -/
theorem v3d33_qpu_add_unpack_core_of_row (devinfo : v3d_device_info) (hv : devinfo.ver < 71)
    (opc a b waddr : Nat) (ma : Bool) (d : opcode_desc) (hd : d ∈ add_ops_v33)
    (hm : d.mux_match (v3d33_qpu_add_unpack_map_op opc) a b = true)
    (hval : opcode_invalid_in_version devinfo d.first_ver d.last_ver = false)
    (hst : opc = 248 → waddr ≤ 2) :
    (v3d33_qpu_add_unpack_core devinfo opc a b waddr ma).isSome = true := by
  have hm' : opcode_desc_matches_packed devinfo (v3d33_qpu_add_unpack_map_op opc) a b 0 d
      = true := by
    rw [opcode_desc_matches_packed_mux devinfo hv, hm, hval]; rfl
  obtain ⟨d', h1, h2, h3⟩ := lookup_opcode_from_packed_of_mem devinfo _ _ a b 0 d hd hm'
  rw [opcode_desc_matches_packed_mux devinfo hv] at h3
  simp only [Bool.and_eq_true, opcode_desc.mux_match, Nat.ble_eq] at h3
  obtain ⟨⟨⟨⟨r1, r2⟩, _⟩, _⟩, _⟩ := h3
  have h4 := add_ops_v33_any
  rw [List.all_eq_true] at h4
  have h5 := h4 d' h2
  unfold add33_any_check at h5
  simp only [Bool.and_eq_true, decide_eq_true_eq] at h5
  obtain ⟨⟨k1, k2⟩, k3⟩ := h5
  have hmap := v3d33_qpu_add_unpack_map_op_cases opc
  -- the operation after the ordering test
  have hord := v3d_qpu_add_unpack_order_cases
    (decide (((opc >>> 2) &&& 3) * 8 + a > (opc &&& 3) * 8 + b)) d'.op
  generalize hop1 : v3d_qpu_add_unpack_order
    (decide (((opc >>> 2) &&& 3) * 8 + a > (opc &&& 3) * 8 + b)) d'.op = op1 at hord
  have hst1 : op1 = V3D_QPU_A_STVPMV ∨ op1 = V3D_QPU_A_STVPMD ∨ op1 = V3D_QPU_A_STVPMP →
      d'.op = V3D_QPU_A_STVPMV ∨ d'.op = V3D_QPU_A_STVPMD ∨ d'.op = V3D_QPU_A_STVPMP := by
    intro hs
    rcases hord with e | ⟨_, e⟩ | ⟨_, e⟩
    · rw [← e]; exact hs
    · rw [e] at hs; exact absurd hs (by decide)
    · rw [e] at hs; exact absurd hs (by decide)
  have hvf1 : op1 = V3D_QPU_A_VFMIN ∨ op1 = V3D_QPU_A_VFMAX →
      d'.op = V3D_QPU_A_VFMIN ∨ d'.op = V3D_QPU_A_VFMAX := by
    intro hs
    rcases hord with e | ⟨_, e⟩ | ⟨_, e⟩
    · rw [← e]; exact hs
    · rw [e] at hs; exact absurd hs (by decide)
    · rw [e] at hs; exact absurd hs (by decide)
  obtain ⟨op2, hs2, hop2⟩ := v3d_qpu_add_unpack_stvpm_some op1 waddr (by
    intro hs
    have hs' := hst1 hs
    rw [if_pos hs'] at k3
    simp only [Bool.and_eq_true, beq_iff_eq] at k3
    apply hst
    rcases hmap with ⟨_, e⟩ | ⟨_, e⟩ | ⟨_, e⟩ <;> omega)
  have hmod := v3d33_qpu_add_unpack_modifiers_some op2 opc b (by
    intro hs
    have hs1 : op1 = V3D_QPU_A_VFMIN ∨ op1 = V3D_QPU_A_VFMAX := by
      rcases hop2 with e | ⟨_, e⟩
      · rw [← e]; exact hs
      · rcases hs with hs | hs <;> rw [hs] at e <;> exact absurd e (by decide)
    have hs' := hvf1 hs1
    rw [if_pos hs'] at k2
    simp only [Bool.or_eq_true, Bool.and_eq_true, beq_iff_eq] at k2
    have hr : (176 ≤ opc ∧ opc ≤ 180) ∨ (240 ≤ opc ∧ opc ≤ 244) := by
      rcases hmap with ⟨_, e⟩ | ⟨_, e⟩ | ⟨_, e⟩ <;> omega
    rcases hr with ⟨g1, g2⟩ | ⟨g1, g2⟩ <;> interval_cases opc <;> decide)
  unfold v3d33_qpu_add_unpack_core
  rw [h1]
  dsimp only
  rw [hop1, hs2]
  dsimp only
  cases hm3 : v3d33_qpu_add_unpack_modifiers op2 opc b with
  | none => rw [hm3] at hmod; exact absurd hmod (by decide)
  | some m => rfl


theorem add33_pack_row (devinfo : v3d_device_info) (op : Nat) (d : opcode_desc)
    (h : lookup_opcode_from_instr devinfo add_ops_v33 op = some d) :
    d ∈ add_ops_v33 ∧ d.op = op ∧
    opcode_invalid_in_version devinfo d.first_ver d.last_ver = false ∧
    add33_row_check d = true := by
  obtain ⟨h1, h2, h3⟩ := lookup_opcode_from_instr_some devinfo _ op d h
  refine ⟨h1, h2, h3, ?_⟩
  have h4 := lookup_opcode_from_instr_first devinfo op d add_ops_v33
    (opcode_table_uniform_versions_spec _ add_ops_v33_uniform) h
  have h5 := add_ops_v33_rows
  rw [List.all_eq_true] at h5
  have h6 := h5 d h1
  have h7 : d.first_for add_ops_v33 = true := by
    unfold opcode_desc.first_for
    rw [h2, h4]
    exact beq_self_eq_true _
  rw [h7] at h6
  simpa using h6

theorem f32_unpack_pack_pos (u x : Nat) (h : v3d_qpu_float32_unpack_pack u = some x)
    (hu : u ≠ V3D_QPU_UNPACK_ABS) : x ≠ 0 := by
  unfold v3d_qpu_float32_unpack_pack at h
  rw [if_neg hu] at h
  split_ifs at h <;> cases h <;> decide

theorem v3d_qpu_add_pack_waddr_stvpm (add : v3d_qpu_alu_half)
    (h : add.op = V3D_QPU_A_STVPMV ∨ add.op = V3D_QPU_A_STVPMD ∨ add.op = V3D_QPU_A_STVPMP) :
    (v3d_qpu_add_pack_waddr add).1 % 64 ≤ 2 := by
  unfold v3d_qpu_add_pack_waddr
  rcases h with h | h | h <;> rw [h] <;> simp

theorem add33_p1_range (first p x y : Nat)
    (hf : first = 0 ∨ first = 64 ∨ first = 128 ∨ first = 192)
    (hp : p < 3) (hx : x < 4) (hy : y < 4) :
    first ≤ (((first ||| (p <<< 4)) ||| (x <<< 2)) ||| (y <<< 0)) % 256 ∧
    (((first ||| (p <<< 4)) ||| (x <<< 2)) ||| (y <<< 0)) % 256 ≤ first + 47 := by
  rcases hf with h | h | h | h <;> subst h <;>
    interval_cases p <;> interval_cases x <;> interval_cases y <;> decide

theorem add33_p2_range (x y : Nat) (hx : x < 4) (hy : y < 4) (hx0 : x ≠ 0) (hy0 : y ≠ 0) :
    (((((53 &&& u32_not (0x3 <<< 2)) ||| (x <<< 2)) &&& u32_not (0x3 <<< 0)) ||| (y <<< 0)) % 256)
      ∈ [53, 54, 55, 57, 58, 59, 61, 62, 63] := by
  interval_cases x <;> interval_cases y <;> first | omega | decide

theorem add33_p3_range (first x : Nat) (hf : first = 245 ∨ first = 246 ∨ first = 247)
    (hx : x < 4) (hx0 : x ≠ 0) :
    v3d33_qpu_add_unpack_map_op (((first &&& u32_not (0x3 <<< 2)) ||| (x <<< 2)) % 256) = first ∧
    ((first &&& u32_not (0x3 <<< 2)) ||| (x <<< 2)) % 256 ≠ 248 := by
  rcases hf with h | h | h <;> subst h <;> interval_cases x <;>
    first | omega | decide

theorem add33_p4_range (first x : Nat) (hf : first = 245 ∨ first = 246)
    (hx : x < 4) (hx0 : x ≠ 0) :
    v3d33_qpu_add_unpack_map_op ((first ||| (x <<< 2)) % 256) = first ∧
    (first ||| (x <<< 2)) % 256 ≠ 248 := by
  rcases hf with h | h <;> subst h <;> interval_cases x <;>
    first | omega | decide

theorem add33_p5_range (first p : Nat) (hf : first = 176 ∨ first = 240) (hp : p < 5) :
    first ≤ (first ||| p) % 256 ∧ (first ||| p) % 256 ≤ first + 4 := by
  rcases hf with h | h <;> subst h <;> interval_cases p <;> decide


theorem mem_vfpack_rows (o : Nat) (h : o ∈ [53, 54, 55, 57, 58, 59, 61, 62, 63]) :
    ∃ d ∈ add_ops_v33, d.opcode_first ≤ o ∧ o ≤ d.opcode_last ∧ d.b_mask = ANYMUX ∧
      d.a_mask = ANYMUX ∧ d.first_ver = 0 ∧ d.last_ver = 0 ∧ o < 248 := by
  obtain ⟨m1, m2, m3⟩ := add_ops_v33_vfpack
  simp only [List.mem_cons, List.mem_singleton, List.not_mem_nil, or_false] at h
  rcases h with h | h | h | h | h | h | h | h | h <;> subst h
  · exact ⟨_, m1, by decide, by decide, rfl, rfl, rfl, rfl, by decide⟩
  · exact ⟨_, m1, by decide, by decide, rfl, rfl, rfl, rfl, by decide⟩
  · exact ⟨_, m1, by decide, by decide, rfl, rfl, rfl, rfl, by decide⟩
  · exact ⟨_, m2, by decide, by decide, rfl, rfl, rfl, rfl, by decide⟩
  · exact ⟨_, m2, by decide, by decide, rfl, rfl, rfl, rfl, by decide⟩
  · exact ⟨_, m2, by decide, by decide, rfl, rfl, rfl, rfl, by decide⟩
  · exact ⟨_, m3, by decide, by decide, rfl, rfl, rfl, rfl, by decide⟩
  · exact ⟨_, m3, by decide, by decide, rfl, rfl, rfl, rfl, by decide⟩
  · exact ⟨_, m3, by decide, by decide, rfl, rfl, rfl, rfl, by decide⟩

theorem v3d33_qpu_add_unpack_map_op_low (o : Nat) (h : o ≤ 248) :
    v3d33_qpu_add_unpack_map_op o = o := by
  rcases v3d33_qpu_add_unpack_map_op_cases o with ⟨_, e⟩ | ⟨_, e⟩ | ⟨_, e⟩ <;> omega

/-- Below V3D 7.1, the opcode, operand selectors and write address
`v3d33_qpu_add_pack` writes into the word decode: `v3d33_qpu_add_unpack` finds a
descriptor and operand modifiers for them. -/
theorem v3d33_qpu_add_pack_unpack_some (devinfo : v3d_device_info) (hv : devinfo.ver < 71)
    (add : v3d_qpu_alu_half) (f : alu_pack_fields)
    (hp : v3d33_qpu_add_pack_opcode devinfo add = some f) (ma : Bool) :
    (v3d33_qpu_add_unpack_core devinfo (f.opcode % 256) (f.mux_a % 8) (f.mux_b % 8)
      ((v3d_qpu_add_pack_waddr add).1 % 64) ma).isSome = true := by
  unfold v3d33_qpu_add_pack_opcode at hp
  dsimp only at hp
  cases hl : lookup_opcode_from_instr devinfo add_ops_v33 add.op with
  | none => rw [hl] at hp; exact absurd hp (by simp)
  | some d =>
    rw [hl] at hp
    dsimp only at hp
    obtain ⟨hd, hdop, hval, hchk⟩ := add33_pack_row devinfo add.op d hl
    unfold add33_row_check at hchk
    rw [hdop] at hchk
    simp only [Bool.and_eq_true, decide_eq_true_eq] at hchk
    obtain ⟨⟨hfl, hl255⟩, hcls⟩ := hchk
    by_cases c1 : add.op = V3D_QPU_A_FADD ∨ add.op = V3D_QPU_A_FADDNF ∨
        add.op = V3D_QPU_A_FSUB ∨ add.op = V3D_QPU_A_FMIN ∨ add.op = V3D_QPU_A_FMAX ∨
        add.op = V3D_QPU_A_FCMP
    · rw [if_pos c1] at hp hcls
      simp only [Bool.and_eq_true, Bool.or_eq_true, beq_iff_eq] at hcls
      obtain ⟨⟨⟨e1, e2⟩, e3⟩, e4⟩ := hcls
      cases hp1 : v3d_qpu_float32_pack_pack add.output_pack with
      | none => rw [hp1] at hp; exact absurd hp (by simp)
      | some p =>
        cases hp2 : v3d_qpu_float32_unpack_pack add.a.unpack with
        | none => rw [hp1, hp2] at hp; exact absurd hp (by simp)
        | some x =>
          cases hp3 : v3d_qpu_float32_unpack_pack add.b.unpack with
          | none => rw [hp1, hp2, hp3] at hp; exact absurd hp (by simp)
          | some y =>
            rw [hp1, hp2, hp3] at hp
            dsimp only at hp
            have hp' := f32_pack_pack_lt _ _ hp1
            have hx' := f32_unpack_pack_lt _ _ hp2
            have hy' := f32_unpack_pack_lt _ _ hp3
            have e1' : d.opcode_first = 0 ∨ d.opcode_first = 64 ∨ d.opcode_first = 128 ∨
                d.opcode_first = 192 := by
              rcases e1 with ((e | e) | e) | e
              · exact Or.inl e
              · exact Or.inr (Or.inl e)
              · exact Or.inr (Or.inr (Or.inl e))
              · exact Or.inr (Or.inr (Or.inr e))
            by_cases hsw : v3d_qpu_add_pack_swaps add.op (decide (x * 8 + (if v3d_qpu_add_op_num_src add.op < 1 then u32_sub (ffs d.a_mask) 1 else add.a.mux) > y * 8 + (if v3d_qpu_add_op_num_src add.op < 2 then u32_sub (ffs d.b_mask) 1 else add.b.mux))) = true
            · rw [if_pos hsw] at hp
              replace hp : some _ = some f := hp
              cases hp
              dsimp only
              have hr := add33_p1_range d.opcode_first p y x e1' hp' hy' hx'
              refine v3d33_qpu_add_unpack_core_of_row devinfo hv _ _ _ _ ma d hd ?_ hval
                (by omega)
              rw [v3d33_qpu_add_unpack_map_op_low _ (by omega)]
              exact mux_match_any d _ _ _ hr.1 (by omega) e3 e4 (Nat.mod_lt _ (by decide))
                (Nat.mod_lt _ (by decide))
            · rw [if_neg hsw] at hp
              replace hp : some _ = some f := hp
              cases hp
              dsimp only
              have hr := add33_p1_range d.opcode_first p x y e1' hp' hx' hy'
              refine v3d33_qpu_add_unpack_core_of_row devinfo hv _ _ _ _ ma d hd ?_ hval
                (by omega)
              rw [v3d33_qpu_add_unpack_map_op_low _ (by omega)]
              exact mux_match_any d _ _ _ hr.1 (by omega) e3 e4 (Nat.mod_lt _ (by decide))
                (Nat.mod_lt _ (by decide))
    · rw [if_neg c1] at hp hcls
      have ha8 : ∀ n : Nat, n % 8 < 8 := fun n => Nat.mod_lt _ (by decide)
      have emux_a : (if v3d_qpu_add_op_num_src add.op < 1 then u32_sub (ffs d.a_mask) 1
            else add.a.mux) % 8 =
          (if v3d_qpu_add_op_num_src add.op < 1 then u32_sub (ffs d.a_mask) 1
            else add.a.mux % 8) % 8 := by
        by_cases n1 : v3d_qpu_add_op_num_src add.op < 1
        · rw [if_pos n1, if_pos n1]
        · rw [if_neg n1, if_neg n1, Nat.mod_mod]
      have emux_b : (if v3d_qpu_add_op_num_src add.op < 2 then u32_sub (ffs d.b_mask) 1
            else add.b.mux) % 8 =
          (if v3d_qpu_add_op_num_src add.op < 2 then u32_sub (ffs d.b_mask) 1
            else add.b.mux % 8) % 8 := by
        by_cases n1 : v3d_qpu_add_op_num_src add.op < 2
        · rw [if_pos n1, if_pos n1]
        · rw [if_neg n1, if_neg n1, Nat.mod_mod]
      by_cases c2 : add.op = V3D_QPU_A_VFPACK
      · rw [if_pos c2] at hp hcls
        simp only [Bool.and_eq_true, beq_iff_eq] at hcls
        obtain ⟨⟨e1, e2⟩, e3⟩ := hcls
        rw [e2, e3] at hval
        by_cases c3 : add.a.unpack = V3D_QPU_UNPACK_ABS ∨ add.b.unpack = V3D_QPU_UNPACK_ABS
        · rw [if_pos c3] at hp; exact absurd hp (by simp)
        · rw [if_neg c3] at hp
          cases hp2 : v3d_qpu_float32_unpack_pack add.a.unpack with
          | none => rw [hp2] at hp; exact absurd hp (by simp)
          | some x =>
            cases hp3 : v3d_qpu_float32_unpack_pack add.b.unpack with
            | none => rw [hp2, hp3] at hp; exact absurd hp (by simp)
            | some y =>
              rw [hp2, hp3, e1] at hp
              dsimp only at hp
              cases hp
              dsimp only
              have hr := add33_p2_range x y (f32_unpack_pack_lt _ _ hp2)
                (f32_unpack_pack_lt _ _ hp3)
                (f32_unpack_pack_pos _ _ hp2 (fun h => c3 (Or.inl h)))
                (f32_unpack_pack_pos _ _ hp3 (fun h => c3 (Or.inr h)))
              obtain ⟨d', hd', g1, g2, g3, g4, g5, g6, g7⟩ := mem_vfpack_rows _ hr
              refine v3d33_qpu_add_unpack_core_of_row devinfo hv _ _ _ _ ma d' hd' ?_
                (by rw [g5, g6]; exact hval) (by omega)
              rw [v3d33_qpu_add_unpack_map_op_low _ (Nat.le_of_lt g7)]
              exact mux_match_any d' _ _ _ g1 g2 g3 g4 (ha8 _) (ha8 _)
      · rw [if_neg c2] at hp hcls
        by_cases c3 : add.op = V3D_QPU_A_FFLOOR ∨ add.op = V3D_QPU_A_FROUND ∨
            add.op = V3D_QPU_A_FTRUNC ∨ add.op = V3D_QPU_A_FCEIL ∨ add.op = V3D_QPU_A_FDX ∨
            add.op = V3D_QPU_A_FDY
        · rw [if_pos c3] at hp hcls
          simp only [Bool.and_eq_true, Bool.or_eq_true, beq_iff_eq] at hcls
          obtain ⟨e1, e2⟩ := hcls
          have hn : v3d_qpu_add_op_num_src add.op < 2 := by
            rcases c3 with h | h | h | h | h | h <;> rw [h] <;> decide
          cases hp1 : v3d_qpu_float32_pack_pack add.output_pack with
          | none => rw [hp1] at hp; exact absurd hp (by simp)
          | some p =>
            cases hp2 : v3d_qpu_float32_unpack_pack add.a.unpack with
            | none => rw [hp1, hp2] at hp; exact absurd hp (by simp)
            | some x =>
              rw [hp1, hp2] at hp
              dsimp only at hp
              by_cases c4 : x = 0
              · rw [if_pos c4] at hp; exact absurd hp (by simp)
              · rw [if_neg c4] at hp
                replace hp : some _ = some f := hp
                cases hp
                dsimp only
                have e1' : d.opcode_first = 245 ∨ d.opcode_first = 246 ∨
                    d.opcode_first = 247 := by
                  rcases e1 with (e | e) | e
                  · exact Or.inl e
                  · exact Or.inr (Or.inl e)
                  · exact Or.inr (Or.inr e)
                have hr := add33_p3_range d.opcode_first x e1' (f32_unpack_pack_lt _ _ hp2) c4
                refine v3d33_qpu_add_unpack_core_of_row devinfo hv _ _ _ _ ma d hd ?_ hval
                  (fun h => absurd h hr.2)
                rw [hr.1]
                have hm1 := allBelow_spec _ _ e2 p (f32_pack_pack_lt _ _ hp1)
                have hm2 := allBelow_spec _ _ hm1 (add.a.mux % 8) (ha8 _)
                rw [if_pos hn] at hm2 ⊢
                rw [emux_a]
                exact hm2
        · rw [if_neg c3] at hp hcls
          by_cases c5 : add.op = V3D_QPU_A_FTOIN ∨ add.op = V3D_QPU_A_FTOIZ ∨
              add.op = V3D_QPU_A_FTOUZ ∨ add.op = V3D_QPU_A_FTOC
          · rw [if_pos c5] at hp hcls
            simp only [Bool.and_eq_true, Bool.or_eq_true, beq_iff_eq] at hcls
            obtain ⟨e1, e2⟩ := hcls
            have hn : v3d_qpu_add_op_num_src add.op < 2 := by
              rcases c5 with h | h | h | h <;> rw [h] <;> decide
            by_cases c6 : add.output_pack ≠ V3D_QPU_PACK_NONE
            · rw [if_pos c6] at hp; exact absurd hp (by simp)
            · rw [if_neg c6] at hp
              cases hp2 : v3d_qpu_float32_unpack_pack add.a.unpack with
              | none => rw [hp2] at hp; exact absurd hp (by simp)
              | some x =>
                rw [hp2] at hp
                dsimp only at hp
                by_cases c4 : x = 0
                · rw [if_pos c4] at hp; exact absurd hp (by simp)
                · rw [if_neg c4] at hp
                  replace hp : some _ = some f := hp
                  cases hp
                  dsimp only
                  have hr := add33_p4_range d.opcode_first x e1 (f32_unpack_pack_lt _ _ hp2) c4
                  refine v3d33_qpu_add_unpack_core_of_row devinfo hv _ _ _ _ ma d hd ?_ hval
                    (fun h => absurd h hr.2)
                  rw [hr.1]
                  have hm2 := allBelow_spec _ _ e2 (add.a.mux % 8) (ha8 _)
                  rw [if_pos hn] at hm2 ⊢
                  rw [emux_a]
                  exact hm2
          · rw [if_neg c5] at hp hcls
            by_cases c7 : add.op = V3D_QPU_A_VFMIN ∨ add.op = V3D_QPU_A_VFMAX
            · rw [if_pos c7] at hp hcls
              simp only [Bool.and_eq_true, Bool.or_eq_true, beq_iff_eq] at hcls
              obtain ⟨⟨⟨e1, e2⟩, e3⟩, e4⟩ := hcls
              by_cases c8 : add.output_pack ≠ V3D_QPU_PACK_NONE ∨
                  add.b.unpack ≠ V3D_QPU_UNPACK_NONE
              · rw [if_pos c8] at hp; exact absurd hp (by simp)
              · rw [if_neg c8] at hp
                cases hp2 : v3d_qpu_float16_unpack_pack add.a.unpack with
                | none => rw [hp2] at hp; exact absurd hp (by simp)
                | some x =>
                  rw [hp2] at hp
                  replace hp : some _ = some f := hp
                  cases hp
                  dsimp only
                  have hr := add33_p5_range d.opcode_first x e1 (f16_unpack_pack_lt _ _ hp2)
                  refine v3d33_qpu_add_unpack_core_of_row devinfo hv _ _ _ _ ma d hd ?_ hval
                    (by omega)
                  rw [v3d33_qpu_add_unpack_map_op_low _ (by omega)]
                  exact mux_match_any d _ _ _ hr.1 (by omega) e3 e4 (ha8 _) (ha8 _)
            · rw [if_neg c7] at hp hcls
              simp only [Bool.and_eq_true, Bool.or_eq_true, beq_iff_eq, bne_iff_ne, ne_eq]
                at hcls
              obtain ⟨e1, e2⟩ := hcls
              by_cases c9 : add.op ≠ V3D_QPU_A_NOP ∧
                  (add.output_pack ≠ V3D_QPU_PACK_NONE ∨ add.a.unpack ≠ V3D_QPU_UNPACK_NONE ∨
                    add.b.unpack ≠ V3D_QPU_UNPACK_NONE)
              · rw [if_pos c9] at hp; exact absurd hp (by simp)
              · rw [if_neg c9] at hp
                replace hp : some _ = some f := hp
                cases hp
                dsimp only
                have eo : d.opcode_first % 256 = d.opcode_first := Nat.mod_eq_of_lt (by omega)
                rw [eo]
                have hany := List.all_eq_true.mp add_ops_v33_any d hd
                unfold add33_any_check at hany
                simp only [Bool.and_eq_true, decide_eq_true_eq] at hany
                have hlow : d.opcode_first ≤ 248 ∨ d.opcode_first = 252 := by omega
                refine v3d33_qpu_add_unpack_core_of_row devinfo hv _ _ _ _ ma d hd ?_ hval ?_
                · have em : v3d33_qpu_add_unpack_map_op d.opcode_first = d.opcode_first := by
                    rcases hlow with h | h
                    · exact v3d33_qpu_add_unpack_map_op_low _ h
                    · rw [h]; decide
                  rw [em]
                  have hm1 := allBelow_spec _ _ e2 (add.a.mux % 8) (ha8 _)
                  have hm2 := allBelow_spec _ _ hm1 (add.b.mux % 8) (ha8 _)
                  rw [emux_a, emux_b]
                  exact hm2
                · intro h248
                  apply v3d_qpu_add_pack_waddr_stvpm
                  rcases e1 with ((e | e) | e) | e
                  · exact absurd h248 e
                  · exact Or.inl e
                  · exact Or.inr (Or.inl e)
                  · exact Or.inr (Or.inr e)

/-! ## The halves from V3D 7.1 on -/

theorem add_ops_v71_rows :
    add_ops_v71.all (fun d => !d.first_for add_ops_v71 || add71_row_check d) = true := by
  decide!
theorem add_ops_v71_any : add_ops_v71.all add71_any_check = true := by decide!
theorem mul_ops_v71_rows :
    mul_ops_v71.all (fun d => !d.first_for mul_ops_v71 || mul71_row_check d) = true := by
  decide!
theorem mul_ops_v71_any : mul_ops_v71.all mul71_any_check = true := by decide!

theorem anyopmask_test (m : Nat) (h : m < 64) : ANYOPMASK &&& (1 <<< m) ≠ 0 := by
  interval_cases m <;> decide

theorem raddr_match_any (d : opcode_desc) (opc rb : Nat) (h1 : d.opcode_first ≤ opc)
    (h2 : opc ≤ d.opcode_last) (hb : d.raddr_mask = ANYOPMASK) (hb64 : rb < 64) :
    d.raddr_match opc rb = true := by
  unfold opcode_desc.raddr_match
  rw [hb]
  simp only [Bool.and_eq_true, Nat.ble_eq, bne_iff_ne, ne_eq]
  exact ⟨⟨h1, h2⟩, anyopmask_test rb hb64⟩

theorem i32_unpack_pack_lt (u x : Nat) (h : v3d_qpu_int32_unpack_pack u = some x) : x < 5 := by
  unfold v3d_qpu_int32_unpack_pack at h
  split_ifs at h <;> cases h <;> decide

theorem i32_unpack_unpack_some (x : Nat) (h : x < 5) :
    ∃ u, v3d_qpu_int32_unpack_unpack x = some u := by
  interval_cases x <;> exact ⟨_, rfl⟩

/-- The operand modifiers of the MUL decoder of V3D 7.1 decode when a VFMUL opcode
lies in 4..8, the raddr of an FMOV selects one of the four 32-bit float unpack
modes and the raddr of a MOV one of the five integer ones. -/
theorem v3d71_qpu_mul_unpack_modifiers_some (mul_op op rd : Nat)
    (h1 : mul_op = V3D_QPU_M_VFMUL → 4 ≤ op ∧ op ≤ 8)
    (h2 : mul_op = V3D_QPU_M_FMOV → (rd >>> 2) &&& 7 < 4)
    (h3 : mul_op = V3D_QPU_M_MOV → (rd >>> 2) &&& 7 < 5) :
    (v3d71_qpu_mul_unpack_modifiers mul_op op rd).isSome = true := by
  unfold v3d71_qpu_mul_unpack_modifiers
  obtain ⟨ua, hua⟩ := f32_unpack_unpack_some ((op >>> 2) &&& 3) (and3_lt _)
  obtain ⟨ub, hub⟩ := f32_unpack_unpack_some ((op >>> 0) &&& 3) (and3_lt _)
  by_cases c1 : mul_op = V3D_QPU_M_FMUL
  · rw [if_pos c1, hua, hub]; rfl
  · rw [if_neg c1]
    by_cases c2 : mul_op = V3D_QPU_M_FMOV
    · obtain ⟨u, hu⟩ := f32_unpack_unpack_some _ (h2 c2)
      rw [if_pos c2, hu]; rfl
    · rw [if_neg c2]
      by_cases c3 : mul_op = V3D_QPU_M_VFMUL
      · have hr : (u32_sub (op &&& 7) 4) &&& 7 < 5 := by
          obtain ⟨g1, g2⟩ := h1 c3
          interval_cases op <;> decide
        obtain ⟨u, hu⟩ := f16_unpack_unpack_some _ hr
        rw [if_pos c3, hu]; rfl
      · rw [if_neg c3]
        by_cases c4 : mul_op = V3D_QPU_M_MOV
        · obtain ⟨u, hu⟩ := i32_unpack_unpack_some _ (h3 c4)
          rw [if_pos c4, hu]; rfl
        · rw [if_neg c4]; rfl

theorem shr2_and7_lt4 (rd : Nat) (h : rd < 16) : (rd >>> 2) &&& 7 < 4 := by
  interval_cases rd <;> decide

/-- From V3D 7.1 on, the MUL decoder succeeds on every opcode and raddr that passes
the mask of some row of `mul_ops_v71` valid in the version, unless the raddr of
opcode 14 names an FMOV unpack mode the decoder does not know. -/
theorem v3d71_qpu_mul_unpack_core_of_row (devinfo : v3d_device_info) (hv : ¬ devinfo.ver < 71)
    (opc rd : Nat) (mm : Bool) (d : opcode_desc) (hd : d ∈ mul_ops_v71) (hrd : rd < 64)
    (hm : d.raddr_match opc rd = true)
    (hval : opcode_invalid_in_version devinfo d.first_ver d.last_ver = false)
    (hfm : opc = 14 → rd < 16 ∨ rd &&& 3 = 3 ∨ 32 ≤ rd) :
    (v3d71_qpu_mul_unpack_core devinfo opc rd mm).isSome = true := by
  have hm' : opcode_desc_matches_packed devinfo opc 0 0 rd d = true := by
    rw [opcode_desc_matches_packed_raddr devinfo hv, hm, hval]; rfl
  obtain ⟨d', h1, h2, h3⟩ := lookup_opcode_from_packed_of_mem devinfo _ opc 0 0 rd d hd hm'
  rw [opcode_desc_matches_packed_raddr devinfo hv] at h3
  simp only [Bool.and_eq_true, opcode_desc.raddr_match, Nat.ble_eq, bne_iff_ne, ne_eq] at h3
  obtain ⟨⟨⟨r1, r2⟩, r3⟩, _⟩ := h3
  have h5 := List.all_eq_true.mp mul_ops_v71_any d' h2
  unfold mul71_any_check at h5
  simp only [Bool.and_eq_true] at h5
  obtain ⟨⟨k1, k2⟩, k3⟩ := h5
  have h6 := v3d71_qpu_mul_unpack_modifiers_some d'.op opc rd (by
      intro e
      rw [if_pos e] at k1
      simp only [Bool.and_eq_true, beq_iff_eq] at k1
      omega) (by
      intro e
      rw [if_pos e] at k2
      simp only [Bool.and_eq_true, beq_iff_eq] at k2
      have k4 := allBelow_spec _ _ k2.2 rd hrd
      simp only [Bool.or_eq_true, beq_iff_eq, Bool.and_eq_true, bne_iff_ne, ne_eq,
        decide_eq_true_eq] at k4
      rcases k4 with k4 | ⟨k4, k5⟩
      · exact absurd k4 r3
      · rcases hfm (by omega) with g | g | g
        · exact shr2_and7_lt4 rd g
        · exact absurd g k4
        · omega) (by
      intro e
      rw [if_pos e] at k3
      have k4 := allBelow_spec _ _ k3 rd hrd
      simp only [Bool.or_eq_true, beq_iff_eq, decide_eq_true_eq] at k4
      rcases k4 with k4 | k4
      · exact absurd k4 r3
      · exact k4)
  unfold v3d71_qpu_mul_unpack_core
  rw [h1]
  dsimp only
  cases h7 : v3d71_qpu_mul_unpack_modifiers d'.op opc rd with
  | none => rw [h7] at h6; exact absurd h6 (by decide)
  | some m => rfl


/-- The row `lookup_opcode_from_instr` returns is a row of the table for the
operation, valid in the version, and passes every check that holds of the first
row of each operation. -/
theorem lookup_opcode_from_instr_row (devinfo : v3d_device_info) (T : List opcode_desc)
    (check : opcode_desc → Bool) (huni : opcode_table_uniform_versions T = true)
    (hrows : T.all (fun d => !d.first_for T || check d) = true)
    (op : Nat) (d : opcode_desc) (h : lookup_opcode_from_instr devinfo T op = some d) :
    d ∈ T ∧ d.op = op ∧
    opcode_invalid_in_version devinfo d.first_ver d.last_ver = false ∧ check d = true := by
  obtain ⟨h1, h2, h3⟩ := lookup_opcode_from_instr_some devinfo _ op d h
  refine ⟨h1, h2, h3, ?_⟩
  have h4 := lookup_opcode_from_instr_first devinfo op d T
    (opcode_table_uniform_versions_spec _ huni) h
  rw [List.all_eq_true] at hrows
  have h6 := hrows d h1
  have h7 : d.first_for T = true := by
    unfold opcode_desc.first_for
    rw [h2, h4]
    exact beq_self_eq_true _
  rw [h7] at h6
  simpa using h6

theorem v3d71_qpu_mul_unpack_core_of_some_row (devinfo : v3d_device_info)
    (hv : ¬ devinfo.ver < 71) (opc rd : Nat) (mm : Bool) (d : opcode_desc)
    (hd : d ∈ mul_ops_v71) (hrd : rd < 64)
    (hs : mul71_some_row d.op opc rd = true)
    (hval : opcode_invalid_in_version devinfo d.first_ver d.last_ver = false)
    (hfm : opc = 14 → rd < 16 ∨ rd &&& 3 = 3 ∨ 32 ≤ rd) :
    (v3d71_qpu_mul_unpack_core devinfo opc rd mm).isSome = true := by
  unfold mul71_some_row at hs
  rw [List.any_eq_true] at hs
  obtain ⟨d2, hd2, h2⟩ := hs
  simp only [Bool.and_eq_true, beq_iff_eq] at h2
  obtain ⟨⟨e1, e2⟩⟩ :=
    Nonempty.intro (opcode_table_uniform_versions_spec _ mul_ops_v71_uniform d2 hd2 d hd h2.1)
  exact v3d71_qpu_mul_unpack_core_of_row devinfo hv opc rd mm d2 hd2 hrd h2.2
    (by rw [e1, e2]; exact hval) hfm

theorem fmul_opcode_ne14 (p x y : Nat) (hp : p < 3) (hx : x < 4) (hy : y < 4) :
    (((16 + (p <<< 4)) ||| (x <<< 2)) ||| (y <<< 0)) % 64 ≠ 14 := by
  have := fmul_opcode_range p x y hp hx hy
  omega

theorem vfmul71_opcode_range (x : Nat) (hx : x < 5) :
    4 ≤ (4 ||| ((x + 4) &&& 7)) % 64 ∧ (4 ||| ((x + 4) &&& 7)) % 64 ≤ 8 := by
  interval_cases x <;> decide

/-- From V3D 7.1 on, the opcode and raddr `v3d71_qpu_mul_pack` writes into the word
decode: the opcode field is not zero and `v3d71_qpu_mul_unpack` finds a descriptor
and operand modifiers for them. -/
theorem v3d71_qpu_mul_pack_unpack_some (devinfo : v3d_device_info) (hv : ¬ devinfo.ver < 71)
    (mul : v3d_qpu_alu_half) (f : alu_pack_fields)
    (hp : v3d71_qpu_mul_pack_opcode devinfo mul = some f) (mm : Bool) :
    f.opcode % 64 ≠ 0 ∧
    (v3d71_qpu_mul_unpack_core devinfo (f.opcode % 64) (f.mux_b % 64) mm).isSome = true := by
  unfold v3d71_qpu_mul_pack_opcode at hp
  dsimp only at hp
  cases hl : lookup_opcode_from_instr devinfo mul_ops_v71 mul.op with
  | none => rw [hl] at hp; exact absurd hp (by simp)
  | some d =>
    rw [hl] at hp
    dsimp only at hp
    obtain ⟨hd, hdop, hval, hchk⟩ := lookup_opcode_from_instr_row devinfo mul_ops_v71
      mul71_row_check mul_ops_v71_uniform mul_ops_v71_rows mul.op d hl
    unfold mul71_row_check at hchk
    rw [hdop] at hchk
    simp only [Bool.and_eq_true, decide_eq_true_eq] at hchk
    obtain ⟨⟨⟨hf1, hfl⟩, hl63⟩, hcls⟩ := hchk
    have h64 : ∀ n : Nat, n % 64 < 64 := fun n => Nat.mod_lt _ (by decide)
    by_cases c1 : mul.op = V3D_QPU_M_FMUL
    · rw [if_pos c1] at hp hcls
      simp only [Bool.and_eq_true, beq_iff_eq] at hcls
      obtain ⟨⟨e1, e2⟩, e3⟩ := hcls
      rw [e1] at hp
      cases hp1 : v3d_qpu_float32_pack_pack mul.output_pack with
      | none => rw [hp1] at hp; exact absurd hp (by simp)
      | some p =>
        cases hp2 : v3d_qpu_float32_unpack_pack mul.a.unpack with
        | none => rw [hp1, hp2] at hp; exact absurd hp (by simp)
        | some x =>
          cases hp3 : v3d_qpu_float32_unpack_pack mul.b.unpack with
          | none => rw [hp1, hp2, hp3] at hp; exact absurd hp (by simp)
          | some y =>
            rw [hp1, hp2, hp3] at hp
            dsimp only at hp
            cases hp
            dsimp only
            have hr := fmul_opcode_range p x y (f32_pack_pack_lt _ _ hp1)
              (f32_unpack_pack_lt _ _ hp2) (f32_unpack_pack_lt _ _ hp3)
            refine ⟨by omega, ?_⟩
            exact v3d71_qpu_mul_unpack_core_of_row devinfo hv _ _ mm d hd (h64 _)
              (raddr_match_any d _ _ (by omega) (by omega) e3 (h64 _)) hval
              (fun h => by omega)
    · rw [if_neg c1] at hp hcls
      by_cases c2 : mul.op = V3D_QPU_M_FMOV
      · rw [if_pos c2] at hp hcls
        simp only [Bool.and_eq_true, beq_iff_eq] at hcls
        obtain ⟨e1, e2⟩ := hcls
        have hn : v3d_qpu_mul_op_num_src mul.op < 2 := by rw [c2]; decide
        rw [if_pos hn] at hp
        rw [e1] at hp
        cases hp1 : v3d_qpu_float32_pack_pack mul.output_pack with
        | none => rw [hp1] at hp; exact absurd hp (by simp)
        | some p =>
          cases hp2 : v3d_qpu_float32_unpack_pack mul.a.unpack with
          | none => rw [hp1, hp2] at hp; exact absurd hp (by simp)
          | some x =>
            rw [hp1, hp2] at hp
            dsimp only at hp
            cases hp
            dsimp only
            have hm1 := allBelow_spec _ _ e2 p (f32_pack_pack_lt _ _ hp1)
            have hm2 := allBelow_spec _ _ hm1 x (f32_unpack_pack_lt _ _ hp2)
            simp only [Bool.and_eq_true, decide_eq_true_eq] at hm2
            refine ⟨by decide, ?_⟩
            refine v3d71_qpu_mul_unpack_core_of_some_row devinfo hv _ _ mm d hd (h64 _) ?_ hval
              (fun _ => Or.inl hm2.1)
            rw [hdop]
            have e14 : 14 % 64 = 14 := rfl
            rw [e14, ← e1]
            exact hm2.2
      · rw [if_neg c2] at hp hcls
        by_cases c3 : mul.op = V3D_QPU_M_VFMUL
        · rw [if_pos c3] at hp hcls
          simp only [Bool.and_eq_true, beq_iff_eq] at hcls
          obtain ⟨⟨e1, e2⟩, e3⟩ := hcls
          rw [e1] at hp
          by_cases c4 : mul.output_pack ≠ V3D_QPU_PACK_NONE
          · rw [if_pos c4] at hp; exact absurd hp (by simp)
          · rw [if_neg c4] at hp
            cases hp2 : v3d_qpu_float16_unpack_pack mul.a.unpack with
            | none => rw [hp2] at hp; exact absurd hp (by simp)
            | some x =>
              rw [hp2] at hp
              dsimp only at hp
              by_cases c5 : mul.b.unpack ≠ V3D_QPU_UNPACK_NONE
              · rw [if_pos c5] at hp; exact absurd hp (by simp)
              · rw [if_neg c5] at hp
                replace hp : some _ = some f := hp
                cases hp
                dsimp only
                have hr := vfmul71_opcode_range x (f16_unpack_pack_lt _ _ hp2)
                have hr' : 4 ≤ (if mul.a.unpack = V3D_QPU_UNPACK_SWAP_16 then 8
                    else 4 ||| ((x + 4) &&& 7)) % 64 ∧
                    (if mul.a.unpack = V3D_QPU_UNPACK_SWAP_16 then 8
                    else 4 ||| ((x + 4) &&& 7)) % 64 ≤ 8 := by
                  by_cases c6 : mul.a.unpack = V3D_QPU_UNPACK_SWAP_16
                  · rw [if_pos c6]; decide
                  · rw [if_neg c6]; exact hr
                refine ⟨by omega, ?_⟩
                exact v3d71_qpu_mul_unpack_core_of_row devinfo hv _ _ mm d hd (h64 _)
                  (raddr_match_any d _ _ (by omega) (by omega) e3 (h64 _)) hval
                  (fun h => by omega)
        · rw [if_neg c3] at hp hcls
          by_cases c6 : mul.op = V3D_QPU_M_MOV
          · rw [if_pos c6] at hp hcls
            simp only [Bool.and_eq_true, beq_iff_eq] at hcls
            obtain ⟨e1, e2⟩ := hcls
            have hn : v3d_qpu_mul_op_num_src mul.op < 2 := by rw [c6]; decide
            rw [if_pos hn] at hp
            rw [e1] at hp
            by_cases c4 : mul.output_pack ≠ V3D_QPU_PACK_NONE
            · rw [if_pos c4] at hp; exact absurd hp (by simp)
            · rw [if_neg c4] at hp
              cases hp2 : v3d_qpu_int32_unpack_pack mul.a.unpack with
              | none => rw [hp2] at hp; exact absurd hp (by simp)
              | some x =>
                rw [hp2] at hp
                dsimp only at hp
                cases hp
                dsimp only
                have hm2 := allBelow_spec _ _ e2 x (i32_unpack_pack_lt _ _ hp2)
                simp only [Bool.and_eq_true, beq_iff_eq] at hm2
                refine ⟨by decide, ?_⟩
                refine v3d71_qpu_mul_unpack_core_of_some_row devinfo hv _ _ mm d hd (h64 _) ?_
                  hval (fun _ => Or.inr (Or.inl hm2.1))
                rw [hdop]
                have e14 : 14 % 64 = 14 := rfl
                rw [e14, ← e1]
                exact hm2.2
          · rw [if_neg c6] at hp hcls
            by_cases c7 : mul.op ≠ V3D_QPU_M_NOP ∧
                (mul.output_pack ≠ V3D_QPU_PACK_NONE ∨ mul.a.unpack ≠ V3D_QPU_UNPACK_NONE ∨
                  mul.b.unpack ≠ V3D_QPU_UNPACK_NONE)
            · rw [if_pos c7] at hp; exact absurd hp (by simp)
            · rw [if_neg c7] at hp
              replace hp : some _ = some f := hp
              cases hp
              dsimp only
              have eo : d.opcode_first % 64 = d.opcode_first := Nat.mod_eq_of_lt (by omega)
              rw [eo]
              have hm1 := allBelow_spec _ _ hcls (mul.b.raddr % 64) (h64 _)
              simp only [Bool.and_eq_true, Bool.or_eq_true, bne_iff_ne, ne_eq,
                decide_eq_true_eq] at hm1
              have eb : (if v3d_qpu_mul_op_num_src mul.op < 2
                    then u32_sub (ffsll d.raddr_mask) 1 else mul.b.raddr % 64) % 64 =
                  (if v3d_qpu_mul_op_num_src mul.op < 2
                    then u32_sub (ffsll d.raddr_mask) 1 else mul.b.raddr) % 64 := by
                by_cases n1 : v3d_qpu_mul_op_num_src mul.op < 2
                · rw [if_pos n1, if_pos n1]
                · rw [if_neg n1, if_neg n1, Nat.mod_mod]
              rw [eb] at hm1
              refine ⟨by omega, ?_⟩
              refine v3d71_qpu_mul_unpack_core_of_row devinfo hv _ _ mm d hd (h64 _) hm1.2 hval
                (fun h => ?_)
              rcases hm1.1 with g | g
              · exact absurd h g
              · exact Or.inr (Or.inr g)

/-- The operand modifiers of the ADD decoder of V3D 7.1 decode when the low three
opcode bits of a VFMIN or VFMAX are a 16-bit unpack mode, the raddr of an FMOV
selects one of the four 32-bit float unpack modes and the raddr of a MOV one of
the five integer ones. -/
theorem v3d71_qpu_add_unpack_modifiers_some (add_op op rb : Nat)
    (h1 : add_op = V3D_QPU_A_VFMIN ∨ add_op = V3D_QPU_A_VFMAX → op &&& 7 < 5)
    (h2 : add_op = V3D_QPU_A_FMOV → (rb >>> 2) &&& 7 < 4)
    (h3 : add_op = V3D_QPU_A_MOV → (rb >>> 2) &&& 7 < 5) :
    (v3d71_qpu_add_unpack_modifiers add_op op rb).isSome = true := by
  unfold v3d71_qpu_add_unpack_modifiers
  obtain ⟨ua, hua⟩ := f32_unpack_unpack_some ((op >>> 2) &&& 3) (and3_lt _)
  obtain ⟨ub, hub⟩ := f32_unpack_unpack_some ((op >>> 0) &&& 3) (and3_lt _)
  obtain ⟨uc, huc⟩ := f32_unpack_unpack_some ((rb >>> 2) &&& 3) (and3_lt _)
  by_cases c1 : add_op = V3D_QPU_A_FADD ∨ add_op = V3D_QPU_A_FADDNF ∨ add_op = V3D_QPU_A_FSUB ∨
     add_op = V3D_QPU_A_FMIN ∨ add_op = V3D_QPU_A_FMAX ∨ add_op = V3D_QPU_A_FCMP ∨
     add_op = V3D_QPU_A_VFPACK
  · rw [if_pos c1]; dsimp only; rw [hua, hub]; rfl
  · rw [if_neg c1]
    by_cases c2 : add_op = V3D_QPU_A_FFLOOR ∨ add_op = V3D_QPU_A_FROUND ∨
        add_op = V3D_QPU_A_FTRUNC ∨ add_op = V3D_QPU_A_FCEIL ∨ add_op = V3D_QPU_A_FDX ∨
        add_op = V3D_QPU_A_FDY
    · rw [if_pos c2, hua]; rfl
    · rw [if_neg c2]
      by_cases c3 : add_op = V3D_QPU_A_FTOIN ∨ add_op = V3D_QPU_A_FTOIZ ∨
          add_op = V3D_QPU_A_FTOUZ ∨ add_op = V3D_QPU_A_FTOC
      · rw [if_pos c3, huc]; rfl
      · rw [if_neg c3]
        by_cases c4 : add_op = V3D_QPU_A_VFMIN ∨ add_op = V3D_QPU_A_VFMAX
        · obtain ⟨u, hu⟩ := f16_unpack_unpack_some (op &&& 7) (h1 c4)
          rw [if_pos c4, hu]; rfl
        · rw [if_neg c4]
          by_cases c5 : add_op = V3D_QPU_A_MOV
          · obtain ⟨u, hu⟩ := i32_unpack_unpack_some _ (h3 c5)
            rw [if_pos c5, hu]; rfl
          · rw [if_neg c5]
            by_cases c6 : add_op = V3D_QPU_A_FMOV
            · have h4 := h2 c6
              obtain ⟨u, hu⟩ := f32_unpack_unpack_some _ h4
              rw [if_pos c6]
              dsimp only
              rw [if_neg (by omega), hu]; rfl
            · rw [if_neg c6]; rfl

/-- From V3D 7.1 on, the ADD decoder succeeds on every opcode and raddr that passes
the mask of some row of `add_ops_v71` valid in the version, provided the write
address of opcode 190 (the VPM stores) is 0, 1 or 2 and the raddr of opcode 249
names no FMOV unpack mode the decoder does not know. -/
theorem v3d71_qpu_add_unpack_core_of_row (devinfo : v3d_device_info) (hv : ¬ devinfo.ver < 71)
    (opc ra rb waddr : Nat) (ma sa sb : Bool) (d : opcode_desc) (hd : d ∈ add_ops_v71)
    (hrb : rb < 64) (hm : d.raddr_match opc rb = true)
    (hval : opcode_invalid_in_version devinfo d.first_ver d.last_ver = false)
    (hst : opc = 190 → waddr ≤ 2)
    (hfm : opc = 249 → rb < 16 ∨ rb &&& 3 = 3 ∨ 32 ≤ rb) :
    (v3d71_qpu_add_unpack_core devinfo opc ra rb waddr ma sa sb).isSome = true := by
  have hm' : opcode_desc_matches_packed devinfo opc 0 0 rb d = true := by
    rw [opcode_desc_matches_packed_raddr devinfo hv, hm, hval]; rfl
  obtain ⟨d', h1, h2, h3⟩ := lookup_opcode_from_packed_of_mem devinfo _ opc 0 0 rb d hd hm'
  rw [opcode_desc_matches_packed_raddr devinfo hv] at h3
  simp only [Bool.and_eq_true, opcode_desc.raddr_match, Nat.ble_eq, bne_iff_ne, ne_eq] at h3
  obtain ⟨⟨⟨r1, r2⟩, r3⟩, _⟩ := h3
  have h5 := List.all_eq_true.mp add_ops_v71_any d' h2
  unfold add71_any_check at h5
  simp only [Bool.and_eq_true] at h5
  obtain ⟨⟨⟨k1, k2⟩, k3⟩, k4⟩ := h5
  have hord := v3d_qpu_add_unpack_order_cases
    (decide (v3d71_qpu_add_order_key sa ((opc >>> 2) &&& 3) ra >
      v3d71_qpu_add_order_key sb (opc &&& 3) rb)) d'.op
  generalize hop1 : v3d_qpu_add_unpack_order
    (decide (v3d71_qpu_add_order_key sa ((opc >>> 2) &&& 3) ra >
      v3d71_qpu_add_order_key sb (opc &&& 3) rb)) d'.op = op1 at hord
  -- an operation outside the FMIN/FMAX and FADD/FADDNF pairs is the row's own
  have hsame : ∀ P : Nat → Prop, ¬ P V3D_QPU_A_FMAX → ¬ P V3D_QPU_A_FADDNF →
      P op1 → P d'.op := by
    intro P n1 n2 hs
    rcases hord with e | ⟨_, e⟩ | ⟨_, e⟩
    · rw [← e]; exact hs
    · rw [e] at hs; exact absurd hs n1
    · rw [e] at hs; exact absurd hs n2
  obtain ⟨op2, hs2, hop2⟩ := v3d_qpu_add_unpack_stvpm_some op1 waddr (by
    intro hs
    have hs' := hsame (fun o => o = V3D_QPU_A_STVPMV ∨ o = V3D_QPU_A_STVPMD ∨
      o = V3D_QPU_A_STVPMP) (by decide) (by decide) hs
    rw [if_pos hs'] at k2
    simp only [Bool.and_eq_true, beq_iff_eq] at k2
    exact hst (by omega))
  have hback : ∀ P : Nat → Prop, ¬ P V3D_QPU_A_FMAX → ¬ P V3D_QPU_A_FADDNF →
      ¬ P V3D_QPU_A_STVPMV → ¬ P V3D_QPU_A_STVPMD → ¬ P V3D_QPU_A_STVPMP →
      P op2 → P d'.op := by
    intro P n1 n2 n3 n4 n5 hs
    apply hsame P n1 n2
    rcases hop2 with e | ⟨_, e | e | e⟩
    · rw [← e]; exact hs
    · rw [e] at hs; exact absurd hs n3
    · rw [e] at hs; exact absurd hs n4
    · rw [e] at hs; exact absurd hs n5
  have hmod := v3d71_qpu_add_unpack_modifiers_some op2 opc rb (by
      intro hs
      have hs' := hback (fun o => o = V3D_QPU_A_VFMIN ∨ o = V3D_QPU_A_VFMAX)
        (by decide) (by decide) (by decide) (by decide) (by decide) hs
      rw [if_pos hs'] at k1
      simp only [Bool.and_eq_true, beq_iff_eq] at k1
      have g1 : 176 ≤ opc := by omega
      have g2 : opc ≤ 180 := by omega
      interval_cases opc <;> decide) (by
      intro hs
      have hs' := hback (fun o => o = V3D_QPU_A_FMOV)
        (by decide) (by decide) (by decide) (by decide) (by decide) hs
      rw [if_pos hs'] at k3
      simp only [Bool.and_eq_true, beq_iff_eq] at k3
      have k5 := allBelow_spec _ _ k3.2 rb hrb
      simp only [Bool.or_eq_true, beq_iff_eq, Bool.and_eq_true, bne_iff_ne, ne_eq,
        decide_eq_true_eq] at k5
      rcases k5 with k5 | ⟨k5, k6⟩
      · exact absurd k5 r3
      · rcases hfm (by omega) with g | g | g
        · exact shr2_and7_lt4 rb g
        · exact absurd g k5
        · omega) (by
      intro hs
      have hs' := hback (fun o => o = V3D_QPU_A_MOV)
        (by decide) (by decide) (by decide) (by decide) (by decide) hs
      rw [if_pos hs'] at k4
      have k5 := allBelow_spec _ _ k4 rb hrb
      simp only [Bool.or_eq_true, beq_iff_eq, decide_eq_true_eq] at k5
      rcases k5 with k5 | k5
      · exact absurd k5 r3
      · exact k5)
  unfold v3d71_qpu_add_unpack_core
  rw [h1]
  dsimp only
  rw [hop1, hs2]
  dsimp only
  cases hm3 : v3d71_qpu_add_unpack_modifiers op2 opc rb with
  | none => rw [hm3] at hmod; exact absurd hmod (by decide)
  | some m => rfl

theorem v3d71_qpu_add_unpack_core_of_some_row (devinfo : v3d_device_info)
    (hv : ¬ devinfo.ver < 71) (opc ra rb waddr : Nat) (ma sa sb : Bool) (d : opcode_desc)
    (hd : d ∈ add_ops_v71) (hrb : rb < 64)
    (hs : add71_some_row d.op opc rb = true)
    (hval : opcode_invalid_in_version devinfo d.first_ver d.last_ver = false)
    (hst : opc = 190 → waddr ≤ 2)
    (hfm : opc = 249 → rb < 16 ∨ rb &&& 3 = 3 ∨ 32 ≤ rb) :
    (v3d71_qpu_add_unpack_core devinfo opc ra rb waddr ma sa sb).isSome = true := by
  unfold add71_some_row at hs
  rw [List.any_eq_true] at hs
  obtain ⟨d2, hd2, h2⟩ := hs
  simp only [Bool.and_eq_true, beq_iff_eq] at h2
  obtain ⟨⟨e1, e2⟩⟩ :=
    Nonempty.intro (opcode_table_uniform_versions_spec _ add_ops_v71_uniform d2 hd2 d hd h2.1)
  exact v3d71_qpu_add_unpack_core_of_row devinfo hv opc ra rb waddr ma sa sb d2 hd2 hrb h2.2
    (by rw [e1, e2]; exact hval) hst hfm

theorem add_ops_v71_vfpack :
    raddr_desc 53 55 ANYOPMASK V3D_QPU_A_VFPACK 0 0 ∈ add_ops_v71 ∧
    raddr_desc 57 59 ANYOPMASK V3D_QPU_A_VFPACK 0 0 ∈ add_ops_v71 ∧
    raddr_desc 61 63 ANYOPMASK V3D_QPU_A_VFPACK 0 0 ∈ add_ops_v71 := by decide!

theorem mem_vfpack_rows_v71 (o : Nat) (h : o ∈ [53, 54, 55, 57, 58, 59, 61, 62, 63]) :
    ∃ d ∈ add_ops_v71, d.opcode_first ≤ o ∧ o ≤ d.opcode_last ∧ d.raddr_mask = ANYOPMASK ∧
      d.first_ver = 0 ∧ d.last_ver = 0 ∧ o < 190 := by
  obtain ⟨m1, m2, m3⟩ := add_ops_v71_vfpack
  simp only [List.mem_cons, List.mem_singleton, List.not_mem_nil, or_false] at h
  rcases h with h | h | h | h | h | h | h | h | h <;> subst h
  · exact ⟨_, m1, by decide, by decide, rfl, rfl, rfl, by decide⟩
  · exact ⟨_, m1, by decide, by decide, rfl, rfl, rfl, by decide⟩
  · exact ⟨_, m1, by decide, by decide, rfl, rfl, rfl, by decide⟩
  · exact ⟨_, m2, by decide, by decide, rfl, rfl, rfl, by decide⟩
  · exact ⟨_, m2, by decide, by decide, rfl, rfl, rfl, by decide⟩
  · exact ⟨_, m2, by decide, by decide, rfl, rfl, rfl, by decide⟩
  · exact ⟨_, m3, by decide, by decide, rfl, rfl, rfl, by decide⟩
  · exact ⟨_, m3, by decide, by decide, rfl, rfl, rfl, by decide⟩
  · exact ⟨_, m3, by decide, by decide, rfl, rfl, rfl, by decide⟩

theorem add71_fcmp_range (x y : Nat) (hx : x < 4) (hy : y < 4) :
    192 ≤ ((192 ||| (x <<< 2)) ||| (y <<< 0)) % 256 ∧
    ((192 ||| (x <<< 2)) ||| (y <<< 0)) % 256 ≤ 207 := by
  interval_cases x <;> interval_cases y <;> decide

/-- The opcode the first class of `v3d71_qpu_add_pack` (FADD, FADDNF, FSUB, FMIN,
FMAX, FCMP) computes from the row and the output pack lies in the row, whatever
the two unpack modes or-ed in. -/
theorem add71_p1_opcode (d : opcode_desc) (op output_pack o1 : Nat)
    (hcmp : op = V3D_QPU_A_FCMP → d.opcode_first = 192 ∧ d.opcode_last = 207)
    (hoth : op ≠ V3D_QPU_A_FCMP →
      (d.opcode_first = 0 ∨ d.opcode_first = 64 ∨ d.opcode_first = 128) ∧
      d.opcode_last = d.opcode_first + 47)
    (ho : (if op ≠ V3D_QPU_A_FCMP then
        (v3d_qpu_float32_pack_pack output_pack).map (fun p => d.opcode_first ||| (p <<< 4))
      else some d.opcode_first) = some o1) (x y : Nat) (hx : x < 4) (hy : y < 4) :
    d.opcode_first ≤ ((o1 ||| (x <<< 2)) ||| (y <<< 0)) % 256 ∧
    ((o1 ||| (x <<< 2)) ||| (y <<< 0)) % 256 ≤ d.opcode_last ∧
    ((o1 ||| (x <<< 2)) ||| (y <<< 0)) % 256 ≠ 190 ∧
    ((o1 ||| (x <<< 2)) ||| (y <<< 0)) % 256 ≠ 249 := by
  by_cases c : op = V3D_QPU_A_FCMP
  · rw [if_neg (fun h => h c)] at ho
    cases ho
    obtain ⟨e1, e2⟩ := hcmp c
    rw [e1, e2]
    have := add71_fcmp_range x y hx hy
    omega
  · rw [if_pos c] at ho
    obtain ⟨e1, e2⟩ := hoth c
    cases hp1 : v3d_qpu_float32_pack_pack output_pack with
    | none => rw [hp1] at ho; exact absurd ho (by simp)
    | some p =>
      rw [hp1] at ho
      replace ho : some (d.opcode_first ||| (p <<< 4)) = some o1 := ho
      cases ho
      have hr := add33_p1_range d.opcode_first p x y (by omega) (f32_pack_pack_lt _ _ hp1) hx hy
      omega


/-- From V3D 7.1 on, the opcode, raddr and write address `v3d71_qpu_add_pack` writes
into the word decode: `v3d71_qpu_add_unpack` finds a descriptor and operand
modifiers for them.  A replacement signal, when there is one, is the packed form of
the signal with both small-immediate flags of operands a and b inverted. -/
theorem v3d71_qpu_add_pack_unpack_some (devinfo : v3d_device_info) (hv : ¬ devinfo.ver < 71)
    (add : v3d_qpu_alu_half) (sig : v3d_qpu_sig) (r : add71_pack_fields)
    (hp : v3d71_qpu_add_pack_opcode devinfo add sig = some r) (ma sa sb : Bool) :
    (v3d71_qpu_add_unpack_core devinfo (r.fields.opcode % 256) (r.fields.mux_a % 64)
      (r.fields.mux_b % 64) ((v3d_qpu_add_pack_waddr add).1 % 64) ma sa sb).isSome = true ∧
    (r.sig = none ∨ ∃ S, r.sig = some S ∧
      v3d_qpu_sig_pack devinfo { sig with small_imm_a := !sig.small_imm_a,
                                          small_imm_b := !sig.small_imm_b } = some S) := by
  unfold v3d71_qpu_add_pack_opcode at hp
  dsimp only at hp
  cases hl : lookup_opcode_from_instr devinfo add_ops_v71 add.op with
  | none => rw [hl] at hp; exact absurd hp (by simp)
  | some d =>
    rw [hl] at hp
    dsimp only at hp
    obtain ⟨hd, hdop, hval, hchk⟩ := lookup_opcode_from_instr_row devinfo add_ops_v71
      add71_row_check add_ops_v71_uniform add_ops_v71_rows add.op d hl
    unfold add71_row_check at hchk
    rw [hdop] at hchk
    simp only [Bool.and_eq_true, decide_eq_true_eq] at hchk
    obtain ⟨⟨hfl, hl255⟩, hcls⟩ := hchk
    have h64 : ∀ n : Nat, n % 64 < 64 := fun n => Nat.mod_lt _ (by decide)
    by_cases c1 : add.op = V3D_QPU_A_FADD ∨ add.op = V3D_QPU_A_FADDNF ∨
        add.op = V3D_QPU_A_FSUB ∨ add.op = V3D_QPU_A_FMIN ∨ add.op = V3D_QPU_A_FMAX ∨
        add.op = V3D_QPU_A_FCMP
    · rw [if_pos c1] at hp hcls
      simp only [Bool.and_eq_true, beq_iff_eq] at hcls
      obtain ⟨e1, e3⟩ := hcls
      have hcmp : add.op = V3D_QPU_A_FCMP → d.opcode_first = 192 ∧ d.opcode_last = 207 := by
        intro c
        rw [if_pos c] at e1
        simpa using e1
      have hoth : add.op ≠ V3D_QPU_A_FCMP →
          (d.opcode_first = 0 ∨ d.opcode_first = 64 ∨ d.opcode_first = 128) ∧
          d.opcode_last = d.opcode_first + 47 := by
        intro c
        rw [if_neg c] at e1
        simp only [Bool.and_eq_true, Bool.or_eq_true, beq_iff_eq] at e1
        obtain ⟨(e | e) | e, e'⟩ := e1
        · exact ⟨Or.inl e, e'⟩
        · exact ⟨Or.inr (Or.inl e), e'⟩
        · exact ⟨Or.inr (Or.inr e), e'⟩
      cases ho : (if add.op ≠ V3D_QPU_A_FCMP then
          (v3d_qpu_float32_pack_pack add.output_pack).map
            (fun output_pack => d.opcode_first ||| (output_pack <<< 4))
          else some d.opcode_first) with
      | none => rw [ho] at hp; exact absurd hp (by simp)
      | some o1 =>
        rw [ho] at hp
        dsimp only at hp
        have hrange := add71_p1_opcode d add.op add.output_pack o1 hcmp hoth ho
        cases hp2 : v3d_qpu_float32_unpack_pack add.a.unpack with
        | none => rw [hp2] at hp; exact absurd hp (by simp)
        | some x =>
          cases hp3 : v3d_qpu_float32_unpack_pack add.b.unpack with
          | none => rw [hp2, hp3] at hp; exact absurd hp (by simp)
          | some y =>
            rw [hp2, hp3] at hp
            dsimp only at hp
            have hx' := f32_unpack_pack_lt _ _ hp2
            have hy' := f32_unpack_pack_lt _ _ hp3
            have hyes := hrange y x hy' hx'
            have hno := hrange x y hx' hy'
            have fin : ∀ o ra rb, d.opcode_first ≤ o % 256 → o % 256 ≤ d.opcode_last →
                o % 256 ≠ 190 → o % 256 ≠ 249 →
                (v3d71_qpu_add_unpack_core devinfo (o % 256) (ra % 64) (rb % 64)
                  ((v3d_qpu_add_pack_waddr add).1 % 64) ma sa sb).isSome = true := by
              intro o ra rb g1 g2 g3 g4
              exact v3d71_qpu_add_unpack_core_of_row devinfo hv _ _ _ _ ma sa sb d hd (h64 _)
                (raddr_match_any d _ _ g1 g2 e3 (h64 _)) hval (fun h => absurd h g3)
                (fun h => absurd h g4)
            by_cases hsw : v3d_qpu_add_pack_swaps add.op
                (decide (v3d71_qpu_add_order_key sig.small_imm_a x add.a.raddr >
                  v3d71_qpu_add_order_key sig.small_imm_b y
                    (if v3d_qpu_add_op_num_src add.op < 2
                      then u32_sub (ffsll d.raddr_mask) 1 else add.b.raddr))) = true
            · rw [if_pos hsw] at hp
              by_cases hsi : sig.small_imm_a = true ∨ sig.small_imm_b = true
              · rw [if_pos hsi] at hp
                cases hsp : v3d_qpu_sig_pack devinfo
                    { sig with small_imm_a := !sig.small_imm_a,
                               small_imm_b := !sig.small_imm_b } with
                | none => rw [hsp] at hp; exact absurd hp (by simp)
                | some S =>
                  rw [hsp] at hp
                  replace hp : some _ = some r := hp
                  cases hp
                  exact ⟨fin _ _ _ hyes.1 hyes.2.1 hyes.2.2.1 hyes.2.2.2,
                    Or.inr ⟨S, rfl, rfl⟩⟩
              · rw [if_neg hsi] at hp
                replace hp : some _ = some r := hp
                cases hp
                exact ⟨fin _ _ _ hyes.1 hyes.2.1 hyes.2.2.1 hyes.2.2.2, Or.inl rfl⟩
            · rw [if_neg hsw] at hp
              replace hp : some _ = some r := hp
              cases hp
              exact ⟨fin _ _ _ hno.1 hno.2.1 hno.2.2.1 hno.2.2.2, Or.inl rfl⟩
    · rw [if_neg c1] at hp hcls
      have eo : d.opcode_first % 256 = d.opcode_first := Nat.mod_eq_of_lt (by omega)
      by_cases c2 : add.op = V3D_QPU_A_VFPACK
      · rw [if_pos c2] at hp hcls
        simp only [Bool.and_eq_true, beq_iff_eq] at hcls
        obtain ⟨⟨e1, e2⟩, e3⟩ := hcls
        rw [e2, e3] at hval
        by_cases c3 : add.a.unpack = V3D_QPU_UNPACK_ABS ∨ add.b.unpack = V3D_QPU_UNPACK_ABS
        · rw [if_pos c3] at hp; exact absurd hp (by simp)
        · rw [if_neg c3] at hp
          cases hp2 : v3d_qpu_float32_unpack_pack add.a.unpack with
          | none => rw [hp2] at hp; exact absurd hp (by simp)
          | some x =>
            cases hp3 : v3d_qpu_float32_unpack_pack add.b.unpack with
            | none => rw [hp2, hp3] at hp; exact absurd hp (by simp)
            | some y =>
              rw [hp2, hp3, e1] at hp
              dsimp only at hp
              cases hp
              dsimp only
              have hr := add33_p2_range x y (f32_unpack_pack_lt _ _ hp2)
                (f32_unpack_pack_lt _ _ hp3)
                (f32_unpack_pack_pos _ _ hp2 (fun h => c3 (Or.inl h)))
                (f32_unpack_pack_pos _ _ hp3 (fun h => c3 (Or.inr h)))
              obtain ⟨d', hd', g1, g2, g3, g5, g6, g7⟩ := mem_vfpack_rows_v71 _ hr
              exact ⟨v3d71_qpu_add_unpack_core_of_row devinfo hv _ _ _ _ ma sa sb d' hd' (h64 _)
                (raddr_match_any d' _ _ g1 g2 g3 (h64 _)) (by rw [g5, g6]; exact hval)
                (by omega) (by omega), Or.inl rfl⟩
      · rw [if_neg c2] at hp hcls
        by_cases c3 : add.op = V3D_QPU_A_FFLOOR ∨ add.op = V3D_QPU_A_FROUND ∨
            add.op = V3D_QPU_A_FTRUNC ∨ add.op = V3D_QPU_A_FCEIL ∨ add.op = V3D_QPU_A_FDX ∨
            add.op = V3D_QPU_A_FDY
        · rw [if_pos c3] at hp hcls
          simp only [Bool.and_eq_true, Bool.or_eq_true, beq_iff_eq] at hcls
          obtain ⟨e1, e2⟩ := hcls
          have hn : v3d_qpu_add_op_num_src add.op < 2 := by
            rcases c3 with h | h | h | h | h | h <;> rw [h] <;> decide
          rw [if_pos hn] at hp
          cases hp1 : v3d_qpu_float32_pack_pack add.output_pack with
          | none => rw [hp1] at hp; exact absurd hp (by simp)
          | some p =>
            cases hp2 : v3d_qpu_float32_unpack_pack add.a.unpack with
            | none => rw [hp1, hp2] at hp; exact absurd hp (by simp)
            | some x =>
              rw [hp1, hp2] at hp
              dsimp only at hp
              by_cases c4 : x = 0
              · rw [if_pos c4] at hp; exact absurd hp (by simp)
              · rw [if_neg c4] at hp
                replace hp : some _ = some r := hp
                cases hp
                dsimp only
                have hm1 := allBelow_spec _ _ e2 p (f32_pack_pack_lt _ _ hp1)
                have hm2 := allBelow_spec _ _ hm1 x (f32_unpack_pack_lt _ _ hp2)
                simp only [Bool.or_eq_true, beq_iff_eq] at hm2
                rw [eo]
                refine ⟨v3d71_qpu_add_unpack_core_of_some_row devinfo hv _ _ _ _ ma sa sb d hd
                  (h64 _) ?_ hval (by omega) (by omega), Or.inl rfl⟩
                rw [hdop]
                rcases hm2 with g | g
                · exact absurd g c4
                · exact g
        · rw [if_neg c3] at hp hcls
          by_cases c5 : add.op = V3D_QPU_A_FTOIN ∨ add.op = V3D_QPU_A_FTOIZ ∨
              add.op = V3D_QPU_A_FTOUZ ∨ add.op = V3D_QPU_A_FTOC
          · rw [if_pos c5] at hp hcls
            simp only [Bool.and_eq_true, Bool.or_eq_true, beq_iff_eq] at hcls
            obtain ⟨e1, e2⟩ := hcls
            have hn : v3d_qpu_add_op_num_src add.op < 2 := by
              rcases c5 with h | h | h | h <;> rw [h] <;> decide
            rw [if_pos hn] at hp
            by_cases c6 : add.output_pack ≠ V3D_QPU_PACK_NONE
            · rw [if_pos c6] at hp; exact absurd hp (by simp)
            · rw [if_neg c6] at hp
              cases hp2 : v3d_qpu_float32_unpack_pack add.a.unpack with
              | none => rw [hp2] at hp; exact absurd hp (by simp)
              | some x =>
                rw [hp2] at hp
                dsimp only at hp
                by_cases c4 : x = 0
                · rw [if_pos c4] at hp; exact absurd hp (by simp)
                · rw [if_neg c4] at hp
                  replace hp : some _ = some r := hp
                  cases hp
                  dsimp only
                  have hm2 := allBelow_spec _ _ e2 x (f32_unpack_pack_lt _ _ hp2)
                  simp only [Bool.or_eq_true, beq_iff_eq] at hm2
                  rw [eo]
                  refine ⟨v3d71_qpu_add_unpack_core_of_some_row devinfo hv _ _ _ _ ma sa sb d hd
                    (h64 _) ?_ hval (by omega) (by omega), Or.inl rfl⟩
                  rw [hdop]
                  rcases hm2 with g | g
                  · exact absurd g c4
                  · exact g
          · rw [if_neg c5] at hp hcls
            by_cases c7 : add.op = V3D_QPU_A_VFMIN ∨ add.op = V3D_QPU_A_VFMAX
            · rw [if_pos c7] at hp hcls
              simp only [Bool.and_eq_true, beq_iff_eq] at hcls
              obtain ⟨⟨e1, e2⟩, e3⟩ := hcls
              by_cases c8 : add.output_pack ≠ V3D_QPU_PACK_NONE ∨
                  add.b.unpack ≠ V3D_QPU_UNPACK_NONE
              · rw [if_pos c8] at hp; exact absurd hp (by simp)
              · rw [if_neg c8] at hp
                cases hp2 : v3d_qpu_float16_unpack_pack add.a.unpack with
                | none => rw [hp2] at hp; exact absurd hp (by simp)
                | some x =>
                  rw [hp2] at hp
                  replace hp : some _ = some r := hp
                  cases hp
                  dsimp only
                  have hr := add33_p5_range d.opcode_first x (Or.inl e1)
                    (f16_unpack_pack_lt _ _ hp2)
                  exact ⟨v3d71_qpu_add_unpack_core_of_row devinfo hv _ _ _ _ ma sa sb d hd
                    (h64 _) (raddr_match_any d _ _ hr.1 (by omega) e3 (h64 _)) hval
                    (by omega) (by omega), Or.inl rfl⟩
            · rw [if_neg c7] at hp hcls
              by_cases c9 : add.op = V3D_QPU_A_MOV
              · rw [if_pos c9] at hp hcls
                simp only [Bool.and_eq_true, beq_iff_eq] at hcls
                obtain ⟨e1, e2⟩ := hcls
                have hn : v3d_qpu_add_op_num_src add.op < 2 := by rw [c9]; decide
                rw [if_pos hn] at hp
                by_cases c6 : add.output_pack ≠ V3D_QPU_PACK_NONE
                · rw [if_pos c6] at hp; exact absurd hp (by simp)
                · rw [if_neg c6] at hp
                  cases hp2 : v3d_qpu_int32_unpack_pack add.a.unpack with
                  | none => rw [hp2] at hp; exact absurd hp (by simp)
                  | some x =>
                    rw [hp2] at hp
                    replace hp : some _ = some r := hp
                    cases hp
                    dsimp only
                    have hm2 := allBelow_spec _ _ e2 x (i32_unpack_pack_lt _ _ hp2)
                    simp only [Bool.and_eq_true, beq_iff_eq] at hm2
                    rw [eo]
                    refine ⟨v3d71_qpu_add_unpack_core_of_some_row devinfo hv _ _ _ _ ma sa sb d
                      hd (h64 _) ?_ hval (by omega) (fun _ => Or.inr (Or.inl hm2.1)), Or.inl rfl⟩
                    rw [hdop]
                    exact hm2.2
              · rw [if_neg c9] at hp hcls
                by_cases c10 : add.op = V3D_QPU_A_FMOV
                · rw [if_pos c10] at hp hcls
                  simp only [Bool.and_eq_true, beq_iff_eq] at hcls
                  obtain ⟨e1, e2⟩ := hcls
                  cases hp1 : v3d_qpu_float32_pack_pack add.output_pack with
                  | none => rw [hp1] at hp; exact absurd hp (by simp)
                  | some p =>
                    cases hp2 : v3d_qpu_float32_unpack_pack add.a.unpack with
                    | none => rw [hp1, hp2] at hp; exact absurd hp (by simp)
                    | some x =>
                      rw [hp1, hp2] at hp
                      replace hp : some _ = some r := hp
                      cases hp
                      dsimp only
                      have hm1 := allBelow_spec _ _ e2 p (f32_pack_pack_lt _ _ hp1)
                      have hm2 := allBelow_spec _ _ hm1 x (f32_unpack_pack_lt _ _ hp2)
                      simp only [Bool.and_eq_true, decide_eq_true_eq] at hm2
                      rw [eo]
                      refine ⟨v3d71_qpu_add_unpack_core_of_some_row devinfo hv _ _ _ _ ma sa sb
                        d hd (h64 _) ?_ hval (by omega) (fun _ => Or.inl hm2.1), Or.inl rfl⟩
                      rw [hdop]
                      exact hm2.2
                · rw [if_neg c10] at hp hcls
                  simp only [Bool.and_eq_true, Bool.or_eq_true, beq_iff_eq, bne_iff_ne, ne_eq]
                    at hcls
                  obtain ⟨⟨e1, e3⟩, e2⟩ := hcls
                  by_cases c11 : add.op ≠ V3D_QPU_A_NOP ∧
                      (add.output_pack ≠ V3D_QPU_PACK_NONE ∨
                        add.a.unpack ≠ V3D_QPU_UNPACK_NONE ∨
                        add.b.unpack ≠ V3D_QPU_UNPACK_NONE)
                  · rw [if_pos c11] at hp; exact absurd hp (by simp)
                  · rw [if_neg c11] at hp
                    replace hp : some _ = some r := hp
                    cases hp
                    dsimp only
                    rw [eo]
                    have hm1 := allBelow_spec _ _ e2 (add.b.raddr % 64) (h64 _)
                    have eb : (if v3d_qpu_add_op_num_src add.op < 2
                          then u32_sub (ffsll d.raddr_mask) 1 else add.b.raddr % 64) % 64 =
                        (if v3d_qpu_add_op_num_src add.op < 2
                          then u32_sub (ffsll d.raddr_mask) 1 else add.b.raddr) % 64 := by
                      by_cases n1 : v3d_qpu_add_op_num_src add.op < 2
                      · rw [if_pos n1, if_pos n1]
                      · rw [if_neg n1, if_neg n1, Nat.mod_mod]
                    rw [eb] at hm1
                    refine ⟨v3d71_qpu_add_unpack_core_of_row devinfo hv _ _ _ _ ma sa sb d hd
                      (h64 _) hm1 hval ?_ (fun h => absurd h e3), Or.inl rfl⟩
                    intro h190
                    apply v3d_qpu_add_pack_waddr_stvpm
                    rcases e1 with ((e | e) | e) | e
                    · exact absurd h190 e
                    · exact Or.inl e
                    · exact Or.inr (Or.inl e)
                    · exact Or.inr (Or.inr e)

/-! ## Fields of the packed word -/

/-- `QPU_GET_FIELD` on a `QPU_MASK` field is a quotient and remainder. -/
theorem QPU_GET_FIELD_eq (w hi lo : Nat) :
    QPU_GET_FIELD w lo (QPU_MASK hi lo) = w / 2 ^ lo % 2 ^ (hi - lo + 1) := by
  unfold QPU_GET_FIELD QPU_MASK
  rw [Nat.one_shiftLeft, ← Nat.shiftRight_eq_div_pow]
  apply Nat.eq_of_testBit_eq
  intro i
  simp only [Nat.testBit_shiftRight, Nat.testBit_and, Nat.testBit_shiftLeft,
    Nat.testBit_two_pow_sub_one, Nat.testBit_mod_two_pow]
  have e : lo + i - lo = i := by omega
  have e2 : decide (lo + i ≥ lo) = true := by simp
  rw [e, e2, Bool.true_and, Bool.and_comm]

/-- `QPU_SET_FIELD` on a `QPU_MASK` field keeps the low bits of the value, shifted. -/
theorem QPU_SET_FIELD_eq (v hi lo : Nat) :
    QPU_SET_FIELD v lo (QPU_MASK hi lo) = v % 2 ^ (hi - lo + 1) * 2 ^ lo := by
  unfold QPU_SET_FIELD QPU_MASK
  rw [Nat.one_shiftLeft, ← Nat.shiftLeft_eq]
  apply Nat.eq_of_testBit_eq
  intro i
  simp only [Nat.testBit_and, Nat.testBit_shiftLeft, Nat.testBit_two_pow_sub_one,
    Nat.testBit_mod_two_pow]
  by_cases h : i ≥ lo
  · simp [h, Bool.and_comm]
  · simp [h]

theorem QPU_GET_FIELD_or (x y s m : Nat) :
    QPU_GET_FIELD (x ||| y) s m = QPU_GET_FIELD x s m ||| QPU_GET_FIELD y s m := by
  unfold QPU_GET_FIELD
  apply Nat.eq_of_testBit_eq
  intro i
  simp only [Nat.testBit_shiftRight, Nat.testBit_and, Nat.testBit_or, Bool.and_or_distrib_right]

theorem QPU_GET_FIELD_zero (s m : Nat) : QPU_GET_FIELD 0 s m = 0 := by
  unfold QPU_GET_FIELD
  simp

theorem QPU_GET_SET_same (v hi lo : Nat) :
    QPU_GET_FIELD (QPU_SET_FIELD v lo (QPU_MASK hi lo)) lo (QPU_MASK hi lo)
      = v % 2 ^ (hi - lo + 1) := by
  rw [QPU_GET_FIELD_eq, QPU_SET_FIELD_eq, Nat.mul_div_cancel _ (Nat.pos_pow_of_pos lo (by decide)),
    Nat.mod_mod]

theorem QPU_GET_SET_other (v hi lo hi' lo' : Nat) (h : hi < lo' ∨ hi' < lo)
    (hlo : lo ≤ hi) (hlo' : lo' ≤ hi') :
    QPU_GET_FIELD (QPU_SET_FIELD v lo (QPU_MASK hi lo)) lo' (QPU_MASK hi' lo') = 0 := by
  unfold QPU_GET_FIELD QPU_SET_FIELD QPU_MASK
  apply Nat.eq_of_testBit_eq
  intro i
  simp only [Nat.testBit_shiftRight, Nat.testBit_and, Nat.testBit_shiftLeft, Nat.one_shiftLeft,
    Nat.testBit_two_pow_sub_one, Nat.zero_testBit]
  by_cases h1 : lo' + i ≥ lo <;> by_cases h2 : lo' + i - lo < hi - lo + 1 <;>
    by_cases h3 : i < hi' - lo' + 1 <;> simp [h1, h2, h3] <;> omega

/-- Two words that agree on a field agree on each bit of the field. -/
theorem field_bits_eq (w w' lo k : Nat) (h : w / 2 ^ lo % 2 ^ k = w' / 2 ^ lo % 2 ^ k)
    (i : Nat) (h1 : lo ≤ i) (h2 : i < lo + k) : w.testBit i = w'.testBit i := by
  have e : ∀ x : Nat, (x / 2 ^ lo % 2 ^ k).testBit (i - lo) = x.testBit i := by
    intro x
    rw [Nat.testBit_mod_two_pow, ← Nat.shiftRight_eq_div_pow, Nat.testBit_shiftRight]
    have e1 : decide (i - lo < k) = true := by simp; omega
    rw [e1, Bool.true_and]
    congr 1
    omega
  rw [← e w, ← e w', h]

/-- A 64-bit word is determined by the fourteen fields of the ALU layout used
below V3D 7.1 (the layout of V3D 7.1 differs only by grouping bits 12 to 23 into
two six-bit fields). -/
theorem word_ext (w w' : Nat) (hw : w < 2 ^ 64) (hw' : w' < 2 ^ 64)
    (h0 : w / 2 ^ 58 % 2 ^ 6 = w' / 2 ^ 58 % 2 ^ 6)
    (h1 : w / 2 ^ 53 % 2 ^ 5 = w' / 2 ^ 53 % 2 ^ 5)
    (h2 : w / 2 ^ 46 % 2 ^ 7 = w' / 2 ^ 46 % 2 ^ 7)
    (h3 : w / 2 ^ 45 % 2 ^ 1 = w' / 2 ^ 45 % 2 ^ 1)
    (h4 : w / 2 ^ 44 % 2 ^ 1 = w' / 2 ^ 44 % 2 ^ 1)
    (h5 : w / 2 ^ 38 % 2 ^ 6 = w' / 2 ^ 38 % 2 ^ 6)
    (h6 : w / 2 ^ 32 % 2 ^ 6 = w' / 2 ^ 32 % 2 ^ 6)
    (h7 : w / 2 ^ 24 % 2 ^ 8 = w' / 2 ^ 24 % 2 ^ 8)
    (h8 : w / 2 ^ 21 % 2 ^ 3 = w' / 2 ^ 21 % 2 ^ 3)
    (h9 : w / 2 ^ 18 % 2 ^ 3 = w' / 2 ^ 18 % 2 ^ 3)
    (h10 : w / 2 ^ 15 % 2 ^ 3 = w' / 2 ^ 15 % 2 ^ 3)
    (h11 : w / 2 ^ 12 % 2 ^ 3 = w' / 2 ^ 12 % 2 ^ 3)
    (h12 : w / 2 ^ 6 % 2 ^ 6 = w' / 2 ^ 6 % 2 ^ 6)
    (h13 : w / 2 ^ 0 % 2 ^ 6 = w' / 2 ^ 0 % 2 ^ 6) : w = w' := by
  apply Nat.eq_of_testBit_eq
  intro i
  by_cases hi : i < 64
  · have hc : (58 ≤ i ∧ i < 64) ∨ (53 ≤ i ∧ i < 58) ∨ (46 ≤ i ∧ i < 53) ∨ (45 ≤ i ∧ i < 46) ∨ (44 ≤ i ∧ i < 45) ∨ (38 ≤ i ∧ i < 44) ∨ (32 ≤ i ∧ i < 38) ∨ (24 ≤ i ∧ i < 32) ∨ (21 ≤ i ∧ i < 24) ∨ (18 ≤ i ∧ i < 21) ∨ (15 ≤ i ∧ i < 18) ∨ (12 ≤ i ∧ i < 15) ∨ (6 ≤ i ∧ i < 12) ∨ (0 ≤ i ∧ i < 6) := by omega
    rcases hc with hc | hc | hc | hc | hc | hc | hc | hc | hc | hc | hc | hc | hc | hc
    · exact field_bits_eq w w' 58 6 h0 i (by omega) (by omega)
    · exact field_bits_eq w w' 53 5 h1 i (by omega) (by omega)
    · exact field_bits_eq w w' 46 7 h2 i (by omega) (by omega)
    · exact field_bits_eq w w' 45 1 h3 i (by omega) (by omega)
    · exact field_bits_eq w w' 44 1 h4 i (by omega) (by omega)
    · exact field_bits_eq w w' 38 6 h5 i (by omega) (by omega)
    · exact field_bits_eq w w' 32 6 h6 i (by omega) (by omega)
    · exact field_bits_eq w w' 24 8 h7 i (by omega) (by omega)
    · exact field_bits_eq w w' 21 3 h8 i (by omega) (by omega)
    · exact field_bits_eq w w' 18 3 h9 i (by omega) (by omega)
    · exact field_bits_eq w w' 15 3 h10 i (by omega) (by omega)
    · exact field_bits_eq w w' 12 3 h11 i (by omega) (by omega)
    · exact field_bits_eq w w' 6 6 h12 i (by omega) (by omega)
    · exact field_bits_eq w w' 0 6 h13 i (by omega) (by omega)
  · have hi' : 64 ≤ i := by omega
    rw [Nat.testBit_lt_two_pow (lt_of_lt_of_le hw (Nat.pow_le_pow_right (by decide) hi')),
      Nat.testBit_lt_two_pow (lt_of_lt_of_le hw' (Nat.pow_le_pow_right (by decide) hi'))]

theorem v3d_qpu_sig_pack_loop_some (map : List v3d_qpu_sig) (sig : v3d_qpu_sig) :
    ∀ (todo i S : Nat), v3d_qpu_sig_pack_loop map sig todo i = some S →
      S < i + todo ∧ map.getD S {} = sig := by
  intro todo
  induction todo with
  | zero => intro i S h; exact absurd h (by simp [v3d_qpu_sig_pack_loop])
  | succ n ih =>
    intro i S h
    unfold v3d_qpu_sig_pack_loop at h
    by_cases c : map.getD i {} = sig
    · rw [if_pos c] at h
      cases h
      exact ⟨by omega, c⟩
    · rw [if_neg c] at h
      obtain ⟨h1, h2⟩ := ih (i + 1) S h
      exact ⟨by omega, h2⟩

/-- A signal set `v3d_qpu_sig_pack` encodes is the entry of the version's map at
the index returned, which is below 32. -/
theorem v3d_qpu_sig_pack_some (devinfo : v3d_device_info) (sig : v3d_qpu_sig) (S : Nat)
    (h : v3d_qpu_sig_pack devinfo sig = some S) :
    S < 32 ∧ (v3d_qpu_sig_map devinfo).getD S {} = sig := by
  unfold v3d_qpu_sig_pack at h
  have := v3d_qpu_sig_pack_loop_some _ sig 32 0 S h
  exact ⟨by omega, this.2⟩

/-- A signal set that writes an address and packs to `S` is what `S` unpacks to. -/
theorem v3d_qpu_sig_unpack_pack (devinfo : v3d_device_info) (sig : v3d_qpu_sig) (S : Nat)
    (h : v3d_qpu_sig_pack devinfo sig = some S)
    (hw : (sig.ldunifrf || sig.ldunifarf || sig.ldvary || sig.ldtmu || sig.ldtlb ||
      sig.ldtlbu) = true) :
    v3d_qpu_sig_unpack devinfo S = some sig := by
  obtain ⟨h1, h2⟩ := v3d_qpu_sig_pack_some devinfo sig S h
  unfold v3d_qpu_sig_unpack
  rw [if_neg (by omega)]
  dsimp only
  rw [h2]
  have hne : sig ≠ v33_sig_map.getD 0 {} := by
    intro e
    rw [e] at hw
    exact absurd hw (by decide)
  rw [if_pos (Or.inr hne)]

theorem QPU_SET_FIELD_bit (k : Nat) : QPU_MASK k k = QPU_SET_FIELD 1 k (QPU_MASK k k) := by
  unfold QPU_SET_FIELD QPU_MASK
  simp only [Nat.sub_self, Nat.zero_add]
  have : (1 <<< 1 - 1 : Nat) = 1 := by decide
  rw [this, Nat.and_self]

theorem QPU_GET_FIELD_bit_other (k hi lo : Nat) (h : k < lo ∨ hi < k) (hlo : lo ≤ hi) :
    QPU_GET_FIELD (QPU_MASK k k) lo (QPU_MASK hi lo) = 0 := by
  rw [QPU_SET_FIELD_bit]
  exact QPU_GET_SET_other 1 k k hi lo (by omega) (le_refl _) hlo

theorem QPU_GET_FIELD_ite (b : Bool) (x y s m : Nat) :
    QPU_GET_FIELD (if b = true then x ||| y else x) s m =
      QPU_GET_FIELD x s m ||| (if b = true then QPU_GET_FIELD y s m else 0) := by
  cases b
  · simp
  · simp [QPU_GET_FIELD_or]

theorem QPU_UPDATE_FIELD_sig (v v' : Nat) :
    QPU_UPDATE_FIELD (0 ||| QPU_SET_FIELD v V3D_QPU_SIG_SHIFT V3D_QPU_SIG_MASK) v'
      V3D_QPU_SIG_SHIFT V3D_QPU_SIG_MASK = QPU_SET_FIELD v' V3D_QPU_SIG_SHIFT V3D_QPU_SIG_MASK := by
  unfold QPU_UPDATE_FIELD
  have e : QPU_SET_FIELD v V3D_QPU_SIG_SHIFT V3D_QPU_SIG_MASK &&&
      (0xFFFFFFFFFFFFFFFF - V3D_QPU_SIG_MASK) = 0 := by
    unfold QPU_SET_FIELD
    rw [Nat.and_assoc]
    have : V3D_QPU_SIG_MASK &&& (0xFFFFFFFFFFFFFFFF - V3D_QPU_SIG_MASK) = 0 := by decide
    rw [this, Nat.and_zero]
  rw [Nat.zero_or, e, Nat.zero_or]

/-! ## Signal address through pack and unpack -/

theorem sig_addr_cond_decode (a : Nat) (m : Bool) (h : a < 64) :
    (((if m = true then a ||| V3D_QPU_COND_SIG_MAGIC_ADDR else a) % 128) &&&
      u32_not V3D_QPU_COND_SIG_MAGIC_ADDR) % 256 = a ∧
    v3d_bool_of_int (((if m = true then a ||| V3D_QPU_COND_SIG_MAGIC_ADDR else a) % 128) &&&
      V3D_QPU_COND_SIG_MAGIC_ADDR) = m := by
  cases m <;> interval_cases a <;> decide

theorem pack_unpack_sig_address_v33 (devinfo : v3d_device_info) (hver : 41 ≤ devinfo.ver)
    (hv : devinfo.ver < 71) (R i0 : v3d_qpu_instr)
    (hty : R.type = V3D_QPU_INSTR_TYPE_ALU)
    (hwa : (R.sig.ldunifrf || R.sig.ldunifarf || R.sig.ldvary || R.sig.ldtmu || R.sig.ldtlb ||
      R.sig.ldtlbu) = true)
    (haddr : R.sig_addr < 64) (w : Nat)
    (hp : v3d_qpu_instr_pack_alu devinfo R 0 = some w) :
    ∃ r, v3d_qpu_instr_unpack devinfo w i0 = some r ∧
      r.flags = { ac := V3D_QPU_COND_NONE, mc := V3D_QPU_COND_NONE,
                  apf := V3D_QPU_PF_NONE, mpf := V3D_QPU_PF_NONE,
                  auf := V3D_QPU_UF_NONE, muf := V3D_QPU_UF_NONE } ∧
      r.sig_addr = R.sig_addr ∧ r.sig_magic = R.sig_magic := by
  have hw41 : ¬ devinfo.ver < 41 := by omega
  have hwr : v3d_qpu_sig_writes_address devinfo R.sig = true := by
    unfold v3d_qpu_sig_writes_address
    rw [if_neg hw41]
    exact hwa
  have hfl := v3d_qpu_instr_pack_alu_flags_none devinfo R w 0 hty hwr hp
  unfold v3d_qpu_instr_pack_alu at hp
  cases hs : v3d_qpu_sig_pack devinfo R.sig with
  | none => rw [hs] at hp; exact absurd hp (by simp)
  | some S =>
    rw [hs] at hp
    dsimp only at hp
    rw [if_pos hty, if_pos hv] at hp
    unfold v3d_qpu_add_pack at hp
    rw [if_pos hv] at hp
    unfold v3d33_qpu_add_pack at hp
    cases ha : v3d33_qpu_add_pack_opcode devinfo R.alu.add with
    | none => rw [ha] at hp; exact absurd hp (by simp)
    | some fa =>
      rw [ha] at hp
      dsimp only at hp
      unfold v3d_qpu_mul_pack at hp
      rw [if_pos hv] at hp
      unfold v3d33_qpu_mul_pack at hp
      cases hm : v3d33_qpu_mul_pack_opcode devinfo R.alu.mul with
      | none => rw [hm] at hp; exact absurd hp (by simp)
      | some fm =>
        rw [hm] at hp
        dsimp only at hp
        rw [if_pos hwr, if_neg hfl] at hp
        dsimp only at hp
        have hW := Option.some.inj hp
        clear hp
        simp only [V3D_QPU_SIG_SHIFT, V3D_QPU_SIG_MASK, V3D_QPU_RADDR_A_SHIFT,
          V3D_QPU_RADDR_A_MASK, V3D_QPU_RADDR_B_SHIFT, V3D_QPU_RADDR_B_MASK,
          V3D_QPU_ADD_A_SHIFT, V3D_QPU_ADD_A_MASK, V3D_QPU_ADD_B_SHIFT, V3D_QPU_ADD_B_MASK,
          V3D_QPU_OP_ADD_SHIFT, V3D_QPU_OP_ADD_MASK, V3D_QPU_WADDR_A_SHIFT,
          V3D_QPU_WADDR_A_MASK, V3D_QPU_MUL_A_SHIFT, V3D_QPU_MUL_A_MASK, V3D_QPU_MUL_B_SHIFT,
          V3D_QPU_MUL_B_MASK, V3D_QPU_OP_MUL_SHIFT, V3D_QPU_OP_MUL_MASK, V3D_QPU_WADDR_M_SHIFT,
          V3D_QPU_WADDR_M_MASK, V3D_QPU_COND_SHIFT, V3D_QPU_COND_MASK, V3D_QPU_MA, V3D_QPU_MM]
          at hW
        have hopm : QPU_GET_FIELD w 58 (QPU_MASK 63 58) = fm.opcode % 64 := by
          rw [← hW]
          simp (disch := decide) only [QPU_GET_FIELD_or, QPU_GET_FIELD_ite, QPU_GET_FIELD_zero,
            QPU_GET_SET_same, QPU_GET_SET_other, QPU_GET_FIELD_bit_other, Nat.zero_or,
            Nat.or_zero, ite_self]
          rfl
        have hsig : QPU_GET_FIELD w 53 (QPU_MASK 57 53) = S % 32 := by
          rw [← hW]
          simp (disch := decide) only [QPU_GET_FIELD_or, QPU_GET_FIELD_ite, QPU_GET_FIELD_zero,
            QPU_GET_SET_same, QPU_GET_SET_other, QPU_GET_FIELD_bit_other, Nat.zero_or,
            Nat.or_zero, ite_self]
          rfl
        have hcond : QPU_GET_FIELD w 46 (QPU_MASK 52 46) = (if R.sig_magic = true then R.sig_addr ||| V3D_QPU_COND_SIG_MAGIC_ADDR else R.sig_addr) % 128 := by
          rw [← hW]
          simp (disch := decide) only [QPU_GET_FIELD_or, QPU_GET_FIELD_ite, QPU_GET_FIELD_zero,
            QPU_GET_SET_same, QPU_GET_SET_other, QPU_GET_FIELD_bit_other, Nat.zero_or,
            Nat.or_zero, ite_self]
          rfl
        have hopa : QPU_GET_FIELD w 24 (QPU_MASK 31 24) = fa.opcode % 256 := by
          rw [← hW]
          simp (disch := decide) only [QPU_GET_FIELD_or, QPU_GET_FIELD_ite, QPU_GET_FIELD_zero,
            QPU_GET_SET_same, QPU_GET_SET_other, QPU_GET_FIELD_bit_other, Nat.zero_or,
            Nat.or_zero, ite_self]
          rfl
        have hadda : QPU_GET_FIELD w 12 (QPU_MASK 14 12) = fa.mux_a % 8 := by
          rw [← hW]
          simp (disch := decide) only [QPU_GET_FIELD_or, QPU_GET_FIELD_ite, QPU_GET_FIELD_zero,
            QPU_GET_SET_same, QPU_GET_SET_other, QPU_GET_FIELD_bit_other, Nat.zero_or,
            Nat.or_zero, ite_self]
          rfl
        have haddb : QPU_GET_FIELD w 15 (QPU_MASK 17 15) = fa.mux_b % 8 := by
          rw [← hW]
          simp (disch := decide) only [QPU_GET_FIELD_or, QPU_GET_FIELD_ite, QPU_GET_FIELD_zero,
            QPU_GET_SET_same, QPU_GET_SET_other, QPU_GET_FIELD_bit_other, Nat.zero_or,
            Nat.or_zero, ite_self]
          rfl
        have hwad : QPU_GET_FIELD w 32 (QPU_MASK 37 32) = (v3d_qpu_add_pack_waddr R.alu.add).1 % 64 := by
          rw [← hW]
          simp (disch := decide) only [QPU_GET_FIELD_or, QPU_GET_FIELD_ite, QPU_GET_FIELD_zero,
            QPU_GET_SET_same, QPU_GET_SET_other, QPU_GET_FIELD_bit_other, Nat.zero_or,
            Nat.or_zero, ite_self]
          rfl
        have hmula : QPU_GET_FIELD w 18 (QPU_MASK 20 18) = fm.mux_a % 8 := by
          rw [← hW]
          simp (disch := decide) only [QPU_GET_FIELD_or, QPU_GET_FIELD_ite, QPU_GET_FIELD_zero,
            QPU_GET_SET_same, QPU_GET_SET_other, QPU_GET_FIELD_bit_other, Nat.zero_or,
            Nat.or_zero, ite_self]
          rfl
        have hmulb : QPU_GET_FIELD w 21 (QPU_MASK 23 21) = fm.mux_b % 8 := by
          rw [← hW]
          simp (disch := decide) only [QPU_GET_FIELD_or, QPU_GET_FIELD_ite, QPU_GET_FIELD_zero,
            QPU_GET_SET_same, QPU_GET_SET_other, QPU_GET_FIELD_bit_other, Nat.zero_or,
            Nat.or_zero, ite_self]
          rfl
        clear hW
        obtain ⟨hm0, hmc⟩ := v3d33_qpu_mul_pack_unpack_some devinfo hv R.alu.mul fm hm
          (w &&& V3D_QPU_MM != 0)
        have hac := v3d33_qpu_add_pack_unpack_some devinfo hv R.alu.add fa ha
          (w &&& V3D_QPU_MA != 0)
        have hS := (v3d_qpu_sig_pack_some devinfo R.sig S hs).1
        have hsu := v3d_qpu_sig_unpack_pack devinfo R.sig S hs hwa
        unfold v3d_qpu_instr_unpack
        simp only [V3D_QPU_OP_MUL_SHIFT, V3D_QPU_OP_MUL_MASK]
        rw [hopm, if_pos hm0]
        unfold v3d_qpu_instr_unpack_alu
        simp only [V3D_QPU_SIG_SHIFT, V3D_QPU_SIG_MASK, V3D_QPU_COND_SHIFT, V3D_QPU_COND_MASK]
        rw [hsig, Nat.mod_eq_of_lt hS, hsu]
        dsimp only
        rw [if_pos hwr, hcond]
        dsimp only
        rw [if_pos (by omega : devinfo.ver ≤ 71)]
        unfold v3d_qpu_add_unpack
        rw [if_pos hv]
        unfold v3d33_qpu_add_unpack
        simp only [V3D_QPU_OP_ADD_SHIFT, V3D_QPU_OP_ADD_MASK, V3D_QPU_ADD_A_SHIFT,
          V3D_QPU_ADD_A_MASK, V3D_QPU_ADD_B_SHIFT, V3D_QPU_ADD_B_MASK, V3D_QPU_WADDR_A_SHIFT,
          V3D_QPU_WADDR_A_MASK]
        rw [hopa, hadda, haddb, hwad]
        cases hca : v3d33_qpu_add_unpack_core devinfo (fa.opcode % 256) (fa.mux_a % 8)
            (fa.mux_b % 8) ((v3d_qpu_add_pack_waddr R.alu.add).1 % 64)
            (w &&& V3D_QPU_MA != 0) with
        | none => rw [hca] at hac; exact absurd hac (by decide)
        | some ra =>
          dsimp only
          unfold v3d_qpu_mul_unpack
          rw [if_pos hv]
          unfold v3d33_qpu_mul_unpack
          simp only [V3D_QPU_OP_MUL_SHIFT, V3D_QPU_OP_MUL_MASK, V3D_QPU_MUL_A_SHIFT,
            V3D_QPU_MUL_A_MASK, V3D_QPU_MUL_B_SHIFT, V3D_QPU_MUL_B_MASK]
          rw [hopm, hmula, hmulb]
          cases hcm : v3d33_qpu_mul_unpack_core devinfo (fm.opcode % 64) (fm.mux_a % 8)
              (fm.mux_b % 8) (w &&& V3D_QPU_MM != 0) with
          | none => rw [hcm] at hmc; exact absurd hmc (by decide)
          | some rm =>
            dsimp only
            refine ⟨_, rfl, rfl, ?_, ?_⟩
            · exact (sig_addr_cond_decode R.sig_addr R.sig_magic haddr).1
            · exact (sig_addr_cond_decode R.sig_addr R.sig_magic haddr).2


/-- From V3D 7.1 on, a word whose MUL opcode field is not zero, whose signal field
decodes to a signal that writes an address, and whose ADD and MUL fields decode,
unpacks; the flags come out none and the signal address and its magic bit are read
from the condition field. -/
theorem unpack_sig_address_of_fields_v71 (devinfo : v3d_device_info) (hv : ¬ devinfo.ver < 71)
    (w : Nat) (i0 : v3d_qpu_instr) (sig2 : v3d_qpu_sig)
    (hm0 : QPU_GET_FIELD w 58 (QPU_MASK 63 58) ≠ 0)
    (hsig : v3d_qpu_sig_unpack devinfo (QPU_GET_FIELD w 53 (QPU_MASK 57 53)) = some sig2)
    (hwr : v3d_qpu_sig_writes_address devinfo sig2 = true)
    (hac : ∀ ma sa sb, (v3d71_qpu_add_unpack_core devinfo (QPU_GET_FIELD w 24 (QPU_MASK 31 24))
      (QPU_GET_FIELD w 6 (QPU_MASK 11 6)) (QPU_GET_FIELD w 0 (QPU_MASK 5 0))
      (QPU_GET_FIELD w 32 (QPU_MASK 37 32)) ma sa sb).isSome = true)
    (hmc : ∀ mm, (v3d71_qpu_mul_unpack_core devinfo (QPU_GET_FIELD w 58 (QPU_MASK 63 58))
      (QPU_GET_FIELD w 12 (QPU_MASK 17 12)) mm).isSome = true) :
    ∃ r, v3d_qpu_instr_unpack devinfo w i0 = some r ∧
      r.flags = { ac := V3D_QPU_COND_NONE, mc := V3D_QPU_COND_NONE,
                  apf := V3D_QPU_PF_NONE, mpf := V3D_QPU_PF_NONE,
                  auf := V3D_QPU_UF_NONE, muf := V3D_QPU_UF_NONE } ∧
      r.sig_addr = (QPU_GET_FIELD w 46 (QPU_MASK 52 46) &&&
        u32_not V3D_QPU_COND_SIG_MAGIC_ADDR) % 256 ∧
      r.sig_magic = v3d_bool_of_int (QPU_GET_FIELD w 46 (QPU_MASK 52 46) &&&
        V3D_QPU_COND_SIG_MAGIC_ADDR) := by
  unfold v3d_qpu_instr_unpack
  simp only [V3D_QPU_OP_MUL_SHIFT, V3D_QPU_OP_MUL_MASK]
  rw [if_pos hm0]
  unfold v3d_qpu_instr_unpack_alu
  simp only [V3D_QPU_SIG_SHIFT, V3D_QPU_SIG_MASK, V3D_QPU_COND_SHIFT, V3D_QPU_COND_MASK]
  rw [hsig]
  dsimp only
  rw [if_pos hwr]
  dsimp only
  unfold v3d_qpu_add_unpack
  rw [if_neg hv]
  unfold v3d71_qpu_add_unpack
  simp only [V3D_QPU_OP_ADD_SHIFT, V3D_QPU_OP_ADD_MASK, V3D_QPU_RADDR_A_SHIFT,
    V3D_QPU_RADDR_A_MASK, V3D_QPU_RADDR_B_SHIFT, V3D_QPU_RADDR_B_MASK, V3D_QPU_WADDR_A_SHIFT,
    V3D_QPU_WADDR_A_MASK]
  by_cases h71 : devinfo.ver ≤ 71
  · rw [if_pos h71]
    dsimp only
    have hac' := hac (w &&& V3D_QPU_MA != 0) sig2.small_imm_a sig2.small_imm_b
    cases hca : v3d71_qpu_add_unpack_core devinfo (QPU_GET_FIELD w 24 (QPU_MASK 31 24))
      (QPU_GET_FIELD w 6 (QPU_MASK 11 6)) (QPU_GET_FIELD w 0 (QPU_MASK 5 0))
      (QPU_GET_FIELD w 32 (QPU_MASK 37 32)) (w &&& V3D_QPU_MA != 0) sig2.small_imm_a
      sig2.small_imm_b with
    | none => rw [hca] at hac'; exact absurd hac' (by decide)
    | some ra =>
      dsimp only
      unfold v3d_qpu_mul_unpack
      rw [if_neg hv]
      unfold v3d71_qpu_mul_unpack
      simp only [V3D_QPU_OP_MUL_SHIFT, V3D_QPU_OP_MUL_MASK, V3D_QPU_RADDR_D_SHIFT,
        V3D_QPU_RADDR_D_MASK]
      have hmc' := hmc (w &&& V3D_QPU_MM != 0)
      cases hcm : v3d71_qpu_mul_unpack_core devinfo (QPU_GET_FIELD w 58 (QPU_MASK 63 58))
          (QPU_GET_FIELD w 12 (QPU_MASK 17 12)) (w &&& V3D_QPU_MM != 0) with
      | none => rw [hcm] at hmc'; exact absurd hmc' (by decide)
      | some rm => exact ⟨_, rfl, rfl, rfl, rfl⟩
  · rw [if_neg h71]
    dsimp only
    have hac' := hac (w &&& V3D_QPU_MA != 0) sig2.small_imm_a sig2.small_imm_b
    cases hca : v3d71_qpu_add_unpack_core devinfo (QPU_GET_FIELD w 24 (QPU_MASK 31 24))
      (QPU_GET_FIELD w 6 (QPU_MASK 11 6)) (QPU_GET_FIELD w 0 (QPU_MASK 5 0))
      (QPU_GET_FIELD w 32 (QPU_MASK 37 32)) (w &&& V3D_QPU_MA != 0) sig2.small_imm_a
      sig2.small_imm_b with
    | none => rw [hca] at hac'; exact absurd hac' (by decide)
    | some ra =>
      dsimp only
      unfold v3d_qpu_mul_unpack
      rw [if_neg hv]
      unfold v3d71_qpu_mul_unpack
      simp only [V3D_QPU_OP_MUL_SHIFT, V3D_QPU_OP_MUL_MASK, V3D_QPU_RADDR_D_SHIFT,
        V3D_QPU_RADDR_D_MASK]
      have hmc' := hmc (w &&& V3D_QPU_MM != 0)
      cases hcm : v3d71_qpu_mul_unpack_core devinfo (QPU_GET_FIELD w 58 (QPU_MASK 63 58))
          (QPU_GET_FIELD w 12 (QPU_MASK 17 12)) (w &&& V3D_QPU_MM != 0) with
      | none => rw [hcm] at hmc'; exact absurd hmc' (by decide)
      | some rm => exact ⟨_, rfl, rfl, rfl, rfl⟩

theorem pack_unpack_sig_address_v71 (devinfo : v3d_device_info)
    (hv : ¬ devinfo.ver < 71) (R i0 : v3d_qpu_instr)
    (hty : R.type = V3D_QPU_INSTR_TYPE_ALU)
    (hwa : (R.sig.ldunifrf || R.sig.ldunifarf || R.sig.ldvary || R.sig.ldtmu || R.sig.ldtlb ||
      R.sig.ldtlbu) = true)
    (haddr : R.sig_addr < 64) (w : Nat)
    (hp : v3d_qpu_instr_pack_alu devinfo R 0 = some w) :
    ∃ r, v3d_qpu_instr_unpack devinfo w i0 = some r ∧
      r.flags = { ac := V3D_QPU_COND_NONE, mc := V3D_QPU_COND_NONE,
                  apf := V3D_QPU_PF_NONE, mpf := V3D_QPU_PF_NONE,
                  auf := V3D_QPU_UF_NONE, muf := V3D_QPU_UF_NONE } ∧
      r.sig_addr = R.sig_addr ∧ r.sig_magic = R.sig_magic := by
  have hw41 : ¬ devinfo.ver < 41 := by omega
  have hwr : ∀ s : v3d_qpu_sig, (s.ldunifrf || s.ldunifarf || s.ldvary || s.ldtmu || s.ldtlb ||
      s.ldtlbu) = true → v3d_qpu_sig_writes_address devinfo s = true := by
    intro s h
    unfold v3d_qpu_sig_writes_address
    rw [if_neg hw41]
    exact h
  have hfl := v3d_qpu_instr_pack_alu_flags_none devinfo R w 0 hty (hwr _ hwa) hp
  unfold v3d_qpu_instr_pack_alu at hp
  cases hs : v3d_qpu_sig_pack devinfo R.sig with
  | none => rw [hs] at hp; exact absurd hp (by simp)
  | some S =>
    rw [hs] at hp
    dsimp only at hp
    rw [if_pos hty, if_neg hv] at hp
    unfold v3d_qpu_add_pack at hp
    rw [if_neg hv] at hp
    unfold v3d71_qpu_add_pack at hp
    cases ha : v3d71_qpu_add_pack_opcode devinfo R.alu.add R.sig with
    | none => rw [ha] at hp; exact absurd hp (by simp)
    | some ra =>
      rw [ha] at hp
      dsimp only at hp
      unfold v3d_qpu_mul_pack at hp
      rw [if_neg hv] at hp
      unfold v3d71_qpu_mul_pack at hp
      cases hm : v3d71_qpu_mul_pack_opcode devinfo R.alu.mul with
      | none => rw [hm] at hp; exact absurd hp (by simp)
      | some fm =>
        rw [hm] at hp
        dsimp only at hp
        rw [if_pos (hwr _ hwa), if_neg hfl] at hp
        dsimp only at hp
        have hall := v3d71_qpu_add_pack_unpack_some devinfo hv R.alu.add R.sig ra ha
        obtain ⟨S2, sig2, hs2, hwa2, hW⟩ : ∃ S2 sig2, v3d_qpu_sig_pack devinfo sig2 = some S2 ∧
            (sig2.ldunifrf || sig2.ldunifarf || sig2.ldvary || sig2.ldtmu || sig2.ldtlb ||
              sig2.ldtlbu) = true ∧
            v3d71_alu_word S2 ra.fields (v3d_qpu_add_pack_waddr R.alu.add) fm R.alu.mul.waddr
              R.alu.mul.magic_write
              (if R.sig_magic = true then R.sig_addr ||| V3D_QPU_COND_SIG_MAGIC_ADDR
                else R.sig_addr) = w := by
          rcases (hall false false false).2 with hrs | ⟨S', hrs, hsp⟩
          · rw [hrs] at hp
            dsimp only at hp
            rw [Nat.zero_or] at hp
            exact ⟨S, R.sig, hs, hwa, Option.some.inj hp⟩
          · rw [hrs] at hp
            dsimp only at hp
            rw [QPU_UPDATE_FIELD_sig] at hp
            exact ⟨S', _, hsp, hwa, Option.some.inj hp⟩
        clear hp
        unfold v3d71_alu_word at hW
        simp only [V3D_QPU_SIG_SHIFT, V3D_QPU_SIG_MASK, V3D_QPU_RADDR_A_SHIFT,
          V3D_QPU_RADDR_A_MASK, V3D_QPU_RADDR_B_SHIFT, V3D_QPU_RADDR_B_MASK,
          V3D_QPU_RADDR_C_SHIFT, V3D_QPU_RADDR_C_MASK, V3D_QPU_RADDR_D_SHIFT,
          V3D_QPU_RADDR_D_MASK,
          V3D_QPU_OP_ADD_SHIFT, V3D_QPU_OP_ADD_MASK, V3D_QPU_WADDR_A_SHIFT,
          V3D_QPU_WADDR_A_MASK, V3D_QPU_OP_MUL_SHIFT, V3D_QPU_OP_MUL_MASK, V3D_QPU_WADDR_M_SHIFT,
          V3D_QPU_WADDR_M_MASK, V3D_QPU_COND_SHIFT, V3D_QPU_COND_MASK, V3D_QPU_MA, V3D_QPU_MM]
          at hW
        have hopm : QPU_GET_FIELD w 58 (QPU_MASK 63 58) = fm.opcode % 64 := by
          rw [← hW]
          simp (disch := decide) only [QPU_GET_FIELD_or, QPU_GET_FIELD_ite, QPU_GET_FIELD_zero,
            QPU_GET_SET_same, QPU_GET_SET_other, QPU_GET_FIELD_bit_other, Nat.zero_or,
            Nat.or_zero, ite_self]
          rfl
        have hsig : QPU_GET_FIELD w 53 (QPU_MASK 57 53) = S2 % 32 := by
          rw [← hW]
          simp (disch := decide) only [QPU_GET_FIELD_or, QPU_GET_FIELD_ite, QPU_GET_FIELD_zero,
            QPU_GET_SET_same, QPU_GET_SET_other, QPU_GET_FIELD_bit_other, Nat.zero_or,
            Nat.or_zero, ite_self]
          rfl
        have hcond : QPU_GET_FIELD w 46 (QPU_MASK 52 46) = (if R.sig_magic = true then R.sig_addr ||| V3D_QPU_COND_SIG_MAGIC_ADDR else R.sig_addr) % 128 := by
          rw [← hW]
          simp (disch := decide) only [QPU_GET_FIELD_or, QPU_GET_FIELD_ite, QPU_GET_FIELD_zero,
            QPU_GET_SET_same, QPU_GET_SET_other, QPU_GET_FIELD_bit_other, Nat.zero_or,
            Nat.or_zero, ite_self]
          rfl
        have hopa : QPU_GET_FIELD w 24 (QPU_MASK 31 24) = ra.fields.opcode % 256 := by
          rw [← hW]
          simp (disch := decide) only [QPU_GET_FIELD_or, QPU_GET_FIELD_ite, QPU_GET_FIELD_zero,
            QPU_GET_SET_same, QPU_GET_SET_other, QPU_GET_FIELD_bit_other, Nat.zero_or,
            Nat.or_zero, ite_self]
          rfl
        have hrda : QPU_GET_FIELD w 6 (QPU_MASK 11 6) = ra.fields.mux_a % 64 := by
          rw [← hW]
          simp (disch := decide) only [QPU_GET_FIELD_or, QPU_GET_FIELD_ite, QPU_GET_FIELD_zero,
            QPU_GET_SET_same, QPU_GET_SET_other, QPU_GET_FIELD_bit_other, Nat.zero_or,
            Nat.or_zero, ite_self]
          rfl
        have hrdb : QPU_GET_FIELD w 0 (QPU_MASK 5 0) = ra.fields.mux_b % 64 := by
          rw [← hW]
          simp (disch := decide) only [QPU_GET_FIELD_or, QPU_GET_FIELD_ite, QPU_GET_FIELD_zero,
            QPU_GET_SET_same, QPU_GET_SET_other, QPU_GET_FIELD_bit_other, Nat.zero_or,
            Nat.or_zero, ite_self]
          rfl
        have hwad : QPU_GET_FIELD w 32 (QPU_MASK 37 32) = (v3d_qpu_add_pack_waddr R.alu.add).1 % 64 := by
          rw [← hW]
          simp (disch := decide) only [QPU_GET_FIELD_or, QPU_GET_FIELD_ite, QPU_GET_FIELD_zero,
            QPU_GET_SET_same, QPU_GET_SET_other, QPU_GET_FIELD_bit_other, Nat.zero_or,
            Nat.or_zero, ite_self]
          rfl
        have hrdd : QPU_GET_FIELD w 12 (QPU_MASK 17 12) = fm.mux_b % 64 := by
          rw [← hW]
          simp (disch := decide) only [QPU_GET_FIELD_or, QPU_GET_FIELD_ite, QPU_GET_FIELD_zero,
            QPU_GET_SET_same, QPU_GET_SET_other, QPU_GET_FIELD_bit_other, Nat.zero_or,
            Nat.or_zero, ite_self]
          rfl
        clear hW
        have hS := (v3d_qpu_sig_pack_some devinfo sig2 S2 hs2).1
        obtain ⟨r, hr, hr1, hr2, hr3⟩ := unpack_sig_address_of_fields_v71 devinfo hv w i0 sig2
          (by rw [hopm]; exact (v3d71_qpu_mul_pack_unpack_some devinfo hv R.alu.mul fm hm false).1)
          (by rw [hsig, Nat.mod_eq_of_lt hS]; exact v3d_qpu_sig_unpack_pack devinfo sig2 S2 hs2 hwa2)
          (hwr _ hwa2)
          (by intro ma sa sb; rw [hopa, hrda, hrdb, hwad]; exact (hall ma sa sb).1)
          (by intro mm; rw [hopm, hrdd]
              exact (v3d71_qpu_mul_pack_unpack_some devinfo hv R.alu.mul fm hm mm).2)
        refine ⟨r, hr, hr1, ?_, ?_⟩
        · rw [hr2, hcond]
          exact (sig_addr_cond_decode R.sig_addr R.sig_magic haddr).1
        · rw [hr3, hcond]
          exact (sig_addr_cond_decode R.sig_addr R.sig_magic haddr).2

/-- C9: at every version from 41 on, for an ALU record whose signal writes an address
(one of ldunifrf, ldunifarf, ldvary, ldtmu, ldtlb, ldtlbu set), with all six flags
none and `sig_addr` below 64: when `v3d_qpu_instr_pack` succeeds, `v3d_qpu_instr_unpack`
of the packed word succeeds (whatever the record it is asked to fill held before),
all six flags of the result are none, its `sig_addr` is that of the record, and its
`sig_magic` is true exactly when that of the record is. -/
theorem pack_unpack_preserves_sig_address (devinfo : v3d_device_info)
    (R i0 : v3d_qpu_instr) (w : Nat)
    (hver : devinfo.ver ≥ 41) (hty : R.type = V3D_QPU_INSTR_TYPE_ALU)
    (hwa : R.sig.ldunifrf = true ∨ R.sig.ldunifarf = true ∨ R.sig.ldvary = true ∨
      R.sig.ldtmu = true ∨ R.sig.ldtlb = true ∨ R.sig.ldtlbu = true)
    (hflags : R.flags.ac = V3D_QPU_COND_NONE ∧ R.flags.mc = V3D_QPU_COND_NONE ∧
      R.flags.apf = V3D_QPU_PF_NONE ∧ R.flags.mpf = V3D_QPU_PF_NONE ∧
      R.flags.auf = V3D_QPU_UF_NONE ∧ R.flags.muf = V3D_QPU_UF_NONE)
    (haddr : R.sig_addr < 64)
    (hp : v3d_qpu_instr_pack devinfo R = some w) :
    ∃ r, v3d_qpu_instr_unpack devinfo w i0 = some r ∧
      r.flags.ac = V3D_QPU_COND_NONE ∧ r.flags.mc = V3D_QPU_COND_NONE ∧
      r.flags.apf = V3D_QPU_PF_NONE ∧ r.flags.mpf = V3D_QPU_PF_NONE ∧
      r.flags.auf = V3D_QPU_UF_NONE ∧ r.flags.muf = V3D_QPU_UF_NONE ∧
      r.sig_addr = R.sig_addr ∧ (r.sig_magic = true ↔ R.sig_magic = true) := by
  have _ := hflags
  have hwa' : (R.sig.ldunifrf || R.sig.ldunifarf || R.sig.ldvary || R.sig.ldtmu ||
      R.sig.ldtlb || R.sig.ldtlbu) = true := by
    simp only [Bool.or_eq_true]
    tauto
  unfold v3d_qpu_instr_pack at hp
  dsimp only at hp
  rw [if_pos hty] at hp
  by_cases hv : devinfo.ver < 71
  · obtain ⟨r, h1, h2, h3, h4⟩ :=
      pack_unpack_sig_address_v33 devinfo hver hv R i0 hty hwa' haddr w hp
    refine ⟨r, h1, ?_, ?_, ?_, ?_, ?_, ?_, h3, ?_⟩
    · rw [h2]
    · rw [h2]
    · rw [h2]
    · rw [h2]
    · rw [h2]
    · rw [h2]
    · rw [h4]
  · obtain ⟨r, h1, h2, h3, h4⟩ :=
      pack_unpack_sig_address_v71 devinfo hv R i0 hty hwa' haddr w hp
    refine ⟨r, h1, ?_, ?_, ?_, ?_, ?_, ?_, h3, ?_⟩
    · rw [h2]
    · rw [h2]
    · rw [h2]
    · rw [h2]
    · rw [h2]
    · rw [h2]
    · rw [h4]

theorem pack_unpack_preserves_sig_address_witness :
    v3d_qpu_instr_pack { ver := 42 }
      { type := V3D_QPU_INSTR_TYPE_ALU, sig := { ldvary := true }, sig_addr := 5,
        sig_magic := true,
        alu := { add := { op := V3D_QPU_A_NOP, waddr := V3D_QPU_WADDR_NOP, magic_write := true },
                 mul := { op := V3D_QPU_M_NOP, waddr := V3D_QPU_WADDR_NOP, magic_write := true } } }
      = some 4400423134402969600 ∧
    ∃ r, v3d_qpu_instr_unpack { ver := 42 } 4400423134402969600 {} = some r ∧
      r.flags.ac = V3D_QPU_COND_NONE ∧ r.flags.mc = V3D_QPU_COND_NONE ∧
      r.flags.apf = V3D_QPU_PF_NONE ∧ r.flags.mpf = V3D_QPU_PF_NONE ∧
      r.flags.auf = V3D_QPU_UF_NONE ∧ r.flags.muf = V3D_QPU_UF_NONE ∧
      r.sig_addr = 5 ∧ (r.sig_magic = true ↔ true = true) :=
  ⟨by decide!,
   pack_unpack_preserves_sig_address { ver := 42 }
    { type := V3D_QPU_INSTR_TYPE_ALU, sig := { ldvary := true }, sig_addr := 5,
      sig_magic := true,
      alu := { add := { op := V3D_QPU_A_NOP, waddr := V3D_QPU_WADDR_NOP, magic_write := true },
               mul := { op := V3D_QPU_M_NOP, waddr := V3D_QPU_WADDR_NOP, magic_write := true } } }
    {} 4400423134402969600 (by decide) rfl (Or.inr (Or.inr (Or.inl rfl)))
    ⟨rfl, rfl, rfl, rfl, rfl, rfl⟩ (by decide) (by decide!)⟩

/-- Every version's signal map has 32 entries and starts with the empty set. -/
theorem v3d_qpu_sig_map_length (devinfo : v3d_device_info) :
    (v3d_qpu_sig_map devinfo).length = 32 ∧ (v3d_qpu_sig_map devinfo)[0]? = some ({} : v3d_qpu_sig) := by
  unfold v3d_qpu_sig_map
  split_ifs <;> exact ⟨rfl, rfl⟩

/-- C11: at every version the signal map has 32 entries, and for every packed
signal index: `v3d_qpu_sig_unpack` returns FALSE when the index is 32 or more,
returns FALSE when the index is between 1 and 31 and the map entry has no bit
set, and otherwise returns TRUE with the signal set equal to the map entry. -/
theorem v3d_qpu_sig_unpack_cases (devinfo : v3d_device_info) (packed_sig : Nat) :
    (v3d_qpu_sig_map devinfo).length = 32 ∧
    (32 ≤ packed_sig → v3d_qpu_sig_unpack devinfo packed_sig = none) ∧
    (∀ entry, (v3d_qpu_sig_map devinfo)[packed_sig]? = some entry →
      (0 < packed_sig ∧ entry = ({} : v3d_qpu_sig) → v3d_qpu_sig_unpack devinfo packed_sig = none) ∧
      (¬ (0 < packed_sig ∧ entry = ({} : v3d_qpu_sig)) →
        v3d_qpu_sig_unpack devinfo packed_sig = some entry)) := by
  refine ⟨(v3d_qpu_sig_map_length devinfo).1, ?_, ?_⟩
  · intro h
    unfold v3d_qpu_sig_unpack
    rw [if_pos h]
  · intro entry he
    have hlt : packed_sig < 32 := by
      have := (List.getElem?_eq_some.mp he).1
      rw [(v3d_qpu_sig_map_length devinfo).1] at this
      exact this
    have hget : (v3d_qpu_sig_map devinfo).getD packed_sig {} = entry := by
      rw [List.getD_eq_getElem?_getD, he]; rfl
    have h0 : v33_sig_map.getD 0 {} = ({} : v3d_qpu_sig) := rfl
    unfold v3d_qpu_sig_unpack
    rw [if_neg (by omega)]
    simp only [hget, h0]
    constructor
    · rintro ⟨hp, rfl⟩
      rw [if_neg]
      simp
      omega
    · intro hn
      rw [if_pos]
      by_cases hz : packed_sig = 0
      · exact Or.inl hz
      · right
        intro he0
        exact hn ⟨by omega, he0⟩

/-- The signal packer composed with the unpacker on one version's map, checked
index by index: the packer returns the index, or 15 for index 31 of the
version 33 map. -/
theorem v3d_qpu_sig_pack_unpack_lt (devinfo : v3d_device_info)
    (hver : devinfo.ver = 33 ∨ devinfo.ver = 40 ∨ devinfo.ver = 41 ∨ devinfo.ver = 42 ∨
      devinfo.ver = 71) (i : Nat) (hi : i < 32) :
    ∀ sig, v3d_qpu_sig_unpack devinfo i = some sig →
      v3d_qpu_sig_pack devinfo sig = some (if devinfo.ver = 33 ∧ i = 31 then 15 else i) := by
  have hmap : v3d_qpu_sig_unpack devinfo i = v3d_qpu_sig_unpack { ver := devinfo.ver } i := rfl
  have hpack : ∀ s, v3d_qpu_sig_pack devinfo s = v3d_qpu_sig_pack { ver := devinfo.ver } s :=
    fun _ => rfl
  rw [hmap]
  simp only [hpack]
  rcases hver with h | h | h | h | h <;> rw [h] <;> interval_cases i <;> decide

/-- C12 (counterexample): at version 33 the signal unpacker succeeds on index 31
with the set holding only small_imm_b, and the packer returns 15 for that set,
not 31. -/
theorem v3d_qpu_sig_pack_unpack_counterexample :
    v3d_qpu_sig_unpack { ver := 33 } 31 = some { small_imm_b := true } ∧
    v3d_qpu_sig_pack { ver := 33 } { small_imm_b := true } = some 15 := by
  decide

/-- C12 (amended): for every version in 33, 40, 41, 42, 71 and every index below
32 on which `v3d_qpu_sig_unpack` succeeds, `v3d_qpu_sig_pack` applied to the
unpacked signal set succeeds and returns the index, except at version 33 for
index 31, where it returns 15. -/
theorem v3d_qpu_sig_pack_inverts_unpack (devinfo : v3d_device_info)
    (packed_sig : Nat) (sig : v3d_qpu_sig)
    (hver : devinfo.ver = 33 ∨ devinfo.ver = 40 ∨ devinfo.ver = 41 ∨ devinfo.ver = 42 ∨
      devinfo.ver = 71)
    (hi : packed_sig < 32) (hu : v3d_qpu_sig_unpack devinfo packed_sig = some sig) :
    v3d_qpu_sig_pack devinfo sig =
      some (if devinfo.ver = 33 ∧ packed_sig = 31 then 15 else packed_sig) :=
  v3d_qpu_sig_pack_unpack_lt devinfo hver packed_sig hi sig hu

theorem v3d_qpu_sig_pack_inverts_unpack_witness :
    v3d_qpu_sig_pack { ver := 42 } { thrsw := true, ldvary := true } =
      some (if (42 : Nat) = 33 ∧ 9 = 31 then 15 else 9) :=
  v3d_qpu_sig_pack_inverts_unpack { ver := 42 } 9 { thrsw := true, ldvary := true }
    (Or.inr (Or.inr (Or.inr (Or.inl rfl)))) (by decide) (by decide)

/-- The search loop of the small-immediate packer returns the first position of
the value, counted from the start index. -/
theorem v3d_qpu_small_imm_pack_loop_spec (value : Nat) :
    ∀ (l : List Nat) (i r : Nat), v3d_qpu_small_imm_pack_loop value l i = some r →
      i ≤ r ∧ l[r - i]? = some value := by
  intro l
  induction l with
  | nil => intro i r h; exact absurd h (by simp [v3d_qpu_small_imm_pack_loop])
  | cons x rest ih =>
    intro i r h
    unfold v3d_qpu_small_imm_pack_loop at h
    by_cases hx : x = value
    · rw [if_pos hx] at h
      cases h
      simp [hx]
    · rw [if_neg hx] at h
      obtain ⟨h1, h2⟩ := ih (i + 1) r h
      refine ⟨by omega, ?_⟩
      have : r - i = (r - (i + 1)) + 1 := by omega
      rw [this, List.getElem?_cons_succ]
      exact h2

/-- The search loop of the small-immediate packer succeeds exactly on the
members of the list. -/
theorem v3d_qpu_small_imm_pack_loop_isSome (value : Nat) :
    ∀ (l : List Nat) (i : Nat),
      (∃ r, v3d_qpu_small_imm_pack_loop value l i = some r) ↔ value ∈ l := by
  intro l
  induction l with
  | nil => intro i; simp [v3d_qpu_small_imm_pack_loop]
  | cons x rest ih =>
    intro i
    unfold v3d_qpu_small_imm_pack_loop
    by_cases hx : x = value
    · rw [if_pos hx]
      simp [hx]
    · rw [if_neg hx, ih (i + 1)]
      simp [Ne.symm hx]

/-- C13: the small-immediate codec is a bijection between the indices 0..47 and
the 48 values of the table `small_immediates`: `v3d_qpu_small_imm_unpack` fails
exactly when the index is 48 or more; for every index below 48 packing the
unpacked value returns the index; and `v3d_qpu_small_imm_pack` succeeds exactly
on the values of the table, in which case unpacking its result returns the
value. -/
theorem v3d_qpu_small_imm_codec_bijection :
    small_immediates.length = 48 ∧
    (∀ i, v3d_qpu_small_imm_unpack i = none ↔ 48 ≤ i) ∧
    (∀ i, i < 48 → ∃ v, v3d_qpu_small_imm_unpack i = some v ∧
      v3d_qpu_small_imm_pack v = some i) ∧
    (∀ v, (∃ i, v3d_qpu_small_imm_pack v = some i) ↔ v ∈ small_immediates) ∧
    (∀ v i, v3d_qpu_small_imm_pack v = some i → v3d_qpu_small_imm_unpack i = some v) := by
  have hlen : small_immediates.length = 48 := rfl
  refine ⟨hlen, ?_, ?_, ?_, ?_⟩
  · intro i
    unfold v3d_qpu_small_imm_unpack
    rw [hlen]
    by_cases h : i ≥ 48
    · rw [if_pos h]; simp; omega
    · rw [if_neg h]; simp; omega
  · intro i hi
    interval_cases i <;> exact ⟨_, rfl, by decide⟩
  · intro v
    exact v3d_qpu_small_imm_pack_loop_isSome v small_immediates 0
  · intro v i h
    obtain ⟨_, h2⟩ := v3d_qpu_small_imm_pack_loop_spec v small_immediates 0 i h
    rw [Nat.sub_zero] at h2
    have hi : i < small_immediates.length := (List.getElem?_eq_some.mp h2).1
    unfold v3d_qpu_small_imm_unpack
    rw [if_neg (by omega), List.getD_eq_getElem?_getD, h2]
    rfl

/-- The flag packer inverts the flag unpacker on every 7-bit value but 0x10,
where the unpacker fails. -/
theorem v3d_qpu_flags_unpack_pack (c : Nat) (hc : c < 128) :
    (v3d_qpu_flags_unpack c = none ↔ c = 0x10) ∧
    (c ≠ 0x10 → ∃ cond, v3d_qpu_flags_unpack c = some cond ∧
      v3d_qpu_flags_pack cond = some c) := by
  interval_cases c <;>
  first
  | exact ⟨by decide, fun _ => ⟨_, rfl, by decide⟩⟩
  | exact ⟨by decide, fun h => absurd rfl h⟩

/-- The flag unpacker inverts the flag packer on flags whose members are
enumerators. -/
theorem v3d_qpu_flags_pack_unpack (cond : v3d_qpu_flags) (packed_cond : Nat)
    (hac : cond.ac ≤ V3D_QPU_COND_IFNB) (hmc : cond.mc ≤ V3D_QPU_COND_IFNB)
    (hapf : cond.apf ≤ V3D_QPU_PF_PUSHC) (hmpf : cond.mpf ≤ V3D_QPU_PF_PUSHC)
    (hauf : cond.auf ≤ V3D_QPU_UF_NORC) (hmuf : cond.muf ≤ V3D_QPU_UF_NORC)
    (hp : v3d_qpu_flags_pack cond = some packed_cond) :
    v3d_qpu_flags_unpack packed_cond = some cond := by
  obtain ⟨ac, mc, apf, mpf, auf, muf⟩ := cond
  simp only [V3D_QPU_COND_IFNB, V3D_QPU_PF_PUSHC, V3D_QPU_UF_NORC] at hac hmc hapf hmpf hauf hmuf
  rcases eq_or_ne ac 0 with h1 | h1 <;>
  rcases eq_or_ne mc 0 with h2 | h2 <;>
  rcases eq_or_ne apf 0 with h3 | h3 <;>
  rcases eq_or_ne mpf 0 with h4 | h4 <;>
  rcases eq_or_ne auf 0 with h5 | h5 <;>
  rcases eq_or_ne muf 0 with h6 | h6 <;>
  first
  | (exfalso; revert hp
     simp [v3d_qpu_flags_pack, v3d_qpu_flags_present, flags_table, FLAG_AC, FLAG_MC, FLAG_APF,
       FLAG_MPF, FLAG_AUF, FLAG_MUF, *]
     done)
  | (subst_vars
     (try interval_cases ac) <;> (try interval_cases mc) <;> (try interval_cases apf) <;>
     (try interval_cases mpf) <;> (try interval_cases auf) <;> (try interval_cases muf) <;>
     (cases hp; rfl))

/-- C14: for every 7-bit cond value, `v3d_qpu_flags_unpack` fails exactly on
0x10; on every other value it succeeds and `v3d_qpu_flags_pack` applied to the
unpacked flags succeeds and returns the value; and whenever
`v3d_qpu_flags_pack` succeeds on flags whose members are enumerators of their
types, `v3d_qpu_flags_unpack` of its result returns those flags. -/
theorem v3d_qpu_flags_codec :
    (∀ c, c < 128 → (v3d_qpu_flags_unpack c = none ↔ c = 0x10)) ∧
    (∀ c, c < 128 → c ≠ 0x10 → ∃ cond, v3d_qpu_flags_unpack c = some cond ∧
      v3d_qpu_flags_pack cond = some c) ∧
    (∀ cond packed_cond,
      cond.ac ≤ V3D_QPU_COND_IFNB → cond.mc ≤ V3D_QPU_COND_IFNB →
      cond.apf ≤ V3D_QPU_PF_PUSHC → cond.mpf ≤ V3D_QPU_PF_PUSHC →
      cond.auf ≤ V3D_QPU_UF_NORC → cond.muf ≤ V3D_QPU_UF_NORC →
      v3d_qpu_flags_pack cond = some packed_cond →
      v3d_qpu_flags_unpack packed_cond = some cond) :=
  ⟨fun c hc => (v3d_qpu_flags_unpack_pack c hc).1,
   fun c hc => (v3d_qpu_flags_unpack_pack c hc).2,
   fun cond packed_cond h1 h2 h3 h4 h5 h6 hp =>
     v3d_qpu_flags_pack_unpack cond packed_cond h1 h2 h3 h4 h5 h6 hp⟩

/-- The thread-switch block changes none of `devinfo`, `ip`, `last`, and leaves
`last_thrsw_ip` alone or sets it to `ip`. -/
theorem qpu_validate_inst_thrsw_frame (state : v3d_qpu_validate_state) :
    (qpu_validate_inst_thrsw state).2.devinfo = state.devinfo ∧
    (qpu_validate_inst_thrsw state).2.ip = state.ip ∧
    (qpu_validate_inst_thrsw state).2.last = state.last ∧
    ((qpu_validate_inst_thrsw state).2.last_thrsw_ip = state.last_thrsw_ip ∨
      (qpu_validate_inst_thrsw state).2.last_thrsw_ip = state.ip) := by
  unfold qpu_validate_inst_thrsw
  dsimp only
  split_ifs <;> simp [fail_instr]

/-- When the thread-switch block accepts and the previous thread switch was not
the instruction before, it records `ip` as the last thread switch. -/
theorem qpu_validate_inst_thrsw_accept (state : v3d_qpu_validate_state)
    (h : (qpu_validate_inst_thrsw state).1 = true)
    (hne : state.last_thrsw_ip ≠ state.ip - 1) :
    (qpu_validate_inst_thrsw state).2.last_thrsw_ip = state.ip := by
  unfold qpu_validate_inst_thrsw at h ⊢
  dsimp only at h ⊢
  split_ifs at h ⊢ <;> simp_all [fail_instr]

/-- The error the thread-switch block reports is one of its own three. -/
theorem qpu_validate_inst_thrsw_reject (state : v3d_qpu_validate_state)
    (h : (qpu_validate_inst_thrsw state).1 = false) :
    (qpu_validate_inst_thrsw state).2.error < 20 := by
  unfold qpu_validate_inst_thrsw at h ⊢
  dsimp only at h ⊢
  split_ifs at h ⊢ <;> simp_all [fail_instr] <;> decide

/-- The errors of the thread-end block: TMUWT_IN_LAST_INSTRUCTION is reported
only when `last_thrsw_ip - ip` is 2. -/
theorem qpu_validate_inst_thrend_codes (state : v3d_qpu_validate_state) (inst : v3d_qpu_instr)
    (e : Nat × String) (h : qpu_validate_inst_thrend state inst = some e) :
    e.1 < 25 ∧
    (e.1 = V3D_QPU_VALIDATE_ERROR_TMUWT_IN_LAST_INSTRUCTION →
      state.last_thrsw_ip - state.ip = 2) := by
  unfold qpu_validate_inst_thrend at h
  dsimp only at h
  split at h
  · cases h
    rename_i e' he
    split_ifs at he <;> cases he <;> exact ⟨by decide, fun h => absurd h (by decide)⟩
  · split at h
    · cases h
      rename_i e' he
      split_ifs at he <;> cases he <;> exact ⟨by decide, fun h => absurd h (by decide)⟩
    · split at h
      · cases h
        rename_i e' he
        split_ifs at he <;> cases he <;> exact ⟨by decide, fun h => absurd h (by decide)⟩
      · split_ifs at h with c
        cases h
        exact ⟨by decide, fun _ => c.1⟩

/-- The tail of `qpu_validate_inst` on an ALU instruction: either one of the four
rules at its head fires, or the sum of the resource rule is at most one and the result is
decided by the thread-switch block (on the state with `last_sfu_write` updated)
followed by the thread-end block. -/
theorem qpu_validate_inst_tail_cases (state : v3d_qpu_validate_state) (inst : v3d_qpu_instr)
    (t s v l y : Int) (halu : inst.type = V3D_QPU_INSTR_TYPE_ALU) :
    (∃ e msg, qpu_validate_inst_tail state inst t s v l y = (false, fail_instr state e msg) ∧
      e < 17) ∨
    (¬ (t + s + v + l + y +
          (if state.devinfo.ver = 42 then sig_bit_value inst.sig.ldtmu else 0) +
          sig_bit_value inst.sig.ldtlb + sig_bit_value inst.sig.ldvpm +
          sig_bit_value inst.sig.ldtlbu > 1) ∧
      ∃ st1 : v3d_qpu_validate_state,
        st1 = (if s ≠ 0 then { state with last_sfu_write := state.ip } else state) ∧
        ∃ tp : Bool × v3d_qpu_validate_state,
          tp = (if inst.sig.thrsw then qpu_validate_inst_thrsw st1 else (true, st1)) ∧
          qpu_validate_inst_tail state inst t s v l y =
            if tp.1 = false then tp
            else
              match (if tp.2.thrend_found = true ∧ tp.2.last_thrsw_ip - tp.2.ip ≤ 2 ∧
                  inst.type = V3D_QPU_INSTR_TYPE_ALU then qpu_validate_inst_thrend tp.2 inst
                else none) with
              | some e => (false, fail_instr tp.2 e.1 e.2)
              | none => (true, tp.2)) := by
  have hnb : ¬ inst.type = V3D_QPU_INSTR_TYPE_BRANCH := by rw [halu]; decide
  unfold qpu_validate_inst_tail
  dsimp only
  by_cases c1 : state.ip - state.last_sfu_write < 2 ∧ v3d_qpu_uses_mux inst V3D_QPU_MUX_R4 = true
  · rw [if_pos c1]
    exact Or.inl ⟨_, _, rfl, by decide⟩
  rw [if_neg c1]
  by_cases c2 : state.ip - state.last_sfu_write < 2 ∧ v3d_qpu_writes_r4 state.devinfo inst = true
  · rw [if_pos c2]
    exact Or.inl ⟨_, _, rfl, by decide⟩
  rw [if_neg c2]
  by_cases c3 : state.ip - state.last_sfu_write < 2 ∧ s ≠ 0
  · rw [if_pos c3]
    exact Or.inl ⟨_, _, rfl, by decide⟩
  rw [if_neg c3]
  by_cases c4 : t + s + v + l + y +
          (if state.devinfo.ver = 42 then sig_bit_value inst.sig.ldtmu else 0) +
          sig_bit_value inst.sig.ldtlb + sig_bit_value inst.sig.ldvpm +
          sig_bit_value inst.sig.ldtlbu > 1
  · rw [if_pos c4]
    exact Or.inl ⟨_, _, rfl, by decide⟩
  rw [if_neg c4]
  refine Or.inr ⟨c4, _, rfl, _, rfl, ?_⟩
  simp only [if_neg hnb]

/-- An ALU instruction at the head of `qpu_validate_inst`: either one of the
rules before the tail fires, or none of the small-immediate, LDUNIF/LDUNIFA and
THRSW delay slot rules applies and the result is that of the tail. -/
theorem qpu_validate_inst_alu_cases (state : v3d_qpu_validate_state) (inst : v3d_qpu_instr)
    (halu : inst.type = V3D_QPU_INSTR_TYPE_ALU) :
    (∃ e msg, qpu_validate_inst state inst = (false, fail_instr state e msg) ∧ e < 17) ∨
    ((¬ (state.devinfo.ver < 71 ∧
          (inst.sig.small_imm_a || inst.sig.small_imm_c || inst.sig.small_imm_d) = true) ∧
      ¬ (¬ state.devinfo.ver < 71 ∧ (inst.sig.small_imm_a || inst.sig.small_imm_b) = true ∧
          ¬ (inst.type = V3D_QPU_INSTR_TYPE_ALU ∧ inst.alu.add.op ≠ V3D_QPU_A_NOP)) ∧
      ¬ (¬ state.devinfo.ver < 71 ∧ (inst.sig.small_imm_c || inst.sig.small_imm_d) = true ∧
          ¬ (inst.type = V3D_QPU_INSTR_TYPE_ALU ∧ inst.alu.mul.op ≠ V3D_QPU_M_NOP)) ∧
      ¬ (¬ state.devinfo.ver < 71 ∧
          sig_bit_value inst.sig.small_imm_a + sig_bit_value inst.sig.small_imm_b +
          sig_bit_value inst.sig.small_imm_c + sig_bit_value inst.sig.small_imm_d > 1) ∧
      (∀ last, state.last = some last → ¬ (state.devinfo.ver < 42 ∧
          (((last.sig.ldunif || last.sig.ldunifrf) && (inst.sig.ldunifa || inst.sig.ldunifarf)) ||
           ((last.sig.ldunifa || last.sig.ldunifarf) && (inst.sig.ldunif || inst.sig.ldunifrf))) =
            true)) ∧
      ¬ (in_thrsw_delay_slots state = true ∧
          qpu_validate_inst_count inst v3d_qpu_magic_waddr_is_sfu ≠ 0) ∧
      ¬ (in_thrsw_delay_slots state = true ∧ inst.sig.ldvary = true ∧ state.devinfo.ver = 42)) ∧
      qpu_validate_inst state inst =
        qpu_validate_inst_tail state inst
          (qpu_validate_inst_count inst (v3d_qpu_magic_waddr_is_tmu state.devinfo))
          (qpu_validate_inst_count inst v3d_qpu_magic_waddr_is_sfu)
          (qpu_validate_inst_count inst v3d_qpu_magic_waddr_is_vpm)
          (qpu_validate_inst_count inst v3d_qpu_magic_waddr_is_tlb)
          (qpu_validate_inst_count inst v3d_qpu_magic_waddr_is_tsy)) := by
  have hnb : ¬ inst.type = V3D_QPU_INSTR_TYPE_BRANCH := by rw [halu]; decide
  have hnn : ¬ inst.type ≠ V3D_QPU_INSTR_TYPE_ALU := fun h => h halu
  have hcnt : ∀ p : Nat → Bool,
      qpu_validate_count_writes (decide (inst.alu.add.op = V3D_QPU_A_NOP)) inst.alu.add p +
      qpu_validate_count_writes (decide (inst.alu.mul.op = V3D_QPU_M_NOP)) inst.alu.mul p =
      qpu_validate_inst_count inst p := fun _ => rfl
  unfold qpu_validate_inst
  dsimp only
  simp only [hcnt]
  rw [if_neg (fun h => hnb h.1), if_neg hnn]
  by_cases c1 : inst.alu.add.op = V3D_QPU_A_SETMSF ∧ state.first_tlb_z_write ≥ 0 ∧
      state.ip > state.first_tlb_z_write
  · rw [if_pos c1]; exact Or.inl ⟨_, _, rfl, by decide⟩
  rw [if_neg c1]
  by_cases c2 : state.first_tlb_z_write ≥ 0 ∧ state.ip > state.first_tlb_z_write ∧
      inst.alu.add.op = V3D_QPU_A_MSF
  · rw [if_pos c2]; exact Or.inl ⟨_, _, rfl, by decide⟩
  rw [if_neg c2]
  by_cases c3 : state.devinfo.ver < 71 ∧
      (inst.sig.small_imm_a || inst.sig.small_imm_c || inst.sig.small_imm_d) = true
  · rw [if_pos c3]; exact Or.inl ⟨_, _, rfl, by decide⟩
  rw [if_neg c3]
  by_cases c4 : ¬ state.devinfo.ver < 71 ∧ (inst.sig.small_imm_a || inst.sig.small_imm_b) = true ∧
      ¬ (inst.type = V3D_QPU_INSTR_TYPE_ALU ∧ inst.alu.add.op ≠ V3D_QPU_A_NOP)
  · rw [if_pos c4]; exact Or.inl ⟨_, _, rfl, by decide⟩
  rw [if_neg c4]
  by_cases c5 : ¬ state.devinfo.ver < 71 ∧ (inst.sig.small_imm_c || inst.sig.small_imm_d) = true ∧
      ¬ (inst.type = V3D_QPU_INSTR_TYPE_ALU ∧ inst.alu.mul.op ≠ V3D_QPU_M_NOP)
  · rw [if_pos c5]; exact Or.inl ⟨_, _, rfl, by decide⟩
  rw [if_neg c5]
  by_cases c6 : ¬ state.devinfo.ver < 71 ∧
      sig_bit_value inst.sig.small_imm_a + sig_bit_value inst.sig.small_imm_b +
      sig_bit_value inst.sig.small_imm_c + sig_bit_value inst.sig.small_imm_d > 1
  · rw [if_pos c6]; exact Or.inl ⟨_, _, rfl, by decide⟩
  rw [if_neg c6]
  rcases hl : state.last with _ | last
  · simp only [Bool.false_and, Bool.or_self, Bool.false_eq_true, and_false, if_false]
    by_cases c9 : in_thrsw_delay_slots state = true ∧
            qpu_validate_inst_count inst v3d_qpu_magic_waddr_is_sfu ≠ 0
    · rw [if_pos c9]; exact Or.inl ⟨_, _, rfl, by decide⟩
    rw [if_neg c9]
    by_cases c10 : in_thrsw_delay_slots state = true ∧ inst.sig.ldvary = true ∧
        state.devinfo.ver = 42
    · rw [if_pos c10]; exact Or.inl ⟨_, _, rfl, by decide⟩
    rw [if_neg c10]
    by_cases c11 : in_thrsw_delay_slots state = true ∧ inst.sig.ldvary = true ∧
            state.devinfo.ver ≥ 71 ∧ state.ip - state.last_thrsw_ip = 2
    · rw [if_pos c11]; exact Or.inl ⟨_, _, rfl, by decide⟩
    rw [if_neg c11]
    exact Or.inr ⟨⟨c3, c4, c5, c6, fun last h => absurd h (by simp), c9, c10⟩, rfl⟩
  · simp only []
    by_cases c7 : (last.sig.ldvary && (inst.sig.ldunif || inst.sig.ldunifa)) = true
    · rw [if_pos c7]; exact Or.inl ⟨_, _, rfl, by decide⟩
    rw [if_neg c7]
    by_cases c8 : state.devinfo.ver < 42 ∧
        (((last.sig.ldunif || last.sig.ldunifrf) && (inst.sig.ldunifa || inst.sig.ldunifarf)) ||
         ((last.sig.ldunifa || last.sig.ldunifarf) && (inst.sig.ldunif || inst.sig.ldunifrf))) =
          true
    · rw [if_pos c8]; exact Or.inl ⟨_, _, rfl, by decide⟩
    rw [if_neg c8]
    by_cases c9 : in_thrsw_delay_slots state = true ∧
            qpu_validate_inst_count inst v3d_qpu_magic_waddr_is_sfu ≠ 0
    · rw [if_pos c9]; exact Or.inl ⟨_, _, rfl, by decide⟩
    rw [if_neg c9]
    by_cases c10 : in_thrsw_delay_slots state = true ∧ inst.sig.ldvary = true ∧
        state.devinfo.ver = 42
    · rw [if_pos c10]; exact Or.inl ⟨_, _, rfl, by decide⟩
    rw [if_neg c10]
    by_cases c11 : in_thrsw_delay_slots state = true ∧ inst.sig.ldvary = true ∧
            state.devinfo.ver ≥ 71 ∧ state.ip - state.last_thrsw_ip = 2
    · rw [if_pos c11]; exact Or.inl ⟨_, _, rfl, by decide⟩
    rw [if_neg c11]
    exact Or.inr ⟨⟨c3, c4, c5, c6, fun l h => by cases h; exact c8, c9, c10⟩, rfl⟩

/-- An instruction that is not an ALU instruction is rejected by the implicit
branch MSF rule or accepted with the state unchanged. -/
theorem qpu_validate_inst_non_alu (state : v3d_qpu_validate_state) (inst : v3d_qpu_instr)
    (h : inst.type ≠ V3D_QPU_INSTR_TYPE_ALU) :
    qpu_validate_inst state inst =
      if inst.type = V3D_QPU_INSTR_TYPE_BRANCH ∧ state.first_tlb_z_write ≥ 0 ∧
          state.ip > state.first_tlb_z_write ∧ inst.branch.msfign ≠ V3D_QPU_MSFIGN_NONE ∧
          inst.branch.cond ≠ V3D_QPU_BRANCH_COND_ALWAYS ∧
          inst.branch.cond ≠ V3D_QPU_BRANCH_COND_A0 ∧
          inst.branch.cond ≠ V3D_QPU_BRANCH_COND_NA0 then
        (false, fail_instr state V3D_QPU_VALIDATE_ERROR_IMPLICIT_BRANCH_MSF_READ_AFTER_TLB_Z_WRITE
          "Implicit branch MSF read after TLB Z write")
      else (true, state) := by
  unfold qpu_validate_inst
  dsimp only
  by_cases c : inst.type = V3D_QPU_INSTR_TYPE_BRANCH ∧ state.first_tlb_z_write ≥ 0 ∧
          state.ip > state.first_tlb_z_write ∧ inst.branch.msfign ≠ V3D_QPU_MSFIGN_NONE ∧
          inst.branch.cond ≠ V3D_QPU_BRANCH_COND_ALWAYS ∧
          inst.branch.cond ≠ V3D_QPU_BRANCH_COND_A0 ∧
          inst.branch.cond ≠ V3D_QPU_BRANCH_COND_NA0
  · rw [if_pos c, if_pos c]
  · rw [if_neg c, if_neg c, if_pos h]

/-- The thread-switch stage of the tail (on the state with `last_sfu_write`
updated) changes none of `devinfo`, `ip`, `last`, and leaves `last_thrsw_ip`
alone or sets it to `ip`. -/
theorem qpu_validate_inst_tp_frame (state st1 : v3d_qpu_validate_state) (inst : v3d_qpu_instr)
    (s : Int) (tp : Bool × v3d_qpu_validate_state)
    (h1 : st1 = (if s ≠ 0 then { state with last_sfu_write := state.ip } else state))
    (h2 : tp = (if inst.sig.thrsw then qpu_validate_inst_thrsw st1 else (true, st1))) :
    tp.2.devinfo = state.devinfo ∧ tp.2.ip = state.ip ∧ tp.2.last = state.last ∧
    (tp.2.last_thrsw_ip = state.last_thrsw_ip ∨ tp.2.last_thrsw_ip = state.ip) ∧
    (inst.sig.thrsw = false → tp = (true, st1)) ∧
    (tp.1 = false → tp.2.error < 20) ∧
    (inst.sig.thrsw = true → tp.1 = true → state.last_thrsw_ip ≠ state.ip - 1 →
      tp.2.last_thrsw_ip = state.ip) := by
  have e1 : st1.devinfo = state.devinfo ∧ st1.ip = state.ip ∧ st1.last = state.last ∧
      st1.last_thrsw_ip = state.last_thrsw_ip := by
    rw [h1]; split_ifs <;> simp
  obtain ⟨a1, a2, a3, a4⟩ := e1
  obtain ⟨f1, f2, f3, f4⟩ := qpu_validate_inst_thrsw_frame st1
  by_cases ht : inst.sig.thrsw = true
  · rw [if_pos ht] at h2
    subst h2
    refine ⟨f1.trans a1, f2.trans a2, f3.trans a3, ?_, ?_, ?_, ?_⟩
    · rcases f4 with f4 | f4
      · exact Or.inl (f4.trans a4)
      · exact Or.inr (f4.trans a2)
    · intro h; rw [ht] at h; exact absurd h (by decide)
    · intro h; exact qpu_validate_inst_thrsw_reject st1 h
    · intro _ h hne
      rw [qpu_validate_inst_thrsw_accept st1 h (by rw [a4, a2]; exact hne)]
      exact a2
  · rw [if_neg ht] at h2
    subst h2
    refine ⟨a1, a2, a3, Or.inl a4, fun _ => rfl, ?_, ?_⟩
    · intro h; exact absurd h (by simp)
    · intro h; exact absurd h ht

/-- What `qpu_validate_inst` does to the state: `devinfo`, `ip` and `last` stay,
`last_thrsw_ip` stays or becomes `ip`, and it stays when the instruction has no
thrsw signal. -/
theorem qpu_validate_inst_frame (state : v3d_qpu_validate_state) (inst : v3d_qpu_instr) :
    (qpu_validate_inst state inst).2.devinfo = state.devinfo ∧
    (qpu_validate_inst state inst).2.ip = state.ip ∧
    (qpu_validate_inst state inst).2.last = state.last ∧
    ((qpu_validate_inst state inst).2.last_thrsw_ip = state.last_thrsw_ip ∨
      (qpu_validate_inst state inst).2.last_thrsw_ip = state.ip) ∧
    (inst.sig.thrsw = false →
      (qpu_validate_inst state inst).2.last_thrsw_ip = state.last_thrsw_ip) ∧
    (inst.type ≠ V3D_QPU_INSTR_TYPE_ALU →
      (qpu_validate_inst state inst).2.last_thrsw_ip = state.last_thrsw_ip) := by
  by_cases halu : inst.type = V3D_QPU_INSTR_TYPE_ALU
  · rcases qpu_validate_inst_alu_cases state inst halu with ⟨e, msg, h, _⟩ | ⟨_, h⟩
    · rw [h]; simp [fail_instr]
    · rw [h]
      rcases qpu_validate_inst_tail_cases state inst _ _ _ _ _ halu with
        ⟨e, msg, h', _⟩ | ⟨_, st1, h1, tp, h2, h'⟩
      · rw [h']; simp [fail_instr]
      · rw [h']
        obtain ⟨g1, g2, g3, g4, g5, _, _⟩ := qpu_validate_inst_tp_frame state st1 inst _ tp h1 h2
        have e1 : st1.last_thrsw_ip = state.last_thrsw_ip := by
          rw [h1]; split_ifs <;> simp
        have g6 : inst.sig.thrsw = false → tp.2.last_thrsw_ip = state.last_thrsw_ip := by
          intro h; rw [g5 h]; exact e1
        by_cases c : tp.1 = false
        · rw [if_pos c]
          exact ⟨g1, g2, g3, g4, g6, fun h => absurd halu h⟩
        · rw [if_neg c]
          split
          · exact ⟨g1, g2, g3, g4, g6, fun h => absurd halu h⟩
          · exact ⟨g1, g2, g3, g4, g6, fun h => absurd halu h⟩
  · rw [qpu_validate_inst_non_alu state inst halu]
    split_ifs <;> simp [fail_instr, halu]

/-- The error a rejecting `qpu_validate_inst` leaves in the state is never one of
the two branch delay slot errors, and it is TMUWT_IN_LAST_INSTRUCTION only from
a state whose `last_thrsw_ip` lies after `ip`. -/
theorem qpu_validate_inst_reject (state : v3d_qpu_validate_state) (inst : v3d_qpu_instr)
    (h : (qpu_validate_inst state inst).1 = false) :
    (qpu_validate_inst state inst).2.error < 25 ∧
    (state.last_thrsw_ip ≤ state.ip →
      (qpu_validate_inst state inst).2.error ≠
        V3D_QPU_VALIDATE_ERROR_TMUWT_IN_LAST_INSTRUCTION) := by
  by_cases halu : inst.type = V3D_QPU_INSTR_TYPE_ALU
  · rcases qpu_validate_inst_alu_cases state inst halu with ⟨e, msg, h0, he⟩ | ⟨_, h0⟩
    · rw [h0]
      simp only [fail_instr, V3D_QPU_VALIDATE_ERROR_TMUWT_IN_LAST_INSTRUCTION]
      omega
    · rw [h0] at h ⊢
      rcases qpu_validate_inst_tail_cases state inst _ _ _ _ _ halu with
        ⟨e, msg, h', he⟩ | ⟨_, st1, h1, tp, h2, h'⟩
      · rw [h']
        simp only [fail_instr, V3D_QPU_VALIDATE_ERROR_TMUWT_IN_LAST_INSTRUCTION]
        omega
      · rw [h'] at h ⊢
        obtain ⟨_, g2, _, g4, _, g6, _⟩ := qpu_validate_inst_tp_frame state st1 inst _ tp h1 h2
        by_cases c : tp.1 = false
        · rw [if_pos c]
          have := g6 c
          simp only [V3D_QPU_VALIDATE_ERROR_TMUWT_IN_LAST_INSTRUCTION]
          omega
        · rw [if_neg c] at h ⊢
          by_cases ct : tp.2.thrend_found = true ∧ tp.2.last_thrsw_ip - tp.2.ip ≤ 2 ∧
              inst.type = V3D_QPU_INSTR_TYPE_ALU
          · rw [if_pos ct] at h ⊢
            cases he : qpu_validate_inst_thrend tp.2 inst with
            | none => rw [he] at h; exact absurd h (by simp)
            | some e =>
              obtain ⟨k1, k2⟩ := qpu_validate_inst_thrend_codes tp.2 inst e he
              simp only [fail_instr]
              refine ⟨k1, fun hle hE => ?_⟩
              have := k2 hE
              omega
          · rw [if_neg ct] at h
            exact absurd h (by simp)
  · rw [qpu_validate_inst_non_alu state inst halu] at h ⊢
    split_ifs at h ⊢
    simp only [fail_instr]
    exact ⟨by decide, fun _ => by decide⟩

/-- The loop over a concatenation: the second part runs from the state the first
part ends in, unless the first part reports an index. -/
theorem v3d_qpu_validate_loop_append (l1 l2 : List v3d_qpu_instr) :
    ∀ (index : Int) (state : v3d_qpu_validate_state),
      v3d_qpu_validate_loop (l1 ++ l2) index state =
        if (v3d_qpu_validate_loop l1 index state).1 = none then
          v3d_qpu_validate_loop l2 (index + l1.length) (v3d_qpu_validate_loop l1 index state).2
        else v3d_qpu_validate_loop l1 index state := by
  induction l1 with
  | nil => intro index state; simp [v3d_qpu_validate_loop]
  | cons x xs ih =>
    intro index state
    simp only [List.cons_append, v3d_qpu_validate_loop]
    by_cases c : (qpu_validate_inst state x).1 = false
    · simp only [if_pos c]
      rw [if_neg (by simp)]
    · simp only [if_neg c, List.append_eq]
      rw [ih]
      have e : index + 1 + (xs.length : Int) = index + ((x :: xs).length : Int) := by
        simp only [List.length_cons]; push_cast; ring
      rw [e]

/-- When the loop reports no index, every instruction was accepted by
`qpu_validate_inst` in the state the loop reached before it. -/
theorem v3d_qpu_validate_loop_accept (pre : List v3d_qpu_instr) (inst : v3d_qpu_instr)
    (post : List v3d_qpu_instr) (index : Int) (state : v3d_qpu_validate_state)
    (h : (v3d_qpu_validate_loop (pre ++ inst :: post) index state).1 = none) :
    (v3d_qpu_validate_loop pre index state).1 = none ∧
    (qpu_validate_inst (v3d_qpu_validate_loop pre index state).2 inst).1 = true := by
  rw [v3d_qpu_validate_loop_append] at h
  by_cases c : (v3d_qpu_validate_loop pre index state).1 = none
  · rw [if_pos c] at h
    refine ⟨c, ?_⟩
    unfold v3d_qpu_validate_loop at h
    dsimp only at h
    by_cases c2 : (qpu_validate_inst (v3d_qpu_validate_loop pre index state).2 inst).1 = false
    · rw [if_pos c2] at h
      exact absurd h (by simp)
    · simpa using c2
  · rw [if_neg c] at h
    exact absurd h c

/-- A property of the state that every accepted iteration over an instruction
satisfying `Q` preserves holds at the end of a loop that reports no index. -/
theorem v3d_qpu_validate_loop_inv (P : v3d_qpu_validate_state → Prop)
    (Q : v3d_qpu_instr → Prop)
    (hstep : ∀ (state : v3d_qpu_validate_state) (inst : v3d_qpu_instr), Q inst → P state →
      (qpu_validate_inst state inst).1 = true →
      P { (qpu_validate_inst state inst).2 with
            last := some inst, ip := (qpu_validate_inst state inst).2.ip + 1 })
    (l : List v3d_qpu_instr) :
    ∀ (index : Int) (state : v3d_qpu_validate_state), (∀ i ∈ l, Q i) → P state →
      (v3d_qpu_validate_loop l index state).1 = none →
      P (v3d_qpu_validate_loop l index state).2 := by
  induction l with
  | nil => intro index state _ hP _; exact hP
  | cons x xs ih =>
    intro index state hQ hP h
    unfold v3d_qpu_validate_loop at h ⊢
    dsimp only at h ⊢
    by_cases c : (qpu_validate_inst state x).1 = false
    · rw [if_pos c] at h
      exact absurd h (by simp)
    · rw [if_neg c] at h ⊢
      exact ih _ _ (fun i hi => hQ i (List.mem_cons_of_mem _ hi))
        (hstep state x (hQ x (List.mem_cons_self _ _)) hP (by simpa using c)) h

/-- The loop never changes `devinfo`. -/
theorem v3d_qpu_validate_loop_devinfo (l : List v3d_qpu_instr) (index : Int)
    (state : v3d_qpu_validate_state) (h : (v3d_qpu_validate_loop l index state).1 = none) :
    (v3d_qpu_validate_loop l index state).2.devinfo = state.devinfo :=
  v3d_qpu_validate_loop_inv (fun s => s.devinfo = state.devinfo) (fun _ => True)
    (fun st inst _ hP _ => (qpu_validate_inst_frame st inst).1.trans hP)
    l index state (fun _ _ => trivial) rfl h

/-- The loop advances `ip` by one per accepted instruction. -/
theorem v3d_qpu_validate_loop_ip (l : List v3d_qpu_instr) :
    ∀ (index : Int) (state : v3d_qpu_validate_state),
      (v3d_qpu_validate_loop l index state).1 = none →
      (v3d_qpu_validate_loop l index state).2.ip = state.ip + l.length := by
  induction l with
  | nil => intro index state _; simp [v3d_qpu_validate_loop]
  | cons x xs ih =>
    intro index state h
    unfold v3d_qpu_validate_loop at h ⊢
    dsimp only at h ⊢
    by_cases c : (qpu_validate_inst state x).1 = false
    · rw [if_pos c] at h
      exact absurd h (by simp)
    · rw [if_neg c] at h ⊢
      rw [ih _ _ h]
      simp only [(qpu_validate_inst_frame state x).2.1, List.length_cons]
      push_cast
      ring

/-- After an accepted instruction the state's `last` is that instruction. -/
theorem v3d_qpu_validate_loop_last (pre : List v3d_qpu_instr) (inst : v3d_qpu_instr)
    (index : Int) (state : v3d_qpu_validate_state)
    (h : (v3d_qpu_validate_loop (pre ++ [inst]) index state).1 = none) :
    (v3d_qpu_validate_loop (pre ++ [inst]) index state).2.last = some inst := by
  have hacc := v3d_qpu_validate_loop_accept pre inst [] index state h
  rw [v3d_qpu_validate_loop_append, if_pos hacc.1]
  simp only [v3d_qpu_validate_loop]
  rw [if_neg (by simp [hacc.2])]

/-- The loop keeps `last_thrsw_ip` at or before `ip`. -/
theorem v3d_qpu_validate_loop_thrsw_le (l : List v3d_qpu_instr) (index : Int)
    (state : v3d_qpu_validate_state) (h0 : state.last_thrsw_ip ≤ state.ip)
    (h : (v3d_qpu_validate_loop l index state).1 = none) :
    (v3d_qpu_validate_loop l index state).2.last_thrsw_ip ≤
      (v3d_qpu_validate_loop l index state).2.ip :=
  v3d_qpu_validate_loop_inv (fun s => s.last_thrsw_ip ≤ s.ip) (fun _ => True)
    (fun st inst _ hP _ => by
      obtain ⟨_, f2, _, f4, _⟩ := qpu_validate_inst_frame st inst
      show (qpu_validate_inst st inst).2.last_thrsw_ip ≤ (qpu_validate_inst st inst).2.ip + 1
      rcases f4 with f4 | f4 <;> rw [f4, f2] <;> omega)
    l index state (fun _ _ => trivial) h0 h

/-- Instructions that are not ALU instructions or carry no thrsw signal leave
`last_thrsw_ip` as it was. -/
theorem v3d_qpu_validate_loop_thrsw_keep (l : List v3d_qpu_instr) (index : Int)
    (state : v3d_qpu_validate_state)
    (hl : ∀ i ∈ l, i.sig.thrsw = false ∨ i.type ≠ V3D_QPU_INSTR_TYPE_ALU)
    (h : (v3d_qpu_validate_loop l index state).1 = none) :
    (v3d_qpu_validate_loop l index state).2.last_thrsw_ip = state.last_thrsw_ip :=
  v3d_qpu_validate_loop_inv (fun s => s.last_thrsw_ip = state.last_thrsw_ip)
    (fun i => i.sig.thrsw = false ∨ i.type ≠ V3D_QPU_INSTR_TYPE_ALU)
    (fun st inst hQ hP _ => by
      obtain ⟨_, _, _, _, f5, f6⟩ := qpu_validate_inst_frame st inst
      show (qpu_validate_inst st inst).2.last_thrsw_ip = state.last_thrsw_ip
      rcases hQ with hQ | hQ
      · rw [f5 hQ]; exact hP
      · rw [f6 hQ]; exact hP)
    l index state hl rfl h

/-- The error of a loop that reports an index: never a branch delay slot error,
and not TMUWT_IN_LAST_INSTRUCTION when the loop starts with `last_thrsw_ip` at
or before `ip`. -/
theorem v3d_qpu_validate_loop_reject (l : List v3d_qpu_instr) :
    ∀ (index : Int) (state : v3d_qpu_validate_state), state.last_thrsw_ip ≤ state.ip →
      (v3d_qpu_validate_loop l index state).1 ≠ none →
      (v3d_qpu_validate_loop l index state).2.error < 25 ∧
      (v3d_qpu_validate_loop l index state).2.error ≠
        V3D_QPU_VALIDATE_ERROR_TMUWT_IN_LAST_INSTRUCTION := by
  induction l with
  | nil => intro index state _ h; exact absurd rfl h
  | cons x xs ih =>
    intro index state h0 h
    unfold v3d_qpu_validate_loop at h ⊢
    dsimp only at h ⊢
    by_cases c : (qpu_validate_inst state x).1 = false
    · rw [if_pos c]
      obtain ⟨k1, k2⟩ := qpu_validate_inst_reject state x c
      exact ⟨k1, k2 h0⟩
    · rw [if_neg c] at h ⊢
      refine ih _ _ ?_ h
      obtain ⟨_, f2, _, f4, _⟩ := qpu_validate_inst_frame state x
      show (qpu_validate_inst state x).2.last_thrsw_ip ≤ (qpu_validate_inst state x).2.ip + 1
      rcases f4 with f4 | f4 <;> rw [f4, f2] <;> omega

/-- `v3d_qpu_validate` returns TRUE only when its loop reports no index. -/
theorem v3d_qpu_validate_true_loop (devinfo : v3d_device_info)
    (instructions : List v3d_qpu_instr) (results : v3d_qpu_validate_result)
    (h : (v3d_qpu_validate devinfo instructions results).1 = true) :
    (v3d_qpu_validate_loop instructions 0
      (v3d_qpu_validate_init devinfo instructions.length)).1 = none := by
  unfold v3d_qpu_validate at h
  dsimp only at h
  unfold v3d_qpu_validate_init
  generalize v3d_qpu_validate_loop instructions 0 _ = lp at h ⊢
  obtain ⟨lp1, lp2⟩ := lp
  cases lp1 with
  | none => rfl
  | some e => simp at h

/-- The error `v3d_qpu_validate` reports when it returns FALSE is never
TMUWT_IN_LAST_INSTRUCTION and never one of the two branch delay slot errors. -/
theorem v3d_qpu_validate_false_error (devinfo : v3d_device_info)
    (instructions : List v3d_qpu_instr) (results : v3d_qpu_validate_result)
    (h : (v3d_qpu_validate devinfo instructions results).1 = false) :
    (v3d_qpu_validate devinfo instructions results).2.error ≠
      V3D_QPU_VALIDATE_ERROR_TMUWT_IN_LAST_INSTRUCTION ∧
    (v3d_qpu_validate devinfo instructions results).2.error ≠
      V3D_QPU_VALIDATE_ERROR_BRANCH_IN_A_BRANCH_DELAY_SLOT ∧
    (v3d_qpu_validate devinfo instructions results).2.error ≠
      V3D_QPU_VALIDATE_ERROR_BRANCH_IN_A_THRSW_DELAY_SLOT := by
  unfold v3d_qpu_validate at h ⊢
  dsimp only at h ⊢
  generalize hlp : v3d_qpu_validate_loop instructions 0 _ = lp at h ⊢
  have hrej : lp.1 ≠ none → lp.2.error < 25 ∧
      lp.2.error ≠ V3D_QPU_VALIDATE_ERROR_TMUWT_IN_LAST_INSTRUCTION := by
    rw [← hlp]
    exact v3d_qpu_validate_loop_reject instructions 0 _ (show (-10 : Int) ≤ 0 by decide)
  obtain ⟨lp1, lp2⟩ := lp
  cases lp1 with
  | none =>
    simp only [Option.isSome_none, true_and] at h ⊢
    split_ifs at h ⊢ <;> simp_all [fail_instr]
  | some e =>
    have := hrej (by simp)
    simp only [Option.isSome_some, Bool.true_eq_false, false_and, if_false, if_true]
    simp only [V3D_QPU_VALIDATE_ERROR_TMUWT_IN_LAST_INSTRUCTION,
      V3D_QPU_VALIDATE_ERROR_BRANCH_IN_A_BRANCH_DELAY_SLOT,
      V3D_QPU_VALIDATE_ERROR_BRANCH_IN_A_THRSW_DELAY_SLOT] at this ⊢
    omega

/-- An accepted ALU instruction passed the rules at the head of
`qpu_validate_inst` and the resource count rule of its tail. -/
theorem qpu_validate_inst_alu_accept (state : v3d_qpu_validate_state) (inst : v3d_qpu_instr)
    (halu : inst.type = V3D_QPU_INSTR_TYPE_ALU)
    (h : (qpu_validate_inst state inst).1 = true) :
    (¬ (state.devinfo.ver < 71 ∧
          (inst.sig.small_imm_a || inst.sig.small_imm_c || inst.sig.small_imm_d) = true) ∧
      ¬ (¬ state.devinfo.ver < 71 ∧ (inst.sig.small_imm_a || inst.sig.small_imm_b) = true ∧
          ¬ (inst.type = V3D_QPU_INSTR_TYPE_ALU ∧ inst.alu.add.op ≠ V3D_QPU_A_NOP)) ∧
      ¬ (¬ state.devinfo.ver < 71 ∧ (inst.sig.small_imm_c || inst.sig.small_imm_d) = true ∧
          ¬ (inst.type = V3D_QPU_INSTR_TYPE_ALU ∧ inst.alu.mul.op ≠ V3D_QPU_M_NOP)) ∧
      ¬ (¬ state.devinfo.ver < 71 ∧
          sig_bit_value inst.sig.small_imm_a + sig_bit_value inst.sig.small_imm_b +
          sig_bit_value inst.sig.small_imm_c + sig_bit_value inst.sig.small_imm_d > 1) ∧
      (∀ last, state.last = some last → ¬ (state.devinfo.ver < 42 ∧
          (((last.sig.ldunif || last.sig.ldunifrf) && (inst.sig.ldunifa || inst.sig.ldunifarf)) ||
           ((last.sig.ldunifa || last.sig.ldunifarf) && (inst.sig.ldunif || inst.sig.ldunifrf))) =
            true)) ∧
      ¬ (in_thrsw_delay_slots state = true ∧
          qpu_validate_inst_count inst v3d_qpu_magic_waddr_is_sfu ≠ 0) ∧
      ¬ (in_thrsw_delay_slots state = true ∧ inst.sig.ldvary = true ∧ state.devinfo.ver = 42)) ∧
    ¬ (qpu_validate_inst_count inst (v3d_qpu_magic_waddr_is_tmu state.devinfo) +
        qpu_validate_inst_count inst v3d_qpu_magic_waddr_is_sfu +
        qpu_validate_inst_count inst v3d_qpu_magic_waddr_is_vpm +
        qpu_validate_inst_count inst v3d_qpu_magic_waddr_is_tlb +
        qpu_validate_inst_count inst v3d_qpu_magic_waddr_is_tsy +
        (if state.devinfo.ver = 42 then sig_bit_value inst.sig.ldtmu else 0) +
        sig_bit_value inst.sig.ldtlb + sig_bit_value inst.sig.ldvpm +
        sig_bit_value inst.sig.ldtlbu > 1) ∧
    (inst.sig.thrsw = true → state.last_thrsw_ip ≠ state.ip - 1 →
      (qpu_validate_inst state inst).2.last_thrsw_ip = state.ip) := by
  rcases qpu_validate_inst_alu_cases state inst halu with ⟨e, msg, h0, _⟩ | ⟨hhead, h0⟩
  · rw [h0] at h; exact absurd h (by simp)
  · rw [h0] at h ⊢
    rcases qpu_validate_inst_tail_cases state inst _ _ _ _ _ halu with
      ⟨e, msg, h', _⟩ | ⟨hcount, st1, h1, tp, h2, h'⟩
    · rw [h'] at h; exact absurd h (by simp)
    · refine ⟨hhead, hcount, ?_⟩
      intro ht hne
      obtain ⟨_, _, _, _, _, _, g7⟩ := qpu_validate_inst_tp_frame state st1 inst _ tp h1 h2
      rw [h'] at h ⊢
      by_cases c : tp.1 = false
      · rw [if_pos c] at h
        rw [c] at h
        exact absurd h (by decide)
      · rw [if_neg c] at h ⊢
        have hg := g7 ht (by simpa using c) hne
        split
        · rename_i e he
          rw [he] at h
          exact absurd h (by simp)
        · exact hg

/-- When `v3d_qpu_validate` returns TRUE, every instruction was accepted by
`qpu_validate_inst` in the state the loop reached before it, a state of the
same device whose `ip` is the position and whose `last` is the instruction
before. -/
theorem v3d_qpu_validate_true_accept (devinfo : v3d_device_info)
    (instructions : List v3d_qpu_instr) (results : v3d_qpu_validate_result)
    (h : (v3d_qpu_validate devinfo instructions results).1 = true)
    (pre : List v3d_qpu_instr) (inst : v3d_qpu_instr) (post : List v3d_qpu_instr)
    (he : instructions = pre ++ inst :: post) :
    ∃ state : v3d_qpu_validate_state,
      state = (v3d_qpu_validate_loop pre 0
        (v3d_qpu_validate_init devinfo instructions.length)).2 ∧
      (v3d_qpu_validate_loop pre 0
        (v3d_qpu_validate_init devinfo instructions.length)).1 = none ∧
      state.devinfo = devinfo ∧ state.ip = pre.length ∧
      (∀ a, pre.getLast? = some a → state.last = some a) ∧
      (qpu_validate_inst state inst).1 = true := by
  have hl := v3d_qpu_validate_true_loop devinfo _ results h
  subst he
  obtain ⟨h1, h2⟩ := v3d_qpu_validate_loop_accept pre inst post 0 _ hl
  refine ⟨_, rfl, h1, ?_, ?_, ?_, h2⟩
  · exact v3d_qpu_validate_loop_devinfo pre 0 _ h1
  · rw [v3d_qpu_validate_loop_ip pre 0 _ h1]
    simp [v3d_qpu_validate_init]
  · intro a ha
    obtain ⟨pre', rfl⟩ : ∃ pre', pre = pre' ++ [a] := by
      rcases List.eq_nil_or_concat pre with hnil | ⟨l, b, hb⟩
      · rw [hnil] at ha; simp at ha
      · rw [hb] at ha ⊢
        simp at ha
        exact ⟨l, by simp [ha]⟩
    exact v3d_qpu_validate_loop_last pre' a 0 _ h1

/-- C17: at a version below 42, a sequence for which `v3d_qpu_validate` returns
TRUE has no two adjacent instructions, the second an ALU instruction, of which
one carries ldunif or ldunifrf and the other carries ldunifa or ldunifarf, in
either order. -/
theorem validate_accepts_no_adjacent_ldunif_ldunifa (devinfo : v3d_device_info)
    (pre : List v3d_qpu_instr) (i1 i2 : v3d_qpu_instr) (post : List v3d_qpu_instr)
    (results : v3d_qpu_validate_result) (hver : devinfo.ver < 42)
    (h : (v3d_qpu_validate devinfo (pre ++ i1 :: i2 :: post) results).1 = true)
    (halu : i2.type = V3D_QPU_INSTR_TYPE_ALU) :
    ¬ (((i1.sig.ldunif = true ∨ i1.sig.ldunifrf = true) ∧
          (i2.sig.ldunifa = true ∨ i2.sig.ldunifarf = true)) ∨
       ((i1.sig.ldunifa = true ∨ i1.sig.ldunifarf = true) ∧
          (i2.sig.ldunif = true ∨ i2.sig.ldunifrf = true))) := by
  obtain ⟨state, _, _, hdev, _, hlast, hacc⟩ :=
    v3d_qpu_validate_true_accept devinfo _ results h (pre ++ [i1]) i2 post (by simp)
  have hl := hlast i1 (by simp)
  obtain ⟨_, _, _, _, c8, _⟩ := (qpu_validate_inst_alu_accept state i2 halu hacc).1
  have c8' := c8 i1 hl
  rw [hdev] at c8'
  intro hbad
  apply c8'
  refine ⟨hver, ?_⟩
  rcases hbad with ⟨h1, h2⟩ | ⟨h1, h2⟩
  · have a1 : (i1.sig.ldunif || i1.sig.ldunifrf) = true := by rcases h1 with h1 | h1 <;> simp [h1]
    have a2 : (i2.sig.ldunifa || i2.sig.ldunifarf) = true := by
      rcases h2 with h2 | h2 <;> simp [h2]
    simp [a1, a2]
  · have a1 : (i1.sig.ldunifa || i1.sig.ldunifarf) = true := by
      rcases h1 with h1 | h1 <;> simp [h1]
    have a2 : (i2.sig.ldunif || i2.sig.ldunifrf) = true := by rcases h2 with h2 | h2 <;> simp [h2]
    simp [a1, a2]

theorem validate_accepts_no_adjacent_ldunif_ldunifa_witness :
    (v3d_qpu_validate { ver := 41 }
      [ { type := V3D_QPU_INSTR_TYPE_ALU, sig := { ldunif := true },
          alu := { add := { op := V3D_QPU_A_NOP }, mul := { op := V3D_QPU_M_NOP } } },
        { type := V3D_QPU_INSTR_TYPE_ALU,
          alu := { add := { op := V3D_QPU_A_NOP }, mul := { op := V3D_QPU_M_NOP } } },
        { type := V3D_QPU_INSTR_TYPE_ALU,
          alu := { add := { op := V3D_QPU_A_NOP }, mul := { op := V3D_QPU_M_NOP } } } ] {}).1 = true ∧
    ¬ (((true = true ∨ false = true) ∧ (false = true ∨ false = true)) ∨
       ((false = true ∨ false = true) ∧ (false = true ∨ false = true))) :=
  ⟨by decide,
   validate_accepts_no_adjacent_ldunif_ldunifa { ver := 41 } []
    { type := V3D_QPU_INSTR_TYPE_ALU, sig := { ldunif := true },
      alu := { add := { op := V3D_QPU_A_NOP }, mul := { op := V3D_QPU_M_NOP } } }
    { type := V3D_QPU_INSTR_TYPE_ALU,
      alu := { add := { op := V3D_QPU_A_NOP }, mul := { op := V3D_QPU_M_NOP } } }
    [ { type := V3D_QPU_INSTR_TYPE_ALU,
        alu := { add := { op := V3D_QPU_A_NOP }, mul := { op := V3D_QPU_M_NOP } } } ]
    {} (by decide) (by decide) rfl⟩

/-- C18 (failing input): at version 42 `v3d_qpu_validate`
returns TRUE, leaving the results untouched, on three branch instructions in a
row, and on an ALU instruction with the thrsw signal followed by a branch
instruction and two NOP instructions: a branch in a branch delay slot and a
branch in a THRSW delay slot are both accepted. -/
theorem validate_accepts_branch_in_delay_slots :
    v3d_qpu_validate { ver := 42 }
      [ { type := V3D_QPU_INSTR_TYPE_BRANCH }, { type := V3D_QPU_INSTR_TYPE_BRANCH },
        { type := V3D_QPU_INSTR_TYPE_BRANCH } ] {} = (true, {}) ∧
    v3d_qpu_validate { ver := 42 }
      [ { type := V3D_QPU_INSTR_TYPE_ALU, sig := { thrsw := true },
          alu := { add := { op := V3D_QPU_A_NOP, waddr := V3D_QPU_WADDR_NOP, magic_write := true },
                   mul := { op := V3D_QPU_M_NOP, waddr := V3D_QPU_WADDR_NOP, magic_write := true } } },
        { type := V3D_QPU_INSTR_TYPE_BRANCH },
        { type := V3D_QPU_INSTR_TYPE_ALU,
          alu := { add := { op := V3D_QPU_A_NOP, waddr := V3D_QPU_WADDR_NOP, magic_write := true },
                   mul := { op := V3D_QPU_M_NOP, waddr := V3D_QPU_WADDR_NOP, magic_write := true } } },
        { type := V3D_QPU_INSTR_TYPE_ALU,
          alu := { add := { op := V3D_QPU_A_NOP, waddr := V3D_QPU_WADDR_NOP, magic_write := true },
                   mul := { op := V3D_QPU_M_NOP, waddr := V3D_QPU_WADDR_NOP, magic_write := true } } } ]
      {} = (true, {}) := by
  constructor <;> decide

/-- C18 (code departs from the claim): whenever `v3d_qpu_validate` returns FALSE,
at any version and on any sequence, the error it reports is neither
BRANCH_IN_A_BRANCH_DELAY_SLOT nor BRANCH_IN_A_THRSW_DELAY_SLOT; the two rules
are never applied, because `qpu_validate_inst` returns TRUE for every
instruction that is not an ALU instruction before it reaches them. -/
theorem validate_never_reports_branch_delay_slot (devinfo : v3d_device_info)
    (instructions : List v3d_qpu_instr) (results : v3d_qpu_validate_result)
    (h : (v3d_qpu_validate devinfo instructions results).1 = false) :
    (v3d_qpu_validate devinfo instructions results).2.error ≠
      V3D_QPU_VALIDATE_ERROR_BRANCH_IN_A_BRANCH_DELAY_SLOT ∧
    (v3d_qpu_validate devinfo instructions results).2.error ≠
      V3D_QPU_VALIDATE_ERROR_BRANCH_IN_A_THRSW_DELAY_SLOT :=
  (v3d_qpu_validate_false_error devinfo instructions results h).2

theorem validate_never_reports_branch_delay_slot_witness :
    (v3d_qpu_validate { ver := 42 }
      [ { type := V3D_QPU_INSTR_TYPE_BRANCH }, { type := V3D_QPU_INSTR_TYPE_BRANCH } ] {}).2.error ≠
      V3D_QPU_VALIDATE_ERROR_BRANCH_IN_A_BRANCH_DELAY_SLOT ∧
    (v3d_qpu_validate { ver := 42 }
      [ { type := V3D_QPU_INSTR_TYPE_BRANCH }, { type := V3D_QPU_INSTR_TYPE_BRANCH } ] {}).2.error ≠
      V3D_QPU_VALIDATE_ERROR_BRANCH_IN_A_THRSW_DELAY_SLOT :=
  validate_never_reports_branch_delay_slot { ver := 42 }
    [ { type := V3D_QPU_INSTR_TYPE_BRANCH }, { type := V3D_QPU_INSTR_TYPE_BRANCH } ] {}
    (by decide)

/-- C19 (failing input): at version 42 `v3d_qpu_validate`
returns TRUE, leaving the results untouched, on the six instructions NOP with
thrsw, NOP with thrsw, NOP, NOP with thrsw, NOP, TMUWT: the fourth instruction
is the thread-end THRSW (it sets `thrend_found`), and the TMUWT in the second
instruction after it, the last of the program, is accepted. -/
theorem validate_accepts_tmuwt_in_last_instruction :
    v3d_qpu_validate { ver := 42 }
      [ { type := V3D_QPU_INSTR_TYPE_ALU, sig := { thrsw := true },
          alu := { add := { op := V3D_QPU_A_NOP, waddr := V3D_QPU_WADDR_NOP, magic_write := true },
                   mul := { op := V3D_QPU_M_NOP, waddr := V3D_QPU_WADDR_NOP, magic_write := true } } },
        { type := V3D_QPU_INSTR_TYPE_ALU, sig := { thrsw := true },
          alu := { add := { op := V3D_QPU_A_NOP, waddr := V3D_QPU_WADDR_NOP, magic_write := true },
                   mul := { op := V3D_QPU_M_NOP, waddr := V3D_QPU_WADDR_NOP, magic_write := true } } },
        { type := V3D_QPU_INSTR_TYPE_ALU,
          alu := { add := { op := V3D_QPU_A_NOP, waddr := V3D_QPU_WADDR_NOP, magic_write := true },
                   mul := { op := V3D_QPU_M_NOP, waddr := V3D_QPU_WADDR_NOP, magic_write := true } } },
        { type := V3D_QPU_INSTR_TYPE_ALU, sig := { thrsw := true },
          alu := { add := { op := V3D_QPU_A_NOP, waddr := V3D_QPU_WADDR_NOP, magic_write := true },
                   mul := { op := V3D_QPU_M_NOP, waddr := V3D_QPU_WADDR_NOP, magic_write := true } } },
        { type := V3D_QPU_INSTR_TYPE_ALU,
          alu := { add := { op := V3D_QPU_A_NOP, waddr := V3D_QPU_WADDR_NOP, magic_write := true },
                   mul := { op := V3D_QPU_M_NOP, waddr := V3D_QPU_WADDR_NOP, magic_write := true } } },
        { type := V3D_QPU_INSTR_TYPE_ALU,
          alu := { add := { op := V3D_QPU_A_TMUWT, waddr := V3D_QPU_WADDR_NOP, magic_write := true },
                   mul := { op := V3D_QPU_M_NOP, waddr := V3D_QPU_WADDR_NOP, magic_write := true } } } ]
      {} = (true, {}) := by
  decide

/-- C19 (code departs from the claim): whenever `v3d_qpu_validate` returns FALSE,
at any version and on any sequence, the error it reports is not
TMUWT_IN_LAST_INSTRUCTION; the rule tests `last_thrsw_ip - ip == 2`, and
`last_thrsw_ip` is never after `ip`. -/
theorem validate_never_reports_tmuwt_in_last_instruction (devinfo : v3d_device_info)
    (instructions : List v3d_qpu_instr) (results : v3d_qpu_validate_result)
    (h : (v3d_qpu_validate devinfo instructions results).1 = false) :
    (v3d_qpu_validate devinfo instructions results).2.error ≠
      V3D_QPU_VALIDATE_ERROR_TMUWT_IN_LAST_INSTRUCTION :=
  (v3d_qpu_validate_false_error devinfo instructions results h).1

theorem validate_never_reports_tmuwt_in_last_instruction_witness :
    (v3d_qpu_validate { ver := 42 }
      [ { type := V3D_QPU_INSTR_TYPE_ALU,
          alu := { add := { op := V3D_QPU_A_TMUWT, waddr := V3D_QPU_WADDR_NOP, magic_write := true },
                   mul := { op := V3D_QPU_M_NOP, waddr := V3D_QPU_WADDR_NOP,
                            magic_write := true } } } ] {}).2.error ≠
      V3D_QPU_VALIDATE_ERROR_TMUWT_IN_LAST_INSTRUCTION :=
  validate_never_reports_tmuwt_in_last_instruction { ver := 42 }
    [ { type := V3D_QPU_INSTR_TYPE_ALU,
        alu := { add := { op := V3D_QPU_A_TMUWT, waddr := V3D_QPU_WADDR_NOP, magic_write := true },
                 mul := { op := V3D_QPU_M_NOP, waddr := V3D_QPU_WADDR_NOP,
                          magic_write := true } } } ] {}
    (by decide)

/-- C20 (counterexample): at version 42 `v3d_qpu_validate` returns TRUE on a
branch instruction whose signal set has thrsw (the first instruction carrying
thrsw), followed by an ALU instruction carrying ldvary and two NOP
instructions; the signals of an instruction that is not an ALU instruction are
not examined. -/
theorem validate_thrsw_delay_slots_counterexample :
    v3d_qpu_validate { ver := 42 }
      [ { type := V3D_QPU_INSTR_TYPE_BRANCH, sig := { thrsw := true } },
        { type := V3D_QPU_INSTR_TYPE_ALU, sig := { ldvary := true },
          alu := { add := { op := V3D_QPU_A_NOP, waddr := V3D_QPU_WADDR_NOP, magic_write := true },
                   mul := { op := V3D_QPU_M_NOP, waddr := V3D_QPU_WADDR_NOP, magic_write := true } } },
        { type := V3D_QPU_INSTR_TYPE_ALU,
          alu := { add := { op := V3D_QPU_A_NOP, waddr := V3D_QPU_WADDR_NOP, magic_write := true },
                   mul := { op := V3D_QPU_M_NOP, waddr := V3D_QPU_WADDR_NOP, magic_write := true } } },
        { type := V3D_QPU_INSTR_TYPE_ALU,
          alu := { add := { op := V3D_QPU_A_NOP, waddr := V3D_QPU_WADDR_NOP, magic_write := true },
                   mul := { op := V3D_QPU_M_NOP, waddr := V3D_QPU_WADDR_NOP, magic_write := true } } } ]
      {} = (true, {}) := by
  decide

/-- C20 (amended): at version 42 `v3d_qpu_validate` returns FALSE on every
sequence in which an ALU instruction is the first instruction of the program
carrying thrsw and the instruction one or two places after it is an ALU
instruction that carries ldvary or performs a magic write to an SFU address
from a non-NOP add or mul operation. -/
theorem validate_rejects_ldvary_sfu_in_thrsw_delay_slots (devinfo : v3d_device_info)
    (pre : List v3d_qpu_instr) (i1 : v3d_qpu_instr) (mid : List v3d_qpu_instr)
    (i2 : v3d_qpu_instr) (post : List v3d_qpu_instr) (results : v3d_qpu_validate_result)
    (hver : devinfo.ver = 42)
    (hpre : ∀ i ∈ pre, i.sig.thrsw = false)
    (h1 : i1.sig.thrsw = true) (h1alu : i1.type = V3D_QPU_INSTR_TYPE_ALU)
    (hmid : mid.length ≤ 1)
    (h2alu : i2.type = V3D_QPU_INSTR_TYPE_ALU)
    (h2 : i2.sig.ldvary = true ∨
      (i2.alu.add.op ≠ V3D_QPU_A_NOP ∧ i2.alu.add.magic_write = true ∧
        v3d_qpu_magic_waddr_is_sfu i2.alu.add.waddr = true) ∨
      (i2.alu.mul.op ≠ V3D_QPU_M_NOP ∧ i2.alu.mul.magic_write = true ∧
        v3d_qpu_magic_waddr_is_sfu i2.alu.mul.waddr = true)) :
    (v3d_qpu_validate devinfo (pre ++ i1 :: (mid ++ i2 :: post)) results).1 = false := by
  by_contra hne
  have h : (v3d_qpu_validate devinfo (pre ++ i1 :: (mid ++ i2 :: post)) results).1 = true := by
    simpa using hne
  obtain ⟨sa, hsa, hnone, _, hipa, _, hacca⟩ :=
    v3d_qpu_validate_true_accept devinfo _ results h pre i1 (mid ++ i2 :: post) rfl
  obtain ⟨sb, hsb, hnoneb, hdevb, hipb, _, haccb⟩ :=
    v3d_qpu_validate_true_accept devinfo _ results h (pre ++ ([i1] ++ mid)) i2 post (by simp)
  have hS0 : (v3d_qpu_validate_init devinfo
      (pre ++ i1 :: (mid ++ i2 :: post)).length).last_thrsw_ip = -10 := rfl
  generalize v3d_qpu_validate_init devinfo (pre ++ i1 :: (mid ++ i2 :: post)).length = S0
    at hsa hnone hsb hnoneb hS0
  have hka : sa.last_thrsw_ip = -10 := by
    rw [hsa, ← hS0]
    exact v3d_qpu_validate_loop_thrsw_keep pre 0 _ (fun i hi => Or.inl (hpre i hi)) hnone
  have hrec := (qpu_validate_inst_alu_accept sa i1 h1alu hacca).2.2 h1
    (by rw [hka, hipa]; omega)
  have hthr : (pre.length : Int) ≤ sb.last_thrsw_ip ∧ sb.last_thrsw_ip ≤ sb.ip := by
    rw [hsb]
    rw [v3d_qpu_validate_loop_append] at hnoneb ⊢
    rw [if_pos hnone, ← hsa] at hnoneb ⊢
    rw [v3d_qpu_validate_loop_append] at hnoneb ⊢
    have hone : v3d_qpu_validate_loop [i1] (0 + (pre.length : Int)) sa =
        (none, { (qpu_validate_inst sa i1).2 with
                   last := some i1, ip := (qpu_validate_inst sa i1).2.ip + 1 }) := by
      simp only [v3d_qpu_validate_loop]
      rw [if_neg (by simp [hacca])]
    rw [hone] at hnoneb ⊢
    rw [if_pos rfl] at hnoneb ⊢
    refine v3d_qpu_validate_loop_inv
      (fun s => (pre.length : Int) ≤ s.last_thrsw_ip ∧ s.last_thrsw_ip ≤ s.ip) (fun _ => True)
      (fun st inst _ hP _ => ?_) mid _ _ (fun _ _ => trivial) ?_ hnoneb
    · obtain ⟨_, f2, _, f4, _⟩ := qpu_validate_inst_frame st inst
      show (pre.length : Int) ≤ (qpu_validate_inst st inst).2.last_thrsw_ip ∧
        (qpu_validate_inst st inst).2.last_thrsw_ip ≤ (qpu_validate_inst st inst).2.ip + 1
      rcases f4 with f4 | f4 <;> rw [f4, f2] <;> omega
    · show (pre.length : Int) ≤ (qpu_validate_inst sa i1).2.last_thrsw_ip ∧
        (qpu_validate_inst sa i1).2.last_thrsw_ip ≤ (qpu_validate_inst sa i1).2.ip + 1
      rw [hrec, (qpu_validate_inst_frame sa i1).2.1, hipa]
      omega
  have hdelay : in_thrsw_delay_slots sb = true := by
    unfold in_thrsw_delay_slots
    have : sb.ip = (pre.length : Int) + 1 + mid.length := by
      rw [hipb]
      simp only [List.length_append, List.length_cons, List.length_nil]
      push_cast
      ring
    have hm : (mid.length : Int) ≤ 1 := by exact_mod_cast hmid
    simp only [decide_eq_true_eq]
    omega
  obtain ⟨_, _, _, _, _, c9, c10⟩ := (qpu_validate_inst_alu_accept sb i2 h2alu haccb).1
  rcases h2 with h2 | h2 | h2
  · exact c10 ⟨hdelay, h2, by rw [hdevb]; exact hver⟩
  · apply c9
    refine ⟨hdelay, ?_⟩
    obtain ⟨a1, a2, a3⟩ := h2
    have hm : 0 ≤ qpu_validate_count_writes (decide (i2.alu.mul.op = V3D_QPU_M_NOP)) i2.alu.mul
        v3d_qpu_magic_waddr_is_sfu := by
      unfold qpu_validate_count_writes; split_ifs <;> decide
    have ha : qpu_validate_count_writes (decide (i2.alu.add.op = V3D_QPU_A_NOP)) i2.alu.add
        v3d_qpu_magic_waddr_is_sfu = 1 := by
      unfold qpu_validate_count_writes; simp [a1, a2, a3]
    unfold qpu_validate_inst_count
    omega
  · apply c9
    refine ⟨hdelay, ?_⟩
    obtain ⟨a1, a2, a3⟩ := h2
    have hm : 0 ≤ qpu_validate_count_writes (decide (i2.alu.add.op = V3D_QPU_A_NOP)) i2.alu.add
        v3d_qpu_magic_waddr_is_sfu := by
      unfold qpu_validate_count_writes; split_ifs <;> decide
    have ha : qpu_validate_count_writes (decide (i2.alu.mul.op = V3D_QPU_M_NOP)) i2.alu.mul
        v3d_qpu_magic_waddr_is_sfu = 1 := by
      unfold qpu_validate_count_writes; simp [a1, a2, a3]
    unfold qpu_validate_inst_count
    omega

theorem validate_rejects_ldvary_sfu_in_thrsw_delay_slots_witness :
    (v3d_qpu_validate { ver := 42 }
      [ { type := V3D_QPU_INSTR_TYPE_ALU, sig := { thrsw := true },
          alu := { add := { op := V3D_QPU_A_NOP, waddr := V3D_QPU_WADDR_NOP, magic_write := true },
                   mul := { op := V3D_QPU_M_NOP, waddr := V3D_QPU_WADDR_NOP, magic_write := true } } },
        { type := V3D_QPU_INSTR_TYPE_ALU,
          alu := { add := { op := V3D_QPU_A_NOP, waddr := V3D_QPU_WADDR_NOP, magic_write := true },
                   mul := { op := V3D_QPU_M_NOP, waddr := V3D_QPU_WADDR_NOP, magic_write := true } } },
        { type := V3D_QPU_INSTR_TYPE_ALU,
          alu := { add := { op := V3D_QPU_A_FADD, waddr := V3D_QPU_WADDR_RECIP, magic_write := true },
                   mul := { op := V3D_QPU_M_NOP, waddr := V3D_QPU_WADDR_NOP, magic_write := true } } },
        { type := V3D_QPU_INSTR_TYPE_ALU,
          alu := { add := { op := V3D_QPU_A_NOP, waddr := V3D_QPU_WADDR_NOP, magic_write := true },
                   mul := { op := V3D_QPU_M_NOP, waddr := V3D_QPU_WADDR_NOP, magic_write := true } } },
        { type := V3D_QPU_INSTR_TYPE_ALU,
          alu := { add := { op := V3D_QPU_A_NOP, waddr := V3D_QPU_WADDR_NOP, magic_write := true },
                   mul := { op := V3D_QPU_M_NOP, waddr := V3D_QPU_WADDR_NOP, magic_write := true } } } ]
      {}).1 = false :=
  validate_rejects_ldvary_sfu_in_thrsw_delay_slots { ver := 42 } []
    { type := V3D_QPU_INSTR_TYPE_ALU, sig := { thrsw := true },
      alu := { add := { op := V3D_QPU_A_NOP, waddr := V3D_QPU_WADDR_NOP, magic_write := true },
               mul := { op := V3D_QPU_M_NOP, waddr := V3D_QPU_WADDR_NOP, magic_write := true } } }
    [ { type := V3D_QPU_INSTR_TYPE_ALU,
        alu := { add := { op := V3D_QPU_A_NOP, waddr := V3D_QPU_WADDR_NOP, magic_write := true },
                 mul := { op := V3D_QPU_M_NOP, waddr := V3D_QPU_WADDR_NOP, magic_write := true } } } ]
    { type := V3D_QPU_INSTR_TYPE_ALU,
      alu := { add := { op := V3D_QPU_A_FADD, waddr := V3D_QPU_WADDR_RECIP, magic_write := true },
               mul := { op := V3D_QPU_M_NOP, waddr := V3D_QPU_WADDR_NOP, magic_write := true } } }
    [ { type := V3D_QPU_INSTR_TYPE_ALU,
        alu := { add := { op := V3D_QPU_A_NOP, waddr := V3D_QPU_WADDR_NOP, magic_write := true },
                 mul := { op := V3D_QPU_M_NOP, waddr := V3D_QPU_WADDR_NOP, magic_write := true } } },
      { type := V3D_QPU_INSTR_TYPE_ALU,
        alu := { add := { op := V3D_QPU_A_NOP, waddr := V3D_QPU_WADDR_NOP, magic_write := true },
                 mul := { op := V3D_QPU_M_NOP, waddr := V3D_QPU_WADDR_NOP, magic_write := true } } } ]
    {} rfl (by simp) rfl rfl (by decide) rfl
    (Or.inr (Or.inl ⟨by decide, rfl, by decide⟩))

/-! ## Round trip of packed words -/

theorem v3d33_qpu_add_pack_opcode_eq (devinfo : v3d_device_info) (add : v3d_qpu_alu_half) :
    v3d33_qpu_add_pack_opcode devinfo add =
      (lookup_opcode_from_instr devinfo add_ops_v33 add.op).bind
        (fun d => v3d33_qpu_add_pack_fields d add) := by
  unfold v3d33_qpu_add_pack_opcode
  cases lookup_opcode_from_instr devinfo add_ops_v33 add.op <;> rfl

set_option maxRecDepth 1000000 in
theorem add_ops_v33_rt : add_ops_v33.all (fun d =>
    !d.first_twin add_ops_v33 || add33_rt_check add_ops_v33 d) = true := by decide!

/-- `List.find?` for a stronger predicate returns the same element when the
element found satisfies it. -/
theorem find?_of_find?_imp {α : Type} (p q : α → Bool) (hqp : ∀ x, q x = true → p x = true) :
    ∀ (l : List α) (d : α), l.find? p = some d → q d = true → l.find? q = some d := by
  intro l
  induction l with
  | nil => intro d h; simp at h
  | cons x xs ih =>
    intro d h hq
    rw [List.find?_cons] at h ⊢
    cases hp : p x with
    | true =>
      rw [hp] at h
      cases h
      rw [hq]
    | false =>
      rw [hp] at h
      have : q x = false := by
        cases hqx : q x with
        | true => rw [hqp x hqx] at hp; exact absurd hp (by decide)
        | false => rfl
      rw [this]
      exact ih d h hq

/-- The row `lookup_opcode_from_packed` returns is the first of its twins. -/
theorem lookup_opcode_from_packed_twin (devinfo : v3d_device_info) (T : List opcode_desc)
    (opcode mux_a mux_b raddr : Nat) (d : opcode_desc)
    (h : lookup_opcode_from_packed devinfo T opcode mux_a mux_b raddr = some d) :
    d ∈ T ∧ opcode_desc_matches_packed devinfo opcode mux_a mux_b raddr d = true ∧
      d.first_twin T = true := by
  unfold lookup_opcode_from_packed at h
  have hm := List.find?_some h
  refine ⟨List.mem_of_find?_eq_some h, hm, ?_⟩
  unfold opcode_desc.first_twin
  rw [beq_iff_eq]
  refine find?_of_find?_imp _ _ ?_ T d h (by simp)
  intro e he
  simp only [Bool.and_eq_true, beq_iff_eq] at he
  obtain ⟨⟨⟨⟨⟨⟨e1, e2⟩, e3⟩, e4⟩, e5⟩, e6⟩, e7⟩ := he
  unfold opcode_desc_matches_packed at hm ⊢
  rw [e1, e2, e3, e4, e5, e6, e7]
  exact hm

/-- The row `lookup_opcode_from_instr` returns, from the first row of the table
for the operation. -/
theorem lookup_opcode_from_instr_of_find (devinfo : v3d_device_info) (T : List opcode_desc)
    (op : Nat) (d : opcode_desc) (h : T.find? (fun x => x.op == op) = some d)
    (hv : opcode_invalid_in_version devinfo d.first_ver d.last_ver = false) :
    lookup_opcode_from_instr devinfo T op = some d := by
  unfold lookup_opcode_from_instr
  refine find?_of_find?_imp _ _ ?_ T d h ?_
  · intro x hx
    simp only [Bool.and_eq_true] at hx
    exact hx.1
  · have := List.find?_some h
    simp only [Bool.and_eq_true, Bool.not_eq_true']
    exact ⟨this, hv⟩

/-- The first `switch` of the ADD decoders: the result is one of `stvpm_ops`; it
is the operation itself unless that is a VPM store, in which case `waddr`
selects among the three stores. -/
theorem v3d_qpu_add_unpack_stvpm_spec (add_op waddr op2 : Nat)
    (h : v3d_qpu_add_unpack_stvpm add_op waddr = some op2) :
    op2 ∈ stvpm_ops add_op ∧
    ((add_op ≠ V3D_QPU_A_STVPMV ∧ add_op ≠ V3D_QPU_A_STVPMD ∧ add_op ≠ V3D_QPU_A_STVPMP ∧
        op2 = add_op) ∨
     ((add_op = V3D_QPU_A_STVPMV ∨ add_op = V3D_QPU_A_STVPMD ∨ add_op = V3D_QPU_A_STVPMP) ∧
        ((waddr = 0 ∧ op2 = V3D_QPU_A_STVPMV) ∨ (waddr = 1 ∧ op2 = V3D_QPU_A_STVPMD) ∨
         (waddr = 2 ∧ op2 = V3D_QPU_A_STVPMP)))) := by
  unfold v3d_qpu_add_unpack_stvpm at h
  unfold stvpm_ops
  by_cases c : add_op = V3D_QPU_A_STVPMV ∨ add_op = V3D_QPU_A_STVPMD ∨ add_op = V3D_QPU_A_STVPMP
  · rw [if_pos c] at h ⊢
    refine ⟨?_, Or.inr ⟨c, ?_⟩⟩
    · split_ifs at h <;> cases h <;> simp
    · split_ifs at h with h0 h1 h2
      · cases h; exact Or.inl ⟨h0, rfl⟩
      · cases h; exact Or.inr (Or.inl ⟨h1, rfl⟩)
      · cases h; exact Or.inr (Or.inr ⟨h2, rfl⟩)
  · rw [if_neg c] at h ⊢
    cases h
    refine ⟨by simp, Or.inl ?_⟩
    simp only [not_or] at c
    exact ⟨c.1, c.2.1, c.2.2, rfl⟩

/-- The tail of the ADD decoders: the result is one of `magic_ops`. -/
theorem v3d_qpu_add_unpack_magic_mem (op2 : Nat) (ma : Bool) :
    (v3d_qpu_add_unpack_magic op2 ma).1 ∈ magic_ops op2 := by
  unfold v3d_qpu_add_unpack_magic magic_ops
  cases ma <;> split_ifs <;> simp

/-- The operations for which the ADD decoder below V3D 7.1 leaves `b.unpack`
untouched. -/
theorem v3d33_qpu_add_unpack_modifiers_b_none (op2 op b outp au : Nat)
    (h : v3d33_qpu_add_unpack_modifiers op2 op b = some (outp, au, none)) :
    op2 = V3D_QPU_A_FFLOOR ∨ op2 = V3D_QPU_A_FROUND ∨ op2 = V3D_QPU_A_FTRUNC ∨
    op2 = V3D_QPU_A_FCEIL ∨ op2 = V3D_QPU_A_FDX ∨ op2 = V3D_QPU_A_FDY ∨
    op2 = V3D_QPU_A_FTOIN ∨ op2 = V3D_QPU_A_FTOIZ ∨ op2 = V3D_QPU_A_FTOUZ ∨
    op2 = V3D_QPU_A_FTOC := by
  unfold v3d33_qpu_add_unpack_modifiers at h
  by_cases c1 : op2 = V3D_QPU_A_FADD ∨ op2 = V3D_QPU_A_FADDNF ∨ op2 = V3D_QPU_A_FSUB ∨
     op2 = V3D_QPU_A_FMIN ∨ op2 = V3D_QPU_A_FMAX ∨ op2 = V3D_QPU_A_FCMP ∨
     op2 = V3D_QPU_A_VFPACK
  · rw [if_pos c1] at h
    dsimp only at h
    cases h1 : v3d_qpu_float32_unpack_unpack (op >>> 2 &&& 3) with
    | none => rw [h1] at h; simp at h
    | some x =>
      rw [h1] at h
      cases h2 : v3d_qpu_float32_unpack_unpack (op >>> 0 &&& 3) with
      | none => rw [h2] at h; simp at h
      | some y => rw [h2] at h; simp at h
  rw [if_neg c1] at h
  by_cases c2 : op2 = V3D_QPU_A_FFLOOR ∨ op2 = V3D_QPU_A_FROUND ∨ op2 = V3D_QPU_A_FTRUNC ∨
     op2 = V3D_QPU_A_FCEIL ∨ op2 = V3D_QPU_A_FDX ∨ op2 = V3D_QPU_A_FDY
  · rcases c2 with c | c | c | c | c | c <;> simp [c]
  rw [if_neg c2] at h
  by_cases c3 : op2 = V3D_QPU_A_FTOIN ∨ op2 = V3D_QPU_A_FTOIZ ∨ op2 = V3D_QPU_A_FTOUZ ∨
     op2 = V3D_QPU_A_FTOC
  · rcases c3 with c | c | c | c <;> simp [c]
  rw [if_neg c3] at h
  by_cases c4 : op2 = V3D_QPU_A_VFMIN ∨ op2 = V3D_QPU_A_VFMAX
  · rw [if_pos c4] at h
    cases h1 : v3d_qpu_float16_unpack_unpack (op &&& 7) with
    | none => rw [h1] at h; simp at h
    | some x => rw [h1] at h; simp at h
  rw [if_neg c4] at h
  simp at h

/-- `v3d33_qpu_add_pack_fields` does not read `b.unpack` for the operations whose
decoder leaves it untouched. -/
theorem v3d33_qpu_add_pack_fields_b_unpack (d : opcode_desc) (op2 : Nat)
    (a : v3d_qpu_input) (bm x y outp w : Nat) (mw : Bool)
    (h : op2 = V3D_QPU_A_FFLOOR ∨ op2 = V3D_QPU_A_FROUND ∨ op2 = V3D_QPU_A_FTRUNC ∨
      op2 = V3D_QPU_A_FCEIL ∨ op2 = V3D_QPU_A_FDX ∨ op2 = V3D_QPU_A_FDY ∨
      op2 = V3D_QPU_A_FTOIN ∨ op2 = V3D_QPU_A_FTOIZ ∨ op2 = V3D_QPU_A_FTOUZ ∨
      op2 = V3D_QPU_A_FTOC) :
    v3d33_qpu_add_pack_fields d
      { op := op2, a := a, b := ⟨bm, x⟩, waddr := w, magic_write := mw, output_pack := outp } =
    v3d33_qpu_add_pack_fields d
      { op := op2, a := a, b := ⟨bm, y⟩, output_pack := outp } := by
  rcases h with h | h | h | h | h | h | h | h | h | h <;> subst h <;> rfl

/-- The write address and `MA` bit the ADD encoders write for what the decoder tail
produced from `waddr` and `ma`. -/
theorem v3d_qpu_add_pack_waddr_rt (op1 op2 waddr : Nat) (ma : Bool)
    (a b : v3d_qpu_input) (outp : Nat)
    (hs : v3d_qpu_add_unpack_stvpm op1 waddr = some op2)
    (hout : op1 ≠ V3D_QPU_A_LDVPMV_OUT ∧ op1 ≠ V3D_QPU_A_LDVPMD_OUT ∧
      op1 ≠ V3D_QPU_A_LDVPMG_OUT)
    (hst : (op1 = V3D_QPU_A_STVPMV ∨ op1 = V3D_QPU_A_STVPMD ∨ op1 = V3D_QPU_A_STVPMP) →
      ma = false) :
    v3d_qpu_add_pack_waddr
      { op := (v3d_qpu_add_unpack_magic op2 ma).1, a := a, b := b, waddr := waddr,
        magic_write := (v3d_qpu_add_unpack_magic op2 ma).2, output_pack := outp } =
      (waddr, ma) := by
  unfold v3d_qpu_add_unpack_stvpm at hs
  by_cases c : op1 = V3D_QPU_A_STVPMV ∨ op1 = V3D_QPU_A_STVPMD ∨ op1 = V3D_QPU_A_STVPMP
  · rw [if_pos c] at hs
    have hma := hst c
    subst hma
    split_ifs at hs with h0 h1 h2 <;> cases hs <;> subst_vars <;> rfl
  · rw [if_neg c] at hs
    cases hs
    simp only [not_or] at c
    obtain ⟨c1, c2, c3⟩ := c
    obtain ⟨o1, o2, o3⟩ := hout
    unfold v3d_qpu_add_unpack_magic v3d_qpu_add_pack_waddr
    cases ma
    · simp only [Bool.false_eq_true, if_false]
      rw [if_neg c1, if_neg c2, if_neg c3, if_neg (by simp [o1, o2, o3])]
    · simp only [if_true]
      by_cases d1 : op1 = V3D_QPU_A_LDVPMV_IN
      · subst d1; rfl
      rw [if_neg d1]
      by_cases d2 : op1 = V3D_QPU_A_LDVPMD_IN
      · subst d2; rfl
      rw [if_neg d2]
      by_cases d3 : op1 = V3D_QPU_A_LDVPMG_IN
      · subst d3; rfl
      rw [if_neg d3]
      simp only
      rw [if_neg c1, if_neg c2, if_neg c3, if_neg (by simp [o1, o2, o3])]

/-- The 32-bit float unpack mode encoder inverts the decoder. -/
theorem v3d_qpu_float32_unpack_unpack_pack (x u : Nat)
    (h : v3d_qpu_float32_unpack_unpack x = some u) :
    v3d_qpu_float32_unpack_pack u = some x := by
  unfold v3d_qpu_float32_unpack_unpack at h
  split_ifs at h <;> cases h <;> subst_vars <;> rfl

set_option maxRecDepth 1000000 in
/-- The opcode of the float add class is its row's first opcode with the output
pack mode and the two unpack modes or-ed in. -/
theorem add33_float_opcode : ∀ op, op < 256 → ∀ k, k < 4 → k * 64 ≤ op → op ≤ k * 64 + 47 →
    (op >>> 4) &&& 3 < 3 ∧
    (((k * 64 ||| (((op >>> 4) &&& 3) <<< 4)) ||| (((op >>> 2) &&& 3) <<< 2)) |||
      (((op >>> 0) &&& 3) <<< 0)) = op := by
  decide!

/-- `v3d33_qpu_add_pack_fields` reads the operation, the two inputs and the output
pack mode of the half only. -/
theorem v3d33_qpu_add_pack_fields_congr (d : opcode_desc) (h : v3d_qpu_alu_half) :
    v3d33_qpu_add_pack_fields d h =
      v3d33_qpu_add_pack_fields d { op := h.op, a := h.a, b := h.b, output_pack := h.output_pack } :=
  rfl

/-- What the decoders make of a float add class row that is not an ordered
variant: the operation after the ordering test is the row's or its ordered
variant, is kept by the two later switches, has two sources, and is one the
encoder does not swap under the same ordering. -/
theorem float_add_order_facts (x : Nat) (o : Bool)
    (hx : x = V3D_QPU_A_FADD ∨ x = V3D_QPU_A_FSUB ∨ x = V3D_QPU_A_FMIN ∨ x = V3D_QPU_A_FCMP) :
    (v3d_qpu_add_unpack_order o x = x ∨
      v3d_qpu_add_unpack_order o x = v3d_qpu_add_unpack_order true x) ∧
    (∀ w, v3d_qpu_add_unpack_stvpm (v3d_qpu_add_unpack_order o x) w =
      some (v3d_qpu_add_unpack_order o x)) ∧
    (v3d_qpu_add_unpack_order o x = V3D_QPU_A_FADD ∨
      v3d_qpu_add_unpack_order o x = V3D_QPU_A_FADDNF ∨
      v3d_qpu_add_unpack_order o x = V3D_QPU_A_FSUB ∨
      v3d_qpu_add_unpack_order o x = V3D_QPU_A_FMIN ∨
      v3d_qpu_add_unpack_order o x = V3D_QPU_A_FMAX ∨
      v3d_qpu_add_unpack_order o x = V3D_QPU_A_FCMP) ∧
    v3d_qpu_add_pack_swaps (v3d_qpu_add_unpack_order o x) o = false ∧
    v3d_qpu_add_op_num_src (v3d_qpu_add_unpack_order o x) = 2 ∧
    (∀ ma, v3d_qpu_add_unpack_magic (v3d_qpu_add_unpack_order o x) ma =
      (v3d_qpu_add_unpack_order o x, ma)) := by
  rcases hx with h | h | h | h <;> subst h <;> cases o <;>
    refine ⟨by decide, fun w => rfl, by decide, by decide, by decide, fun ma => ?_⟩ <;>
    cases ma <;> rfl

theorem f32_pack_pack_of_lt (x : Nat) (h : x < 3) : v3d_qpu_float32_pack_pack x = some x := by
  interval_cases x <;> rfl

/-- Round trip of the float add class below V3D 7.1. -/
theorem add33_float_pack (devinfo : v3d_device_info) (d : opcode_desc)
    (hfl : is_float_add d.op = true) (hchk : add33_float_check add_ops_v33 d = true)
    (hval : opcode_invalid_in_version devinfo d.first_ver d.last_ver = false)
    (op a b waddr : Nat) (ma : Bool) (half0 : v3d_qpu_alu_half) (hop : op < 256)
    (hr1 : d.opcode_first ≤ op) (hr2 : op ≤ d.opcode_last)
    (op2 outp au : Nat) (bu : Option Nat)
    (hs : v3d_qpu_add_unpack_stvpm (v3d_qpu_add_unpack_order
      (decide (((op >>> 2) &&& 3) * 8 + a > (op &&& 3) * 8 + b)) d.op) waddr = some op2)
    (hmod : v3d33_qpu_add_unpack_modifiers op2 op b = some (outp, au, bu)) :
    v3d33_qpu_add_pack_opcode devinfo
      ((⟨(v3d_qpu_add_unpack_magic op2 ma).1, outp, au, bu,
         (v3d_qpu_add_unpack_magic op2 ma).2⟩ : alu_unpack_fields).store a b waddr half0) =
      some ⟨a, b, op⟩ := by
  unfold add33_float_check at hchk
  simp only [Bool.and_eq_true, Bool.or_eq_true, bne_iff_ne, ne_eq, beq_iff_eq,
    List.all_cons, List.all_nil, Bool.and_true] at hchk
  obtain ⟨⟨⟨⟨⟨⟨hn1, hn2⟩, hfirst⟩, hlast⟩, -⟩, -⟩, hrow1, hrow2⟩ := hchk
  have hx : d.op = V3D_QPU_A_FADD ∨ d.op = V3D_QPU_A_FSUB ∨ d.op = V3D_QPU_A_FMIN ∨
      d.op = V3D_QPU_A_FCMP := by
    unfold is_float_add at hfl
    simp only [Bool.or_eq_true, beq_iff_eq] at hfl
    tauto
  generalize ho : decide (((op >>> 2) &&& 3) * 8 + a > (op &&& 3) * 8 + b) = o at hs
  obtain ⟨f1, f2, f3, f4, f5, f6⟩ := float_add_order_facts d.op o hx
  rw [f2 waddr] at hs
  cases hs
  rw [f6 ma]
  -- the row the encoder finds
  have hd3 : ∃ d3, lookup_opcode_from_instr devinfo add_ops_v33
      (v3d_qpu_add_unpack_order o d.op) = some d3 ∧ d3.opcode_first = d.opcode_first := by
    rcases f1 with e | e
    · rw [e]
      cases hf : List.find? (fun x => x.op == d.op) add_ops_v33 with
      | none => rw [hf] at hrow1; exact absurd hrow1 (by simp)
      | some d3 =>
        rw [hf] at hrow1
        simp only [Bool.and_eq_true, beq_iff_eq] at hrow1
        refine ⟨d3, lookup_opcode_from_instr_of_find devinfo _ _ d3 hf ?_, hrow1.1.1⟩
        rw [hrow1.1.2, hrow1.2]; exact hval
    · rw [e]
      cases hf : List.find? (fun x => x.op == v3d_qpu_add_unpack_order true d.op)
          add_ops_v33 with
      | none => rw [hf] at hrow2; exact absurd hrow2 (by simp)
      | some d3 =>
        rw [hf] at hrow2
        simp only [Bool.and_eq_true, beq_iff_eq] at hrow2
        refine ⟨d3, lookup_opcode_from_instr_of_find devinfo _ _ d3 hf ?_, hrow2.1.1⟩
        rw [hrow2.1.2, hrow2.2]; exact hval
  obtain ⟨d3, hl3, hf3⟩ := hd3
  -- the decoded modifiers
  have hk : ∃ k, k < 4 ∧ d.opcode_first = k * 64 := by
    rcases hfirst with ((h | h) | h) | h
    · exact ⟨0, by decide, h⟩
    · exact ⟨1, by decide, h⟩
    · exact ⟨2, by decide, h⟩
    · exact ⟨3, by decide, h⟩
  obtain ⟨k, hk4, hk⟩ := hk
  obtain ⟨hp3, hopc⟩ := add33_float_opcode op hop k hk4 (by omega) (by omega)
  have hnv : v3d_qpu_add_unpack_order o d.op ≠ V3D_QPU_A_VFPACK := by
    rcases f3 with e | e | e | e | e | e <;> rw [e] <;> decide
  unfold v3d33_qpu_add_unpack_modifiers at hmod
  have h7 : v3d_qpu_add_unpack_order o d.op = V3D_QPU_A_FADD ∨
      v3d_qpu_add_unpack_order o d.op = V3D_QPU_A_FADDNF ∨
      v3d_qpu_add_unpack_order o d.op = V3D_QPU_A_FSUB ∨
      v3d_qpu_add_unpack_order o d.op = V3D_QPU_A_FMIN ∨
      v3d_qpu_add_unpack_order o d.op = V3D_QPU_A_FMAX ∨
      v3d_qpu_add_unpack_order o d.op = V3D_QPU_A_FCMP ∨
      v3d_qpu_add_unpack_order o d.op = V3D_QPU_A_VFPACK := by
    rcases f3 with e | e | e | e | e | e
    · exact Or.inl e
    · exact Or.inr (Or.inl e)
    · exact Or.inr (Or.inr (Or.inl e))
    · exact Or.inr (Or.inr (Or.inr (Or.inl e)))
    · exact Or.inr (Or.inr (Or.inr (Or.inr (Or.inl e))))
    · exact Or.inr (Or.inr (Or.inr (Or.inr (Or.inr (Or.inl e)))))
  rw [if_pos h7] at hmod
  simp only [if_pos hnv] at hmod
  obtain ⟨ua, hua⟩ := f32_unpack_unpack_some ((op >>> 2) &&& 3) (and3_lt _)
  obtain ⟨ub, hub⟩ := f32_unpack_unpack_some ((op >>> 0) &&& 3) (and3_lt _)
  rw [hua, hub] at hmod
  simp only [Option.some.injEq, Prod.mk.injEq] at hmod
  obtain ⟨e1, e2, e3⟩ := hmod
  subst e1 e2 e3
  rw [v3d33_qpu_add_pack_opcode_eq]
  simp only [alu_unpack_fields.store, hl3, Option.bind_some]
  unfold v3d33_qpu_add_pack_fields
  simp only [f5, if_pos f3, Option.getD_some, f32_pack_pack_of_lt _ hp3,
    v3d_qpu_float32_unpack_unpack_pack _ _ hua, v3d_qpu_float32_unpack_unpack_pack _ _ hub,
    Nat.lt_irrefl, if_false, Nat.shiftRight_zero] at ho ⊢
  simp only [Option.some_bind, if_neg (show ¬ (2 < 1) by decide), ho, f4, Bool.false_eq_true,
    if_false, hf3, hk]
  simp only [Nat.shiftRight_zero] at hopc
  rw [hopc]

theorem is_float_add_false_order (x : Nat) (o : Bool) (h : is_float_add x = false) :
    v3d_qpu_add_unpack_order o x = x := by
  unfold is_float_add at h
  simp only [Bool.or_eq_false_iff, beq_eq_false_iff_ne, ne_eq] at h
  unfold v3d_qpu_add_unpack_order
  cases o
  · rfl
  · simp only [if_true, if_neg h.1.1.2, if_neg h.1.1.1.1.1]

/-- Round trip of a row of `add_ops_v33` outside the float add class. -/
theorem add33_row_rt_pack (devinfo : v3d_device_info) (d : opcode_desc)
    (hrow : add33_row_rt add_ops_v33 d = true)
    (hval : opcode_invalid_in_version devinfo d.first_ver d.last_ver = false)
    (op a b waddr : Nat) (ma : Bool) (half0 : v3d_qpu_alu_half)
    (hop : op < 256) (ha : a < 8) (hb : b < 8)
    (hmm : d.mux_match (v3d33_qpu_add_unpack_map_op op) a b = true)
    (hc : add33_canonical op a b = true)
    (op2 outp au : Nat) (bu : Option Nat)
    (hs : v3d_qpu_add_unpack_stvpm d.op waddr = some op2)
    (hmod : v3d33_qpu_add_unpack_modifiers op2 op b = some (outp, au, bu)) :
    v3d33_qpu_add_pack_opcode devinfo
      ((⟨(v3d_qpu_add_unpack_magic op2 ma).1, outp, au, bu,
         (v3d_qpu_add_unpack_magic op2 ma).2⟩ : alu_unpack_fields).store a b waddr half0) =
      some ⟨a, b, op⟩ := by
  unfold add33_row_rt at hrow
  rw [List.all_eq_true] at hrow
  have h2 := hrow op2 (v3d_qpu_add_unpack_stvpm_spec d.op waddr op2 hs).1
  rw [List.all_eq_true] at h2
  have h3 := h2 _ (v3d_qpu_add_unpack_magic_mem op2 ma)
  cases hf : List.find? (fun x => x.op == (v3d_qpu_add_unpack_magic op2 ma).1) add_ops_v33 with
  | none => rw [hf] at h3; exact absurd h3 (by simp)
  | some d3 =>
    rw [hf] at h3
    simp only [Bool.and_eq_true, beq_iff_eq] at h3
    obtain ⟨⟨hv1, hv2⟩, hall⟩ := h3
    have hl3 : lookup_opcode_from_instr devinfo add_ops_v33 (v3d_qpu_add_unpack_magic op2 ma).1 =
        some d3 := by
      refine lookup_opcode_from_instr_of_find devinfo add_ops_v33 _ d3 hf ?_
      rw [hv1, hv2]; exact hval
    have h4 := allBelow_spec 256 _ hall op hop
    unfold opcode_desc.mux_match at hmm
    simp only [Bool.and_eq_true, bne_iff_ne, ne_eq] at hmm
    obtain ⟨⟨⟨m1, m2⟩, m3⟩, m4⟩ := hmm
    simp only [m1, m2, Bool.and_self, Bool.not_true, Bool.false_or] at h4
    have h5 := allBelow_spec 8 _ h4 b hb
    simp only [Bool.or_eq_true, beq_iff_eq, m3, false_or] at h5
    have h6 := allBelow_spec 8 _ h5 a ha
    simp only [Bool.or_eq_true, beq_iff_eq, m4, false_or, hc, Bool.not_true,
      Bool.false_eq_true] at h6
    unfold add33_row_rt_at at h6
    rw [hmod] at h6
    simp only [beq_iff_eq] at h6
    rw [v3d33_qpu_add_pack_opcode_eq]
    simp only [alu_unpack_fields.store, hl3, Option.some_bind]
    rw [← h6]
    cases bu with
    | some y => rfl
    | none =>
      have hcl := v3d33_qpu_add_unpack_modifiers_b_none op2 op b outp au hmod
      have hm : (v3d_qpu_add_unpack_magic op2 ma).1 = op2 := by
        unfold v3d_qpu_add_unpack_magic
        rcases hcl with h | h | h | h | h | h | h | h | h | h <;> subst h <;> cases ma <;> rfl
      rw [hm]
      exact v3d33_qpu_add_pack_fields_b_unpack d3 op2 ⟨a, au⟩ b _ _ outp waddr _ hcl

theorem v3d33_qpu_add_unpack_map_op_248 (op : Nat) (hop : op < 256)
    (h1 : 248 ≤ v3d33_qpu_add_unpack_map_op op) (h2 : v3d33_qpu_add_unpack_map_op op ≤ 248) :
    op = 248 := by
  rcases v3d33_qpu_add_unpack_map_op_cases op with ⟨_, e⟩ | ⟨_, e⟩ | ⟨_, e⟩ <;> omega

theorem v3d33_qpu_add_unpack_map_op_float (op first : Nat)
    (hf : first = 0 ∨ first = 64 ∨ first = 128 ∨ first = 192)
    (h1 : first ≤ v3d33_qpu_add_unpack_map_op op)
    (h2 : v3d33_qpu_add_unpack_map_op op ≤ first + 47) :
    v3d33_qpu_add_unpack_map_op op = op := by
  rcases v3d33_qpu_add_unpack_map_op_cases op with ⟨_, e⟩ | ⟨_, e⟩ | ⟨_, e⟩ <;> omega

/-- Round trip of the ADD half below V3D 7.1 on the locals of the decoder: when
`v3d33_qpu_add_unpack` decodes a canonical `(op, mux_a, mux_b)`, the encoder
computes the same opcode, selectors, write address and `MA` bit from the
decoded half. -/
theorem v3d33_qpu_add_unpack_pack_core (devinfo : v3d_device_info) (hv : devinfo.ver < 71)
    (op a b waddr : Nat) (ma : Bool) (half0 : v3d_qpu_alu_half) (r : alu_unpack_fields)
    (hop : op < 256) (ha : a < 8) (hb : b < 8)
    (hc : add33_canonical op a b = true) (hma : op = 248 → ma = false)
    (hu : v3d33_qpu_add_unpack_core devinfo op a b waddr ma = some r) :
    v3d33_qpu_add_pack_opcode devinfo (r.store a b waddr half0) = some ⟨a, b, op⟩ ∧
    v3d_qpu_add_pack_waddr (r.store a b waddr half0) = (waddr, ma) := by
  unfold v3d33_qpu_add_unpack_core at hu
  cases hl : lookup_opcode_from_packed devinfo add_ops_v33 (v3d33_qpu_add_unpack_map_op op)
      a b 0 with
  | none => rw [hl] at hu; exact absurd hu (by simp)
  | some d =>
    rw [hl] at hu
    obtain ⟨hdT, hmatch, htwin⟩ := lookup_opcode_from_packed_twin devinfo add_ops_v33 _ a b 0 d hl
    have hchk : add33_rt_check add_ops_v33 d = true := by
      have := List.all_eq_true.mp add_ops_v33_rt d hdT
      simpa [htwin] using this
    rw [opcode_desc_matches_packed_mux devinfo hv] at hmatch
    simp only [Bool.and_eq_true, Bool.not_eq_true'] at hmatch
    obtain ⟨hmm, hval⟩ := hmatch
    have hmm' := hmm
    unfold opcode_desc.mux_match at hmm'
    simp only [Bool.and_eq_true, Nat.ble_eq] at hmm'
    obtain ⟨⟨⟨r1, r2⟩, -⟩, -⟩ := hmm'
    unfold add33_rt_check at hchk
    simp only [Bool.and_eq_true, Bool.or_eq_true, bne_iff_ne, ne_eq, beq_iff_eq] at hchk
    obtain ⟨⟨⟨⟨o1, o2⟩, o3⟩, hst⟩, hcls⟩ := hchk
    dsimp only at hu
    generalize ho : decide (((op >>> 2) &&& 3) * 8 + a > (op &&& 3) * 8 + b) = o at hu
    cases hs : v3d_qpu_add_unpack_stvpm (v3d_qpu_add_unpack_order o d.op) waddr with
    | none => rw [hs] at hu; exact absurd hu (by simp)
    | some op2 =>
      rw [hs] at hu
      dsimp only at hu
      cases hmod : v3d33_qpu_add_unpack_modifiers op2 op b with
      | none => rw [hmod] at hu; exact absurd hu (by simp)
      | some m =>
        obtain ⟨outp, au, bu⟩ := m
        rw [hmod] at hu
        dsimp only at hu
        simp only [Option.some.injEq] at hu
        subst hu
        by_cases hfl : is_float_add d.op = true
        · rw [if_pos hfl] at hcls
          have hfc := hcls
          unfold add33_float_check at hfc
          simp only [Bool.and_eq_true, Bool.or_eq_true, bne_iff_ne, ne_eq, beq_iff_eq] at hfc
          obtain ⟨⟨⟨⟨⟨⟨hn1, hn2⟩, hfirst⟩, hlast⟩, -⟩, -⟩, -⟩ := hfc
          have hx : d.op = V3D_QPU_A_FADD ∨ d.op = V3D_QPU_A_FSUB ∨ d.op = V3D_QPU_A_FMIN ∨
              d.op = V3D_QPU_A_FCMP := by
            have := hfl
            unfold is_float_add at this
            simp only [Bool.or_eq_true, beq_iff_eq] at this
            rcases this with ((((e | e) | e) | e) | e) | e
            · exact Or.inl e
            · exact absurd e hn1
            · exact Or.inr (Or.inl e)
            · exact Or.inr (Or.inr (Or.inl e))
            · exact absurd e hn2
            · exact Or.inr (Or.inr (Or.inr e))
          have hfirst' : d.opcode_first = 0 ∨ d.opcode_first = 64 ∨ d.opcode_first = 128 ∨
              d.opcode_first = 192 := by
            rcases hfirst with ((e | e) | e) | e
            · exact Or.inl e
            · exact Or.inr (Or.inl e)
            · exact Or.inr (Or.inr (Or.inl e))
            · exact Or.inr (Or.inr (Or.inr e))
          have hmap : v3d33_qpu_add_unpack_map_op op = op :=
            v3d33_qpu_add_unpack_map_op_float op d.opcode_first hfirst' r1 (by omega)
          rw [hmap] at r1 r2
          constructor
          · subst ho
            exact add33_float_pack devinfo d hfl hcls hval op a b waddr ma half0 hop r1 r2
              op2 outp au bu hs hmod
          · obtain ⟨f1, f2, f3, f4, f5, f6⟩ := float_add_order_facts d.op o hx
            refine v3d_qpu_add_pack_waddr_rt (v3d_qpu_add_unpack_order o d.op) op2 waddr ma _ _ _
              hs ?_ ?_
            · rcases f3 with e | e | e | e | e | e <;> rw [e] <;> decide
            · intro h
              rcases f3 with e | e | e | e | e | e <;> rw [e] at h <;>
                exact absurd h (by decide)
        · simp only [Bool.not_eq_true] at hfl
          rw [hfl] at hcls
          simp only [Bool.false_eq_true, if_false] at hcls
          rw [is_float_add_false_order d.op o hfl] at hs
          constructor
          · exact add33_row_rt_pack devinfo d hcls hval op a b waddr ma half0 hop ha hb hmm hc
              op2 outp au bu hs hmod
          · refine v3d_qpu_add_pack_waddr_rt d.op op2 waddr ma _ _ _ hs ⟨o1, o2, o3⟩ ?_
            intro h
            have h248 : d.opcode_first = 248 ∧ d.opcode_last = 248 := by
              rcases hst with hst | hst
              · rcases h with e | e | e
                · exact absurd e hst.1.1
                · exact absurd e hst.1.2
                · exact absurd e hst.2
              · exact hst
            exact hma (v3d33_qpu_add_unpack_map_op_248 op hop (by omega) (by omega))

theorem v3d33_qpu_mul_pack_opcode_eq (devinfo : v3d_device_info) (mul : v3d_qpu_alu_half) :
    v3d33_qpu_mul_pack_opcode devinfo mul =
      (lookup_opcode_from_instr devinfo mul_ops_v33 mul.op).bind
        (fun d => v3d33_qpu_mul_pack_fields d mul) := by
  unfold v3d33_qpu_mul_pack_opcode
  cases lookup_opcode_from_instr devinfo mul_ops_v33 mul.op <;> rfl

set_option maxRecDepth 1000000 in
theorem mul_ops_v33_rt : mul_ops_v33.all (fun d => mul33_row_rt mul_ops_v33 d) = true := by
  decide!

/-- The MUL decoder below V3D 7.1 leaves `b.unpack` untouched for FMOV only. -/
theorem v3d33_qpu_mul_unpack_modifiers_b_none (mul_op op b outp au : Nat)
    (h : v3d33_qpu_mul_unpack_modifiers mul_op op b = some (outp, au, none)) :
    mul_op = V3D_QPU_M_FMOV := by
  unfold v3d33_qpu_mul_unpack_modifiers at h
  by_cases c1 : mul_op = V3D_QPU_M_FMUL
  · rw [if_pos c1] at h
    cases h1 : v3d_qpu_float32_unpack_unpack (op >>> 2 &&& 3) with
    | none => rw [h1] at h; simp at h
    | some x =>
      rw [h1] at h
      cases h2 : v3d_qpu_float32_unpack_unpack (op >>> 0 &&& 3) with
      | none => rw [h2] at h; simp at h
      | some y => rw [h2] at h; simp at h
  rw [if_neg c1] at h
  by_cases c2 : mul_op = V3D_QPU_M_FMOV
  · exact c2
  rw [if_neg c2] at h
  by_cases c3 : mul_op = V3D_QPU_M_VFMUL
  · rw [if_pos c3] at h
    cases h1 : v3d_qpu_float16_unpack_unpack ((u32_sub (op &&& 7) 4) &&& 7) with
    | none => rw [h1] at h; simp at h
    | some x => rw [h1] at h; simp at h
  rw [if_neg c3] at h
  simp at h

/-- Round trip of the MUL half below V3D 7.1 on the locals of the decoder. -/
theorem v3d33_qpu_mul_unpack_pack_core (devinfo : v3d_device_info) (hv : devinfo.ver < 71)
    (op a b waddr : Nat) (mm : Bool) (half0 : v3d_qpu_alu_half) (r : alu_unpack_fields)
    (hop : op < 64) (ha : a < 8) (hb : b < 8)
    (hu : v3d33_qpu_mul_unpack_core devinfo op a b mm = some r) :
    v3d33_qpu_mul_pack_opcode devinfo (r.store a b waddr half0) = some ⟨a, b, op⟩ ∧
    (r.store a b waddr half0).waddr = waddr ∧ (r.store a b waddr half0).magic_write = mm := by
  unfold v3d33_qpu_mul_unpack_core at hu
  cases hl : lookup_opcode_from_packed devinfo mul_ops_v33 op a b 0 with
  | none => rw [hl] at hu; exact absurd hu (by simp)
  | some d =>
    rw [hl] at hu
    dsimp only at hu
    obtain ⟨hdT, hmatch, -⟩ := lookup_opcode_from_packed_twin devinfo mul_ops_v33 _ a b 0 d hl
    have hrow : mul33_row_rt mul_ops_v33 d = true := List.all_eq_true.mp mul_ops_v33_rt d hdT
    rw [opcode_desc_matches_packed_mux devinfo hv] at hmatch
    simp only [Bool.and_eq_true, Bool.not_eq_true'] at hmatch
    obtain ⟨hmm, hval⟩ := hmatch
    cases hmod : v3d33_qpu_mul_unpack_modifiers d.op op b with
    | none => rw [hmod] at hu; exact absurd hu (by simp)
    | some m =>
      obtain ⟨outp, au, bu⟩ := m
      rw [hmod] at hu
      dsimp only at hu
      simp only [Option.some.injEq] at hu
      subst hu
      refine ⟨?_, rfl, rfl⟩
      unfold mul33_row_rt at hrow
      cases hf : List.find? (fun x => x.op == d.op) mul_ops_v33 with
      | none => rw [hf] at hrow; exact absurd hrow (by simp)
      | some d3 =>
        rw [hf] at hrow
        simp only [Bool.and_eq_true, beq_iff_eq] at hrow
        obtain ⟨⟨hv1, hv2⟩, hall⟩ := hrow
        have hl3 : lookup_opcode_from_instr devinfo mul_ops_v33 d.op = some d3 := by
          refine lookup_opcode_from_instr_of_find devinfo mul_ops_v33 _ d3 hf ?_
          rw [hv1, hv2]; exact hval
        have h4 := allBelow_spec 64 _ hall op hop
        unfold opcode_desc.mux_match at hmm
        simp only [Bool.and_eq_true, bne_iff_ne, ne_eq] at hmm
        obtain ⟨⟨⟨m1, m2⟩, m3⟩, m4⟩ := hmm
        simp only [m1, m2, Bool.and_self, Bool.not_true, Bool.false_or] at h4
        have h5 := allBelow_spec 8 _ h4 b hb
        simp only [Bool.or_eq_true, beq_iff_eq, m3, false_or] at h5
        have h6 := allBelow_spec 8 _ h5 a ha
        simp only [Bool.or_eq_true, beq_iff_eq, m4, false_or] at h6
        unfold mul33_row_rt_at at h6
        rw [hmod] at h6
        simp only [beq_iff_eq] at h6
        rw [v3d33_qpu_mul_pack_opcode_eq]
        simp only [alu_unpack_fields.store, hl3, Option.some_bind]
        rw [← h6]
        cases bu with
        | some y => rfl
        | none =>
          have hcl := v3d33_qpu_mul_unpack_modifiers_b_none d.op op b outp au hmod
          rw [hcl]
          rfl

theorem QPU_SET_FIELD_lt (v hi lo : Nat) (h : hi < 64) (hlo : lo ≤ hi) :
    QPU_SET_FIELD v lo (QPU_MASK hi lo) < 2 ^ 64 := by
  rw [QPU_SET_FIELD_eq]
  have h1 : v % 2 ^ (hi - lo + 1) < 2 ^ (hi - lo + 1) := Nat.mod_lt _ (Nat.pos_pow_of_pos _ (by decide))
  calc v % 2 ^ (hi - lo + 1) * 2 ^ lo < 2 ^ (hi - lo + 1) * 2 ^ lo :=
        Nat.mul_lt_mul_of_pos_right h1 (Nat.pos_pow_of_pos _ (by decide))
    _ = 2 ^ (hi + 1) := by rw [← Nat.pow_add]; congr 1; omega
    _ ≤ 2 ^ 64 := Nat.pow_le_pow_right (by decide) (by omega)

/-- A one-bit field of a word, read through its mask. -/
theorem QPU_bit_eq (w k : Nat) :
    (if (w &&& QPU_MASK k k != 0) = true then 1 else 0) = w / 2 ^ k % 2 ^ 1 := by
  have e : QPU_MASK k k = 2 ^ k := by
    unfold QPU_MASK
    simp [Nat.shiftLeft_eq]
  rw [e]
  have h2 : w &&& 2 ^ k = if w.testBit k then 2 ^ k else 0 := by
    rw [Nat.and_two_pow]
    cases w.testBit k <;> simp
  have h3 : w / 2 ^ k % 2 ^ 1 = if w.testBit k then 1 else 0 := by
    rw [Nat.testBit, Nat.shiftRight_eq_div_pow, Nat.pow_one]
    simp only [Nat.one_and_eq_mod_two, bne_iff_ne, ne_eq]
    rcases Nat.mod_two_eq_zero_or_one (w / 2 ^ k) with h | h <;> simp [h]
  rw [h2, h3]
  cases w.testBit k
  · simp
  · simp

theorem QPU_GET_FIELD_mod (w hi lo : Nat) :
    QPU_GET_FIELD w lo (QPU_MASK hi lo) % 2 ^ (hi - lo + 1) = QPU_GET_FIELD w lo (QPU_MASK hi lo) := by
  rw [QPU_GET_FIELD_eq, Nat.mod_mod]

theorem QPU_GET_FIELD_mask_bit (k : Nat) : QPU_GET_FIELD (QPU_MASK k k) k (QPU_MASK k k) = 1 := by
  have e := QPU_GET_SET_same 1 k k
  rw [← QPU_SET_FIELD_bit] at e
  rw [e]
  simp

theorem alu33_word_lt (sig raddr_a raddr_b add_a add_b op_add waddr_a : Nat) (ma : Bool)
    (mul_a mul_b op_mul waddr_m : Nat) (mm : Bool) (cond : Nat) :
    alu33_word sig raddr_a raddr_b add_a add_b op_add waddr_a ma mul_a mul_b op_mul waddr_m mm
      cond < 2 ^ 64 := by
  unfold alu33_word
  simp only [V3D_QPU_SIG_SHIFT, V3D_QPU_SIG_MASK, V3D_QPU_RADDR_A_SHIFT,
    V3D_QPU_RADDR_A_MASK, V3D_QPU_RADDR_B_SHIFT, V3D_QPU_RADDR_B_MASK,
    V3D_QPU_ADD_A_SHIFT, V3D_QPU_ADD_A_MASK, V3D_QPU_ADD_B_SHIFT, V3D_QPU_ADD_B_MASK,
    V3D_QPU_OP_ADD_SHIFT, V3D_QPU_OP_ADD_MASK, V3D_QPU_WADDR_A_SHIFT,
    V3D_QPU_WADDR_A_MASK, V3D_QPU_MUL_A_SHIFT, V3D_QPU_MUL_A_MASK, V3D_QPU_MUL_B_SHIFT,
    V3D_QPU_MUL_B_MASK, V3D_QPU_OP_MUL_SHIFT, V3D_QPU_OP_MUL_MASK, V3D_QPU_WADDR_M_SHIFT,
    V3D_QPU_WADDR_M_MASK, V3D_QPU_COND_SHIFT, V3D_QPU_COND_MASK, V3D_QPU_MA, V3D_QPU_MM]
  have hb : ∀ k, k < 64 → QPU_MASK k k < 2 ^ 64 := by
    intro k hk
    rw [QPU_SET_FIELD_bit]
    exact QPU_SET_FIELD_lt 1 k k hk (le_refl _)
  cases ma <;> cases mm <;>
    simp only [Bool.false_eq_true, if_false, if_true] <;>
    repeat' (first
      | exact QPU_SET_FIELD_lt _ _ _ (by decide) (by decide)
      | exact hb _ (by decide)
      | exact Nat.pos_pow_of_pos 64 (by decide)
      | apply Nat.or_lt_two_pow)

/-- A 64-bit word is rebuilt from its fields in the layout used below V3D 7.1. -/
theorem alu33_word_eq (W : Nat) (hW : W < 2 ^ 64) :
    alu33_word (QPU_GET_FIELD W V3D_QPU_SIG_SHIFT V3D_QPU_SIG_MASK)
      (QPU_GET_FIELD W V3D_QPU_RADDR_A_SHIFT V3D_QPU_RADDR_A_MASK)
      (QPU_GET_FIELD W V3D_QPU_RADDR_B_SHIFT V3D_QPU_RADDR_B_MASK)
      (QPU_GET_FIELD W V3D_QPU_ADD_A_SHIFT V3D_QPU_ADD_A_MASK)
      (QPU_GET_FIELD W V3D_QPU_ADD_B_SHIFT V3D_QPU_ADD_B_MASK)
      (QPU_GET_FIELD W V3D_QPU_OP_ADD_SHIFT V3D_QPU_OP_ADD_MASK)
      (QPU_GET_FIELD W V3D_QPU_WADDR_A_SHIFT V3D_QPU_WADDR_A_MASK)
      (W &&& V3D_QPU_MA != 0)
      (QPU_GET_FIELD W V3D_QPU_MUL_A_SHIFT V3D_QPU_MUL_A_MASK)
      (QPU_GET_FIELD W V3D_QPU_MUL_B_SHIFT V3D_QPU_MUL_B_MASK)
      (QPU_GET_FIELD W V3D_QPU_OP_MUL_SHIFT V3D_QPU_OP_MUL_MASK)
      (QPU_GET_FIELD W V3D_QPU_WADDR_M_SHIFT V3D_QPU_WADDR_M_MASK)
      (W &&& V3D_QPU_MM != 0)
      (QPU_GET_FIELD W V3D_QPU_COND_SHIFT V3D_QPU_COND_MASK) = W := by
  refine word_ext _ W (alu33_word_lt _ _ _ _ _ _ _ _ _ _ _ _ _ _) hW ?_ ?_ ?_ ?_ ?_ ?_ ?_ ?_ ?_ ?_ ?_ ?_ ?_ ?_
  · have key : ∀ X, X / 2 ^ 58 % 2 ^ 6 = QPU_GET_FIELD X 58 (QPU_MASK 63 58) :=
      fun X => (QPU_GET_FIELD_eq X 63 58).symm
    rw [key, key]
    unfold alu33_word
    simp only [V3D_QPU_SIG_SHIFT, V3D_QPU_SIG_MASK, V3D_QPU_RADDR_A_SHIFT,
      V3D_QPU_RADDR_A_MASK, V3D_QPU_RADDR_B_SHIFT, V3D_QPU_RADDR_B_MASK,
      V3D_QPU_ADD_A_SHIFT, V3D_QPU_ADD_A_MASK, V3D_QPU_ADD_B_SHIFT, V3D_QPU_ADD_B_MASK,
      V3D_QPU_OP_ADD_SHIFT, V3D_QPU_OP_ADD_MASK, V3D_QPU_WADDR_A_SHIFT,
      V3D_QPU_WADDR_A_MASK, V3D_QPU_MUL_A_SHIFT, V3D_QPU_MUL_A_MASK, V3D_QPU_MUL_B_SHIFT,
      V3D_QPU_MUL_B_MASK, V3D_QPU_OP_MUL_SHIFT, V3D_QPU_OP_MUL_MASK, V3D_QPU_WADDR_M_SHIFT,
      V3D_QPU_WADDR_M_MASK, V3D_QPU_COND_SHIFT, V3D_QPU_COND_MASK, V3D_QPU_MA, V3D_QPU_MM]
    simp (disch := decide) only [QPU_GET_FIELD_or, QPU_GET_FIELD_ite, QPU_GET_FIELD_zero,
      QPU_GET_SET_same, QPU_GET_SET_other, QPU_GET_FIELD_bit_other, Nat.zero_or,
      Nat.or_zero, ite_self, QPU_GET_FIELD_mask_bit]
    exact QPU_GET_FIELD_mod W 63 58
  · have key : ∀ X, X / 2 ^ 53 % 2 ^ 5 = QPU_GET_FIELD X 53 (QPU_MASK 57 53) :=
      fun X => (QPU_GET_FIELD_eq X 57 53).symm
    rw [key, key]
    unfold alu33_word
    simp only [V3D_QPU_SIG_SHIFT, V3D_QPU_SIG_MASK, V3D_QPU_RADDR_A_SHIFT,
      V3D_QPU_RADDR_A_MASK, V3D_QPU_RADDR_B_SHIFT, V3D_QPU_RADDR_B_MASK,
      V3D_QPU_ADD_A_SHIFT, V3D_QPU_ADD_A_MASK, V3D_QPU_ADD_B_SHIFT, V3D_QPU_ADD_B_MASK,
      V3D_QPU_OP_ADD_SHIFT, V3D_QPU_OP_ADD_MASK, V3D_QPU_WADDR_A_SHIFT,
      V3D_QPU_WADDR_A_MASK, V3D_QPU_MUL_A_SHIFT, V3D_QPU_MUL_A_MASK, V3D_QPU_MUL_B_SHIFT,
      V3D_QPU_MUL_B_MASK, V3D_QPU_OP_MUL_SHIFT, V3D_QPU_OP_MUL_MASK, V3D_QPU_WADDR_M_SHIFT,
      V3D_QPU_WADDR_M_MASK, V3D_QPU_COND_SHIFT, V3D_QPU_COND_MASK, V3D_QPU_MA, V3D_QPU_MM]
    simp (disch := decide) only [QPU_GET_FIELD_or, QPU_GET_FIELD_ite, QPU_GET_FIELD_zero,
      QPU_GET_SET_same, QPU_GET_SET_other, QPU_GET_FIELD_bit_other, Nat.zero_or,
      Nat.or_zero, ite_self, QPU_GET_FIELD_mask_bit]
    exact QPU_GET_FIELD_mod W 57 53
  · have key : ∀ X, X / 2 ^ 46 % 2 ^ 7 = QPU_GET_FIELD X 46 (QPU_MASK 52 46) :=
      fun X => (QPU_GET_FIELD_eq X 52 46).symm
    rw [key, key]
    unfold alu33_word
    simp only [V3D_QPU_SIG_SHIFT, V3D_QPU_SIG_MASK, V3D_QPU_RADDR_A_SHIFT,
      V3D_QPU_RADDR_A_MASK, V3D_QPU_RADDR_B_SHIFT, V3D_QPU_RADDR_B_MASK,
      V3D_QPU_ADD_A_SHIFT, V3D_QPU_ADD_A_MASK, V3D_QPU_ADD_B_SHIFT, V3D_QPU_ADD_B_MASK,
      V3D_QPU_OP_ADD_SHIFT, V3D_QPU_OP_ADD_MASK, V3D_QPU_WADDR_A_SHIFT,
      V3D_QPU_WADDR_A_MASK, V3D_QPU_MUL_A_SHIFT, V3D_QPU_MUL_A_MASK, V3D_QPU_MUL_B_SHIFT,
      V3D_QPU_MUL_B_MASK, V3D_QPU_OP_MUL_SHIFT, V3D_QPU_OP_MUL_MASK, V3D_QPU_WADDR_M_SHIFT,
      V3D_QPU_WADDR_M_MASK, V3D_QPU_COND_SHIFT, V3D_QPU_COND_MASK, V3D_QPU_MA, V3D_QPU_MM]
    simp (disch := decide) only [QPU_GET_FIELD_or, QPU_GET_FIELD_ite, QPU_GET_FIELD_zero,
      QPU_GET_SET_same, QPU_GET_SET_other, QPU_GET_FIELD_bit_other, Nat.zero_or,
      Nat.or_zero, ite_self, QPU_GET_FIELD_mask_bit]
    exact QPU_GET_FIELD_mod W 52 46
  · have key : ∀ X, X / 2 ^ 45 % 2 ^ 1 = QPU_GET_FIELD X 45 (QPU_MASK 45 45) :=
      fun X => (QPU_GET_FIELD_eq X 45 45).symm
    rw [key, key]
    unfold alu33_word
    simp only [V3D_QPU_SIG_SHIFT, V3D_QPU_SIG_MASK, V3D_QPU_RADDR_A_SHIFT,
      V3D_QPU_RADDR_A_MASK, V3D_QPU_RADDR_B_SHIFT, V3D_QPU_RADDR_B_MASK,
      V3D_QPU_ADD_A_SHIFT, V3D_QPU_ADD_A_MASK, V3D_QPU_ADD_B_SHIFT, V3D_QPU_ADD_B_MASK,
      V3D_QPU_OP_ADD_SHIFT, V3D_QPU_OP_ADD_MASK, V3D_QPU_WADDR_A_SHIFT,
      V3D_QPU_WADDR_A_MASK, V3D_QPU_MUL_A_SHIFT, V3D_QPU_MUL_A_MASK, V3D_QPU_MUL_B_SHIFT,
      V3D_QPU_MUL_B_MASK, V3D_QPU_OP_MUL_SHIFT, V3D_QPU_OP_MUL_MASK, V3D_QPU_WADDR_M_SHIFT,
      V3D_QPU_WADDR_M_MASK, V3D_QPU_COND_SHIFT, V3D_QPU_COND_MASK, V3D_QPU_MA, V3D_QPU_MM]
    simp (disch := decide) only [QPU_GET_FIELD_or, QPU_GET_FIELD_ite, QPU_GET_FIELD_zero,
      QPU_GET_SET_same, QPU_GET_SET_other, QPU_GET_FIELD_bit_other, Nat.zero_or,
      Nat.or_zero, ite_self, QPU_GET_FIELD_mask_bit]
    rw [QPU_bit_eq, ← QPU_GET_FIELD_eq W 45 45]
  · have key : ∀ X, X / 2 ^ 44 % 2 ^ 1 = QPU_GET_FIELD X 44 (QPU_MASK 44 44) :=
      fun X => (QPU_GET_FIELD_eq X 44 44).symm
    rw [key, key]
    unfold alu33_word
    simp only [V3D_QPU_SIG_SHIFT, V3D_QPU_SIG_MASK, V3D_QPU_RADDR_A_SHIFT,
      V3D_QPU_RADDR_A_MASK, V3D_QPU_RADDR_B_SHIFT, V3D_QPU_RADDR_B_MASK,
      V3D_QPU_ADD_A_SHIFT, V3D_QPU_ADD_A_MASK, V3D_QPU_ADD_B_SHIFT, V3D_QPU_ADD_B_MASK,
      V3D_QPU_OP_ADD_SHIFT, V3D_QPU_OP_ADD_MASK, V3D_QPU_WADDR_A_SHIFT,
      V3D_QPU_WADDR_A_MASK, V3D_QPU_MUL_A_SHIFT, V3D_QPU_MUL_A_MASK, V3D_QPU_MUL_B_SHIFT,
      V3D_QPU_MUL_B_MASK, V3D_QPU_OP_MUL_SHIFT, V3D_QPU_OP_MUL_MASK, V3D_QPU_WADDR_M_SHIFT,
      V3D_QPU_WADDR_M_MASK, V3D_QPU_COND_SHIFT, V3D_QPU_COND_MASK, V3D_QPU_MA, V3D_QPU_MM]
    simp (disch := decide) only [QPU_GET_FIELD_or, QPU_GET_FIELD_ite, QPU_GET_FIELD_zero,
      QPU_GET_SET_same, QPU_GET_SET_other, QPU_GET_FIELD_bit_other, Nat.zero_or,
      Nat.or_zero, ite_self, QPU_GET_FIELD_mask_bit]
    rw [QPU_bit_eq, ← QPU_GET_FIELD_eq W 44 44]
  · have key : ∀ X, X / 2 ^ 38 % 2 ^ 6 = QPU_GET_FIELD X 38 (QPU_MASK 43 38) :=
      fun X => (QPU_GET_FIELD_eq X 43 38).symm
    rw [key, key]
    unfold alu33_word
    simp only [V3D_QPU_SIG_SHIFT, V3D_QPU_SIG_MASK, V3D_QPU_RADDR_A_SHIFT,
      V3D_QPU_RADDR_A_MASK, V3D_QPU_RADDR_B_SHIFT, V3D_QPU_RADDR_B_MASK,
      V3D_QPU_ADD_A_SHIFT, V3D_QPU_ADD_A_MASK, V3D_QPU_ADD_B_SHIFT, V3D_QPU_ADD_B_MASK,
      V3D_QPU_OP_ADD_SHIFT, V3D_QPU_OP_ADD_MASK, V3D_QPU_WADDR_A_SHIFT,
      V3D_QPU_WADDR_A_MASK, V3D_QPU_MUL_A_SHIFT, V3D_QPU_MUL_A_MASK, V3D_QPU_MUL_B_SHIFT,
      V3D_QPU_MUL_B_MASK, V3D_QPU_OP_MUL_SHIFT, V3D_QPU_OP_MUL_MASK, V3D_QPU_WADDR_M_SHIFT,
      V3D_QPU_WADDR_M_MASK, V3D_QPU_COND_SHIFT, V3D_QPU_COND_MASK, V3D_QPU_MA, V3D_QPU_MM]
    simp (disch := decide) only [QPU_GET_FIELD_or, QPU_GET_FIELD_ite, QPU_GET_FIELD_zero,
      QPU_GET_SET_same, QPU_GET_SET_other, QPU_GET_FIELD_bit_other, Nat.zero_or,
      Nat.or_zero, ite_self, QPU_GET_FIELD_mask_bit]
    exact QPU_GET_FIELD_mod W 43 38
  · have key : ∀ X, X / 2 ^ 32 % 2 ^ 6 = QPU_GET_FIELD X 32 (QPU_MASK 37 32) :=
      fun X => (QPU_GET_FIELD_eq X 37 32).symm
    rw [key, key]
    unfold alu33_word
    simp only [V3D_QPU_SIG_SHIFT, V3D_QPU_SIG_MASK, V3D_QPU_RADDR_A_SHIFT,
      V3D_QPU_RADDR_A_MASK, V3D_QPU_RADDR_B_SHIFT, V3D_QPU_RADDR_B_MASK,
      V3D_QPU_ADD_A_SHIFT, V3D_QPU_ADD_A_MASK, V3D_QPU_ADD_B_SHIFT, V3D_QPU_ADD_B_MASK,
      V3D_QPU_OP_ADD_SHIFT, V3D_QPU_OP_ADD_MASK, V3D_QPU_WADDR_A_SHIFT,
      V3D_QPU_WADDR_A_MASK, V3D_QPU_MUL_A_SHIFT, V3D_QPU_MUL_A_MASK, V3D_QPU_MUL_B_SHIFT,
      V3D_QPU_MUL_B_MASK, V3D_QPU_OP_MUL_SHIFT, V3D_QPU_OP_MUL_MASK, V3D_QPU_WADDR_M_SHIFT,
      V3D_QPU_WADDR_M_MASK, V3D_QPU_COND_SHIFT, V3D_QPU_COND_MASK, V3D_QPU_MA, V3D_QPU_MM]
    simp (disch := decide) only [QPU_GET_FIELD_or, QPU_GET_FIELD_ite, QPU_GET_FIELD_zero,
      QPU_GET_SET_same, QPU_GET_SET_other, QPU_GET_FIELD_bit_other, Nat.zero_or,
      Nat.or_zero, ite_self, QPU_GET_FIELD_mask_bit]
    exact QPU_GET_FIELD_mod W 37 32
  · have key : ∀ X, X / 2 ^ 24 % 2 ^ 8 = QPU_GET_FIELD X 24 (QPU_MASK 31 24) :=
      fun X => (QPU_GET_FIELD_eq X 31 24).symm
    rw [key, key]
    unfold alu33_word
    simp only [V3D_QPU_SIG_SHIFT, V3D_QPU_SIG_MASK, V3D_QPU_RADDR_A_SHIFT,
      V3D_QPU_RADDR_A_MASK, V3D_QPU_RADDR_B_SHIFT, V3D_QPU_RADDR_B_MASK,
      V3D_QPU_ADD_A_SHIFT, V3D_QPU_ADD_A_MASK, V3D_QPU_ADD_B_SHIFT, V3D_QPU_ADD_B_MASK,
      V3D_QPU_OP_ADD_SHIFT, V3D_QPU_OP_ADD_MASK, V3D_QPU_WADDR_A_SHIFT,
      V3D_QPU_WADDR_A_MASK, V3D_QPU_MUL_A_SHIFT, V3D_QPU_MUL_A_MASK, V3D_QPU_MUL_B_SHIFT,
      V3D_QPU_MUL_B_MASK, V3D_QPU_OP_MUL_SHIFT, V3D_QPU_OP_MUL_MASK, V3D_QPU_WADDR_M_SHIFT,
      V3D_QPU_WADDR_M_MASK, V3D_QPU_COND_SHIFT, V3D_QPU_COND_MASK, V3D_QPU_MA, V3D_QPU_MM]
    simp (disch := decide) only [QPU_GET_FIELD_or, QPU_GET_FIELD_ite, QPU_GET_FIELD_zero,
      QPU_GET_SET_same, QPU_GET_SET_other, QPU_GET_FIELD_bit_other, Nat.zero_or,
      Nat.or_zero, ite_self, QPU_GET_FIELD_mask_bit]
    exact QPU_GET_FIELD_mod W 31 24
  · have key : ∀ X, X / 2 ^ 21 % 2 ^ 3 = QPU_GET_FIELD X 21 (QPU_MASK 23 21) :=
      fun X => (QPU_GET_FIELD_eq X 23 21).symm
    rw [key, key]
    unfold alu33_word
    simp only [V3D_QPU_SIG_SHIFT, V3D_QPU_SIG_MASK, V3D_QPU_RADDR_A_SHIFT,
      V3D_QPU_RADDR_A_MASK, V3D_QPU_RADDR_B_SHIFT, V3D_QPU_RADDR_B_MASK,
      V3D_QPU_ADD_A_SHIFT, V3D_QPU_ADD_A_MASK, V3D_QPU_ADD_B_SHIFT, V3D_QPU_ADD_B_MASK,
      V3D_QPU_OP_ADD_SHIFT, V3D_QPU_OP_ADD_MASK, V3D_QPU_WADDR_A_SHIFT,
      V3D_QPU_WADDR_A_MASK, V3D_QPU_MUL_A_SHIFT, V3D_QPU_MUL_A_MASK, V3D_QPU_MUL_B_SHIFT,
      V3D_QPU_MUL_B_MASK, V3D_QPU_OP_MUL_SHIFT, V3D_QPU_OP_MUL_MASK, V3D_QPU_WADDR_M_SHIFT,
      V3D_QPU_WADDR_M_MASK, V3D_QPU_COND_SHIFT, V3D_QPU_COND_MASK, V3D_QPU_MA, V3D_QPU_MM]
    simp (disch := decide) only [QPU_GET_FIELD_or, QPU_GET_FIELD_ite, QPU_GET_FIELD_zero,
      QPU_GET_SET_same, QPU_GET_SET_other, QPU_GET_FIELD_bit_other, Nat.zero_or,
      Nat.or_zero, ite_self, QPU_GET_FIELD_mask_bit]
    exact QPU_GET_FIELD_mod W 23 21
  · have key : ∀ X, X / 2 ^ 18 % 2 ^ 3 = QPU_GET_FIELD X 18 (QPU_MASK 20 18) :=
      fun X => (QPU_GET_FIELD_eq X 20 18).symm
    rw [key, key]
    unfold alu33_word
    simp only [V3D_QPU_SIG_SHIFT, V3D_QPU_SIG_MASK, V3D_QPU_RADDR_A_SHIFT,
      V3D_QPU_RADDR_A_MASK, V3D_QPU_RADDR_B_SHIFT, V3D_QPU_RADDR_B_MASK,
      V3D_QPU_ADD_A_SHIFT, V3D_QPU_ADD_A_MASK, V3D_QPU_ADD_B_SHIFT, V3D_QPU_ADD_B_MASK,
      V3D_QPU_OP_ADD_SHIFT, V3D_QPU_OP_ADD_MASK, V3D_QPU_WADDR_A_SHIFT,
      V3D_QPU_WADDR_A_MASK, V3D_QPU_MUL_A_SHIFT, V3D_QPU_MUL_A_MASK, V3D_QPU_MUL_B_SHIFT,
      V3D_QPU_MUL_B_MASK, V3D_QPU_OP_MUL_SHIFT, V3D_QPU_OP_MUL_MASK, V3D_QPU_WADDR_M_SHIFT,
      V3D_QPU_WADDR_M_MASK, V3D_QPU_COND_SHIFT, V3D_QPU_COND_MASK, V3D_QPU_MA, V3D_QPU_MM]
    simp (disch := decide) only [QPU_GET_FIELD_or, QPU_GET_FIELD_ite, QPU_GET_FIELD_zero,
      QPU_GET_SET_same, QPU_GET_SET_other, QPU_GET_FIELD_bit_other, Nat.zero_or,
      Nat.or_zero, ite_self, QPU_GET_FIELD_mask_bit]
    exact QPU_GET_FIELD_mod W 20 18
  · have key : ∀ X, X / 2 ^ 15 % 2 ^ 3 = QPU_GET_FIELD X 15 (QPU_MASK 17 15) :=
      fun X => (QPU_GET_FIELD_eq X 17 15).symm
    rw [key, key]
    unfold alu33_word
    simp only [V3D_QPU_SIG_SHIFT, V3D_QPU_SIG_MASK, V3D_QPU_RADDR_A_SHIFT,
      V3D_QPU_RADDR_A_MASK, V3D_QPU_RADDR_B_SHIFT, V3D_QPU_RADDR_B_MASK,
      V3D_QPU_ADD_A_SHIFT, V3D_QPU_ADD_A_MASK, V3D_QPU_ADD_B_SHIFT, V3D_QPU_ADD_B_MASK,
      V3D_QPU_OP_ADD_SHIFT, V3D_QPU_OP_ADD_MASK, V3D_QPU_WADDR_A_SHIFT,
      V3D_QPU_WADDR_A_MASK, V3D_QPU_MUL_A_SHIFT, V3D_QPU_MUL_A_MASK, V3D_QPU_MUL_B_SHIFT,
      V3D_QPU_MUL_B_MASK, V3D_QPU_OP_MUL_SHIFT, V3D_QPU_OP_MUL_MASK, V3D_QPU_WADDR_M_SHIFT,
      V3D_QPU_WADDR_M_MASK, V3D_QPU_COND_SHIFT, V3D_QPU_COND_MASK, V3D_QPU_MA, V3D_QPU_MM]
    simp (disch := decide) only [QPU_GET_FIELD_or, QPU_GET_FIELD_ite, QPU_GET_FIELD_zero,
      QPU_GET_SET_same, QPU_GET_SET_other, QPU_GET_FIELD_bit_other, Nat.zero_or,
      Nat.or_zero, ite_self, QPU_GET_FIELD_mask_bit]
    exact QPU_GET_FIELD_mod W 17 15
  · have key : ∀ X, X / 2 ^ 12 % 2 ^ 3 = QPU_GET_FIELD X 12 (QPU_MASK 14 12) :=
      fun X => (QPU_GET_FIELD_eq X 14 12).symm
    rw [key, key]
    unfold alu33_word
    simp only [V3D_QPU_SIG_SHIFT, V3D_QPU_SIG_MASK, V3D_QPU_RADDR_A_SHIFT,
      V3D_QPU_RADDR_A_MASK, V3D_QPU_RADDR_B_SHIFT, V3D_QPU_RADDR_B_MASK,
      V3D_QPU_ADD_A_SHIFT, V3D_QPU_ADD_A_MASK, V3D_QPU_ADD_B_SHIFT, V3D_QPU_ADD_B_MASK,
      V3D_QPU_OP_ADD_SHIFT, V3D_QPU_OP_ADD_MASK, V3D_QPU_WADDR_A_SHIFT,
      V3D_QPU_WADDR_A_MASK, V3D_QPU_MUL_A_SHIFT, V3D_QPU_MUL_A_MASK, V3D_QPU_MUL_B_SHIFT,
      V3D_QPU_MUL_B_MASK, V3D_QPU_OP_MUL_SHIFT, V3D_QPU_OP_MUL_MASK, V3D_QPU_WADDR_M_SHIFT,
      V3D_QPU_WADDR_M_MASK, V3D_QPU_COND_SHIFT, V3D_QPU_COND_MASK, V3D_QPU_MA, V3D_QPU_MM]
    simp (disch := decide) only [QPU_GET_FIELD_or, QPU_GET_FIELD_ite, QPU_GET_FIELD_zero,
      QPU_GET_SET_same, QPU_GET_SET_other, QPU_GET_FIELD_bit_other, Nat.zero_or,
      Nat.or_zero, ite_self, QPU_GET_FIELD_mask_bit]
    exact QPU_GET_FIELD_mod W 14 12
  · have key : ∀ X, X / 2 ^ 6 % 2 ^ 6 = QPU_GET_FIELD X 6 (QPU_MASK 11 6) :=
      fun X => (QPU_GET_FIELD_eq X 11 6).symm
    rw [key, key]
    unfold alu33_word
    simp only [V3D_QPU_SIG_SHIFT, V3D_QPU_SIG_MASK, V3D_QPU_RADDR_A_SHIFT,
      V3D_QPU_RADDR_A_MASK, V3D_QPU_RADDR_B_SHIFT, V3D_QPU_RADDR_B_MASK,
      V3D_QPU_ADD_A_SHIFT, V3D_QPU_ADD_A_MASK, V3D_QPU_ADD_B_SHIFT, V3D_QPU_ADD_B_MASK,
      V3D_QPU_OP_ADD_SHIFT, V3D_QPU_OP_ADD_MASK, V3D_QPU_WADDR_A_SHIFT,
      V3D_QPU_WADDR_A_MASK, V3D_QPU_MUL_A_SHIFT, V3D_QPU_MUL_A_MASK, V3D_QPU_MUL_B_SHIFT,
      V3D_QPU_MUL_B_MASK, V3D_QPU_OP_MUL_SHIFT, V3D_QPU_OP_MUL_MASK, V3D_QPU_WADDR_M_SHIFT,
      V3D_QPU_WADDR_M_MASK, V3D_QPU_COND_SHIFT, V3D_QPU_COND_MASK, V3D_QPU_MA, V3D_QPU_MM]
    simp (disch := decide) only [QPU_GET_FIELD_or, QPU_GET_FIELD_ite, QPU_GET_FIELD_zero,
      QPU_GET_SET_same, QPU_GET_SET_other, QPU_GET_FIELD_bit_other, Nat.zero_or,
      Nat.or_zero, ite_self, QPU_GET_FIELD_mask_bit]
    exact QPU_GET_FIELD_mod W 11 6
  · have key : ∀ X, X / 2 ^ 0 % 2 ^ 6 = QPU_GET_FIELD X 0 (QPU_MASK 5 0) :=
      fun X => (QPU_GET_FIELD_eq X 5 0).symm
    rw [key, key]
    unfold alu33_word
    simp only [V3D_QPU_SIG_SHIFT, V3D_QPU_SIG_MASK, V3D_QPU_RADDR_A_SHIFT,
      V3D_QPU_RADDR_A_MASK, V3D_QPU_RADDR_B_SHIFT, V3D_QPU_RADDR_B_MASK,
      V3D_QPU_ADD_A_SHIFT, V3D_QPU_ADD_A_MASK, V3D_QPU_ADD_B_SHIFT, V3D_QPU_ADD_B_MASK,
      V3D_QPU_OP_ADD_SHIFT, V3D_QPU_OP_ADD_MASK, V3D_QPU_WADDR_A_SHIFT,
      V3D_QPU_WADDR_A_MASK, V3D_QPU_MUL_A_SHIFT, V3D_QPU_MUL_A_MASK, V3D_QPU_MUL_B_SHIFT,
      V3D_QPU_MUL_B_MASK, V3D_QPU_OP_MUL_SHIFT, V3D_QPU_OP_MUL_MASK, V3D_QPU_WADDR_M_SHIFT,
      V3D_QPU_WADDR_M_MASK, V3D_QPU_COND_SHIFT, V3D_QPU_COND_MASK, V3D_QPU_MA, V3D_QPU_MM]
    simp (disch := decide) only [QPU_GET_FIELD_or, QPU_GET_FIELD_ite, QPU_GET_FIELD_zero,
      QPU_GET_SET_same, QPU_GET_SET_other, QPU_GET_FIELD_bit_other, Nat.zero_or,
      Nat.or_zero, ite_self, QPU_GET_FIELD_mask_bit]
    exact QPU_GET_FIELD_mod W 5 0

/-- What a successful `v3d33_qpu_add_unpack` stored into `alu.add`. -/
theorem v3d33_qpu_add_unpack_some (devinfo : v3d_device_info) (w : Nat) (i r : v3d_qpu_instr)
    (h : v3d33_qpu_add_unpack devinfo w i = some r) :
    ∃ f, v3d33_qpu_add_unpack_core devinfo
        (QPU_GET_FIELD w V3D_QPU_OP_ADD_SHIFT V3D_QPU_OP_ADD_MASK)
        (QPU_GET_FIELD w V3D_QPU_ADD_A_SHIFT V3D_QPU_ADD_A_MASK)
        (QPU_GET_FIELD w V3D_QPU_ADD_B_SHIFT V3D_QPU_ADD_B_MASK)
        (QPU_GET_FIELD w V3D_QPU_WADDR_A_SHIFT V3D_QPU_WADDR_A_MASK)
        (w &&& V3D_QPU_MA != 0) = some f ∧
      r.alu.add = f.store (QPU_GET_FIELD w V3D_QPU_ADD_A_SHIFT V3D_QPU_ADD_A_MASK)
        (QPU_GET_FIELD w V3D_QPU_ADD_B_SHIFT V3D_QPU_ADD_B_MASK)
        (QPU_GET_FIELD w V3D_QPU_WADDR_A_SHIFT V3D_QPU_WADDR_A_MASK) i.alu.add := by
  unfold v3d33_qpu_add_unpack at h
  dsimp only at h
  split at h
  · exact Option.noConfusion h
  · rename_i f hf
    cases h
    exact ⟨f, hf, rfl⟩

/-- What a successful `v3d33_qpu_mul_unpack` stored into `alu.mul`. -/
theorem v3d33_qpu_mul_unpack_some (devinfo : v3d_device_info) (w : Nat) (i r : v3d_qpu_instr)
    (h : v3d33_qpu_mul_unpack devinfo w i = some r) :
    ∃ f, v3d33_qpu_mul_unpack_core devinfo
        (QPU_GET_FIELD w V3D_QPU_OP_MUL_SHIFT V3D_QPU_OP_MUL_MASK)
        (QPU_GET_FIELD w V3D_QPU_MUL_A_SHIFT V3D_QPU_MUL_A_MASK)
        (QPU_GET_FIELD w V3D_QPU_MUL_B_SHIFT V3D_QPU_MUL_B_MASK)
        (w &&& V3D_QPU_MM != 0) = some f ∧
      r.alu.mul = f.store (QPU_GET_FIELD w V3D_QPU_MUL_A_SHIFT V3D_QPU_MUL_A_MASK)
        (QPU_GET_FIELD w V3D_QPU_MUL_B_SHIFT V3D_QPU_MUL_B_MASK)
        (QPU_GET_FIELD w V3D_QPU_WADDR_M_SHIFT V3D_QPU_WADDR_M_MASK) i.alu.mul := by
  unfold v3d33_qpu_mul_unpack at h
  dsimp only at h
  split at h
  · exact Option.noConfusion h
  · rename_i f hf
    cases h
    exact ⟨f, hf, rfl⟩

theorem QPU_GET_FIELD_lt (w hi lo : Nat) :
    QPU_GET_FIELD w lo (QPU_MASK hi lo) < 2 ^ (hi - lo + 1) := by
  rw [QPU_GET_FIELD_eq]
  exact Nat.mod_lt _ (Nat.pos_pow_of_pos _ (by decide))

/-- The condition field is rebuilt from the signal address and its magic bit. -/
theorem sig_addr_cond_encode : ∀ c, c < 128 →
    (if v3d_bool_of_int (c &&& V3D_QPU_COND_SIG_MAGIC_ADDR) = true then
      (c &&& u32_not V3D_QPU_COND_SIG_MAGIC_ADDR) % 256 ||| V3D_QPU_COND_SIG_MAGIC_ADDR
     else (c &&& u32_not V3D_QPU_COND_SIG_MAGIC_ADDR) % 256) = c := by
  decide

/-- The record `v3d_qpu_instr_unpack_alu` returns below V3D 7.1, member by member. -/
theorem v3d_qpu_instr_unpack_alu_fields33 (devinfo : v3d_device_info) (hv : devinfo.ver < 71)
    (W : Nat) (i0 R : v3d_qpu_instr)
    (hu : v3d_qpu_instr_unpack_alu devinfo W i0 = some R) :
    ∃ sig fa fm,
      v3d_qpu_sig_unpack devinfo (QPU_GET_FIELD W V3D_QPU_SIG_SHIFT V3D_QPU_SIG_MASK) = some sig ∧
      v3d33_qpu_add_unpack_core devinfo
        (QPU_GET_FIELD W V3D_QPU_OP_ADD_SHIFT V3D_QPU_OP_ADD_MASK)
        (QPU_GET_FIELD W V3D_QPU_ADD_A_SHIFT V3D_QPU_ADD_A_MASK)
        (QPU_GET_FIELD W V3D_QPU_ADD_B_SHIFT V3D_QPU_ADD_B_MASK)
        (QPU_GET_FIELD W V3D_QPU_WADDR_A_SHIFT V3D_QPU_WADDR_A_MASK)
        (W &&& V3D_QPU_MA != 0) = some fa ∧
      v3d33_qpu_mul_unpack_core devinfo
        (QPU_GET_FIELD W V3D_QPU_OP_MUL_SHIFT V3D_QPU_OP_MUL_MASK)
        (QPU_GET_FIELD W V3D_QPU_MUL_A_SHIFT V3D_QPU_MUL_A_MASK)
        (QPU_GET_FIELD W V3D_QPU_MUL_B_SHIFT V3D_QPU_MUL_B_MASK)
        (W &&& V3D_QPU_MM != 0) = some fm ∧
      R.type = V3D_QPU_INSTR_TYPE_ALU ∧ R.sig = sig ∧
      R.raddr_a = QPU_GET_FIELD W V3D_QPU_RADDR_A_SHIFT V3D_QPU_RADDR_A_MASK ∧
      R.raddr_b = QPU_GET_FIELD W V3D_QPU_RADDR_B_SHIFT V3D_QPU_RADDR_B_MASK ∧
      R.alu.add = fa.store (QPU_GET_FIELD W V3D_QPU_ADD_A_SHIFT V3D_QPU_ADD_A_MASK)
        (QPU_GET_FIELD W V3D_QPU_ADD_B_SHIFT V3D_QPU_ADD_B_MASK)
        (QPU_GET_FIELD W V3D_QPU_WADDR_A_SHIFT V3D_QPU_WADDR_A_MASK) i0.alu.add ∧
      R.alu.mul = fm.store (QPU_GET_FIELD W V3D_QPU_MUL_A_SHIFT V3D_QPU_MUL_A_MASK)
        (QPU_GET_FIELD W V3D_QPU_MUL_B_SHIFT V3D_QPU_MUL_B_MASK)
        (QPU_GET_FIELD W V3D_QPU_WADDR_M_SHIFT V3D_QPU_WADDR_M_MASK) i0.alu.mul ∧
      (if v3d_qpu_sig_writes_address devinfo sig then
        R.sig_addr = (QPU_GET_FIELD W V3D_QPU_COND_SHIFT V3D_QPU_COND_MASK &&&
            u32_not V3D_QPU_COND_SIG_MAGIC_ADDR) % 256 ∧
        R.sig_magic = v3d_bool_of_int (QPU_GET_FIELD W V3D_QPU_COND_SHIFT V3D_QPU_COND_MASK &&&
            V3D_QPU_COND_SIG_MAGIC_ADDR) ∧
        R.flags = { ac := V3D_QPU_COND_NONE, mc := V3D_QPU_COND_NONE,
                    apf := V3D_QPU_PF_NONE, mpf := V3D_QPU_PF_NONE,
                    auf := V3D_QPU_UF_NONE, muf := V3D_QPU_UF_NONE }
       else
        v3d_qpu_flags_unpack (QPU_GET_FIELD W V3D_QPU_COND_SHIFT V3D_QPU_COND_MASK) =
          some R.flags) := by
  obtain ⟨sig, i1, i2, hs, h0, hadd, hmul⟩ := v3d_qpu_instr_unpack_alu_some devinfo W i0 R hu
  rw [if_pos (by omega : devinfo.ver ≤ 71)] at hadd
  obtain ⟨m1, m2, m3, m4, m5, m6, m7, m8, -⟩ := v3d_qpu_mul_unpack_frame devinfo W i2 R hmul
  obtain ⟨a1, a2, a3, a4, a5, a6, a7, a8, -⟩ := v3d_qpu_add_unpack_frame devinfo W _ i2 hadd
  unfold v3d_qpu_add_unpack at hadd
  rw [if_pos hv] at hadd
  unfold v3d_qpu_mul_unpack at hmul
  rw [if_pos hv] at hmul
  obtain ⟨fa, hfa, hRa⟩ := v3d33_qpu_add_unpack_some devinfo W _ i2 hadd
  obtain ⟨fm, hfm, hRm⟩ := v3d33_qpu_mul_unpack_some devinfo W i2 R hmul
  refine ⟨sig, fa, fm, hs, hfa, hfm, ?_⟩
  dsimp only at a1 a2 a3 a4 a5 a6 a7 a8 hRa
  rw [m1, m2, m3, m4, m5, m6, m7, m8, hRm, a1, a2, a3, a4, a5, a6, a7, a8, hRa]
  by_cases hw : v3d_qpu_sig_writes_address devinfo sig = true
  · rw [if_pos hw] at h0 ⊢
    subst h0
    exact ⟨rfl, rfl, rfl, rfl, rfl, rfl, rfl, rfl, rfl⟩
  · rw [if_neg hw] at h0 ⊢
    obtain ⟨flags, hf, h0⟩ := h0
    subst h0
    exact ⟨rfl, rfl, rfl, rfl, rfl, rfl, hf⟩

/-- Round trip of an ALU word below V3D 7.1: when the ALU decoder succeeds on a
64-bit word whose signal index is not the duplicate entry 31 of the V3D 3.3 map,
whose ADD opcode and selectors are canonical, and which does not set `MA` on a
VPM store, the ALU encoder rebuilds the word from the decoded record. -/
theorem v3d_qpu_instr_unpack_alu_pack33 (devinfo : v3d_device_info)
    (hver : devinfo.ver = 33 ∨ devinfo.ver = 40 ∨ devinfo.ver = 41 ∨ devinfo.ver = 42)
    (W : Nat) (hW : W < 2 ^ 64) (i0 R : v3d_qpu_instr)
    (hsig : ¬ (devinfo.ver = 33 ∧ QPU_GET_FIELD W V3D_QPU_SIG_SHIFT V3D_QPU_SIG_MASK = 31))
    (hc : add33_canonical (QPU_GET_FIELD W V3D_QPU_OP_ADD_SHIFT V3D_QPU_OP_ADD_MASK)
      (QPU_GET_FIELD W V3D_QPU_ADD_A_SHIFT V3D_QPU_ADD_A_MASK)
      (QPU_GET_FIELD W V3D_QPU_ADD_B_SHIFT V3D_QPU_ADD_B_MASK) = true)
    (hma : QPU_GET_FIELD W V3D_QPU_OP_ADD_SHIFT V3D_QPU_OP_ADD_MASK = 248 →
      (W &&& V3D_QPU_MA != 0) = false)
    (hu : v3d_qpu_instr_unpack_alu devinfo W i0 = some R) :
    v3d_qpu_instr_pack_alu devinfo R 0 = some W := by
  have hv : devinfo.ver < 71 := by omega
  obtain ⟨sig, fa, fm, hs, hfa, hfm, hty, hRsig, hra, hrb, hadd, hmul, hfl⟩ :=
    v3d_qpu_instr_unpack_alu_fields33 devinfo hv W i0 R hu
  have hsp : v3d_qpu_sig_pack devinfo sig =
      some (QPU_GET_FIELD W V3D_QPU_SIG_SHIFT V3D_QPU_SIG_MASK) := by
    have := v3d_qpu_sig_pack_unpack_lt devinfo (by omega) _ (QPU_GET_FIELD_lt W 57 53) sig hs
    rw [this, if_neg hsig]
  obtain ⟨hpa, hpw⟩ := v3d33_qpu_add_unpack_pack_core devinfo hv _ _ _ _ _ i0.alu.add fa
    (QPU_GET_FIELD_lt W 31 24) (QPU_GET_FIELD_lt W 14 12) (QPU_GET_FIELD_lt W 17 15) hc hma hfa
  obtain ⟨hpm, hmw, hmm⟩ := v3d33_qpu_mul_unpack_pack_core devinfo hv _ _ _
    (QPU_GET_FIELD W V3D_QPU_WADDR_M_SHIFT V3D_QPU_WADDR_M_MASK) _ i0.alu.mul fm
    (QPU_GET_FIELD_lt W 63 58) (QPU_GET_FIELD_lt W 20 18) (QPU_GET_FIELD_lt W 23 21) hfm
  rw [← hadd] at hpa hpw
  rw [← hmul] at hpm hmw hmm
  have hflags : (if v3d_qpu_sig_writes_address devinfo R.sig = true then
      if R.flags.ac ≠ V3D_QPU_COND_NONE ∨ R.flags.mc ≠ V3D_QPU_COND_NONE ∨
         R.flags.apf ≠ V3D_QPU_PF_NONE ∨ R.flags.mpf ≠ V3D_QPU_PF_NONE ∨
         R.flags.auf ≠ V3D_QPU_UF_NONE ∨ R.flags.muf ≠ V3D_QPU_UF_NONE then none
      else
        some (if R.sig_magic = true then R.sig_addr ||| V3D_QPU_COND_SIG_MAGIC_ADDR
          else R.sig_addr)
    else v3d_qpu_flags_pack R.flags) =
      some (QPU_GET_FIELD W V3D_QPU_COND_SHIFT V3D_QPU_COND_MASK) := by
    rw [hRsig]
    have hc128 := QPU_GET_FIELD_lt W 52 46
    by_cases hw : v3d_qpu_sig_writes_address devinfo sig = true
    · rw [if_pos hw] at hfl ⊢
      obtain ⟨f1, f2, f3⟩ := hfl
      rw [f3, f1, f2]
      rw [if_neg (by decide)]
      exact congrArg some (sig_addr_cond_encode _ hc128)
    · rw [if_neg hw] at hfl ⊢
      obtain ⟨_, hx⟩ := v3d_qpu_flags_unpack_pack _ hc128
      by_cases h16 : QPU_GET_FIELD W V3D_QPU_COND_SHIFT V3D_QPU_COND_MASK = 0x10
      · rw [h16, (show v3d_qpu_flags_unpack 16 = none by decide)] at hfl
        exact Option.noConfusion hfl
      · obtain ⟨cond, hc1, hc2⟩ := hx h16
        rw [hc1] at hfl
        cases hfl
        exact hc2
  unfold v3d_qpu_instr_pack_alu
  rw [hRsig, hsp]
  dsimp only
  rw [if_pos hty, if_pos hv]
  unfold v3d_qpu_add_pack
  rw [if_pos hv]
  unfold v3d33_qpu_add_pack
  rw [hpa]
  dsimp only
  rw [hpw]
  dsimp only
  unfold v3d_qpu_mul_pack
  rw [if_pos hv]
  unfold v3d33_qpu_mul_pack
  rw [hpm]
  dsimp only
  rw [hmw, hmm, hra, hrb]
  rw [← hRsig, hflags]
  exact congrArg some (alu33_word_eq W hW)

/-- A 64-bit word is determined by the thirteen groups of bits of the branch
layout. -/
theorem word_ext_branch (w w' : Nat) (hw : w < 2 ^ 64) (hw' : w' < 2 ^ 64)
    (h0 : w / 2 ^ 58 % 2 ^ 6 = w' / 2 ^ 58 % 2 ^ 6)
    (h1 : w / 2 ^ 56 % 2 ^ 2 = w' / 2 ^ 56 % 2 ^ 2)
    (h2 : w / 2 ^ 35 % 2 ^ 21 = w' / 2 ^ 35 % 2 ^ 21)
    (h3 : w / 2 ^ 32 % 2 ^ 3 = w' / 2 ^ 32 % 2 ^ 3)
    (h4 : w / 2 ^ 24 % 2 ^ 8 = w' / 2 ^ 24 % 2 ^ 8)
    (h5 : w / 2 ^ 23 % 2 ^ 1 = w' / 2 ^ 23 % 2 ^ 1)
    (h6 : w / 2 ^ 21 % 2 ^ 2 = w' / 2 ^ 21 % 2 ^ 2)
    (h7 : w / 2 ^ 14 % 2 ^ 7 = w' / 2 ^ 14 % 2 ^ 7)
    (h8 : w / 2 ^ 12 % 2 ^ 2 = w' / 2 ^ 12 % 2 ^ 2)
    (h9 : w / 2 ^ 6 % 2 ^ 6 = w' / 2 ^ 6 % 2 ^ 6)
    (h10 : w / 2 ^ 0 % 2 ^ 6 = w' / 2 ^ 0 % 2 ^ 6) : w = w' := by
  apply Nat.eq_of_testBit_eq
  intro i
  by_cases hi : i < 64
  · have hc : (58 ≤ i ∧ i < 64) ∨ (56 ≤ i ∧ i < 58) ∨ (35 ≤ i ∧ i < 56) ∨ (32 ≤ i ∧ i < 35) ∨
        (24 ≤ i ∧ i < 32) ∨ (23 ≤ i ∧ i < 24) ∨ (21 ≤ i ∧ i < 23) ∨ (14 ≤ i ∧ i < 21) ∨
        (12 ≤ i ∧ i < 14) ∨ (6 ≤ i ∧ i < 12) ∨ (0 ≤ i ∧ i < 6) := by omega
    rcases hc with hc | hc | hc | hc | hc | hc | hc | hc | hc | hc | hc
    · exact field_bits_eq w w' 58 6 h0 i (by omega) (by omega)
    · exact field_bits_eq w w' 56 2 h1 i (by omega) (by omega)
    · exact field_bits_eq w w' 35 21 h2 i (by omega) (by omega)
    · exact field_bits_eq w w' 32 3 h3 i (by omega) (by omega)
    · exact field_bits_eq w w' 24 8 h4 i (by omega) (by omega)
    · exact field_bits_eq w w' 23 1 h5 i (by omega) (by omega)
    · exact field_bits_eq w w' 21 2 h6 i (by omega) (by omega)
    · exact field_bits_eq w w' 14 7 h7 i (by omega) (by omega)
    · exact field_bits_eq w w' 12 2 h8 i (by omega) (by omega)
    · exact field_bits_eq w w' 6 6 h9 i (by omega) (by omega)
    · exact field_bits_eq w w' 0 6 h10 i (by omega) (by omega)
  · have hi' : 64 ≤ i := by omega
    rw [Nat.testBit_lt_two_pow (lt_of_lt_of_le hw (Nat.pow_le_pow_right (by decide) hi')),
      Nat.testBit_lt_two_pow (lt_of_lt_of_le hw' (Nat.pow_le_pow_right (by decide) hi'))]

/-- The branch decoder never sets `ub`: the mask bit 14 is lost in the conversion
to `v3d_bool`. -/
theorem v3d_bool_of_int_branch_ub (W : Nat) :
    v3d_bool_of_int (W &&& V3D_QPU_BRANCH_UB) = false := by
  unfold v3d_bool_of_int
  have e : V3D_QPU_BRANCH_UB = 2 ^ 14 := by decide
  rw [e, Nat.and_two_pow]
  cases W.testBit 14 <;> decide

/-- The offset the branch decoder computes from the two address fields, and the
fields the encoder computes from that offset. -/
theorem branch_offset_fields (low high : Nat) (hl : low < 2 ^ 21) (hh : high < 2 ^ 8) :
    (((0 + (low <<< 3) % 4294967296) % 4294967296 + (high <<< 24) % 4294967296) % 4294967296
        &&& u32_not 0xff000000) >>> 3 = low ∧
    (((0 + (low <<< 3) % 4294967296) % 4294967296 + (high <<< 24) % 4294967296) % 4294967296)
        >>> 24 = high := by
  have e : u32_not 0xff000000 = 2 ^ 24 - 1 := by decide
  have hl' : low < 2097152 := hl
  have hh' : high < 256 := hh
  rw [e, Nat.and_pow_two_sub_one_eq_mod]
  simp only [Nat.shiftLeft_eq, Nat.shiftRight_eq_div_pow, Nat.reducePow, Nat.zero_add]
  have h1 : low * 8 % 4294967296 = low * 8 := Nat.mod_eq_of_lt (by omega)
  have h2 : high * 16777216 % 4294967296 = high * 16777216 := Nat.mod_eq_of_lt (by omega)
  have h3 : (low * 8 + high * 16777216) % 4294967296 = low * 8 + high * 16777216 :=
    Nat.mod_eq_of_lt (by omega)
  rw [h1, Nat.mod_eq_of_lt (show low * 8 < 4294967296 by omega), h2, h3]
  constructor <;> omega

/-- The condition the branch decoder reads from a three-bit field, and the field
the encoder computes from that condition. -/
theorem branch_cond_fields : ∀ c, c < 8 → c ≠ 1 →
    ∃ d, (if c = 0 then some V3D_QPU_BRANCH_COND_ALWAYS
      else if (V3D_QPU_BRANCH_COND_A0 + u32_sub c 2) % 4294967296 ≤ V3D_QPU_BRANCH_COND_ALLNA then
        some ((V3D_QPU_BRANCH_COND_A0 + u32_sub c 2) % 4294967296)
      else none) = some d ∧
    (if d ≠ V3D_QPU_BRANCH_COND_ALWAYS then 2 + (d - V3D_QPU_BRANCH_COND_A0) else 0) = c := by
  decide

theorem QPU_GET_FIELD_ite_prop (c : Prop) [Decidable c] (x y s m : Nat) :
    QPU_GET_FIELD (if c then x ||| y else x) s m =
      QPU_GET_FIELD x s m ||| (if c then QPU_GET_FIELD y s m else 0) := by
  by_cases h : c
  · simp [h, QPU_GET_FIELD_or]
  · simp [h]

/-- The record `v3d_qpu_instr_unpack_branch` returns, member by member. -/
theorem v3d_qpu_instr_unpack_branch_fields (W : Nat) (i0 R : v3d_qpu_instr)
    (hu : v3d_qpu_instr_unpack_branch W i0 = some R) :
    R.type = V3D_QPU_INSTR_TYPE_BRANCH ∧
    (if QPU_GET_FIELD W V3D_QPU_BRANCH_COND_SHIFT V3D_QPU_BRANCH_COND_MASK = 0 then
        some V3D_QPU_BRANCH_COND_ALWAYS
      else if (V3D_QPU_BRANCH_COND_A0 +
          u32_sub (QPU_GET_FIELD W V3D_QPU_BRANCH_COND_SHIFT V3D_QPU_BRANCH_COND_MASK) 2)
            % 4294967296 ≤ V3D_QPU_BRANCH_COND_ALLNA then
        some ((V3D_QPU_BRANCH_COND_A0 +
          u32_sub (QPU_GET_FIELD W V3D_QPU_BRANCH_COND_SHIFT V3D_QPU_BRANCH_COND_MASK) 2)
            % 4294967296)
      else none) = some R.branch.cond ∧
    R.branch.msfign = QPU_GET_FIELD W V3D_QPU_BRANCH_MSFIGN_SHIFT V3D_QPU_BRANCH_MSFIGN_MASK ∧
    R.branch.bdi = QPU_GET_FIELD W V3D_QPU_BRANCH_BDI_SHIFT V3D_QPU_BRANCH_BDI_MASK ∧
    R.branch.ub = false ∧
    R.branch.raddr_a = QPU_GET_FIELD W V3D_QPU_RADDR_A_SHIFT V3D_QPU_RADDR_A_MASK ∧
    R.branch.offset =
      ((0 + (QPU_GET_FIELD W V3D_QPU_BRANCH_ADDR_LOW_SHIFT V3D_QPU_BRANCH_ADDR_LOW_MASK <<< 3)
          % 4294967296) % 4294967296 +
        (QPU_GET_FIELD W V3D_QPU_BRANCH_ADDR_HIGH_SHIFT V3D_QPU_BRANCH_ADDR_HIGH_MASK <<< 24)
          % 4294967296) % 4294967296 := by
  unfold v3d_qpu_instr_unpack_branch at hu
  dsimp only at hu
  split at hu
  · exact Option.noConfusion hu
  · rename_i c hc
    split at hu
    · exact Option.noConfusion hu
    · have hub := v3d_bool_of_int_branch_ub W
      rw [hub] at hu
      simp only [Bool.false_eq_true, if_false] at hu
      cases hu
      exact ⟨rfl, hc, rfl, rfl, rfl, rfl, rfl⟩

theorem QPU_SET_FIELD_zero (s m : Nat) : QPU_SET_FIELD 0 s m = 0 := by
  unfold QPU_SET_FIELD
  simp

theorem ite_or_set_field (c : Prop) [Decidable c] (p v s m : Nat) :
    (if c then p ||| QPU_SET_FIELD v s m else p) =
      p ||| QPU_SET_FIELD (if c then v else 0) s m := by
  by_cases h : c
  · simp [h]
  · simp [h, QPU_SET_FIELD_zero]

/-- Round trip of a branch word: when the branch decoder succeeds on a canonical
64-bit branch word, the branch encoder rebuilds the word from the decoded
record, whatever the members of the record the decoder left untouched. -/
theorem v3d_qpu_instr_unpack_branch_pack (W : Nat) (hW : W < 2 ^ 64) (i0 R : v3d_qpu_instr)
    (hm : QPU_GET_FIELD W V3D_QPU_OP_MUL_SHIFT V3D_QPU_OP_MUL_MASK = 0)
    (hs : QPU_GET_FIELD W V3D_QPU_SIG_SHIFT V3D_QPU_SIG_MASK &&& 24 = 16)
    (hc : branch_canonical W = true)
    (hu : v3d_qpu_instr_unpack_branch W i0 = some R) :
    v3d_qpu_instr_pack_branch R 0 = some W := by
  obtain ⟨-, hcond, hmsf, hbdi, hub, hra, hoff⟩ := v3d_qpu_instr_unpack_branch_fields W i0 R hu
  unfold branch_canonical at hc
  simp only [Bool.and_eq_true, Bool.or_eq_true, bne_iff_ne, ne_eq, beq_iff_eq] at hc
  obtain ⟨⟨⟨⟨⟨c1, c23⟩, c14⟩, c0⟩, caddr⟩, cra⟩ := hc
  obtain ⟨d, hd1, hd2⟩ := branch_cond_fields _ (QPU_GET_FIELD_lt W 34 32) c1
  rw [hd1] at hcond
  cases hcond
  obtain ⟨hlo, hhi⟩ := branch_offset_fields _ _ (QPU_GET_FIELD_lt W 55 35)
    (QPU_GET_FIELD_lt W 31 24)
  rw [← hoff] at hlo hhi
  have hraenc : (if R.branch.bdi = V3D_QPU_BRANCH_DEST_REGFILE ∨
      R.branch.bdu = V3D_QPU_BRANCH_DEST_REGFILE then R.branch.raddr_a else 0) =
        QPU_GET_FIELD W V3D_QPU_RADDR_A_SHIFT V3D_QPU_RADDR_A_MASK := by
    rw [hra]
    split_ifs with h
    · rfl
    · rw [hbdi] at h
      rcases cra with e | e
      · exact absurd (Or.inl e) h
      · exact e.symm
  have h5756 : QPU_GET_FIELD W 56 (QPU_MASK 57 56) = 2 := by
    have hl := QPU_GET_FIELD_lt W 57 53
    rw [QPU_GET_FIELD_eq] at hs hl ⊢
    simp only [V3D_QPU_SIG_SHIFT] at hs hl
    have h8 : W / 2 ^ 53 % 2 ^ (57 - 53 + 1) / 8 = 2 := by
      generalize W / 2 ^ 53 % 2 ^ (57 - 53 + 1) = x at hs hl
      have hl' : x < 32 := hl
      interval_cases x <;> first | rfl | exact absurd hs (by decide)
    norm_num at h8 ⊢
    omega
  have e16a : QPU_GET_FIELD (QPU_SET_FIELD 16 53 (QPU_MASK 57 53)) 56 (QPU_MASK 57 56) = 2 := by
    decide
  have e16b : QPU_GET_FIELD (QPU_SET_FIELD 16 53 (QPU_MASK 57 53)) 35 (QPU_MASK 55 35) = 0 := by
    decide
  unfold v3d_qpu_instr_pack_branch
  dsimp only
  rw [hub]
  simp only [Bool.false_eq_true, if_false]
  simp only [ite_or_set_field]
  rw [hd2, hraenc, hlo, hhi, hmsf, hbdi]
  simp only [V3D_QPU_SIG_SHIFT, V3D_QPU_SIG_MASK, V3D_QPU_BRANCH_COND_SHIFT,
      V3D_QPU_BRANCH_COND_MASK, V3D_QPU_BRANCH_MSFIGN_SHIFT, V3D_QPU_BRANCH_MSFIGN_MASK,
      V3D_QPU_BRANCH_BDI_SHIFT, V3D_QPU_BRANCH_BDI_MASK, V3D_QPU_BRANCH_ADDR_LOW_SHIFT,
      V3D_QPU_BRANCH_ADDR_LOW_MASK, V3D_QPU_BRANCH_ADDR_HIGH_SHIFT,
      V3D_QPU_BRANCH_ADDR_HIGH_MASK, V3D_QPU_RADDR_A_SHIFT, V3D_QPU_RADDR_A_MASK,
      V3D_QPU_OP_MUL_SHIFT, V3D_QPU_OP_MUL_MASK]
  have hsl : ∀ v hi lo, hi < 64 → lo ≤ hi → QPU_SET_FIELD v lo (QPU_MASK hi lo) < 2 ^ 64 :=
    fun v hi lo h1 h2 => QPU_SET_FIELD_lt v hi lo h1 h2
  apply congrArg some
  by_cases c : QPU_GET_FIELD W 12 (QPU_MASK 13 12) = V3D_QPU_BRANCH_DEST_ABS ∨
      QPU_GET_FIELD W 12 (QPU_MASK 13 12) = V3D_QPU_BRANCH_DEST_REL
  · rw [if_pos c]
    refine word_ext_branch _ W ?_ hW ?_ ?_ ?_ ?_ ?_ ?_ ?_ ?_ ?_ ?_ ?_
    · repeat' (first
        | exact hsl _ _ _ (by decide) (by decide)
        | exact Nat.pos_pow_of_pos 64 (by decide)
        | apply Nat.or_lt_two_pow)
    · have key : ∀ X, X / 2 ^ 58 % 2 ^ 6 = QPU_GET_FIELD X 58 (QPU_MASK 63 58) :=
        fun X => (QPU_GET_FIELD_eq X 63 58).symm
      rw [key, key]
      simp (disch := decide) only [QPU_GET_FIELD_or, QPU_GET_FIELD_zero,
        QPU_GET_SET_same, QPU_GET_SET_other, Nat.zero_or, Nat.or_zero, Nat.or_self, e16a, e16b]
      exact hm.symm
    · have key : ∀ X, X / 2 ^ 56 % 2 ^ 2 = QPU_GET_FIELD X 56 (QPU_MASK 57 56) :=
        fun X => (QPU_GET_FIELD_eq X 57 56).symm
      rw [key, key]
      simp (disch := decide) only [QPU_GET_FIELD_or, QPU_GET_FIELD_zero,
        QPU_GET_SET_same, QPU_GET_SET_other, Nat.zero_or, Nat.or_zero, Nat.or_self, e16a, e16b]
      exact h5756.symm
    · have key : ∀ X, X / 2 ^ 35 % 2 ^ 21 = QPU_GET_FIELD X 35 (QPU_MASK 55 35) :=
        fun X => (QPU_GET_FIELD_eq X 55 35).symm
      rw [key, key]
      simp (disch := decide) only [QPU_GET_FIELD_or, QPU_GET_FIELD_zero,
        QPU_GET_SET_same, QPU_GET_SET_other, Nat.zero_or, Nat.or_zero, Nat.or_self, e16a, e16b]
      exact QPU_GET_FIELD_mod W 55 35
    · have key : ∀ X, X / 2 ^ 32 % 2 ^ 3 = QPU_GET_FIELD X 32 (QPU_MASK 34 32) :=
        fun X => (QPU_GET_FIELD_eq X 34 32).symm
      rw [key, key]
      simp (disch := decide) only [QPU_GET_FIELD_or, QPU_GET_FIELD_zero,
        QPU_GET_SET_same, QPU_GET_SET_other, Nat.zero_or, Nat.or_zero, Nat.or_self, e16a, e16b]
      exact QPU_GET_FIELD_mod W 34 32
    · have key : ∀ X, X / 2 ^ 24 % 2 ^ 8 = QPU_GET_FIELD X 24 (QPU_MASK 31 24) :=
        fun X => (QPU_GET_FIELD_eq X 31 24).symm
      rw [key, key]
      simp (disch := decide) only [QPU_GET_FIELD_or, QPU_GET_FIELD_zero,
        QPU_GET_SET_same, QPU_GET_SET_other, Nat.zero_or, Nat.or_zero, Nat.or_self, e16a, e16b]
      exact QPU_GET_FIELD_mod W 31 24
    · have key : ∀ X, X / 2 ^ 23 % 2 ^ 1 = QPU_GET_FIELD X 23 (QPU_MASK 23 23) :=
        fun X => (QPU_GET_FIELD_eq X 23 23).symm
      rw [key, key]
      simp (disch := decide) only [QPU_GET_FIELD_or, QPU_GET_FIELD_zero,
        QPU_GET_SET_same, QPU_GET_SET_other, Nat.zero_or, Nat.or_zero, Nat.or_self, e16a, e16b]
      exact c23.symm
    · have key : ∀ X, X / 2 ^ 21 % 2 ^ 2 = QPU_GET_FIELD X 21 (QPU_MASK 22 21) :=
        fun X => (QPU_GET_FIELD_eq X 22 21).symm
      rw [key, key]
      simp (disch := decide) only [QPU_GET_FIELD_or, QPU_GET_FIELD_zero,
        QPU_GET_SET_same, QPU_GET_SET_other, Nat.zero_or, Nat.or_zero, Nat.or_self, e16a, e16b]
      exact QPU_GET_FIELD_mod W 22 21
    · have key : ∀ X, X / 2 ^ 14 % 2 ^ 7 = QPU_GET_FIELD X 14 (QPU_MASK 20 14) :=
        fun X => (QPU_GET_FIELD_eq X 20 14).symm
      rw [key, key]
      simp (disch := decide) only [QPU_GET_FIELD_or, QPU_GET_FIELD_zero,
        QPU_GET_SET_same, QPU_GET_SET_other, Nat.zero_or, Nat.or_zero, Nat.or_self, e16a, e16b]
      exact c14.symm
    · have key : ∀ X, X / 2 ^ 12 % 2 ^ 2 = QPU_GET_FIELD X 12 (QPU_MASK 13 12) :=
        fun X => (QPU_GET_FIELD_eq X 13 12).symm
      rw [key, key]
      simp (disch := decide) only [QPU_GET_FIELD_or, QPU_GET_FIELD_zero,
        QPU_GET_SET_same, QPU_GET_SET_other, Nat.zero_or, Nat.or_zero, Nat.or_self, e16a, e16b]
      exact QPU_GET_FIELD_mod W 13 12
    · have key : ∀ X, X / 2 ^ 6 % 2 ^ 6 = QPU_GET_FIELD X 6 (QPU_MASK 11 6) :=
        fun X => (QPU_GET_FIELD_eq X 11 6).symm
      rw [key, key]
      simp (disch := decide) only [QPU_GET_FIELD_or, QPU_GET_FIELD_zero,
        QPU_GET_SET_same, QPU_GET_SET_other, Nat.zero_or, Nat.or_zero, Nat.or_self, e16a, e16b]
      exact QPU_GET_FIELD_mod W 11 6
    · have key : ∀ X, X / 2 ^ 0 % 2 ^ 6 = QPU_GET_FIELD X 0 (QPU_MASK 5 0) :=
        fun X => (QPU_GET_FIELD_eq X 5 0).symm
      rw [key, key]
      simp (disch := decide) only [QPU_GET_FIELD_or, QPU_GET_FIELD_zero,
        QPU_GET_SET_same, QPU_GET_SET_other, Nat.zero_or, Nat.or_zero, Nat.or_self, e16a, e16b]
      exact c0.symm
  · rw [if_neg c]
    have c3 : QPU_GET_FIELD W 35 (QPU_MASK 55 35) = 0 ∧ QPU_GET_FIELD W 24 (QPU_MASK 31 24) = 0 := by
      simp only [V3D_QPU_BRANCH_BDI_SHIFT, V3D_QPU_BRANCH_BDI_MASK, V3D_QPU_BRANCH_ADDR_LOW_SHIFT,
        V3D_QPU_BRANCH_ADDR_LOW_MASK, V3D_QPU_BRANCH_ADDR_HIGH_SHIFT,
        V3D_QPU_BRANCH_ADDR_HIGH_MASK] at caddr
      rcases caddr with (e | e) | e
      · exact absurd (Or.inl e) c
      · exact absurd (Or.inr e) c
      · exact e
    refine word_ext_branch _ W ?_ hW ?_ ?_ ?_ ?_ ?_ ?_ ?_ ?_ ?_ ?_ ?_
    · repeat' (first
        | exact hsl _ _ _ (by decide) (by decide)
        | exact Nat.pos_pow_of_pos 64 (by decide)
        | apply Nat.or_lt_two_pow)
    · have key : ∀ X, X / 2 ^ 58 % 2 ^ 6 = QPU_GET_FIELD X 58 (QPU_MASK 63 58) :=
        fun X => (QPU_GET_FIELD_eq X 63 58).symm
      rw [key, key]
      simp (disch := decide) only [QPU_GET_FIELD_or, QPU_GET_FIELD_zero,
        QPU_GET_SET_same, QPU_GET_SET_other, Nat.zero_or, Nat.or_zero, Nat.or_self, e16a, e16b]
      exact hm.symm
    · have key : ∀ X, X / 2 ^ 56 % 2 ^ 2 = QPU_GET_FIELD X 56 (QPU_MASK 57 56) :=
        fun X => (QPU_GET_FIELD_eq X 57 56).symm
      rw [key, key]
      simp (disch := decide) only [QPU_GET_FIELD_or, QPU_GET_FIELD_zero,
        QPU_GET_SET_same, QPU_GET_SET_other, Nat.zero_or, Nat.or_zero, Nat.or_self, e16a, e16b]
      exact h5756.symm
    · have key : ∀ X, X / 2 ^ 35 % 2 ^ 21 = QPU_GET_FIELD X 35 (QPU_MASK 55 35) :=
        fun X => (QPU_GET_FIELD_eq X 55 35).symm
      rw [key, key]
      simp (disch := decide) only [QPU_GET_FIELD_or, QPU_GET_FIELD_zero,
        QPU_GET_SET_same, QPU_GET_SET_other, Nat.zero_or, Nat.or_zero, Nat.or_self, e16a, e16b]
      exact c3.1.symm
    · have key : ∀ X, X / 2 ^ 32 % 2 ^ 3 = QPU_GET_FIELD X 32 (QPU_MASK 34 32) :=
        fun X => (QPU_GET_FIELD_eq X 34 32).symm
      rw [key, key]
      simp (disch := decide) only [QPU_GET_FIELD_or, QPU_GET_FIELD_zero,
        QPU_GET_SET_same, QPU_GET_SET_other, Nat.zero_or, Nat.or_zero, Nat.or_self, e16a, e16b]
      exact QPU_GET_FIELD_mod W 34 32
    · have key : ∀ X, X / 2 ^ 24 % 2 ^ 8 = QPU_GET_FIELD X 24 (QPU_MASK 31 24) :=
        fun X => (QPU_GET_FIELD_eq X 31 24).symm
      rw [key, key]
      simp (disch := decide) only [QPU_GET_FIELD_or, QPU_GET_FIELD_zero,
        QPU_GET_SET_same, QPU_GET_SET_other, Nat.zero_or, Nat.or_zero, Nat.or_self, e16a, e16b]
      exact c3.2.symm
    · have key : ∀ X, X / 2 ^ 23 % 2 ^ 1 = QPU_GET_FIELD X 23 (QPU_MASK 23 23) :=
        fun X => (QPU_GET_FIELD_eq X 23 23).symm
      rw [key, key]
      simp (disch := decide) only [QPU_GET_FIELD_or, QPU_GET_FIELD_zero,
        QPU_GET_SET_same, QPU_GET_SET_other, Nat.zero_or, Nat.or_zero, Nat.or_self, e16a, e16b]
      exact c23.symm
    · have key : ∀ X, X / 2 ^ 21 % 2 ^ 2 = QPU_GET_FIELD X 21 (QPU_MASK 22 21) :=
        fun X => (QPU_GET_FIELD_eq X 22 21).symm
      rw [key, key]
      simp (disch := decide) only [QPU_GET_FIELD_or, QPU_GET_FIELD_zero,
        QPU_GET_SET_same, QPU_GET_SET_other, Nat.zero_or, Nat.or_zero, Nat.or_self, e16a, e16b]
      exact QPU_GET_FIELD_mod W 22 21
    · have key : ∀ X, X / 2 ^ 14 % 2 ^ 7 = QPU_GET_FIELD X 14 (QPU_MASK 20 14) :=
        fun X => (QPU_GET_FIELD_eq X 20 14).symm
      rw [key, key]
      simp (disch := decide) only [QPU_GET_FIELD_or, QPU_GET_FIELD_zero,
        QPU_GET_SET_same, QPU_GET_SET_other, Nat.zero_or, Nat.or_zero, Nat.or_self, e16a, e16b]
      exact c14.symm
    · have key : ∀ X, X / 2 ^ 12 % 2 ^ 2 = QPU_GET_FIELD X 12 (QPU_MASK 13 12) :=
        fun X => (QPU_GET_FIELD_eq X 13 12).symm
      rw [key, key]
      simp (disch := decide) only [QPU_GET_FIELD_or, QPU_GET_FIELD_zero,
        QPU_GET_SET_same, QPU_GET_SET_other, Nat.zero_or, Nat.or_zero, Nat.or_self, e16a, e16b]
      exact QPU_GET_FIELD_mod W 13 12
    · have key : ∀ X, X / 2 ^ 6 % 2 ^ 6 = QPU_GET_FIELD X 6 (QPU_MASK 11 6) :=
        fun X => (QPU_GET_FIELD_eq X 11 6).symm
      rw [key, key]
      simp (disch := decide) only [QPU_GET_FIELD_or, QPU_GET_FIELD_zero,
        QPU_GET_SET_same, QPU_GET_SET_other, Nat.zero_or, Nat.or_zero, Nat.or_self, e16a, e16b]
      exact QPU_GET_FIELD_mod W 11 6
    · have key : ∀ X, X / 2 ^ 0 % 2 ^ 6 = QPU_GET_FIELD X 0 (QPU_MASK 5 0) :=
        fun X => (QPU_GET_FIELD_eq X 5 0).symm
      rw [key, key]
      simp (disch := decide) only [QPU_GET_FIELD_or, QPU_GET_FIELD_zero,
        QPU_GET_SET_same, QPU_GET_SET_other, Nat.zero_or, Nat.or_zero, Nat.or_self, e16a, e16b]
      exact c0.symm

theorem v3d71_qpu_add_pack_opcode_eq (devinfo : v3d_device_info) (add : v3d_qpu_alu_half)
    (sig : v3d_qpu_sig) :
    v3d71_qpu_add_pack_opcode devinfo add sig =
      (lookup_opcode_from_instr devinfo add_ops_v71 add.op).bind
        (fun d => v3d71_qpu_add_pack_fields devinfo d add sig) := by
  unfold v3d71_qpu_add_pack_opcode
  cases lookup_opcode_from_instr devinfo add_ops_v71 add.op <;> rfl

set_option maxRecDepth 1000000 in
theorem add_ops_v71_rt : add_ops_v71.all (fun d =>
    !d.first_twin add_ops_v71 || add71_rt_check add_ops_v71 d) = true := by decide!

/-- Outside the float add class `v3d71_qpu_add_pack_fields` passes `raddr_a`
through and reads neither the signals, the version, the write address nor
`magic_write`. -/
theorem v3d71_qpu_add_pack_fields_ra (devinfo : v3d_device_info) (d : opcode_desc)
    (op ra au : Nat) (b : v3d_qpu_input) (waddr outp : Nat) (mw : Bool) (sig : v3d_qpu_sig)
    (hnf : ¬ (op = V3D_QPU_A_FADD ∨ op = V3D_QPU_A_FADDNF ∨ op = V3D_QPU_A_FSUB ∨
       op = V3D_QPU_A_FMIN ∨ op = V3D_QPU_A_FMAX ∨ op = V3D_QPU_A_FCMP)) :
    v3d71_qpu_add_pack_fields devinfo d
      { op := op, a := ⟨ra, au⟩, b := b, waddr := waddr, magic_write := mw,
        output_pack := outp } sig =
    (v3d71_qpu_add_pack_fields { ver := 71 } d
      { op := op, a := ⟨0, au⟩, b := b, output_pack := outp } {}).map
        (fun f => ⟨⟨ra, f.fields.mux_b, f.fields.opcode⟩, f.sig⟩) := by
  unfold v3d71_qpu_add_pack_fields
  simp only [v3d_qpu_input.raddr, if_neg hnf]
  by_cases c2 : op = V3D_QPU_A_VFPACK
  · simp only [if_pos c2]
    by_cases c : au = V3D_QPU_UNPACK_ABS ∨ b.unpack = V3D_QPU_UNPACK_ABS
    · simp only [if_pos c, Option.map_none']
    · simp only [if_neg c]
      cases v3d_qpu_float32_unpack_pack au with
      | none => rfl
      | some x => cases v3d_qpu_float32_unpack_pack b.unpack <;> rfl
  simp only [if_neg c2]
  by_cases c3 : op = V3D_QPU_A_FFLOOR ∨ op = V3D_QPU_A_FROUND ∨ op = V3D_QPU_A_FTRUNC ∨
       op = V3D_QPU_A_FCEIL ∨ op = V3D_QPU_A_FDX ∨ op = V3D_QPU_A_FDY
  · simp only [if_pos c3]
    cases v3d_qpu_float32_pack_pack outp with
    | none => rfl
    | some x =>
      cases v3d_qpu_float32_unpack_pack au with
      | none => rfl
      | some y =>
        dsimp only
        by_cases c : y = 0
        · simp only [if_pos c, Option.map_none']
        · simp only [if_neg c, Option.map_some']
  simp only [if_neg c3]
  by_cases c4 : op = V3D_QPU_A_FTOIN ∨ op = V3D_QPU_A_FTOIZ ∨ op = V3D_QPU_A_FTOUZ ∨
       op = V3D_QPU_A_FTOC
  · simp only [if_pos c4]
    by_cases c : outp ≠ V3D_QPU_PACK_NONE
    · simp only [if_pos c, Option.map_none']
    · simp only [if_neg c]
      cases v3d_qpu_float32_unpack_pack au with
      | none => rfl
      | some y =>
        dsimp only
        by_cases c : y = 0
        · simp only [if_pos c, Option.map_none']
        · simp only [if_neg c, Option.map_some']
  simp only [if_neg c4]
  by_cases c5 : op = V3D_QPU_A_VFMIN ∨ op = V3D_QPU_A_VFMAX
  · simp only [if_pos c5]
    by_cases c : outp ≠ V3D_QPU_PACK_NONE ∨ b.unpack ≠ V3D_QPU_UNPACK_NONE
    · simp only [if_pos c, Option.map_none']
    · simp only [if_neg c]
      cases v3d_qpu_float16_unpack_pack au <;> rfl
  simp only [if_neg c5]
  by_cases c6 : op = V3D_QPU_A_MOV
  · simp only [if_pos c6]
    by_cases c : outp ≠ V3D_QPU_PACK_NONE
    · simp only [if_pos c, Option.map_none']
    · simp only [if_neg c]
      cases v3d_qpu_int32_unpack_pack au <;> rfl
  simp only [if_neg c6]
  by_cases c7 : op = V3D_QPU_A_FMOV
  · simp only [if_pos c7]
    cases v3d_qpu_float32_pack_pack outp with
    | none => rfl
    | some x => cases v3d_qpu_float32_unpack_pack au <;> rfl
  simp only [if_neg c7]
  by_cases c : op ≠ V3D_QPU_A_NOP ∧
         (outp ≠ V3D_QPU_PACK_NONE ∨ au ≠ V3D_QPU_UNPACK_NONE ∨
          b.unpack ≠ V3D_QPU_UNPACK_NONE)
  · simp only [if_pos c, Option.map_none']
  · simp only [if_neg c, Option.map_some']

/-- The operations for which the V3D 7.1 ADD decoder leaves `b.unpack` untouched. -/
theorem v3d71_qpu_add_unpack_modifiers_b_none (op2 op rb outp au : Nat)
    (h : v3d71_qpu_add_unpack_modifiers op2 op rb = some (outp, au, none)) :
    op2 = V3D_QPU_A_FFLOOR ∨ op2 = V3D_QPU_A_FROUND ∨ op2 = V3D_QPU_A_FTRUNC ∨
    op2 = V3D_QPU_A_FCEIL ∨ op2 = V3D_QPU_A_FDX ∨ op2 = V3D_QPU_A_FDY ∨
    op2 = V3D_QPU_A_FTOIN ∨ op2 = V3D_QPU_A_FTOIZ ∨ op2 = V3D_QPU_A_FTOUZ ∨
    op2 = V3D_QPU_A_FTOC ∨ op2 = V3D_QPU_A_MOV ∨ op2 = V3D_QPU_A_FMOV := by
  unfold v3d71_qpu_add_unpack_modifiers at h
  by_cases c1 : op2 = V3D_QPU_A_FADD ∨ op2 = V3D_QPU_A_FADDNF ∨ op2 = V3D_QPU_A_FSUB ∨
     op2 = V3D_QPU_A_FMIN ∨ op2 = V3D_QPU_A_FMAX ∨ op2 = V3D_QPU_A_FCMP ∨
     op2 = V3D_QPU_A_VFPACK
  · rw [if_pos c1] at h
    dsimp only at h
    cases h1 : v3d_qpu_float32_unpack_unpack (op >>> 2 &&& 3) with
    | none => rw [h1] at h; simp at h
    | some x =>
      rw [h1] at h
      cases h2 : v3d_qpu_float32_unpack_unpack (op >>> 0 &&& 3) with
      | none => rw [h2] at h; simp at h
      | some y => rw [h2] at h; simp at h
  rw [if_neg c1] at h
  by_cases c2 : op2 = V3D_QPU_A_FFLOOR ∨ op2 = V3D_QPU_A_FROUND ∨ op2 = V3D_QPU_A_FTRUNC ∨
     op2 = V3D_QPU_A_FCEIL ∨ op2 = V3D_QPU_A_FDX ∨ op2 = V3D_QPU_A_FDY
  · rcases c2 with c | c | c | c | c | c <;> simp [c]
  rw [if_neg c2] at h
  by_cases c3 : op2 = V3D_QPU_A_FTOIN ∨ op2 = V3D_QPU_A_FTOIZ ∨ op2 = V3D_QPU_A_FTOUZ ∨
     op2 = V3D_QPU_A_FTOC
  · rcases c3 with c | c | c | c <;> simp [c]
  rw [if_neg c3] at h
  by_cases c4 : op2 = V3D_QPU_A_VFMIN ∨ op2 = V3D_QPU_A_VFMAX
  · rw [if_pos c4] at h
    cases h1 : v3d_qpu_float16_unpack_unpack (op &&& 7) with
    | none => rw [h1] at h; simp at h
    | some x => rw [h1] at h; simp at h
  rw [if_neg c4] at h
  by_cases c5 : op2 = V3D_QPU_A_MOV
  · simp [c5]
  rw [if_neg c5] at h
  by_cases c6 : op2 = V3D_QPU_A_FMOV
  · simp [c6]
  rw [if_neg c6] at h
  simp at h

/-- `v3d71_qpu_add_pack_fields` does not read `b.unpack` for the operations whose
decoder leaves it untouched. -/
theorem v3d71_qpu_add_pack_fields_b_unpack (devinfo : v3d_device_info) (d : opcode_desc)
    (op2 : Nat) (a : v3d_qpu_input) (bm x y outp : Nat) (sig : v3d_qpu_sig)
    (h : op2 = V3D_QPU_A_FFLOOR ∨ op2 = V3D_QPU_A_FROUND ∨ op2 = V3D_QPU_A_FTRUNC ∨
      op2 = V3D_QPU_A_FCEIL ∨ op2 = V3D_QPU_A_FDX ∨ op2 = V3D_QPU_A_FDY ∨
      op2 = V3D_QPU_A_FTOIN ∨ op2 = V3D_QPU_A_FTOIZ ∨ op2 = V3D_QPU_A_FTOUZ ∨
      op2 = V3D_QPU_A_FTOC ∨ op2 = V3D_QPU_A_MOV ∨ op2 = V3D_QPU_A_FMOV) :
    v3d71_qpu_add_pack_fields devinfo d
      { op := op2, a := a, b := ⟨bm, x⟩, output_pack := outp } sig =
    v3d71_qpu_add_pack_fields devinfo d
      { op := op2, a := a, b := ⟨bm, y⟩, output_pack := outp } sig := by
  rcases h with h | h | h | h | h | h | h | h | h | h | h | h <;> subst h <;> rfl

/-- With `MA` clear, or for an operation that is not a VPM load `_IN`, the tail
of the ADD decoders keeps the operation and copies `MA` into `magic_write`. -/
theorem v3d_qpu_add_unpack_magic_keep (op2 : Nat) (ma : Bool)
    (h : ma = true → op2 ≠ V3D_QPU_A_LDVPMV_IN ∧ op2 ≠ V3D_QPU_A_LDVPMD_IN ∧
      op2 ≠ V3D_QPU_A_LDVPMG_IN) :
    v3d_qpu_add_unpack_magic op2 ma = (op2, ma) := by
  unfold v3d_qpu_add_unpack_magic
  cases ma
  · rfl
  · obtain ⟨h1, h2, h3⟩ := h rfl
    simp only [if_true, if_neg h1, if_neg h2, if_neg h3]

/-- Round trip of a row of `add_ops_v71` outside the float add class. -/
theorem add71_row_rt_pack (devinfo : v3d_device_info) (d : opcode_desc)
    (hnf : is_float_add d.op = false)
    (hrow : add71_row_rt add_ops_v71 d = true)
    (hval : opcode_invalid_in_version devinfo d.first_ver d.last_ver = false)
    (op ra rb waddr : Nat) (mw : Bool) (half0 : v3d_qpu_alu_half) (sig : v3d_qpu_sig)
    (hop : op < 256) (hb : rb < 64)
    (hmm : d.raddr_match op rb = true)
    (hc : add71_canonical op rb = true)
    (op2 outp au : Nat) (bu : Option Nat)
    (hs : v3d_qpu_add_unpack_stvpm d.op waddr = some op2)
    (hmod : v3d71_qpu_add_unpack_modifiers op2 op rb = some (outp, au, bu)) :
    v3d71_qpu_add_pack_opcode devinfo
      ((⟨op2, outp, au, bu, mw⟩ : alu_unpack_fields).store ra rb waddr half0) sig =
      some ⟨⟨ra, rb, op⟩, none⟩ := by
  unfold add71_row_rt at hrow
  rw [List.all_eq_true] at hrow
  obtain ⟨hmem, hcases⟩ := v3d_qpu_add_unpack_stvpm_spec d.op waddr op2 hs
  have h3 := hrow op2 hmem
  have hnf2 : ¬ (op2 = V3D_QPU_A_FADD ∨ op2 = V3D_QPU_A_FADDNF ∨ op2 = V3D_QPU_A_FSUB ∨
       op2 = V3D_QPU_A_FMIN ∨ op2 = V3D_QPU_A_FMAX ∨ op2 = V3D_QPU_A_FCMP) := by
    unfold is_float_add at hnf
    simp only [Bool.or_eq_false_iff, beq_eq_false_iff_ne, ne_eq] at hnf
    obtain ⟨⟨⟨⟨⟨n1, n2⟩, n3⟩, n4⟩, n5⟩, n6⟩ := hnf
    rcases hcases with ⟨-, -, -, e⟩ | ⟨-, e⟩
    · rw [e]
      intro h
      rcases h with h | h | h | h | h | h
      · exact n1 h
      · exact n2 h
      · exact n3 h
      · exact n4 h
      · exact n5 h
      · exact n6 h
    · rcases e with ⟨-, e⟩ | ⟨-, e⟩ | ⟨-, e⟩ <;> rw [e] <;> decide
  cases hf : List.find? (fun x => x.op == op2) add_ops_v71 with
  | none => rw [hf] at h3; exact absurd h3 (by simp)
  | some d3 =>
    rw [hf] at h3
    simp only [Bool.and_eq_true, beq_iff_eq] at h3
    obtain ⟨⟨hv1, hv2⟩, hall⟩ := h3
    have hl3 : lookup_opcode_from_instr devinfo add_ops_v71 op2 = some d3 := by
      refine lookup_opcode_from_instr_of_find devinfo add_ops_v71 _ d3 hf ?_
      rw [hv1, hv2]; exact hval
    have h4 := allBelow_spec 256 _ hall op hop
    unfold opcode_desc.raddr_match at hmm
    simp only [Bool.and_eq_true, bne_iff_ne, ne_eq] at hmm
    obtain ⟨⟨m1, m2⟩, m3⟩ := hmm
    simp only [m1, m2, Bool.and_self, Bool.not_true, Bool.false_or] at h4
    have h5 := allBelow_spec 64 _ h4 rb hb
    simp only [Bool.or_eq_true, beq_iff_eq, m3, false_or, hc, Bool.not_true,
      Bool.false_eq_true] at h5
    unfold add71_row_rt_at at h5
    rw [hmod] at h5
    simp only [beq_iff_eq] at h5
    rw [v3d71_qpu_add_pack_opcode_eq]
    simp only [alu_unpack_fields.store, hl3, Option.some_bind]
    rw [v3d71_qpu_add_pack_fields_ra devinfo d3 op2 ra au _ waddr outp mw sig hnf2]
    have h6 : v3d71_qpu_add_pack_fields { ver := 71 } d3
        { op := op2, a := ⟨0, au⟩, b := ⟨rb, bu.getD half0.b.unpack⟩, output_pack := outp } {} =
        some ⟨⟨0, rb, op⟩, none⟩ := by
      rw [← h5]
      cases bu with
      | some y => rfl
      | none =>
        exact v3d71_qpu_add_pack_fields_b_unpack _ d3 op2 ⟨0, au⟩ rb _ _ outp _
          (v3d71_qpu_add_unpack_modifiers_b_none op2 op rb outp au hmod)
    rw [h6]
    rfl

set_option maxRecDepth 1000000 in
/-- The opcode of FCMP on V3D 7.1 is 192 with the two unpack modes or-ed in. -/
theorem add71_fcmp_opcode : ∀ op, op < 256 → 192 ≤ op → op ≤ 207 →
    ((192 ||| (((op >>> 2) &&& 3) <<< 2)) ||| (((op >>> 0) &&& 3) <<< 0)) = op := by
  decide!

/-- Round trip of the float add class on V3D 7.1. -/
theorem add71_float_pack (devinfo : v3d_device_info) (d : opcode_desc)
    (hfl : is_float_add d.op = true) (hchk : add71_float_check add_ops_v71 d = true)
    (hval : opcode_invalid_in_version devinfo d.first_ver d.last_ver = false)
    (op ra rb waddr : Nat) (mw : Bool) (half0 : v3d_qpu_alu_half) (sig : v3d_qpu_sig)
    (hop : op < 256) (hr1 : d.opcode_first ≤ op) (hr2 : op ≤ d.opcode_last)
    (op2 outp au : Nat) (bu : Option Nat)
    (hs : v3d_qpu_add_unpack_stvpm (v3d_qpu_add_unpack_order
      (decide (v3d71_qpu_add_order_key sig.small_imm_a ((op >>> 2) &&& 3) ra >
               v3d71_qpu_add_order_key sig.small_imm_b (op &&& 3) rb)) d.op) waddr = some op2)
    (hmod : v3d71_qpu_add_unpack_modifiers op2 op rb = some (outp, au, bu)) :
    v3d71_qpu_add_pack_opcode devinfo
      ((⟨op2, outp, au, bu, mw⟩ : alu_unpack_fields).store ra rb waddr half0) sig =
      some ⟨⟨ra, rb, op⟩, none⟩ := by
  unfold add71_float_check at hchk
  simp only [Bool.and_eq_true, bne_iff_ne, ne_eq, List.all_cons, List.all_nil,
    Bool.and_true] at hchk
  obtain ⟨⟨⟨hn1, hn2⟩, hrange⟩, hrow1, hrow2⟩ := hchk
  have hx : d.op = V3D_QPU_A_FADD ∨ d.op = V3D_QPU_A_FSUB ∨ d.op = V3D_QPU_A_FMIN ∨
      d.op = V3D_QPU_A_FCMP := by
    unfold is_float_add at hfl
    simp only [Bool.or_eq_true, beq_iff_eq] at hfl
    rcases hfl with ((((e | e) | e) | e) | e) | e
    · exact Or.inl e
    · exact absurd e hn1
    · exact Or.inr (Or.inl e)
    · exact Or.inr (Or.inr (Or.inl e))
    · exact absurd e hn2
    · exact Or.inr (Or.inr (Or.inr e))
  generalize ho : decide (v3d71_qpu_add_order_key sig.small_imm_a ((op >>> 2) &&& 3) ra >
      v3d71_qpu_add_order_key sig.small_imm_b (op &&& 3) rb) = o at hs
  obtain ⟨f1, f2, f3, f4, f5, f6⟩ := float_add_order_facts d.op o hx
  rw [f2 waddr] at hs
  cases hs
  have hd3 : ∃ d3, lookup_opcode_from_instr devinfo add_ops_v71
      (v3d_qpu_add_unpack_order o d.op) = some d3 ∧ d3.opcode_first = d.opcode_first := by
    rcases f1 with e | e
    · rw [e]
      cases hf : List.find? (fun x => x.op == d.op) add_ops_v71 with
      | none => rw [hf] at hrow1; exact absurd hrow1 (by simp)
      | some d3 =>
        rw [hf] at hrow1
        simp only [Bool.and_eq_true, beq_iff_eq] at hrow1
        refine ⟨d3, lookup_opcode_from_instr_of_find devinfo _ _ d3 hf ?_, hrow1.1.1⟩
        rw [hrow1.1.2, hrow1.2]; exact hval
    · rw [e]
      cases hf : List.find? (fun x => x.op == v3d_qpu_add_unpack_order true d.op)
          add_ops_v71 with
      | none => rw [hf] at hrow2; exact absurd hrow2 (by simp)
      | some d3 =>
        rw [hf] at hrow2
        simp only [Bool.and_eq_true, beq_iff_eq] at hrow2
        refine ⟨d3, lookup_opcode_from_instr_of_find devinfo _ _ d3 hf ?_, hrow2.1.1⟩
        rw [hrow2.1.2, hrow2.2]; exact hval
  obtain ⟨d3, hl3, hf3⟩ := hd3
  have hnv : v3d_qpu_add_unpack_order o d.op ≠ V3D_QPU_A_VFPACK := by
    rcases f3 with e | e | e | e | e | e <;> rw [e] <;> decide
  have h7 : v3d_qpu_add_unpack_order o d.op = V3D_QPU_A_FADD ∨
      v3d_qpu_add_unpack_order o d.op = V3D_QPU_A_FADDNF ∨
      v3d_qpu_add_unpack_order o d.op = V3D_QPU_A_FSUB ∨
      v3d_qpu_add_unpack_order o d.op = V3D_QPU_A_FMIN ∨
      v3d_qpu_add_unpack_order o d.op = V3D_QPU_A_FMAX ∨
      v3d_qpu_add_unpack_order o d.op = V3D_QPU_A_FCMP ∨
      v3d_qpu_add_unpack_order o d.op = V3D_QPU_A_VFPACK := by
    rcases f3 with e | e | e | e | e | e
    · exact Or.inl e
    · exact Or.inr (Or.inl e)
    · exact Or.inr (Or.inr (Or.inl e))
    · exact Or.inr (Or.inr (Or.inr (Or.inl e)))
    · exact Or.inr (Or.inr (Or.inr (Or.inr (Or.inl e))))
    · exact Or.inr (Or.inr (Or.inr (Or.inr (Or.inr (Or.inl e)))))
  unfold v3d71_qpu_add_unpack_modifiers at hmod
  rw [if_pos h7] at hmod
  obtain ⟨ua, hua⟩ := f32_unpack_unpack_some ((op >>> 2) &&& 3) (and3_lt _)
  obtain ⟨ub, hub⟩ := f32_unpack_unpack_some ((op >>> 0) &&& 3) (and3_lt _)
  rw [hua, hub] at hmod
  simp only [Option.some.injEq, Prod.mk.injEq] at hmod
  obtain ⟨e1, e2, e3⟩ := hmod
  subst e2 e3
  rw [v3d71_qpu_add_pack_opcode_eq]
  simp only [alu_unpack_fields.store, hl3, Option.some_bind]
  unfold v3d71_qpu_add_pack_fields
  simp only [v3d_qpu_input.raddr, f5, if_pos f3, Option.getD_some,
    v3d_qpu_float32_unpack_unpack_pack _ _ hua, v3d_qpu_float32_unpack_unpack_pack _ _ hub,
    if_neg (show ¬ (2 < 2) by decide), Nat.shiftRight_zero] at ho ⊢
  rw [ho, f4]
  simp only [Bool.false_eq_true, if_false, hf3]
  by_cases hcmp : d.op = V3D_QPU_A_FCMP
  · have ho2 : v3d_qpu_add_unpack_order o d.op = V3D_QPU_A_FCMP := by
      rw [hcmp]; cases o <;> rfl
    have hr : d.opcode_first = 192 ∧ d.opcode_last = 207 := by
      have : (d.op == V3D_QPU_A_FCMP) = true := by rw [hcmp]; rfl
      rw [if_pos this] at hrange
      simpa using hrange
    rw [if_neg (not_not.mpr ho2)]
    dsimp only
    rw [hr.1]
    have := add71_fcmp_opcode op hop (by omega) (by omega)
    simp only [Nat.shiftRight_zero] at this
    rw [this]
  · have ho2 : v3d_qpu_add_unpack_order o d.op ≠ V3D_QPU_A_FCMP := by
      rcases hx with e | e | e | e
      · rw [e]; cases o <;> decide
      · rw [e]; cases o <;> decide
      · rw [e]; cases o <;> decide
      · exact absurd e hcmp
    have hr : (d.opcode_first = 0 ∨ d.opcode_first = 64 ∨ d.opcode_first = 128) ∧
        d.opcode_last = d.opcode_first + 47 := by
      have : ¬ (d.op == V3D_QPU_A_FCMP) = true := by simpa using hcmp
      rw [if_neg this] at hrange
      simp only [Bool.and_eq_true, Bool.or_eq_true, beq_iff_eq] at hrange
      obtain ⟨(h | h) | h, h2⟩ := hrange
      · exact ⟨Or.inl h, h2⟩
      · exact ⟨Or.inr (Or.inl h), h2⟩
      · exact ⟨Or.inr (Or.inr h), h2⟩
    have hk : ∃ k, k < 4 ∧ d.opcode_first = k * 64 := by
      rcases hr.1 with h | h | h
      · exact ⟨0, by decide, h⟩
      · exact ⟨1, by decide, h⟩
      · exact ⟨2, by decide, h⟩
    obtain ⟨k, hk4, hk⟩ := hk
    obtain ⟨hp3, hopc⟩ := add33_float_opcode op hop k hk4 (by omega) (by omega)
    rw [if_pos ho2]
    rw [if_pos (And.intro hnv ho2)] at e1
    subst e1
    rw [f32_pack_pack_of_lt _ hp3]
    simp only [Option.map_some', hk]
    simp only [Nat.shiftRight_zero] at hopc
    rw [hopc]

/-- Round trip of the ADD half on V3D 7.1 on the locals of the decoder: when
`v3d71_qpu_add_unpack` decodes a canonical `(op, raddr_b)`, with `MA` clear where
the encoder cannot write it back, the encoder computes the same opcode, read
addresses, write address and `MA` bit from the decoded half, and leaves the
signals as they are. -/
theorem v3d71_qpu_add_unpack_pack_core (devinfo : v3d_device_info) (hv : ¬ devinfo.ver < 71)
    (op ra rb waddr : Nat) (ma : Bool) (half0 : v3d_qpu_alu_half) (sig : v3d_qpu_sig)
    (r : alu_unpack_fields)
    (hop : op < 256) (hb : rb < 64)
    (hc : add71_canonical op rb = true) (hma : ma = true → add71_ma_forbidden op rb = false)
    (hu : v3d71_qpu_add_unpack_core devinfo op ra rb waddr ma sig.small_imm_a
      sig.small_imm_b = some r) :
    v3d71_qpu_add_pack_opcode devinfo (r.store ra rb waddr half0) sig =
      some ⟨⟨ra, rb, op⟩, none⟩ ∧
    v3d_qpu_add_pack_waddr (r.store ra rb waddr half0) = (waddr, ma) := by
  unfold v3d71_qpu_add_unpack_core at hu
  cases hl : lookup_opcode_from_packed devinfo add_ops_v71 op 0 0 rb with
  | none => rw [hl] at hu; exact absurd hu (by simp)
  | some d =>
    rw [hl] at hu
    obtain ⟨hdT, hmatch, htwin⟩ := lookup_opcode_from_packed_twin devinfo add_ops_v71 _ 0 0 rb d hl
    have hchk : add71_rt_check add_ops_v71 d = true := by
      have := List.all_eq_true.mp add_ops_v71_rt d hdT
      simpa [htwin] using this
    rw [opcode_desc_matches_packed_raddr devinfo hv] at hmatch
    simp only [Bool.and_eq_true, Bool.not_eq_true'] at hmatch
    obtain ⟨hmm, hval⟩ := hmatch
    have hmm' := hmm
    unfold opcode_desc.raddr_match at hmm'
    simp only [Bool.and_eq_true, Nat.ble_eq, bne_iff_ne, ne_eq] at hmm'
    obtain ⟨⟨r1, r2⟩, r3⟩ := hmm'
    unfold add71_rt_check at hchk
    simp only [Bool.and_eq_true, Bool.or_eq_true, bne_iff_ne, ne_eq] at hchk
    obtain ⟨⟨⟨⟨o1, o2⟩, o3⟩, hin⟩, hcls⟩ := hchk
    -- with `MA` set the row is neither a VPM store nor a VPM load
    have hkeep : ma = true → d.op ≠ V3D_QPU_A_STVPMV ∧ d.op ≠ V3D_QPU_A_STVPMD ∧
        d.op ≠ V3D_QPU_A_STVPMP ∧ d.op ≠ V3D_QPU_A_LDVPMV_IN ∧ d.op ≠ V3D_QPU_A_LDVPMD_IN ∧
        d.op ≠ V3D_QPU_A_LDVPMG_IN := by
      intro hm
      rcases hin with h | h
      · exact ⟨h.1.1.1.1.1, h.1.1.1.1.2, h.1.1.1.2, h.1.1.2, h.1.2, h.2⟩
      · have h4 := allBelow_spec 256 _ h op hop
        have e1 : Nat.ble d.opcode_first op = true := by rw [Nat.ble_eq]; exact r1
        have e2 : Nat.ble op d.opcode_last = true := by rw [Nat.ble_eq]; exact r2
        simp only [e1, e2, Bool.and_self, Bool.not_true, Bool.false_or] at h4
        have h5 := allBelow_spec 64 _ h4 rb hb
        simp only [Bool.or_eq_true, beq_iff_eq, r3, false_or] at h5
        rw [hma hm] at h5
        exact absurd h5 (by decide)
    dsimp only at hu
    generalize ho : decide (v3d71_qpu_add_order_key sig.small_imm_a ((op >>> 2) &&& 3) ra >
        v3d71_qpu_add_order_key sig.small_imm_b (op &&& 3) rb) = o at hu
    cases hs : v3d_qpu_add_unpack_stvpm (v3d_qpu_add_unpack_order o d.op) waddr with
    | none => rw [hs] at hu; exact absurd hu (by simp)
    | some op2 =>
      rw [hs] at hu
      dsimp only at hu
      cases hmod : v3d71_qpu_add_unpack_modifiers op2 op rb with
      | none => rw [hmod] at hu; exact absurd hu (by simp)
      | some m =>
        obtain ⟨outp, au, bu⟩ := m
        rw [hmod] at hu
        dsimp only at hu
        simp only [Option.some.injEq] at hu
        subst hu
        by_cases hfl : is_float_add d.op = true
        · rw [if_pos hfl] at hcls
          have hfc := hcls
          unfold add71_float_check at hfc
          simp only [Bool.and_eq_true, bne_iff_ne, ne_eq] at hfc
          obtain ⟨⟨⟨hn1, hn2⟩, -⟩, -⟩ := hfc
          have hx : d.op = V3D_QPU_A_FADD ∨ d.op = V3D_QPU_A_FSUB ∨ d.op = V3D_QPU_A_FMIN ∨
              d.op = V3D_QPU_A_FCMP := by
            have := hfl
            unfold is_float_add at this
            simp only [Bool.or_eq_true, beq_iff_eq] at this
            rcases this with ((((e | e) | e) | e) | e) | e
            · exact Or.inl e
            · exact absurd e hn1
            · exact Or.inr (Or.inl e)
            · exact Or.inr (Or.inr (Or.inl e))
            · exact absurd e hn2
            · exact Or.inr (Or.inr (Or.inr e))
          obtain ⟨f1, f2, f3, f4, f5, f6⟩ := float_add_order_facts d.op o hx
          have hop2 : op2 = v3d_qpu_add_unpack_order o d.op := by
            have hs' := hs
            rw [f2 waddr] at hs'
            exact (Option.some.inj hs').symm
          subst hop2
          rw [f6 ma]
          constructor
          · subst ho
            exact add71_float_pack devinfo d hfl hcls hval op ra rb waddr ma half0 sig hop r1 r2
              _ outp au bu hs hmod
          · have e := v3d_qpu_add_pack_waddr_rt (v3d_qpu_add_unpack_order o d.op)
              (v3d_qpu_add_unpack_order o d.op) waddr ma ⟨ra, au⟩
              ⟨rb, bu.getD half0.b.unpack⟩ outp (f2 waddr)
              (by rcases f3 with e | e | e | e | e | e <;> rw [e] <;> decide)
              (by
                intro h
                rcases f3 with e | e | e | e | e | e <;> rw [e] at h <;>
                  exact absurd h (by decide))
            rw [f6 ma] at e
            exact e
        · simp only [Bool.not_eq_true] at hfl
          rw [hfl] at hcls
          simp only [Bool.false_eq_true, if_false] at hcls
          rw [is_float_add_false_order d.op o hfl] at hs
          obtain ⟨-, hcases⟩ := v3d_qpu_add_unpack_stvpm_spec d.op waddr op2 hs
          have hmk : v3d_qpu_add_unpack_magic op2 ma = (op2, ma) := by
            apply v3d_qpu_add_unpack_magic_keep
            intro hm
            obtain ⟨k1, k2, k3, k4, k5, k6⟩ := hkeep hm
            rcases hcases with ⟨-, -, -, e⟩ | ⟨e, -⟩
            · rw [e]; exact ⟨k4, k5, k6⟩
            · rcases e with e | e | e
              · exact absurd e k1
              · exact absurd e k2
              · exact absurd e k3
          constructor
          · rw [hmk]
            exact add71_row_rt_pack devinfo d hfl hcls hval op ra rb waddr ma half0 sig hop hb hmm
              hc op2 outp au bu hs hmod
          · refine v3d_qpu_add_pack_waddr_rt d.op op2 waddr ma _ _ _ hs ⟨o1, o2, o3⟩ ?_
            intro h
            cases hm : ma with
            | false => rfl
            | true =>
              obtain ⟨k1, k2, k3, -, -, -⟩ := hkeep hm
              rcases h with e | e | e
              · exact absurd e k1
              · exact absurd e k2
              · exact absurd e k3

theorem v3d71_qpu_mul_pack_opcode_eq (devinfo : v3d_device_info) (mul : v3d_qpu_alu_half) :
    v3d71_qpu_mul_pack_opcode devinfo mul =
      (lookup_opcode_from_instr devinfo mul_ops_v71 mul.op).bind
        (fun d => v3d71_qpu_mul_pack_fields d mul) := by
  unfold v3d71_qpu_mul_pack_opcode
  cases lookup_opcode_from_instr devinfo mul_ops_v71 mul.op <;> rfl

set_option maxRecDepth 1000000 in
theorem mul_ops_v71_rt : mul_ops_v71.all (fun d => mul71_row_rt mul_ops_v71 d) = true := by
  decide!

/-- `v3d71_qpu_mul_pack_fields` passes `raddr_c` through and reads neither the
write address nor `magic_write`. -/
theorem v3d71_qpu_mul_pack_fields_rc (d : opcode_desc)
    (op rc au : Nat) (b : v3d_qpu_input) (waddr outp : Nat) (mw : Bool) :
    v3d71_qpu_mul_pack_fields d
      { op := op, a := ⟨rc, au⟩, b := b, waddr := waddr, magic_write := mw,
        output_pack := outp } =
    (v3d71_qpu_mul_pack_fields d
      { op := op, a := ⟨0, au⟩, b := b, output_pack := outp }).map
        (fun f => ⟨rc, f.mux_b, f.opcode⟩) := by
  unfold v3d71_qpu_mul_pack_fields
  simp only [v3d_qpu_input.raddr]
  by_cases c1 : op = V3D_QPU_M_FMUL
  · simp only [if_pos c1]
    cases v3d_qpu_float32_pack_pack outp with
    | none => rfl
    | some x =>
      cases v3d_qpu_float32_unpack_pack au with
      | none => rfl
      | some y => cases v3d_qpu_float32_unpack_pack b.unpack <;> rfl
  simp only [if_neg c1]
  by_cases c2 : op = V3D_QPU_M_FMOV
  · simp only [if_pos c2]
    cases v3d_qpu_float32_pack_pack outp with
    | none => rfl
    | some x => cases v3d_qpu_float32_unpack_pack au <;> rfl
  simp only [if_neg c2]
  by_cases c3 : op = V3D_QPU_M_VFMUL
  · simp only [if_pos c3]
    by_cases c : outp ≠ V3D_QPU_PACK_NONE
    · simp only [if_pos c, Option.map_none']
    · simp only [if_neg c]
      cases v3d_qpu_float16_unpack_pack au with
      | none => rfl
      | some x =>
        dsimp only
        by_cases c' : b.unpack ≠ V3D_QPU_UNPACK_NONE
        · simp only [if_pos c', Option.map_none']
        · simp only [if_neg c', Option.map_some']
  simp only [if_neg c3]
  by_cases c4 : op = V3D_QPU_M_MOV
  · simp only [if_pos c4]
    by_cases c : outp ≠ V3D_QPU_PACK_NONE
    · simp only [if_pos c, Option.map_none']
    · simp only [if_neg c]
      cases v3d_qpu_int32_unpack_pack au <;> rfl
  simp only [if_neg c4]
  by_cases c : op ≠ V3D_QPU_M_NOP ∧
         (outp ≠ V3D_QPU_PACK_NONE ∨ au ≠ V3D_QPU_UNPACK_NONE ∨
          b.unpack ≠ V3D_QPU_UNPACK_NONE)
  · simp only [if_pos c, Option.map_none']
  · simp only [if_neg c, Option.map_some']

/-- The V3D 7.1 MUL decoder leaves `b.unpack` untouched for FMOV and MOV only. -/
theorem v3d71_qpu_mul_unpack_modifiers_b_none (mul_op op rd outp au : Nat)
    (h : v3d71_qpu_mul_unpack_modifiers mul_op op rd = some (outp, au, none)) :
    mul_op = V3D_QPU_M_FMOV ∨ mul_op = V3D_QPU_M_MOV := by
  unfold v3d71_qpu_mul_unpack_modifiers at h
  by_cases c1 : mul_op = V3D_QPU_M_FMUL
  · rw [if_pos c1] at h
    cases h1 : v3d_qpu_float32_unpack_unpack (op >>> 2 &&& 3) with
    | none => rw [h1] at h; simp at h
    | some x =>
      rw [h1] at h
      cases h2 : v3d_qpu_float32_unpack_unpack (op >>> 0 &&& 3) with
      | none => rw [h2] at h; simp at h
      | some y => rw [h2] at h; simp at h
  rw [if_neg c1] at h
  by_cases c2 : mul_op = V3D_QPU_M_FMOV
  · exact Or.inl c2
  rw [if_neg c2] at h
  by_cases c3 : mul_op = V3D_QPU_M_VFMUL
  · rw [if_pos c3] at h
    cases h1 : v3d_qpu_float16_unpack_unpack ((u32_sub (op &&& 7) 4) &&& 7) with
    | none => rw [h1] at h; simp at h
    | some x => rw [h1] at h; simp at h
  rw [if_neg c3] at h
  by_cases c4 : mul_op = V3D_QPU_M_MOV
  · exact Or.inr c4
  rw [if_neg c4] at h
  simp at h

/-- Round trip of the MUL half on V3D 7.1 on the locals of the decoder. -/
theorem v3d71_qpu_mul_unpack_pack_core (devinfo : v3d_device_info) (hv : ¬ devinfo.ver < 71)
    (op rc rd waddr : Nat) (mm : Bool) (half0 : v3d_qpu_alu_half) (r : alu_unpack_fields)
    (hop : op < 64) (hd : rd < 64)
    (hu : v3d71_qpu_mul_unpack_core devinfo op rd mm = some r) :
    v3d71_qpu_mul_pack_opcode devinfo (r.store rc rd waddr half0) = some ⟨rc, rd, op⟩ ∧
    (r.store rc rd waddr half0).waddr = waddr ∧ (r.store rc rd waddr half0).magic_write = mm := by
  unfold v3d71_qpu_mul_unpack_core at hu
  cases hl : lookup_opcode_from_packed devinfo mul_ops_v71 op 0 0 rd with
  | none => rw [hl] at hu; exact absurd hu (by simp)
  | some d =>
    rw [hl] at hu
    dsimp only at hu
    obtain ⟨hdT, hmatch, -⟩ := lookup_opcode_from_packed_twin devinfo mul_ops_v71 _ 0 0 rd d hl
    have hrow : mul71_row_rt mul_ops_v71 d = true := List.all_eq_true.mp mul_ops_v71_rt d hdT
    rw [opcode_desc_matches_packed_raddr devinfo hv] at hmatch
    simp only [Bool.and_eq_true, Bool.not_eq_true'] at hmatch
    obtain ⟨hmm, hval⟩ := hmatch
    cases hmod : v3d71_qpu_mul_unpack_modifiers d.op op rd with
    | none => rw [hmod] at hu; exact absurd hu (by simp)
    | some m =>
      obtain ⟨outp, au, bu⟩ := m
      rw [hmod] at hu
      dsimp only at hu
      simp only [Option.some.injEq] at hu
      subst hu
      refine ⟨?_, rfl, rfl⟩
      unfold mul71_row_rt at hrow
      cases hf : List.find? (fun x => x.op == d.op) mul_ops_v71 with
      | none => rw [hf] at hrow; exact absurd hrow (by simp)
      | some d3 =>
        rw [hf] at hrow
        simp only [Bool.and_eq_true, beq_iff_eq] at hrow
        obtain ⟨⟨hv1, hv2⟩, hall⟩ := hrow
        have hl3 : lookup_opcode_from_instr devinfo mul_ops_v71 d.op = some d3 := by
          refine lookup_opcode_from_instr_of_find devinfo mul_ops_v71 _ d3 hf ?_
          rw [hv1, hv2]; exact hval
        have h4 := allBelow_spec 64 _ hall op hop
        unfold opcode_desc.raddr_match at hmm
        simp only [Bool.and_eq_true, bne_iff_ne, ne_eq] at hmm
        obtain ⟨⟨m1, m2⟩, m3⟩ := hmm
        simp only [m1, m2, Bool.and_self, Bool.not_true, Bool.false_or] at h4
        have h5 := allBelow_spec 64 _ h4 rd hd
        simp only [Bool.or_eq_true, beq_iff_eq, m3, false_or] at h5
        unfold mul71_row_rt_at at h5
        rw [hmod] at h5
        simp only [beq_iff_eq] at h5
        rw [v3d71_qpu_mul_pack_opcode_eq]
        simp only [alu_unpack_fields.store, hl3, Option.some_bind]
        rw [v3d71_qpu_mul_pack_fields_rc]
        have h6 : v3d71_qpu_mul_pack_fields d3
            { op := d.op, a := ⟨0, au⟩, b := ⟨rd, bu.getD half0.b.unpack⟩, output_pack := outp } =
            some ⟨0, rd, op⟩ := by
          rw [← h5]
          cases bu with
          | some y => rfl
          | none =>
            rcases v3d71_qpu_mul_unpack_modifiers_b_none d.op op rd outp au hmod with e | e <;>
              rw [e] <;> rfl
        rw [h6]
        rfl

/-- A 64-bit word is determined by the twelve fields of the ALU layout of V3D 7.1. -/
theorem word_ext71 (w w' : Nat) (hw : w < 2 ^ 64) (hw' : w' < 2 ^ 64)
    (h0 : w / 2 ^ 58 % 2 ^ 6 = w' / 2 ^ 58 % 2 ^ 6)
    (h1 : w / 2 ^ 53 % 2 ^ 5 = w' / 2 ^ 53 % 2 ^ 5)
    (h2 : w / 2 ^ 46 % 2 ^ 7 = w' / 2 ^ 46 % 2 ^ 7)
    (h3 : w / 2 ^ 45 % 2 ^ 1 = w' / 2 ^ 45 % 2 ^ 1)
    (h4 : w / 2 ^ 44 % 2 ^ 1 = w' / 2 ^ 44 % 2 ^ 1)
    (h5 : w / 2 ^ 38 % 2 ^ 6 = w' / 2 ^ 38 % 2 ^ 6)
    (h6 : w / 2 ^ 32 % 2 ^ 6 = w' / 2 ^ 32 % 2 ^ 6)
    (h7 : w / 2 ^ 24 % 2 ^ 8 = w' / 2 ^ 24 % 2 ^ 8)
    (h8 : w / 2 ^ 18 % 2 ^ 6 = w' / 2 ^ 18 % 2 ^ 6)
    (h9 : w / 2 ^ 12 % 2 ^ 6 = w' / 2 ^ 12 % 2 ^ 6)
    (h10 : w / 2 ^ 6 % 2 ^ 6 = w' / 2 ^ 6 % 2 ^ 6)
    (h11 : w / 2 ^ 0 % 2 ^ 6 = w' / 2 ^ 0 % 2 ^ 6) : w = w' := by
  apply Nat.eq_of_testBit_eq
  intro i
  by_cases hi : i < 64
  · have hc : (58 ≤ i ∧ i < 64) ∨ (53 ≤ i ∧ i < 58) ∨ (46 ≤ i ∧ i < 53) ∨ (45 ≤ i ∧ i < 46) ∨ (44 ≤ i ∧ i < 45) ∨ (38 ≤ i ∧ i < 44) ∨ (32 ≤ i ∧ i < 38) ∨ (24 ≤ i ∧ i < 32) ∨ (18 ≤ i ∧ i < 24) ∨ (12 ≤ i ∧ i < 18) ∨ (6 ≤ i ∧ i < 12) ∨ (0 ≤ i ∧ i < 6) := by omega
    rcases hc with hc | hc | hc | hc | hc | hc | hc | hc | hc | hc | hc | hc
    · exact field_bits_eq w w' 58 6 h0 i (by omega) (by omega)
    · exact field_bits_eq w w' 53 5 h1 i (by omega) (by omega)
    · exact field_bits_eq w w' 46 7 h2 i (by omega) (by omega)
    · exact field_bits_eq w w' 45 1 h3 i (by omega) (by omega)
    · exact field_bits_eq w w' 44 1 h4 i (by omega) (by omega)
    · exact field_bits_eq w w' 38 6 h5 i (by omega) (by omega)
    · exact field_bits_eq w w' 32 6 h6 i (by omega) (by omega)
    · exact field_bits_eq w w' 24 8 h7 i (by omega) (by omega)
    · exact field_bits_eq w w' 18 6 h8 i (by omega) (by omega)
    · exact field_bits_eq w w' 12 6 h9 i (by omega) (by omega)
    · exact field_bits_eq w w' 6 6 h10 i (by omega) (by omega)
    · exact field_bits_eq w w' 0 6 h11 i (by omega) (by omega)
  · have hi' : 64 ≤ i := by omega
    rw [Nat.testBit_lt_two_pow (lt_of_lt_of_le hw (Nat.pow_le_pow_right (by decide) hi')),
      Nat.testBit_lt_two_pow (lt_of_lt_of_le hw' (Nat.pow_le_pow_right (by decide) hi'))]

theorem alu71_word_lt (sig raddr_a raddr_b op_add waddr_a : Nat) (ma : Bool)
    (raddr_c raddr_d op_mul waddr_m : Nat) (mm : Bool) (cond : Nat) :
    alu71_word sig raddr_a raddr_b op_add waddr_a ma raddr_c raddr_d op_mul waddr_m mm
      cond < 2 ^ 64 := by
  unfold alu71_word
  simp only [V3D_QPU_SIG_SHIFT, V3D_QPU_SIG_MASK, V3D_QPU_RADDR_A_SHIFT,
    V3D_QPU_RADDR_A_MASK, V3D_QPU_RADDR_B_SHIFT, V3D_QPU_RADDR_B_MASK,
    V3D_QPU_RADDR_C_SHIFT, V3D_QPU_RADDR_C_MASK, V3D_QPU_RADDR_D_SHIFT, V3D_QPU_RADDR_D_MASK,
    V3D_QPU_OP_ADD_SHIFT, V3D_QPU_OP_ADD_MASK, V3D_QPU_WADDR_A_SHIFT,
    V3D_QPU_WADDR_A_MASK, V3D_QPU_OP_MUL_SHIFT, V3D_QPU_OP_MUL_MASK, V3D_QPU_WADDR_M_SHIFT,
    V3D_QPU_WADDR_M_MASK, V3D_QPU_COND_SHIFT, V3D_QPU_COND_MASK, V3D_QPU_MA, V3D_QPU_MM]
  have hb : ∀ k, k < 64 → QPU_MASK k k < 2 ^ 64 := by
    intro k hk
    rw [QPU_SET_FIELD_bit]
    exact QPU_SET_FIELD_lt 1 k k hk (le_refl _)
  cases ma <;> cases mm <;>
    simp only [Bool.false_eq_true, if_false, if_true] <;>
    repeat' (first
      | exact QPU_SET_FIELD_lt _ _ _ (by decide) (by decide)
      | exact hb _ (by decide)
      | exact Nat.pos_pow_of_pos 64 (by decide)
      | apply Nat.or_lt_two_pow)

/-- A 64-bit word is rebuilt from its fields in the layout of V3D 7.1. -/
theorem alu71_word_eq (W : Nat) (hW : W < 2 ^ 64) :
    alu71_word (QPU_GET_FIELD W V3D_QPU_SIG_SHIFT V3D_QPU_SIG_MASK)
      (QPU_GET_FIELD W V3D_QPU_RADDR_A_SHIFT V3D_QPU_RADDR_A_MASK)
      (QPU_GET_FIELD W V3D_QPU_RADDR_B_SHIFT V3D_QPU_RADDR_B_MASK)
      (QPU_GET_FIELD W V3D_QPU_OP_ADD_SHIFT V3D_QPU_OP_ADD_MASK)
      (QPU_GET_FIELD W V3D_QPU_WADDR_A_SHIFT V3D_QPU_WADDR_A_MASK)
      (W &&& V3D_QPU_MA != 0)
      (QPU_GET_FIELD W V3D_QPU_RADDR_C_SHIFT V3D_QPU_RADDR_C_MASK)
      (QPU_GET_FIELD W V3D_QPU_RADDR_D_SHIFT V3D_QPU_RADDR_D_MASK)
      (QPU_GET_FIELD W V3D_QPU_OP_MUL_SHIFT V3D_QPU_OP_MUL_MASK)
      (QPU_GET_FIELD W V3D_QPU_WADDR_M_SHIFT V3D_QPU_WADDR_M_MASK)
      (W &&& V3D_QPU_MM != 0)
      (QPU_GET_FIELD W V3D_QPU_COND_SHIFT V3D_QPU_COND_MASK) = W := by
  refine word_ext71 _ W (alu71_word_lt _ _ _ _ _ _ _ _ _ _ _ _) hW ?_ ?_ ?_ ?_ ?_ ?_ ?_ ?_ ?_ ?_ ?_ ?_
  · have key : ∀ X, X / 2 ^ 58 % 2 ^ 6 = QPU_GET_FIELD X 58 (QPU_MASK 63 58) :=
      fun X => (QPU_GET_FIELD_eq X 63 58).symm
    rw [key, key]
    unfold alu71_word
    simp only [V3D_QPU_SIG_SHIFT, V3D_QPU_SIG_MASK, V3D_QPU_RADDR_A_SHIFT,
      V3D_QPU_RADDR_A_MASK, V3D_QPU_RADDR_B_SHIFT, V3D_QPU_RADDR_B_MASK,
      V3D_QPU_RADDR_C_SHIFT, V3D_QPU_RADDR_C_MASK, V3D_QPU_RADDR_D_SHIFT, V3D_QPU_RADDR_D_MASK,
      V3D_QPU_OP_ADD_SHIFT, V3D_QPU_OP_ADD_MASK, V3D_QPU_WADDR_A_SHIFT,
      V3D_QPU_WADDR_A_MASK, V3D_QPU_OP_MUL_SHIFT, V3D_QPU_OP_MUL_MASK, V3D_QPU_WADDR_M_SHIFT,
      V3D_QPU_WADDR_M_MASK, V3D_QPU_COND_SHIFT, V3D_QPU_COND_MASK, V3D_QPU_MA, V3D_QPU_MM]
    simp (disch := decide) only [QPU_GET_FIELD_or, QPU_GET_FIELD_ite, QPU_GET_FIELD_zero,
      QPU_GET_SET_same, QPU_GET_SET_other, QPU_GET_FIELD_bit_other, Nat.zero_or,
      Nat.or_zero, ite_self, QPU_GET_FIELD_mask_bit]
    exact QPU_GET_FIELD_mod W 63 58
  · have key : ∀ X, X / 2 ^ 53 % 2 ^ 5 = QPU_GET_FIELD X 53 (QPU_MASK 57 53) :=
      fun X => (QPU_GET_FIELD_eq X 57 53).symm
    rw [key, key]
    unfold alu71_word
    simp only [V3D_QPU_SIG_SHIFT, V3D_QPU_SIG_MASK, V3D_QPU_RADDR_A_SHIFT,
      V3D_QPU_RADDR_A_MASK, V3D_QPU_RADDR_B_SHIFT, V3D_QPU_RADDR_B_MASK,
      V3D_QPU_RADDR_C_SHIFT, V3D_QPU_RADDR_C_MASK, V3D_QPU_RADDR_D_SHIFT, V3D_QPU_RADDR_D_MASK,
      V3D_QPU_OP_ADD_SHIFT, V3D_QPU_OP_ADD_MASK, V3D_QPU_WADDR_A_SHIFT,
      V3D_QPU_WADDR_A_MASK, V3D_QPU_OP_MUL_SHIFT, V3D_QPU_OP_MUL_MASK, V3D_QPU_WADDR_M_SHIFT,
      V3D_QPU_WADDR_M_MASK, V3D_QPU_COND_SHIFT, V3D_QPU_COND_MASK, V3D_QPU_MA, V3D_QPU_MM]
    simp (disch := decide) only [QPU_GET_FIELD_or, QPU_GET_FIELD_ite, QPU_GET_FIELD_zero,
      QPU_GET_SET_same, QPU_GET_SET_other, QPU_GET_FIELD_bit_other, Nat.zero_or,
      Nat.or_zero, ite_self, QPU_GET_FIELD_mask_bit]
    exact QPU_GET_FIELD_mod W 57 53
  · have key : ∀ X, X / 2 ^ 46 % 2 ^ 7 = QPU_GET_FIELD X 46 (QPU_MASK 52 46) :=
      fun X => (QPU_GET_FIELD_eq X 52 46).symm
    rw [key, key]
    unfold alu71_word
    simp only [V3D_QPU_SIG_SHIFT, V3D_QPU_SIG_MASK, V3D_QPU_RADDR_A_SHIFT,
      V3D_QPU_RADDR_A_MASK, V3D_QPU_RADDR_B_SHIFT, V3D_QPU_RADDR_B_MASK,
      V3D_QPU_RADDR_C_SHIFT, V3D_QPU_RADDR_C_MASK, V3D_QPU_RADDR_D_SHIFT, V3D_QPU_RADDR_D_MASK,
      V3D_QPU_OP_ADD_SHIFT, V3D_QPU_OP_ADD_MASK, V3D_QPU_WADDR_A_SHIFT,
      V3D_QPU_WADDR_A_MASK, V3D_QPU_OP_MUL_SHIFT, V3D_QPU_OP_MUL_MASK, V3D_QPU_WADDR_M_SHIFT,
      V3D_QPU_WADDR_M_MASK, V3D_QPU_COND_SHIFT, V3D_QPU_COND_MASK, V3D_QPU_MA, V3D_QPU_MM]
    simp (disch := decide) only [QPU_GET_FIELD_or, QPU_GET_FIELD_ite, QPU_GET_FIELD_zero,
      QPU_GET_SET_same, QPU_GET_SET_other, QPU_GET_FIELD_bit_other, Nat.zero_or,
      Nat.or_zero, ite_self, QPU_GET_FIELD_mask_bit]
    exact QPU_GET_FIELD_mod W 52 46
  · have key : ∀ X, X / 2 ^ 45 % 2 ^ 1 = QPU_GET_FIELD X 45 (QPU_MASK 45 45) :=
      fun X => (QPU_GET_FIELD_eq X 45 45).symm
    rw [key, key]
    unfold alu71_word
    simp only [V3D_QPU_SIG_SHIFT, V3D_QPU_SIG_MASK, V3D_QPU_RADDR_A_SHIFT,
      V3D_QPU_RADDR_A_MASK, V3D_QPU_RADDR_B_SHIFT, V3D_QPU_RADDR_B_MASK,
      V3D_QPU_RADDR_C_SHIFT, V3D_QPU_RADDR_C_MASK, V3D_QPU_RADDR_D_SHIFT, V3D_QPU_RADDR_D_MASK,
      V3D_QPU_OP_ADD_SHIFT, V3D_QPU_OP_ADD_MASK, V3D_QPU_WADDR_A_SHIFT,
      V3D_QPU_WADDR_A_MASK, V3D_QPU_OP_MUL_SHIFT, V3D_QPU_OP_MUL_MASK, V3D_QPU_WADDR_M_SHIFT,
      V3D_QPU_WADDR_M_MASK, V3D_QPU_COND_SHIFT, V3D_QPU_COND_MASK, V3D_QPU_MA, V3D_QPU_MM]
    simp (disch := decide) only [QPU_GET_FIELD_or, QPU_GET_FIELD_ite, QPU_GET_FIELD_zero,
      QPU_GET_SET_same, QPU_GET_SET_other, QPU_GET_FIELD_bit_other, Nat.zero_or,
      Nat.or_zero, ite_self, QPU_GET_FIELD_mask_bit]
    rw [QPU_bit_eq, ← QPU_GET_FIELD_eq W 45 45]
  · have key : ∀ X, X / 2 ^ 44 % 2 ^ 1 = QPU_GET_FIELD X 44 (QPU_MASK 44 44) :=
      fun X => (QPU_GET_FIELD_eq X 44 44).symm
    rw [key, key]
    unfold alu71_word
    simp only [V3D_QPU_SIG_SHIFT, V3D_QPU_SIG_MASK, V3D_QPU_RADDR_A_SHIFT,
      V3D_QPU_RADDR_A_MASK, V3D_QPU_RADDR_B_SHIFT, V3D_QPU_RADDR_B_MASK,
      V3D_QPU_RADDR_C_SHIFT, V3D_QPU_RADDR_C_MASK, V3D_QPU_RADDR_D_SHIFT, V3D_QPU_RADDR_D_MASK,
      V3D_QPU_OP_ADD_SHIFT, V3D_QPU_OP_ADD_MASK, V3D_QPU_WADDR_A_SHIFT,
      V3D_QPU_WADDR_A_MASK, V3D_QPU_OP_MUL_SHIFT, V3D_QPU_OP_MUL_MASK, V3D_QPU_WADDR_M_SHIFT,
      V3D_QPU_WADDR_M_MASK, V3D_QPU_COND_SHIFT, V3D_QPU_COND_MASK, V3D_QPU_MA, V3D_QPU_MM]
    simp (disch := decide) only [QPU_GET_FIELD_or, QPU_GET_FIELD_ite, QPU_GET_FIELD_zero,
      QPU_GET_SET_same, QPU_GET_SET_other, QPU_GET_FIELD_bit_other, Nat.zero_or,
      Nat.or_zero, ite_self, QPU_GET_FIELD_mask_bit]
    rw [QPU_bit_eq, ← QPU_GET_FIELD_eq W 44 44]
  · have key : ∀ X, X / 2 ^ 38 % 2 ^ 6 = QPU_GET_FIELD X 38 (QPU_MASK 43 38) :=
      fun X => (QPU_GET_FIELD_eq X 43 38).symm
    rw [key, key]
    unfold alu71_word
    simp only [V3D_QPU_SIG_SHIFT, V3D_QPU_SIG_MASK, V3D_QPU_RADDR_A_SHIFT,
      V3D_QPU_RADDR_A_MASK, V3D_QPU_RADDR_B_SHIFT, V3D_QPU_RADDR_B_MASK,
      V3D_QPU_RADDR_C_SHIFT, V3D_QPU_RADDR_C_MASK, V3D_QPU_RADDR_D_SHIFT, V3D_QPU_RADDR_D_MASK,
      V3D_QPU_OP_ADD_SHIFT, V3D_QPU_OP_ADD_MASK, V3D_QPU_WADDR_A_SHIFT,
      V3D_QPU_WADDR_A_MASK, V3D_QPU_OP_MUL_SHIFT, V3D_QPU_OP_MUL_MASK, V3D_QPU_WADDR_M_SHIFT,
      V3D_QPU_WADDR_M_MASK, V3D_QPU_COND_SHIFT, V3D_QPU_COND_MASK, V3D_QPU_MA, V3D_QPU_MM]
    simp (disch := decide) only [QPU_GET_FIELD_or, QPU_GET_FIELD_ite, QPU_GET_FIELD_zero,
      QPU_GET_SET_same, QPU_GET_SET_other, QPU_GET_FIELD_bit_other, Nat.zero_or,
      Nat.or_zero, ite_self, QPU_GET_FIELD_mask_bit]
    exact QPU_GET_FIELD_mod W 43 38
  · have key : ∀ X, X / 2 ^ 32 % 2 ^ 6 = QPU_GET_FIELD X 32 (QPU_MASK 37 32) :=
      fun X => (QPU_GET_FIELD_eq X 37 32).symm
    rw [key, key]
    unfold alu71_word
    simp only [V3D_QPU_SIG_SHIFT, V3D_QPU_SIG_MASK, V3D_QPU_RADDR_A_SHIFT,
      V3D_QPU_RADDR_A_MASK, V3D_QPU_RADDR_B_SHIFT, V3D_QPU_RADDR_B_MASK,
      V3D_QPU_RADDR_C_SHIFT, V3D_QPU_RADDR_C_MASK, V3D_QPU_RADDR_D_SHIFT, V3D_QPU_RADDR_D_MASK,
      V3D_QPU_OP_ADD_SHIFT, V3D_QPU_OP_ADD_MASK, V3D_QPU_WADDR_A_SHIFT,
      V3D_QPU_WADDR_A_MASK, V3D_QPU_OP_MUL_SHIFT, V3D_QPU_OP_MUL_MASK, V3D_QPU_WADDR_M_SHIFT,
      V3D_QPU_WADDR_M_MASK, V3D_QPU_COND_SHIFT, V3D_QPU_COND_MASK, V3D_QPU_MA, V3D_QPU_MM]
    simp (disch := decide) only [QPU_GET_FIELD_or, QPU_GET_FIELD_ite, QPU_GET_FIELD_zero,
      QPU_GET_SET_same, QPU_GET_SET_other, QPU_GET_FIELD_bit_other, Nat.zero_or,
      Nat.or_zero, ite_self, QPU_GET_FIELD_mask_bit]
    exact QPU_GET_FIELD_mod W 37 32
  · have key : ∀ X, X / 2 ^ 24 % 2 ^ 8 = QPU_GET_FIELD X 24 (QPU_MASK 31 24) :=
      fun X => (QPU_GET_FIELD_eq X 31 24).symm
    rw [key, key]
    unfold alu71_word
    simp only [V3D_QPU_SIG_SHIFT, V3D_QPU_SIG_MASK, V3D_QPU_RADDR_A_SHIFT,
      V3D_QPU_RADDR_A_MASK, V3D_QPU_RADDR_B_SHIFT, V3D_QPU_RADDR_B_MASK,
      V3D_QPU_RADDR_C_SHIFT, V3D_QPU_RADDR_C_MASK, V3D_QPU_RADDR_D_SHIFT, V3D_QPU_RADDR_D_MASK,
      V3D_QPU_OP_ADD_SHIFT, V3D_QPU_OP_ADD_MASK, V3D_QPU_WADDR_A_SHIFT,
      V3D_QPU_WADDR_A_MASK, V3D_QPU_OP_MUL_SHIFT, V3D_QPU_OP_MUL_MASK, V3D_QPU_WADDR_M_SHIFT,
      V3D_QPU_WADDR_M_MASK, V3D_QPU_COND_SHIFT, V3D_QPU_COND_MASK, V3D_QPU_MA, V3D_QPU_MM]
    simp (disch := decide) only [QPU_GET_FIELD_or, QPU_GET_FIELD_ite, QPU_GET_FIELD_zero,
      QPU_GET_SET_same, QPU_GET_SET_other, QPU_GET_FIELD_bit_other, Nat.zero_or,
      Nat.or_zero, ite_self, QPU_GET_FIELD_mask_bit]
    exact QPU_GET_FIELD_mod W 31 24
  · have key : ∀ X, X / 2 ^ 18 % 2 ^ 6 = QPU_GET_FIELD X 18 (QPU_MASK 23 18) :=
      fun X => (QPU_GET_FIELD_eq X 23 18).symm
    rw [key, key]
    unfold alu71_word
    simp only [V3D_QPU_SIG_SHIFT, V3D_QPU_SIG_MASK, V3D_QPU_RADDR_A_SHIFT,
      V3D_QPU_RADDR_A_MASK, V3D_QPU_RADDR_B_SHIFT, V3D_QPU_RADDR_B_MASK,
      V3D_QPU_RADDR_C_SHIFT, V3D_QPU_RADDR_C_MASK, V3D_QPU_RADDR_D_SHIFT, V3D_QPU_RADDR_D_MASK,
      V3D_QPU_OP_ADD_SHIFT, V3D_QPU_OP_ADD_MASK, V3D_QPU_WADDR_A_SHIFT,
      V3D_QPU_WADDR_A_MASK, V3D_QPU_OP_MUL_SHIFT, V3D_QPU_OP_MUL_MASK, V3D_QPU_WADDR_M_SHIFT,
      V3D_QPU_WADDR_M_MASK, V3D_QPU_COND_SHIFT, V3D_QPU_COND_MASK, V3D_QPU_MA, V3D_QPU_MM]
    simp (disch := decide) only [QPU_GET_FIELD_or, QPU_GET_FIELD_ite, QPU_GET_FIELD_zero,
      QPU_GET_SET_same, QPU_GET_SET_other, QPU_GET_FIELD_bit_other, Nat.zero_or,
      Nat.or_zero, ite_self, QPU_GET_FIELD_mask_bit]
    exact QPU_GET_FIELD_mod W 23 18
  · have key : ∀ X, X / 2 ^ 12 % 2 ^ 6 = QPU_GET_FIELD X 12 (QPU_MASK 17 12) :=
      fun X => (QPU_GET_FIELD_eq X 17 12).symm
    rw [key, key]
    unfold alu71_word
    simp only [V3D_QPU_SIG_SHIFT, V3D_QPU_SIG_MASK, V3D_QPU_RADDR_A_SHIFT,
      V3D_QPU_RADDR_A_MASK, V3D_QPU_RADDR_B_SHIFT, V3D_QPU_RADDR_B_MASK,
      V3D_QPU_RADDR_C_SHIFT, V3D_QPU_RADDR_C_MASK, V3D_QPU_RADDR_D_SHIFT, V3D_QPU_RADDR_D_MASK,
      V3D_QPU_OP_ADD_SHIFT, V3D_QPU_OP_ADD_MASK, V3D_QPU_WADDR_A_SHIFT,
      V3D_QPU_WADDR_A_MASK, V3D_QPU_OP_MUL_SHIFT, V3D_QPU_OP_MUL_MASK, V3D_QPU_WADDR_M_SHIFT,
      V3D_QPU_WADDR_M_MASK, V3D_QPU_COND_SHIFT, V3D_QPU_COND_MASK, V3D_QPU_MA, V3D_QPU_MM]
    simp (disch := decide) only [QPU_GET_FIELD_or, QPU_GET_FIELD_ite, QPU_GET_FIELD_zero,
      QPU_GET_SET_same, QPU_GET_SET_other, QPU_GET_FIELD_bit_other, Nat.zero_or,
      Nat.or_zero, ite_self, QPU_GET_FIELD_mask_bit]
    exact QPU_GET_FIELD_mod W 17 12
  · have key : ∀ X, X / 2 ^ 6 % 2 ^ 6 = QPU_GET_FIELD X 6 (QPU_MASK 11 6) :=
      fun X => (QPU_GET_FIELD_eq X 11 6).symm
    rw [key, key]
    unfold alu71_word
    simp only [V3D_QPU_SIG_SHIFT, V3D_QPU_SIG_MASK, V3D_QPU_RADDR_A_SHIFT,
      V3D_QPU_RADDR_A_MASK, V3D_QPU_RADDR_B_SHIFT, V3D_QPU_RADDR_B_MASK,
      V3D_QPU_RADDR_C_SHIFT, V3D_QPU_RADDR_C_MASK, V3D_QPU_RADDR_D_SHIFT, V3D_QPU_RADDR_D_MASK,
      V3D_QPU_OP_ADD_SHIFT, V3D_QPU_OP_ADD_MASK, V3D_QPU_WADDR_A_SHIFT,
      V3D_QPU_WADDR_A_MASK, V3D_QPU_OP_MUL_SHIFT, V3D_QPU_OP_MUL_MASK, V3D_QPU_WADDR_M_SHIFT,
      V3D_QPU_WADDR_M_MASK, V3D_QPU_COND_SHIFT, V3D_QPU_COND_MASK, V3D_QPU_MA, V3D_QPU_MM]
    simp (disch := decide) only [QPU_GET_FIELD_or, QPU_GET_FIELD_ite, QPU_GET_FIELD_zero,
      QPU_GET_SET_same, QPU_GET_SET_other, QPU_GET_FIELD_bit_other, Nat.zero_or,
      Nat.or_zero, ite_self, QPU_GET_FIELD_mask_bit]
    exact QPU_GET_FIELD_mod W 11 6
  · have key : ∀ X, X / 2 ^ 0 % 2 ^ 6 = QPU_GET_FIELD X 0 (QPU_MASK 5 0) :=
      fun X => (QPU_GET_FIELD_eq X 5 0).symm
    rw [key, key]
    unfold alu71_word
    simp only [V3D_QPU_SIG_SHIFT, V3D_QPU_SIG_MASK, V3D_QPU_RADDR_A_SHIFT,
      V3D_QPU_RADDR_A_MASK, V3D_QPU_RADDR_B_SHIFT, V3D_QPU_RADDR_B_MASK,
      V3D_QPU_RADDR_C_SHIFT, V3D_QPU_RADDR_C_MASK, V3D_QPU_RADDR_D_SHIFT, V3D_QPU_RADDR_D_MASK,
      V3D_QPU_OP_ADD_SHIFT, V3D_QPU_OP_ADD_MASK, V3D_QPU_WADDR_A_SHIFT,
      V3D_QPU_WADDR_A_MASK, V3D_QPU_OP_MUL_SHIFT, V3D_QPU_OP_MUL_MASK, V3D_QPU_WADDR_M_SHIFT,
      V3D_QPU_WADDR_M_MASK, V3D_QPU_COND_SHIFT, V3D_QPU_COND_MASK, V3D_QPU_MA, V3D_QPU_MM]
    simp (disch := decide) only [QPU_GET_FIELD_or, QPU_GET_FIELD_ite, QPU_GET_FIELD_zero,
      QPU_GET_SET_same, QPU_GET_SET_other, QPU_GET_FIELD_bit_other, Nat.zero_or,
      Nat.or_zero, ite_self, QPU_GET_FIELD_mask_bit]
    exact QPU_GET_FIELD_mod W 5 0

/-- What a successful `v3d71_qpu_add_unpack` stored into `alu.add`. -/
theorem v3d71_qpu_add_unpack_some (devinfo : v3d_device_info) (w : Nat) (i r : v3d_qpu_instr)
    (h : v3d71_qpu_add_unpack devinfo w i = some r) :
    ∃ f, v3d71_qpu_add_unpack_core devinfo
        (QPU_GET_FIELD w V3D_QPU_OP_ADD_SHIFT V3D_QPU_OP_ADD_MASK)
        (QPU_GET_FIELD w V3D_QPU_RADDR_A_SHIFT V3D_QPU_RADDR_A_MASK)
        (QPU_GET_FIELD w V3D_QPU_RADDR_B_SHIFT V3D_QPU_RADDR_B_MASK)
        (QPU_GET_FIELD w V3D_QPU_WADDR_A_SHIFT V3D_QPU_WADDR_A_MASK)
        (w &&& V3D_QPU_MA != 0) i.sig.small_imm_a i.sig.small_imm_b = some f ∧
      r.alu.add = f.store (QPU_GET_FIELD w V3D_QPU_RADDR_A_SHIFT V3D_QPU_RADDR_A_MASK)
        (QPU_GET_FIELD w V3D_QPU_RADDR_B_SHIFT V3D_QPU_RADDR_B_MASK)
        (QPU_GET_FIELD w V3D_QPU_WADDR_A_SHIFT V3D_QPU_WADDR_A_MASK) i.alu.add := by
  unfold v3d71_qpu_add_unpack at h
  dsimp only at h
  split at h
  · exact Option.noConfusion h
  · rename_i f hf
    cases h
    exact ⟨f, hf, rfl⟩

/-- What a successful `v3d71_qpu_mul_unpack` stored into `alu.mul`. -/
theorem v3d71_qpu_mul_unpack_some (devinfo : v3d_device_info) (w : Nat) (i r : v3d_qpu_instr)
    (h : v3d71_qpu_mul_unpack devinfo w i = some r) :
    ∃ f, v3d71_qpu_mul_unpack_core devinfo
        (QPU_GET_FIELD w V3D_QPU_OP_MUL_SHIFT V3D_QPU_OP_MUL_MASK)
        (QPU_GET_FIELD w V3D_QPU_RADDR_D_SHIFT V3D_QPU_RADDR_D_MASK)
        (w &&& V3D_QPU_MM != 0) = some f ∧
      r.alu.mul = f.store (QPU_GET_FIELD w V3D_QPU_RADDR_C_SHIFT V3D_QPU_RADDR_C_MASK)
        (QPU_GET_FIELD w V3D_QPU_RADDR_D_SHIFT V3D_QPU_RADDR_D_MASK)
        (QPU_GET_FIELD w V3D_QPU_WADDR_M_SHIFT V3D_QPU_WADDR_M_MASK) i.alu.mul := by
  unfold v3d71_qpu_mul_unpack at h
  dsimp only at h
  split at h
  · exact Option.noConfusion h
  · rename_i f hf
    cases h
    exact ⟨f, hf, rfl⟩

/-- The record `v3d_qpu_instr_unpack_alu` returns from V3D 7.1 on, member by
member. -/
theorem v3d_qpu_instr_unpack_alu_fields71 (devinfo : v3d_device_info) (hv : ¬ devinfo.ver < 71)
    (W : Nat) (i0 R : v3d_qpu_instr)
    (hu : v3d_qpu_instr_unpack_alu devinfo W i0 = some R) :
    ∃ sig fa fm,
      v3d_qpu_sig_unpack devinfo (QPU_GET_FIELD W V3D_QPU_SIG_SHIFT V3D_QPU_SIG_MASK) = some sig ∧
      v3d71_qpu_add_unpack_core devinfo
        (QPU_GET_FIELD W V3D_QPU_OP_ADD_SHIFT V3D_QPU_OP_ADD_MASK)
        (QPU_GET_FIELD W V3D_QPU_RADDR_A_SHIFT V3D_QPU_RADDR_A_MASK)
        (QPU_GET_FIELD W V3D_QPU_RADDR_B_SHIFT V3D_QPU_RADDR_B_MASK)
        (QPU_GET_FIELD W V3D_QPU_WADDR_A_SHIFT V3D_QPU_WADDR_A_MASK)
        (W &&& V3D_QPU_MA != 0) sig.small_imm_a sig.small_imm_b = some fa ∧
      v3d71_qpu_mul_unpack_core devinfo
        (QPU_GET_FIELD W V3D_QPU_OP_MUL_SHIFT V3D_QPU_OP_MUL_MASK)
        (QPU_GET_FIELD W V3D_QPU_RADDR_D_SHIFT V3D_QPU_RADDR_D_MASK)
        (W &&& V3D_QPU_MM != 0) = some fm ∧
      R.type = V3D_QPU_INSTR_TYPE_ALU ∧ R.sig = sig ∧
      R.alu.add = fa.store (QPU_GET_FIELD W V3D_QPU_RADDR_A_SHIFT V3D_QPU_RADDR_A_MASK)
        (QPU_GET_FIELD W V3D_QPU_RADDR_B_SHIFT V3D_QPU_RADDR_B_MASK)
        (QPU_GET_FIELD W V3D_QPU_WADDR_A_SHIFT V3D_QPU_WADDR_A_MASK) i0.alu.add ∧
      R.alu.mul = fm.store (QPU_GET_FIELD W V3D_QPU_RADDR_C_SHIFT V3D_QPU_RADDR_C_MASK)
        (QPU_GET_FIELD W V3D_QPU_RADDR_D_SHIFT V3D_QPU_RADDR_D_MASK)
        (QPU_GET_FIELD W V3D_QPU_WADDR_M_SHIFT V3D_QPU_WADDR_M_MASK) i0.alu.mul ∧
      (if v3d_qpu_sig_writes_address devinfo sig then
        R.sig_addr = (QPU_GET_FIELD W V3D_QPU_COND_SHIFT V3D_QPU_COND_MASK &&&
            u32_not V3D_QPU_COND_SIG_MAGIC_ADDR) % 256 ∧
        R.sig_magic = v3d_bool_of_int (QPU_GET_FIELD W V3D_QPU_COND_SHIFT V3D_QPU_COND_MASK &&&
            V3D_QPU_COND_SIG_MAGIC_ADDR) ∧
        R.flags = { ac := V3D_QPU_COND_NONE, mc := V3D_QPU_COND_NONE,
                    apf := V3D_QPU_PF_NONE, mpf := V3D_QPU_PF_NONE,
                    auf := V3D_QPU_UF_NONE, muf := V3D_QPU_UF_NONE }
       else
        v3d_qpu_flags_unpack (QPU_GET_FIELD W V3D_QPU_COND_SHIFT V3D_QPU_COND_MASK) =
          some R.flags) := by
  obtain ⟨sig, i1, i2, hs, h0, hadd, hmul⟩ := v3d_qpu_instr_unpack_alu_some devinfo W i0 R hu
  obtain ⟨m1, m2, m3, m4, m5, m6, m7, m8, -⟩ := v3d_qpu_mul_unpack_frame devinfo W i2 R hmul
  obtain ⟨a1, a2, a3, a4, a5, a6, a7, a8, -⟩ := v3d_qpu_add_unpack_frame devinfo W _ i2 hadd
  unfold v3d_qpu_add_unpack at hadd
  rw [if_neg hv] at hadd
  unfold v3d_qpu_mul_unpack at hmul
  rw [if_neg hv] at hmul
  obtain ⟨fa, hfa, hRa⟩ := v3d71_qpu_add_unpack_some devinfo W _ i2 hadd
  obtain ⟨fm, hfm, hRm⟩ := v3d71_qpu_mul_unpack_some devinfo W i2 R hmul
  have hi1 : i1.sig = sig ∧ i1.type = V3D_QPU_INSTR_TYPE_ALU ∧ i1.alu = i0.alu := by
    by_cases hw : v3d_qpu_sig_writes_address devinfo sig = true
    · rw [if_pos hw] at h0
      subst h0
      exact ⟨rfl, rfl, rfl⟩
    · rw [if_neg hw] at h0
      obtain ⟨flags, hf, h0⟩ := h0
      subst h0
      exact ⟨rfl, rfl, rfl⟩
  have hsg : (if devinfo.ver ≤ 71 then
          { i1 with
            raddr_a := QPU_GET_FIELD W V3D_QPU_RADDR_A_SHIFT V3D_QPU_RADDR_A_MASK,
            raddr_b := QPU_GET_FIELD W V3D_QPU_RADDR_B_SHIFT V3D_QPU_RADDR_B_MASK }
         else i1).sig = sig := by
    split_ifs
    · exact hi1.1
    · exact hi1.1
  have hal : (if devinfo.ver ≤ 71 then
          { i1 with
            raddr_a := QPU_GET_FIELD W V3D_QPU_RADDR_A_SHIFT V3D_QPU_RADDR_A_MASK,
            raddr_b := QPU_GET_FIELD W V3D_QPU_RADDR_B_SHIFT V3D_QPU_RADDR_B_MASK }
         else i1).alu = i0.alu := by
    split_ifs
    · exact hi1.2.2
    · exact hi1.2.2
  have hty : (if devinfo.ver ≤ 71 then
          { i1 with
            raddr_a := QPU_GET_FIELD W V3D_QPU_RADDR_A_SHIFT V3D_QPU_RADDR_A_MASK,
            raddr_b := QPU_GET_FIELD W V3D_QPU_RADDR_B_SHIFT V3D_QPU_RADDR_B_MASK }
         else i1).type = V3D_QPU_INSTR_TYPE_ALU := by
    split_ifs
    · exact hi1.2.1
    · exact hi1.2.1
  have hfl : ∀ x : v3d_qpu_instr, (x = (if devinfo.ver ≤ 71 then
          { i1 with
            raddr_a := QPU_GET_FIELD W V3D_QPU_RADDR_A_SHIFT V3D_QPU_RADDR_A_MASK,
            raddr_b := QPU_GET_FIELD W V3D_QPU_RADDR_B_SHIFT V3D_QPU_RADDR_B_MASK }
         else i1)) → x.sig_addr = i1.sig_addr ∧ x.sig_magic = i1.sig_magic ∧
           x.flags = i1.flags := by
    intro x hx
    subst hx
    split_ifs
    · exact ⟨rfl, rfl, rfl⟩
    · exact ⟨rfl, rfl, rfl⟩
  obtain ⟨g1, g2, g3⟩ := hfl _ rfl
  rw [hsg] at hfa
  rw [hal] at hRa
  refine ⟨sig, fa, fm, hs, hfa, hfm, ?_⟩
  rw [m1, m2, m3, m4, m7, m8, hRm, a1, a2, a3, a4, a7, a8, hRa, hty, hsg, g1, g2, g3]
  refine ⟨rfl, rfl, rfl, ?_, ?_⟩
  · rw [hal]
  · by_cases hw : v3d_qpu_sig_writes_address devinfo sig = true
    · rw [if_pos hw] at h0 ⊢
      subst h0
      exact ⟨rfl, rfl, rfl⟩
    · rw [if_neg hw] at h0 ⊢
      obtain ⟨flags, hf, h0⟩ := h0
      subst h0
      exact hf

/-- Round trip of an ALU word on V3D 7.1: when the ALU decoder succeeds on a
64-bit word whose ADD opcode and `raddr_b` are canonical and which does not set
`MA` on a VPM load or store, the ALU encoder rebuilds the word from the decoded
record. -/
theorem v3d_qpu_instr_unpack_alu_pack71 (devinfo : v3d_device_info)
    (hver : devinfo.ver = 71)
    (W : Nat) (hW : W < 2 ^ 64) (i0 R : v3d_qpu_instr)
    (hc : add71_canonical (QPU_GET_FIELD W V3D_QPU_OP_ADD_SHIFT V3D_QPU_OP_ADD_MASK)
      (QPU_GET_FIELD W V3D_QPU_RADDR_B_SHIFT V3D_QPU_RADDR_B_MASK) = true)
    (hma : (W &&& V3D_QPU_MA != 0) = true →
      add71_ma_forbidden (QPU_GET_FIELD W V3D_QPU_OP_ADD_SHIFT V3D_QPU_OP_ADD_MASK)
        (QPU_GET_FIELD W V3D_QPU_RADDR_B_SHIFT V3D_QPU_RADDR_B_MASK) = false)
    (hu : v3d_qpu_instr_unpack_alu devinfo W i0 = some R) :
    v3d_qpu_instr_pack_alu devinfo R 0 = some W := by
  have hv : ¬ devinfo.ver < 71 := by omega
  obtain ⟨sig, fa, fm, hs, hfa, hfm, hty, hRsig, hadd, hmul, hfl⟩ :=
    v3d_qpu_instr_unpack_alu_fields71 devinfo hv W i0 R hu
  have hsp : v3d_qpu_sig_pack devinfo sig =
      some (QPU_GET_FIELD W V3D_QPU_SIG_SHIFT V3D_QPU_SIG_MASK) := by
    have := v3d_qpu_sig_pack_unpack_lt devinfo (by omega) _ (QPU_GET_FIELD_lt W 57 53) sig hs
    rw [this, if_neg (by omega)]
  obtain ⟨hpa, hpw⟩ := v3d71_qpu_add_unpack_pack_core devinfo hv _
    (QPU_GET_FIELD W V3D_QPU_RADDR_A_SHIFT V3D_QPU_RADDR_A_MASK) _ _ _ i0.alu.add sig fa
    (QPU_GET_FIELD_lt W 31 24) (QPU_GET_FIELD_lt W 5 0) hc hma hfa
  obtain ⟨hpm, hmw, hmm⟩ := v3d71_qpu_mul_unpack_pack_core devinfo hv _
    (QPU_GET_FIELD W V3D_QPU_RADDR_C_SHIFT V3D_QPU_RADDR_C_MASK) _
    (QPU_GET_FIELD W V3D_QPU_WADDR_M_SHIFT V3D_QPU_WADDR_M_MASK) _ i0.alu.mul fm
    (QPU_GET_FIELD_lt W 63 58) (QPU_GET_FIELD_lt W 17 12) hfm
  rw [← hadd, ← hRsig] at hpa
  rw [← hadd] at hpw
  rw [← hmul] at hpm hmw hmm
  have hflags : (if v3d_qpu_sig_writes_address devinfo R.sig = true then
      if R.flags.ac ≠ V3D_QPU_COND_NONE ∨ R.flags.mc ≠ V3D_QPU_COND_NONE ∨
         R.flags.apf ≠ V3D_QPU_PF_NONE ∨ R.flags.mpf ≠ V3D_QPU_PF_NONE ∨
         R.flags.auf ≠ V3D_QPU_UF_NONE ∨ R.flags.muf ≠ V3D_QPU_UF_NONE then none
      else
        some (if R.sig_magic = true then R.sig_addr ||| V3D_QPU_COND_SIG_MAGIC_ADDR
          else R.sig_addr)
    else v3d_qpu_flags_pack R.flags) =
      some (QPU_GET_FIELD W V3D_QPU_COND_SHIFT V3D_QPU_COND_MASK) := by
    rw [hRsig]
    have hc128 := QPU_GET_FIELD_lt W 52 46
    by_cases hw : v3d_qpu_sig_writes_address devinfo sig = true
    · rw [if_pos hw] at hfl ⊢
      obtain ⟨f1, f2, f3⟩ := hfl
      rw [f3, f1, f2]
      rw [if_neg (by decide)]
      exact congrArg some (sig_addr_cond_encode _ hc128)
    · rw [if_neg hw] at hfl ⊢
      obtain ⟨_, hx⟩ := v3d_qpu_flags_unpack_pack _ hc128
      by_cases h16 : QPU_GET_FIELD W V3D_QPU_COND_SHIFT V3D_QPU_COND_MASK = 0x10
      · rw [h16, (show v3d_qpu_flags_unpack 16 = none by decide)] at hfl
        exact Option.noConfusion hfl
      · obtain ⟨cond, hc1, hc2⟩ := hx h16
        rw [hc1] at hfl
        cases hfl
        exact hc2
  unfold v3d_qpu_instr_pack_alu
  rw [hRsig, hsp]
  dsimp only
  rw [if_pos hty, if_neg hv]
  unfold v3d_qpu_add_pack
  rw [if_neg hv]
  unfold v3d71_qpu_add_pack
  rw [hpa]
  dsimp only
  rw [hpw]
  dsimp only
  unfold v3d_qpu_mul_pack
  rw [if_neg hv]
  unfold v3d71_qpu_mul_pack
  rw [hpm]
  dsimp only
  rw [hmw, hmm]
  rw [← hRsig, hflags]
  exact congrArg some (alu71_word_eq W hW)

/-- Round trip of a canonical word at the five versions: the encoder rebuilds
every canonical 64-bit word the decoder accepts from the decoded record,
whatever the record held before the decoder ran. -/
theorem v3d_qpu_instr_unpack_pack_of_canonical (devinfo : v3d_device_info)
    (hver : devinfo.ver = 33 ∨ devinfo.ver = 40 ∨ devinfo.ver = 41 ∨ devinfo.ver = 42 ∨
      devinfo.ver = 71)
    (W : Nat) (hW : W < 2 ^ 64) (i0 R : v3d_qpu_instr)
    (hc : v3d_qpu_word_canonical devinfo W = true)
    (hu : v3d_qpu_instr_unpack devinfo W i0 = some R) :
    v3d_qpu_instr_pack devinfo R = some W := by
  unfold v3d_qpu_instr_unpack at hu
  unfold v3d_qpu_word_canonical at hc
  unfold v3d_qpu_instr_pack
  dsimp only
  by_cases hm : QPU_GET_FIELD W V3D_QPU_OP_MUL_SHIFT V3D_QPU_OP_MUL_MASK ≠ 0
  · rw [if_pos hm] at hu hc
    rw [if_pos (v3d_qpu_instr_unpack_alu_type devinfo W i0 R hu)]
    by_cases hv : devinfo.ver < 71
    · rw [if_pos hv] at hc
      simp only [Bool.and_eq_true, Bool.not_eq_true', Bool.and_eq_false_iff, beq_eq_false_iff_ne,
        ne_eq, beq_iff_eq] at hc
      obtain ⟨⟨h1, h2⟩, h3⟩ := hc
      refine v3d_qpu_instr_unpack_alu_pack33 devinfo (by omega) W hW i0 R ?_ h2 ?_ hu
      · rintro ⟨e1, e2⟩
        rcases h1 with h | h
        · exact h e1
        · exact h e2
      · intro e
        rcases h3 with h | h
        · exact absurd e h
        · exact h
    · rw [if_neg hv] at hc
      simp only [Bool.and_eq_true, Bool.not_eq_true', Bool.and_eq_false_iff] at hc
      obtain ⟨h1, h2⟩ := hc
      refine v3d_qpu_instr_unpack_alu_pack71 devinfo (by omega) W hW i0 R h1 ?_ hu
      intro e
      rcases h2 with h | h
      · rw [e] at h; exact absurd h (by decide)
      · exact h
  · rw [if_neg hm] at hu hc
    have hm0 : QPU_GET_FIELD W V3D_QPU_OP_MUL_SHIFT V3D_QPU_OP_MUL_MASK = 0 := not_not.mp hm
    dsimp only at hu
    by_cases hs : QPU_GET_FIELD W V3D_QPU_SIG_SHIFT V3D_QPU_SIG_MASK &&& 24 = 16
    · rw [if_pos hs] at hu
      have hty := v3d_qpu_instr_unpack_branch_type W i0 R hu
      rw [if_neg (by rw [hty]; decide), if_pos hty]
      exact v3d_qpu_instr_unpack_branch_pack W hW i0 R hm0 hs hc hu
    · rw [if_neg hs] at hu
      exact Option.noConfusion hu

theorem QPU_MASK_bit_ne_zero (w k : Nat) :
    (w &&& QPU_MASK k k != 0) = decide (QPU_GET_FIELD w k (QPU_MASK k k) = 1) := by
  have h := QPU_bit_eq w k
  have hg : QPU_GET_FIELD w k (QPU_MASK k k) = w / 2 ^ k % 2 ^ 1 := by
    have := QPU_GET_FIELD_eq w k k
    rw [Nat.sub_self, Nat.zero_add] at this
    exact this
  rw [← hg] at h
  cases hb : (w &&& QPU_MASK k k != 0)
  · rw [hb] at h
    simp only [Bool.false_eq_true, if_false] at h
    rw [← h]
    rfl
  · rw [hb] at h
    simp only [if_true] at h
    rw [← h]
    rfl

/-- The fields of the word built below V3D 7.1. -/
theorem alu33_word_fields (sig raddr_a raddr_b add_a add_b op_add waddr_a : Nat) (ma : Bool)
    (mul_a mul_b op_mul waddr_m : Nat) (mm : Bool) (cond : Nat) :
    QPU_GET_FIELD (alu33_word sig raddr_a raddr_b add_a add_b op_add waddr_a ma mul_a mul_b op_mul waddr_m mm cond) V3D_QPU_OP_MUL_SHIFT V3D_QPU_OP_MUL_MASK =
      op_mul % 2 ^ 6 ∧
    QPU_GET_FIELD (alu33_word sig raddr_a raddr_b add_a add_b op_add waddr_a ma mul_a mul_b op_mul waddr_m mm cond) V3D_QPU_SIG_SHIFT V3D_QPU_SIG_MASK =
      sig % 2 ^ 5 ∧
    QPU_GET_FIELD (alu33_word sig raddr_a raddr_b add_a add_b op_add waddr_a ma mul_a mul_b op_mul waddr_m mm cond) V3D_QPU_COND_SHIFT V3D_QPU_COND_MASK =
      cond % 2 ^ 7 ∧
    QPU_GET_FIELD (alu33_word sig raddr_a raddr_b add_a add_b op_add waddr_a ma mul_a mul_b op_mul waddr_m mm cond) V3D_QPU_WADDR_M_SHIFT V3D_QPU_WADDR_M_MASK =
      waddr_m % 2 ^ 6 ∧
    QPU_GET_FIELD (alu33_word sig raddr_a raddr_b add_a add_b op_add waddr_a ma mul_a mul_b op_mul waddr_m mm cond) V3D_QPU_WADDR_A_SHIFT V3D_QPU_WADDR_A_MASK =
      waddr_a % 2 ^ 6 ∧
    QPU_GET_FIELD (alu33_word sig raddr_a raddr_b add_a add_b op_add waddr_a ma mul_a mul_b op_mul waddr_m mm cond) V3D_QPU_OP_ADD_SHIFT V3D_QPU_OP_ADD_MASK =
      op_add % 2 ^ 8 ∧
    QPU_GET_FIELD (alu33_word sig raddr_a raddr_b add_a add_b op_add waddr_a ma mul_a mul_b op_mul waddr_m mm cond) V3D_QPU_MUL_B_SHIFT V3D_QPU_MUL_B_MASK =
      mul_b % 2 ^ 3 ∧
    QPU_GET_FIELD (alu33_word sig raddr_a raddr_b add_a add_b op_add waddr_a ma mul_a mul_b op_mul waddr_m mm cond) V3D_QPU_MUL_A_SHIFT V3D_QPU_MUL_A_MASK =
      mul_a % 2 ^ 3 ∧
    QPU_GET_FIELD (alu33_word sig raddr_a raddr_b add_a add_b op_add waddr_a ma mul_a mul_b op_mul waddr_m mm cond) V3D_QPU_ADD_B_SHIFT V3D_QPU_ADD_B_MASK =
      add_b % 2 ^ 3 ∧
    QPU_GET_FIELD (alu33_word sig raddr_a raddr_b add_a add_b op_add waddr_a ma mul_a mul_b op_mul waddr_m mm cond) V3D_QPU_ADD_A_SHIFT V3D_QPU_ADD_A_MASK =
      add_a % 2 ^ 3 ∧
    QPU_GET_FIELD (alu33_word sig raddr_a raddr_b add_a add_b op_add waddr_a ma mul_a mul_b op_mul waddr_m mm cond) V3D_QPU_RADDR_A_SHIFT V3D_QPU_RADDR_A_MASK =
      raddr_a % 2 ^ 6 ∧
    QPU_GET_FIELD (alu33_word sig raddr_a raddr_b add_a add_b op_add waddr_a ma mul_a mul_b op_mul waddr_m mm cond) V3D_QPU_RADDR_B_SHIFT V3D_QPU_RADDR_B_MASK =
      raddr_b % 2 ^ 6 ∧
    (alu33_word sig raddr_a raddr_b add_a add_b op_add waddr_a ma mul_a mul_b op_mul waddr_m mm cond &&& V3D_QPU_MA != 0) = ma ∧
    (alu33_word sig raddr_a raddr_b add_a add_b op_add waddr_a ma mul_a mul_b op_mul waddr_m mm cond &&& V3D_QPU_MM != 0) = mm := by
  have hbit : ∀ (b : Bool), decide ((if b = true then 1 else 0) = 1) = b := by
    intro b; cases b <;> rfl
  refine ⟨?_, ?_, ?_, ?_, ?_, ?_, ?_, ?_, ?_, ?_, ?_, ?_, ?_, ?_⟩
  · unfold alu33_word
    simp only [V3D_QPU_SIG_SHIFT, V3D_QPU_SIG_MASK, V3D_QPU_RADDR_A_SHIFT,
      V3D_QPU_RADDR_A_MASK, V3D_QPU_RADDR_B_SHIFT, V3D_QPU_RADDR_B_MASK,
      V3D_QPU_ADD_A_SHIFT, V3D_QPU_ADD_A_MASK, V3D_QPU_ADD_B_SHIFT, V3D_QPU_ADD_B_MASK,
      V3D_QPU_OP_ADD_SHIFT, V3D_QPU_OP_ADD_MASK, V3D_QPU_WADDR_A_SHIFT,
      V3D_QPU_WADDR_A_MASK, V3D_QPU_MUL_A_SHIFT, V3D_QPU_MUL_A_MASK, V3D_QPU_MUL_B_SHIFT,
      V3D_QPU_MUL_B_MASK, V3D_QPU_OP_MUL_SHIFT, V3D_QPU_OP_MUL_MASK, V3D_QPU_WADDR_M_SHIFT,
      V3D_QPU_WADDR_M_MASK, V3D_QPU_COND_SHIFT, V3D_QPU_COND_MASK, V3D_QPU_MA, V3D_QPU_MM]
    simp (disch := decide) only [QPU_GET_FIELD_or, QPU_GET_FIELD_ite, QPU_GET_FIELD_zero,
      QPU_GET_SET_same, QPU_GET_SET_other, QPU_GET_FIELD_bit_other, Nat.zero_or,
      Nat.or_zero, ite_self, QPU_GET_FIELD_mask_bit]
  · unfold alu33_word
    simp only [V3D_QPU_SIG_SHIFT, V3D_QPU_SIG_MASK, V3D_QPU_RADDR_A_SHIFT,
      V3D_QPU_RADDR_A_MASK, V3D_QPU_RADDR_B_SHIFT, V3D_QPU_RADDR_B_MASK,
      V3D_QPU_ADD_A_SHIFT, V3D_QPU_ADD_A_MASK, V3D_QPU_ADD_B_SHIFT, V3D_QPU_ADD_B_MASK,
      V3D_QPU_OP_ADD_SHIFT, V3D_QPU_OP_ADD_MASK, V3D_QPU_WADDR_A_SHIFT,
      V3D_QPU_WADDR_A_MASK, V3D_QPU_MUL_A_SHIFT, V3D_QPU_MUL_A_MASK, V3D_QPU_MUL_B_SHIFT,
      V3D_QPU_MUL_B_MASK, V3D_QPU_OP_MUL_SHIFT, V3D_QPU_OP_MUL_MASK, V3D_QPU_WADDR_M_SHIFT,
      V3D_QPU_WADDR_M_MASK, V3D_QPU_COND_SHIFT, V3D_QPU_COND_MASK, V3D_QPU_MA, V3D_QPU_MM]
    simp (disch := decide) only [QPU_GET_FIELD_or, QPU_GET_FIELD_ite, QPU_GET_FIELD_zero,
      QPU_GET_SET_same, QPU_GET_SET_other, QPU_GET_FIELD_bit_other, Nat.zero_or,
      Nat.or_zero, ite_self, QPU_GET_FIELD_mask_bit]
  · unfold alu33_word
    simp only [V3D_QPU_SIG_SHIFT, V3D_QPU_SIG_MASK, V3D_QPU_RADDR_A_SHIFT,
      V3D_QPU_RADDR_A_MASK, V3D_QPU_RADDR_B_SHIFT, V3D_QPU_RADDR_B_MASK,
      V3D_QPU_ADD_A_SHIFT, V3D_QPU_ADD_A_MASK, V3D_QPU_ADD_B_SHIFT, V3D_QPU_ADD_B_MASK,
      V3D_QPU_OP_ADD_SHIFT, V3D_QPU_OP_ADD_MASK, V3D_QPU_WADDR_A_SHIFT,
      V3D_QPU_WADDR_A_MASK, V3D_QPU_MUL_A_SHIFT, V3D_QPU_MUL_A_MASK, V3D_QPU_MUL_B_SHIFT,
      V3D_QPU_MUL_B_MASK, V3D_QPU_OP_MUL_SHIFT, V3D_QPU_OP_MUL_MASK, V3D_QPU_WADDR_M_SHIFT,
      V3D_QPU_WADDR_M_MASK, V3D_QPU_COND_SHIFT, V3D_QPU_COND_MASK, V3D_QPU_MA, V3D_QPU_MM]
    simp (disch := decide) only [QPU_GET_FIELD_or, QPU_GET_FIELD_ite, QPU_GET_FIELD_zero,
      QPU_GET_SET_same, QPU_GET_SET_other, QPU_GET_FIELD_bit_other, Nat.zero_or,
      Nat.or_zero, ite_self, QPU_GET_FIELD_mask_bit]
  · unfold alu33_word
    simp only [V3D_QPU_SIG_SHIFT, V3D_QPU_SIG_MASK, V3D_QPU_RADDR_A_SHIFT,
      V3D_QPU_RADDR_A_MASK, V3D_QPU_RADDR_B_SHIFT, V3D_QPU_RADDR_B_MASK,
      V3D_QPU_ADD_A_SHIFT, V3D_QPU_ADD_A_MASK, V3D_QPU_ADD_B_SHIFT, V3D_QPU_ADD_B_MASK,
      V3D_QPU_OP_ADD_SHIFT, V3D_QPU_OP_ADD_MASK, V3D_QPU_WADDR_A_SHIFT,
      V3D_QPU_WADDR_A_MASK, V3D_QPU_MUL_A_SHIFT, V3D_QPU_MUL_A_MASK, V3D_QPU_MUL_B_SHIFT,
      V3D_QPU_MUL_B_MASK, V3D_QPU_OP_MUL_SHIFT, V3D_QPU_OP_MUL_MASK, V3D_QPU_WADDR_M_SHIFT,
      V3D_QPU_WADDR_M_MASK, V3D_QPU_COND_SHIFT, V3D_QPU_COND_MASK, V3D_QPU_MA, V3D_QPU_MM]
    simp (disch := decide) only [QPU_GET_FIELD_or, QPU_GET_FIELD_ite, QPU_GET_FIELD_zero,
      QPU_GET_SET_same, QPU_GET_SET_other, QPU_GET_FIELD_bit_other, Nat.zero_or,
      Nat.or_zero, ite_self, QPU_GET_FIELD_mask_bit]
  · unfold alu33_word
    simp only [V3D_QPU_SIG_SHIFT, V3D_QPU_SIG_MASK, V3D_QPU_RADDR_A_SHIFT,
      V3D_QPU_RADDR_A_MASK, V3D_QPU_RADDR_B_SHIFT, V3D_QPU_RADDR_B_MASK,
      V3D_QPU_ADD_A_SHIFT, V3D_QPU_ADD_A_MASK, V3D_QPU_ADD_B_SHIFT, V3D_QPU_ADD_B_MASK,
      V3D_QPU_OP_ADD_SHIFT, V3D_QPU_OP_ADD_MASK, V3D_QPU_WADDR_A_SHIFT,
      V3D_QPU_WADDR_A_MASK, V3D_QPU_MUL_A_SHIFT, V3D_QPU_MUL_A_MASK, V3D_QPU_MUL_B_SHIFT,
      V3D_QPU_MUL_B_MASK, V3D_QPU_OP_MUL_SHIFT, V3D_QPU_OP_MUL_MASK, V3D_QPU_WADDR_M_SHIFT,
      V3D_QPU_WADDR_M_MASK, V3D_QPU_COND_SHIFT, V3D_QPU_COND_MASK, V3D_QPU_MA, V3D_QPU_MM]
    simp (disch := decide) only [QPU_GET_FIELD_or, QPU_GET_FIELD_ite, QPU_GET_FIELD_zero,
      QPU_GET_SET_same, QPU_GET_SET_other, QPU_GET_FIELD_bit_other, Nat.zero_or,
      Nat.or_zero, ite_self, QPU_GET_FIELD_mask_bit]
  · unfold alu33_word
    simp only [V3D_QPU_SIG_SHIFT, V3D_QPU_SIG_MASK, V3D_QPU_RADDR_A_SHIFT,
      V3D_QPU_RADDR_A_MASK, V3D_QPU_RADDR_B_SHIFT, V3D_QPU_RADDR_B_MASK,
      V3D_QPU_ADD_A_SHIFT, V3D_QPU_ADD_A_MASK, V3D_QPU_ADD_B_SHIFT, V3D_QPU_ADD_B_MASK,
      V3D_QPU_OP_ADD_SHIFT, V3D_QPU_OP_ADD_MASK, V3D_QPU_WADDR_A_SHIFT,
      V3D_QPU_WADDR_A_MASK, V3D_QPU_MUL_A_SHIFT, V3D_QPU_MUL_A_MASK, V3D_QPU_MUL_B_SHIFT,
      V3D_QPU_MUL_B_MASK, V3D_QPU_OP_MUL_SHIFT, V3D_QPU_OP_MUL_MASK, V3D_QPU_WADDR_M_SHIFT,
      V3D_QPU_WADDR_M_MASK, V3D_QPU_COND_SHIFT, V3D_QPU_COND_MASK, V3D_QPU_MA, V3D_QPU_MM]
    simp (disch := decide) only [QPU_GET_FIELD_or, QPU_GET_FIELD_ite, QPU_GET_FIELD_zero,
      QPU_GET_SET_same, QPU_GET_SET_other, QPU_GET_FIELD_bit_other, Nat.zero_or,
      Nat.or_zero, ite_self, QPU_GET_FIELD_mask_bit]
  · unfold alu33_word
    simp only [V3D_QPU_SIG_SHIFT, V3D_QPU_SIG_MASK, V3D_QPU_RADDR_A_SHIFT,
      V3D_QPU_RADDR_A_MASK, V3D_QPU_RADDR_B_SHIFT, V3D_QPU_RADDR_B_MASK,
      V3D_QPU_ADD_A_SHIFT, V3D_QPU_ADD_A_MASK, V3D_QPU_ADD_B_SHIFT, V3D_QPU_ADD_B_MASK,
      V3D_QPU_OP_ADD_SHIFT, V3D_QPU_OP_ADD_MASK, V3D_QPU_WADDR_A_SHIFT,
      V3D_QPU_WADDR_A_MASK, V3D_QPU_MUL_A_SHIFT, V3D_QPU_MUL_A_MASK, V3D_QPU_MUL_B_SHIFT,
      V3D_QPU_MUL_B_MASK, V3D_QPU_OP_MUL_SHIFT, V3D_QPU_OP_MUL_MASK, V3D_QPU_WADDR_M_SHIFT,
      V3D_QPU_WADDR_M_MASK, V3D_QPU_COND_SHIFT, V3D_QPU_COND_MASK, V3D_QPU_MA, V3D_QPU_MM]
    simp (disch := decide) only [QPU_GET_FIELD_or, QPU_GET_FIELD_ite, QPU_GET_FIELD_zero,
      QPU_GET_SET_same, QPU_GET_SET_other, QPU_GET_FIELD_bit_other, Nat.zero_or,
      Nat.or_zero, ite_self, QPU_GET_FIELD_mask_bit]
  · unfold alu33_word
    simp only [V3D_QPU_SIG_SHIFT, V3D_QPU_SIG_MASK, V3D_QPU_RADDR_A_SHIFT,
      V3D_QPU_RADDR_A_MASK, V3D_QPU_RADDR_B_SHIFT, V3D_QPU_RADDR_B_MASK,
      V3D_QPU_ADD_A_SHIFT, V3D_QPU_ADD_A_MASK, V3D_QPU_ADD_B_SHIFT, V3D_QPU_ADD_B_MASK,
      V3D_QPU_OP_ADD_SHIFT, V3D_QPU_OP_ADD_MASK, V3D_QPU_WADDR_A_SHIFT,
      V3D_QPU_WADDR_A_MASK, V3D_QPU_MUL_A_SHIFT, V3D_QPU_MUL_A_MASK, V3D_QPU_MUL_B_SHIFT,
      V3D_QPU_MUL_B_MASK, V3D_QPU_OP_MUL_SHIFT, V3D_QPU_OP_MUL_MASK, V3D_QPU_WADDR_M_SHIFT,
      V3D_QPU_WADDR_M_MASK, V3D_QPU_COND_SHIFT, V3D_QPU_COND_MASK, V3D_QPU_MA, V3D_QPU_MM]
    simp (disch := decide) only [QPU_GET_FIELD_or, QPU_GET_FIELD_ite, QPU_GET_FIELD_zero,
      QPU_GET_SET_same, QPU_GET_SET_other, QPU_GET_FIELD_bit_other, Nat.zero_or,
      Nat.or_zero, ite_self, QPU_GET_FIELD_mask_bit]
  · unfold alu33_word
    simp only [V3D_QPU_SIG_SHIFT, V3D_QPU_SIG_MASK, V3D_QPU_RADDR_A_SHIFT,
      V3D_QPU_RADDR_A_MASK, V3D_QPU_RADDR_B_SHIFT, V3D_QPU_RADDR_B_MASK,
      V3D_QPU_ADD_A_SHIFT, V3D_QPU_ADD_A_MASK, V3D_QPU_ADD_B_SHIFT, V3D_QPU_ADD_B_MASK,
      V3D_QPU_OP_ADD_SHIFT, V3D_QPU_OP_ADD_MASK, V3D_QPU_WADDR_A_SHIFT,
      V3D_QPU_WADDR_A_MASK, V3D_QPU_MUL_A_SHIFT, V3D_QPU_MUL_A_MASK, V3D_QPU_MUL_B_SHIFT,
      V3D_QPU_MUL_B_MASK, V3D_QPU_OP_MUL_SHIFT, V3D_QPU_OP_MUL_MASK, V3D_QPU_WADDR_M_SHIFT,
      V3D_QPU_WADDR_M_MASK, V3D_QPU_COND_SHIFT, V3D_QPU_COND_MASK, V3D_QPU_MA, V3D_QPU_MM]
    simp (disch := decide) only [QPU_GET_FIELD_or, QPU_GET_FIELD_ite, QPU_GET_FIELD_zero,
      QPU_GET_SET_same, QPU_GET_SET_other, QPU_GET_FIELD_bit_other, Nat.zero_or,
      Nat.or_zero, ite_self, QPU_GET_FIELD_mask_bit]
  · unfold alu33_word
    simp only [V3D_QPU_SIG_SHIFT, V3D_QPU_SIG_MASK, V3D_QPU_RADDR_A_SHIFT,
      V3D_QPU_RADDR_A_MASK, V3D_QPU_RADDR_B_SHIFT, V3D_QPU_RADDR_B_MASK,
      V3D_QPU_ADD_A_SHIFT, V3D_QPU_ADD_A_MASK, V3D_QPU_ADD_B_SHIFT, V3D_QPU_ADD_B_MASK,
      V3D_QPU_OP_ADD_SHIFT, V3D_QPU_OP_ADD_MASK, V3D_QPU_WADDR_A_SHIFT,
      V3D_QPU_WADDR_A_MASK, V3D_QPU_MUL_A_SHIFT, V3D_QPU_MUL_A_MASK, V3D_QPU_MUL_B_SHIFT,
      V3D_QPU_MUL_B_MASK, V3D_QPU_OP_MUL_SHIFT, V3D_QPU_OP_MUL_MASK, V3D_QPU_WADDR_M_SHIFT,
      V3D_QPU_WADDR_M_MASK, V3D_QPU_COND_SHIFT, V3D_QPU_COND_MASK, V3D_QPU_MA, V3D_QPU_MM]
    simp (disch := decide) only [QPU_GET_FIELD_or, QPU_GET_FIELD_ite, QPU_GET_FIELD_zero,
      QPU_GET_SET_same, QPU_GET_SET_other, QPU_GET_FIELD_bit_other, Nat.zero_or,
      Nat.or_zero, ite_self, QPU_GET_FIELD_mask_bit]
  · unfold alu33_word
    simp only [V3D_QPU_SIG_SHIFT, V3D_QPU_SIG_MASK, V3D_QPU_RADDR_A_SHIFT,
      V3D_QPU_RADDR_A_MASK, V3D_QPU_RADDR_B_SHIFT, V3D_QPU_RADDR_B_MASK,
      V3D_QPU_ADD_A_SHIFT, V3D_QPU_ADD_A_MASK, V3D_QPU_ADD_B_SHIFT, V3D_QPU_ADD_B_MASK,
      V3D_QPU_OP_ADD_SHIFT, V3D_QPU_OP_ADD_MASK, V3D_QPU_WADDR_A_SHIFT,
      V3D_QPU_WADDR_A_MASK, V3D_QPU_MUL_A_SHIFT, V3D_QPU_MUL_A_MASK, V3D_QPU_MUL_B_SHIFT,
      V3D_QPU_MUL_B_MASK, V3D_QPU_OP_MUL_SHIFT, V3D_QPU_OP_MUL_MASK, V3D_QPU_WADDR_M_SHIFT,
      V3D_QPU_WADDR_M_MASK, V3D_QPU_COND_SHIFT, V3D_QPU_COND_MASK, V3D_QPU_MA, V3D_QPU_MM]
    simp (disch := decide) only [QPU_GET_FIELD_or, QPU_GET_FIELD_ite, QPU_GET_FIELD_zero,
      QPU_GET_SET_same, QPU_GET_SET_other, QPU_GET_FIELD_bit_other, Nat.zero_or,
      Nat.or_zero, ite_self, QPU_GET_FIELD_mask_bit]
  · unfold alu33_word
    simp only [V3D_QPU_SIG_SHIFT, V3D_QPU_SIG_MASK, V3D_QPU_RADDR_A_SHIFT,
      V3D_QPU_RADDR_A_MASK, V3D_QPU_RADDR_B_SHIFT, V3D_QPU_RADDR_B_MASK,
      V3D_QPU_ADD_A_SHIFT, V3D_QPU_ADD_A_MASK, V3D_QPU_ADD_B_SHIFT, V3D_QPU_ADD_B_MASK,
      V3D_QPU_OP_ADD_SHIFT, V3D_QPU_OP_ADD_MASK, V3D_QPU_WADDR_A_SHIFT,
      V3D_QPU_WADDR_A_MASK, V3D_QPU_MUL_A_SHIFT, V3D_QPU_MUL_A_MASK, V3D_QPU_MUL_B_SHIFT,
      V3D_QPU_MUL_B_MASK, V3D_QPU_OP_MUL_SHIFT, V3D_QPU_OP_MUL_MASK, V3D_QPU_WADDR_M_SHIFT,
      V3D_QPU_WADDR_M_MASK, V3D_QPU_COND_SHIFT, V3D_QPU_COND_MASK, V3D_QPU_MA, V3D_QPU_MM]
    simp (disch := decide) only [QPU_GET_FIELD_or, QPU_GET_FIELD_ite, QPU_GET_FIELD_zero,
      QPU_GET_SET_same, QPU_GET_SET_other, QPU_GET_FIELD_bit_other, Nat.zero_or,
      Nat.or_zero, ite_self, QPU_GET_FIELD_mask_bit]
  · rw [show V3D_QPU_MA = QPU_MASK 44 44 from rfl, QPU_MASK_bit_ne_zero]
    unfold alu33_word
    simp only [V3D_QPU_SIG_SHIFT, V3D_QPU_SIG_MASK, V3D_QPU_RADDR_A_SHIFT,
      V3D_QPU_RADDR_A_MASK, V3D_QPU_RADDR_B_SHIFT, V3D_QPU_RADDR_B_MASK,
      V3D_QPU_ADD_A_SHIFT, V3D_QPU_ADD_A_MASK, V3D_QPU_ADD_B_SHIFT, V3D_QPU_ADD_B_MASK,
      V3D_QPU_OP_ADD_SHIFT, V3D_QPU_OP_ADD_MASK, V3D_QPU_WADDR_A_SHIFT,
      V3D_QPU_WADDR_A_MASK, V3D_QPU_MUL_A_SHIFT, V3D_QPU_MUL_A_MASK, V3D_QPU_MUL_B_SHIFT,
      V3D_QPU_MUL_B_MASK, V3D_QPU_OP_MUL_SHIFT, V3D_QPU_OP_MUL_MASK, V3D_QPU_WADDR_M_SHIFT,
      V3D_QPU_WADDR_M_MASK, V3D_QPU_COND_SHIFT, V3D_QPU_COND_MASK, V3D_QPU_MA, V3D_QPU_MM]
    simp (disch := decide) only [QPU_GET_FIELD_or, QPU_GET_FIELD_ite, QPU_GET_FIELD_zero,
      QPU_GET_SET_same, QPU_GET_SET_other, QPU_GET_FIELD_bit_other, Nat.zero_or,
      Nat.or_zero, ite_self, QPU_GET_FIELD_mask_bit]
    exact hbit _
  · rw [show V3D_QPU_MM = QPU_MASK 45 45 from rfl, QPU_MASK_bit_ne_zero]
    unfold alu33_word
    simp only [V3D_QPU_SIG_SHIFT, V3D_QPU_SIG_MASK, V3D_QPU_RADDR_A_SHIFT,
      V3D_QPU_RADDR_A_MASK, V3D_QPU_RADDR_B_SHIFT, V3D_QPU_RADDR_B_MASK,
      V3D_QPU_ADD_A_SHIFT, V3D_QPU_ADD_A_MASK, V3D_QPU_ADD_B_SHIFT, V3D_QPU_ADD_B_MASK,
      V3D_QPU_OP_ADD_SHIFT, V3D_QPU_OP_ADD_MASK, V3D_QPU_WADDR_A_SHIFT,
      V3D_QPU_WADDR_A_MASK, V3D_QPU_MUL_A_SHIFT, V3D_QPU_MUL_A_MASK, V3D_QPU_MUL_B_SHIFT,
      V3D_QPU_MUL_B_MASK, V3D_QPU_OP_MUL_SHIFT, V3D_QPU_OP_MUL_MASK, V3D_QPU_WADDR_M_SHIFT,
      V3D_QPU_WADDR_M_MASK, V3D_QPU_COND_SHIFT, V3D_QPU_COND_MASK, V3D_QPU_MA, V3D_QPU_MM]
    simp (disch := decide) only [QPU_GET_FIELD_or, QPU_GET_FIELD_ite, QPU_GET_FIELD_zero,
      QPU_GET_SET_same, QPU_GET_SET_other, QPU_GET_FIELD_bit_other, Nat.zero_or,
      Nat.or_zero, ite_self, QPU_GET_FIELD_mask_bit]
    exact hbit _

/-- The word the ALU encoder builds below V3D 7.1 from the record decoded from a
64-bit word with a canonical ADD half: the fields of the word decoded, but for
the signal index 31 of V3D 3.3, which is written as 15. -/
theorem v3d_qpu_instr_unpack_alu_pack33_word (devinfo : v3d_device_info)
    (hver : devinfo.ver = 33 ∨ devinfo.ver = 40 ∨ devinfo.ver = 41 ∨ devinfo.ver = 42)
    (W : Nat) (i0 R : v3d_qpu_instr)
    (hc : add33_canonical (QPU_GET_FIELD W V3D_QPU_OP_ADD_SHIFT V3D_QPU_OP_ADD_MASK)
      (QPU_GET_FIELD W V3D_QPU_ADD_A_SHIFT V3D_QPU_ADD_A_MASK)
      (QPU_GET_FIELD W V3D_QPU_ADD_B_SHIFT V3D_QPU_ADD_B_MASK) = true)
    (hma : QPU_GET_FIELD W V3D_QPU_OP_ADD_SHIFT V3D_QPU_OP_ADD_MASK = 248 →
      (W &&& V3D_QPU_MA != 0) = false)
    (hu : v3d_qpu_instr_unpack_alu devinfo W i0 = some R) :
    v3d_qpu_instr_pack_alu devinfo R 0 = some (alu33_word
      (if devinfo.ver = 33 ∧ QPU_GET_FIELD W V3D_QPU_SIG_SHIFT V3D_QPU_SIG_MASK = 31 then 15
        else QPU_GET_FIELD W V3D_QPU_SIG_SHIFT V3D_QPU_SIG_MASK)
      (QPU_GET_FIELD W V3D_QPU_RADDR_A_SHIFT V3D_QPU_RADDR_A_MASK)
      (QPU_GET_FIELD W V3D_QPU_RADDR_B_SHIFT V3D_QPU_RADDR_B_MASK)
      (QPU_GET_FIELD W V3D_QPU_ADD_A_SHIFT V3D_QPU_ADD_A_MASK)
      (QPU_GET_FIELD W V3D_QPU_ADD_B_SHIFT V3D_QPU_ADD_B_MASK)
      (QPU_GET_FIELD W V3D_QPU_OP_ADD_SHIFT V3D_QPU_OP_ADD_MASK)
      (QPU_GET_FIELD W V3D_QPU_WADDR_A_SHIFT V3D_QPU_WADDR_A_MASK)
      (W &&& V3D_QPU_MA != 0)
      (QPU_GET_FIELD W V3D_QPU_MUL_A_SHIFT V3D_QPU_MUL_A_MASK)
      (QPU_GET_FIELD W V3D_QPU_MUL_B_SHIFT V3D_QPU_MUL_B_MASK)
      (QPU_GET_FIELD W V3D_QPU_OP_MUL_SHIFT V3D_QPU_OP_MUL_MASK)
      (QPU_GET_FIELD W V3D_QPU_WADDR_M_SHIFT V3D_QPU_WADDR_M_MASK)
      (W &&& V3D_QPU_MM != 0)
      (QPU_GET_FIELD W V3D_QPU_COND_SHIFT V3D_QPU_COND_MASK)) := by
  have hv : devinfo.ver < 71 := by omega
  obtain ⟨sig, fa, fm, hs, hfa, hfm, hty, hRsig, hra, hrb, hadd, hmul, hfl⟩ :=
    v3d_qpu_instr_unpack_alu_fields33 devinfo hv W i0 R hu
  have hsp := v3d_qpu_sig_pack_unpack_lt devinfo (by omega) _ (QPU_GET_FIELD_lt W 57 53) sig hs
  obtain ⟨hpa, hpw⟩ := v3d33_qpu_add_unpack_pack_core devinfo hv _ _ _ _ _ i0.alu.add fa
    (QPU_GET_FIELD_lt W 31 24) (QPU_GET_FIELD_lt W 14 12) (QPU_GET_FIELD_lt W 17 15) hc hma hfa
  obtain ⟨hpm, hmw, hmm⟩ := v3d33_qpu_mul_unpack_pack_core devinfo hv _ _ _
    (QPU_GET_FIELD W V3D_QPU_WADDR_M_SHIFT V3D_QPU_WADDR_M_MASK) _ i0.alu.mul fm
    (QPU_GET_FIELD_lt W 63 58) (QPU_GET_FIELD_lt W 20 18) (QPU_GET_FIELD_lt W 23 21) hfm
  rw [← hadd] at hpa hpw
  rw [← hmul] at hpm hmw hmm
  have hflags : (if v3d_qpu_sig_writes_address devinfo R.sig = true then
      if R.flags.ac ≠ V3D_QPU_COND_NONE ∨ R.flags.mc ≠ V3D_QPU_COND_NONE ∨
         R.flags.apf ≠ V3D_QPU_PF_NONE ∨ R.flags.mpf ≠ V3D_QPU_PF_NONE ∨
         R.flags.auf ≠ V3D_QPU_UF_NONE ∨ R.flags.muf ≠ V3D_QPU_UF_NONE then none
      else
        some (if R.sig_magic = true then R.sig_addr ||| V3D_QPU_COND_SIG_MAGIC_ADDR
          else R.sig_addr)
    else v3d_qpu_flags_pack R.flags) =
      some (QPU_GET_FIELD W V3D_QPU_COND_SHIFT V3D_QPU_COND_MASK) := by
    rw [hRsig]
    have hc128 := QPU_GET_FIELD_lt W 52 46
    by_cases hw : v3d_qpu_sig_writes_address devinfo sig = true
    · rw [if_pos hw] at hfl ⊢
      obtain ⟨f1, f2, f3⟩ := hfl
      rw [f3, f1, f2]
      rw [if_neg (by decide)]
      exact congrArg some (sig_addr_cond_encode _ hc128)
    · rw [if_neg hw] at hfl ⊢
      obtain ⟨_, hx⟩ := v3d_qpu_flags_unpack_pack _ hc128
      by_cases h16 : QPU_GET_FIELD W V3D_QPU_COND_SHIFT V3D_QPU_COND_MASK = 0x10
      · rw [h16, (show v3d_qpu_flags_unpack 16 = none by decide)] at hfl
        exact Option.noConfusion hfl
      · obtain ⟨cond, hc1, hc2⟩ := hx h16
        rw [hc1] at hfl
        cases hfl
        exact hc2
  unfold v3d_qpu_instr_pack_alu
  rw [hRsig, hsp]
  dsimp only
  rw [if_pos hty, if_pos hv]
  unfold v3d_qpu_add_pack
  rw [if_pos hv]
  unfold v3d33_qpu_add_pack
  rw [hpa]
  dsimp only
  rw [hpw]
  dsimp only
  unfold v3d_qpu_mul_pack
  rw [if_pos hv]
  unfold v3d33_qpu_mul_pack
  rw [hpm]
  dsimp only
  rw [hmw, hmm, hra, hrb]
  rw [← hRsig, hflags]
  rfl

/-- Below V3D 7.1 the ALU decoder reads a word through its fields only: two
words with the same fields, `MA` and `MM` bits, and signal indices that decode
alike, decode alike. -/
theorem v3d_qpu_instr_unpack_alu_congr33 (devinfo : v3d_device_info) (hv : devinfo.ver < 71)
    (W W' : Nat) (i0 : v3d_qpu_instr)
    (hsig : v3d_qpu_sig_unpack devinfo (QPU_GET_FIELD W' V3D_QPU_SIG_SHIFT V3D_QPU_SIG_MASK) =
      v3d_qpu_sig_unpack devinfo (QPU_GET_FIELD W V3D_QPU_SIG_SHIFT V3D_QPU_SIG_MASK))
    (hcond : QPU_GET_FIELD W' V3D_QPU_COND_SHIFT V3D_QPU_COND_MASK =
      QPU_GET_FIELD W V3D_QPU_COND_SHIFT V3D_QPU_COND_MASK)
    (hra : QPU_GET_FIELD W' V3D_QPU_RADDR_A_SHIFT V3D_QPU_RADDR_A_MASK =
      QPU_GET_FIELD W V3D_QPU_RADDR_A_SHIFT V3D_QPU_RADDR_A_MASK)
    (hrb : QPU_GET_FIELD W' V3D_QPU_RADDR_B_SHIFT V3D_QPU_RADDR_B_MASK =
      QPU_GET_FIELD W V3D_QPU_RADDR_B_SHIFT V3D_QPU_RADDR_B_MASK)
    (hopa : QPU_GET_FIELD W' V3D_QPU_OP_ADD_SHIFT V3D_QPU_OP_ADD_MASK =
      QPU_GET_FIELD W V3D_QPU_OP_ADD_SHIFT V3D_QPU_OP_ADD_MASK)
    (haa : QPU_GET_FIELD W' V3D_QPU_ADD_A_SHIFT V3D_QPU_ADD_A_MASK =
      QPU_GET_FIELD W V3D_QPU_ADD_A_SHIFT V3D_QPU_ADD_A_MASK)
    (hab : QPU_GET_FIELD W' V3D_QPU_ADD_B_SHIFT V3D_QPU_ADD_B_MASK =
      QPU_GET_FIELD W V3D_QPU_ADD_B_SHIFT V3D_QPU_ADD_B_MASK)
    (hwa : QPU_GET_FIELD W' V3D_QPU_WADDR_A_SHIFT V3D_QPU_WADDR_A_MASK =
      QPU_GET_FIELD W V3D_QPU_WADDR_A_SHIFT V3D_QPU_WADDR_A_MASK)
    (hma : (W' &&& V3D_QPU_MA != 0) = (W &&& V3D_QPU_MA != 0))
    (hopm : QPU_GET_FIELD W' V3D_QPU_OP_MUL_SHIFT V3D_QPU_OP_MUL_MASK =
      QPU_GET_FIELD W V3D_QPU_OP_MUL_SHIFT V3D_QPU_OP_MUL_MASK)
    (hmula : QPU_GET_FIELD W' V3D_QPU_MUL_A_SHIFT V3D_QPU_MUL_A_MASK =
      QPU_GET_FIELD W V3D_QPU_MUL_A_SHIFT V3D_QPU_MUL_A_MASK)
    (hmulb : QPU_GET_FIELD W' V3D_QPU_MUL_B_SHIFT V3D_QPU_MUL_B_MASK =
      QPU_GET_FIELD W V3D_QPU_MUL_B_SHIFT V3D_QPU_MUL_B_MASK)
    (hwm : QPU_GET_FIELD W' V3D_QPU_WADDR_M_SHIFT V3D_QPU_WADDR_M_MASK =
      QPU_GET_FIELD W V3D_QPU_WADDR_M_SHIFT V3D_QPU_WADDR_M_MASK)
    (hmm : (W' &&& V3D_QPU_MM != 0) = (W &&& V3D_QPU_MM != 0)) :
    v3d_qpu_instr_unpack_alu devinfo W' i0 = v3d_qpu_instr_unpack_alu devinfo W i0 := by
  unfold v3d_qpu_instr_unpack_alu
  unfold v3d_qpu_add_unpack v3d_qpu_mul_unpack
  simp only [if_pos hv]
  unfold v3d33_qpu_add_unpack v3d33_qpu_mul_unpack
  rw [hsig, hcond, hra, hrb, hopa, haa, hab, hwa, hma, hopm, hmula, hmulb, hwm, hmm]

/-- Record round trip of an ALU word below V3D 7.1: when the ALU decoder succeeds
on a 64-bit word with a canonical ADD half, the encoder succeeds on the decoded
record, and decoding the word it builds into the same record gives the decoded
record again. -/
theorem v3d_qpu_instr_unpack_alu_pack_unpack33 (devinfo : v3d_device_info)
    (hver : devinfo.ver = 33 ∨ devinfo.ver = 40 ∨ devinfo.ver = 41 ∨ devinfo.ver = 42)
    (W : Nat) (i0 R : v3d_qpu_instr)
    (hm : QPU_GET_FIELD W V3D_QPU_OP_MUL_SHIFT V3D_QPU_OP_MUL_MASK ≠ 0)
    (hc : add33_canonical (QPU_GET_FIELD W V3D_QPU_OP_ADD_SHIFT V3D_QPU_OP_ADD_MASK)
      (QPU_GET_FIELD W V3D_QPU_ADD_A_SHIFT V3D_QPU_ADD_A_MASK)
      (QPU_GET_FIELD W V3D_QPU_ADD_B_SHIFT V3D_QPU_ADD_B_MASK) = true)
    (hma : QPU_GET_FIELD W V3D_QPU_OP_ADD_SHIFT V3D_QPU_OP_ADD_MASK = 248 →
      (W &&& V3D_QPU_MA != 0) = false)
    (hu : v3d_qpu_instr_unpack_alu devinfo W i0 = some R) :
    ∃ W', v3d_qpu_instr_pack_alu devinfo R 0 = some W' ∧
      v3d_qpu_instr_unpack devinfo W' i0 = some R := by
  have hv : devinfo.ver < 71 := by omega
  refine ⟨_, v3d_qpu_instr_unpack_alu_pack33_word devinfo hver W i0 R hc hma hu, ?_⟩
  obtain ⟨f1, f2, f3, f4, f5, f6, f7, f8, f9, f10, f11, f12, f13, f14⟩ := alu33_word_fields
    (if devinfo.ver = 33 ∧ QPU_GET_FIELD W V3D_QPU_SIG_SHIFT V3D_QPU_SIG_MASK = 31 then 15
        else QPU_GET_FIELD W V3D_QPU_SIG_SHIFT V3D_QPU_SIG_MASK)
      (QPU_GET_FIELD W V3D_QPU_RADDR_A_SHIFT V3D_QPU_RADDR_A_MASK)
      (QPU_GET_FIELD W V3D_QPU_RADDR_B_SHIFT V3D_QPU_RADDR_B_MASK)
      (QPU_GET_FIELD W V3D_QPU_ADD_A_SHIFT V3D_QPU_ADD_A_MASK)
      (QPU_GET_FIELD W V3D_QPU_ADD_B_SHIFT V3D_QPU_ADD_B_MASK)
      (QPU_GET_FIELD W V3D_QPU_OP_ADD_SHIFT V3D_QPU_OP_ADD_MASK)
      (QPU_GET_FIELD W V3D_QPU_WADDR_A_SHIFT V3D_QPU_WADDR_A_MASK)
      (W &&& V3D_QPU_MA != 0)
      (QPU_GET_FIELD W V3D_QPU_MUL_A_SHIFT V3D_QPU_MUL_A_MASK)
      (QPU_GET_FIELD W V3D_QPU_MUL_B_SHIFT V3D_QPU_MUL_B_MASK)
      (QPU_GET_FIELD W V3D_QPU_OP_MUL_SHIFT V3D_QPU_OP_MUL_MASK)
      (QPU_GET_FIELD W V3D_QPU_WADDR_M_SHIFT V3D_QPU_WADDR_M_MASK)
      (W &&& V3D_QPU_MM != 0)
      (QPU_GET_FIELD W V3D_QPU_COND_SHIFT V3D_QPU_COND_MASK)
  rw [QPU_GET_FIELD_mod W 63 58] at f1
  rw [QPU_GET_FIELD_mod W 52 46] at f3
  rw [QPU_GET_FIELD_mod W 43 38] at f4
  rw [QPU_GET_FIELD_mod W 37 32] at f5
  rw [QPU_GET_FIELD_mod W 31 24] at f6
  rw [QPU_GET_FIELD_mod W 23 21] at f7
  rw [QPU_GET_FIELD_mod W 20 18] at f8
  rw [QPU_GET_FIELD_mod W 17 15] at f9
  rw [QPU_GET_FIELD_mod W 14 12] at f10
  rw [QPU_GET_FIELD_mod W 11 6] at f11
  rw [QPU_GET_FIELD_mod W 5 0] at f12
  have hsig : v3d_qpu_sig_unpack devinfo
      ((if devinfo.ver = 33 ∧ QPU_GET_FIELD W V3D_QPU_SIG_SHIFT V3D_QPU_SIG_MASK = 31 then 15
        else QPU_GET_FIELD W V3D_QPU_SIG_SHIFT V3D_QPU_SIG_MASK) % 2 ^ (57 - 53 + 1)) =
      v3d_qpu_sig_unpack devinfo (QPU_GET_FIELD W V3D_QPU_SIG_SHIFT V3D_QPU_SIG_MASK) := by
    by_cases h : devinfo.ver = 33 ∧ QPU_GET_FIELD W V3D_QPU_SIG_SHIFT V3D_QPU_SIG_MASK = 31
    · rw [if_pos h, h.2]
      have e : ∀ x, v3d_qpu_sig_unpack devinfo x = v3d_qpu_sig_unpack { ver := devinfo.ver } x :=
        fun _ => rfl
      rw [e, e, h.1]
      decide
    · rw [if_neg h, QPU_GET_FIELD_mod W 57 53]
  rw [← f2] at hsig
  unfold v3d_qpu_instr_unpack
  rw [f1, if_pos hm]
  rw [v3d_qpu_instr_unpack_alu_congr33 devinfo hv W _ i0 hsig f3 f11 f12 f6 f10 f9 f5 f13 f1 f8 f7
    f4 f14]
  exact hu

/-- Every three-bit condition field decodes, and the field the encoder computes
from the decoded condition decodes to the same condition. -/
theorem branch_cond_redecode : ∀ c, c < 8 →
    ∃ d, (if c = 0 then some V3D_QPU_BRANCH_COND_ALWAYS
      else if (V3D_QPU_BRANCH_COND_A0 + u32_sub c 2) % 4294967296 ≤ V3D_QPU_BRANCH_COND_ALLNA then
        some ((V3D_QPU_BRANCH_COND_A0 + u32_sub c 2) % 4294967296)
      else none) = some d ∧
    (if (if d ≠ V3D_QPU_BRANCH_COND_ALWAYS then 2 + (d - V3D_QPU_BRANCH_COND_A0) else 0)
          % 2 ^ (34 - 32 + 1) = 0 then
        some V3D_QPU_BRANCH_COND_ALWAYS
      else if (V3D_QPU_BRANCH_COND_A0 + u32_sub
          ((if d ≠ V3D_QPU_BRANCH_COND_ALWAYS then 2 + (d - V3D_QPU_BRANCH_COND_A0) else 0)
            % 2 ^ (34 - 32 + 1)) 2) % 4294967296 ≤ V3D_QPU_BRANCH_COND_ALLNA then
        some ((V3D_QPU_BRANCH_COND_A0 + u32_sub
          ((if d ≠ V3D_QPU_BRANCH_COND_ALWAYS then 2 + (d - V3D_QPU_BRANCH_COND_A0) else 0)
            % 2 ^ (34 - 32 + 1)) 2) % 4294967296)
      else none) = some d := by
  decide

/-- A word whose bits 57 and 56 are 1 and 0 passes the branch test of
`v3d_qpu_instr_unpack` on the signal field. -/
theorem branch_sig_of_bits (W : Nat) (h : QPU_GET_FIELD W 56 (QPU_MASK 57 56) = 2) :
    QPU_GET_FIELD W V3D_QPU_SIG_SHIFT V3D_QPU_SIG_MASK &&& 24 = 16 := by
  have hl := QPU_GET_FIELD_lt W 57 53
  have e : QPU_GET_FIELD W 53 (QPU_MASK 57 53) / 8 = 2 := by
    rw [QPU_GET_FIELD_eq] at h ⊢
    norm_num at h ⊢
    omega
  show QPU_GET_FIELD W 53 (QPU_MASK 57 53) &&& 24 = 16
  generalize QPU_GET_FIELD W 53 (QPU_MASK 57 53) = x at hl e
  have hl' : x < 32 := hl
  interval_cases x <;> first | rfl | exact absurd e (by decide)

/-- The branch decoder reads a word through its fields only. -/
theorem v3d_qpu_instr_unpack_branch_congr (W W' : Nat) (i0 : v3d_qpu_instr)
    (hcond : (if QPU_GET_FIELD W' V3D_QPU_BRANCH_COND_SHIFT V3D_QPU_BRANCH_COND_MASK = 0 then
        some V3D_QPU_BRANCH_COND_ALWAYS
      else if (V3D_QPU_BRANCH_COND_A0 +
          u32_sub (QPU_GET_FIELD W' V3D_QPU_BRANCH_COND_SHIFT V3D_QPU_BRANCH_COND_MASK) 2)
            % 4294967296 ≤ V3D_QPU_BRANCH_COND_ALLNA then
        some ((V3D_QPU_BRANCH_COND_A0 +
          u32_sub (QPU_GET_FIELD W' V3D_QPU_BRANCH_COND_SHIFT V3D_QPU_BRANCH_COND_MASK) 2)
            % 4294967296)
      else none) =
      (if QPU_GET_FIELD W V3D_QPU_BRANCH_COND_SHIFT V3D_QPU_BRANCH_COND_MASK = 0 then
        some V3D_QPU_BRANCH_COND_ALWAYS
      else if (V3D_QPU_BRANCH_COND_A0 +
          u32_sub (QPU_GET_FIELD W V3D_QPU_BRANCH_COND_SHIFT V3D_QPU_BRANCH_COND_MASK) 2)
            % 4294967296 ≤ V3D_QPU_BRANCH_COND_ALLNA then
        some ((V3D_QPU_BRANCH_COND_A0 +
          u32_sub (QPU_GET_FIELD W V3D_QPU_BRANCH_COND_SHIFT V3D_QPU_BRANCH_COND_MASK) 2)
            % 4294967296)
      else none))
    (hmsf : QPU_GET_FIELD W' V3D_QPU_BRANCH_MSFIGN_SHIFT V3D_QPU_BRANCH_MSFIGN_MASK =
      QPU_GET_FIELD W V3D_QPU_BRANCH_MSFIGN_SHIFT V3D_QPU_BRANCH_MSFIGN_MASK)
    (hbdi : QPU_GET_FIELD W' V3D_QPU_BRANCH_BDI_SHIFT V3D_QPU_BRANCH_BDI_MASK =
      QPU_GET_FIELD W V3D_QPU_BRANCH_BDI_SHIFT V3D_QPU_BRANCH_BDI_MASK)
    (hra : QPU_GET_FIELD W' V3D_QPU_RADDR_A_SHIFT V3D_QPU_RADDR_A_MASK =
      QPU_GET_FIELD W V3D_QPU_RADDR_A_SHIFT V3D_QPU_RADDR_A_MASK)
    (hlo : QPU_GET_FIELD W' V3D_QPU_BRANCH_ADDR_LOW_SHIFT V3D_QPU_BRANCH_ADDR_LOW_MASK =
      QPU_GET_FIELD W V3D_QPU_BRANCH_ADDR_LOW_SHIFT V3D_QPU_BRANCH_ADDR_LOW_MASK)
    (hhi : QPU_GET_FIELD W' V3D_QPU_BRANCH_ADDR_HIGH_SHIFT V3D_QPU_BRANCH_ADDR_HIGH_MASK =
      QPU_GET_FIELD W V3D_QPU_BRANCH_ADDR_HIGH_SHIFT V3D_QPU_BRANCH_ADDR_HIGH_MASK) :
    v3d_qpu_instr_unpack_branch W' i0 = v3d_qpu_instr_unpack_branch W i0 := by
  unfold v3d_qpu_instr_unpack_branch
  dsimp only
  rw [hcond, hmsf, hbdi, hra, hlo, hhi, v3d_bool_of_int_branch_ub W',
    v3d_bool_of_int_branch_ub W]
  simp only [Bool.false_eq_true, if_false]

/-- Record round trip of a branch word: when the branch decoder succeeds on a
branch word whose address fields are clear unless the destination is absolute or
relative, and whose `raddr_a` is clear unless the destination is the register
file, the branch encoder succeeds on the decoded record, and decoding the word
it builds into the same record gives the decoded record again. -/
theorem v3d_qpu_instr_unpack_branch_pack_unpack (devinfo : v3d_device_info)
    (W : Nat) (i0 R : v3d_qpu_instr)
    (caddr : (QPU_GET_FIELD W V3D_QPU_BRANCH_BDI_SHIFT V3D_QPU_BRANCH_BDI_MASK =
        V3D_QPU_BRANCH_DEST_ABS ∨
      QPU_GET_FIELD W V3D_QPU_BRANCH_BDI_SHIFT V3D_QPU_BRANCH_BDI_MASK =
        V3D_QPU_BRANCH_DEST_REL) ∨
      (QPU_GET_FIELD W V3D_QPU_BRANCH_ADDR_LOW_SHIFT V3D_QPU_BRANCH_ADDR_LOW_MASK = 0 ∧
       QPU_GET_FIELD W V3D_QPU_BRANCH_ADDR_HIGH_SHIFT V3D_QPU_BRANCH_ADDR_HIGH_MASK = 0))
    (cra : QPU_GET_FIELD W V3D_QPU_BRANCH_BDI_SHIFT V3D_QPU_BRANCH_BDI_MASK =
        V3D_QPU_BRANCH_DEST_REGFILE ∨
      QPU_GET_FIELD W V3D_QPU_RADDR_A_SHIFT V3D_QPU_RADDR_A_MASK = 0)
    (hu : v3d_qpu_instr_unpack_branch W i0 = some R) :
    ∃ W', v3d_qpu_instr_pack_branch R 0 = some W' ∧
      v3d_qpu_instr_unpack devinfo W' i0 = some R := by
  obtain ⟨-, hcond, hmsf, hbdi, hub, hra, hoff⟩ := v3d_qpu_instr_unpack_branch_fields W i0 R hu
  obtain ⟨d, hd1, hd2⟩ := branch_cond_redecode _ (QPU_GET_FIELD_lt W 34 32)
  rw [hd1] at hcond
  cases hcond
  obtain ⟨hlo, hhi⟩ := branch_offset_fields _ _ (QPU_GET_FIELD_lt W 55 35)
    (QPU_GET_FIELD_lt W 31 24)
  rw [← hoff] at hlo hhi
  have hraenc : (if R.branch.bdi = V3D_QPU_BRANCH_DEST_REGFILE ∨
      R.branch.bdu = V3D_QPU_BRANCH_DEST_REGFILE then R.branch.raddr_a else 0) =
        QPU_GET_FIELD W V3D_QPU_RADDR_A_SHIFT V3D_QPU_RADDR_A_MASK := by
    rw [hra]
    split_ifs with h
    · rfl
    · rw [hbdi] at h
      rcases cra with e | e
      · exact absurd (Or.inl e) h
      · exact e.symm
  have e16a : QPU_GET_FIELD (QPU_SET_FIELD 16 53 (QPU_MASK 57 53)) 56 (QPU_MASK 57 56) = 2 := by
    decide
  have e16b : QPU_GET_FIELD (QPU_SET_FIELD 16 53 (QPU_MASK 57 53)) 35 (QPU_MASK 55 35) = 0 := by
    decide
  -- decoding a word with these fields gives the record again
  have hfin : ∀ Wp : Nat, QPU_GET_FIELD Wp 58 (QPU_MASK 63 58) = 0 →
      QPU_GET_FIELD Wp 56 (QPU_MASK 57 56) = 2 →
      QPU_GET_FIELD Wp 32 (QPU_MASK 34 32) =
        (if R.branch.cond ≠ V3D_QPU_BRANCH_COND_ALWAYS then
          2 + (R.branch.cond - V3D_QPU_BRANCH_COND_A0) else 0) % 2 ^ (34 - 32 + 1) →
      QPU_GET_FIELD Wp 21 (QPU_MASK 22 21) = QPU_GET_FIELD W 21 (QPU_MASK 22 21) →
      QPU_GET_FIELD Wp 12 (QPU_MASK 13 12) = QPU_GET_FIELD W 12 (QPU_MASK 13 12) →
      QPU_GET_FIELD Wp 6 (QPU_MASK 11 6) = QPU_GET_FIELD W 6 (QPU_MASK 11 6) →
      QPU_GET_FIELD Wp 35 (QPU_MASK 55 35) = QPU_GET_FIELD W 35 (QPU_MASK 55 35) →
      QPU_GET_FIELD Wp 24 (QPU_MASK 31 24) = QPU_GET_FIELD W 24 (QPU_MASK 31 24) →
      v3d_qpu_instr_unpack devinfo Wp i0 = some R := by
    intro Wp F0 F1 F2 F3 F4 F5 F6 F7
    unfold v3d_qpu_instr_unpack
    rw [if_neg (not_not.mpr F0)]
    dsimp only
    rw [if_pos (branch_sig_of_bits Wp F1)]
    rw [v3d_qpu_instr_unpack_branch_congr W Wp i0 ?_ F3 F4 F5 F6 F7]
    · exact hu
    · show (if QPU_GET_FIELD Wp 32 (QPU_MASK 34 32) = 0 then _ else _) = _
      rw [F2, hd2]
      exact hd1.symm
  unfold v3d_qpu_instr_pack_branch
  dsimp only
  rw [hub]
  simp only [Bool.false_eq_true, if_false]
  simp only [ite_or_set_field]
  rw [hraenc, hlo, hhi, hmsf, hbdi]
  simp only [V3D_QPU_SIG_SHIFT, V3D_QPU_SIG_MASK, V3D_QPU_BRANCH_COND_SHIFT,
      V3D_QPU_BRANCH_COND_MASK, V3D_QPU_BRANCH_MSFIGN_SHIFT, V3D_QPU_BRANCH_MSFIGN_MASK,
      V3D_QPU_BRANCH_BDI_SHIFT, V3D_QPU_BRANCH_BDI_MASK, V3D_QPU_BRANCH_ADDR_LOW_SHIFT,
      V3D_QPU_BRANCH_ADDR_LOW_MASK, V3D_QPU_BRANCH_ADDR_HIGH_SHIFT,
      V3D_QPU_BRANCH_ADDR_HIGH_MASK, V3D_QPU_RADDR_A_SHIFT, V3D_QPU_RADDR_A_MASK,
      V3D_QPU_OP_MUL_SHIFT, V3D_QPU_OP_MUL_MASK]
  generalize hcenc : (if R.branch.cond ≠ V3D_QPU_BRANCH_COND_ALWAYS then
      2 + (R.branch.cond - V3D_QPU_BRANCH_COND_A0) else 0) = cenc at hfin ⊢
  by_cases c : QPU_GET_FIELD W 12 (QPU_MASK 13 12) = V3D_QPU_BRANCH_DEST_ABS ∨
      QPU_GET_FIELD W 12 (QPU_MASK 13 12) = V3D_QPU_BRANCH_DEST_REL
  · rw [if_pos c]
    generalize hWp : (((((((0 ||| QPU_SET_FIELD 16 53 (QPU_MASK 57 53)) |||
      QPU_SET_FIELD cenc 32 (QPU_MASK 34 32)) |||
      QPU_SET_FIELD (QPU_GET_FIELD W 21 (QPU_MASK 22 21)) 21 (QPU_MASK 22 21)) |||
      QPU_SET_FIELD (QPU_GET_FIELD W 12 (QPU_MASK 13 12)) 12 (QPU_MASK 13 12)) |||
      QPU_SET_FIELD (QPU_GET_FIELD W 21 (QPU_MASK 22 21)) 21 (QPU_MASK 22 21)) |||
      QPU_SET_FIELD (QPU_GET_FIELD W 35 (QPU_MASK 55 35)) 35 (QPU_MASK 55 35)) |||
      QPU_SET_FIELD (QPU_GET_FIELD W 24 (QPU_MASK 31 24)) 24 (QPU_MASK 31 24)) |||
      QPU_SET_FIELD (QPU_GET_FIELD W 6 (QPU_MASK 11 6)) 6 (QPU_MASK 11 6) = Wp
    have hWp := hWp.symm
    have F0 : QPU_GET_FIELD Wp 58 (QPU_MASK 63 58) = 0 := by
      rw [hWp]
      simp (disch := decide) only [QPU_GET_FIELD_or, QPU_GET_FIELD_zero,
          QPU_GET_SET_same, QPU_GET_SET_other, Nat.zero_or, Nat.or_zero, Nat.or_self, e16a, e16b]
    have F1 : QPU_GET_FIELD Wp 56 (QPU_MASK 57 56) = 2 := by
      rw [hWp]
      simp (disch := decide) only [QPU_GET_FIELD_or, QPU_GET_FIELD_zero,
          QPU_GET_SET_same, QPU_GET_SET_other, Nat.zero_or, Nat.or_zero, Nat.or_self, e16a, e16b]
    have F2 : QPU_GET_FIELD Wp 32 (QPU_MASK 34 32) = cenc % 2 ^ (34 - 32 + 1) := by
      rw [hWp]
      simp (disch := decide) only [QPU_GET_FIELD_or, QPU_GET_FIELD_zero,
          QPU_GET_SET_same, QPU_GET_SET_other, Nat.zero_or, Nat.or_zero, Nat.or_self, e16a, e16b]
    have F3 : QPU_GET_FIELD Wp 21 (QPU_MASK 22 21) = QPU_GET_FIELD W 21 (QPU_MASK 22 21) := by
      rw [hWp]
      simp (disch := decide) only [QPU_GET_FIELD_or, QPU_GET_FIELD_zero,
          QPU_GET_SET_same, QPU_GET_SET_other, Nat.zero_or, Nat.or_zero, Nat.or_self, e16a, e16b]
      exact QPU_GET_FIELD_mod W 22 21
    have F4 : QPU_GET_FIELD Wp 12 (QPU_MASK 13 12) = QPU_GET_FIELD W 12 (QPU_MASK 13 12) := by
      rw [hWp]
      simp (disch := decide) only [QPU_GET_FIELD_or, QPU_GET_FIELD_zero,
          QPU_GET_SET_same, QPU_GET_SET_other, Nat.zero_or, Nat.or_zero, Nat.or_self, e16a, e16b]
      exact QPU_GET_FIELD_mod W 13 12
    have F5 : QPU_GET_FIELD Wp 6 (QPU_MASK 11 6) = QPU_GET_FIELD W 6 (QPU_MASK 11 6) := by
      rw [hWp]
      simp (disch := decide) only [QPU_GET_FIELD_or, QPU_GET_FIELD_zero,
          QPU_GET_SET_same, QPU_GET_SET_other, Nat.zero_or, Nat.or_zero, Nat.or_self, e16a, e16b]
      exact QPU_GET_FIELD_mod W 11 6
    have F6 : QPU_GET_FIELD Wp 35 (QPU_MASK 55 35) = QPU_GET_FIELD W 35 (QPU_MASK 55 35) := by
      rw [hWp]
      simp (disch := decide) only [QPU_GET_FIELD_or, QPU_GET_FIELD_zero,
          QPU_GET_SET_same, QPU_GET_SET_other, Nat.zero_or, Nat.or_zero, Nat.or_self, e16a, e16b]
      exact QPU_GET_FIELD_mod W 55 35
    have F7 : QPU_GET_FIELD Wp 24 (QPU_MASK 31 24) = QPU_GET_FIELD W 24 (QPU_MASK 31 24) := by
      rw [hWp]
      simp (disch := decide) only [QPU_GET_FIELD_or, QPU_GET_FIELD_zero,
          QPU_GET_SET_same, QPU_GET_SET_other, Nat.zero_or, Nat.or_zero, Nat.or_self, e16a, e16b]
      exact QPU_GET_FIELD_mod W 31 24
    refine ⟨Wp, rfl, ?_⟩
    exact hfin Wp F0 F1 F2 F3 F4 F5 F6 F7
  · rw [if_neg c]
    have c3 : QPU_GET_FIELD W 35 (QPU_MASK 55 35) = 0 ∧ QPU_GET_FIELD W 24 (QPU_MASK 31 24) = 0 := by
      simp only [V3D_QPU_BRANCH_BDI_SHIFT, V3D_QPU_BRANCH_BDI_MASK, V3D_QPU_BRANCH_ADDR_LOW_SHIFT,
        V3D_QPU_BRANCH_ADDR_LOW_MASK, V3D_QPU_BRANCH_ADDR_HIGH_SHIFT,
        V3D_QPU_BRANCH_ADDR_HIGH_MASK] at caddr
      rcases caddr with e | e
      · exact absurd e c
      · exact e
    generalize hWp : ((((0 ||| QPU_SET_FIELD 16 53 (QPU_MASK 57 53)) |||
      QPU_SET_FIELD cenc 32 (QPU_MASK 34 32)) |||
      QPU_SET_FIELD (QPU_GET_FIELD W 21 (QPU_MASK 22 21)) 21 (QPU_MASK 22 21)) |||
      QPU_SET_FIELD (QPU_GET_FIELD W 12 (QPU_MASK 13 12)) 12 (QPU_MASK 13 12)) |||
      QPU_SET_FIELD (QPU_GET_FIELD W 6 (QPU_MASK 11 6)) 6 (QPU_MASK 11 6) = Wp
    have hWp := hWp.symm
    have F0 : QPU_GET_FIELD Wp 58 (QPU_MASK 63 58) = 0 := by
      rw [hWp]
      simp (disch := decide) only [QPU_GET_FIELD_or, QPU_GET_FIELD_zero,
          QPU_GET_SET_same, QPU_GET_SET_other, Nat.zero_or, Nat.or_zero, Nat.or_self, e16a, e16b]
    have F1 : QPU_GET_FIELD Wp 56 (QPU_MASK 57 56) = 2 := by
      rw [hWp]
      simp (disch := decide) only [QPU_GET_FIELD_or, QPU_GET_FIELD_zero,
          QPU_GET_SET_same, QPU_GET_SET_other, Nat.zero_or, Nat.or_zero, Nat.or_self, e16a, e16b]
    have F2 : QPU_GET_FIELD Wp 32 (QPU_MASK 34 32) = cenc % 2 ^ (34 - 32 + 1) := by
      rw [hWp]
      simp (disch := decide) only [QPU_GET_FIELD_or, QPU_GET_FIELD_zero,
          QPU_GET_SET_same, QPU_GET_SET_other, Nat.zero_or, Nat.or_zero, Nat.or_self, e16a, e16b]
    have F3 : QPU_GET_FIELD Wp 21 (QPU_MASK 22 21) = QPU_GET_FIELD W 21 (QPU_MASK 22 21) := by
      rw [hWp]
      simp (disch := decide) only [QPU_GET_FIELD_or, QPU_GET_FIELD_zero,
          QPU_GET_SET_same, QPU_GET_SET_other, Nat.zero_or, Nat.or_zero, Nat.or_self, e16a, e16b]
      exact QPU_GET_FIELD_mod W 22 21
    have F4 : QPU_GET_FIELD Wp 12 (QPU_MASK 13 12) = QPU_GET_FIELD W 12 (QPU_MASK 13 12) := by
      rw [hWp]
      simp (disch := decide) only [QPU_GET_FIELD_or, QPU_GET_FIELD_zero,
          QPU_GET_SET_same, QPU_GET_SET_other, Nat.zero_or, Nat.or_zero, Nat.or_self, e16a, e16b]
      exact QPU_GET_FIELD_mod W 13 12
    have F5 : QPU_GET_FIELD Wp 6 (QPU_MASK 11 6) = QPU_GET_FIELD W 6 (QPU_MASK 11 6) := by
      rw [hWp]
      simp (disch := decide) only [QPU_GET_FIELD_or, QPU_GET_FIELD_zero,
          QPU_GET_SET_same, QPU_GET_SET_other, Nat.zero_or, Nat.or_zero, Nat.or_self, e16a, e16b]
      exact QPU_GET_FIELD_mod W 11 6
    have F6 : QPU_GET_FIELD Wp 35 (QPU_MASK 55 35) = QPU_GET_FIELD W 35 (QPU_MASK 55 35) := by
      rw [hWp]
      simp (disch := decide) only [QPU_GET_FIELD_or, QPU_GET_FIELD_zero,
          QPU_GET_SET_same, QPU_GET_SET_other, Nat.zero_or, Nat.or_zero, Nat.or_self, e16a, e16b]
      exact c3.1.symm
    have F7 : QPU_GET_FIELD Wp 24 (QPU_MASK 31 24) = QPU_GET_FIELD W 24 (QPU_MASK 31 24) := by
      rw [hWp]
      simp (disch := decide) only [QPU_GET_FIELD_or, QPU_GET_FIELD_zero,
          QPU_GET_SET_same, QPU_GET_SET_other, Nat.zero_or, Nat.or_zero, Nat.or_self, e16a, e16b]
      exact c3.2.symm
    refine ⟨Wp, rfl, ?_⟩
    exact hfin Wp F0 F1 F2 F3 F4 F5 F6 F7

/-- Record round trip at the five versions: for every 64-bit word in
`v3d_qpu_word_record_canonical` the decoder accepts, the encoder succeeds on the
decoded record, and decoding the word it builds into the record the decoder
started from gives the decoded record again. -/
theorem v3d_qpu_instr_unpack_pack_unpack_of_canonical (devinfo : v3d_device_info)
    (hver : devinfo.ver = 33 ∨ devinfo.ver = 40 ∨ devinfo.ver = 41 ∨ devinfo.ver = 42 ∨
      devinfo.ver = 71)
    (W : Nat) (hW : W < 2 ^ 64) (i0 R : v3d_qpu_instr)
    (hc : v3d_qpu_word_record_canonical devinfo W = true)
    (hu : v3d_qpu_instr_unpack devinfo W i0 = some R) :
    ∃ W', v3d_qpu_instr_pack devinfo R = some W' ∧
      v3d_qpu_instr_unpack devinfo W' i0 = some R := by
  by_cases hm : QPU_GET_FIELD W V3D_QPU_OP_MUL_SHIFT V3D_QPU_OP_MUL_MASK ≠ 0
  · by_cases hv : devinfo.ver < 71
    · have hu' := hu
      unfold v3d_qpu_instr_unpack at hu'
      rw [if_pos hm] at hu'
      unfold v3d_qpu_word_record_canonical at hc
      rw [if_pos hm, if_pos hv] at hc
      simp only [Bool.and_eq_true, Bool.not_eq_true', Bool.and_eq_false_iff, beq_eq_false_iff_ne,
        ne_eq] at hc
      obtain ⟨h2, h3⟩ := hc
      obtain ⟨W', hp, hq⟩ := v3d_qpu_instr_unpack_alu_pack_unpack33 devinfo (by omega) W i0 R hm
        h2 (by
          intro e
          rcases h3 with h | h
          · exact absurd e h
          · exact h) hu'
      refine ⟨W', ?_, hq⟩
      unfold v3d_qpu_instr_pack
      dsimp only
      rw [if_pos (v3d_qpu_instr_unpack_alu_type devinfo W i0 R hu')]
      exact hp
    · have hcan : v3d_qpu_word_canonical devinfo W = true := by
        unfold v3d_qpu_word_record_canonical at hc
        unfold v3d_qpu_word_canonical
        rw [if_pos hm, if_neg hv] at hc ⊢
        exact hc
      exact ⟨W, v3d_qpu_instr_unpack_pack_of_canonical devinfo hver W hW i0 R hcan hu, hu⟩
  · have hu' := hu
    unfold v3d_qpu_instr_unpack at hu'
    rw [if_neg hm] at hu'
    dsimp only at hu'
    unfold v3d_qpu_word_record_canonical at hc
    rw [if_neg hm] at hc
    simp only [Bool.and_eq_true, Bool.or_eq_true, beq_iff_eq] at hc
    obtain ⟨caddr, cra⟩ := hc
    by_cases hs : QPU_GET_FIELD W V3D_QPU_SIG_SHIFT V3D_QPU_SIG_MASK &&& 24 = 16
    · rw [if_pos hs] at hu'
      obtain ⟨W', hp, hq⟩ := v3d_qpu_instr_unpack_branch_pack_unpack devinfo W i0 R caddr cra hu'
      refine ⟨W', ?_, hq⟩
      have hty := v3d_qpu_instr_unpack_branch_type W i0 R hu'
      unfold v3d_qpu_instr_pack
      dsimp only
      rw [if_neg (by rw [hty]; decide), if_pos hty]
      exact hp
    · rw [if_neg hs] at hu'
      exact Option.noConfusion hu'

/-- Every clause of `v3d_qpu_word_canonical` is needed: for each clause there is
a word that violates it and decodes, but whose decoded record does not encode
back to the word (`some none`: the decoded record does not encode at all).  In
order: signal index 31 at version 33; below V3D 7.1 the ADD opcodes 187, 249,
250, 252 with the excluded selectors and opcode 248 with `MA`; at V3D 7.1 the
ADD opcodes 187, 245 (twice), 246 (twice) with excluded `raddr_b` and 188, 189,
190 with `MA`; branch words with condition field 1, with bit 23, 14 or 0 set,
with address bits on a link-register destination, and with `raddr_a` on a
relative destination. -/
theorem v3d_qpu_word_canonical_clauses_needed :
    (v3d_qpu_instr_unpack { ver := 33 } 4602733273913753600 {}).map
        (v3d_qpu_instr_pack { ver := 33 }) = some (some 4458618085837897728) ∧
    (v3d_qpu_instr_unpack { ver := 42 } 4323510097016823808 {}).map
        (v3d_qpu_instr_pack { ver := 42 }) = some (some 4323510097016815616) ∧
    (v3d_qpu_instr_unpack { ver := 42 } 4323510098057068544 {}).map
        (v3d_qpu_instr_pack { ver := 42 }) = some (some 4323510098124177408) ∧
    (v3d_qpu_instr_unpack { ver := 42 } 4323510098073976832 {}).map
        (v3d_qpu_instr_pack { ver := 42 }) = some (some 4323510098141085696) ∧
    (v3d_qpu_instr_unpack { ver := 42 } 4323510098107334656 {}).map
        (v3d_qpu_instr_pack { ver := 42 }) = some (some 4323510098107301888) ∧
    (v3d_qpu_instr_unpack { ver := 42 } 4323510072270389248 {}).map
        (v3d_qpu_instr_pack { ver := 42 }) = some (some 4323492480084344832) ∧
    (v3d_qpu_instr_unpack { ver := 71 } 4035279720856940577 {}).map
        (v3d_qpu_instr_pack { ver := 71 }) = some (some 4035279720856940576) ∧
    (v3d_qpu_instr_unpack { ver := 71 } 4035279721830019072 {}).map
        (v3d_qpu_instr_pack { ver := 71 }) = some (some 4035279721830019076) ∧
    (v3d_qpu_instr_unpack { ver := 71 } 4035279721830019075 {}).map
        (v3d_qpu_instr_pack { ver := 71 }) = some (none) ∧
    (v3d_qpu_instr_unpack { ver := 71 } 4035279721846796288 {}).map
        (v3d_qpu_instr_pack { ver := 71 }) = some (some 4035279721846796292) ∧
    (v3d_qpu_instr_unpack { ver := 71 } 4035279721846796321 {}).map
        (v3d_qpu_instr_pack { ver := 71 }) = some (some 4035279721846796320) ∧
    (v3d_qpu_instr_unpack { ver := 71 } 4035279720873717760 {}).map
        (v3d_qpu_instr_pack { ver := 71 }) = some (none) ∧
    (v3d_qpu_instr_unpack { ver := 71 } 4035279720890494976 {}).map
        (v3d_qpu_instr_pack { ver := 71 }) = some (none) ∧
    (v3d_qpu_instr_unpack { ver := 71 } 4035279695137468416 {}).map
        (v3d_qpu_instr_pack { ver := 71 }) = some (some 4035262102951424000) ∧
    (v3d_qpu_instr_unpack { ver := 42 } 144115192370827264 {}).map
        (v3d_qpu_instr_pack { ver := 42 }) = some (some 144115188075859968) ∧
    (v3d_qpu_instr_unpack { ver := 42 } 144115188084248576 {}).map
        (v3d_qpu_instr_pack { ver := 42 }) = some (some 144115188075859968) ∧
    (v3d_qpu_instr_unpack { ver := 42 } 144115188075876352 {}).map
        (v3d_qpu_instr_pack { ver := 42 }) = some (some 144115188075859968) ∧
    (v3d_qpu_instr_unpack { ver := 42 } 144115188075859969 {}).map
        (v3d_qpu_instr_pack { ver := 42 }) = some (some 144115188075859968) ∧
    (v3d_qpu_instr_unpack { ver := 42 } 144115188092641280 {}).map
        (v3d_qpu_instr_pack { ver := 42 }) = some (some 144115188075864064) ∧
    (v3d_qpu_instr_unpack { ver := 42 } 144115222435602432 {}).map
        (v3d_qpu_instr_pack { ver := 42 }) = some (some 144115188075864064) ∧
    (v3d_qpu_instr_unpack { ver := 42 } 144115188075860032 {}).map
        (v3d_qpu_instr_pack { ver := 42 }) = some (some 144115188075859968) := by
  refine ⟨?_, ?_, ?_, ?_, ?_, ?_, ?_, ?_, ?_, ?_, ?_, ?_, ?_, ?_, ?_, ?_, ?_, ?_, ?_, ?_, ?_⟩ <;> decide

/-- Every clause of `v3d_qpu_word_record_canonical` is needed: for each clause
there is a word that violates it and decodes, but whose decoded record is not
what encoding and decoding again gives.  In order: below V3D 7.1 the ADD
opcodes 187, 249, 250, 252 with the excluded selectors and opcode 248 with
`MA`; at V3D 7.1 the ADD opcodes 187, 245 (twice), 246 (twice) with excluded
`raddr_b` and 188, 189, 190 with `MA`; branch words with address bits on a
link-register destination, and with `raddr_a` on a relative destination. -/
theorem v3d_qpu_word_record_canonical_clauses_needed :
    (v3d_qpu_instr_unpack { ver := 42 } 4323510097016823808 {}).map
        (fun R => decide ((v3d_qpu_instr_pack { ver := 42 } R).bind
          (fun W => v3d_qpu_instr_unpack { ver := 42 } W {}) = some R)) = some false ∧
    (v3d_qpu_instr_unpack { ver := 42 } 4323510098057068544 {}).map
        (fun R => decide ((v3d_qpu_instr_pack { ver := 42 } R).bind
          (fun W => v3d_qpu_instr_unpack { ver := 42 } W {}) = some R)) = some false ∧
    (v3d_qpu_instr_unpack { ver := 42 } 4323510098073976832 {}).map
        (fun R => decide ((v3d_qpu_instr_pack { ver := 42 } R).bind
          (fun W => v3d_qpu_instr_unpack { ver := 42 } W {}) = some R)) = some false ∧
    (v3d_qpu_instr_unpack { ver := 42 } 4323510098107334656 {}).map
        (fun R => decide ((v3d_qpu_instr_pack { ver := 42 } R).bind
          (fun W => v3d_qpu_instr_unpack { ver := 42 } W {}) = some R)) = some false ∧
    (v3d_qpu_instr_unpack { ver := 42 } 4323510072270389248 {}).map
        (fun R => decide ((v3d_qpu_instr_pack { ver := 42 } R).bind
          (fun W => v3d_qpu_instr_unpack { ver := 42 } W {}) = some R)) = some false ∧
    (v3d_qpu_instr_unpack { ver := 71 } 4035279720856940577 {}).map
        (fun R => decide ((v3d_qpu_instr_pack { ver := 71 } R).bind
          (fun W => v3d_qpu_instr_unpack { ver := 71 } W {}) = some R)) = some false ∧
    (v3d_qpu_instr_unpack { ver := 71 } 4035279721830019072 {}).map
        (fun R => decide ((v3d_qpu_instr_pack { ver := 71 } R).bind
          (fun W => v3d_qpu_instr_unpack { ver := 71 } W {}) = some R)) = some false ∧
    (v3d_qpu_instr_unpack { ver := 71 } 4035279721830019075 {}).map
        (fun R => decide ((v3d_qpu_instr_pack { ver := 71 } R).bind
          (fun W => v3d_qpu_instr_unpack { ver := 71 } W {}) = some R)) = some false ∧
    (v3d_qpu_instr_unpack { ver := 71 } 4035279721846796288 {}).map
        (fun R => decide ((v3d_qpu_instr_pack { ver := 71 } R).bind
          (fun W => v3d_qpu_instr_unpack { ver := 71 } W {}) = some R)) = some false ∧
    (v3d_qpu_instr_unpack { ver := 71 } 4035279721846796321 {}).map
        (fun R => decide ((v3d_qpu_instr_pack { ver := 71 } R).bind
          (fun W => v3d_qpu_instr_unpack { ver := 71 } W {}) = some R)) = some false ∧
    (v3d_qpu_instr_unpack { ver := 71 } 4035279720873717760 {}).map
        (fun R => decide ((v3d_qpu_instr_pack { ver := 71 } R).bind
          (fun W => v3d_qpu_instr_unpack { ver := 71 } W {}) = some R)) = some false ∧
    (v3d_qpu_instr_unpack { ver := 71 } 4035279720890494976 {}).map
        (fun R => decide ((v3d_qpu_instr_pack { ver := 71 } R).bind
          (fun W => v3d_qpu_instr_unpack { ver := 71 } W {}) = some R)) = some false ∧
    (v3d_qpu_instr_unpack { ver := 71 } 4035279695137468416 {}).map
        (fun R => decide ((v3d_qpu_instr_pack { ver := 71 } R).bind
          (fun W => v3d_qpu_instr_unpack { ver := 71 } W {}) = some R)) = some false ∧
    (v3d_qpu_instr_unpack { ver := 42 } 144115188092641280 {}).map
        (fun R => decide ((v3d_qpu_instr_pack { ver := 42 } R).bind
          (fun W => v3d_qpu_instr_unpack { ver := 42 } W {}) = some R)) = some false ∧
    (v3d_qpu_instr_unpack { ver := 42 } 144115222435602432 {}).map
        (fun R => decide ((v3d_qpu_instr_pack { ver := 42 } R).bind
          (fun W => v3d_qpu_instr_unpack { ver := 42 } W {}) = some R)) = some false ∧
    (v3d_qpu_instr_unpack { ver := 42 } 144115188075860032 {}).map
        (fun R => decide ((v3d_qpu_instr_pack { ver := 42 } R).bind
          (fun W => v3d_qpu_instr_unpack { ver := 42 } W {}) = some R)) = some false := by
  refine ⟨?_, ?_, ?_, ?_, ?_, ?_, ?_, ?_, ?_, ?_, ?_, ?_, ?_, ?_, ?_, ?_⟩ <;> decide

/-! ## C1: word, record, word -/

/-- C1 (counterexample): at version 42 `v3d_qpu_instr_unpack` succeeds on the word
4323510097016819712 (ADD opcode 187 with selectors `add_a = 1`, `add_b = 1`: FXCD,
an operation without sources, whose `add_a` the decoder does not read), and
`v3d_qpu_instr_pack` applied to the decoded record succeeds and returns
4323510097016815616, the word with `add_a = 0`, not the word decoded. -/
theorem pack_unpack_word_counterexample :
    v3d_qpu_instr_unpack { ver := 42 } 4323510097016819712 {} =
      some { alu := { add := { op := V3D_QPU_A_FXCD, a := ⟨1, 0⟩, b := ⟨1, 0⟩,
                               waddr := V3D_QPU_WADDR_NOP, magic_write := true },
                      mul := { op := V3D_QPU_M_NOP, a := ⟨0, 0⟩, b := ⟨4, 0⟩,
                               waddr := V3D_QPU_WADDR_NOP, magic_write := true } } } ∧
    v3d_qpu_instr_pack { ver := 42 }
      { alu := { add := { op := V3D_QPU_A_FXCD, a := ⟨1, 0⟩, b := ⟨1, 0⟩,
                          waddr := V3D_QPU_WADDR_NOP, magic_write := true },
                 mul := { op := V3D_QPU_M_NOP, a := ⟨0, 0⟩, b := ⟨4, 0⟩,
                          waddr := V3D_QPU_WADDR_NOP, magic_write := true } } } =
      some 4323510097016815616 := by
  decide

/-- C1 (amended): for every version in 33, 40, 41, 42, 71 and every 64-bit word W
in canonical form (`v3d_qpu_word_canonical`) on which `v3d_qpu_instr_unpack`
succeeds with record R, whatever the record held before, `v3d_qpu_instr_pack`
on R succeeds and returns exactly W. -/
theorem pack_unpack_word_canonical (devinfo : v3d_device_info)
    (hver : devinfo.ver = 33 ∨ devinfo.ver = 40 ∨ devinfo.ver = 41 ∨ devinfo.ver = 42 ∨
      devinfo.ver = 71)
    (W : Nat) (hW : W < 2 ^ 64) (i0 R : v3d_qpu_instr)
    (hc : v3d_qpu_word_canonical devinfo W = true)
    (hu : v3d_qpu_instr_unpack devinfo W i0 = some R) :
    v3d_qpu_instr_pack devinfo R = some W :=
  v3d_qpu_instr_unpack_pack_of_canonical devinfo hver W hW i0 R hc hu

theorem pack_unpack_word_canonical_witness :
    v3d_qpu_instr_pack { ver := 42 }
      { alu := { add := { op := V3D_QPU_A_FADD, a := ⟨1, 0⟩, b := ⟨2, 0⟩, waddr := 3,
                          magic_write := true, output_pack := V3D_QPU_PACK_H },
                 mul := { op := V3D_QPU_M_FMUL, a := ⟨3, V3D_QPU_UNPACK_L⟩, b := ⟨4, 0⟩,
                          waddr := 9, magic_write := true,
                          output_pack := V3D_QPU_PACK_L } } } =
      some 11817500686194380800 :=
  pack_unpack_word_canonical { ver := 42 } (Or.inr (Or.inr (Or.inr (Or.inl rfl))))
    11817500686194380800 (by decide) {} _ (by decide) (by decide)

/-! ## C2: record, word, record -/

/-- C2 (counterexample): at version 42 `v3d_qpu_instr_unpack` succeeds on the word
4323510093812375552 (ADD opcode 252 with `add_b = 1`: ITOF, an operation with one
source, whose `add_b` the decoder stores but does not use), `v3d_qpu_instr_pack`
on the decoded record succeeds and returns 4323510093812342784, and unpacking
that word gives a record whose `alu.add.b.mux` is 0, not the 1 of the decoded
record. -/
theorem unpack_pack_record_counterexample :
    v3d_qpu_instr_unpack { ver := 42 } 4323510093812375552 {} =
      some { alu := { add := { op := V3D_QPU_A_ITOF, a := ⟨2, 0⟩, b := ⟨1, 0⟩,
                               waddr := 5, magic_write := true },
                      mul := { op := V3D_QPU_M_NOP, a := ⟨0, 0⟩, b := ⟨4, 0⟩,
                               waddr := V3D_QPU_WADDR_NOP, magic_write := true } } } ∧
    v3d_qpu_instr_pack { ver := 42 }
      { alu := { add := { op := V3D_QPU_A_ITOF, a := ⟨2, 0⟩, b := ⟨1, 0⟩,
                          waddr := 5, magic_write := true },
                 mul := { op := V3D_QPU_M_NOP, a := ⟨0, 0⟩, b := ⟨4, 0⟩,
                          waddr := V3D_QPU_WADDR_NOP, magic_write := true } } } =
      some 4323510093812342784 ∧
    v3d_qpu_instr_unpack { ver := 42 } 4323510093812342784 {} =
      some { alu := { add := { op := V3D_QPU_A_ITOF, a := ⟨2, 0⟩, b := ⟨0, 0⟩,
                               waddr := 5, magic_write := true },
                      mul := { op := V3D_QPU_M_NOP, a := ⟨0, 0⟩, b := ⟨4, 0⟩,
                               waddr := V3D_QPU_WADDR_NOP, magic_write := true } } } := by
  decide

/-- C2 (amended): for every version in 33, 40, 41, 42, 71 and every record R that
`v3d_qpu_instr_unpack` produces from a 64-bit word W in
`v3d_qpu_word_record_canonical`, whatever the record held before,
`v3d_qpu_instr_pack` on R succeeds, and unpacking the packed word into the
record the decoder started from yields R itself: every decoded member is as in
R, and the other members are the ones R inherited. -/
theorem unpack_pack_record_canonical (devinfo : v3d_device_info)
    (hver : devinfo.ver = 33 ∨ devinfo.ver = 40 ∨ devinfo.ver = 41 ∨ devinfo.ver = 42 ∨
      devinfo.ver = 71)
    (W : Nat) (hW : W < 2 ^ 64) (i0 R : v3d_qpu_instr)
    (hc : v3d_qpu_word_record_canonical devinfo W = true)
    (hu : v3d_qpu_instr_unpack devinfo W i0 = some R) :
    ∃ W', v3d_qpu_instr_pack devinfo R = some W' ∧
      v3d_qpu_instr_unpack devinfo W' i0 = some R :=
  v3d_qpu_instr_unpack_pack_unpack_of_canonical devinfo hver W hW i0 R hc hu

theorem unpack_pack_record_canonical_witness :
    ∃ W', v3d_qpu_instr_pack { ver := 33 }
        { sig := { small_imm_b := true },
          alu := { add := { op := V3D_QPU_A_ADD, a := ⟨1, 0⟩, b := ⟨2, 0⟩, waddr := 7,
                            magic_write := true },
                   mul := { op := V3D_QPU_M_NOP, a := ⟨0, 0⟩, b := ⟨4, 0⟩,
                            waddr := V3D_QPU_WADDR_NOP, magic_write := true } } } = some W' ∧
      v3d_qpu_instr_unpack { ver := 33 } W' {} =
        some { sig := { small_imm_b := true },
               alu := { add := { op := V3D_QPU_A_ADD, a := ⟨1, 0⟩, b := ⟨2, 0⟩, waddr := 7,
                                 magic_write := true },
                        mul := { op := V3D_QPU_M_NOP, a := ⟨0, 0⟩, b := ⟨4, 0⟩,
                                 waddr := V3D_QPU_WADDR_NOP, magic_write := true } } } :=
  unpack_pack_record_canonical { ver := 33 } (Or.inl rfl)
    4602733276010975232 (by decide) {} _ (by decide) (by decide)

/-! ## C28, C29: opcode folding and the sub-codecs -/

/-- C28 (counterexample): the ADD opcode 250 is looked up as opcode 246, not 245,
and the two lookups differ: at version 42 with `mux_a = 0`, `mux_b = 0` opcode
246 is the row of FFLOOR and opcode 245 the row of FROUND. -/
theorem add_unpack_map_op_counterexample :
    v3d33_qpu_add_unpack_map_op 250 = 246 ∧
    (lookup_opcode_from_packed { ver := 42 } add_ops_v33 246 0 0 0).map (fun d => d.op) =
      some V3D_QPU_A_FFLOOR ∧
    (lookup_opcode_from_packed { ver := 42 } add_ops_v33 245 0 0 0).map (fun d => d.op) =
      some V3D_QPU_A_FROUND ∧
    (v3d33_qpu_add_unpack_core { ver := 42 } 250 0 0 0 false).map (fun r => r.op) =
      some V3D_QPU_A_FFLOOR := by
  decide

/-- C28 (amended): in `v3d33_qpu_add_unpack` the ADD opcodes 249, 250, 251 are
looked up in `add_ops_v33` as 245, 246, 247, and the opcodes 253, 254, 255 as
245, 246, 247 as well; every other opcode is looked up as itself.  The decoder
fails when the lookup of the folded opcode finds no descriptor, and otherwise
starts from the operation of the descriptor found. -/
theorem add_unpack_map_op_folds :
    v3d33_qpu_add_unpack_map_op 249 = 245 ∧ v3d33_qpu_add_unpack_map_op 250 = 246 ∧
    v3d33_qpu_add_unpack_map_op 251 = 247 ∧ v3d33_qpu_add_unpack_map_op 253 = 245 ∧
    v3d33_qpu_add_unpack_map_op 254 = 246 ∧ v3d33_qpu_add_unpack_map_op 255 = 247 ∧
    (∀ op, ¬ (249 ≤ op ∧ op ≤ 251) → ¬ (253 ≤ op ∧ op ≤ 255) →
      v3d33_qpu_add_unpack_map_op op = op) ∧
    (∀ (devinfo : v3d_device_info) (op mux_a mux_b waddr : Nat) (ma : Bool),
      lookup_opcode_from_packed devinfo add_ops_v33 (v3d33_qpu_add_unpack_map_op op)
          mux_a mux_b 0 = none →
        v3d33_qpu_add_unpack_core devinfo op mux_a mux_b waddr ma = none) ∧
    (∀ (devinfo : v3d_device_info) (op mux_a mux_b waddr : Nat) (ma : Bool)
        (r : alu_unpack_fields),
      v3d33_qpu_add_unpack_core devinfo op mux_a mux_b waddr ma = some r →
        ∃ desc, lookup_opcode_from_packed devinfo add_ops_v33
            (v3d33_qpu_add_unpack_map_op op) mux_a mux_b 0 = some desc) := by
  refine ⟨by decide, by decide, by decide, by decide, by decide, by decide, ?_, ?_, ?_⟩
  · intro op h1 h2
    unfold v3d33_qpu_add_unpack_map_op
    dsimp only
    rw [if_neg h1, if_neg h2]
  · intro devinfo op mux_a mux_b waddr ma h
    unfold v3d33_qpu_add_unpack_core
    rw [h]
  · intro devinfo op mux_a mux_b waddr ma r h
    unfold v3d33_qpu_add_unpack_core at h
    cases hl : lookup_opcode_from_packed devinfo add_ops_v33
        (v3d33_qpu_add_unpack_map_op op) mux_a mux_b 0 with
    | none => rw [hl] at h; exact absurd h (by simp)
    | some desc => exact ⟨desc, rfl⟩

/-- C29: the field sub-codecs use exactly the encodings float32 output pack
NONE 0, L 1, H 2; float32 unpack ABS 0, NONE 1, L 2, H 3; int32 unpack NONE 0,
UL 1, UH 2, IL 3, IH 4; float16 unpack NONE 0, REPLICATE_32F_16 1,
REPLICATE_L_16 2, REPLICATE_H_16 3, SWAP_16 4.  Each `*_pack` function fails on
every other value, each `*_unpack_unpack` function fails on every other code,
and for the three input-unpack codecs packing and unpacking are inverse of each
other wherever one of them succeeds. -/
theorem sub_codecs_encodings_inverse :
    (v3d_qpu_float32_pack_pack V3D_QPU_PACK_NONE = some 0 ∧
     v3d_qpu_float32_pack_pack V3D_QPU_PACK_L = some 1 ∧
     v3d_qpu_float32_pack_pack V3D_QPU_PACK_H = some 2 ∧
     (∀ p, p ≠ V3D_QPU_PACK_NONE → p ≠ V3D_QPU_PACK_L → p ≠ V3D_QPU_PACK_H →
       v3d_qpu_float32_pack_pack p = none)) ∧
    (v3d_qpu_float32_unpack_pack V3D_QPU_UNPACK_ABS = some 0 ∧
     v3d_qpu_float32_unpack_pack V3D_QPU_UNPACK_NONE = some 1 ∧
     v3d_qpu_float32_unpack_pack V3D_QPU_UNPACK_L = some 2 ∧
     v3d_qpu_float32_unpack_pack V3D_QPU_UNPACK_H = some 3 ∧
     (∀ u, u ≠ V3D_QPU_UNPACK_ABS → u ≠ V3D_QPU_UNPACK_NONE → u ≠ V3D_QPU_UNPACK_L →
       u ≠ V3D_QPU_UNPACK_H → v3d_qpu_float32_unpack_pack u = none) ∧
     v3d_qpu_float32_unpack_unpack 0 = some V3D_QPU_UNPACK_ABS ∧
     v3d_qpu_float32_unpack_unpack 1 = some V3D_QPU_UNPACK_NONE ∧
     v3d_qpu_float32_unpack_unpack 2 = some V3D_QPU_UNPACK_L ∧
     v3d_qpu_float32_unpack_unpack 3 = some V3D_QPU_UNPACK_H ∧
     (∀ c, 4 ≤ c → v3d_qpu_float32_unpack_unpack c = none) ∧
     (∀ u c, v3d_qpu_float32_unpack_pack u = some c ↔
       v3d_qpu_float32_unpack_unpack c = some u)) ∧
    (v3d_qpu_int32_unpack_pack V3D_QPU_UNPACK_NONE = some 0 ∧
     v3d_qpu_int32_unpack_pack V3D_QPU_UNPACK_UL = some 1 ∧
     v3d_qpu_int32_unpack_pack V3D_QPU_UNPACK_UH = some 2 ∧
     v3d_qpu_int32_unpack_pack V3D_QPU_UNPACK_IL = some 3 ∧
     v3d_qpu_int32_unpack_pack V3D_QPU_UNPACK_IH = some 4 ∧
     (∀ u, u ≠ V3D_QPU_UNPACK_NONE → u ≠ V3D_QPU_UNPACK_UL → u ≠ V3D_QPU_UNPACK_UH →
       u ≠ V3D_QPU_UNPACK_IL → u ≠ V3D_QPU_UNPACK_IH → v3d_qpu_int32_unpack_pack u = none) ∧
     v3d_qpu_int32_unpack_unpack 0 = some V3D_QPU_UNPACK_NONE ∧
     v3d_qpu_int32_unpack_unpack 1 = some V3D_QPU_UNPACK_UL ∧
     v3d_qpu_int32_unpack_unpack 2 = some V3D_QPU_UNPACK_UH ∧
     v3d_qpu_int32_unpack_unpack 3 = some V3D_QPU_UNPACK_IL ∧
     v3d_qpu_int32_unpack_unpack 4 = some V3D_QPU_UNPACK_IH ∧
     (∀ c, 5 ≤ c → v3d_qpu_int32_unpack_unpack c = none) ∧
     (∀ u c, v3d_qpu_int32_unpack_pack u = some c ↔
       v3d_qpu_int32_unpack_unpack c = some u)) ∧
    (v3d_qpu_float16_unpack_pack V3D_QPU_UNPACK_NONE = some 0 ∧
     v3d_qpu_float16_unpack_pack V3D_QPU_UNPACK_REPLICATE_32F_16 = some 1 ∧
     v3d_qpu_float16_unpack_pack V3D_QPU_UNPACK_REPLICATE_L_16 = some 2 ∧
     v3d_qpu_float16_unpack_pack V3D_QPU_UNPACK_REPLICATE_H_16 = some 3 ∧
     v3d_qpu_float16_unpack_pack V3D_QPU_UNPACK_SWAP_16 = some 4 ∧
     (∀ u, u ≠ V3D_QPU_UNPACK_NONE → u ≠ V3D_QPU_UNPACK_REPLICATE_32F_16 →
       u ≠ V3D_QPU_UNPACK_REPLICATE_L_16 → u ≠ V3D_QPU_UNPACK_REPLICATE_H_16 →
       u ≠ V3D_QPU_UNPACK_SWAP_16 → v3d_qpu_float16_unpack_pack u = none) ∧
     v3d_qpu_float16_unpack_unpack 0 = some V3D_QPU_UNPACK_NONE ∧
     v3d_qpu_float16_unpack_unpack 1 = some V3D_QPU_UNPACK_REPLICATE_32F_16 ∧
     v3d_qpu_float16_unpack_unpack 2 = some V3D_QPU_UNPACK_REPLICATE_L_16 ∧
     v3d_qpu_float16_unpack_unpack 3 = some V3D_QPU_UNPACK_REPLICATE_H_16 ∧
     v3d_qpu_float16_unpack_unpack 4 = some V3D_QPU_UNPACK_SWAP_16 ∧
     (∀ c, 5 ≤ c → v3d_qpu_float16_unpack_unpack c = none) ∧
     (∀ u c, v3d_qpu_float16_unpack_pack u = some c ↔
       v3d_qpu_float16_unpack_unpack c = some u)) := by
  refine ⟨⟨by decide, by decide, by decide, ?_⟩,
    ⟨by decide, by decide, by decide, by decide, ?_, by decide, by decide, by decide,
      by decide, ?_, ?_⟩,
    ⟨by decide, by decide, by decide, by decide, by decide, ?_, by decide, by decide,
      by decide, by decide, by decide, ?_, ?_⟩,
    ⟨by decide, by decide, by decide, by decide, by decide, ?_, by decide, by decide,
      by decide, by decide, by decide, ?_, ?_⟩⟩
  · intro p h1 h2 h3
    unfold v3d_qpu_float32_pack_pack
    rw [if_neg h1, if_neg h2, if_neg h3]
  · intro u h1 h2 h3 h4
    unfold v3d_qpu_float32_unpack_pack
    rw [if_neg h1, if_neg h2, if_neg h3, if_neg h4]
  · intro c h
    unfold v3d_qpu_float32_unpack_unpack
    rw [if_neg (by omega), if_neg (by omega), if_neg (by omega), if_neg (by omega)]
  · intro u c
    unfold v3d_qpu_float32_unpack_pack v3d_qpu_float32_unpack_unpack
    simp only [V3D_QPU_UNPACK_ABS, V3D_QPU_UNPACK_NONE, V3D_QPU_UNPACK_L, V3D_QPU_UNPACK_H]
    constructor
    · intro h
      split_ifs at h <;> cases h <;> subst_vars <;> decide
    · intro h
      split_ifs at h <;> cases h <;> subst_vars <;> decide
  · intro u h1 h2 h3 h4 h5
    unfold v3d_qpu_int32_unpack_pack
    rw [if_neg h1, if_neg h2, if_neg h3, if_neg h4, if_neg h5]
  · intro c h
    unfold v3d_qpu_int32_unpack_unpack
    rw [if_neg (by omega), if_neg (by omega), if_neg (by omega), if_neg (by omega),
      if_neg (by omega)]
  · intro u c
    unfold v3d_qpu_int32_unpack_pack v3d_qpu_int32_unpack_unpack
    simp only [V3D_QPU_UNPACK_NONE, V3D_QPU_UNPACK_UL, V3D_QPU_UNPACK_UH, V3D_QPU_UNPACK_IL,
      V3D_QPU_UNPACK_IH]
    constructor
    · intro h
      split_ifs at h <;> cases h <;> subst_vars <;> decide
    · intro h
      split_ifs at h <;> cases h <;> subst_vars <;> decide
  · intro u h1 h2 h3 h4 h5
    unfold v3d_qpu_float16_unpack_pack
    rw [if_neg h1, if_neg h2, if_neg h3, if_neg h4, if_neg h5]
  · intro c h
    unfold v3d_qpu_float16_unpack_unpack
    rw [if_neg (by omega), if_neg (by omega), if_neg (by omega), if_neg (by omega),
      if_neg (by omega)]
  · intro u c
    unfold v3d_qpu_float16_unpack_pack v3d_qpu_float16_unpack_unpack
    simp only [V3D_QPU_UNPACK_NONE, V3D_QPU_UNPACK_REPLICATE_32F_16,
      V3D_QPU_UNPACK_REPLICATE_L_16, V3D_QPU_UNPACK_REPLICATE_H_16, V3D_QPU_UNPACK_SWAP_16]
    constructor
    · intro h
      split_ifs at h <;> cases h <;> subst_vars <;> decide
    · intro h
      split_ifs at h <;> cases h <;> subst_vars <;> decide

theorem cstr_at_nil (k : Nat) : cstr_at [] k = NUL := rfl

theorem cstr_at_cons_zero (c : Char) (l : List Char) : cstr_at (c :: l) 0 = c := rfl

theorem cstr_at_cons_succ (c : Char) (l : List Char) (k : Nat) :
    cstr_at (c :: l) (k + 1) = cstr_at l k := rfl

theorem cstr_at_append_length (x e : List Char) : cstr_at (x ++ e) x.length = cstr_at e 0 := by
  induction x with
  | nil => rfl
  | cons c x ih => simpa [cstr_at] using ih

/-- A name without NUL that is not empty matches the text made of the name and
a rest that starts with a delimiter (or is empty), and the match ends at the rest. -/
theorem v3d_symbol_equals_append (s e : List Char) (hs : s ≠ [])
    (hn : ∀ c ∈ s, c ≠ NUL) (he : v3d_symbol_delimiter (cstr_at e 0) = true) :
    v3d_symbol_equals s (s ++ e) = some e := by
  induction s with
  | nil => exact absurd rfl hs
  | cons a rest ih =>
    have ha : a ≠ NUL := hn a (List.mem_cons_self _ _)
    unfold v3d_symbol_equals
    simp only [List.cons_append, cstr_at_cons_zero, List.drop_succ_cons, List.drop_zero]
    rw [if_pos ⟨ha, ha, trivial⟩]
    cases rest with
    | nil =>
      simp only [List.nil_append, cstr_at_nil]
      rw [if_pos ⟨trivial, he⟩]
    | cons b r =>
      have hb : b ≠ NUL := hn b (List.mem_cons_of_mem _ (List.mem_cons_self _ _))
      rw [if_neg (by simp only [cstr_at_cons_zero]; exact fun h => hb h.1)]
      exact ih (by simp) (fun c hc => hn c (List.mem_cons_of_mem _ hc))

/-- A match of a name without NUL: the text is the name followed by the returned
rest, and the rest starts with a delimiter (or is empty). -/
theorem v3d_symbol_equals_some (s : List Char) (hn : ∀ c ∈ s, c ≠ NUL) :
    ∀ (c e : List Char), v3d_symbol_equals s c = some e →
      c = s ++ e ∧ v3d_symbol_delimiter (cstr_at e 0) = true := by
  induction s with
  | nil => intro c e h; simp [v3d_symbol_equals] at h
  | cons a rest ih =>
    intro c e h
    unfold v3d_symbol_equals at h
    by_cases hc : a ≠ NUL ∧ cstr_at c 0 ≠ NUL ∧ a = cstr_at c 0
    · rw [if_pos hc] at h
      obtain ⟨ha, _, hac⟩ := hc
      cases c with
      | nil => rw [cstr_at_nil] at hac; exact absurd hac ha
      | cons c0 c' =>
        rw [cstr_at_cons_zero] at hac
        subst hac
        simp only [List.drop_succ_cons, List.drop_zero] at h
        by_cases hd : cstr_at rest 0 = NUL ∧ v3d_symbol_delimiter (cstr_at c' 0) = true
        · rw [if_pos hd] at h
          cases h
          cases rest with
          | nil => exact ⟨rfl, hd.2⟩
          | cons b r =>
            rw [cstr_at_cons_zero] at hd
            exact absurd hd.1 (hn b (List.mem_cons_of_mem _ (List.mem_cons_self _ _)))
        · rw [if_neg hd] at h
          obtain ⟨h1, h2⟩ := ih (fun x hx => hn x (List.mem_cons_of_mem _ hx)) c' e h
          exact ⟨by rw [h1]; rfl, h2⟩
    · rw [if_neg hc] at h
      exact absurd h (by simp)

/-- Two names of a list for which `name_ends_inside` fails both ways: a text
made of one of them and a rest that starts with a delimiter is matched by the
other only if the two are the same name. -/
theorem v3d_symbol_equals_other (x s e e' : List Char) (hx : ∀ c ∈ x, c ≠ NUL)
    (he : v3d_symbol_delimiter (cstr_at e 0) = true)
    (h1 : name_ends_inside x s = false) (h2 : name_ends_inside s x = false)
    (h : v3d_symbol_equals x (s ++ e) = some e') : x = s := by
  obtain ⟨hc, hd⟩ := v3d_symbol_equals_some x hx _ _ h
  rcases List.append_eq_append_iff.mp hc with ⟨a, ha, hb⟩ | ⟨a, ha, hb⟩
  · -- x = s ++ a
    cases a with
    | nil => simpa using ha
    | cons a0 a' =>
      exfalso
      have : name_ends_inside s x = true := by
        unfold name_ends_inside
        rw [ha]
        have hd0 : cstr_at (s ++ a0 :: a') s.length = a0 := by
          rw [cstr_at_append_length]; rfl
        have he0 : cstr_at e 0 = a0 := by rw [hb]; rfl
        rw [hd0, ← he0, he]
        simp
      rw [this] at h2
      exact absurd h2 (by simp)
  · -- s = x ++ a
    cases a with
    | nil => simpa using ha.symm
    | cons a0 a' =>
      exfalso
      have : name_ends_inside x s = true := by
        unfold name_ends_inside
        rw [ha]
        have hd0 : cstr_at (x ++ a0 :: a') x.length = a0 := by
          rw [cstr_at_append_length]; rfl
        have he0 : cstr_at e' 0 = a0 := by rw [hb]; rfl
        rw [hd0, ← he0, hd]
        simp
      rw [this] at h1
      exact absurd h1 (by simp)

/-- The search over a list of names whose members do not end inside `s`, and
inside none of which `s` ends, finds the first position of `s`. -/
theorem v3d_name_list_search_append (s : String) (e : List Char) (hs : s.toList ≠ [])
    (hn : ∀ c ∈ s.toList, c ≠ NUL)
    (he : v3d_symbol_delimiter (cstr_at e 0) = true) :
    ∀ (l : List String) (k : Nat), s ∈ l →
      (∀ x ∈ l, (∀ c ∈ x.toList, c ≠ NUL) ∧
        (x.toList = [] ∨ name_ends_inside x.toList s.toList = false) ∧
        name_ends_inside s.toList x.toList = false) →
      v3d_name_list_search (s.toList ++ e) l k = some (k + l.indexOf s, e) := by
  intro l
  induction l with
  | nil => intro k hm; exact absurd hm (List.not_mem_nil _)
  | cons x rest ih =>
    intro k hm hall
    unfold v3d_name_list_search
    by_cases hxs : x = s
    · subst hxs
      rw [v3d_symbol_equals_append _ _ hs hn he]
      simp
    · have hnone : v3d_symbol_equals x.toList (s.toList ++ e) = none := by
        cases hq : v3d_symbol_equals x.toList (s.toList ++ e) with
        | none => rfl
        | some e' =>
          exfalso
          obtain ⟨a1, a2, a3⟩ := hall x (List.mem_cons_self _ _)
          rcases a2 with a2 | a2
          · rw [a2] at hq
            simp [v3d_symbol_equals] at hq
          · have := v3d_symbol_equals_other _ _ _ _ a1 he a2 a3 hq
            exact hxs (String.ext this)
      rw [hnone]
      have hm' : s ∈ rest := by
        rcases List.mem_cons.mp hm with h | h
        · exact absurd h.symm hxs
        · exact h
      rw [ih (k + 1) hm' (fun y hy => hall y (List.mem_cons_of_mem _ hy))]
      rw [List.indexOf_cons_ne _ hxs]
      rw [show k + 1 + List.indexOf s rest = k + (List.indexOf s rest + 1) by omega]

/-- In an unambiguous list the search for a name of the list followed by a
delimiter finds the first position of the name. -/
theorem v3d_name_list_search_unambiguous (l : List String)
    (hl : name_list_unambiguous l = true) (s : String) (hm : s ∈ l) (hs : s.toList ≠ [])
    (e : List Char) (he : v3d_symbol_delimiter (cstr_at e 0) = true) (k : Nat) :
    v3d_name_list_search (s.toList ++ e) l k = some (k + l.indexOf s, e) := by
  unfold name_list_unambiguous at hl
  simp only [Bool.and_eq_true, List.all_eq_true, bne_iff_ne, ne_eq, Bool.or_eq_true, beq_iff_eq,
    Bool.not_eq_true'] at hl
  obtain ⟨hnul, hpair⟩ := hl
  refine v3d_name_list_search_append s e hs (hnul s hm) he l k hm ?_
  intro x hx
  refine ⟨hnul x hx, hpair x hx s hm, ?_⟩
  rcases hpair s hm x hx with h | h
  · exact absurd h hs
  · exact h

/-! ## C25, C26: small immediates and register file numbers in the assembler -/

set_option maxRecDepth 1000000 in
theorem small_immediates_names_unambiguous :
    name_list_unambiguous small_immediates_names = true := by
  decide

/-- `v3d_qpu_small_imm_from_name` on a spelling of the table followed by a
delimiter (or the end of the text) returns the packed index listed for the
first entry with that spelling, and the rest of the text. -/
theorem v3d_qpu_small_imm_from_name_spelling (s : String) (hm : s ∈ small_immediates_names)
    (e : List Char) (he : v3d_symbol_delimiter (cstr_at e 0) = true) :
    v3d_qpu_small_imm_from_name (s.toList ++ e) =
      some (small_immediates_packed_indices.getD (small_immediates_names.indexOf s) 0, e) := by
  have hs : s.toList ≠ [] := by
    intro h
    have : s = "" := String.ext h
    subst this
    exact absurd hm (by decide)
  unfold v3d_qpu_small_imm_from_name
  rw [v3d_name_list_search_unambiguous _ small_immediates_names_unambiguous s hm hs e he 0]
  simp only [Nat.zero_add]

/-- C25 (counterexample): the spelling "16" is accepted and returns the packed
index 16, which `v3d_qpu_small_imm_unpack` decodes to 4294967280, the 32-bit
two's complement of -16, not to 16. -/
theorem small_imm_from_name_counterexample :
    v3d_qpu_small_imm_from_name "16".toList = some (16, []) ∧
    v3d_qpu_small_imm_unpack 16 = some 4294967280 := by
  decide

/-- C25 (amended): for every integer n from -16 to 15, `v3d_qpu_small_imm_from_name`
on the decimal spelling of n followed by a delimiter (or the end of the text)
returns a packed index that `v3d_qpu_small_imm_unpack` decodes to the 32-bit
two's complement of n, and the rest of the text; for every n from 16 to 31 it
returns the packed index n, which decodes to the two's complement of n - 32. -/
theorem small_imm_from_name_decodes (n : Int) (hlo : -16 ≤ n) (hhi : n ≤ 31)
    (e : List Char) (he : v3d_symbol_delimiter (cstr_at e 0) = true) :
    ∃ p, v3d_qpu_small_imm_from_name (format_d n ++ e) = some (p, e) ∧
      (n ≤ 15 → v3d_qpu_small_imm_unpack p = some (n % 4294967296).toNat) ∧
      (16 ≤ n → p = n.toNat ∧
        v3d_qpu_small_imm_unpack p = some ((n - 32) % 4294967296).toNat) := by
  have key : ∀ s : String, s ∈ small_immediates_names → format_d n = s.toList →
      ((n ≤ 15 → v3d_qpu_small_imm_unpack
          (small_immediates_packed_indices.getD (small_immediates_names.indexOf s) 0) =
            some (n % 4294967296).toNat) ∧
        (16 ≤ n →
          small_immediates_packed_indices.getD (small_immediates_names.indexOf s) 0 = n.toNat ∧
          v3d_qpu_small_imm_unpack
            (small_immediates_packed_indices.getD (small_immediates_names.indexOf s) 0) =
              some ((n - 32) % 4294967296).toNat)) →
      ∃ p, v3d_qpu_small_imm_from_name (format_d n ++ e) = some (p, e) ∧
        (n ≤ 15 → v3d_qpu_small_imm_unpack p = some (n % 4294967296).toNat) ∧
        (16 ≤ n → p = n.toNat ∧
          v3d_qpu_small_imm_unpack p = some ((n - 32) % 4294967296).toNat) := by
    intro s hm hf hv
    rw [hf, v3d_qpu_small_imm_from_name_spelling s hm e he]
    exact ⟨_, rfl, hv⟩
  interval_cases n
  · exact key "-16" (by decide) (by decide) (by decide)
  · exact key "-15" (by decide) (by decide) (by decide)
  · exact key "-14" (by decide) (by decide) (by decide)
  · exact key "-13" (by decide) (by decide) (by decide)
  · exact key "-12" (by decide) (by decide) (by decide)
  · exact key "-11" (by decide) (by decide) (by decide)
  · exact key "-10" (by decide) (by decide) (by decide)
  · exact key "-9" (by decide) (by decide) (by decide)
  · exact key "-8" (by decide) (by decide) (by decide)
  · exact key "-7" (by decide) (by decide) (by decide)
  · exact key "-6" (by decide) (by decide) (by decide)
  · exact key "-5" (by decide) (by decide) (by decide)
  · exact key "-4" (by decide) (by decide) (by decide)
  · exact key "-3" (by decide) (by decide) (by decide)
  · exact key "-2" (by decide) (by decide) (by decide)
  · exact key "-1" (by decide) (by decide) (by decide)
  · exact key "0" (by decide) (by decide) (by decide)
  · exact key "1" (by decide) (by decide) (by decide)
  · exact key "2" (by decide) (by decide) (by decide)
  · exact key "3" (by decide) (by decide) (by decide)
  · exact key "4" (by decide) (by decide) (by decide)
  · exact key "5" (by decide) (by decide) (by decide)
  · exact key "6" (by decide) (by decide) (by decide)
  · exact key "7" (by decide) (by decide) (by decide)
  · exact key "8" (by decide) (by decide) (by decide)
  · exact key "9" (by decide) (by decide) (by decide)
  · exact key "10" (by decide) (by decide) (by decide)
  · exact key "11" (by decide) (by decide) (by decide)
  · exact key "12" (by decide) (by decide) (by decide)
  · exact key "13" (by decide) (by decide) (by decide)
  · exact key "14" (by decide) (by decide) (by decide)
  · exact key "15" (by decide) (by decide) (by decide)
  · exact key "16" (by decide) (by decide) (by decide)
  · exact key "17" (by decide) (by decide) (by decide)
  · exact key "18" (by decide) (by decide) (by decide)
  · exact key "19" (by decide) (by decide) (by decide)
  · exact key "20" (by decide) (by decide) (by decide)
  · exact key "21" (by decide) (by decide) (by decide)
  · exact key "22" (by decide) (by decide) (by decide)
  · exact key "23" (by decide) (by decide) (by decide)
  · exact key "24" (by decide) (by decide) (by decide)
  · exact key "25" (by decide) (by decide) (by decide)
  · exact key "26" (by decide) (by decide) (by decide)
  · exact key "27" (by decide) (by decide) (by decide)
  · exact key "28" (by decide) (by decide) (by decide)
  · exact key "29" (by decide) (by decide) (by decide)
  · exact key "30" (by decide) (by decide) (by decide)
  · exact key "31" (by decide) (by decide) (by decide)

theorem small_imm_from_name_decodes_witness :
    ∃ p, v3d_qpu_small_imm_from_name (format_d (-3) ++ ", r1".toList) = some (p, ", r1".toList) ∧
      ((-3 : Int) ≤ 15 → v3d_qpu_small_imm_unpack p = some ((-3 : Int) % 4294967296).toNat) ∧
      ((16 : Int) ≤ -3 → p = (-3 : Int).toNat ∧
        v3d_qpu_small_imm_unpack p = some (((-3 : Int) - 32) % 4294967296).toNat) :=
  small_imm_from_name_decodes (-3) (by decide) (by decide) ", r1".toList (by decide)

set_option maxRecDepth 1000000 in
/-- C26 (failing input): the text "rf5;" is a register file name followed by the
delimiter ';' of `v3d_symbol_equals`, and `v3d_assemble_parse_register_file`
returns FALSE on it; the same holds with a newline or a carriage return after
the digit, while "rf5," is read as register 5.  The test of the character after
the name is skipped when the name has two digits: "rf15;" is read as register
15 with the end pointer at the ';'.  So at version 42 the line
"add rf1, rf2, rf5; nop" is rejected by `v3d_qpu_assemble` (return value 0)
and the line "add rf1, rf2, rf15; nop" is assembled (return value 23). -/
theorem parse_register_file_counterexample :
    v3d_symbol_delimiter ';' = true ∧
    v3d_assemble_parse_register_file "rf5;".toList = none ∧
    v3d_assemble_parse_register_file ['r', 'f', '5', CH_NEWLINE] = none ∧
    v3d_assemble_parse_register_file ['r', 'f', '5', CH_RETURN] = none ∧
    v3d_assemble_parse_register_file "rf5,".toList = some (5, ",".toList) ∧
    v3d_assemble_parse_register_file "rf15;".toList = some (15, ";".toList) ∧
    (v3d_qpu_assemble_text 42 "add rf1, rf2, rf5; nop").1 = 0 ∧
    (v3d_qpu_assemble_text 42 "add rf1, rf2, rf15; nop").1 = 23 := by
  decide

/-- `v3d_assemble_parse_register_file` on a text with one digit after "rf" and no
digit after it. -/
theorem v3d_assemble_parse_register_file_one_digit (c : Char) (rest : List Char)
    (hc : '0' ≤ c ∧ c ≤ '9') (hd : ¬ (cstr_at rest 0 ≤ '9' ∧ cstr_at rest 0 ≥ '0')) :
    v3d_assemble_parse_register_file ('r' :: 'f' :: c :: rest) =
      if cstr_at rest 0 = NUL ∨ cstr_at rest 0 = '.' ∨ cstr_at rest 0 = ' ' ∨
          cstr_at rest 0 = CH_TAB ∨ cstr_at rest 0 = ',' then
        some (digit_value c, rest)
      else none := by
  unfold v3d_assemble_parse_register_file
  simp only [cstr_at_cons_zero, cstr_at_cons_succ, true_and, if_true]
  have h1 : ¬ (c > '9' ∨ c < '0') := by
    intro h
    rcases h with h | h
    · exact absurd hc.2 (not_le.mpr h)
    · exact absurd hc.1 (not_le.mpr h)
  rw [if_neg h1]
  have h2 : decide (cstr_at rest 0 ≤ '9' ∧ cstr_at rest 0 ≥ '0') = false := by
    simpa using hd
  simp only [h2]
  by_cases hq : cstr_at rest 0 = NUL ∨ cstr_at rest 0 = '.' ∨ cstr_at rest 0 = ' ' ∨
      cstr_at rest 0 = CH_TAB ∨ cstr_at rest 0 = ','
  · rw [if_pos hq, if_neg (by
      intro h
      rcases hq with q | q | q | q | q
      · exact h.1.1 q
      · exact h.1.2.1 q
      · exact h.1.2.2.1 q
      · exact h.1.2.2.2.1 q
      · exact h.1.2.2.2.2 q)]
    have h3 : ¬ digit_value c > 31 := by
      unfold digit_value
      have : c.toNat ≤ ('9' : Char).toNat := hc.2
      have e9 : ('9' : Char).toNat = 57 := by decide
      have e0 : ('0' : Char).toNat = 48 := by decide
      omega
    simp only [Bool.false_eq_true, if_false, if_neg h3, List.drop_succ_cons, List.drop_zero]
  · rw [if_neg hq, if_pos]
    refine ⟨⟨?_, ?_, ?_, ?_, ?_⟩, trivial⟩ <;> intro h <;> apply hq <;> simp [h]

/-- `v3d_assemble_parse_register_file` on a text with two digits after "rf". -/
theorem v3d_assemble_parse_register_file_two_digits (c d : Char) (rest : List Char)
    (hc : '0' ≤ c ∧ c ≤ '9') (hd : '0' ≤ d ∧ d ≤ '9') :
    v3d_assemble_parse_register_file ('r' :: 'f' :: c :: d :: rest) =
      if digit_value c * 10 + digit_value d > 31 then none
      else some (digit_value c * 10 + digit_value d, rest) := by
  unfold v3d_assemble_parse_register_file
  simp only [cstr_at_cons_zero, cstr_at_cons_succ, true_and, if_true]
  have h1 : ¬ (c > '9' ∨ c < '0') := by
    intro h
    rcases h with h | h
    · exact absurd hc.2 (not_le.mpr h)
    · exact absurd hc.1 (not_le.mpr h)
  rw [if_neg h1]
  have h2 : decide (d ≤ '9' ∧ d ≥ '0') = true := by
    simpa using ⟨hd.2, hd.1⟩
  simp only [h2, Bool.true_eq_false, and_false, if_false, if_true]
  have e9 : ('9' : Char).toNat = 57 := by decide
  have e0 : ('0' : Char).toNat = 48 := by decide
  have c1 : c.toNat ≤ ('9' : Char).toNat := hc.2
  have d1 : d.toNat ≤ ('9' : Char).toNat := hd.2
  have hm : (digit_value c * 10 + digit_value d) % 256 = digit_value c * 10 + digit_value d := by
    unfold digit_value
    omega
  rw [hm]
  simp only [List.drop_succ_cons, List.drop_zero]

/-- The decimal spelling of a number below 100. -/
theorem nat_repr_digits (n : Nat) (hn : n < 100) :
    (n < 10 → (Nat.repr n).toList = [Nat.digitChar n] ∧
      ('0' ≤ Nat.digitChar n ∧ Nat.digitChar n ≤ '9') ∧ digit_value (Nat.digitChar n) = n) ∧
    (10 ≤ n → (Nat.repr n).toList = [Nat.digitChar (n / 10), Nat.digitChar (n % 10)] ∧
      ('0' ≤ Nat.digitChar (n / 10) ∧ Nat.digitChar (n / 10) ≤ '9') ∧
      ('0' ≤ Nat.digitChar (n % 10) ∧ Nat.digitChar (n % 10) ≤ '9') ∧
      digit_value (Nat.digitChar (n / 10)) * 10 + digit_value (Nat.digitChar (n % 10)) = n) := by
  interval_cases n <;> decide

/-- C26 (what the code does): for every n from 0 to 31,
`v3d_assemble_parse_register_file` on the text "rf", the decimal digits of n
and a rest returns TRUE with register number n and the end pointer at the rest
when n has two digits (whatever the rest is), or when the rest is empty or
starts with '.', a space, a tab or ','; it returns FALSE when n has one digit
and the rest starts with a newline, a carriage return or ';', the other three
delimiters of `v3d_symbol_equals`, where the claim requires TRUE.  It never
returns TRUE with a register number above 31. -/
theorem parse_register_file_spec :
    (∀ (n : Nat) (rest : List Char), n ≤ 31 →
      (10 ≤ n ∨ cstr_at rest 0 = NUL ∨ cstr_at rest 0 = '.' ∨ cstr_at rest 0 = ' ' ∨
        cstr_at rest 0 = CH_TAB ∨ cstr_at rest 0 = ',') →
      v3d_assemble_parse_register_file ("rf".toList ++ (Nat.repr n).toList ++ rest) =
        some (n, rest)) ∧
    (∀ (n : Nat) (rest : List Char), n ≤ 9 →
      (cstr_at rest 0 = CH_NEWLINE ∨ cstr_at rest 0 = CH_RETURN ∨ cstr_at rest 0 = ';') →
      v3d_assemble_parse_register_file ("rf".toList ++ (Nat.repr n).toList ++ rest) = none) ∧
    (∀ (name : List Char) (r : Nat) (e : List Char),
      v3d_assemble_parse_register_file name = some (r, e) → r ≤ 31) := by
  refine ⟨?_, ?_, ?_⟩
  · intro n rest hn h
    obtain ⟨k1, k2⟩ := nat_repr_digits n (by omega)
    by_cases h10 : 10 ≤ n
    · obtain ⟨e1, hc, hd, hv⟩ := k2 h10
      rw [e1]
      show v3d_assemble_parse_register_file ('r' :: 'f' :: _ :: _ :: rest) = _
      rw [v3d_assemble_parse_register_file_two_digits _ _ rest hc hd, hv, if_neg (by omega)]
    · obtain ⟨e1, hc, hv⟩ := k1 (by omega)
      have hq : cstr_at rest 0 = NUL ∨ cstr_at rest 0 = '.' ∨ cstr_at rest 0 = ' ' ∨
          cstr_at rest 0 = CH_TAB ∨ cstr_at rest 0 = ',' := by
        rcases h with h | h
        · exact absurd h h10
        · exact h
      have hnd : ¬ (cstr_at rest 0 ≤ '9' ∧ cstr_at rest 0 ≥ '0') := by
        rcases hq with q | q | q | q | q <;> rw [q] <;> decide
      rw [e1]
      show v3d_assemble_parse_register_file ('r' :: 'f' :: _ :: rest) = _
      rw [v3d_assemble_parse_register_file_one_digit _ rest hc hnd, if_pos hq, hv]
  · intro n rest hn h
    obtain ⟨k1, _⟩ := nat_repr_digits n (by omega)
    obtain ⟨e1, hc, hv⟩ := k1 (by omega)
    have hnd : ¬ (cstr_at rest 0 ≤ '9' ∧ cstr_at rest 0 ≥ '0') := by
      rcases h with q | q | q <;> rw [q] <;> decide
    rw [e1]
    show v3d_assemble_parse_register_file ('r' :: 'f' :: _ :: rest) = _
    rw [v3d_assemble_parse_register_file_one_digit _ rest hc hnd, if_neg]
    rcases h with q | q | q <;> rw [q] <;> decide
  · intro name r e h
    have key : ∀ (x : Nat) (t : List Char),
        (if x > 31 then none else some (x, t)) = some (r, e) → r ≤ 31 := by
      intro x t hx
      split_ifs at hx with c
      cases hx
      omega
    unfold v3d_assemble_parse_register_file at h
    dsimp only at h
    split at h
    · split at h
      · exact absurd h (by simp)
      · split at h
        · exact absurd h (by simp)
        · exact key _ _ h
    · exact absurd h (by simp)

/-! ## C23: magic write addresses in the disassembler -/

/-- C23 (failing input): at version 42 the magic write address 56 makes
`v3d_qpu_magic_waddr_name` read `waddr_magic[56]`, past the end of the 56-entry
table, so `v3d_qpu_disasm_waddr` has no defined result; the address is
reachable: the packed word 4323510309567332352 (ADD with `waddr_a = 56` and the
`MA` bit) decodes at version 42 to a record with that magic write address, and
`v3d_qpu_decode` of that record has no defined result. -/
theorem disasm_waddr_reads_past_table :
    waddr_magic.length = 56 ∧
    v3d_qpu_magic_waddr_name { ver := 42 } 56 = none ∧
    v3d_qpu_disasm_waddr { devinfo := { ver := 42 }, size := 128 } 56 true = none ∧
    (v3d_qpu_instr_unpack { ver := 42 } 4323510309567332352 {}).map
      (fun R => (R.alu.add.op, R.alu.add.waddr, R.alu.add.magic_write)) =
      some (V3D_QPU_A_ADD, 56, true) ∧
    (v3d_qpu_instr_unpack { ver := 42 } 4323510309567332352 {}).map
      (fun R => v3d_qpu_decode { ver := 42 } R 128) = some none := by
  decide

/-- C23 (code departs from the claim): for a magic write address n below 56
`v3d_qpu_magic_waddr_name` stays inside the table (or returns one of the
version aliases "tmu", "quad", "rep" before it reads the table), and
`v3d_qpu_disasm_waddr` appends the name found, or "waddr UNKNOWN n" when the
entry is a null pointer; for every n from 56 on (56 to 63 are values of the
6-bit field) the table is read past its end at every version. -/
theorem disasm_waddr_magic_cases (disasm : disasm_state) (n : Nat) :
    (n < 56 → ∃ entry : Option String,
      v3d_qpu_magic_waddr_name disasm.devinfo n = some entry ∧
      (entry = waddr_magic.getD n none ∨
        (disasm.devinfo.ver < 40 ∧ n = V3D_QPU_WADDR_TMU ∧ entry = some "tmu") ∨
        (disasm.devinfo.ver ≥ 71 ∧ n = V3D_QPU_WADDR_QUAD ∧ entry = some "quad") ∨
        (disasm.devinfo.ver ≥ 71 ∧ n = V3D_QPU_WADDR_REP ∧ entry = some "rep")) ∧
      v3d_qpu_disasm_waddr disasm n true =
        some (append disasm
          (match entry with
           | some name => name.toList
           | none => "waddr UNKNOWN ".toList ++ (Nat.repr n).toList))) ∧
    (56 ≤ n → v3d_qpu_magic_waddr_name disasm.devinfo n = none ∧
      v3d_qpu_disasm_waddr disasm n true = none) := by
  constructor
  · intro hn
    have hfmt : format_d (int_of_uint32 n) = (Nat.repr n).toList := by
      have h1 : n % 4294967296 = n := Nat.mod_eq_of_lt (by omega)
      have e : int_of_uint32 n = (n : Int) := by
        unfold int_of_uint32
        rw [h1, if_pos (by omega)]
      unfold format_d
      rw [e, if_neg (by omega)]
      simp
    have hget : ∃ entry, waddr_magic.get? n = some entry ∧ entry = waddr_magic.getD n none := by
      have hl : n < waddr_magic.length := by
        rw [show waddr_magic.length = 56 by decide]; exact hn
      refine ⟨waddr_magic.get ⟨n, hl⟩, List.get?_eq_get hl, ?_⟩
      rw [List.getD_eq_getElem _ _ hl]
      rfl
    unfold v3d_qpu_disasm_waddr v3d_qpu_magic_waddr_name
    by_cases c1 : disasm.devinfo.ver < 40 ∧ n = V3D_QPU_WADDR_TMU
    · rw [if_pos c1]
      exact ⟨some "tmu", rfl, Or.inr (Or.inl ⟨c1.1, c1.2, rfl⟩), by simp⟩
    rw [if_neg c1]
    by_cases c2 : disasm.devinfo.ver ≥ 71 ∧ n = V3D_QPU_WADDR_QUAD
    · rw [if_pos c2]
      exact ⟨some "quad", rfl, Or.inr (Or.inr (Or.inl ⟨c2.1, c2.2, rfl⟩)), by simp⟩
    rw [if_neg c2]
    by_cases c3 : disasm.devinfo.ver ≥ 71 ∧ n = V3D_QPU_WADDR_REP
    · rw [if_pos c3]
      exact ⟨some "rep", rfl, Or.inr (Or.inr (Or.inr ⟨c3.1, c3.2, rfl⟩)), by simp⟩
    rw [if_neg c3]
    obtain ⟨entry, he, hd⟩ := hget
    refine ⟨entry, he, Or.inl hd, ?_⟩
    rw [he]
    cases entry with
    | none => simp [hfmt]
    | some name => simp
  · intro hn
    have hnone : v3d_qpu_magic_waddr_name disasm.devinfo n = none := by
      unfold v3d_qpu_magic_waddr_name
      rw [if_neg (by simp only [V3D_QPU_WADDR_TMU]; omega),
        if_neg (by simp only [V3D_QPU_WADDR_QUAD]; omega),
        if_neg (by simp only [V3D_QPU_WADDR_REP]; omega)]
      exact List.get?_eq_none.mpr (by rw [show waddr_magic.length = 56 by decide]; exact hn)
    refine ⟨hnone, ?_⟩
    unfold v3d_qpu_disasm_waddr
    rw [hnone]
    simp

theorem disasm_waddr_magic_cases_witness :
    (v3d_qpu_magic_waddr_name { ver := 42 } 30 = some none ∧
      v3d_qpu_disasm_waddr { devinfo := { ver := 42 }, size := 128 } 30 true =
        some (append { devinfo := { ver := 42 }, size := 128 } "waddr UNKNOWN 30".toList)) ∧
    (v3d_qpu_magic_waddr_name { ver := 42 } 63 = none ∧
      v3d_qpu_disasm_waddr { devinfo := { ver := 42 }, size := 128 } 63 true = none) := by
  have h := disasm_waddr_magic_cases { devinfo := { ver := 42 }, size := 128 }
  refine ⟨?_, (h 63).2 (by decide)⟩
  decide

theorem flags_unwritten_break_error (st : v3d_qpu_assemble_locals) (m : String)
    (l : Option (List String)) (k : Nat) :
    v3d_qpu_flags_unwritten (st.break_error m l k).args.instruction =
      v3d_qpu_flags_unwritten st.args.instruction := rfl

theorem flags_unwritten_update_half (st : v3d_qpu_assemble_locals) (i : Nat)
    (f : v3d_qpu_alu_half → v3d_qpu_alu_half) :
    v3d_qpu_flags_unwritten (st.update_half i f).args.instruction =
      v3d_qpu_flags_unwritten st.args.instruction := rfl

theorem flags_unwritten_assemble_flags (todo : Nat) :
    ∀ st : v3d_qpu_assemble_locals,
      v3d_qpu_flags_unwritten (v3d_qpu_assemble_flags todo st).args.instruction =
        v3d_qpu_flags_unwritten st.args.instruction := by
  induction todo with
  | zero => intro st; rfl
  | succ n ih =>
    intro st
    unfold v3d_qpu_assemble_flags
    split
    · split
      · rw [ih]; rfl
      · split
        · rw [ih]; rfl
        · split
          · rw [ih]; rfl
          · rfl
    · rfl

theorem flags_unwritten_assemble_raddr (instr : v3d_qpu_instr) (name : List Char) :
    v3d_qpu_flags_unwritten (v3d33_qpu_assemble_raddr instr name).2.1 =
      v3d_qpu_flags_unwritten instr := by
  unfold v3d33_qpu_assemble_raddr
  dsimp only
  repeat' split
  all_goals rfl

/-! ## C21, C22: end of program and SFU window rules of the validator -/

/-- C21: if `v3d_qpu_validate` returns TRUE for a sequence of n instructions, then
n is at least 3, neither instruction n-1 nor instruction n-2 carries the thrsw
signal, and in the state the loop ends in it is not the case that more than one
THRSW was counted (`thrsw_count > 1`) while no last-THRSW marker was seen
(`last_thrsw_found` false). -/
theorem validate_accepts_program_end (devinfo : v3d_device_info)
    (instructions : List v3d_qpu_instr) (results : v3d_qpu_validate_result)
    (h : (v3d_qpu_validate devinfo instructions results).1 = true) :
    3 ≤ instructions.length ∧
    (∀ inst, instructions.get? (instructions.length - 1) = some inst → inst.sig.thrsw = false) ∧
    (∀ inst, instructions.get? (instructions.length - 2) = some inst → inst.sig.thrsw = false) ∧
    ¬ ((v3d_qpu_validate_loop instructions 0
          (v3d_qpu_validate_init devinfo instructions.length)).2.thrsw_count > 1 ∧
       (v3d_qpu_validate_loop instructions 0
          (v3d_qpu_validate_init devinfo instructions.length)).2.last_thrsw_found = false) := by
  have hloop := v3d_qpu_validate_true_loop devinfo instructions results h
  unfold v3d_qpu_validate at h
  dsimp only at h
  unfold v3d_qpu_validate_init at hloop ⊢
  generalize v3d_qpu_validate_loop instructions 0 _ = lp at h hloop ⊢
  obtain ⟨lp1, lp2⟩ := lp
  simp only at hloop
  subst hloop
  simp only [Option.isSome_none, true_and] at h
  by_cases c1 : lp2.thrsw_count > 1 ∧ lp2.last_thrsw_found = false
  · rw [if_pos c1] at h
    simp at h
  · rw [if_neg c1] at h
    simp only [true_and] at h
    have c2 : ¬ ((instructions.length : Int) < 3 ∨
        ((match instructions.get? (instructions.length - 1) with
          | some inst => inst.sig.thrsw
          | none => false) = true ∨
         (match instructions.get? (instructions.length - 2) with
          | some inst => inst.sig.thrsw
          | none => false) = true)) := by
      intro c
      split_ifs at h with a1 a2 <;> first | exact absurd rfl a2 | exact absurd c a1
    have c3 := not_or.mp c2
    have c4 := not_or.mp c3.2
    refine ⟨by omega, ?_, ?_, c1⟩
    · intro inst hi
      have := c4.1
      rw [hi] at this
      simpa using this
    · intro inst hi
      have := c4.2
      rw [hi] at this
      simpa using this

theorem validate_accepts_program_end_witness :
    3 ≤ ([ { alu := { add := { op := V3D_QPU_A_NOP, waddr := V3D_QPU_WADDR_NOP, magic_write := true },
                       mul := { op := V3D_QPU_M_NOP, waddr := V3D_QPU_WADDR_NOP, magic_write := true } },
             sig := { thrsw := true } },
           { alu := { add := { op := V3D_QPU_A_NOP, waddr := V3D_QPU_WADDR_NOP, magic_write := true },
                       mul := { op := V3D_QPU_M_NOP, waddr := V3D_QPU_WADDR_NOP, magic_write := true } },
             sig := { thrsw := true } },
           { alu := { add := { op := V3D_QPU_A_NOP, waddr := V3D_QPU_WADDR_NOP, magic_write := true },
                       mul := { op := V3D_QPU_M_NOP, waddr := V3D_QPU_WADDR_NOP, magic_write := true } } },
           { alu := { add := { op := V3D_QPU_A_NOP, waddr := V3D_QPU_WADDR_NOP, magic_write := true },
                       mul := { op := V3D_QPU_M_NOP, waddr := V3D_QPU_WADDR_NOP, magic_write := true } } } ] :
          List v3d_qpu_instr).length :=
  (validate_accepts_program_end { ver := 42 } _ {} (by decide)).1

/-- The thread-switch block leaves `last_sfu_write` alone. -/
theorem qpu_validate_inst_thrsw_sfu (state : v3d_qpu_validate_state) :
    (qpu_validate_inst_thrsw state).2.last_sfu_write = state.last_sfu_write := by
  unfold qpu_validate_inst_thrsw
  dsimp only
  split_ifs <;> simp [fail_instr]

/-- An accepted tail of `qpu_validate_inst` on an ALU instruction: inside the SFU
window (`ip - last_sfu_write < 2`) the instruction neither reads R4, nor writes
R4, nor starts an SFU write; and `last_sfu_write` becomes `ip` when the
instruction starts an SFU write, and stays otherwise. -/
theorem qpu_validate_inst_tail_accept (state : v3d_qpu_validate_state) (inst : v3d_qpu_instr)
    (t s v l y : Int) (halu : inst.type = V3D_QPU_INSTR_TYPE_ALU)
    (h : (qpu_validate_inst_tail state inst t s v l y).1 = true) :
    (state.ip - state.last_sfu_write < 2 →
      v3d_qpu_uses_mux inst V3D_QPU_MUX_R4 = false ∧
      v3d_qpu_writes_r4 state.devinfo inst = false ∧ s = 0) ∧
    (qpu_validate_inst_tail state inst t s v l y).2.last_sfu_write =
      (if s ≠ 0 then state.ip else state.last_sfu_write) := by
  constructor
  · unfold qpu_validate_inst_tail at h
    dsimp only at h
    by_cases c1 : state.ip - state.last_sfu_write < 2 ∧
        v3d_qpu_uses_mux inst V3D_QPU_MUX_R4 = true
    · rw [if_pos c1] at h; exact absurd h (by simp)
    by_cases c2 : state.ip - state.last_sfu_write < 2 ∧
        v3d_qpu_writes_r4 state.devinfo inst = true
    · rw [if_neg c1, if_pos c2] at h; exact absurd h (by simp)
    by_cases c3 : state.ip - state.last_sfu_write < 2 ∧ s ≠ 0
    · rw [if_neg c1, if_neg c2, if_pos c3] at h; exact absurd h (by simp)
    intro hw
    refine ⟨?_, ?_, ?_⟩
    · cases hu : v3d_qpu_uses_mux inst V3D_QPU_MUX_R4 with
      | false => rfl
      | true => exact absurd ⟨hw, hu⟩ c1
    · cases hu : v3d_qpu_writes_r4 state.devinfo inst with
      | false => rfl
      | true => exact absurd ⟨hw, hu⟩ c2
    · by_contra hs
      exact c3 ⟨hw, hs⟩
  · rcases qpu_validate_inst_tail_cases state inst t s v l y halu with
      ⟨e, msg, h', _⟩ | ⟨_, st1, h1, tp, h2, h'⟩
    · rw [h'] at h; exact absurd h (by simp)
    · rw [h'] at h ⊢
      have etp : tp.2.last_sfu_write = if s ≠ 0 then state.ip else state.last_sfu_write := by
        rw [h2]
        by_cases ht : inst.sig.thrsw = true
        · rw [if_pos ht, qpu_validate_inst_thrsw_sfu, h1]
          split_ifs <;> rfl
        · rw [if_neg ht, h1]
          split_ifs <;> rfl
      by_cases c : tp.1 = false
      · rw [if_pos c] at h
        rw [c] at h
        exact absurd h (by simp)
      · rw [if_neg c] at h ⊢
        generalize (if tp.2.thrend_found = true ∧ tp.2.last_thrsw_ip - tp.2.ip ≤ 2 ∧
            inst.type = V3D_QPU_INSTR_TYPE_ALU then qpu_validate_inst_thrend tp.2 inst
          else none) = m at h ⊢
        cases m with
        | none => exact etp
        | some e => exact absurd h (by simp)

/-- The count of magic writes accepted by `predicate` is zero exactly when neither
half performs one. -/
theorem qpu_validate_inst_count_eq_zero (inst : v3d_qpu_instr) (predicate : Nat → Bool) :
    qpu_validate_inst_count inst predicate = 0 ↔
      ¬ (inst.alu.add.op ≠ V3D_QPU_A_NOP ∧ inst.alu.add.magic_write = true ∧
          predicate inst.alu.add.waddr = true) ∧
      ¬ (inst.alu.mul.op ≠ V3D_QPU_M_NOP ∧ inst.alu.mul.magic_write = true ∧
          predicate inst.alu.mul.waddr = true) := by
  unfold qpu_validate_inst_count qpu_validate_count_writes
  by_cases a1 : inst.alu.add.op = V3D_QPU_A_NOP <;>
  by_cases a2 : inst.alu.add.magic_write = true <;>
  by_cases a3 : predicate inst.alu.add.waddr = true <;>
  by_cases m1 : inst.alu.mul.op = V3D_QPU_M_NOP <;>
  by_cases m2 : inst.alu.mul.magic_write = true <;>
  by_cases m3 : predicate inst.alu.mul.waddr = true <;>
  simp [a1, a2, a3, m1, m2, m3]

/-- An accepted ALU instruction, through `qpu_validate_inst`: the SFU window rule
and the update of `last_sfu_write`. -/
theorem qpu_validate_inst_sfu_accept (state : v3d_qpu_validate_state) (inst : v3d_qpu_instr)
    (halu : inst.type = V3D_QPU_INSTR_TYPE_ALU)
    (h : (qpu_validate_inst state inst).1 = true) :
    (state.ip - state.last_sfu_write < 2 →
      v3d_qpu_uses_mux inst V3D_QPU_MUX_R4 = false ∧
      v3d_qpu_writes_r4 state.devinfo inst = false ∧
      qpu_validate_inst_count inst v3d_qpu_magic_waddr_is_sfu = 0) ∧
    (qpu_validate_inst state inst).2.last_sfu_write =
      (if qpu_validate_inst_count inst v3d_qpu_magic_waddr_is_sfu ≠ 0 then state.ip
       else state.last_sfu_write) := by
  rcases qpu_validate_inst_alu_cases state inst halu with ⟨e, msg, h0, _⟩ | ⟨_, h0⟩
  · rw [h0] at h; exact absurd h (by simp)
  · rw [h0] at h ⊢
    exact qpu_validate_inst_tail_accept state inst _ _ _ _ _ halu h

/-- C22: if `v3d_qpu_validate` accepts a sequence, then an ALU instruction that
directly follows an ALU instruction performing a magic SFU write (a non-NOP add
or mul op with `magic_write` and an SFU write address) does not read mux R4 in
a used source operand (`v3d_qpu_uses_mux`), does not write R4
(`v3d_qpu_writes_r4`), and does not itself perform a magic SFU write. -/
theorem validate_accepts_sfu_window (devinfo : v3d_device_info)
    (pre : List v3d_qpu_instr) (i1 i2 : v3d_qpu_instr) (post : List v3d_qpu_instr)
    (results : v3d_qpu_validate_result)
    (h : (v3d_qpu_validate devinfo (pre ++ i1 :: i2 :: post) results).1 = true)
    (h1 : i1.type = V3D_QPU_INSTR_TYPE_ALU) (h2 : i2.type = V3D_QPU_INSTR_TYPE_ALU)
    (hs : (i1.alu.add.op ≠ V3D_QPU_A_NOP ∧ i1.alu.add.magic_write = true ∧
            v3d_qpu_magic_waddr_is_sfu i1.alu.add.waddr = true) ∨
          (i1.alu.mul.op ≠ V3D_QPU_M_NOP ∧ i1.alu.mul.magic_write = true ∧
            v3d_qpu_magic_waddr_is_sfu i1.alu.mul.waddr = true)) :
    v3d_qpu_uses_mux i2 V3D_QPU_MUX_R4 = false ∧
    v3d_qpu_writes_r4 devinfo i2 = false ∧
    ¬ (i2.alu.add.op ≠ V3D_QPU_A_NOP ∧ i2.alu.add.magic_write = true ∧
        v3d_qpu_magic_waddr_is_sfu i2.alu.add.waddr = true) ∧
    ¬ (i2.alu.mul.op ≠ V3D_QPU_M_NOP ∧ i2.alu.mul.magic_write = true ∧
        v3d_qpu_magic_waddr_is_sfu i2.alu.mul.waddr = true) := by
  obtain ⟨s1, hs1, hn1, _, hip1, _, hacc1⟩ :=
    v3d_qpu_validate_true_accept devinfo _ results h pre i1 (i2 :: post) rfl
  obtain ⟨s2, hs2, hn2, hdev2, hip2, _, hacc2⟩ :=
    v3d_qpu_validate_true_accept devinfo _ results h (pre ++ [i1]) i2 post (by simp)
  have hcount : qpu_validate_inst_count i1 v3d_qpu_magic_waddr_is_sfu ≠ 0 := by
    intro h0
    have := (qpu_validate_inst_count_eq_zero i1 v3d_qpu_magic_waddr_is_sfu).mp h0
    rcases hs with hs | hs
    · exact this.1 hs
    · exact this.2 hs
  have e1 := (qpu_validate_inst_sfu_accept s1 i1 h1 hacc1).2
  rw [if_pos hcount] at e1
  have e2 : s2.last_sfu_write = (qpu_validate_inst s1 i1).2.last_sfu_write := by
    rw [hs2, v3d_qpu_validate_loop_append, if_pos hn1, ← hs1]
    simp only [v3d_qpu_validate_loop]
    rw [if_neg (by simp [hacc1])]
  have hw : s2.ip - s2.last_sfu_write < 2 := by
    rw [e2, e1, hip2, hip1]
    simp only [List.length_append, List.length_singleton]
    push_cast
    omega
  obtain ⟨k1, k2, k3⟩ := (qpu_validate_inst_sfu_accept s2 i2 h2 hacc2).1 hw
  rw [hdev2] at k2
  have k4 := (qpu_validate_inst_count_eq_zero i2 v3d_qpu_magic_waddr_is_sfu).mp k3
  exact ⟨k1, k2, k4.1, k4.2⟩

theorem validate_accepts_sfu_window_witness :
    v3d_qpu_uses_mux
      { alu := { add := { op := V3D_QPU_A_NOP, waddr := V3D_QPU_WADDR_NOP, magic_write := true },
                 mul := { op := V3D_QPU_M_NOP, waddr := V3D_QPU_WADDR_NOP, magic_write := true } } }
      V3D_QPU_MUX_R4 = false ∧
    v3d_qpu_writes_r4 { ver := 42 }
      { alu := { add := { op := V3D_QPU_A_NOP, waddr := V3D_QPU_WADDR_NOP, magic_write := true },
                 mul := { op := V3D_QPU_M_NOP, waddr := V3D_QPU_WADDR_NOP, magic_write := true } } } =
      false ∧
    ¬ (V3D_QPU_A_NOP ≠ V3D_QPU_A_NOP ∧ true = true ∧
        v3d_qpu_magic_waddr_is_sfu V3D_QPU_WADDR_NOP = true) ∧
    ¬ (V3D_QPU_M_NOP ≠ V3D_QPU_M_NOP ∧ true = true ∧
        v3d_qpu_magic_waddr_is_sfu V3D_QPU_WADDR_NOP = true) :=
  validate_accepts_sfu_window { ver := 42 } []
    { alu := { add := { op := V3D_QPU_A_FADD, waddr := V3D_QPU_WADDR_RECIP, magic_write := true },
               mul := { op := V3D_QPU_M_NOP, waddr := V3D_QPU_WADDR_NOP, magic_write := true } } }
    { alu := { add := { op := V3D_QPU_A_NOP, waddr := V3D_QPU_WADDR_NOP, magic_write := true },
               mul := { op := V3D_QPU_M_NOP, waddr := V3D_QPU_WADDR_NOP, magic_write := true } } }
    [ { alu := { add := { op := V3D_QPU_A_NOP, waddr := V3D_QPU_WADDR_NOP, magic_write := true },
                 mul := { op := V3D_QPU_M_NOP, waddr := V3D_QPU_WADDR_NOP, magic_write := true } } } ]
    {} (by decide) rfl rfl (Or.inl (by decide))

set_option maxRecDepth 1000000 in
theorem add_ops_v33_few_src_33 : add_ops_v33.all (add33_few_src_check 33) = true := by decide!

set_option maxRecDepth 1000000 in
theorem add_ops_v33_few_src_40 : add_ops_v33.all (add33_few_src_check 40) = true := by decide!

set_option maxRecDepth 1000000 in
theorem add_ops_v33_few_src_41 : add_ops_v33.all (add33_few_src_check 41) = true := by decide!

set_option maxRecDepth 1000000 in
theorem add_ops_v33_few_src_42 : add_ops_v33.all (add33_few_src_check 42) = true := by decide!

/-- The ADD decoder below V3D 7.1 reads the device description through its
version only. -/
theorem v3d33_qpu_add_unpack_core_ver (devinfo : v3d_device_info) (op mux_a mux_b waddr : Nat)
    (ma : Bool) :
    v3d33_qpu_add_unpack_core devinfo op mux_a mux_b waddr ma =
      v3d33_qpu_add_unpack_core { ver := devinfo.ver } op mux_a mux_b waddr ma := rfl

/-- A decode that succeeds with write address 3 is not one of the VPM stores, and
gives the same fields with any write address. -/
theorem v3d33_qpu_add_unpack_core_waddr (devinfo : v3d_device_info) (op mux_a mux_b : Nat)
    (ma : Bool) (r : alu_unpack_fields)
    (h : v3d33_qpu_add_unpack_core devinfo op mux_a mux_b 3 ma = some r) (waddr : Nat) :
    v3d33_qpu_add_unpack_core devinfo op mux_a mux_b waddr ma = some r := by
  unfold v3d33_qpu_add_unpack_core at h ⊢
  cases hl : lookup_opcode_from_packed devinfo add_ops_v33 (v3d33_qpu_add_unpack_map_op op)
      mux_a mux_b 0 with
  | none => rw [hl] at h; exact absurd h (by simp)
  | some desc =>
    rw [hl] at h
    dsimp only at h ⊢
    generalize v3d_qpu_add_unpack_order
      (decide (((op >>> 2) &&& 3) * 8 + mux_a > (op &&& 3) * 8 + mux_b)) desc.op = o at h ⊢
    have hs : v3d_qpu_add_unpack_stvpm o waddr = v3d_qpu_add_unpack_stvpm o 3 := by
      unfold v3d_qpu_add_unpack_stvpm at h ⊢
      by_cases c : o = V3D_QPU_A_STVPMV ∨ o = V3D_QPU_A_STVPMD ∨ o = V3D_QPU_A_STVPMP
      · rw [if_pos c] at h
        simp at h
      · rw [if_neg c, if_neg c]
    rw [hs]
    exact h

/-- The fields of the word `v3d33_qpu_add_pack` builds, when the ADD half of the
word it or-s into is clear. -/
theorem v3d33_qpu_add_pack_word_fields (W0 a b o w : Nat) (m : Bool)
    (h1 : QPU_GET_FIELD W0 V3D_QPU_OP_ADD_SHIFT V3D_QPU_OP_ADD_MASK = 0)
    (h2 : QPU_GET_FIELD W0 V3D_QPU_ADD_A_SHIFT V3D_QPU_ADD_A_MASK = 0)
    (h3 : QPU_GET_FIELD W0 V3D_QPU_ADD_B_SHIFT V3D_QPU_ADD_B_MASK = 0)
    (h4 : QPU_GET_FIELD W0 V3D_QPU_WADDR_A_SHIFT V3D_QPU_WADDR_A_MASK = 0)
    (h5 : W0 &&& V3D_QPU_MA = 0) (W1 : Nat)
    (hW : W1 = (if m = true then
      ((((W0 ||| QPU_SET_FIELD a V3D_QPU_ADD_A_SHIFT V3D_QPU_ADD_A_MASK)
        ||| QPU_SET_FIELD b V3D_QPU_ADD_B_SHIFT V3D_QPU_ADD_B_MASK)
        ||| QPU_SET_FIELD o V3D_QPU_OP_ADD_SHIFT V3D_QPU_OP_ADD_MASK)
        ||| QPU_SET_FIELD w V3D_QPU_WADDR_A_SHIFT V3D_QPU_WADDR_A_MASK) ||| V3D_QPU_MA
      else
      ((((W0 ||| QPU_SET_FIELD a V3D_QPU_ADD_A_SHIFT V3D_QPU_ADD_A_MASK)
        ||| QPU_SET_FIELD b V3D_QPU_ADD_B_SHIFT V3D_QPU_ADD_B_MASK)
        ||| QPU_SET_FIELD o V3D_QPU_OP_ADD_SHIFT V3D_QPU_OP_ADD_MASK)
        ||| QPU_SET_FIELD w V3D_QPU_WADDR_A_SHIFT V3D_QPU_WADDR_A_MASK))) :
    QPU_GET_FIELD W1 V3D_QPU_OP_ADD_SHIFT V3D_QPU_OP_ADD_MASK = o % 256 ∧
    QPU_GET_FIELD W1 V3D_QPU_ADD_A_SHIFT V3D_QPU_ADD_A_MASK = a % 8 ∧
    QPU_GET_FIELD W1 V3D_QPU_ADD_B_SHIFT V3D_QPU_ADD_B_MASK = b % 8 ∧
    QPU_GET_FIELD W1 V3D_QPU_WADDR_A_SHIFT V3D_QPU_WADDR_A_MASK = w % 64 ∧
    (W1 &&& V3D_QPU_MA != 0) = m := by
  have h5b : QPU_GET_FIELD W0 44 (QPU_MASK 44 44) = 0 := by
    have e := QPU_MASK_bit_ne_zero W0 44
    rw [show QPU_MASK 44 44 = V3D_QPU_MA from rfl, h5] at e
    have l := QPU_GET_FIELD_lt W0 44 44
    simp only [Nat.sub_self, Nat.zero_add, pow_one] at l
    have e2 : decide (QPU_GET_FIELD W0 44 (QPU_MASK 44 44) = 1) = false := by
      rw [← e]; decide
    simp only [decide_eq_false_iff_not] at e2
    omega
  subst hW
  simp only [V3D_QPU_ADD_A_SHIFT, V3D_QPU_ADD_A_MASK, V3D_QPU_ADD_B_SHIFT, V3D_QPU_ADD_B_MASK,
    V3D_QPU_OP_ADD_SHIFT, V3D_QPU_OP_ADD_MASK, V3D_QPU_WADDR_A_SHIFT,
    V3D_QPU_WADDR_A_MASK] at h1 h2 h3 h4 ⊢
  rw [show V3D_QPU_MA = QPU_MASK 44 44 from rfl, QPU_MASK_bit_ne_zero]
  cases m <;>
  simp (disch := decide) only [QPU_GET_FIELD_or, QPU_GET_FIELD_zero,
      QPU_GET_SET_same, QPU_GET_SET_other, QPU_GET_FIELD_bit_other, Nat.zero_or,
      Nat.or_zero, QPU_GET_FIELD_mask_bit, h1, h2, h3, h4, h5b, if_true, if_false,
      Bool.false_eq_true] <;>
  simp

theorem v3d_qpu_add_pack_waddr_magic (add : v3d_qpu_alu_half) :
    (v3d_qpu_add_pack_waddr add).2 =
      (v3d_qpu_add_pack_waddr { op := add.op, waddr := 3, magic_write := add.magic_write }).2 := by
  unfold v3d_qpu_add_pack_waddr
  dsimp only
  split_ifs <;> rfl

/-- The fields `v3d33_qpu_add_pack_opcode` computes for an op with fewer than two
sources whose output pack and unpack modes are NONE. -/
theorem v3d33_qpu_add_pack_opcode_few_src (devinfo : v3d_device_info) (add : v3d_qpu_alu_half)
    (d : opcode_desc)
    (hsrc : v3d_qpu_add_op_num_src add.op < 2)
    (hl : lookup_opcode_from_instr devinfo add_ops_v33 add.op = some d)
    (hdop : d.op = add.op)
    (hpk : add.output_pack = V3D_QPU_PACK_NONE)
    (hua : add.a.unpack = V3D_QPU_UNPACK_NONE)
    (hub : add.b.unpack = V3D_QPU_UNPACK_NONE) :
    ∃ f, v3d33_qpu_add_pack_opcode devinfo add = some f ∧
      f.opcode = add33_few_src_opcode d ∧
      f.mux_a % 8 = (if v3d_qpu_add_op_num_src d.op < 1 then u32_sub (ffs d.a_mask) 1
        else add.a.mux % 8) % 8 ∧
      f.mux_b = u32_sub (ffs d.b_mask) 1 := by
  unfold v3d33_qpu_add_pack_opcode add33_few_src_opcode
  rw [hl, hdop]
  dsimp only
  rw [if_pos hsrc, hpk, hua, hub]
  have hA : ∀ x : Nat, (if v3d_qpu_add_op_num_src add.op < 1 then x else add.a.mux) % 8 =
      (if v3d_qpu_add_op_num_src add.op < 1 then x else add.a.mux % 8) % 8 := by
    intro x
    split_ifs
    · rfl
    · rw [Nat.mod_mod]
  by_cases c1 : add.op = V3D_QPU_A_FADD ∨ add.op = V3D_QPU_A_FADDNF ∨
      add.op = V3D_QPU_A_FSUB ∨ add.op = V3D_QPU_A_FMIN ∨ add.op = V3D_QPU_A_FMAX ∨
      add.op = V3D_QPU_A_FCMP
  · exfalso
    rcases c1 with h | h | h | h | h | h <;> rw [h] at hsrc <;> exact absurd hsrc (by decide)
  rw [if_neg c1]
  by_cases c2 : add.op = V3D_QPU_A_VFPACK
  · exfalso
    rw [c2] at hsrc
    exact absurd hsrc (by decide)
  rw [if_neg c2]
  by_cases c3 : add.op = V3D_QPU_A_FFLOOR ∨ add.op = V3D_QPU_A_FROUND ∨
      add.op = V3D_QPU_A_FTRUNC ∨ add.op = V3D_QPU_A_FCEIL ∨ add.op = V3D_QPU_A_FDX ∨
      add.op = V3D_QPU_A_FDY
  · rw [if_pos c3, if_pos c3]
    rw [show v3d_qpu_float32_pack_pack V3D_QPU_PACK_NONE = some 0 from rfl]
    dsimp only
    rw [show v3d_qpu_float32_unpack_pack V3D_QPU_UNPACK_NONE = some 1 from rfl]
    dsimp only
    rw [if_neg (by decide)]
    exact ⟨_, rfl, rfl, hA _, Nat.or_zero _⟩
  rw [if_neg c3, if_neg c3]
  by_cases c4 : add.op = V3D_QPU_A_FTOIN ∨ add.op = V3D_QPU_A_FTOIZ ∨
      add.op = V3D_QPU_A_FTOUZ ∨ add.op = V3D_QPU_A_FTOC
  · rw [if_pos c4, if_pos c4]
    rw [if_neg (by simp)]
    rw [show v3d_qpu_float32_unpack_pack V3D_QPU_UNPACK_NONE = some 1 from rfl]
    dsimp only
    rw [if_neg (by decide)]
    exact ⟨_, rfl, rfl, hA _, rfl⟩
  rw [if_neg c4, if_neg c4]
  by_cases c5 : add.op = V3D_QPU_A_VFMIN ∨ add.op = V3D_QPU_A_VFMAX
  · exfalso
    rcases c5 with h | h <;> rw [h] at hsrc <;> exact absurd hsrc (by decide)
  rw [if_neg c5]
  rw [if_neg (by simp)]
  exact ⟨_, rfl, rfl, hA _, rfl⟩

/-- A successful decode of the ADD fields makes `v3d33_qpu_add_unpack` succeed
and store the decoded op. -/
theorem v3d33_qpu_add_unpack_of_core (devinfo : v3d_device_info) (W : Nat)
    (i0 : v3d_qpu_instr) (f : alu_unpack_fields)
    (h : v3d33_qpu_add_unpack_core devinfo
        (QPU_GET_FIELD W V3D_QPU_OP_ADD_SHIFT V3D_QPU_OP_ADD_MASK)
        (QPU_GET_FIELD W V3D_QPU_ADD_A_SHIFT V3D_QPU_ADD_A_MASK)
        (QPU_GET_FIELD W V3D_QPU_ADD_B_SHIFT V3D_QPU_ADD_B_MASK)
        (QPU_GET_FIELD W V3D_QPU_WADDR_A_SHIFT V3D_QPU_WADDR_A_MASK)
        (W &&& V3D_QPU_MA != 0) = some f) :
    ∃ R, v3d33_qpu_add_unpack devinfo W i0 = some R ∧ R.alu.add.op = f.op := by
  unfold v3d33_qpu_add_unpack
  dsimp only
  rw [h]
  exact ⟨_, rfl, rfl⟩

/-- C30, amended. For versions 33, 40, 41 and 42 and an add op with fewer than
two sources that has a descriptor valid in the version, `v3d33_qpu_add_pack`
of a record with that add op, output pack and unpack modes NONE, into a word
whose ADD half is clear succeeds, and `v3d33_qpu_add_unpack` of the result
succeeds and yields the same add op, provided the op is not IID, is not
VPMSETUP with operand A from mux 0 at version 41 or 42, and is not LDVPMV_IN
or LDVPMD_IN with `magic_write` set. -/
theorem add_pack_unpack_few_sources (devinfo : v3d_device_info) (instr i0 : v3d_qpu_instr)
    (W0 : Nat)
    (hver : devinfo.ver = 33 ∨ devinfo.ver = 40 ∨ devinfo.ver = 41 ∨ devinfo.ver = 42)
    (hsrc : v3d_qpu_add_op_num_src instr.alu.add.op < 2)
    (hdesc : (lookup_opcode_from_instr devinfo add_ops_v33 instr.alu.add.op).isSome = true)
    (hpk : instr.alu.add.output_pack = V3D_QPU_PACK_NONE)
    (hua : instr.alu.add.a.unpack = V3D_QPU_UNPACK_NONE)
    (hub : instr.alu.add.b.unpack = V3D_QPU_UNPACK_NONE)
    (h1 : QPU_GET_FIELD W0 V3D_QPU_OP_ADD_SHIFT V3D_QPU_OP_ADD_MASK = 0)
    (h2 : QPU_GET_FIELD W0 V3D_QPU_ADD_A_SHIFT V3D_QPU_ADD_A_MASK = 0)
    (h3 : QPU_GET_FIELD W0 V3D_QPU_ADD_B_SHIFT V3D_QPU_ADD_B_MASK = 0)
    (h4 : QPU_GET_FIELD W0 V3D_QPU_WADDR_A_SHIFT V3D_QPU_WADDR_A_MASK = 0)
    (h5 : W0 &&& V3D_QPU_MA = 0)
    (hiid : instr.alu.add.op ≠ V3D_QPU_A_IID)
    (hvpm : ¬ (instr.alu.add.op = V3D_QPU_A_VPMSETUP ∧ 41 ≤ devinfo.ver ∧
      instr.alu.add.a.mux % 8 = 0))
    (hld : ¬ ((instr.alu.add.op = V3D_QPU_A_LDVPMV_IN ∨
      instr.alu.add.op = V3D_QPU_A_LDVPMD_IN) ∧ instr.alu.add.magic_write = true)) :
    ∃ W1 r, v3d33_qpu_add_pack devinfo instr W0 = some W1 ∧
      v3d33_qpu_add_unpack devinfo W1 i0 = some r ∧
      r.alu.add.op = instr.alu.add.op := by
  cases hl : lookup_opcode_from_instr devinfo add_ops_v33 instr.alu.add.op with
  | none => rw [hl] at hdesc; exact absurd hdesc (by simp)
  | some d =>
    obtain ⟨hd, hdop, hval, -⟩ := add33_pack_row devinfo _ d hl
    have hfirst : d.first_for add_ops_v33 = true := by
      have h4 := lookup_opcode_from_instr_first devinfo _ d add_ops_v33
        (opcode_table_uniform_versions_spec _ add_ops_v33_uniform) hl
      unfold opcode_desc.first_for
      rw [hdop, h4]
      exact beq_self_eq_true _
    have hc : add33_few_src_check devinfo.ver d = true := by
      rcases hver with h | h | h | h <;> rw [h]
      · exact List.all_eq_true.mp add_ops_v33_few_src_33 d hd
      · exact List.all_eq_true.mp add_ops_v33_few_src_40 d hd
      · exact List.all_eq_true.mp add_ops_v33_few_src_41 d hd
      · exact List.all_eq_true.mp add_ops_v33_few_src_42 d hd
    unfold add33_few_src_check at hc
    have hval2 : opcode_invalid_in_version { ver := devinfo.ver } d.first_ver d.last_ver
        = false := hval
    rw [hdop, hfirst, hval2, decide_eq_true hsrc] at hc
    simp only [Bool.and_self, Bool.not_false, Bool.not_true, Bool.false_or, Bool.and_true] at hc
    have hcase := allBelow_spec 8 _ hc (instr.alu.add.a.mux % 8) (Nat.mod_lt _ (by decide))
    simp only [Bool.and_eq_true] at hcase
    have hcase2 : add33_few_src_case devinfo.ver d (instr.alu.add.a.mux % 8)
        instr.alu.add.magic_write = true := by
      cases instr.alu.add.magic_write
      · exact hcase.1
      · exact hcase.2
    unfold add33_few_src_case at hcase2
    dsimp only at hcase2
    have hother : add33_decodes_as_other devinfo.ver d.op
        (if v3d_qpu_add_op_num_src d.op < 1 then u32_sub (ffs d.a_mask) 1
          else instr.alu.add.a.mux % 8) instr.alu.add.magic_write = false := by
      unfold add33_decodes_as_other
      rw [hdop]
      have e1 : (instr.alu.add.op == V3D_QPU_A_IID) = false := by simpa using hiid
      rw [e1]
      by_cases cv : instr.alu.add.op = V3D_QPU_A_VPMSETUP
      · have e2 : ((instr.alu.add.op == V3D_QPU_A_LDVPMV_IN ||
            instr.alu.add.op == V3D_QPU_A_LDVPMD_IN) && instr.alu.add.magic_write) = false := by
          rw [cv]; rfl
        rw [e2, cv]
        rw [if_neg (by decide)]
        rw [cv] at hvpm
        simp only [Nat.mod_mod]
        by_cases c41 : 41 ≤ devinfo.ver
        · have : ¬ instr.alu.add.a.mux % 8 = 0 := fun h => hvpm ⟨rfl, c41, h⟩
          simp [this]
        · simp [c41]
      · have e2 : (instr.alu.add.op == V3D_QPU_A_VPMSETUP) = false := by simpa using cv
        rw [e2]
        by_cases cm : instr.alu.add.magic_write = true
        · have : ¬ (instr.alu.add.op = V3D_QPU_A_LDVPMV_IN ∨
              instr.alu.add.op = V3D_QPU_A_LDVPMD_IN) := fun h => hld ⟨h, cm⟩
          simp only [not_or] at this
          simp [this.1, this.2]
        · simp [cm]
    rw [hother, Bool.false_or, Bool.and_eq_true, beq_iff_eq, beq_iff_eq] at hcase2
    obtain ⟨hw3, hmap⟩ := hcase2
    rw [Option.map_eq_some'] at hmap
    obtain ⟨r, hr, hrop⟩ := hmap
    obtain ⟨f, hf, hfo, hfa, hfb⟩ := v3d33_qpu_add_pack_opcode_few_src devinfo instr.alu.add d
      hsrc hl hdop hpk hua hub
    cases hp : v3d33_qpu_add_pack devinfo instr W0 with
    | none =>
      unfold v3d33_qpu_add_pack at hp
      rw [hf] at hp
      exact absurd hp (by simp)
    | some W1 =>
      have hW1 := hp
      unfold v3d33_qpu_add_pack at hW1
      rw [hf] at hW1
      dsimp only at hW1
      obtain ⟨g1, g2, g3, g4, g5⟩ := v3d33_qpu_add_pack_word_fields W0 f.mux_a f.mux_b f.opcode
        (v3d_qpu_add_pack_waddr instr.alu.add).1 (v3d_qpu_add_pack_waddr instr.alu.add).2
        h1 h2 h3 h4 h5 W1 (Option.some.inj hW1).symm
      have hcore : v3d33_qpu_add_unpack_core devinfo
          (QPU_GET_FIELD W1 V3D_QPU_OP_ADD_SHIFT V3D_QPU_OP_ADD_MASK)
          (QPU_GET_FIELD W1 V3D_QPU_ADD_A_SHIFT V3D_QPU_ADD_A_MASK)
          (QPU_GET_FIELD W1 V3D_QPU_ADD_B_SHIFT V3D_QPU_ADD_B_MASK)
          (QPU_GET_FIELD W1 V3D_QPU_WADDR_A_SHIFT V3D_QPU_WADDR_A_MASK)
          (W1 &&& V3D_QPU_MA != 0) = some r := by
        rw [g1, g2, g3, g4, g5, hfo, hfa, hfb, v3d33_qpu_add_unpack_core_ver,
          v3d_qpu_add_pack_waddr_magic, ← hdop]
        exact v3d33_qpu_add_unpack_core_waddr _ _ _ _ _ r hr _
      obtain ⟨R, hR, hRop⟩ := v3d33_qpu_add_unpack_of_core devinfo W1 i0 r hcore
      exact ⟨W1, R, rfl, hR, by rw [hRop, hrop, hdop]⟩

theorem add_pack_unpack_few_sources_witness :
    ∃ W1 r, v3d33_qpu_add_pack { ver := 42 }
        { alu := { add := { op := V3D_QPU_A_VPMSETUP, a := { mux := 1 }, waddr := 6,
                            magic_write := true } } } 0 = some W1 ∧
      v3d33_qpu_add_unpack { ver := 42 } W1 {} = some r ∧
      r.alu.add.op = V3D_QPU_A_VPMSETUP :=
  add_pack_unpack_few_sources { ver := 42 }
    { alu := { add := { op := V3D_QPU_A_VPMSETUP, a := { mux := 1 }, waddr := 6,
                        magic_write := true } } } {} 0
    (by decide) (by decide) (by decide) (by decide) (by decide) (by decide)
    (by decide) (by decide) (by decide) (by decide) (by decide) (by decide) (by decide)
    (by decide)

/-- C30, counterexample. At version 42 the add ops IID, VPMSETUP and LDVPMV_IN have
fewer than two sources and a valid descriptor, and a record with output pack
and unpack modes NONE packs, but the packed word decodes to another add op:
IID decodes as VDWWT, VPMSETUP with operand A from mux 0 as FLNAFIRST, and
LDVPMV_IN with `magic_write` set as LDVPMV_OUT. The first case is shown through
`v3d_qpu_instr_pack` and `v3d_qpu_instr_unpack` as well. -/
theorem add_pack_unpack_few_sources_counterexample :
    (v3d_qpu_add_op_num_src V3D_QPU_A_IID < 2 ∧
     (lookup_opcode_from_instr { ver := 42 } add_ops_v33 V3D_QPU_A_IID).isSome = true ∧
     (v3d33_qpu_add_pack { ver := 42 }
        { alu := { add := { op := V3D_QPU_A_IID, waddr := 0 } } } 0).bind
        (fun W => (v3d33_qpu_add_unpack { ver := 42 } W {}).map (fun r => r.alu.add.op))
       = some V3D_QPU_A_VDWWT ∧
     (v3d_qpu_instr_pack { ver := 42 }
        { alu := { add := { op := V3D_QPU_A_IID, waddr := 0 },
                   mul := { op := V3D_QPU_M_NOP, waddr := 6, magic_write := true } } }).bind
        (fun W => (v3d_qpu_instr_unpack { ver := 42 } W {}).map (fun r => r.alu.add.op))
       = some V3D_QPU_A_VDWWT ∧
     V3D_QPU_A_VDWWT ≠ V3D_QPU_A_IID) ∧
    (v3d_qpu_add_op_num_src V3D_QPU_A_VPMSETUP < 2 ∧
     (lookup_opcode_from_instr { ver := 42 } add_ops_v33 V3D_QPU_A_VPMSETUP).isSome = true ∧
     (v3d33_qpu_add_pack { ver := 42 }
        { alu := { add := { op := V3D_QPU_A_VPMSETUP, a := { mux := 0 }, waddr := 6,
                            magic_write := true } } } 0).bind
        (fun W => (v3d33_qpu_add_unpack { ver := 42 } W {}).map (fun r => r.alu.add.op))
       = some V3D_QPU_A_FLNAFIRST ∧
     V3D_QPU_A_FLNAFIRST ≠ V3D_QPU_A_VPMSETUP) ∧
    (v3d_qpu_add_op_num_src V3D_QPU_A_LDVPMV_IN < 2 ∧
     (lookup_opcode_from_instr { ver := 42 } add_ops_v33 V3D_QPU_A_LDVPMV_IN).isSome = true ∧
     (v3d33_qpu_add_pack { ver := 42 }
        { alu := { add := { op := V3D_QPU_A_LDVPMV_IN, a := { mux := 0 }, waddr := 0,
                            magic_write := true } } } 0).bind
        (fun W => (v3d33_qpu_add_unpack { ver := 42 } W {}).map (fun r => r.alu.add.op))
       = some V3D_QPU_A_LDVPMV_OUT ∧
     V3D_QPU_A_LDVPMV_OUT ≠ V3D_QPU_A_LDVPMV_IN) := by
  decide

theorem v3d_qpu_assemble_sources_succ (outputIndex : Nat) (has_dst : Bool) (todo src : Nat)
    (st : v3d_qpu_assemble_locals) :
    v3d_qpu_assemble_sources outputIndex has_dst (todo + 1) src st =
      if (v3d_qpu_skip_whitespace_comments st.currentChar).1 = false then
        { st with currentChar := (v3d_qpu_skip_whitespace_comments st.currentChar).2 }.break_error
          v3d_qpu_assemble_expected_source none 0
      else
        v3d_qpu_assemble_source_comma outputIndex has_dst src
          (v3d_qpu_assemble_sources outputIndex has_dst todo (src + 1))
          { st with currentChar := (v3d_qpu_skip_whitespace_comments st.currentChar).2 } := rfl

theorem flags_unwritten_source_unpack (outputIndex src : Nat)
    (next : v3d_qpu_assemble_locals → v3d_qpu_assemble_locals)
    (hn : ∀ st, v3d_qpu_flags_unwritten (next st).args.instruction =
      v3d_qpu_flags_unwritten st.args.instruction)
    (st : v3d_qpu_assemble_locals) :
    v3d_qpu_flags_unwritten
      (v3d_qpu_assemble_source_unpack outputIndex src next st).args.instruction =
      v3d_qpu_flags_unwritten st.args.instruction := by
  unfold v3d_qpu_assemble_source_unpack
  split
  · rfl
  · dsimp only
    rw [hn]
    rfl

theorem flags_unwritten_source_raddr (outputIndex src : Nat)
    (next : v3d_qpu_assemble_locals → v3d_qpu_assemble_locals)
    (hn : ∀ st, v3d_qpu_flags_unwritten (next st).args.instruction =
      v3d_qpu_flags_unwritten st.args.instruction)
    (st : v3d_qpu_assemble_locals) :
    v3d_qpu_flags_unwritten
      (v3d_qpu_assemble_source_raddr outputIndex src next st).args.instruction =
      v3d_qpu_flags_unwritten st.args.instruction := by
  have hr := flags_unwritten_assemble_raddr st.args.instruction st.currentChar
  unfold v3d_qpu_assemble_source_raddr
  lift_lets
  intro r a1 st1 st2 st3 e
  have h1 : v3d_qpu_flags_unwritten st1.args.instruction =
      v3d_qpu_flags_unwritten st.args.instruction := hr
  have h2 : v3d_qpu_flags_unwritten st2.args.instruction =
      v3d_qpu_flags_unwritten st1.args.instruction := by
    unfold st2
    split <;> rfl
  have h3 : v3d_qpu_flags_unwritten st3.args.instruction =
      v3d_qpu_flags_unwritten st.args.instruction := h2.trans h1
  by_cases c : st3.parsedSuccessfully = false
  · rw [if_pos c]
    exact h3
  · rw [if_neg c, flags_unwritten_source_unpack _ _ _ hn]
    exact h3

theorem flags_unwritten_source_comma (outputIndex : Nat) (has_dst : Bool) (src : Nat)
    (next : v3d_qpu_assemble_locals → v3d_qpu_assemble_locals)
    (hn : ∀ st, v3d_qpu_flags_unwritten (next st).args.instruction =
      v3d_qpu_flags_unwritten st.args.instruction)
    (st : v3d_qpu_assemble_locals) :
    v3d_qpu_flags_unwritten
      (v3d_qpu_assemble_source_comma outputIndex has_dst src next st).args.instruction =
      v3d_qpu_flags_unwritten st.args.instruction := by
  unfold v3d_qpu_assemble_source_comma
  dsimp only
  split
  · rfl
  · rename_i st2 hst
    have h2 : v3d_qpu_flags_unwritten st2.args.instruction =
        v3d_qpu_flags_unwritten st.args.instruction := by
      split_ifs at hst <;> cases hst <;> rfl
    split_ifs <;>
      first
      | exact h2
      | (rw [flags_unwritten_source_raddr _ _ _ hn]; exact h2)

theorem flags_unwritten_assemble_sources (outputIndex : Nat) (has_dst : Bool) (todo : Nat) :
    ∀ (src : Nat) (st : v3d_qpu_assemble_locals),
      v3d_qpu_flags_unwritten
        (v3d_qpu_assemble_sources outputIndex has_dst todo src st).args.instruction =
        v3d_qpu_flags_unwritten st.args.instruction := by
  induction todo with
  | zero => intro src st; rfl
  | succ n ih =>
    intro src st
    rw [v3d_qpu_assemble_sources_succ]
    split_ifs
    · rfl
    · rw [flags_unwritten_source_comma _ _ _ _ (ih (src + 1))]

theorem flags_unwritten_assemble_half (outputIndex : Nat) (st : v3d_qpu_assemble_locals) :
    v3d_qpu_flags_unwritten
      (v3d_qpu_assemble_state (v3d_qpu_assemble_half outputIndex st)).args.instruction =
      v3d_qpu_flags_unwritten st.args.instruction := by
  unfold v3d_qpu_assemble_half
  lift_lets
  intro avail err sk1 s1 s2 sk2 s3 sep
  have hsep : v3d_qpu_flags_unwritten (v3d_qpu_assemble_state sep).args.instruction =
      v3d_qpu_flags_unwritten st.args.instruction := by
    unfold sep
    split_ifs <;> rfl
  clear_value sep
  cases sep with
  | error s => exact hsep
  | ok s =>
    have hs : v3d_qpu_flags_unwritten s.args.instruction =
        v3d_qpu_flags_unwritten st.args.instruction := hsep
    dsimp -zeta only
    generalize v3d_qpu_value_from_name_list s.currentChar avail false = o
    rcases o with _ | ⟨op, e⟩
    · exact hs
    · dsimp -zeta only
      lift_lets
      intro has_dst num_src
      beta_reduce
      lift_lets
      intro t1 t2 t3 t4 sk3 t5 written destination
      have h4 : v3d_qpu_flags_unwritten t4.args.instruction =
          v3d_qpu_flags_unwritten st.args.instruction := by
        unfold t4
        rw [flags_unwritten_assemble_flags]
        unfold t3
        split_ifs <;> exact hs
      clear_value t4
      have h5 : v3d_qpu_flags_unwritten t5.args.instruction =
          v3d_qpu_flags_unwritten st.args.instruction := h4
      have hw : v3d_qpu_flags_unwritten (v3d_qpu_assemble_state written).args.instruction =
          v3d_qpu_flags_unwritten st.args.instruction := by
        unfold written
        split_ifs
        · split <;> exact h4
        · split <;> exact h4
      clear_value written
      have hd : v3d_qpu_flags_unwritten (v3d_qpu_assemble_state destination).args.instruction =
          v3d_qpu_flags_unwritten st.args.instruction := by
        unfold destination
        split_ifs
        · exact h4
        · rcases written with w | w
          · exact hw
          · have hw2 : v3d_qpu_flags_unwritten w.args.instruction =
                v3d_qpu_flags_unwritten st.args.instruction := hw
            dsimp -zeta only
            generalize v3d_qpu_value_from_name_list w.currentChar pack_names true = o
            rcases o with _ | ⟨index, e2⟩
            · exact hw2
            · exact hw2
        · exact h4
      clear_value destination
      split_ifs
      · exact h4
      · rcases destination with w | w
        · exact hd
        · have hd2 : v3d_qpu_flags_unwritten w.args.instruction =
              v3d_qpu_flags_unwritten st.args.instruction := hd
          dsimp -zeta only [v3d_qpu_assemble_state]
          rw [flags_unwritten_assemble_sources]
          exact hd2

section AssemblerSteps

attribute [local irreducible] v3d_qpu_skip_whitespace_comments cstr_at v3d_qpu_assemble_signal
  v3d_assemble_parse_register_file v32_qpu_magic_waddr_from_name v3d_qpu_value_from_name_list

theorem v3d_qpu_assemble_signals_succ (todo : Nat) (b : Bool) (st : v3d_qpu_assemble_locals) :
    v3d_qpu_assemble_signals (todo + 1) b st =
      v3d_qpu_assemble_signals_step (v3d_qpu_assemble_signals todo) b st := rfl

theorem flags_unwritten_assemble_signals (todo : Nat) :
    ∀ (b : Bool) (st : v3d_qpu_assemble_locals),
      v3d_qpu_flags_unwritten (v3d_qpu_assemble_signals todo b st).args.instruction =
        v3d_qpu_flags_unwritten st.args.instruction := by
  induction todo with
  | zero => intro b st; rfl
  | succ n ih =>
    intro b st
    rw [v3d_qpu_assemble_signals_succ]
    unfold v3d_qpu_assemble_signals_step
    lift_lets
    intro sk1 s1 s2 sk2 s3
    split_ifs
    · rfl
    · rfl
    · rfl
    · generalize v3d_qpu_assemble_signal s3.args.instruction.sig s3.currentChar = o
      rcases o with _ | ⟨sig, takes, e⟩
      · rfl
      · dsimp only
        split_ifs <;>
          first
          | rfl
          | (rw [ih]; rfl)
          | (split <;> first | rfl | (rw [ih]; rfl))

theorem flags_unwritten_assemble_exit (st : v3d_qpu_assemble_locals) :
    v3d_qpu_flags_unwritten (v3d_qpu_assemble_exit st).2.instruction =
      v3d_qpu_flags_unwritten st.args.instruction := by
  unfold v3d_qpu_assemble_exit
  dsimp only
  split_ifs <;> rfl

theorem flags_unwritten_assemble (args : v3d_qpu_assemble_arguments) :
    v3d_qpu_flags_unwritten (v3d_qpu_assemble args).2.instruction =
      v3d_qpu_flags_unwritten args.instruction := by
  unfold v3d_qpu_assemble
  lift_lets
  intro s0 sk s1 a2 s3 a3
  have h3 : v3d_qpu_flags_unwritten s3.args.instruction =
      v3d_qpu_flags_unwritten args.instruction := rfl
  clear_value s3
  split_ifs
  · rfl
  · rfl
  · rw [flags_unwritten_assemble_exit]; exact h3
  · have h0 := flags_unwritten_assemble_half 0 s3
    generalize v3d_qpu_assemble_half 0 s3 = r0 at h0 ⊢
    rcases r0 with e0 | t0
    · dsimp only
      rw [flags_unwritten_assemble_exit]
      exact h0.trans h3
    · dsimp only
      have h1 := flags_unwritten_assemble_half 1 t0
      have h0b : v3d_qpu_flags_unwritten t0.args.instruction =
          v3d_qpu_flags_unwritten args.instruction := h0.trans h3
      generalize v3d_qpu_assemble_half 1 t0 = r1 at h1 ⊢
      rcases r1 with e1 | t1
      · dsimp only
        rw [flags_unwritten_assemble_exit]
        exact h1.trans h0b
      · dsimp only
        have h1b : v3d_qpu_flags_unwritten t1.args.instruction =
            v3d_qpu_flags_unwritten args.instruction := h1.trans h0b
        split_ifs
        · rw [flags_unwritten_assemble_exit]
          exact h1b
        · rw [flags_unwritten_assemble_exit, flags_unwritten_assemble_signals]
          exact h1b

end AssemblerSteps

/-- C24, general fact. `v3d_qpu_assemble` has no assignment to `flags.mc`,
`flags.apf` or `flags.auf`: whatever the version and the text, and whether the
call succeeds or not, these three members of the record are what they were
before the call. On a zero-initialised record they stay NONE, so no suffix of
the mul op name reaches `flags.mc` and no suffix of the add op name reaches
`flags.apf` or `flags.auf`. -/
theorem assemble_never_writes_mc_apf_auf (args : v3d_qpu_assemble_arguments) :
    (v3d_qpu_assemble args).2.instruction.flags.mc = args.instruction.flags.mc ∧
    (v3d_qpu_assemble args).2.instruction.flags.apf = args.instruction.flags.apf ∧
    (v3d_qpu_assemble args).2.instruction.flags.auf = args.instruction.flags.auf := by
  have h := flags_unwritten_assemble args
  unfold v3d_qpu_flags_unwritten at h
  simp only [Prod.mk.injEq] at h
  exact h

/-- C24, failing inputs. At version 42 on a zero-initialised record:
"add.pushz rf0, r0, r1 ; nop" assembles (27 characters) to flags with
`mpf` = PUSHZ and `apf` = NONE; "add.andz rf0, r0, r1 ; nop" to `muf` = ANDZ and
`auf` = NONE; "nop ; fmul.ifa rf0, r0, r1" to `ac` = IFA and `mc` = NONE; and in
"add.ifa rf0, r0, r1 ; fmul.ifb rf1, r2, r3" the suffix of the mul op
overwrites the one of the add op: `ac` = IFB, `mc` = NONE. -/
theorem assemble_flag_suffix_counterexample :
    ((v3d_qpu_assemble_text 42 "add.pushz rf0, r0, r1 ; nop").1 = 27 ∧
     (v3d_qpu_assemble_text 42 "add.pushz rf0, r0, r1 ; nop").2.instruction.flags =
       { mpf := V3D_QPU_PF_PUSHZ } ∧
     (v3d_qpu_assemble_text 42 "add.pushz rf0, r0, r1 ; nop").2.instruction.flags.apf =
       V3D_QPU_PF_NONE ∧
     V3D_QPU_PF_NONE ≠ V3D_QPU_PF_PUSHZ) ∧
    ((v3d_qpu_assemble_text 42 "add.andz rf0, r0, r1 ; nop").1 = 26 ∧
     (v3d_qpu_assemble_text 42 "add.andz rf0, r0, r1 ; nop").2.instruction.flags =
       { muf := V3D_QPU_UF_ANDZ }) ∧
    ((v3d_qpu_assemble_text 42 "nop ; fmul.ifa rf0, r0, r1").1 = 26 ∧
     (v3d_qpu_assemble_text 42 "nop ; fmul.ifa rf0, r0, r1").2.instruction.flags =
       { ac := V3D_QPU_COND_IFA }) ∧
    ((v3d_qpu_assemble_text 42 "add.ifa rf0, r0, r1 ; fmul.ifb rf1, r2, r3").1 = 42 ∧
     (v3d_qpu_assemble_text 42 "add.ifa rf0, r0, r1 ; fmul.ifb rf1, r2, r3").2.instruction.flags =
       { ac := V3D_QPU_COND_IFB }) := by
  decide

set_option maxRecDepth 1000000 in
/-- C27, failing inputs. Each text assembles (the return value is its length), and
the text decoded from the record does not assemble back to the record.
(1) Version 42, "umin rf25, r0, r1 ; nop": the enumerator of UMIN has the value
of V3D_QPU_M_NOP, so the add half gets `magic_write`; the destination prints as
"waddr UNKNOWN 25" and the text is rejected.
(2) Version 42, "add rf0, rf9, 3 ; fmul rf1, rf3, r0": rf3 shares `raddr_b` with
the small immediate 3 and prints as "3"; the text is rejected.
(3) Version 42, "fadd.ifnb tmuhslod.l, rf10.abs, r1 ; nop": the add half fills
the 30 columns, no blank precedes the ";", and the text is rejected.
(4) Version 42, "add.ifa rf0, r0, r1 ; nop ; ldunifrf.rf1": the condition is not
printed beside a signal that writes an address; the text assembles to another
record.
(5) Version 40, "nop ; nop ; ldvary.rf3": the signal address is stored but not
printed below version 41; the text assembles to another record. -/
theorem assemble_decode_round_trip_counterexample :
    (V3D_QPU_A_UMIN = V3D_QPU_M_NOP ∧
     (v3d_qpu_assemble_text 42 "umin rf25, r0, r1 ; nop").1 = 23 ∧
     (v3d_qpu_assemble_text 42 "umin rf25, r0, r1 ; nop").2.instruction.alu.add.waddr = 25 ∧
     (v3d_qpu_assemble_text 42 "umin rf25, r0, r1 ; nop").2.instruction.alu.add.magic_write
       = true ∧
     v3d_qpu_decode { ver := 42 }
       (v3d_qpu_assemble_text 42 "umin rf25, r0, r1 ; nop").2.instruction 256 =
       some (35, "umin waddr UNKNOWN 25, r0, r1 ; nop".toList) ∧
     (v3d_qpu_reassemble 42
       (v3d_qpu_assemble_text 42 "umin rf25, r0, r1 ; nop").2.instruction 256).map
         (fun r => (r.1, r.2.errorMessage)) =
       some (0, some "Expected rf0 through rf31 or waddr")) ∧
    ((v3d_qpu_assemble_text 42 "add rf0, rf9, 3 ; fmul rf1, rf3, r0").1 = 35 ∧
     v3d_qpu_decode { ver := 42 }
       (v3d_qpu_assemble_text 42 "add rf0, rf9, 3 ; fmul rf1, rf3, r0").2.instruction 256 =
       some (47, "add rf0, rf9, 3               ; fmul rf1, 3, r0".toList) ∧
     (v3d_qpu_reassemble 42
       (v3d_qpu_assemble_text 42 "add rf0, rf9, 3 ; fmul rf1, rf3, r0").2.instruction 256).map
         (fun r => r.1) = some 0) ∧
    ((v3d_qpu_assemble_text 42 "fadd.ifnb tmuhslod.l, rf10.abs, r1 ; nop").1 = 40 ∧
     v3d_qpu_decode { ver := 42 }
       (v3d_qpu_assemble_text 42 "fadd.ifnb tmuhslod.l, rf10.abs, r1 ; nop").2.instruction 256 =
       some (39, "fadd.ifnb tmuhslod.l, rf10.abs, r1; nop".toList) ∧
     (v3d_qpu_reassemble 42
       (v3d_qpu_assemble_text 42
         "fadd.ifnb tmuhslod.l, rf10.abs, r1 ; nop").2.instruction 256).map
         (fun r => (r.1, r.2.errorMessage)) =
       some (0, some "Expected ';' between add and mul instructions")) ∧
    ((v3d_qpu_assemble_text 42 "add.ifa rf0, r0, r1 ; nop ; ldunifrf.rf1").1 = 40 ∧
     (v3d_qpu_assemble_text 42
       "add.ifa rf0, r0, r1 ; nop ; ldunifrf.rf1").2.instruction.flags.ac = V3D_QPU_COND_IFA ∧
     (v3d_qpu_reassemble 42
       (v3d_qpu_assemble_text 42
         "add.ifa rf0, r0, r1 ; nop ; ldunifrf.rf1").2.instruction 256).map
         (fun r => (r.1, r.2.instruction.flags.ac)) = some (74, V3D_QPU_COND_NONE)) ∧
    ((v3d_qpu_assemble_text 40 "nop ; nop ; ldvary.rf3").1 = 22 ∧
     (v3d_qpu_assemble_text 40 "nop ; nop ; ldvary.rf3").2.instruction.sig_addr = 3 ∧
     (v3d_qpu_reassemble 40
       (v3d_qpu_assemble_text 40 "nop ; nop ; ldvary.rf3").2.instruction 256).map
         (fun r => (r.1, r.2.instruction.sig_addr)) = some (68, 0)) := by
  decide

/-! ## C35, C36: destinations and register file operands in the assembler -/

set_option maxRecDepth 1000000 in
/-- C35 (failing input): at version 42 the line "umin rf25, r0, r1 ; nop" is
assembled into a zero-initialised record with success (return value 23), and
the ADD half of the record has `waddr = 25` with `magic_write` set: the test for
a NOP compares the op of both halves with `V3D_QPU_M_NOP`, whose value 8 is
`V3D_QPU_A_UMIN` among the ADD ops, so the NOP write address is stored for UMIN
and the register file destination read afterwards leaves `magic_write` as it
is.  The same line with `add` has `magic_write` clear. -/
theorem assemble_rf_destination_counterexample :
    V3D_QPU_A_UMIN = V3D_QPU_M_NOP ∧
    (v3d_qpu_assemble_text 42 "umin rf25, r0, r1 ; nop").1 = 23 ∧
    (v3d_qpu_assemble_text 42 "umin rf25, r0, r1 ; nop").2.instruction.alu.add =
      { op := V3D_QPU_A_UMIN, a := { mux := 0 }, b := { mux := 1 }, waddr := 25,
        magic_write := true } ∧
    (v3d_qpu_assemble_text 42 "add rf25, r0, r1 ; nop").2.instruction.alu.add =
      { op := V3D_QPU_A_ADD, a := { mux := 0 }, b := { mux := 1 }, waddr := 25,
        magic_write := false } := by
  decide

set_option maxRecDepth 1000000 in
/-- C36 (failing input): at version 42 the line
"add rf0, rf9, 3 ; fmul rf1, rf3, r0" is assembled into a zero-initialised
record with success (return value 35); the small immediate 3 takes `raddr_b`
with `sig.small_imm_b` set, and the register file operand `rf3` of the MUL half
is then bound to mux B as well, because `raddr_b` already holds the number 3:
the record reads the small immediate 3 where the line names register 3. -/
theorem assemble_rf_source_counterexample :
    (v3d_qpu_assemble_text 42 "add rf0, rf9, 3 ; fmul rf1, rf3, r0").1 = 35 ∧
    (v3d_qpu_assemble_text 42 "add rf0, rf9, 3 ; fmul rf1, rf3, r0").2.instruction.alu.add.b.mux =
      V3D_QPU_MUX_B ∧
    (v3d_qpu_assemble_text 42 "add rf0, rf9, 3 ; fmul rf1, rf3, r0").2.instruction.alu.mul.a.mux =
      V3D_QPU_MUX_B ∧
    (v3d_qpu_assemble_text 42 "add rf0, rf9, 3 ; fmul rf1, rf3, r0").2.instruction.raddr_a = 9 ∧
    (v3d_qpu_assemble_text 42 "add rf0, rf9, 3 ; fmul rf1, rf3, r0").2.instruction.raddr_b = 3 ∧
    (v3d_qpu_assemble_text 42
      "add rf0, rf9, 3 ; fmul rf1, rf3, r0").2.instruction.sig.small_imm_b = true := by
  decide

/-! ## C33: the float-to-integer conversions of the ADD half -/

/-- C33 (failing input): at version 4.2 the ALU record with the ADD op FTOIN,
`a.unpack = V3D_QPU_UNPACK_L`, output pack NONE and a NOP in the MUL half packs
with success, but the ADD opcode of the word is 253: the encoder or-s the packed
unpack mode 2 into opcode 245, whose bits 2-3 already hold 1, so these bits
become 3, and the word decodes to the same op with
`a.unpack = V3D_QPU_UNPACK_H`.  The encoder of FROUND, FTRUNC and the other
ops of that opcode row clears the two bits before it stores the mode.  With
`a.unpack` NONE or H the record decodes to the same op and `a.unpack`. -/
theorem add_pack_ftoin_unpack_l_counterexample :
    (v3d_qpu_instr_pack { ver := 42 }
      { alu := { add := { op := V3D_QPU_A_FTOIN, a := { mux := 1, unpack := V3D_QPU_UNPACK_L },
                          waddr := 3 },
                 mul := { op := V3D_QPU_M_NOP, waddr := 6, magic_write := true } } }) =
      some 4323492493053235200 ∧
    QPU_GET_FIELD 4323492493053235200 V3D_QPU_OP_ADD_SHIFT V3D_QPU_OP_ADD_MASK = 253 ∧
    ((v3d_qpu_instr_unpack { ver := 42 } 4323492493053235200 {}).map
      (fun r => (r.alu.add.op, r.alu.add.a.unpack))) =
      some (V3D_QPU_A_FTOIN, V3D_QPU_UNPACK_H) ∧
    V3D_QPU_UNPACK_H ≠ V3D_QPU_UNPACK_L ∧
    (∀ op ∈ [V3D_QPU_A_FTOIN, V3D_QPU_A_FTOIZ, V3D_QPU_A_FTOUZ, V3D_QPU_A_FTOC],
      ∀ u ∈ [V3D_QPU_UNPACK_NONE, V3D_QPU_UNPACK_L, V3D_QPU_UNPACK_H],
        ((v3d33_qpu_add_pack { ver := 42 }
          { alu := { add := { op := op, a := { mux := 1, unpack := u } } } } 0).bind
          (fun W => (v3d33_qpu_add_unpack { ver := 42 } W {}).map
            (fun r => (r.alu.add.op, r.alu.add.a.unpack)))) =
          some (op, if u = V3D_QPU_UNPACK_L then V3D_QPU_UNPACK_H else u)) := by
  decide

/-! ## C39, C40: the branch decoder -/

/-- C39 (failing input): the word 144115192370823168 (signal field 16, so the
branch path is taken, and branch condition field 1, the reserved code) is
decoded with success at version 4.2: `V3D_QPU_BRANCH_COND_A0 + (cond - 2)` is
computed in `v3d_uint32`, where 1 - 2 wraps to 2^32 - 1 and the sum to 0, which
passes the range test and is stored as `V3D_QPU_BRANCH_COND_ALWAYS`; packing the
decoded record gives a word with the condition field 0, not 1. -/
theorem unpack_branch_reserved_cond_counterexample :
    QPU_GET_FIELD 144115192370823168 V3D_QPU_BRANCH_COND_SHIFT V3D_QPU_BRANCH_COND_MASK = 1 ∧
    QPU_GET_FIELD 144115192370823168 V3D_QPU_OP_MUL_SHIFT V3D_QPU_OP_MUL_MASK = 0 ∧
    QPU_GET_FIELD 144115192370823168 V3D_QPU_SIG_SHIFT V3D_QPU_SIG_MASK = 16 ∧
    v3d_qpu_instr_unpack { ver := 42 } 144115192370823168 {} =
      some { type := V3D_QPU_INSTR_TYPE_BRANCH,
             branch := { cond := V3D_QPU_BRANCH_COND_ALWAYS } } ∧
    ((v3d_qpu_instr_pack { ver := 42 }
      { type := V3D_QPU_INSTR_TYPE_BRANCH,
        branch := { cond := V3D_QPU_BRANCH_COND_ALWAYS } }).map
      (fun W => QPU_GET_FIELD W V3D_QPU_BRANCH_COND_SHIFT V3D_QPU_BRANCH_COND_MASK)) =
      some 0 := by
  decide

/-- C39 (what the code does): `v3d_qpu_instr_unpack_branch` fails exactly when the
msfign field is 3, whatever the branch condition field holds; when it succeeds,
the condition is ALWAYS for the codes 0 and 1 and the code minus 1 (A0 to
ALLNA) for the codes 2 to 7. -/
theorem unpack_branch_cond_cases (W : Nat) (i0 : v3d_qpu_instr) :
    (v3d_qpu_instr_unpack_branch W i0 = none ↔
      QPU_GET_FIELD W V3D_QPU_BRANCH_MSFIGN_SHIFT V3D_QPU_BRANCH_MSFIGN_MASK = 3) ∧
    (∀ R, v3d_qpu_instr_unpack_branch W i0 = some R →
      R.branch.cond =
        if QPU_GET_FIELD W V3D_QPU_BRANCH_COND_SHIFT V3D_QPU_BRANCH_COND_MASK ≤ 1 then
          V3D_QPU_BRANCH_COND_ALWAYS
        else QPU_GET_FIELD W V3D_QPU_BRANCH_COND_SHIFT V3D_QPU_BRANCH_COND_MASK - 1) := by
  have hc : QPU_GET_FIELD W V3D_QPU_BRANCH_COND_SHIFT V3D_QPU_BRANCH_COND_MASK < 8 :=
    QPU_GET_FIELD_lt W 34 32
  have hdec : ∀ c, c < 8 →
      (if c = 0 then some V3D_QPU_BRANCH_COND_ALWAYS
       else if (V3D_QPU_BRANCH_COND_A0 + u32_sub c 2) % 4294967296 ≤ V3D_QPU_BRANCH_COND_ALLNA
         then some ((V3D_QPU_BRANCH_COND_A0 + u32_sub c 2) % 4294967296)
       else none) = some (if c ≤ 1 then V3D_QPU_BRANCH_COND_ALWAYS else c - 1) := by
    intro c h
    interval_cases c <;> decide
  unfold v3d_qpu_instr_unpack_branch
  dsimp only
  rw [hdec _ hc]
  dsimp only
  by_cases hm : QPU_GET_FIELD W V3D_QPU_BRANCH_MSFIGN_SHIFT V3D_QPU_BRANCH_MSFIGN_MASK = 3
  · rw [if_pos hm]
    exact ⟨⟨fun _ => hm, fun _ => rfl⟩, fun R h => absurd h (by simp)⟩
  · rw [if_neg hm]
    refine ⟨⟨fun h => absurd h (by simp), fun h => absurd h hm⟩, ?_⟩
    intro R h
    simp only [Option.some.injEq, v3d_bool_of_int_branch_ub, Bool.false_eq_true, if_false] at h
    rw [← h]

/-- C40 (failing input): the branch record with cond ALLA, msfign P, bdi REL,
`ub` set, bdu REL and offset 4096 packs at version 4.2 to the word
144132797443919872, whose `V3D_QPU_BRANCH_UB` bit is set; the decoder stores
`packed_instr & V3D_QPU_BRANCH_UB` (the value 2^14) into the `v3d_bool` member
`ub`, a `char`, so `ub` is false in the decoded record and `bdu` is not read. -/
theorem pack_unpack_branch_ub_counterexample :
    v3d_qpu_instr_pack { ver := 42 }
      { type := V3D_QPU_INSTR_TYPE_BRANCH,
        branch := { cond := V3D_QPU_BRANCH_COND_ALLA, msfign := V3D_QPU_MSFIGN_P,
                    bdi := V3D_QPU_BRANCH_DEST_REL, bdu := V3D_QPU_BRANCH_DEST_REL, ub := true,
                    offset := 4096 } } = some 144132797443919872 ∧
    144132797443919872 &&& V3D_QPU_BRANCH_UB ≠ 0 ∧
    v3d_qpu_instr_unpack { ver := 42 } 144132797443919872 {} =
      some { type := V3D_QPU_INSTR_TYPE_BRANCH,
             branch := { cond := V3D_QPU_BRANCH_COND_ALLA, msfign := V3D_QPU_MSFIGN_P,
                         bdi := V3D_QPU_BRANCH_DEST_REL, bdu := 0, ub := false,
                         offset := 4096 } } := by
  decide

/-- C40 (what the code does): no word decodes to a branch record with `ub` set,
and `bdu` keeps the value the record had before the call. -/
theorem unpack_branch_never_sets_ub (W : Nat) (i0 R : v3d_qpu_instr)
    (h : v3d_qpu_instr_unpack_branch W i0 = some R) :
    R.branch.ub = false ∧ R.branch.bdu = i0.branch.bdu := by
  unfold v3d_qpu_instr_unpack_branch at h
  dsimp only at h
  split at h
  · exact absurd h (by simp)
  · split at h
    · exact absurd h (by simp)
    · simp only [v3d_bool_of_int_branch_ub, Bool.false_eq_true, if_false,
        Option.some.injEq] at h
      rw [← h]
      exact ⟨rfl, rfl⟩

theorem unpack_branch_never_sets_ub_witness :
    v3d_qpu_instr_unpack_branch 144132797443919872 {} =
      some { type := V3D_QPU_INSTR_TYPE_BRANCH,
             branch := { cond := V3D_QPU_BRANCH_COND_ALLA, msfign := V3D_QPU_MSFIGN_P,
                         bdi := V3D_QPU_BRANCH_DEST_REL, offset := 4096 } } ∧
    (({ type := V3D_QPU_INSTR_TYPE_BRANCH,
        branch := { cond := V3D_QPU_BRANCH_COND_ALLA, msfign := V3D_QPU_MSFIGN_P,
                    bdi := V3D_QPU_BRANCH_DEST_REL, offset := 4096 } } :
          v3d_qpu_instr).branch.ub = false ∧
     ({ type := V3D_QPU_INSTR_TYPE_BRANCH,
        branch := { cond := V3D_QPU_BRANCH_COND_ALLA, msfign := V3D_QPU_MSFIGN_P,
                    bdi := V3D_QPU_BRANCH_DEST_REL, offset := 4096 } } :
          v3d_qpu_instr).branch.bdu = ({} : v3d_qpu_instr).branch.bdu) :=
  ⟨by decide, unpack_branch_never_sets_ub 144132797443919872 {} _ (by decide)⟩

/-! ## C37, C38: the end of `v3d_qpu_validate` and the TLB Z write rules -/

/-- The thread-switch block leaves `first_tlb_z_write` alone, and counts a thread
switch only outside the delay slots of the last one. -/
theorem qpu_validate_inst_thrsw_count (state : v3d_qpu_validate_state) :
    (qpu_validate_inst_thrsw state).2.first_tlb_z_write = state.first_tlb_z_write ∧
    ((qpu_validate_inst_thrsw state).2.thrsw_count = state.thrsw_count ∨
      ((qpu_validate_inst_thrsw state).2.thrsw_count = state.thrsw_count + 1 ∧
        ¬ (state.ip - state.last_thrsw_ip < 3) ∧
        (qpu_validate_inst_thrsw state).2.last_thrsw_ip = state.ip)) ∧
    ((qpu_validate_inst_thrsw state).1 = false →
      17 ≤ (qpu_validate_inst_thrsw state).2.error) := by
  unfold qpu_validate_inst_thrsw in_thrsw_delay_slots
  dsimp only
  split_ifs <;> simp_all [fail_instr] <;> decide

/-- The errors of the thread-end block are its own. -/
theorem qpu_validate_inst_thrend_codes_ge (state : v3d_qpu_validate_state)
    (inst : v3d_qpu_instr) (e : Nat × String)
    (h : qpu_validate_inst_thrend state inst = some e) : 20 ≤ e.1 := by
  unfold qpu_validate_inst_thrend at h
  dsimp only at h
  split at h
  · cases h
    rename_i e' he
    split_ifs at he <;> cases he <;> decide
  · split at h
    · cases h
      rename_i e' he
      split_ifs at he <;> cases he <;> decide
    · split at h
      · cases h
        rename_i e' he
        split_ifs at he <;> cases he <;> decide
      · split_ifs at h with c
        cases h
        decide

/-- The tail of `qpu_validate_inst` on an ALU instruction leaves
`first_tlb_z_write` alone, counts a thread switch only outside the delay slots
of the last one, and reports none of the TLB Z write errors. -/
theorem qpu_validate_inst_tail_count (state : v3d_qpu_validate_state) (inst : v3d_qpu_instr)
    (t s v l y : Int) (halu : inst.type = V3D_QPU_INSTR_TYPE_ALU) :
    (qpu_validate_inst_tail state inst t s v l y).2.first_tlb_z_write =
      state.first_tlb_z_write ∧
    ((qpu_validate_inst_tail state inst t s v l y).2.thrsw_count = state.thrsw_count ∨
      ((qpu_validate_inst_tail state inst t s v l y).2.thrsw_count = state.thrsw_count + 1 ∧
        ¬ (state.ip - state.last_thrsw_ip < 3) ∧
        (qpu_validate_inst_tail state inst t s v l y).2.last_thrsw_ip = state.ip)) ∧
    ((qpu_validate_inst_tail state inst t s v l y).1 = false →
      13 ≤ (qpu_validate_inst_tail state inst t s v l y).2.error) := by
  have hnb : ¬ inst.type = V3D_QPU_INSTR_TYPE_BRANCH := by rw [halu]; decide
  unfold qpu_validate_inst_tail
  dsimp only
  by_cases c1 : state.ip - state.last_sfu_write < 2 ∧ v3d_qpu_uses_mux inst V3D_QPU_MUX_R4 = true
  · rw [if_pos c1]
    exact ⟨rfl, Or.inl rfl, fun _ => by simp only [fail_instr]; decide⟩
  rw [if_neg c1]
  by_cases c2 : state.ip - state.last_sfu_write < 2 ∧ v3d_qpu_writes_r4 state.devinfo inst = true
  · rw [if_pos c2]
    exact ⟨rfl, Or.inl rfl, fun _ => by simp only [fail_instr]; decide⟩
  rw [if_neg c2]
  by_cases c3 : state.ip - state.last_sfu_write < 2 ∧ s ≠ 0
  · rw [if_pos c3]
    exact ⟨rfl, Or.inl rfl, fun _ => by simp only [fail_instr]; decide⟩
  rw [if_neg c3]
  by_cases c4 : t + s + v + l + y +
          (if state.devinfo.ver = 42 then sig_bit_value inst.sig.ldtmu else 0) +
          sig_bit_value inst.sig.ldtlb + sig_bit_value inst.sig.ldvpm +
          sig_bit_value inst.sig.ldtlbu > 1
  · rw [if_pos c4]
    exact ⟨rfl, Or.inl rfl, fun _ => by simp only [fail_instr]; decide⟩
  rw [if_neg c4]
  simp only [if_neg hnb]
  generalize hst1 : (if s ≠ 0 then { state with last_sfu_write := state.ip } else state) = st1
  have e1 : st1.first_tlb_z_write = state.first_tlb_z_write ∧
      st1.thrsw_count = state.thrsw_count ∧ st1.ip = state.ip ∧
      st1.last_thrsw_ip = state.last_thrsw_ip := by
    rw [← hst1]; split_ifs <;> simp
  obtain ⟨a1, a2, a3, a4⟩ := e1
  generalize htp : (if inst.sig.thrsw = true then qpu_validate_inst_thrsw st1 else (true, st1)) = tp
  have e2 : tp.2.first_tlb_z_write = state.first_tlb_z_write ∧
      (tp.2.thrsw_count = state.thrsw_count ∨
        (tp.2.thrsw_count = state.thrsw_count + 1 ∧ ¬ (state.ip - state.last_thrsw_ip < 3) ∧
          tp.2.last_thrsw_ip = state.ip)) ∧
      (tp.1 = false → 17 ≤ tp.2.error) := by
    rw [← htp]
    by_cases ht : inst.sig.thrsw = true
    · rw [if_pos ht]
      obtain ⟨f1, f2, f3⟩ := qpu_validate_inst_thrsw_count st1
      rw [a1, a2, a3, a4] at *
      exact ⟨f1, f2, f3⟩
    · rw [if_neg ht]
      exact ⟨a1, Or.inl a2, fun h => absurd h (by simp)⟩
  obtain ⟨b1, b2, b3⟩ := e2
  by_cases c : tp.1 = false
  · rw [if_pos c]
    exact ⟨b1, b2, fun _ => by have := b3 c; omega⟩
  · rw [if_neg c]
    generalize hte : (if tp.2.thrend_found = true ∧ tp.2.last_thrsw_ip - tp.2.ip ≤ 2 ∧
        inst.type = V3D_QPU_INSTR_TYPE_ALU then qpu_validate_inst_thrend tp.2 inst
        else none) = te
    cases te with
    | none => exact ⟨b1, b2, fun h => absurd h (by simp)⟩
    | some e =>
      have he : qpu_validate_inst_thrend tp.2 inst = some e := by
        split_ifs at hte
        · exact hte
      have := qpu_validate_inst_thrend_codes_ge tp.2 inst e he
      refine ⟨b1, b2, fun _ => ?_⟩
      simp only [fail_instr]
      omega

/-- What `qpu_validate_inst` does with `first_tlb_z_write` and `thrsw_count`: the
first stays, the second stays or grows by one outside the delay slots of the
last thread switch; and from a state whose `ip` is not after
`first_tlb_z_write` it reports none of the three TLB Z write errors. -/
theorem qpu_validate_inst_tlb_count (state : v3d_qpu_validate_state) (inst : v3d_qpu_instr) :
    (qpu_validate_inst state inst).2.first_tlb_z_write = state.first_tlb_z_write ∧
    ((qpu_validate_inst state inst).2.thrsw_count = state.thrsw_count ∨
      ((qpu_validate_inst state inst).2.thrsw_count = state.thrsw_count + 1 ∧
        ¬ (state.ip - state.last_thrsw_ip < 3) ∧
        (qpu_validate_inst state inst).2.last_thrsw_ip = state.ip)) ∧
    ((qpu_validate_inst state inst).1 = false → ¬ state.ip > state.first_tlb_z_write →
      4 ≤ (qpu_validate_inst state inst).2.error) := by
  by_cases halu : inst.type = V3D_QPU_INSTR_TYPE_ALU
  · have hnb : ¬ inst.type = V3D_QPU_INSTR_TYPE_BRANCH := by rw [halu]; decide
    have hnn : ¬ inst.type ≠ V3D_QPU_INSTR_TYPE_ALU := fun h => h halu
    obtain ⟨q1, q2, q3⟩ := qpu_validate_inst_tail_count state inst
      (qpu_validate_inst_count inst (v3d_qpu_magic_waddr_is_tmu state.devinfo))
      (qpu_validate_inst_count inst v3d_qpu_magic_waddr_is_sfu)
      (qpu_validate_inst_count inst v3d_qpu_magic_waddr_is_vpm)
      (qpu_validate_inst_count inst v3d_qpu_magic_waddr_is_tlb)
      (qpu_validate_inst_count inst v3d_qpu_magic_waddr_is_tsy) halu
    have hcnt : ∀ p : Nat → Bool,
        qpu_validate_count_writes (decide (inst.alu.add.op = V3D_QPU_A_NOP)) inst.alu.add p +
        qpu_validate_count_writes (decide (inst.alu.mul.op = V3D_QPU_M_NOP)) inst.alu.mul p =
        qpu_validate_inst_count inst p := fun _ => rfl
    unfold qpu_validate_inst
    dsimp only
    simp only [hcnt]
    rw [if_neg (fun h => hnb h.1), if_neg hnn]
    by_cases c1 : inst.alu.add.op = V3D_QPU_A_SETMSF ∧ state.first_tlb_z_write ≥ 0 ∧
        state.ip > state.first_tlb_z_write
    · rw [if_pos c1]
      exact ⟨rfl, Or.inl rfl, fun _ hz => absurd c1.2.2 hz⟩
    rw [if_neg c1]
    by_cases c2 : state.first_tlb_z_write ≥ 0 ∧ state.ip > state.first_tlb_z_write ∧
        inst.alu.add.op = V3D_QPU_A_MSF
    · rw [if_pos c2]
      exact ⟨rfl, Or.inl rfl, fun _ hz => absurd c2.2.1 hz⟩
    rw [if_neg c2]
    by_cases c3 : state.devinfo.ver < 71 ∧
        (inst.sig.small_imm_a || inst.sig.small_imm_c || inst.sig.small_imm_d) = true
    · rw [if_pos c3]
      exact ⟨rfl, Or.inl rfl, fun _ _ => by simp only [fail_instr]; decide⟩
    rw [if_neg c3]
    by_cases c4 : ¬ state.devinfo.ver < 71 ∧ (inst.sig.small_imm_a || inst.sig.small_imm_b) = true ∧
        ¬ (inst.type = V3D_QPU_INSTR_TYPE_ALU ∧ inst.alu.add.op ≠ V3D_QPU_A_NOP)
    · rw [if_pos c4]
      exact ⟨rfl, Or.inl rfl, fun _ _ => by simp only [fail_instr]; decide⟩
    rw [if_neg c4]
    by_cases c5 : ¬ state.devinfo.ver < 71 ∧ (inst.sig.small_imm_c || inst.sig.small_imm_d) = true ∧
        ¬ (inst.type = V3D_QPU_INSTR_TYPE_ALU ∧ inst.alu.mul.op ≠ V3D_QPU_M_NOP)
    · rw [if_pos c5]
      exact ⟨rfl, Or.inl rfl, fun _ _ => by simp only [fail_instr]; decide⟩
    rw [if_neg c5]
    by_cases c6 : ¬ state.devinfo.ver < 71 ∧
        sig_bit_value inst.sig.small_imm_a + sig_bit_value inst.sig.small_imm_b +
        sig_bit_value inst.sig.small_imm_c + sig_bit_value inst.sig.small_imm_d > 1
    · rw [if_pos c6]
      exact ⟨rfl, Or.inl rfl, fun _ _ => by simp only [fail_instr]; decide⟩
    rw [if_neg c6]
    rcases hl : state.last with _ | last
    · simp only [Bool.false_and, Bool.or_self, Bool.false_eq_true, and_false, if_false]
      by_cases c9 : in_thrsw_delay_slots state = true ∧
              qpu_validate_inst_count inst v3d_qpu_magic_waddr_is_sfu ≠ 0
      · rw [if_pos c9]
        exact ⟨rfl, Or.inl rfl, fun _ _ => by simp only [fail_instr]; decide⟩
      rw [if_neg c9]
      by_cases c10 : in_thrsw_delay_slots state = true ∧ inst.sig.ldvary = true ∧
          state.devinfo.ver = 42
      · rw [if_pos c10]
        exact ⟨rfl, Or.inl rfl, fun _ _ => by simp only [fail_instr]; decide⟩
      rw [if_neg c10]
      by_cases c11 : in_thrsw_delay_slots state = true ∧ inst.sig.ldvary = true ∧
              state.devinfo.ver ≥ 71 ∧ state.ip - state.last_thrsw_ip = 2
      · rw [if_pos c11]
        exact ⟨rfl, Or.inl rfl, fun _ _ => by simp only [fail_instr]; decide⟩
      rw [if_neg c11]
      exact ⟨q1, q2, fun h _ => by have := q3 h; omega⟩
    · simp only []
      by_cases c7 : (last.sig.ldvary && (inst.sig.ldunif || inst.sig.ldunifa)) = true
      · rw [if_pos c7]
        exact ⟨rfl, Or.inl rfl, fun _ _ => by simp only [fail_instr]; decide⟩
      rw [if_neg c7]
      by_cases c8 : state.devinfo.ver < 42 ∧
          (((last.sig.ldunif || last.sig.ldunifrf) && (inst.sig.ldunifa || inst.sig.ldunifarf)) ||
           ((last.sig.ldunifa || last.sig.ldunifarf) && (inst.sig.ldunif || inst.sig.ldunifrf))) =
            true
      · rw [if_pos c8]
        exact ⟨rfl, Or.inl rfl, fun _ _ => by simp only [fail_instr]; decide⟩
      rw [if_neg c8]
      by_cases c9 : in_thrsw_delay_slots state = true ∧
              qpu_validate_inst_count inst v3d_qpu_magic_waddr_is_sfu ≠ 0
      · rw [if_pos c9]
        exact ⟨rfl, Or.inl rfl, fun _ _ => by simp only [fail_instr]; decide⟩
      rw [if_neg c9]
      by_cases c10 : in_thrsw_delay_slots state = true ∧ inst.sig.ldvary = true ∧
          state.devinfo.ver = 42
      · rw [if_pos c10]
        exact ⟨rfl, Or.inl rfl, fun _ _ => by simp only [fail_instr]; decide⟩
      rw [if_neg c10]
      by_cases c11 : in_thrsw_delay_slots state = true ∧ inst.sig.ldvary = true ∧
              state.devinfo.ver ≥ 71 ∧ state.ip - state.last_thrsw_ip = 2
      · rw [if_pos c11]
        exact ⟨rfl, Or.inl rfl, fun _ _ => by simp only [fail_instr]; decide⟩
      rw [if_neg c11]
      exact ⟨q1, q2, fun h _ => by have := q3 h; omega⟩
  · rw [qpu_validate_inst_non_alu state inst halu]
    split_ifs with c
    · exact ⟨rfl, Or.inl rfl, fun _ hz => absurd c.2.2.1 hz⟩
    · exact ⟨rfl, Or.inl rfl, fun h _ => absurd h (by simp)⟩

/-- The error of a loop that reports an index, when the loop cannot pass
`first_tlb_z_write`: none of the three TLB Z write errors. -/
theorem v3d_qpu_validate_loop_reject_tlb (l : List v3d_qpu_instr) :
    ∀ (index : Int) (state : v3d_qpu_validate_state),
      state.ip + l.length ≤ state.first_tlb_z_write →
      (v3d_qpu_validate_loop l index state).1 ≠ none →
      4 ≤ (v3d_qpu_validate_loop l index state).2.error := by
  induction l with
  | nil => intro index state _ h; exact absurd rfl h
  | cons x xs ih =>
    intro index state h0 h
    unfold v3d_qpu_validate_loop at h ⊢
    dsimp only at h ⊢
    obtain ⟨f1, _, f3⟩ := qpu_validate_inst_tlb_count state x
    obtain ⟨_, f2, _⟩ := qpu_validate_inst_frame state x
    simp only [List.length_cons] at h0
    push_cast at h0
    by_cases c : (qpu_validate_inst state x).1 = false
    · rw [if_pos c]
      exact f3 c (by omega)
    · rw [if_neg c] at h ⊢
      refine ih _ _ ?_ h
      show (qpu_validate_inst state x).2.ip + 1 + (xs.length : Int) ≤
        (qpu_validate_inst state x).2.first_tlb_z_write
      rw [f1, f2]
      omega

/-- The number of thread switches counted by a loop that reports no index and
runs inside the first three instructions: at most one, and a counted one lies
at an instruction of the loop. -/
theorem v3d_qpu_validate_loop_thrsw_count (l : List v3d_qpu_instr) :
    ∀ (index : Int) (state : v3d_qpu_validate_state),
      0 ≤ state.ip → state.ip + l.length ≤ 3 →
      (state.thrsw_count = 0 ∨ (state.thrsw_count = 1 ∧ 0 ≤ state.last_thrsw_ip)) →
      (v3d_qpu_validate_loop l index state).1 = none →
      (v3d_qpu_validate_loop l index state).2.thrsw_count ≤ 1 := by
  induction l with
  | nil =>
    intro index state _ _ h _
    simp only [v3d_qpu_validate_loop]
    omega
  | cons x xs ih =>
    intro index state hip hlen hc h
    unfold v3d_qpu_validate_loop at h ⊢
    dsimp only at h ⊢
    obtain ⟨_, f2, _⟩ := qpu_validate_inst_tlb_count state x
    obtain ⟨_, g2, _, g4, _⟩ := qpu_validate_inst_frame state x
    simp only [List.length_cons] at hlen
    push_cast at hlen
    by_cases c : (qpu_validate_inst state x).1 = false
    · rw [if_pos c] at h
      exact absurd h (by simp)
    · rw [if_neg c] at h ⊢
      refine ih _ _ ?_ ?_ ?_ h
      · show 0 ≤ (qpu_validate_inst state x).2.ip + 1
        rw [g2]; omega
      · show (qpu_validate_inst state x).2.ip + 1 + (xs.length : Int) ≤ 3
        rw [g2]; omega
      · show (qpu_validate_inst state x).2.thrsw_count = 0 ∨
          ((qpu_validate_inst state x).2.thrsw_count = 1 ∧
            0 ≤ (qpu_validate_inst state x).2.last_thrsw_ip)
        rcases f2 with f2 | ⟨f2, f2', f2''⟩
        · rw [f2]
          rcases hc with hc | hc
          · exact Or.inl hc
          · right
            refine ⟨hc.1, ?_⟩
            rcases g4 with g4 | g4 <;> rw [g4] <;> omega
        · rcases hc with hc | hc
          · right
            rw [f2, f2'', hc]
            exact ⟨rfl, hip⟩
          · exfalso
            omega

/-- C38: whenever `v3d_qpu_validate` returns FALSE, at any version and on any
sequence, the error it reports is none of IMPLICIT_BRANCH_MSF_READ_AFTER_TLB_Z_WRITE,
SETMSF_AFTER_TLB_Z_WRITE, MSF_READ_AFTER_TLB_Z_WRITE and
NO_PROGRAM_END_THRSW_FOUND: `first_tlb_z_write` starts at `numInstructions + 1`
and no instruction changes it, so `ip` never passes it, and no statement of the
validator reports the fourth error. -/
theorem validate_never_reports_tlb_z_write (devinfo : v3d_device_info)
    (instructions : List v3d_qpu_instr) (results : v3d_qpu_validate_result)
    (h : (v3d_qpu_validate devinfo instructions results).1 = false) :
    (v3d_qpu_validate devinfo instructions results).2.error ≠
      V3D_QPU_VALIDATE_ERROR_IMPLICIT_BRANCH_MSF_READ_AFTER_TLB_Z_WRITE ∧
    (v3d_qpu_validate devinfo instructions results).2.error ≠
      V3D_QPU_VALIDATE_ERROR_SETMSF_AFTER_TLB_Z_WRITE ∧
    (v3d_qpu_validate devinfo instructions results).2.error ≠
      V3D_QPU_VALIDATE_ERROR_MSF_READ_AFTER_TLB_Z_WRITE ∧
    (v3d_qpu_validate devinfo instructions results).2.error ≠
      V3D_QPU_VALIDATE_ERROR_NO_PROGRAM_END_THRSW_FOUND := by
  unfold v3d_qpu_validate at h ⊢
  dsimp only at h ⊢
  generalize hlp : v3d_qpu_validate_loop instructions 0 _ = lp at h ⊢
  have hrej : lp.1 ≠ none → lp.2.error < 25 ∧ 4 ≤ lp.2.error := by
    rw [← hlp]
    intro hne
    exact ⟨(v3d_qpu_validate_loop_reject instructions 0 _ (show (-10 : Int) ≤ 0 by decide) hne).1,
      v3d_qpu_validate_loop_reject_tlb instructions 0 _
        (show (0 : Int) + instructions.length ≤ instructions.length + 1 by omega) hne⟩
  obtain ⟨lp1, lp2⟩ := lp
  cases lp1 with
  | none =>
    simp only [Option.isSome_none, true_and] at h ⊢
    split_ifs at h ⊢ <;> simp_all [fail_instr]
  | some e =>
    have := hrej (by simp)
    simp only [Option.isSome_some, Bool.true_eq_false, false_and, if_false, if_true]
    simp only [V3D_QPU_VALIDATE_ERROR_IMPLICIT_BRANCH_MSF_READ_AFTER_TLB_Z_WRITE,
      V3D_QPU_VALIDATE_ERROR_SETMSF_AFTER_TLB_Z_WRITE,
      V3D_QPU_VALIDATE_ERROR_MSF_READ_AFTER_TLB_Z_WRITE,
      V3D_QPU_VALIDATE_ERROR_NO_PROGRAM_END_THRSW_FOUND] at this ⊢
    omega

set_option maxRecDepth 1000000 in
theorem validate_never_reports_tlb_z_write_witness :
    (v3d_qpu_validate { ver := 42 }
      [ { type := V3D_QPU_INSTR_TYPE_BRANCH,
          branch := { cond := V3D_QPU_BRANCH_COND_ALLA, msfign := V3D_QPU_MSFIGN_P } },
        { type := V3D_QPU_INSTR_TYPE_ALU,
          alu := { add := { op := V3D_QPU_A_SETMSF, a := { mux := 1 } },
                   mul := { op := V3D_QPU_M_NOP, waddr := V3D_QPU_WADDR_NOP,
                            magic_write := true } } } ] {}).2.error ≠
      V3D_QPU_VALIDATE_ERROR_IMPLICIT_BRANCH_MSF_READ_AFTER_TLB_Z_WRITE ∧
    (v3d_qpu_validate { ver := 42 }
      [ { type := V3D_QPU_INSTR_TYPE_BRANCH,
          branch := { cond := V3D_QPU_BRANCH_COND_ALLA, msfign := V3D_QPU_MSFIGN_P } },
        { type := V3D_QPU_INSTR_TYPE_ALU,
          alu := { add := { op := V3D_QPU_A_SETMSF, a := { mux := 1 } },
                   mul := { op := V3D_QPU_M_NOP, waddr := V3D_QPU_WADDR_NOP,
                            magic_write := true } } } ] {}).2.error ≠
      V3D_QPU_VALIDATE_ERROR_SETMSF_AFTER_TLB_Z_WRITE ∧
    (v3d_qpu_validate { ver := 42 }
      [ { type := V3D_QPU_INSTR_TYPE_BRANCH,
          branch := { cond := V3D_QPU_BRANCH_COND_ALLA, msfign := V3D_QPU_MSFIGN_P } },
        { type := V3D_QPU_INSTR_TYPE_ALU,
          alu := { add := { op := V3D_QPU_A_SETMSF, a := { mux := 1 } },
                   mul := { op := V3D_QPU_M_NOP, waddr := V3D_QPU_WADDR_NOP,
                            magic_write := true } } } ] {}).2.error ≠
      V3D_QPU_VALIDATE_ERROR_MSF_READ_AFTER_TLB_Z_WRITE ∧
    (v3d_qpu_validate { ver := 42 }
      [ { type := V3D_QPU_INSTR_TYPE_BRANCH,
          branch := { cond := V3D_QPU_BRANCH_COND_ALLA, msfign := V3D_QPU_MSFIGN_P } },
        { type := V3D_QPU_INSTR_TYPE_ALU,
          alu := { add := { op := V3D_QPU_A_SETMSF, a := { mux := 1 } },
                   mul := { op := V3D_QPU_M_NOP, waddr := V3D_QPU_WADDR_NOP,
                            magic_write := true } } } ] {}).2.error ≠
      V3D_QPU_VALIDATE_ERROR_NO_PROGRAM_END_THRSW_FOUND :=
  validate_never_reports_tlb_z_write { ver := 42 }
    [ { type := V3D_QPU_INSTR_TYPE_BRANCH,
        branch := { cond := V3D_QPU_BRANCH_COND_ALLA, msfign := V3D_QPU_MSFIGN_P } },
      { type := V3D_QPU_INSTR_TYPE_ALU,
        alu := { add := { op := V3D_QPU_A_SETMSF, a := { mux := 1 } },
                 mul := { op := V3D_QPU_M_NOP, waddr := V3D_QPU_WADDR_NOP,
                          magic_write := true } } } ] {}
    (by decide)

/-- C37: on every sequence of fewer than three instructions, the empty one
included, `v3d_qpu_validate` returns FALSE at any version; when its loop
rejects no instruction, the error is NO_PROGRAM_END_THRSW_DELAY_SLOTS with the
message of that rule and `errorInstructionIndex = numInstructions - 1` (which is
-1 for the empty sequence); and the final test reads no element of the
instruction array, the left operand of its `||` being true. -/
theorem validate_rejects_short_programs (devinfo : v3d_device_info)
    (instructions : List v3d_qpu_instr) (results : v3d_qpu_validate_result)
    (hlen : instructions.length < 3) :
    (v3d_qpu_validate devinfo instructions results).1 = false ∧
    ((v3d_qpu_validate_loop instructions 0
        (v3d_qpu_validate_init devinfo instructions.length)).1 = none →
      (v3d_qpu_validate devinfo instructions results).2.error =
        V3D_QPU_VALIDATE_ERROR_NO_PROGRAM_END_THRSW_DELAY_SLOTS ∧
      (v3d_qpu_validate devinfo instructions results).2.errorMessage =
        some "THRSW needs two delay slot instructions" ∧
      (v3d_qpu_validate devinfo instructions results).2.errorInstructionIndex =
        (instructions.length : Int) - 1) ∧
    v3d_qpu_validate_end_reads instructions = [] := by
  have hn : (instructions.length : Int) < 3 := by omega
  have hcount : (v3d_qpu_validate_loop instructions 0
        (v3d_qpu_validate_init devinfo instructions.length)).1 = none →
      (v3d_qpu_validate_loop instructions 0
        (v3d_qpu_validate_init devinfo instructions.length)).2.thrsw_count ≤ 1 := by
    intro h
    exact v3d_qpu_validate_loop_thrsw_count instructions 0 _ (le_refl _)
      (show (0 : Int) + instructions.length ≤ 3 by omega) (Or.inl rfl) h
  refine ⟨?_, ?_, ?_⟩
  · unfold v3d_qpu_validate
    unfold v3d_qpu_validate_init at hcount
    dsimp only at hcount ⊢
    generalize v3d_qpu_validate_loop instructions 0 _ = lp at hcount ⊢
    obtain ⟨lp1, lp2⟩ := lp
    cases lp1 with
    | none =>
      have hc := hcount rfl
      dsimp only at hc
      have h1 : ¬ (lp2.thrsw_count > 1 ∧ lp2.last_thrsw_found = false) := by
        intro hh
        have := hh.1
        omega
      simp only [Option.isSome_none, true_and, h1, if_false, hn, true_or, if_true]
    | some e =>
      simp only [Option.isSome_some, Bool.true_eq_false, false_and, if_false, if_true]
  · intro hl
    have hc := hcount hl
    unfold v3d_qpu_validate
    unfold v3d_qpu_validate_init at hl hc
    dsimp only at hl hc ⊢
    generalize v3d_qpu_validate_loop instructions 0 _ = lp at hl hc ⊢
    obtain ⟨lp1, lp2⟩ := lp
    dsimp only at hl hc
    subst hl
    have h1 : ¬ (lp2.thrsw_count > 1 ∧ lp2.last_thrsw_found = false) := by
      intro hh
      have := hh.1
      omega
    simp only [Option.isSome_none, true_and, h1, if_false, hn, true_or, if_true, fail_instr]
  · unfold v3d_qpu_validate_end_reads
    dsimp only
    rw [if_pos hn]

theorem validate_rejects_short_programs_witness :
    ([] : List v3d_qpu_instr).length < 3 ∧
    ((v3d_qpu_validate { ver := 42 } [] {}).1 = false ∧
     ((v3d_qpu_validate_loop [] 0
        (v3d_qpu_validate_init { ver := 42 } ([] : List v3d_qpu_instr).length)).1 = none →
      (v3d_qpu_validate { ver := 42 } [] {}).2.error =
        V3D_QPU_VALIDATE_ERROR_NO_PROGRAM_END_THRSW_DELAY_SLOTS ∧
      (v3d_qpu_validate { ver := 42 } [] {}).2.errorMessage =
        some "THRSW needs two delay slot instructions" ∧
      (v3d_qpu_validate { ver := 42 } [] {}).2.errorInstructionIndex =
        (([] : List v3d_qpu_instr).length : Int) - 1) ∧
     v3d_qpu_validate_end_reads [] = []) :=
  ⟨by decide, validate_rejects_short_programs { ver := 42 } [] {} (by decide)⟩

/-- Bit `i` of `QPU_MASK(high, low)` is set exactly for `low ≤ i ≤ high`. -/
theorem QPU_MASK_testBit (hi lo i : Nat) (hlo : lo ≤ hi) :
    (QPU_MASK hi lo).testBit i = decide (lo ≤ i ∧ i ≤ hi) := by
  unfold QPU_MASK
  rw [Nat.one_shiftLeft, Nat.testBit_shiftLeft, Nat.testBit_two_pow_sub_one]
  by_cases h1 : lo ≤ i <;> by_cases h2 : i ≤ hi <;> simp [h1, h2] <;> omega

theorem QPU_MASK_lt (hi lo : Nat) (hlo : lo ≤ hi) (hhi : hi < 64) :
    QPU_MASK hi lo < 2 ^ 64 := by
  apply Nat.lt_pow_two_of_testBit
  intro i hi64
  rw [QPU_MASK_testBit hi lo i hlo]
  simp
  omega

/-- The largest value of a field, `mask >> shift`, is `2 ^ width - 1`. -/
theorem QPU_MASK_shiftRight (hi lo : Nat) :
    QPU_MASK hi lo >>> lo = 2 ^ (hi - lo + 1) - 1 := by
  unfold QPU_MASK
  rw [Nat.one_shiftLeft, Nat.shiftLeft_eq, Nat.shiftRight_eq_div_pow,
    Nat.mul_div_cancel _ (Nat.pos_pow_of_pos lo (by decide))]

/-- Bits of a word updated with `QPU_UPDATE_FIELD`. -/
theorem QPU_UPDATE_FIELD_testBit (w v hi lo i : Nat) (hlo : lo ≤ hi) (hhi : hi < 64) :
    (QPU_UPDATE_FIELD w v lo (QPU_MASK hi lo)).testBit i =
      if lo ≤ i ∧ i ≤ hi then v.testBit (i - lo) else (w.testBit i && decide (i < 64)) := by
  unfold QPU_UPDATE_FIELD QPU_SET_FIELD
  have e : (0xFFFFFFFFFFFFFFFF : Nat) - QPU_MASK hi lo = 2 ^ 64 - (QPU_MASK hi lo + 1) := by
    have := QPU_MASK_lt hi lo hlo hhi
    omega
  rw [e, Nat.testBit_or, Nat.testBit_and, Nat.testBit_and,
    Nat.testBit_two_pow_sub_succ (QPU_MASK_lt hi lo hlo hhi), QPU_MASK_testBit hi lo i hlo,
    Nat.testBit_shiftLeft]
  by_cases h : lo ≤ i ∧ i ≤ hi
  · have h1 : decide (i ≥ lo) = true := by simp [h.1]
    simp [h, h1]
  · simp [h]

theorem QPU_UPDATE_FIELD_get (w v hi lo : Nat) (hlo : lo ≤ hi) (hhi : hi < 64)
    (hv : v < 2 ^ (hi - lo + 1)) :
    QPU_GET_FIELD (QPU_UPDATE_FIELD w v lo (QPU_MASK hi lo)) lo (QPU_MASK hi lo) = v := by
  apply Nat.eq_of_testBit_eq
  intro i
  unfold QPU_GET_FIELD
  rw [Nat.testBit_shiftRight, Nat.testBit_and, QPU_UPDATE_FIELD_testBit w v hi lo _ hlo hhi,
    QPU_MASK_testBit hi lo _ hlo]
  by_cases h : lo + i ≤ hi
  · have e : lo + i - lo = i := by omega
    simp [h, e]
  · have hi2 : v.testBit i = false := by
      apply Nat.testBit_lt_two_pow
      exact lt_of_lt_of_le hv (Nat.pow_le_pow_right (by decide) (by omega))
    simp [h, hi2]

theorem QPU_UPDATE_FIELD_frame (w v hi lo i : Nat) (hlo : lo ≤ hi) (hhi : hi < 64)
    (hw : w < 2 ^ 64) (hm : (QPU_MASK hi lo).testBit i = false) :
    (QPU_UPDATE_FIELD w v lo (QPU_MASK hi lo)).testBit i = w.testBit i := by
  rw [QPU_UPDATE_FIELD_testBit w v hi lo i hlo hhi]
  rw [QPU_MASK_testBit hi lo i hlo] at hm
  have h : ¬ (lo ≤ i ∧ i ≤ hi) := by simpa using hm
  rw [if_neg h]
  by_cases h64 : i < 64
  · simp [h64]
  · have : w.testBit i = false := by
      apply Nat.testBit_lt_two_pow
      exact lt_of_lt_of_le hw (Nat.pow_le_pow_right (by decide) (by omega))
    simp [this]

/-- Every named field is a `QPU_MASK(high, low)` with `low ≤ high < 64`, of at
most 21 bits, whose shift is `low`. -/
theorem v3d_qpu_named_fields_shape (f : Nat × Nat) (hf : f ∈ v3d_qpu_named_fields) :
    ∃ hi lo, lo ≤ hi ∧ hi < 64 ∧ hi - lo + 1 ≤ 21 ∧ f = (lo, QPU_MASK hi lo) := by
  simp only [v3d_qpu_named_fields, List.mem_cons, List.mem_singleton, List.not_mem_nil,
    or_false] at hf
  rcases hf with h | h | h | h | h | h | h | h | h | h | h | h | h | h | h | h | h | h | h | h
  · exact ⟨63, 58, by decide, by decide, by decide, h⟩
  · exact ⟨57, 53, by decide, by decide, by decide, h⟩
  · exact ⟨52, 46, by decide, by decide, by decide, h⟩
  · exact ⟨43, 38, by decide, by decide, by decide, h⟩
  · exact ⟨55, 35, by decide, by decide, by decide, h⟩
  · exact ⟨37, 32, by decide, by decide, by decide, h⟩
  · exact ⟨34, 32, by decide, by decide, by decide, h⟩
  · exact ⟨31, 24, by decide, by decide, by decide, h⟩
  · exact ⟨31, 24, by decide, by decide, by decide, h⟩
  · exact ⟨23, 21, by decide, by decide, by decide, h⟩
  · exact ⟨22, 21, by decide, by decide, by decide, h⟩
  · exact ⟨20, 18, by decide, by decide, by decide, h⟩
  · exact ⟨23, 18, by decide, by decide, by decide, h⟩
  · exact ⟨17, 15, by decide, by decide, by decide, h⟩
  · exact ⟨17, 15, by decide, by decide, by decide, h⟩
  · exact ⟨14, 12, by decide, by decide, by decide, h⟩
  · exact ⟨13, 12, by decide, by decide, by decide, h⟩
  · exact ⟨17, 12, by decide, by decide, by decide, h⟩
  · exact ⟨11, 6, by decide, by decide, by decide, h⟩
  · exact ⟨5, 0, by decide, by decide, by decide, h⟩

/-- C34: for every named field of the 64-bit layout (its shift with its mask
`QPU_MASK(high, low)`), every 64-bit word `w` and every value `v` that fits in
the width of the field (`v ≤ mask >> shift`): reading the field of
`QPU_UPDATE_FIELD(w, v, field)` with `QPU_GET_FIELD` gives `v`, also after the
conversion to 32 bits that the source applies to the value read, and every bit
of `w` outside the mask of the field is unchanged by `QPU_UPDATE_FIELD`. -/
theorem update_field_get_and_frame (f : Nat × Nat) (hf : f ∈ v3d_qpu_named_fields)
    (w v : Nat) (hw : w < 2 ^ 64) (hv : v ≤ f.2 >>> f.1) :
    QPU_GET_FIELD (QPU_UPDATE_FIELD w v f.1 f.2) f.1 f.2 = v ∧
    QPU_GET_FIELD (QPU_UPDATE_FIELD w v f.1 f.2) f.1 f.2 % 2 ^ 32 = v ∧
    ∀ i : Nat, f.2.testBit i = false →
      (QPU_UPDATE_FIELD w v f.1 f.2).testBit i = w.testBit i := by
  obtain ⟨hi, lo, hlo, hhi, hwd, rfl⟩ := v3d_qpu_named_fields_shape f hf
  dsimp only at hv ⊢
  rw [QPU_MASK_shiftRight] at hv
  have hpos : 0 < 2 ^ (hi - lo + 1) := Nat.pos_pow_of_pos _ (by decide)
  have hv2 : v < 2 ^ (hi - lo + 1) := by omega
  have hg := QPU_UPDATE_FIELD_get w v hi lo hlo hhi hv2
  refine ⟨hg, ?_, ?_⟩
  · rw [hg]
    apply Nat.mod_eq_of_lt
    exact lt_of_lt_of_le hv2 (Nat.pow_le_pow_right (by decide) (by omega))
  · intro i hm
    exact QPU_UPDATE_FIELD_frame w v hi lo i hlo hhi hw hm

theorem update_field_get_and_frame_witness :
    (V3D_QPU_SIG_SHIFT, V3D_QPU_SIG_MASK) ∈ v3d_qpu_named_fields ∧
    (0xFFFFFFFFFFFFFFFF : Nat) < 2 ^ 64 ∧
    5 ≤ (V3D_QPU_SIG_SHIFT, V3D_QPU_SIG_MASK).2 >>> (V3D_QPU_SIG_SHIFT, V3D_QPU_SIG_MASK).1 ∧
    (QPU_GET_FIELD (QPU_UPDATE_FIELD 0xFFFFFFFFFFFFFFFF 5 (V3D_QPU_SIG_SHIFT, V3D_QPU_SIG_MASK).1
        (V3D_QPU_SIG_SHIFT, V3D_QPU_SIG_MASK).2) (V3D_QPU_SIG_SHIFT, V3D_QPU_SIG_MASK).1
        (V3D_QPU_SIG_SHIFT, V3D_QPU_SIG_MASK).2 = 5 ∧
     QPU_GET_FIELD (QPU_UPDATE_FIELD 0xFFFFFFFFFFFFFFFF 5 (V3D_QPU_SIG_SHIFT, V3D_QPU_SIG_MASK).1
        (V3D_QPU_SIG_SHIFT, V3D_QPU_SIG_MASK).2) (V3D_QPU_SIG_SHIFT, V3D_QPU_SIG_MASK).1
        (V3D_QPU_SIG_SHIFT, V3D_QPU_SIG_MASK).2 % 2 ^ 32 = 5 ∧
     ∀ i : Nat, (V3D_QPU_SIG_SHIFT, V3D_QPU_SIG_MASK).2.testBit i = false →
      (QPU_UPDATE_FIELD 0xFFFFFFFFFFFFFFFF 5 (V3D_QPU_SIG_SHIFT, V3D_QPU_SIG_MASK).1
        (V3D_QPU_SIG_SHIFT, V3D_QPU_SIG_MASK).2).testBit i =
        (0xFFFFFFFFFFFFFFFF : Nat).testBit i) :=
  ⟨by decide, by decide, by decide,
    update_field_get_and_frame (V3D_QPU_SIG_SHIFT, V3D_QPU_SIG_MASK) (by decide)
      0xFFFFFFFFFFFFFFFF 5 (by decide) (by decide)⟩

/-- Every row of `add_ops_v33` whose opcode range holds 248 is one of the three
VPM stores. -/
theorem add_ops_v33_rows_248 :
    add_ops_v33.all (fun d =>
      !(Nat.ble d.opcode_first 248 && Nat.ble 248 d.opcode_last) ||
      (d.op == V3D_QPU_A_STVPMV || d.op == V3D_QPU_A_STVPMD || d.op == V3D_QPU_A_STVPMP)) =
      true := by decide!

theorem add_ops_v33_stvpmv_mem :
    mux_desc 248 248 ANYMUX ANYMUX V3D_QPU_A_STVPMV 0 0 ∈ add_ops_v33 := by decide!

/-- Below V3D 7.1, opcode 248 with any two mux values finds a row of the table,
and the row is one of the three VPM stores. -/
theorem lookup_opcode_from_packed_248 (devinfo : v3d_device_info) (hv : devinfo.ver < 71)
    (a b : Nat) (ha : a < 8) (hb : b < 8) :
    ∃ d, lookup_opcode_from_packed devinfo add_ops_v33 248 a b 0 = some d ∧
      (d.op = V3D_QPU_A_STVPMV ∨ d.op = V3D_QPU_A_STVPMD ∨ d.op = V3D_QPU_A_STVPMP) := by
  have hm : opcode_desc_matches_packed devinfo 248 a b 0
      (mux_desc 248 248 ANYMUX ANYMUX V3D_QPU_A_STVPMV 0 0) = true := by
    rw [opcode_desc_matches_packed_mux devinfo hv]
    have e : (mux_desc 248 248 ANYMUX ANYMUX V3D_QPU_A_STVPMV 0 0).mux_match 248 a b = true := by
      interval_cases a <;> interval_cases b <;> decide
    rw [e]
    rfl
  obtain ⟨d, h1, h2, h3⟩ := lookup_opcode_from_packed_of_mem devinfo _ 248 a b 0 _
    add_ops_v33_stvpmv_mem hm
  refine ⟨d, h1, ?_⟩
  have h4 := add_ops_v33_rows_248
  rw [List.all_eq_true] at h4
  have h5 := h4 d h2
  rw [opcode_desc_matches_packed_mux devinfo hv] at h3
  simp only [Bool.and_eq_true, opcode_desc.mux_match] at h3
  obtain ⟨⟨⟨⟨r1, r2⟩, _⟩, _⟩, _⟩ := h3
  simp only [r1, r2, Bool.and_self, Bool.not_true, Bool.false_or, Bool.or_eq_true,
    beq_iff_eq] at h5
  tauto

/-- The ADD decoder below V3D 7.1 on opcode 248: the write address selects the
VPM store, and a write address above 2 is rejected. -/
theorem v3d33_qpu_add_unpack_core_248 (devinfo : v3d_device_info) (hv : devinfo.ver < 71)
    (a b waddr : Nat) (ma : Bool) (ha : a < 8) (hb : b < 8) :
    v3d33_qpu_add_unpack_core devinfo 248 a b waddr ma =
      if waddr = 0 then some ⟨V3D_QPU_A_STVPMV, V3D_QPU_PACK_NONE, V3D_QPU_UNPACK_NONE,
        some V3D_QPU_UNPACK_NONE, ma⟩
      else if waddr = 1 then some ⟨V3D_QPU_A_STVPMD, V3D_QPU_PACK_NONE, V3D_QPU_UNPACK_NONE,
        some V3D_QPU_UNPACK_NONE, ma⟩
      else if waddr = 2 then some ⟨V3D_QPU_A_STVPMP, V3D_QPU_PACK_NONE, V3D_QPU_UNPACK_NONE,
        some V3D_QPU_UNPACK_NONE, ma⟩
      else none := by
  obtain ⟨d, h1, h2⟩ := lookup_opcode_from_packed_248 devinfo hv a b ha hb
  unfold v3d33_qpu_add_unpack_core
  rw [show v3d33_qpu_add_unpack_map_op 248 = 248 from rfl, h1]
  dsimp only
  have ho : ∀ o, v3d_qpu_add_unpack_order o d.op = d.op := by
    intro o
    unfold v3d_qpu_add_unpack_order
    rcases h2 with h | h | h <;> rw [h] <;> cases o <;> rfl
  rw [ho]
  have hs : v3d_qpu_add_unpack_stvpm d.op waddr =
      if waddr = 0 then some V3D_QPU_A_STVPMV
      else if waddr = 1 then some V3D_QPU_A_STVPMD
      else if waddr = 2 then some V3D_QPU_A_STVPMP
      else none := by
    unfold v3d_qpu_add_unpack_stvpm
    rw [if_pos h2]
  rw [hs]
  by_cases c0 : waddr = 0
  · rw [if_pos c0, if_pos c0]
    cases ma <;> rfl
  · rw [if_neg c0, if_neg c0]
    by_cases c1 : waddr = 1
    · rw [if_pos c1, if_pos c1]
      cases ma <;> rfl
    · rw [if_neg c1, if_neg c1]
      by_cases c2 : waddr = 2
      · rw [if_pos c2, if_pos c2]
        cases ma <;> rfl
      · rw [if_neg c2, if_neg c2]

/-- The opcode fields `v3d33_qpu_add_pack` computes for a VPM store, at any
version: the mux values of the record and opcode 248, when the output pack and
the two input unpacks are NONE, and a failure otherwise. -/
theorem v3d33_qpu_add_pack_opcode_stvpm (devinfo : v3d_device_info) (add : v3d_qpu_alu_half)
    (h : add.op = V3D_QPU_A_STVPMV ∨ add.op = V3D_QPU_A_STVPMD ∨ add.op = V3D_QPU_A_STVPMP) :
    v3d33_qpu_add_pack_opcode devinfo add =
      if add.output_pack ≠ V3D_QPU_PACK_NONE ∨ add.a.unpack ≠ V3D_QPU_UNPACK_NONE ∨
         add.b.unpack ≠ V3D_QPU_UNPACK_NONE then none
      else some ⟨add.a.mux, add.b.mux, 248⟩ := by
  have hl : ∀ op, (op = V3D_QPU_A_STVPMV ∨ op = V3D_QPU_A_STVPMD ∨ op = V3D_QPU_A_STVPMP) →
      ∃ d, lookup_opcode_from_instr devinfo add_ops_v33 op = some d ∧ d.opcode_first = 248 := by
    intro op hop
    have hval : ∀ d : opcode_desc, d.first_ver = 0 → d.last_ver = 0 →
        opcode_invalid_in_version devinfo d.first_ver d.last_ver = false := by
      intro d e1 e2
      unfold opcode_invalid_in_version
      rw [e1, e2]
      rfl
    have hrow : ∃ d ∈ add_ops_v33, d.op = op ∧ d.first_ver = 0 ∧ d.last_ver = 0 := by
      rcases hop with e | e | e <;> subst e
      · exact ⟨mux_desc 248 248 ANYMUX ANYMUX V3D_QPU_A_STVPMV 0 0, by decide!, rfl, rfl, rfl⟩
      · exact ⟨mux_desc 248 248 ANYMUX ANYMUX V3D_QPU_A_STVPMD 0 0, by decide!, rfl, rfl, rfl⟩
      · exact ⟨mux_desc 248 248 ANYMUX ANYMUX V3D_QPU_A_STVPMP 0 0, by decide!, rfl, rfl, rfl⟩
    obtain ⟨d0, hd0, e0, v1, v2⟩ := hrow
    unfold lookup_opcode_from_instr
    cases hf : List.find? (fun op_desc =>
        op_desc.op == op && !opcode_invalid_in_version devinfo op_desc.first_ver op_desc.last_ver)
        add_ops_v33 with
    | none =>
      rw [List.find?_eq_none] at hf
      have := hf d0 hd0
      simp [e0, hval d0 v1 v2] at this
    | some d =>
      refine ⟨d, rfl, ?_⟩
      have hm := List.mem_of_find?_eq_some hf
      have hp := List.find?_some hf
      simp only [Bool.and_eq_true, beq_iff_eq] at hp
      have hall : add_ops_v33.all (fun d =>
          !(d.op == V3D_QPU_A_STVPMV || d.op == V3D_QPU_A_STVPMD || d.op == V3D_QPU_A_STVPMP) ||
          d.opcode_first == 248) = true := by decide!
      rw [List.all_eq_true] at hall
      have h6 := hall d hm
      rw [hp.1] at h6
      rcases hop with e | e | e <;> subst e <;> simpa using h6
  obtain ⟨d, hd, hfirst⟩ := hl add.op h
  unfold v3d33_qpu_add_pack_opcode
  dsimp only
  rw [hd]
  dsimp only
  have n1 : v3d_qpu_add_op_num_src V3D_QPU_A_STVPMV = 2 := by decide
  have n2 : v3d_qpu_add_op_num_src V3D_QPU_A_STVPMD = 2 := by decide
  have n3 : v3d_qpu_add_op_num_src V3D_QPU_A_STVPMP = 2 := by decide
  rcases h with e | e | e <;> rw [e, hfirst] <;> simp [n1, n2, n3]

/-- The word `v3d_qpu_instr_pack` builds for an ALU record below V3D 7.1. -/
theorem v3d_qpu_instr_pack_alu33_word (devinfo : v3d_device_info) (hv : devinfo.ver < 71)
    (instr : v3d_qpu_instr) (W : Nat) (hty : instr.type = V3D_QPU_INSTR_TYPE_ALU)
    (hp : v3d_qpu_instr_pack devinfo instr = some W) :
    ∃ (sig : Nat) (fa fm : alu_pack_fields) (cond : Nat), v3d33_qpu_add_pack_opcode devinfo instr.alu.add = some fa ∧
      W = alu33_word sig instr.raddr_a instr.raddr_b fa.mux_a fa.mux_b fa.opcode
        (v3d_qpu_add_pack_waddr instr.alu.add).1 (v3d_qpu_add_pack_waddr instr.alu.add).2
        fm.mux_a fm.mux_b fm.opcode instr.alu.mul.waddr instr.alu.mul.magic_write cond := by
  unfold v3d_qpu_instr_pack at hp
  dsimp only at hp
  rw [if_pos hty] at hp
  unfold v3d_qpu_instr_pack_alu at hp
  cases hs : v3d_qpu_sig_pack devinfo instr.sig with
  | none => rw [hs] at hp; exact absurd hp (by simp)
  | some sig =>
    rw [hs] at hp
    dsimp only at hp
    rw [if_pos hty, if_pos hv] at hp
    unfold v3d_qpu_add_pack at hp
    rw [if_pos hv] at hp
    unfold v3d33_qpu_add_pack at hp
    cases ha : v3d33_qpu_add_pack_opcode devinfo instr.alu.add with
    | none => rw [ha] at hp; exact absurd hp (by simp)
    | some fa =>
      rw [ha] at hp
      dsimp only at hp
      unfold v3d_qpu_mul_pack at hp
      rw [if_pos hv] at hp
      unfold v3d33_qpu_mul_pack at hp
      cases hm : v3d33_qpu_mul_pack_opcode devinfo instr.alu.mul with
      | none => rw [hm] at hp; exact absurd hp (by simp)
      | some fm =>
        rw [hm] at hp
        dsimp only at hp
        generalize hfl : (if v3d_qpu_sig_writes_address devinfo instr.sig = true then
          if instr.flags.ac ≠ V3D_QPU_COND_NONE ∨ instr.flags.mc ≠ V3D_QPU_COND_NONE ∨
             instr.flags.apf ≠ V3D_QPU_PF_NONE ∨ instr.flags.mpf ≠ V3D_QPU_PF_NONE ∨
             instr.flags.auf ≠ V3D_QPU_UF_NONE ∨ instr.flags.muf ≠ V3D_QPU_UF_NONE then none
          else
            some (if instr.sig_magic = true then instr.sig_addr ||| V3D_QPU_COND_SIG_MAGIC_ADDR
              else instr.sig_addr)
          else v3d_qpu_flags_pack instr.flags) = fl at hp
        cases fl with
        | none => exact absurd hp (by simp)
        | some cond =>
          dsimp only at hp
          refine ⟨sig, fa, fm, cond, rfl, ?_⟩
          rw [← Option.some.inj hp]
          rfl

/-- C31: below V3D 7.1 (which includes 4.x), when `v3d_qpu_instr_pack` packs an
ALU record whose add op is STVPMV, STVPMD or STVPMP, the word has add opcode
248, `waddr_a` = 0, 1 or 2 respectively and the MA bit clear, whatever the
`add.waddr` and `add.magic_write` of the record are; and
`v3d33_qpu_add_unpack` of a word with add opcode 248 fails exactly when
`waddr_a` > 2, and yields STVPMV, STVPMD or STVPMP for `waddr_a` = 0, 1, 2. -/
theorem stvpm_pack_unpack_waddr (devinfo : v3d_device_info) (hv : devinfo.ver < 71) :
    (∀ (instr : v3d_qpu_instr) (W : Nat), instr.type = V3D_QPU_INSTR_TYPE_ALU →
      v3d_qpu_instr_pack devinfo instr = some W →
      (instr.alu.add.op = V3D_QPU_A_STVPMV →
        QPU_GET_FIELD W V3D_QPU_OP_ADD_SHIFT V3D_QPU_OP_ADD_MASK = 248 ∧
        QPU_GET_FIELD W V3D_QPU_WADDR_A_SHIFT V3D_QPU_WADDR_A_MASK = 0 ∧
        W &&& V3D_QPU_MA = 0) ∧
      (instr.alu.add.op = V3D_QPU_A_STVPMD →
        QPU_GET_FIELD W V3D_QPU_OP_ADD_SHIFT V3D_QPU_OP_ADD_MASK = 248 ∧
        QPU_GET_FIELD W V3D_QPU_WADDR_A_SHIFT V3D_QPU_WADDR_A_MASK = 1 ∧
        W &&& V3D_QPU_MA = 0) ∧
      (instr.alu.add.op = V3D_QPU_A_STVPMP →
        QPU_GET_FIELD W V3D_QPU_OP_ADD_SHIFT V3D_QPU_OP_ADD_MASK = 248 ∧
        QPU_GET_FIELD W V3D_QPU_WADDR_A_SHIFT V3D_QPU_WADDR_A_MASK = 2 ∧
        W &&& V3D_QPU_MA = 0)) ∧
    (∀ (W : Nat) (i0 : v3d_qpu_instr),
      QPU_GET_FIELD W V3D_QPU_OP_ADD_SHIFT V3D_QPU_OP_ADD_MASK = 248 →
      (v3d33_qpu_add_unpack devinfo W i0 = none ↔
        2 < QPU_GET_FIELD W V3D_QPU_WADDR_A_SHIFT V3D_QPU_WADDR_A_MASK) ∧
      (∀ R, v3d33_qpu_add_unpack devinfo W i0 = some R →
        (QPU_GET_FIELD W V3D_QPU_WADDR_A_SHIFT V3D_QPU_WADDR_A_MASK = 0 →
          R.alu.add.op = V3D_QPU_A_STVPMV) ∧
        (QPU_GET_FIELD W V3D_QPU_WADDR_A_SHIFT V3D_QPU_WADDR_A_MASK = 1 →
          R.alu.add.op = V3D_QPU_A_STVPMD) ∧
        (QPU_GET_FIELD W V3D_QPU_WADDR_A_SHIFT V3D_QPU_WADDR_A_MASK = 2 →
          R.alu.add.op = V3D_QPU_A_STVPMP))) := by
  constructor
  · intro instr W hty hp
    obtain ⟨sig, fa, fm, cond, hfa, hW⟩ := v3d_qpu_instr_pack_alu33_word devinfo hv instr W hty hp
    obtain ⟨-, -, -, -, f5, f6, -, -, -, -, -, -, f13, -⟩ := alu33_word_fields sig instr.raddr_a
      instr.raddr_b fa.mux_a fa.mux_b fa.opcode (v3d_qpu_add_pack_waddr instr.alu.add).1
      (v3d_qpu_add_pack_waddr instr.alu.add).2 fm.mux_a fm.mux_b fm.opcode instr.alu.mul.waddr
      instr.alu.mul.magic_write cond
    rw [← hW] at f5 f6 f13
    have key : ∀ k, (instr.alu.add.op = V3D_QPU_A_STVPMV ∨ instr.alu.add.op = V3D_QPU_A_STVPMD ∨
        instr.alu.add.op = V3D_QPU_A_STVPMP) →
        v3d_qpu_add_pack_waddr instr.alu.add = (k, false) → k < 64 →
        QPU_GET_FIELD W V3D_QPU_OP_ADD_SHIFT V3D_QPU_OP_ADD_MASK = 248 ∧
        QPU_GET_FIELD W V3D_QPU_WADDR_A_SHIFT V3D_QPU_WADDR_A_MASK = k ∧
        W &&& V3D_QPU_MA = 0 := by
      intro k hop hw hk
      rw [v3d33_qpu_add_pack_opcode_stvpm devinfo instr.alu.add hop] at hfa
      have hfa2 : fa = ⟨instr.alu.add.a.mux, instr.alu.add.b.mux, 248⟩ := by
        split_ifs at hfa
        exact (Option.some.inj hfa).symm
      rw [hw] at f5 f13
      rw [hfa2] at f6
      refine ⟨f6, ?_, ?_⟩
      · rw [f5]
        exact Nat.mod_eq_of_lt hk
      · simpa using f13
    refine ⟨fun h => ?_, fun h => ?_, fun h => ?_⟩
    · exact key 0 (Or.inl h) (by unfold v3d_qpu_add_pack_waddr; rw [h]; rfl) (by decide)
    · exact key 1 (Or.inr (Or.inl h)) (by unfold v3d_qpu_add_pack_waddr; rw [h]; rfl) (by decide)
    · exact key 2 (Or.inr (Or.inr h)) (by unfold v3d_qpu_add_pack_waddr; rw [h]; rfl) (by decide)
  · intro W i0 hop
    have hcore := v3d33_qpu_add_unpack_core_248 devinfo hv
      (QPU_GET_FIELD W V3D_QPU_ADD_A_SHIFT V3D_QPU_ADD_A_MASK)
      (QPU_GET_FIELD W V3D_QPU_ADD_B_SHIFT V3D_QPU_ADD_B_MASK)
      (QPU_GET_FIELD W V3D_QPU_WADDR_A_SHIFT V3D_QPU_WADDR_A_MASK)
      (W &&& V3D_QPU_MA != 0) (QPU_GET_FIELD_lt W 14 12) (QPU_GET_FIELD_lt W 17 15)
    unfold v3d33_qpu_add_unpack
    dsimp only
    rw [hop, hcore]
    generalize QPU_GET_FIELD W V3D_QPU_WADDR_A_SHIFT V3D_QPU_WADDR_A_MASK = w
    by_cases c0 : w = 0
    · subst c0
      simp [alu_unpack_fields.store]
    · by_cases c1 : w = 1
      · subst c1
        simp [alu_unpack_fields.store]
      · by_cases c2 : w = 2
        · subst c2
          simp [alu_unpack_fields.store]
        · simp only [if_neg c0, if_neg c1, if_neg c2, true_iff]
          refine ⟨by omega, fun R hR => ?_⟩
          exact absurd hR (by simp)

set_option maxRecDepth 1000000 in
theorem stvpm_pack_unpack_waddr_witness :
    ({ ver := 42 } : v3d_device_info).ver < 71 ∧
    v3d_qpu_instr_pack { ver := 42 }
      { alu := { add := { op := V3D_QPU_A_STVPMD, a := { mux := 1 }, b := { mux := 2 },
                          waddr := 17, magic_write := true },
                 mul := { op := V3D_QPU_M_NOP, waddr := 6, magic_write := true } } } =
      some 4323492484379381760 ∧
    (QPU_GET_FIELD 4323492484379381760 V3D_QPU_OP_ADD_SHIFT V3D_QPU_OP_ADD_MASK = 248 ∧
     QPU_GET_FIELD 4323492484379381760 V3D_QPU_WADDR_A_SHIFT V3D_QPU_WADDR_A_MASK = 1 ∧
     4323492484379381760 &&& V3D_QPU_MA = 0) :=
  ⟨by decide, by decide,
    ((stvpm_pack_unpack_waddr { ver := 42 } (by decide)).1
      { alu := { add := { op := V3D_QPU_A_STVPMD, a := { mux := 1 }, b := { mux := 2 },
                          waddr := 17, magic_write := true },
                 mul := { op := V3D_QPU_M_NOP, waddr := 6, magic_write := true } } }
      4323492484379381760 (by decide) (by decide)).2.1 (by decide)⟩

/-- When the first row of the table whose range holds the opcode passes the
whole test, it is the row `lookup_opcode_from_packed` returns. -/
theorem lookup_opcode_from_packed_first_in_range (devinfo : v3d_device_info)
    (T : List opcode_desc) (opcode mux_a mux_b raddr : Nat) (d : opcode_desc)
    (hf : T.find? (opcode_desc.in_range opcode) = some d)
    (hm : opcode_desc_matches_packed devinfo opcode mux_a mux_b raddr d = true) :
    lookup_opcode_from_packed devinfo T opcode mux_a mux_b raddr = some d := by
  unfold lookup_opcode_from_packed
  refine find?_of_find?_imp _ _ ?_ T d hf hm
  intro x hx
  unfold opcode_desc_matches_packed at hx
  unfold opcode_desc.in_range
  by_cases c : opcode < x.opcode_first ∨ opcode > x.opcode_last
  · rw [if_pos c] at hx
    exact absurd hx (by decide)
  · simp only [Bool.and_eq_true, Nat.ble_eq]
    omega

set_option maxRecDepth 1000000 in
/-- The first row of `add_ops_v33` for an opcode from 0 to 47 is FADD, and for
an opcode from 128 to 175 it is FMIN. -/
theorem add_ops_v33_first_in_range :
    (∀ opc, opc < 48 → add_ops_v33.find? (opcode_desc.in_range opc) =
      some (mux_desc 0 47 ANYMUX ANYMUX V3D_QPU_A_FADD 0 0)) ∧
    (∀ opc, opc < 48 → add_ops_v33.find? (opcode_desc.in_range (128 + opc)) =
      some (mux_desc 128 175 ANYMUX ANYMUX V3D_QPU_A_FMIN 0 0)) := by
  decide

/-- A row for any mux pair and any version passes the test of
`lookup_opcode_from_packed` below V3D 7.1 on each opcode of its range. -/
theorem opcode_desc_matches_packed_anymux (devinfo : v3d_device_info) (hv : devinfo.ver < 71)
    (first last op opc a b : Nat) (h1 : first ≤ opc) (h2 : opc ≤ last) (ha : a < 8)
    (hb : b < 8) :
    opcode_desc_matches_packed devinfo opc a b 0 (mux_desc first last ANYMUX ANYMUX op 0 0) =
      true := by
  rw [opcode_desc_matches_packed_mux devinfo hv]
  have e1 : Nat.ble first opc = true := by rw [Nat.ble_eq]; exact h1
  have e2 : Nat.ble opc last = true := by rw [Nat.ble_eq]; exact h2
  have e3 : (ANYMUX &&& (1 <<< a) != 0) = true := by interval_cases a <;> decide
  have e4 : (ANYMUX &&& (1 <<< b) != 0) = true := by interval_cases b <;> decide
  unfold opcode_desc.mux_match mux_desc opcode_invalid_in_version
  dsimp only
  rw [e1, e2, e3, e4]
  rfl

/-- The row the ADD decoder finds below V3D 7.1 for an opcode the float add or
float min encoder writes. -/
theorem lookup_opcode_from_packed_fadd_fmin (devinfo : v3d_device_info)
    (hv : devinfo.ver < 71) (first opc a b : Nat) (hf : first = 0 ∨ first = 128)
    (h1 : first ≤ opc) (h2 : opc ≤ first + 47) (ha : a < 8) (hb : b < 8) :
    lookup_opcode_from_packed devinfo add_ops_v33 opc a b 0 =
      some (mux_desc first (first + 47) ANYMUX ANYMUX
        (if first = 0 then V3D_QPU_A_FADD else V3D_QPU_A_FMIN) 0 0) := by
  apply lookup_opcode_from_packed_first_in_range
  · rcases hf with e | e <;> subst e
    · exact add_ops_v33_first_in_range.1 opc (by omega)
    · have := add_ops_v33_first_in_range.2 (opc - 128) (by omega)
      rw [show 128 + (opc - 128) = opc by omega] at this
      exact this
  · exact opcode_desc_matches_packed_anymux devinfo hv _ _ _ opc a b h1 h2 ha hb

set_option maxRecDepth 1000000 in
/-- The bits of the opcode the float add class encoder builds. -/
theorem add33_float_opcode_bits : ∀ k, k < 2 → ∀ p, p < 3 → ∀ x, x < 4 → ∀ y, y < 4 →
    (((k * 128 ||| (p <<< 4)) ||| (x <<< 2)) ||| (y <<< 0)) < 256 ∧
    k * 128 ≤ (((k * 128 ||| (p <<< 4)) ||| (x <<< 2)) ||| (y <<< 0)) ∧
    (((k * 128 ||| (p <<< 4)) ||| (x <<< 2)) ||| (y <<< 0)) ≤ k * 128 + 47 ∧
    v3d33_qpu_add_unpack_map_op (((k * 128 ||| (p <<< 4)) ||| (x <<< 2)) ||| (y <<< 0)) =
      (((k * 128 ||| (p <<< 4)) ||| (x <<< 2)) ||| (y <<< 0)) ∧
    ((((k * 128 ||| (p <<< 4)) ||| (x <<< 2)) ||| (y <<< 0)) >>> 4) &&& 3 = p ∧
    ((((k * 128 ||| (p <<< 4)) ||| (x <<< 2)) ||| (y <<< 0)) >>> 2) &&& 3 = x ∧
    ((((k * 128 ||| (p <<< 4)) ||| (x <<< 2)) ||| (y <<< 0)) >>> 0) &&& 3 = y ∧
    (((k * 128 ||| (p <<< 4)) ||| (x <<< 2)) ||| (y <<< 0)) &&& 3 = y := by
  intro k hk p hp x hx y hy
  interval_cases k <;> interval_cases p <;> interval_cases x <;> interval_cases y <;> decide

/-- The four unpack modes of a float operand and their codes. -/
theorem f32_unpack_pack_cases (u : Nat)
    (h : u = V3D_QPU_UNPACK_NONE ∨ u = V3D_QPU_UNPACK_ABS ∨ u = V3D_QPU_UNPACK_L ∨
      u = V3D_QPU_UNPACK_H) :
    ∃ x, x < 4 ∧ v3d_qpu_float32_unpack_pack u = some x ∧
      v3d_qpu_float32_unpack_unpack x = some u := by
  rcases h with e | e | e | e <;> subst e
  · exact ⟨1, by decide, rfl, rfl⟩
  · exact ⟨0, by decide, rfl, rfl⟩
  · exact ⟨2, by decide, rfl, rfl⟩
  · exact ⟨3, by decide, rfl, rfl⟩

theorem f32_unpack_pack_inj (u v x : Nat) (h1 : v3d_qpu_float32_unpack_pack u = some x)
    (h2 : v3d_qpu_float32_unpack_pack v = some x) : u = v := by
  unfold v3d_qpu_float32_unpack_pack at h1 h2
  split_ifs at h1 h2 <;> simp_all <;> omega

theorem f32_pack_pack_cases (u : Nat)
    (h : u = V3D_QPU_PACK_NONE ∨ u = V3D_QPU_PACK_L ∨ u = V3D_QPU_PACK_H) :
    ∃ p, p < 3 ∧ v3d_qpu_float32_pack_pack u = some p ∧ p = u := by
  rcases h with e | e | e <;> subst e
  · exact ⟨0, by decide, rfl, rfl⟩
  · exact ⟨1, by decide, rfl, rfl⟩
  · exact ⟨2, by decide, rfl, rfl⟩

/-- The row `lookup_opcode_from_instr` returns for an op that has a row valid in
any version starts at the first opcode all rows of the op share. -/
theorem lookup_opcode_from_instr_opcode_first (devinfo : v3d_device_info) (op first : Nat)
    (d0 : opcode_desc) (hd0 : d0 ∈ add_ops_v33) (e0 : d0.op = op) (v1 : d0.first_ver = 0)
    (v2 : d0.last_ver = 0)
    (hall : add_ops_v33.all (fun d => !(d.op == op) || d.opcode_first == first) = true) :
    ∃ d, lookup_opcode_from_instr devinfo add_ops_v33 op = some d ∧ d.opcode_first = first := by
  have hval : opcode_invalid_in_version devinfo d0.first_ver d0.last_ver = false := by
    unfold opcode_invalid_in_version
    rw [v1, v2]
    rfl
  unfold lookup_opcode_from_instr
  cases hf : List.find? (fun op_desc =>
      op_desc.op == op && !opcode_invalid_in_version devinfo op_desc.first_ver op_desc.last_ver)
      add_ops_v33 with
  | none =>
    rw [List.find?_eq_none] at hf
    have := hf d0 hd0
    simp [e0, hval] at this
  | some d =>
    refine ⟨d, rfl, ?_⟩
    have hm := List.mem_of_find?_eq_some hf
    have hp := List.find?_some hf
    simp only [Bool.and_eq_true, beq_iff_eq] at hp
    rw [List.all_eq_true] at hall
    have h6 := hall d hm
    rw [hp.1] at h6
    simpa using h6

set_option maxRecDepth 1000000 in
/-- The rows of FADD and FADDNF start at opcode 0, those of FMIN and FMAX at
opcode 128. -/
theorem add_ops_v33_fadd_fmin_first :
    add_ops_v33.all (fun d => !(d.op == V3D_QPU_A_FADD) || d.opcode_first == 0) = true ∧
    add_ops_v33.all (fun d => !(d.op == V3D_QPU_A_FADDNF) || d.opcode_first == 0) = true ∧
    add_ops_v33.all (fun d => !(d.op == V3D_QPU_A_FMIN) || d.opcode_first == 128) = true ∧
    add_ops_v33.all (fun d => !(d.op == V3D_QPU_A_FMAX) || d.opcode_first == 128) = true ∧
    mux_desc 0 47 ANYMUX ANYMUX V3D_QPU_A_FADD 0 0 ∈ add_ops_v33 ∧
    mux_desc 0 47 ANYMUX ANYMUX V3D_QPU_A_FADDNF 0 0 ∈ add_ops_v33 ∧
    mux_desc 128 175 ANYMUX ANYMUX V3D_QPU_A_FMIN 0 0 ∈ add_ops_v33 ∧
    mux_desc 128 175 ANYMUX ANYMUX V3D_QPU_A_FMAX 0 0 ∈ add_ops_v33 := by
  decide

/-- The fields `v3d33_qpu_add_pack` computes for FADD, FADDNF (`k` = 0), FMIN
and FMAX (`k` = 1), at any version. -/
theorem v3d33_qpu_add_pack_opcode_fadd_fmin (devinfo : v3d_device_info)
    (add : v3d_qpu_alu_half) (k : Nat)
    (hop : (k = 0 ∧ (add.op = V3D_QPU_A_FADD ∨ add.op = V3D_QPU_A_FADDNF)) ∨
      (k = 1 ∧ (add.op = V3D_QPU_A_FMIN ∨ add.op = V3D_QPU_A_FMAX)))
    (p au bu : Nat) (hp : v3d_qpu_float32_pack_pack add.output_pack = some p)
    (ha : v3d_qpu_float32_unpack_pack add.a.unpack = some au)
    (hb : v3d_qpu_float32_unpack_pack add.b.unpack = some bu) :
    v3d33_qpu_add_pack_opcode devinfo add =
      some (if v3d_qpu_add_pack_swaps add.op
          (decide (au * 8 + add.a.mux > bu * 8 + add.b.mux)) = true then
        ⟨add.b.mux, add.a.mux, ((k * 128 ||| (p <<< 4)) ||| (bu <<< 2)) ||| (au <<< 0)⟩
      else
        ⟨add.a.mux, add.b.mux, ((k * 128 ||| (p <<< 4)) ||| (au <<< 2)) ||| (bu <<< 0)⟩) := by
  obtain ⟨t1, t2, t3, t4, m1, m2, m3, m4⟩ := add_ops_v33_fadd_fmin_first
  have hl : ∃ d, lookup_opcode_from_instr devinfo add_ops_v33 add.op = some d ∧
      d.opcode_first = k * 128 := by
    rcases hop with ⟨hk, h | h⟩ | ⟨hk, h | h⟩ <;> subst hk <;> rw [h]
    · exact lookup_opcode_from_instr_opcode_first devinfo _ _ _ m1 rfl rfl rfl t1
    · exact lookup_opcode_from_instr_opcode_first devinfo _ _ _ m2 rfl rfl rfl t2
    · exact lookup_opcode_from_instr_opcode_first devinfo _ _ _ m3 rfl rfl rfl t3
    · exact lookup_opcode_from_instr_opcode_first devinfo _ _ _ m4 rfl rfl rfl t4
  obtain ⟨d, hd, hfirst⟩ := hl
  have hcl : add.op = V3D_QPU_A_FADD ∨ add.op = V3D_QPU_A_FADDNF ∨ add.op = V3D_QPU_A_FSUB ∨
      add.op = V3D_QPU_A_FMIN ∨ add.op = V3D_QPU_A_FMAX ∨ add.op = V3D_QPU_A_FCMP := by
    rcases hop with ⟨_, h | h⟩ | ⟨_, h | h⟩ <;> rw [h] <;> decide
  have hn : v3d_qpu_add_op_num_src add.op = 2 := by
    rcases hop with ⟨_, h | h⟩ | ⟨_, h | h⟩ <;> rw [h] <;> decide
  unfold v3d33_qpu_add_pack_opcode
  dsimp only
  rw [hd]
  dsimp only
  rw [if_pos hcl, hp]
  dsimp only
  rw [ha]
  dsimp only
  rw [hb]
  dsimp only
  rw [hn, hfirst]
  simp only [show ¬ (2 < 1) by decide, show ¬ (2 < 2) by decide, if_false]
  split_ifs <;> rfl

/-- The ADD decoder below V3D 7.1 on an opcode of the FADD (`k` = 0) or FMIN
(`k` = 1) row. -/
theorem v3d33_qpu_add_unpack_core_fadd_fmin (devinfo : v3d_device_info)
    (hv : devinfo.ver < 71) (k p x y a b waddr : Nat) (ma : Bool) (hk : k < 2) (hp : p < 3)
    (hx : x < 4) (hy : y < 4) (ha : a < 8) (hb : b < 8) (ux uy : Nat)
    (hux : v3d_qpu_float32_unpack_unpack x = some ux)
    (huy : v3d_qpu_float32_unpack_unpack y = some uy) :
    v3d33_qpu_add_unpack_core devinfo (((k * 128 ||| (p <<< 4)) ||| (x <<< 2)) ||| (y <<< 0))
        a b waddr ma =
      some ⟨v3d_qpu_add_unpack_order (decide (x * 8 + a > y * 8 + b))
        (if k = 0 then V3D_QPU_A_FADD else V3D_QPU_A_FMIN), p, ux, some uy, ma⟩ := by
  obtain ⟨b1, b2, b3, b4, b5, b6, b7, b8⟩ := add33_float_opcode_bits k hk p hp x hx y hy
  generalize (((k * 128 ||| (p <<< 4)) ||| (x <<< 2)) ||| (y <<< 0)) = opc at *
  have hrow : (if k = 0 then V3D_QPU_A_FADD else V3D_QPU_A_FMIN) = V3D_QPU_A_FADD ∨
      (if k = 0 then V3D_QPU_A_FADD else V3D_QPU_A_FMIN) = V3D_QPU_A_FSUB ∨
      (if k = 0 then V3D_QPU_A_FADD else V3D_QPU_A_FMIN) = V3D_QPU_A_FMIN ∨
      (if k = 0 then V3D_QPU_A_FADD else V3D_QPU_A_FMIN) = V3D_QPU_A_FCMP := by
    interval_cases k
    · exact Or.inl rfl
    · exact Or.inr (Or.inr (Or.inl rfl))
  have hl := lookup_opcode_from_packed_fadd_fmin devinfo hv (k * 128) opc a b
    (by omega) b2 b3 ha hb
  have hop : (mux_desc (k * 128) (k * 128 + 47) ANYMUX ANYMUX
      (if k * 128 = 0 then V3D_QPU_A_FADD else V3D_QPU_A_FMIN) 0 0).op =
      (if k = 0 then V3D_QPU_A_FADD else V3D_QPU_A_FMIN) := by
    interval_cases k <;> rfl
  unfold v3d33_qpu_add_unpack_core
  rw [b4, hl]
  dsimp only
  rw [hop, b6, b8]
  obtain ⟨-, f2, f3, -, -, f6⟩ := float_add_order_facts
    (if k = 0 then V3D_QPU_A_FADD else V3D_QPU_A_FMIN)
    (decide (x * 8 + a > y * 8 + b)) hrow
  rw [f2 waddr]
  dsimp only
  have hmod : v3d33_qpu_add_unpack_modifiers
      (v3d_qpu_add_unpack_order (decide (x * 8 + a > y * 8 + b))
        (if k = 0 then V3D_QPU_A_FADD else V3D_QPU_A_FMIN)) opc b = some (p, ux, some uy) := by
    unfold v3d33_qpu_add_unpack_modifiers
    have hc : ∀ o, (o = V3D_QPU_A_FADD ∨ o = V3D_QPU_A_FADDNF ∨ o = V3D_QPU_A_FSUB ∨
        o = V3D_QPU_A_FMIN ∨ o = V3D_QPU_A_FMAX ∨ o = V3D_QPU_A_FCMP) →
        (o = V3D_QPU_A_FADD ∨ o = V3D_QPU_A_FADDNF ∨ o = V3D_QPU_A_FSUB ∨
        o = V3D_QPU_A_FMIN ∨ o = V3D_QPU_A_FMAX ∨ o = V3D_QPU_A_FCMP ∨ o = V3D_QPU_A_VFPACK) ∧
        o ≠ V3D_QPU_A_VFPACK := by
      intro o ho
      rcases ho with h | h | h | h | h | h <;> subst h <;> decide
    obtain ⟨c1, c2⟩ := hc _ f3
    rw [if_pos c1]
    dsimp only
    rw [if_pos c2, b5, b6, b7, hux]
    dsimp only
    rw [huy]
  rw [hmod]
  dsimp only
  rw [f6 ma]

/-- When the fields `v3d33_qpu_add_pack` computes fit their fields of the word
and decode, the word it builds from a word whose ADD half is clear decodes to
the fields decoded, stored with the mux values written. -/
theorem v3d33_qpu_add_pack_unpack_of_fields (devinfo : v3d_device_info)
    (instr i0 : v3d_qpu_instr) (W0 : Nat) (f : alu_pack_fields) (r : Bool → alu_unpack_fields)
    (hf : v3d33_qpu_add_pack_opcode devinfo instr.alu.add = some f)
    (h1 : QPU_GET_FIELD W0 V3D_QPU_OP_ADD_SHIFT V3D_QPU_OP_ADD_MASK = 0)
    (h2 : QPU_GET_FIELD W0 V3D_QPU_ADD_A_SHIFT V3D_QPU_ADD_A_MASK = 0)
    (h3 : QPU_GET_FIELD W0 V3D_QPU_ADD_B_SHIFT V3D_QPU_ADD_B_MASK = 0)
    (h4 : QPU_GET_FIELD W0 V3D_QPU_WADDR_A_SHIFT V3D_QPU_WADDR_A_MASK = 0)
    (h5 : W0 &&& V3D_QPU_MA = 0)
    (hlt : f.opcode < 256) (ha : f.mux_a < 8) (hb : f.mux_b < 8)
    (hcore : ∀ waddr ma, v3d33_qpu_add_unpack_core devinfo f.opcode f.mux_a f.mux_b waddr ma =
      some (r ma)) :
    ∃ W R, v3d33_qpu_add_pack devinfo instr W0 = some W ∧
      v3d33_qpu_add_unpack devinfo W i0 = some R ∧
      ∃ waddr ma, R.alu.add = (r ma).store f.mux_a f.mux_b waddr i0.alu.add := by
  cases hp : v3d33_qpu_add_pack devinfo instr W0 with
  | none =>
    unfold v3d33_qpu_add_pack at hp
    rw [hf] at hp
    exact absurd hp (by simp)
  | some W1 =>
    have hW1 := hp
    unfold v3d33_qpu_add_pack at hW1
    rw [hf] at hW1
    dsimp only at hW1
    obtain ⟨g1, g2, g3, g4, g5⟩ := v3d33_qpu_add_pack_word_fields W0 f.mux_a f.mux_b f.opcode
      (v3d_qpu_add_pack_waddr instr.alu.add).1 (v3d_qpu_add_pack_waddr instr.alu.add).2
      h1 h2 h3 h4 h5 W1 (Option.some.inj hW1).symm
    rw [Nat.mod_eq_of_lt hlt] at g1
    rw [Nat.mod_eq_of_lt ha] at g2
    rw [Nat.mod_eq_of_lt hb] at g3
    have hu : v3d33_qpu_add_unpack devinfo W1 i0 =
        some { i0 with
          alu := { i0.alu with
                   add := ((r (v3d_qpu_add_pack_waddr instr.alu.add).2).store f.mux_a f.mux_b
                     ((v3d_qpu_add_pack_waddr instr.alu.add).1 % 64) i0.alu.add) } } := by
      unfold v3d33_qpu_add_unpack
      dsimp only
      rw [g1, g2, g3, g4, g5, hcore]
    exact ⟨W1, _, rfl, hu, (v3d_qpu_add_pack_waddr instr.alu.add).1 % 64,
      (v3d_qpu_add_pack_waddr instr.alu.add).2, rfl⟩

/-! ## C32: FADD, FADDNF, FMIN and FMAX below V3D 7.1 -/

set_option maxRecDepth 1000000 in
/-- C32 (counterexample): at version 4.2 the ALU record with the ADD op FMAX
and the same operand on both sides (mux 1, unpack NONE) packs with success, and
the packed word decodes to FMIN: the two ops share their opcodes, the decoder
reads FMAX only when the key of operand a is greater than the key of operand
b, and equal operands have equal keys.  The same holds for FADDNF, which
decodes to FADD. -/
theorem add_pack_unpack_fmax_equal_operands_counterexample :
    v3d_qpu_instr_pack { ver := 42 }
      { alu := { add := { op := V3D_QPU_A_FMAX, a := { mux := 1 }, b := { mux := 1 },
                          waddr := 3 },
                 mul := { op := V3D_QPU_M_NOP, waddr := 6, magic_write := true } } } =
      some 4323492491039903744 ∧
    ((v3d_qpu_instr_unpack { ver := 42 } 4323492491039903744 {}).map
      (fun r => (r.alu.add.op, r.alu.add.a, r.alu.add.b))) =
      some (V3D_QPU_A_FMIN, { mux := 1 }, { mux := 1 }) ∧
    V3D_QPU_A_FMIN ≠ V3D_QPU_A_FMAX ∧
    ((v3d33_qpu_add_pack { ver := 42 }
      { alu := { add := { op := V3D_QPU_A_FADDNF, a := { mux := 3, unpack := V3D_QPU_UNPACK_L },
                          b := { mux := 3, unpack := V3D_QPU_UNPACK_L } } } } 0).bind
      (fun W => (v3d33_qpu_add_unpack { ver := 42 } W {}).map (fun r => r.alu.add.op))) =
      some V3D_QPU_A_FADD ∧
    V3D_QPU_A_FADD ≠ V3D_QPU_A_FADDNF := by
  decide

/-- C32, amended. Below V3D 7.1 (which includes 4.x), for every ALU record whose
add op is FADD, FADDNF, FMIN or FMAX with input unpacks in NONE, ABS, L, H,
mux values from 0 to 7, an output pack NONE, L or H and, when the op is FADDNF
or FMAX, two operands that differ in mux or in unpack: `v3d33_qpu_add_pack`
into a word whose ADD half is clear succeeds, and `v3d33_qpu_add_unpack` of the
packed word succeeds and yields the same add op and output pack, with the
operand pair (mux, unpack) either unchanged or swapped between a and b. -/
theorem add_pack_unpack_fadd_fmin (devinfo : v3d_device_info) (instr i0 : v3d_qpu_instr)
    (W0 : Nat) (hv : devinfo.ver < 71)
    (hop : instr.alu.add.op = V3D_QPU_A_FADD ∨ instr.alu.add.op = V3D_QPU_A_FADDNF ∨
      instr.alu.add.op = V3D_QPU_A_FMIN ∨ instr.alu.add.op = V3D_QPU_A_FMAX)
    (hua : instr.alu.add.a.unpack = V3D_QPU_UNPACK_NONE ∨
      instr.alu.add.a.unpack = V3D_QPU_UNPACK_ABS ∨
      instr.alu.add.a.unpack = V3D_QPU_UNPACK_L ∨ instr.alu.add.a.unpack = V3D_QPU_UNPACK_H)
    (hub : instr.alu.add.b.unpack = V3D_QPU_UNPACK_NONE ∨
      instr.alu.add.b.unpack = V3D_QPU_UNPACK_ABS ∨
      instr.alu.add.b.unpack = V3D_QPU_UNPACK_L ∨ instr.alu.add.b.unpack = V3D_QPU_UNPACK_H)
    (hma : instr.alu.add.a.mux ≤ 7) (hmb : instr.alu.add.b.mux ≤ 7)
    (hpk : instr.alu.add.output_pack = V3D_QPU_PACK_NONE ∨
      instr.alu.add.output_pack = V3D_QPU_PACK_L ∨ instr.alu.add.output_pack = V3D_QPU_PACK_H)
    (hne : instr.alu.add.op = V3D_QPU_A_FADDNF ∨ instr.alu.add.op = V3D_QPU_A_FMAX →
      ¬ (instr.alu.add.a.mux = instr.alu.add.b.mux ∧
         instr.alu.add.a.unpack = instr.alu.add.b.unpack))
    (h1 : QPU_GET_FIELD W0 V3D_QPU_OP_ADD_SHIFT V3D_QPU_OP_ADD_MASK = 0)
    (h2 : QPU_GET_FIELD W0 V3D_QPU_ADD_A_SHIFT V3D_QPU_ADD_A_MASK = 0)
    (h3 : QPU_GET_FIELD W0 V3D_QPU_ADD_B_SHIFT V3D_QPU_ADD_B_MASK = 0)
    (h4 : QPU_GET_FIELD W0 V3D_QPU_WADDR_A_SHIFT V3D_QPU_WADDR_A_MASK = 0)
    (h5 : W0 &&& V3D_QPU_MA = 0) :
    ∃ W R, v3d33_qpu_add_pack devinfo instr W0 = some W ∧
      v3d33_qpu_add_unpack devinfo W i0 = some R ∧
      R.alu.add.op = instr.alu.add.op ∧
      R.alu.add.output_pack = instr.alu.add.output_pack ∧
      ((R.alu.add.a.mux = instr.alu.add.a.mux ∧ R.alu.add.a.unpack = instr.alu.add.a.unpack ∧
        R.alu.add.b.mux = instr.alu.add.b.mux ∧ R.alu.add.b.unpack = instr.alu.add.b.unpack) ∨
       (R.alu.add.a.mux = instr.alu.add.b.mux ∧ R.alu.add.a.unpack = instr.alu.add.b.unpack ∧
        R.alu.add.b.mux = instr.alu.add.a.mux ∧
        R.alu.add.b.unpack = instr.alu.add.a.unpack)) := by
  obtain ⟨p, hp3, hpp, hpe⟩ := f32_pack_pack_cases _ hpk
  obtain ⟨au, hau, hpa, hua2⟩ := f32_unpack_pack_cases _ hua
  obtain ⟨bu, hbu, hpb, hub2⟩ := f32_unpack_pack_cases _ hub
  have hk : ∃ k, k < 2 ∧
      ((k = 0 ∧ (instr.alu.add.op = V3D_QPU_A_FADD ∨ instr.alu.add.op = V3D_QPU_A_FADDNF)) ∨
       (k = 1 ∧ (instr.alu.add.op = V3D_QPU_A_FMIN ∨ instr.alu.add.op = V3D_QPU_A_FMAX))) := by
    rcases hop with h | h | h | h
    · exact ⟨0, by decide, Or.inl ⟨rfl, Or.inl h⟩⟩
    · exact ⟨0, by decide, Or.inl ⟨rfl, Or.inr h⟩⟩
    · exact ⟨1, by decide, Or.inr ⟨rfl, Or.inl h⟩⟩
    · exact ⟨1, by decide, Or.inr ⟨rfl, Or.inr h⟩⟩
  obtain ⟨k, hk2, hopk⟩ := hk
  have hf := v3d33_qpu_add_pack_opcode_fadd_fmin devinfo instr.alu.add k hopk p au bu hpp hpa hpb
  have hkey : (instr.alu.add.op = V3D_QPU_A_FADDNF ∨ instr.alu.add.op = V3D_QPU_A_FMAX) →
      au * 8 + instr.alu.add.a.mux ≠ bu * 8 + instr.alu.add.b.mux := by
    intro h e
    have e1 : au = bu := by omega
    have e2 : instr.alu.add.a.mux = instr.alu.add.b.mux := by omega
    rw [e1] at hpa
    exact hne h ⟨e2, f32_unpack_pack_inj _ _ _ hpa hpb⟩
  by_cases hsw : v3d_qpu_add_pack_swaps instr.alu.add.op
      (decide (au * 8 + instr.alu.add.a.mux > bu * 8 + instr.alu.add.b.mux)) = true
  · rw [if_pos hsw] at hf
    obtain ⟨b1, -⟩ := add33_float_opcode_bits k hk2 p hp3 bu hbu au hau
    have hcore := fun waddr ma => v3d33_qpu_add_unpack_core_fadd_fmin devinfo hv k p bu au
      instr.alu.add.b.mux instr.alu.add.a.mux waddr ma hk2 hp3 hbu hau (by omega) (by omega)
      _ _ hub2 hua2
    obtain ⟨W, R, hW, hR, waddr, ma, hadd⟩ := v3d33_qpu_add_pack_unpack_of_fields devinfo instr
      i0 W0 _ _ hf h1 h2 h3 h4 h5 b1 (show instr.alu.add.b.mux < 8 by omega)
      (show instr.alu.add.a.mux < 8 by omega) hcore
    refine ⟨W, R, hW, hR, ?_, ?_, Or.inr ?_⟩
    · rw [hadd]
      show v3d_qpu_add_unpack_order _ _ = _
      unfold v3d_qpu_add_pack_swaps at hsw
      simp only [decide_eq_true_eq, decide_eq_false_iff_not, Bool.decide_or, Bool.decide_and,
        Bool.or_eq_true, Bool.and_eq_true] at hsw
      rcases hopk with ⟨hk0, h | h⟩ | ⟨hk0, h | h⟩ <;> subst hk0 <;> rw [h] at hsw ⊢
      · have hlt : ¬ (bu * 8 + instr.alu.add.b.mux > au * 8 + instr.alu.add.a.mux) := by
          rcases hsw with ⟨_, c⟩ | ⟨c, _⟩
          · omega
          · exact absurd c (by decide)
        rw [decide_eq_false hlt]
        rfl
      · have hne2 := hkey (Or.inl h)
        have hlt : bu * 8 + instr.alu.add.b.mux > au * 8 + instr.alu.add.a.mux := by
          rcases hsw with ⟨c, _⟩ | ⟨_, c⟩
          · exact absurd c (by decide)
          · omega
        rw [decide_eq_true hlt]
        rfl
      · have hlt : ¬ (bu * 8 + instr.alu.add.b.mux > au * 8 + instr.alu.add.a.mux) := by
          rcases hsw with ⟨_, c⟩ | ⟨c, _⟩
          · omega
          · exact absurd c (by decide)
        rw [decide_eq_false hlt]
        rfl
      · have hne2 := hkey (Or.inr h)
        have hlt : bu * 8 + instr.alu.add.b.mux > au * 8 + instr.alu.add.a.mux := by
          rcases hsw with ⟨c, _⟩ | ⟨_, c⟩
          · exact absurd c (by decide)
          · omega
        rw [decide_eq_true hlt]
        rfl
    · rw [hadd]
      exact hpe
    · rw [hadd]
      exact ⟨rfl, rfl, rfl, rfl⟩
  · rw [if_neg hsw] at hf
    obtain ⟨b1, -⟩ := add33_float_opcode_bits k hk2 p hp3 au hau bu hbu
    have hcore := fun waddr ma => v3d33_qpu_add_unpack_core_fadd_fmin devinfo hv k p au bu
      instr.alu.add.a.mux instr.alu.add.b.mux waddr ma hk2 hp3 hau hbu (by omega) (by omega)
      _ _ hua2 hub2
    obtain ⟨W, R, hW, hR, waddr, ma, hadd⟩ := v3d33_qpu_add_pack_unpack_of_fields devinfo instr
      i0 W0 _ _ hf h1 h2 h3 h4 h5 b1 (show instr.alu.add.a.mux < 8 by omega)
      (show instr.alu.add.b.mux < 8 by omega) hcore
    refine ⟨W, R, hW, hR, ?_, ?_, Or.inl ?_⟩
    · rw [hadd]
      show v3d_qpu_add_unpack_order _ _ = _
      unfold v3d_qpu_add_pack_swaps at hsw
      simp only [decide_eq_true_eq, decide_eq_false_iff_not, Bool.decide_or, Bool.decide_and,
        Bool.or_eq_true, Bool.and_eq_true, not_or, not_and] at hsw
      obtain ⟨s1, s2⟩ := hsw
      rcases hopk with ⟨hk0, h | h⟩ | ⟨hk0, h | h⟩ <;> subst hk0 <;> rw [h] at s1 s2 ⊢
      · have hlt : ¬ (au * 8 + instr.alu.add.a.mux > bu * 8 + instr.alu.add.b.mux) :=
          s1 (by decide)
        rw [decide_eq_false hlt]
        rfl
      · have hlt : au * 8 + instr.alu.add.a.mux > bu * 8 + instr.alu.add.b.mux := by
          by_contra c
          exact s2 (by decide) c
        rw [decide_eq_true hlt]
        rfl
      · have hlt : ¬ (au * 8 + instr.alu.add.a.mux > bu * 8 + instr.alu.add.b.mux) :=
          s1 (by decide)
        rw [decide_eq_false hlt]
        rfl
      · have hlt : au * 8 + instr.alu.add.a.mux > bu * 8 + instr.alu.add.b.mux := by
          by_contra c
          exact s2 (by decide) c
        rw [decide_eq_true hlt]
        rfl
    · rw [hadd]
      exact hpe
    · rw [hadd]
      exact ⟨rfl, rfl, rfl, rfl⟩

set_option maxRecDepth 1000000 in
theorem add_pack_unpack_fadd_fmin_witness :
    ∃ W R, v3d33_qpu_add_pack { ver := 42 }
        { alu := { add := { op := V3D_QPU_A_FMAX, a := { mux := 1, unpack := V3D_QPU_UNPACK_L },
                            b := { mux := 2 }, waddr := 3,
                            output_pack := V3D_QPU_PACK_H } } } 0 = some W ∧
      v3d33_qpu_add_unpack { ver := 42 } W {} = some R ∧
      R.alu.add.op = V3D_QPU_A_FMAX ∧
      R.alu.add.output_pack = V3D_QPU_PACK_H ∧
      ((R.alu.add.a.mux = 1 ∧ R.alu.add.a.unpack = V3D_QPU_UNPACK_L ∧
        R.alu.add.b.mux = 2 ∧ R.alu.add.b.unpack = V3D_QPU_UNPACK_NONE) ∨
       (R.alu.add.a.mux = 2 ∧ R.alu.add.a.unpack = V3D_QPU_UNPACK_NONE ∧
        R.alu.add.b.mux = 1 ∧ R.alu.add.b.unpack = V3D_QPU_UNPACK_L)) :=
  add_pack_unpack_fadd_fmin { ver := 42 }
    { alu := { add := { op := V3D_QPU_A_FMAX, a := { mux := 1, unpack := V3D_QPU_UNPACK_L },
                        b := { mux := 2 }, waddr := 3,
                        output_pack := V3D_QPU_PACK_H } } } {} 0
    (by decide) (by decide) (by decide) (by decide) (by decide) (by decide) (by decide)
    (by decide) (by decide) (by decide) (by decide) (by decide) (by decide)

/-! ## C15, C16: the sum rules of the validator on one-bit signal members -/

/-- A one-bit signal member never reads as a positive number. -/
theorem sig_bit_value_nonpos (b : Bool) : sig_bit_value b ≤ 0 := by
  cases b <;> decide

/-- The error a rejecting `qpu_validate_inst` leaves in the state is never
MAX_ONE_SMALL_IMMEDIATE_PER_INSTRUCTION: the sum of the four small-immediate
members is never above zero. -/
theorem qpu_validate_inst_reject_ne_max_one (state : v3d_qpu_validate_state)
    (inst : v3d_qpu_instr) (h : (qpu_validate_inst state inst).1 = false) :
    (qpu_validate_inst state inst).2.error ≠
      V3D_QPU_VALIDATE_ERROR_MAX_ONE_SMALL_IMMEDIATE_PER_INSTRUCTION := by
  by_cases halu : inst.type = V3D_QPU_INSTR_TYPE_ALU
  · have hnb : ¬ inst.type = V3D_QPU_INSTR_TYPE_BRANCH := by rw [halu]; decide
    have hnn : ¬ inst.type ≠ V3D_QPU_INSTR_TYPE_ALU := fun h => h halu
    obtain ⟨-, -, q3⟩ := qpu_validate_inst_tail_count state inst
      (qpu_validate_inst_count inst (v3d_qpu_magic_waddr_is_tmu state.devinfo))
      (qpu_validate_inst_count inst v3d_qpu_magic_waddr_is_sfu)
      (qpu_validate_inst_count inst v3d_qpu_magic_waddr_is_vpm)
      (qpu_validate_inst_count inst v3d_qpu_magic_waddr_is_tlb)
      (qpu_validate_inst_count inst v3d_qpu_magic_waddr_is_tsy) halu
    have hcnt : ∀ p : Nat → Bool,
        qpu_validate_count_writes (decide (inst.alu.add.op = V3D_QPU_A_NOP)) inst.alu.add p +
        qpu_validate_count_writes (decide (inst.alu.mul.op = V3D_QPU_M_NOP)) inst.alu.mul p =
        qpu_validate_inst_count inst p := fun _ => rfl
    have hsum : ¬ (sig_bit_value inst.sig.small_imm_a + sig_bit_value inst.sig.small_imm_b +
        sig_bit_value inst.sig.small_imm_c + sig_bit_value inst.sig.small_imm_d > 1) := by
      have h1 := sig_bit_value_nonpos inst.sig.small_imm_a
      have h2 := sig_bit_value_nonpos inst.sig.small_imm_b
      have h3 := sig_bit_value_nonpos inst.sig.small_imm_c
      have h4 := sig_bit_value_nonpos inst.sig.small_imm_d
      omega
    unfold qpu_validate_inst at h ⊢
    dsimp only at h ⊢
    simp only [hcnt] at h ⊢
    rw [if_neg (fun h => hnb h.1), if_neg hnn] at h ⊢
    by_cases c1 : inst.alu.add.op = V3D_QPU_A_SETMSF ∧ state.first_tlb_z_write ≥ 0 ∧
        state.ip > state.first_tlb_z_write
    · rw [if_pos c1]
      simp only [fail_instr]; decide
    rw [if_neg c1] at h ⊢
    by_cases c2 : state.first_tlb_z_write ≥ 0 ∧ state.ip > state.first_tlb_z_write ∧
        inst.alu.add.op = V3D_QPU_A_MSF
    · rw [if_pos c2]
      simp only [fail_instr]; decide
    rw [if_neg c2] at h ⊢
    by_cases c3 : state.devinfo.ver < 71 ∧
        (inst.sig.small_imm_a || inst.sig.small_imm_c || inst.sig.small_imm_d) = true
    · rw [if_pos c3]
      simp only [fail_instr]; decide
    rw [if_neg c3] at h ⊢
    by_cases c4 : ¬ state.devinfo.ver < 71 ∧ (inst.sig.small_imm_a || inst.sig.small_imm_b) = true ∧
        ¬ (inst.type = V3D_QPU_INSTR_TYPE_ALU ∧ inst.alu.add.op ≠ V3D_QPU_A_NOP)
    · rw [if_pos c4]
      simp only [fail_instr]; decide
    rw [if_neg c4] at h ⊢
    by_cases c5 : ¬ state.devinfo.ver < 71 ∧ (inst.sig.small_imm_c || inst.sig.small_imm_d) = true ∧
        ¬ (inst.type = V3D_QPU_INSTR_TYPE_ALU ∧ inst.alu.mul.op ≠ V3D_QPU_M_NOP)
    · rw [if_pos c5]
      simp only [fail_instr]; decide
    rw [if_neg c5] at h ⊢
    have c6 : ¬ (¬ state.devinfo.ver < 71 ∧
        sig_bit_value inst.sig.small_imm_a + sig_bit_value inst.sig.small_imm_b +
        sig_bit_value inst.sig.small_imm_c + sig_bit_value inst.sig.small_imm_d > 1) :=
      fun hh => hsum hh.2
    rw [if_neg c6] at h ⊢
    rcases hl : state.last with _ | last
    · rw [hl] at h
      simp only [Bool.false_and, Bool.or_self, Bool.false_eq_true, and_false, if_false] at h ⊢
      by_cases c9 : in_thrsw_delay_slots state = true ∧
              qpu_validate_inst_count inst v3d_qpu_magic_waddr_is_sfu ≠ 0
      · rw [if_pos c9]
        simp only [fail_instr]; decide
      rw [if_neg c9] at h ⊢
      by_cases c10 : in_thrsw_delay_slots state = true ∧ inst.sig.ldvary = true ∧
          state.devinfo.ver = 42
      · rw [if_pos c10]
        simp only [fail_instr]; decide
      rw [if_neg c10] at h ⊢
      by_cases c11 : in_thrsw_delay_slots state = true ∧ inst.sig.ldvary = true ∧
              state.devinfo.ver ≥ 71 ∧ state.ip - state.last_thrsw_ip = 2
      · rw [if_pos c11]
        simp only [fail_instr]; decide
      rw [if_neg c11] at h ⊢
      have := q3 h
      simp only [V3D_QPU_VALIDATE_ERROR_MAX_ONE_SMALL_IMMEDIATE_PER_INSTRUCTION]
      omega
    · rw [hl] at h
      simp only [] at h ⊢
      by_cases c7 : (last.sig.ldvary && (inst.sig.ldunif || inst.sig.ldunifa)) = true
      · rw [if_pos c7]
        simp only [fail_instr]; decide
      rw [if_neg c7] at h ⊢
      by_cases c8 : state.devinfo.ver < 42 ∧
          (((last.sig.ldunif || last.sig.ldunifrf) && (inst.sig.ldunifa || inst.sig.ldunifarf)) ||
           ((last.sig.ldunifa || last.sig.ldunifarf) && (inst.sig.ldunif || inst.sig.ldunifrf))) =
            true
      · rw [if_pos c8]
        simp only [fail_instr]; decide
      rw [if_neg c8] at h ⊢
      by_cases c9 : in_thrsw_delay_slots state = true ∧
              qpu_validate_inst_count inst v3d_qpu_magic_waddr_is_sfu ≠ 0
      · rw [if_pos c9]
        simp only [fail_instr]; decide
      rw [if_neg c9] at h ⊢
      by_cases c10 : in_thrsw_delay_slots state = true ∧ inst.sig.ldvary = true ∧
          state.devinfo.ver = 42
      · rw [if_pos c10]
        simp only [fail_instr]; decide
      rw [if_neg c10] at h ⊢
      by_cases c11 : in_thrsw_delay_slots state = true ∧ inst.sig.ldvary = true ∧
              state.devinfo.ver ≥ 71 ∧ state.ip - state.last_thrsw_ip = 2
      · rw [if_pos c11]
        simp only [fail_instr]; decide
      rw [if_neg c11] at h ⊢
      have := q3 h
      simp only [V3D_QPU_VALIDATE_ERROR_MAX_ONE_SMALL_IMMEDIATE_PER_INSTRUCTION]
      omega
  · rw [qpu_validate_inst_non_alu state inst halu] at h ⊢
    split_ifs at h ⊢
    simp only [fail_instr]
    decide

/-- The error of a loop that reports an index is never
MAX_ONE_SMALL_IMMEDIATE_PER_INSTRUCTION. -/
theorem v3d_qpu_validate_loop_reject_ne_max_one (l : List v3d_qpu_instr) :
    ∀ (index : Int) (state : v3d_qpu_validate_state),
      (v3d_qpu_validate_loop l index state).1 ≠ none →
      (v3d_qpu_validate_loop l index state).2.error ≠
        V3D_QPU_VALIDATE_ERROR_MAX_ONE_SMALL_IMMEDIATE_PER_INSTRUCTION := by
  induction l with
  | nil => intro index state h; exact absurd rfl h
  | cons x xs ih =>
    intro index state h
    unfold v3d_qpu_validate_loop at h ⊢
    dsimp only at h ⊢
    by_cases c : (qpu_validate_inst state x).1 = false
    · rw [if_pos c]
      exact qpu_validate_inst_reject_ne_max_one state x c
    · rw [if_neg c] at h ⊢
      exact ih _ _ h

set_option maxRecDepth 1000000 in
/-- C15 (failing input): at version 42 `v3d_qpu_validate` returns TRUE on the
program of three ALU instructions whose first instruction is a NOP/NOP carrying
both ldvpm and ldtlb, where the count of the claim is 2.  It also returns TRUE
on the program whose first instruction writes the magic address TMUD from a
FADD, the magic address RECIP (an SFU register) from a FMUL and carries ldtlb,
where the count is 3; without the ldtlb signal that program is rejected with
ONLY_ONE_OF_TMU_SFU_TSY_TLB_READ_VPM_ALLOWED.  The signal members are one-bit
`char` bit-fields that read -1 when set, so each signal lowers the sum the rule
compares with 1 instead of raising it. -/
theorem validate_accepts_ldvpm_with_ldtlb :
    (v3d_qpu_validate { ver := 42 }
      [ { type := V3D_QPU_INSTR_TYPE_ALU, sig := { ldvpm := true, ldtlb := true },
          alu := { add := { op := V3D_QPU_A_NOP, waddr := V3D_QPU_WADDR_NOP, magic_write := true },
                   mul := { op := V3D_QPU_M_NOP, waddr := V3D_QPU_WADDR_NOP, magic_write := true } } },
        { type := V3D_QPU_INSTR_TYPE_ALU,
          alu := { add := { op := V3D_QPU_A_NOP, waddr := V3D_QPU_WADDR_NOP, magic_write := true },
                   mul := { op := V3D_QPU_M_NOP, waddr := V3D_QPU_WADDR_NOP, magic_write := true } } },
        { type := V3D_QPU_INSTR_TYPE_ALU,
          alu := { add := { op := V3D_QPU_A_NOP, waddr := V3D_QPU_WADDR_NOP, magic_write := true },
                   mul := { op := V3D_QPU_M_NOP, waddr := V3D_QPU_WADDR_NOP, magic_write := true } } } ]
      {}).1 = true ∧
    (v3d_qpu_validate { ver := 42 }
      [ { type := V3D_QPU_INSTR_TYPE_ALU, sig := { ldtlb := true },
          alu := { add := { op := V3D_QPU_A_FADD, waddr := V3D_QPU_WADDR_TMUD, magic_write := true },
                   mul := { op := V3D_QPU_M_FMUL, waddr := V3D_QPU_WADDR_RECIP, magic_write := true } } },
        { type := V3D_QPU_INSTR_TYPE_ALU,
          alu := { add := { op := V3D_QPU_A_NOP, waddr := V3D_QPU_WADDR_NOP, magic_write := true },
                   mul := { op := V3D_QPU_M_NOP, waddr := V3D_QPU_WADDR_NOP, magic_write := true } } },
        { type := V3D_QPU_INSTR_TYPE_ALU,
          alu := { add := { op := V3D_QPU_A_NOP, waddr := V3D_QPU_WADDR_NOP, magic_write := true },
                   mul := { op := V3D_QPU_M_NOP, waddr := V3D_QPU_WADDR_NOP, magic_write := true } } } ]
      {}).1 = true ∧
    v3d_qpu_validate { ver := 42 }
      [ { type := V3D_QPU_INSTR_TYPE_ALU,
          alu := { add := { op := V3D_QPU_A_FADD, waddr := V3D_QPU_WADDR_TMUD, magic_write := true },
                   mul := { op := V3D_QPU_M_FMUL, waddr := V3D_QPU_WADDR_RECIP, magic_write := true } } },
        { type := V3D_QPU_INSTR_TYPE_ALU,
          alu := { add := { op := V3D_QPU_A_NOP, waddr := V3D_QPU_WADDR_NOP, magic_write := true },
                   mul := { op := V3D_QPU_M_NOP, waddr := V3D_QPU_WADDR_NOP, magic_write := true } } },
        { type := V3D_QPU_INSTR_TYPE_ALU,
          alu := { add := { op := V3D_QPU_A_NOP, waddr := V3D_QPU_WADDR_NOP, magic_write := true },
                   mul := { op := V3D_QPU_M_NOP, waddr := V3D_QPU_WADDR_NOP, magic_write := true } } } ]
      {} =
      (false, { errorInstructionIndex := 0,
                errorMessage := some "Only one of [TMU, SFU, TSY, TLB read, VPM] allowed",
                error := V3D_QPU_VALIDATE_ERROR_ONLY_ONE_OF_TMU_SFU_TSY_TLB_READ_VPM_ALLOWED }) := by
  decide

/-- C15 (what the code enforces): if `v3d_qpu_validate` returns TRUE for a
sequence, then for every ALU instruction in it the number of TMU, SFU, VPM, TLB
and TSY magic writes by non-NOP add and mul ops is at most 1 plus the number
of the signals ldtmu (at version 42), ldtlb, ldvpm and ldtlbu the instruction
carries: a set signal member reads -1 in the sum the rule compares with 1. -/
theorem validate_accepts_resource_count (devinfo : v3d_device_info)
    (instructions : List v3d_qpu_instr) (results : v3d_qpu_validate_result)
    (inst : v3d_qpu_instr)
    (h : (v3d_qpu_validate devinfo instructions results).1 = true)
    (hmem : inst ∈ instructions) (halu : inst.type = V3D_QPU_INSTR_TYPE_ALU) :
    qpu_validate_count_writes (decide (inst.alu.add.op = V3D_QPU_A_NOP)) inst.alu.add
        (v3d_qpu_magic_waddr_is_tmu devinfo) +
      qpu_validate_count_writes (decide (inst.alu.mul.op = V3D_QPU_M_NOP)) inst.alu.mul
        (v3d_qpu_magic_waddr_is_tmu devinfo) +
      (qpu_validate_count_writes (decide (inst.alu.add.op = V3D_QPU_A_NOP)) inst.alu.add
        v3d_qpu_magic_waddr_is_sfu +
      qpu_validate_count_writes (decide (inst.alu.mul.op = V3D_QPU_M_NOP)) inst.alu.mul
        v3d_qpu_magic_waddr_is_sfu) +
      (qpu_validate_count_writes (decide (inst.alu.add.op = V3D_QPU_A_NOP)) inst.alu.add
        v3d_qpu_magic_waddr_is_vpm +
      qpu_validate_count_writes (decide (inst.alu.mul.op = V3D_QPU_M_NOP)) inst.alu.mul
        v3d_qpu_magic_waddr_is_vpm) +
      (qpu_validate_count_writes (decide (inst.alu.add.op = V3D_QPU_A_NOP)) inst.alu.add
        v3d_qpu_magic_waddr_is_tlb +
      qpu_validate_count_writes (decide (inst.alu.mul.op = V3D_QPU_M_NOP)) inst.alu.mul
        v3d_qpu_magic_waddr_is_tlb) +
      (qpu_validate_count_writes (decide (inst.alu.add.op = V3D_QPU_A_NOP)) inst.alu.add
        v3d_qpu_magic_waddr_is_tsy +
      qpu_validate_count_writes (decide (inst.alu.mul.op = V3D_QPU_M_NOP)) inst.alu.mul
        v3d_qpu_magic_waddr_is_tsy) ≤
      1 + (if devinfo.ver = 42 ∧ inst.sig.ldtmu = true then 1 else 0) +
        (if inst.sig.ldtlb = true then 1 else 0) + (if inst.sig.ldvpm = true then 1 else 0) +
        (if inst.sig.ldtlbu = true then 1 else 0) := by
  obtain ⟨pre, post, he⟩ := List.append_of_mem hmem
  obtain ⟨state, _, _, hdev, _, _, hacc⟩ :=
    v3d_qpu_validate_true_accept devinfo instructions results h pre inst post he
  have hc := (qpu_validate_inst_alu_accept state inst halu hacc).2.1
  rw [hdev] at hc
  unfold qpu_validate_inst_count at hc
  unfold sig_bit_value at hc
  split_ifs at hc ⊢ <;> simp_all

set_option maxRecDepth 1000000 in
theorem validate_accepts_resource_count_witness :
    qpu_validate_count_writes (decide (V3D_QPU_A_FADD = V3D_QPU_A_NOP))
        { op := V3D_QPU_A_FADD, waddr := V3D_QPU_WADDR_TMUD, magic_write := true }
        (v3d_qpu_magic_waddr_is_tmu { ver := 42 }) +
      qpu_validate_count_writes (decide (V3D_QPU_M_FMUL = V3D_QPU_M_NOP))
        { op := V3D_QPU_M_FMUL, waddr := V3D_QPU_WADDR_RECIP, magic_write := true }
        (v3d_qpu_magic_waddr_is_tmu { ver := 42 }) +
      (qpu_validate_count_writes (decide (V3D_QPU_A_FADD = V3D_QPU_A_NOP))
        { op := V3D_QPU_A_FADD, waddr := V3D_QPU_WADDR_TMUD, magic_write := true }
        v3d_qpu_magic_waddr_is_sfu +
      qpu_validate_count_writes (decide (V3D_QPU_M_FMUL = V3D_QPU_M_NOP))
        { op := V3D_QPU_M_FMUL, waddr := V3D_QPU_WADDR_RECIP, magic_write := true }
        v3d_qpu_magic_waddr_is_sfu) +
      (qpu_validate_count_writes (decide (V3D_QPU_A_FADD = V3D_QPU_A_NOP))
        { op := V3D_QPU_A_FADD, waddr := V3D_QPU_WADDR_TMUD, magic_write := true }
        v3d_qpu_magic_waddr_is_vpm +
      qpu_validate_count_writes (decide (V3D_QPU_M_FMUL = V3D_QPU_M_NOP))
        { op := V3D_QPU_M_FMUL, waddr := V3D_QPU_WADDR_RECIP, magic_write := true }
        v3d_qpu_magic_waddr_is_vpm) +
      (qpu_validate_count_writes (decide (V3D_QPU_A_FADD = V3D_QPU_A_NOP))
        { op := V3D_QPU_A_FADD, waddr := V3D_QPU_WADDR_TMUD, magic_write := true }
        v3d_qpu_magic_waddr_is_tlb +
      qpu_validate_count_writes (decide (V3D_QPU_M_FMUL = V3D_QPU_M_NOP))
        { op := V3D_QPU_M_FMUL, waddr := V3D_QPU_WADDR_RECIP, magic_write := true }
        v3d_qpu_magic_waddr_is_tlb) +
      (qpu_validate_count_writes (decide (V3D_QPU_A_FADD = V3D_QPU_A_NOP))
        { op := V3D_QPU_A_FADD, waddr := V3D_QPU_WADDR_TMUD, magic_write := true }
        v3d_qpu_magic_waddr_is_tsy +
      qpu_validate_count_writes (decide (V3D_QPU_M_FMUL = V3D_QPU_M_NOP))
        { op := V3D_QPU_M_FMUL, waddr := V3D_QPU_WADDR_RECIP, magic_write := true }
        v3d_qpu_magic_waddr_is_tsy) ≤
      1 + (if (42 : Nat) = 42 ∧ false = true then 1 else 0) +
        (if true = true then 1 else 0) + (if false = true then 1 else 0) +
        (if false = true then 1 else 0) :=
  validate_accepts_resource_count { ver := 42 }
    [ { type := V3D_QPU_INSTR_TYPE_ALU, sig := { ldtlb := true },
        alu := { add := { op := V3D_QPU_A_FADD, waddr := V3D_QPU_WADDR_TMUD, magic_write := true },
                 mul := { op := V3D_QPU_M_FMUL, waddr := V3D_QPU_WADDR_RECIP, magic_write := true } } },
      { type := V3D_QPU_INSTR_TYPE_ALU,
        alu := { add := { op := V3D_QPU_A_NOP, waddr := V3D_QPU_WADDR_NOP, magic_write := true },
                 mul := { op := V3D_QPU_M_NOP, waddr := V3D_QPU_WADDR_NOP, magic_write := true } } },
      { type := V3D_QPU_INSTR_TYPE_ALU,
        alu := { add := { op := V3D_QPU_A_NOP, waddr := V3D_QPU_WADDR_NOP, magic_write := true },
                 mul := { op := V3D_QPU_M_NOP, waddr := V3D_QPU_WADDR_NOP, magic_write := true } } } ]
    {}
    { type := V3D_QPU_INSTR_TYPE_ALU, sig := { ldtlb := true },
      alu := { add := { op := V3D_QPU_A_FADD, waddr := V3D_QPU_WADDR_TMUD, magic_write := true },
               mul := { op := V3D_QPU_M_FMUL, waddr := V3D_QPU_WADDR_RECIP, magic_write := true } } }
    (by decide) (by decide) rfl

set_option maxRecDepth 1000000 in
/-- C16 (failing input): at version 71 `v3d_qpu_validate` returns TRUE on the
program of three ALU instructions whose first instruction is a FADD carrying
both small_imm_a and small_imm_b, and on the program whose first instruction
is a FADD with a FMUL carrying all four small-immediate signals.  The four
signal members are one-bit `char` bit-fields that read -1 when set, so their
sum is never above 1. -/
theorem validate_accepts_two_small_imm :
    (v3d_qpu_validate { ver := 71 }
      [ { type := V3D_QPU_INSTR_TYPE_ALU, sig := { small_imm_a := true, small_imm_b := true },
          alu := { add := { op := V3D_QPU_A_FADD }, mul := { op := V3D_QPU_M_NOP } } },
        { type := V3D_QPU_INSTR_TYPE_ALU,
          alu := { add := { op := V3D_QPU_A_NOP }, mul := { op := V3D_QPU_M_NOP } } },
        { type := V3D_QPU_INSTR_TYPE_ALU,
          alu := { add := { op := V3D_QPU_A_NOP }, mul := { op := V3D_QPU_M_NOP } } } ] {}).1 = true ∧
    (v3d_qpu_validate { ver := 71 }
      [ { type := V3D_QPU_INSTR_TYPE_ALU,
          sig := { small_imm_a := true, small_imm_b := true, small_imm_c := true,
                   small_imm_d := true },
          alu := { add := { op := V3D_QPU_A_FADD }, mul := { op := V3D_QPU_M_FMUL } } },
        { type := V3D_QPU_INSTR_TYPE_ALU,
          alu := { add := { op := V3D_QPU_A_NOP }, mul := { op := V3D_QPU_M_NOP } } },
        { type := V3D_QPU_INSTR_TYPE_ALU,
          alu := { add := { op := V3D_QPU_A_NOP }, mul := { op := V3D_QPU_M_NOP } } } ] {}).1 = true := by
  decide

/-- C16 (what the code enforces): if `v3d_qpu_validate` returns TRUE, then for
every ALU instruction of the sequence: at a version below 71 none of
small_imm_a, small_imm_c, small_imm_d is set; at version 71 or later
small_imm_a or small_imm_b set implies that the add operation is not NOP, and
small_imm_c or small_imm_d set implies that the mul operation is not NOP.  The
rule that at most one of the four signals is set is never applied: whenever
`v3d_qpu_validate` returns FALSE, at any version and on any sequence, the error
is not MAX_ONE_SMALL_IMMEDIATE_PER_INSTRUCTION. -/
theorem validate_small_imm_rules_enforced (devinfo : v3d_device_info)
    (instructions : List v3d_qpu_instr) (results : v3d_qpu_validate_result) :
    ((v3d_qpu_validate devinfo instructions results).1 = true →
      ∀ inst ∈ instructions, inst.type = V3D_QPU_INSTR_TYPE_ALU →
        (devinfo.ver < 71 →
          inst.sig.small_imm_a = false ∧ inst.sig.small_imm_c = false ∧
          inst.sig.small_imm_d = false) ∧
        (devinfo.ver ≥ 71 →
          (inst.sig.small_imm_a = true ∨ inst.sig.small_imm_b = true →
            inst.alu.add.op ≠ V3D_QPU_A_NOP) ∧
          (inst.sig.small_imm_c = true ∨ inst.sig.small_imm_d = true →
            inst.alu.mul.op ≠ V3D_QPU_M_NOP))) ∧
    ((v3d_qpu_validate devinfo instructions results).1 = false →
      (v3d_qpu_validate devinfo instructions results).2.error ≠
        V3D_QPU_VALIDATE_ERROR_MAX_ONE_SMALL_IMMEDIATE_PER_INSTRUCTION) := by
  constructor
  · intro h inst hmem halu
    obtain ⟨pre, post, he⟩ := List.append_of_mem hmem
    obtain ⟨state, _, _, hdev, _, _, hacc⟩ :=
      v3d_qpu_validate_true_accept devinfo instructions results h pre inst post he
    obtain ⟨c3, c4, c5, _, _⟩ := (qpu_validate_inst_alu_accept state inst halu hacc).1
    rw [hdev] at c3 c4 c5
    constructor
    · intro hv
      have c3' : ¬ (inst.sig.small_imm_a || inst.sig.small_imm_c || inst.sig.small_imm_d) = true :=
        fun hh => c3 ⟨hv, hh⟩
      revert c3'
      cases inst.sig.small_imm_a <;> cases inst.sig.small_imm_c <;>
        cases inst.sig.small_imm_d <;> simp
    · intro hv
      have hv' : ¬ devinfo.ver < 71 := not_lt.mpr hv
      refine ⟨?_, ?_⟩
      · intro hab hnop
        refine c4 ⟨hv', ?_, fun hh => hh.2 hnop⟩
        rcases hab with hab | hab <;> simp [hab]
      · intro hcd hnop
        refine c5 ⟨hv', ?_, fun hh => hh.2 hnop⟩
        rcases hcd with hcd | hcd <;> simp [hcd]
  · intro h
    unfold v3d_qpu_validate at h ⊢
    dsimp only at h ⊢
    generalize hlp : v3d_qpu_validate_loop instructions 0 _ = lp at h ⊢
    have hrej : lp.1 ≠ none → lp.2.error ≠
        V3D_QPU_VALIDATE_ERROR_MAX_ONE_SMALL_IMMEDIATE_PER_INSTRUCTION := by
      rw [← hlp]
      exact v3d_qpu_validate_loop_reject_ne_max_one instructions 0 _
    obtain ⟨lp1, lp2⟩ := lp
    cases lp1 with
    | none =>
      simp only [Option.isSome_none, true_and] at h ⊢
      split_ifs at h ⊢ <;> simp_all [fail_instr]
    | some e =>
      have := hrej (by simp)
      simp only [Option.isSome_some, Bool.true_eq_false, false_and, if_false, if_true]
      exact this

end V3D
